import Mathlib

open Matrix

/-!
Verification development for the adjoint-transform core: the operator family
from `pennylane/ops/qubit/qchem_ops.py`, the transform from
`pennylane/transforms/adjoint.py`, and the queuing/tape model they rely on.

Structural definitions are generic over a field `R` of parameter values
(the source works with Python floats; claims are stated over `ℝ`).
-/

/-- Operator datatype: one constructor per concrete gate family appearing in
the source (the seven quantum-chemistry kinds of `qchem_ops.py`, the
primitive gates their decompositions emit, and the generic `Adjoint`
wrapper from `pennylane.ops.arithmetic`).  Parameters are scalars in `R`,
wires are lists of site identifiers. -/
inductive Op (R : Type) where
  | SingleExcitation (phi : R) (wires : List ℕ)
  | SingleExcitationMinus (phi : R) (wires : List ℕ)
  | SingleExcitationPlus (phi : R) (wires : List ℕ)
  | DoubleExcitation (phi : R) (wires : List ℕ)
  | DoubleExcitationPlus (phi : R) (wires : List ℕ)
  | DoubleExcitationMinus (phi : R) (wires : List ℕ)
  | OrbitalRotation (phi : R) (wires : List ℕ)
  | PauliX (wire : ℕ)
  | Hadamard (wire : ℕ)
  | RY (phi : R) (wire : ℕ)
  | CNOT (wires : List ℕ)
  | CRY (phi : R) (wires : List ℕ)
  | ControlledPhaseShift (phi : R) (wires : List ℕ)
  | Adjoint (base : Op R)
  deriving DecidableEq

/-- Base of an operator: for the `Adjoint` wrapper its wrapped operator
(`Adjoint.base` in the source), identity on anything else. -/
def Op.base {R : Type} : Op R → Op R
  | .Adjoint b => b
  | o => o

/-- Tape: the ordered capture of operators emitted during one recording
session (`pennylane.tape.QuantumTape`); only its `operations` list matters
for the transform. -/
structure QuantumTape (R : Type) where
  operations : List (Op R)
  deriving DecidableEq

/-- Model of a zero-argument quantum procedure at a fixed choice of call
arguments: invoking it emits `emitted` (in construction order) onto the
active tape and returns `result`.  In `adjoint.py` the return value is only
consulted when nothing was emitted, in which case the code does
`tape = res` and reads `tape.operations`; so the model keeps the returned
value as a tape. -/
structure Procedure (R : Type) where
  emitted : List (Op R)
  result : QuantumTape R
  deriving DecidableEq

/-- Operations captured by the inner tape of `wrapper` (`adjoint.py` lines
130-135): the ops emitted by `fn`, or, when that list is empty, the
operations of the returned tape. -/
def tapeOps {R : Type} (p : Procedure R) : List (Op R) :=
  match p.emitted with
  | [] => p.result.operations
  | l => l

/-- Line 137 of `adjoint.py`:
`adjoint_ops = [Adjoint(op) for op in reversed(tape.operations)]`. -/
def adjointOps {R : Type} (p : Procedure R) : List (Op R) :=
  (tapeOps p).reverse.map Op.Adjoint

/-- Return value of `wrapper`: a single operator or a list of operators
(`adjoint.py` line 139). -/
inductive WrapperResult (R : Type) where
  | single (op : Op R)
  | several (ops : List (Op R))
  deriving DecidableEq

/-- Line 139 of `adjoint.py`:
`return adjoint_ops[0] if len(adjoint_ops) == 1 else adjoint_ops`. -/
def wrapperOutput {R : Type} (p : Procedure R) : WrapperResult R :=
  match adjointOps p with
  | [a] => .single a
  | l => .several l

/-- Full effect of invoking the wrapper with an ambient recording context
active: the adjointed operators are constructed outside `stop_recording`,
so each is appended to the ambient tape in construction order, and the
wrapper's value is returned. -/
def runWrapper {R : Type} (p : Procedure R) (ambient : List (Op R)) :
    WrapperResult R × List (Op R) :=
  (wrapperOutput p, ambient ++ adjointOps p)

/-- The wrapper produced by `adjoint(fn)` is itself a callable that emits
`adjointOps p` when invoked; packaging it back up as a `Procedure` models
nesting `adjoint(adjoint(fn))`.  Its own return value is not a tape (it is
an operator or list), modelled by an empty tape, which is never consulted
because `adjointOps p` is what the outer transform captures. -/
def wrapperProc {R : Type} (p : Procedure R) : Procedure R :=
  { emitted := adjointOps p, result := ⟨[]⟩ }

/-- Procedure that models calling a single operator constructor (for
example `qml.RX` applied to concrete arguments): constructing the operator
emits it and returns it; the returned value is not a tape, modelled by an
empty tape, never consulted because `emitted` is nonempty. -/
def opProc {R : Type} (op : Op R) : Procedure R :=
  { emitted := [op], result := ⟨[]⟩ }

/-- Python values an `adjoint` caller may pass, with the non-callable
misuses listed by the source's test file (`test_adjoint_transform.py`):
an already-constructed operator, a list of operators, a tape. -/
inductive PyObject (R : Type) where
  | callable (p : Procedure R)
  | operator (op : Op R)
  | opList (ops : List (Op R))
  | tape (t : QuantumTape R)

/-- Runtime type name of the received value, as Python's `type(fn)` would
render it inside the error message. -/
def PyObject.typeName {R : Type} : PyObject R → String
  | .callable _ => "function"
  | .operator _ => "Operator"
  | .opList _ => "list"
  | .tape _ => "QuantumTape"

/-- Whether the received value is callable (`callable(fn)` in the source). -/
def PyObject.isCallable {R : Type} : PyObject R → Bool
  | .callable _ => true
  | _ => false

/-- Error message of `adjoint.py` lines 122-126, naming the runtime type of
the received value. -/
def adjointErrorMsg {R : Type} (obj : PyObject R) : String :=
  "The object of type " ++ obj.typeName ++
    " is not callable. This error might occur if you apply adjoint to a list of operations instead of a function or template."

/-- The `adjoint` entry point (`adjoint.py` lines 121-141) together with
the recording state it observes: given the received object and the ambient
recorded-operation list, it either rejects a non-callable with a
`ValueError` or returns the wrapper closure.  Neither branch records
anything: the state component is returned unchanged, mirroring that the
check happens before any tape is opened and that building a closure does
not queue operators. -/
def adjointTransform {R : Type} (obj : PyObject R) (st : List (Op R)) :
    Except String (Procedure R) × List (Op R) :=
  match obj with
  | .callable p => (.ok (wrapperProc p), st)
  | o => (.error (adjointErrorMsg o), st)

/-- `SingleExcitation.compute_decomposition` (`qchem_ops.py` lines 128-133);
`wires.getD i 0` models the source's `wires[i]` indexing. -/
def SingleExcitation.compute_decomposition {R : Type} [Field R]
    (phi : R) (wires : List ℕ) : List (Op R) :=
  [ .CNOT [wires.getD 0 0, wires.getD 1 0],
    .CRY phi [wires.getD 1 0, wires.getD 0 0],
    .CNOT [wires.getD 0 0, wires.getD 1 0] ]

/-- `SingleExcitationMinus.compute_decomposition` (`qchem_ops.py` lines
233-244). -/
def SingleExcitationMinus.compute_decomposition {R : Type} [Field R]
    (phi : R) (wires : List ℕ) : List (Op R) :=
  [ .PauliX (wires.getD 0 0),
    .PauliX (wires.getD 1 0),
    .ControlledPhaseShift (-phi / 2) [wires.getD 1 0, wires.getD 0 0],
    .PauliX (wires.getD 0 0),
    .PauliX (wires.getD 1 0),
    .ControlledPhaseShift (-phi / 2) [wires.getD 0 0, wires.getD 1 0],
    .CNOT [wires.getD 0 0, wires.getD 1 0],
    .CRY phi [wires.getD 1 0, wires.getD 0 0],
    .CNOT [wires.getD 0 0, wires.getD 1 0] ]

/-- `SingleExcitationPlus.compute_decomposition` (`qchem_ops.py` lines
344-355). -/
def SingleExcitationPlus.compute_decomposition {R : Type} [Field R]
    (phi : R) (wires : List ℕ) : List (Op R) :=
  [ .PauliX (wires.getD 0 0),
    .PauliX (wires.getD 1 0),
    .ControlledPhaseShift (phi / 2) [wires.getD 1 0, wires.getD 0 0],
    .PauliX (wires.getD 0 0),
    .PauliX (wires.getD 1 0),
    .ControlledPhaseShift (phi / 2) [wires.getD 0 0, wires.getD 1 0],
    .CNOT [wires.getD 0 0, wires.getD 1 0],
    .CRY phi [wires.getD 1 0, wires.getD 0 0],
    .CNOT [wires.getD 0 0, wires.getD 1 0] ]

/-- `DoubleExcitation.compute_decomposition` (`qchem_ops.py` lines
502-533). -/
def DoubleExcitation.compute_decomposition {R : Type} [Field R]
    (phi : R) (wires : List ℕ) : List (Op R) :=
  [ .CNOT [wires.getD 2 0, wires.getD 3 0],
    .CNOT [wires.getD 0 0, wires.getD 2 0],
    .Hadamard (wires.getD 3 0),
    .Hadamard (wires.getD 0 0),
    .CNOT [wires.getD 2 0, wires.getD 3 0],
    .CNOT [wires.getD 0 0, wires.getD 1 0],
    .RY (phi / 8) (wires.getD 1 0),
    .RY (-phi / 8) (wires.getD 0 0),
    .CNOT [wires.getD 0 0, wires.getD 3 0],
    .Hadamard (wires.getD 3 0),
    .CNOT [wires.getD 3 0, wires.getD 1 0],
    .RY (phi / 8) (wires.getD 1 0),
    .RY (-phi / 8) (wires.getD 0 0),
    .CNOT [wires.getD 2 0, wires.getD 1 0],
    .CNOT [wires.getD 2 0, wires.getD 0 0],
    .RY (-phi / 8) (wires.getD 1 0),
    .RY (phi / 8) (wires.getD 0 0),
    .CNOT [wires.getD 3 0, wires.getD 1 0],
    .Hadamard (wires.getD 3 0),
    .CNOT [wires.getD 0 0, wires.getD 3 0],
    .RY (-phi / 8) (wires.getD 1 0),
    .RY (phi / 8) (wires.getD 0 0),
    .CNOT [wires.getD 0 0, wires.getD 1 0],
    .CNOT [wires.getD 2 0, wires.getD 0 0],
    .Hadamard (wires.getD 0 0),
    .Hadamard (wires.getD 3 0),
    .CNOT [wires.getD 0 0, wires.getD 2 0],
    .CNOT [wires.getD 2 0, wires.getD 3 0] ]

/-- `OrbitalRotation.compute_decomposition` (`qchem_ops.py` lines
839-853). -/
def OrbitalRotation.compute_decomposition {R : Type} [Field R]
    (phi : R) (wires : List ℕ) : List (Op R) :=
  [ .Hadamard (wires.getD 3 0),
    .Hadamard (wires.getD 2 0),
    .CNOT [wires.getD 3 0, wires.getD 1 0],
    .CNOT [wires.getD 2 0, wires.getD 0 0],
    .RY (phi / 2) (wires.getD 3 0),
    .RY (phi / 2) (wires.getD 2 0),
    .RY (phi / 2) (wires.getD 1 0),
    .RY (phi / 2) (wires.getD 0 0),
    .CNOT [wires.getD 3 0, wires.getD 1 0],
    .CNOT [wires.getD 2 0, wires.getD 0 0],
    .Hadamard (wires.getD 3 0),
    .Hadamard (wires.getD 2 0) ]

/-- Closed-form `adjoint()` methods of the seven quantum-chemistry kinds
(each reads its single parameter and constructs the same kind with the
parameter negated on the same wires); the other kinds in this core declare
no shortcut, modelled by `none`. -/
def adjointShortcut {R : Type} [Field R] : Op R → Option (Op R)
  | .SingleExcitation phi ws => some (.SingleExcitation (-phi) ws)
  | .SingleExcitationMinus phi ws => some (.SingleExcitationMinus (-phi) ws)
  | .SingleExcitationPlus phi ws => some (.SingleExcitationPlus (-phi) ws)
  | .DoubleExcitation phi ws => some (.DoubleExcitation (-phi) ws)
  | .DoubleExcitationPlus phi ws => some (.DoubleExcitationPlus (-phi) ws)
  | .DoubleExcitationMinus phi ws => some (.DoubleExcitationMinus (-phi) ws)
  | .OrbitalRotation phi ws => some (.OrbitalRotation (-phi) ws)
  | _ => none

/-- Method-call view of `adjoint()`: invoking the method on a receiver that
declares the shortcut yields the receiver's state after the call together
with the freshly constructed result.  Each source body only reads
`self.parameters` and `self.wires` and performs no assignment, so the
post-call receiver is the untouched receiver itself. -/
def adjointCall {R : Type} [Field R] (op : Op R) : Option (Op R × Op R) :=
  (adjointShortcut op).map (fun res => (op, res))

/-- Error taxonomy entry for a kind asked to decompose without a
`compute_decomposition` (spec section 7). -/
inductive OpError where
  | decompositionUndefined
  deriving DecidableEq

/-- Modelled from the spec: the `decomposition` dispatcher of the base
`Operator` class is not part of the included source; per spec sections 4.1
and 7 it forwards to the kind's `compute_decomposition` and surfaces a
"decomposition undefined" condition, propagated to the caller, for kinds
that supply none (in this core `DoubleExcitationPlus`,
`DoubleExcitationMinus`, and the primitive gates). -/
def Op.decompose {R : Type} [Field R] : Op R → Except OpError (List (Op R))
  | .SingleExcitation phi ws =>
      .ok (SingleExcitation.compute_decomposition phi ws)
  | .SingleExcitationMinus phi ws =>
      .ok (SingleExcitationMinus.compute_decomposition phi ws)
  | .SingleExcitationPlus phi ws =>
      .ok (SingleExcitationPlus.compute_decomposition phi ws)
  | .DoubleExcitation phi ws =>
      .ok (DoubleExcitation.compute_decomposition phi ws)
  | .OrbitalRotation phi ws =>
      .ok (OrbitalRotation.compute_decomposition phi ws)
  | _ => .error .decompositionUndefined

/-!
Matrix layer.  The computational basis of an `n`-wire register is indexed by
`n`-tuples of bits ordered most-significant-first along the operator's own
wire order (spec section 4.1): the tuple `(q0, q1)` corresponds to the
integer index `2*q0 + q1`, and `(q0, q1, q2, q3)` to `8*q0 + 4*q1 + 2*q2 +
q3`; so index 3 = `0011` is `(false, false, true, true)` and index 12 =
`1100` is `(true, true, false, false)`, matching the source comments.
-/

/-- Basis index type of a two-wire register. -/
abbrev B2 : Type := Bool × Bool

/-- Basis index type of a four-wire register. -/
abbrev B4 : Type := Bool × Bool × Bool × Bool

/-- `INV_SQRT2` from `qchem_ops.py` line 26 (`1 / math.sqrt(2)`). -/
noncomputable def INV_SQRT2 : ℝ := 1 / Real.sqrt 2

/-- Body of `SingleExcitation._matrix` (`qchem_ops.py` lines 100-102) as a
function of the precomputed `c = cos(theta/2)` and `s = sin(theta/2)`:
`diag([1, c, c, 1])` plus `s` times an off-diagonal with `+1` at index
pair `(2, 1)` and `-1` at `(1, 2)`. -/
def seMatCS {α : Type} [ Field α] (c s : α) : Matrix B2 B2 α :=
  Matrix.of fun r k =>
    match r, k with
    | (false, false), (false, false) => 1
    | (false, true), (false, true) => c
    | (false, true), (true, false) => -s
    | (true, false), (false, true) => s
    | (true, false), (true, false) => c
    | (true, true), (true, true) => 1
    | _, _ => 0

/-- `SingleExcitation._matrix` (`qchem_ops.py` lines 93-102). -/
noncomputable def singleExcitationMatrix (phi : ℝ) : Matrix B2 B2 ℝ :=
  seMatCS (Real.cos (phi / 2)) (Real.sin (phi / 2))

/-- Body of `SingleExcitationMinus._matrix` / `SingleExcitationPlus._matrix`
(`qchem_ops.py` lines 196-199 and 307-310) as a function of `c`, `s` and
the corner phase `e`: `diag([e, 0, 0, e]) + diag([0, c, c, 0])` plus the
same `s`-scaled off-diagonal as `SingleExcitation`. -/
def sePhaseMatCS {α : Type} [ Field α] (c s e : α) : Matrix B2 B2 α :=
  Matrix.of fun r k =>
    match r, k with
    | (false, false), (false, false) => e
    | (false, true), (false, true) => c
    | (false, true), (true, false) => -s
    | (true, false), (false, true) => s
    | (true, false), (true, false) => c
    | (true, true), (true, true) => e
    | _, _ => 0

/-- `SingleExcitationMinus._matrix` with `e = exp(-1j*theta/2)`. -/
noncomputable def singleExcitationMinusMatrix (phi : ℝ) : Matrix B2 B2 ℂ :=
  sePhaseMatCS ((Real.cos (phi / 2) : ℝ) : ℂ) ((Real.sin (phi / 2) : ℝ) : ℂ)
    (Complex.exp (-Complex.I * (phi : ℂ) / 2))

/-- `SingleExcitationPlus._matrix` with `e = exp(1j*theta/2)`. -/
noncomputable def singleExcitationPlusMatrix (phi : ℝ) : Matrix B2 B2 ℂ :=
  sePhaseMatCS ((Real.cos (phi / 2) : ℝ) : ℂ) ((Real.sin (phi / 2) : ℝ) : ℂ)
    (Complex.exp (Complex.I * (phi : ℂ) / 2))

/-- Body of `DoubleExcitation._matrix` (`qchem_ops.py` lines 442-445):
identity diagonal with `c` at entries `(3,3)` and `(12,12)`, and the
scattered `-s` at `(3,12)`, `s` at `(12,3)`. -/
def deMatCS {α : Type} [ Field α] (c s : α) : Matrix B4 B4 α :=
  Matrix.of fun r k =>
    match r, k with
    | (false, false, true, true), (false, false, true, true) => c
    | (false, false, true, true), (true, true, false, false) => -s
    | (true, true, false, false), (false, false, true, true) => s
    | (true, true, false, false), (true, true, false, false) => c
    | r, k => if r = k then 1 else 0

/-- `DoubleExcitation._matrix` (`qchem_ops.py` lines 435-445). -/
noncomputable def doubleExcitationMatrix (phi : ℝ) : Matrix B4 B4 ℝ :=
  deMatCS (Real.cos (phi / 2)) (Real.sin (phi / 2))

/-- Body of `DoubleExcitationPlus._matrix` / `DoubleExcitationMinus._matrix`
(`qchem_ops.py` lines 599-606 and 673-679): phase `e` on the diagonal off
the rotation subspace, rotation block on indices 3 and 12. -/
def dePhaseMatCS {α : Type} [ Field α] (c s e : α) : Matrix B4 B4 α :=
  Matrix.of fun r k =>
    match r, k with
    | (false, false, true, true), (false, false, true, true) => c
    | (false, false, true, true), (true, true, false, false) => -s
    | (true, true, false, false), (false, false, true, true) => s
    | (true, true, false, false), (true, true, false, false) => c
    | r, k => if r = k then e else 0

/-- `DoubleExcitationPlus._matrix` with `e = exp(1j*theta/2)`. -/
noncomputable def doubleExcitationPlusMatrix (phi : ℝ) : Matrix B4 B4 ℂ :=
  dePhaseMatCS ((Real.cos (phi / 2) : ℝ) : ℂ) ((Real.sin (phi / 2) : ℝ) : ℂ)
    (Complex.exp (Complex.I * (phi : ℂ) / 2))

/-- `DoubleExcitationMinus._matrix` with `e = exp(-1j*theta/2)`. -/
noncomputable def doubleExcitationMinusMatrix (phi : ℝ) : Matrix B4 B4 ℂ :=
  dePhaseMatCS ((Real.cos (phi / 2) : ℝ) : ℂ) ((Real.sin (phi / 2) : ℝ) : ℂ)
    (Complex.exp (-Complex.I * (phi : ℂ) / 2))

/-- Body of `OrbitalRotation._matrix` (`qchem_ops.py` lines 762-798) as a
function of `c = cos(phi/2)` and `s = sin(phi/2)`: the diagonal
`[1, c, c, c^2, c, 1, c^2, c, c, c^2, 1, c, c^2, c, c, 1]` plus the stacked
off-diagonal rows of the source (row index, column index, value) with the
basis indices written as bit 4-tuples. -/
def orbMatCS {α : Type} [ Field α] (c s : α) : Matrix B4 B4 α :=
  Matrix.of fun r k =>
    match r, k with
    | (false, false, false, false), (false, false, false, false) => 1
    | (false, false, false, true), (false, false, false, true) => c
    | (false, false, false, true), (false, true, false, false) => -s
    | (false, false, true, false), (false, false, true, false) => c
    | (false, false, true, false), (true, false, false, false) => -s
    | (false, false, true, true), (false, false, true, true) => c * c
    | (false, false, true, true), (false, true, true, false) => -(c * s)
    | (false, false, true, true), (true, false, false, true) => -(c * s)
    | (false, false, true, true), (true, true, false, false) => s * s
    | (false, true, false, false), (false, false, false, true) => s
    | (false, true, false, false), (false, true, false, false) => c
    | (false, true, false, true), (false, true, false, true) => 1
    | (false, true, true, false), (false, false, true, true) => c * s
    | (false, true, true, false), (false, true, true, false) => c * c
    | (false, true, true, false), (true, false, false, true) => -(s * s)
    | (false, true, true, false), (true, true, false, false) => -(c * s)
    | (false, true, true, true), (false, true, true, true) => c
    | (false, true, true, true), (true, true, false, true) => -s
    | (true, false, false, false), (false, false, true, false) => s
    | (true, false, false, false), (true, false, false, false) => c
    | (true, false, false, true), (false, false, true, true) => c * s
    | (true, false, false, true), (false, true, true, false) => -(s * s)
    | (true, false, false, true), (true, false, false, true) => c * c
    | (true, false, false, true), (true, true, false, false) => -(c * s)
    | (true, false, true, false), (true, false, true, false) => 1
    | (true, false, true, true), (true, false, true, true) => c
    | (true, false, true, true), (true, true, true, false) => -s
    | (true, true, false, false), (false, false, true, true) => s * s
    | (true, true, false, false), (false, true, true, false) => c * s
    | (true, true, false, false), (true, false, false, true) => c * s
    | (true, true, false, false), (true, true, false, false) => c * c
    | (true, true, false, true), (false, true, true, true) => s
    | (true, true, false, true), (true, true, false, true) => c
    | (true, true, true, false), (true, false, true, true) => s
    | (true, true, true, false), (true, true, true, false) => c
    | (true, true, true, true), (true, true, true, true) => 1
    | _, _ => 0

/-- `OrbitalRotation._matrix` (`qchem_ops.py` lines 756-798). -/
noncomputable def orbitalRotationMatrix (phi : ℝ) : Matrix B4 B4 ℝ :=
  orbMatCS (Real.cos (phi / 2)) (Real.sin (phi / 2))

/-!
Gate matrices of the primitive operations emitted by the decompositions.
These gates belong to parts of the library outside the included source.
-/

/-- Modelled from the spec: bit of a four-wire basis state at a wire. -/
def getB4 (r : B4) (w : ℕ) : Bool :=
  match w with
  | 0 => r.1
  | 1 => r.2.1
  | 2 => r.2.2.1
  | 3 => r.2.2.2
  | _ => false

/-- Modelled from the spec: four-wire basis state with one bit replaced. -/
def setB4 (r : B4) (w : ℕ) (v : Bool) : B4 :=
  match w with
  | 0 => (v, r.2)
  | 1 => (r.1, v, r.2.2)
  | 2 => (r.1, r.2.1, v, r.2.2.2)
  | 3 => (r.1, r.2.1, r.2.2.1, v)
  | _ => r

/-- Modelled from the spec: bit of a two-wire basis state at a wire. -/
def getB2 (r : B2) (w : ℕ) : Bool :=
  match w with
  | 0 => r.1
  | 1 => r.2
  | _ => false

/-- Modelled from the spec: two-wire basis state with one bit replaced. -/
def setB2 (r : B2) (w : ℕ) (v : Bool) : B2 :=
  match w with
  | 0 => (v, r.2)
  | 1 => (r.1, v)
  | _ => r

/-- Modelled from the spec: `PauliX` gate matrix on one wire. -/
def xG {α : Type} [Zero α] [One α] : Matrix Bool Bool α :=
  Matrix.of fun r k =>
    match r, k with
    | false, true => 1
    | true, false => 1
    | _, _ => 0

/-- Modelled from the spec: `Hadamard` gate matrix with entry magnitude `h`
(instantiated at `INV_SQRT2`). -/
def hG {α : Type} [Neg α] (h : α) : Matrix Bool Bool α :=
  Matrix.of fun r k =>
    match r, k with
    | false, false => h
    | false, true => h
    | true, false => h
    | true, true => -h

/-- Modelled from the spec: `RY` rotation block with cosine `c` and sine `s`
of the half angle. -/
def ryG {α : Type} [Neg α] (c s : α) : Matrix Bool Bool α :=
  Matrix.of fun r k =>
    match r, k with
    | false, false => c
    | false, true => -s
    | true, false => s
    | true, true => c

/-- Modelled from the spec: `CNOT` gate matrix in its own wire order
(control first, target second). -/
def cnotG {α : Type} [Zero α] [One α] : Matrix B2 B2 α :=
  Matrix.of fun r k =>
    match r, k with
    | (a, b), (a2, b2) => if a = a2 ∧ b = xor a2 b2 then 1 else 0

/-- Modelled from the spec: `CRY` gate matrix in its own wire order (control
first, target second), with cosine `c` and sine `s` of the half angle. -/
def cryG {α : Type} [Zero α] [One α] [Neg α] (c s : α) : Matrix B2 B2 α :=
  Matrix.of fun r k =>
    match r, k with
    | (false, b), (false, b2) => if b = b2 then 1 else 0
    | (true, b), (true, b2) => ryG c s b b2
    | _, _ => 0

/-- Modelled from the spec: `ControlledPhaseShift` gate matrix with phase
factor `e` on the doubly-occupied state (symmetric in its wires). -/
def cpsG {α : Type} [Zero α] [One α] (e : α) : Matrix B2 B2 α :=
  Matrix.of fun r k =>
    match r, k with
    | (true, true), (true, true) => e
    | (a, b), (a2, b2) => if a = a2 ∧ b = b2 then 1 else 0

/-- Modelled from the spec: one-wire gate placed at wire `w` of a four-wire
register (spec section 4.1 basis convention). -/
def lift1 {α : Type} [Zero α] (w : ℕ) (g : Matrix Bool Bool α) :
    Matrix B4 B4 α :=
  Matrix.of fun r k =>
    if setB4 k w (getB4 r w) = r then g (getB4 r w) (getB4 k w) else 0

/-- Modelled from the spec: two-wire gate placed at the ordered wire pair
`(a, b)` of a four-wire register. -/
def lift2 {α : Type} [Zero α] (a b : ℕ) (g : Matrix B2 B2 α) :
    Matrix B4 B4 α :=
  Matrix.of fun r k =>
    if setB4 (setB4 k a (getB4 r a)) b (getB4 r b) = r then
      g (getB4 r a, getB4 r b) (getB4 k a, getB4 k b)
    else 0

/-- Modelled from the spec: one-wire gate placed at wire `w` of a two-wire
register. -/
def lift1b2 {α : Type} [Zero α] (w : ℕ) (g : Matrix Bool Bool α) :
    Matrix B2 B2 α :=
  Matrix.of fun r k =>
    if setB2 k w (getB2 r w) = r then g (getB2 r w) (getB2 k w) else 0

/-- Modelled from the spec: two-wire gate placed at the ordered wire pair
`(a, b)` of a two-wire register. -/
def lift2b2 {α : Type} [Zero α] (a b : ℕ) (g : Matrix B2 B2 α) :
    Matrix B2 B2 α :=
  Matrix.of fun r k =>
    if setB2 (setB2 k a (getB2 r a)) b (getB2 r b) = r then
      g (getB2 r a, getB2 r b) (getB2 k a, getB2 k b)
    else 0

/-- Modelled from the spec: real matrix of a decomposition operator on the
two-wire register in the parent's wire order, for the gates appearing in
`SingleExcitation.compute_decomposition`; other operators have no reading
here and are sent to the zero matrix. -/
noncomputable def gateMatrix2R : Op ℝ → Matrix B2 B2 ℝ
  | .CNOT [a, b] => lift2b2 a b cnotG
  | .CRY t [a, b] => lift2b2 a b (cryG (Real.cos (t / 2)) (Real.sin (t / 2)))
  | _ => 0

/-- Modelled from the spec: complex matrix of a decomposition operator on
the two-wire register in the parent's wire order, for the gates appearing
in the decompositions of `SingleExcitationMinus` and
`SingleExcitationPlus`; other operators are sent to the zero matrix. -/
noncomputable def gateMatrix2C : Op ℝ → Matrix B2 B2 ℂ
  | .PauliX w => lift1b2 w xG
  | .CNOT [a, b] => lift2b2 a b cnotG
  | .CRY t [a, b] =>
      lift2b2 a b (cryG ((Real.cos (t / 2) : ℝ) : ℂ) ((Real.sin (t / 2) : ℝ) : ℂ))
  | .ControlledPhaseShift t [a, b] =>
      lift2b2 a b (cpsG (Complex.exp (Complex.I * ((t : ℝ) : ℂ))))
  | _ => 0

/-- Modelled from the spec: real matrix of a decomposition operator on the
four-wire register in the parent's wire order, for the gates appearing in
the decompositions of `DoubleExcitation` and `OrbitalRotation`; other
operators are sent to the zero matrix. -/
noncomputable def gateMatrix4R : Op ℝ → Matrix B4 B4 ℝ
  | .Hadamard w => lift1 w (hG INV_SQRT2)
  | .RY t w => lift1 w (ryG (Real.cos (t / 2)) (Real.sin (t / 2)))
  | .CNOT [a, b] => lift2 a b cnotG
  | _ => 0
/-- Row of an intermediate matrix of the `seq` chain. -/
def seqS3r0 {α : Type} [ Field α] (c s : α) : B2 → α :=
  fun k =>
    match k with
    | (false, false) => 1
    | _ => 0

/-- Row of an intermediate matrix of the `seq` chain. -/
def seqS3r1 {α : Type} [ Field α] (c s : α) : B2 → α :=
  fun k =>
    match k with
    | (false, true) => 1
    | _ => 0

/-- Row of an intermediate matrix of the `seq` chain. -/
def seqS3r2 {α : Type} [ Field α] (c s : α) : B2 → α :=
  fun k =>
    match k with
    | (true, true) => 1
    | _ => 0

/-- Row of an intermediate matrix of the `seq` chain. -/
def seqS3r3 {α : Type} [ Field α] (c s : α) : B2 → α :=
  fun k =>
    match k with
    | (true, false) => 1
    | _ => 0

/-- Suffix product 3 of the `seq` decomposition chain. -/
def seqS3 {α : Type} [ Field α] (c s : α) : Matrix B2 B2 α :=
  Matrix.of fun r =>
    match r with
    | (false, false) => seqS3r0 c s
    | (false, true) => seqS3r1 c s
    | (true, false) => seqS3r2 c s
    | (true, true) => seqS3r3 c s

/-- Row of an intermediate matrix of the `seq` chain. -/
def seqS2r1 {α : Type} [ Field α] (c s : α) : B2 → α :=
  fun k =>
    match k with
    | (false, true) => c
    | (true, false) => -s
    | _ => 0

/-- Row of an intermediate matrix of the `seq` chain. -/
def seqS2r3 {α : Type} [ Field α] (c s : α) : B2 → α :=
  fun k =>
    match k with
    | (false, true) => s
    | (true, false) => c
    | _ => 0

/-- Suffix product 2 of the `seq` decomposition chain. -/
def seqS2 {α : Type} [ Field α] (c s : α) : Matrix B2 B2 α :=
  Matrix.of fun r =>
    match r with
    | (false, false) => seqS3r0 c s
    | (false, true) => seqS2r1 c s
    | (true, false) => seqS3r2 c s
    | (true, true) => seqS2r3 c s

/-- Suffix product 1 of the `seq` decomposition chain. -/
def seqS1 {α : Type} [ Field α] (c s : α) : Matrix B2 B2 α :=
  Matrix.of fun r =>
    match r with
    | (false, false) => seqS3r0 c s
    | (false, true) => seqS2r1 c s
    | (true, false) => seqS2r3 c s
    | (true, true) => seqS3r2 c s

/-- Row of an intermediate matrix of the `sm` chain. -/
def smS9r0 {α : Type} [ Field α] (cc sc e : α) : B2 → α :=
  fun k =>
    match k with
    | (false, false) => 1
    | _ => 0

/-- Row of an intermediate matrix of the `sm` chain. -/
def smS9r1 {α : Type} [ Field α] (cc sc e : α) : B2 → α :=
  fun k =>
    match k with
    | (false, true) => 1
    | _ => 0

/-- Row of an intermediate matrix of the `sm` chain. -/
def smS9r2 {α : Type} [ Field α] (cc sc e : α) : B2 → α :=
  fun k =>
    match k with
    | (true, true) => 1
    | _ => 0

/-- Row of an intermediate matrix of the `sm` chain. -/
def smS9r3 {α : Type} [ Field α] (cc sc e : α) : B2 → α :=
  fun k =>
    match k with
    | (true, false) => 1
    | _ => 0

/-- Suffix product 9 of the `sm` decomposition chain. -/
def smS9 {α : Type} [ Field α] (cc sc e : α) : Matrix B2 B2 α :=
  Matrix.of fun r =>
    match r with
    | (false, false) => smS9r0 cc sc e
    | (false, true) => smS9r1 cc sc e
    | (true, false) => smS9r2 cc sc e
    | (true, true) => smS9r3 cc sc e

/-- Row of an intermediate matrix of the `sm` chain. -/
def smS8r1 {α : Type} [ Field α] (cc sc e : α) : B2 → α :=
  fun k =>
    match k with
    | (false, true) => cc
    | (true, false) => -sc
    | _ => 0

/-- Row of an intermediate matrix of the `sm` chain. -/
def smS8r3 {α : Type} [ Field α] (cc sc e : α) : B2 → α :=
  fun k =>
    match k with
    | (false, true) => sc
    | (true, false) => cc
    | _ => 0

/-- Suffix product 8 of the `sm` decomposition chain. -/
def smS8 {α : Type} [ Field α] (cc sc e : α) : Matrix B2 B2 α :=
  Matrix.of fun r =>
    match r with
    | (false, false) => smS9r0 cc sc e
    | (false, true) => smS8r1 cc sc e
    | (true, false) => smS9r2 cc sc e
    | (true, true) => smS8r3 cc sc e

/-- Suffix product 7 of the `sm` decomposition chain. -/
def smS7 {α : Type} [ Field α] (cc sc e : α) : Matrix B2 B2 α :=
  Matrix.of fun r =>
    match r with
    | (false, false) => smS9r0 cc sc e
    | (false, true) => smS8r1 cc sc e
    | (true, false) => smS8r3 cc sc e
    | (true, true) => smS9r2 cc sc e

/-- Row of an intermediate matrix of the `sm` chain. -/
def smS6r3 {α : Type} [ Field α] (cc sc e : α) : B2 → α :=
  fun k =>
    match k with
    | (true, true) => e
    | _ => 0

/-- Suffix product 6 of the `sm` decomposition chain. -/
def smS6 {α : Type} [ Field α] (cc sc e : α) : Matrix B2 B2 α :=
  Matrix.of fun r =>
    match r with
    | (false, false) => smS9r0 cc sc e
    | (false, true) => smS8r1 cc sc e
    | (true, false) => smS8r3 cc sc e
    | (true, true) => smS6r3 cc sc e

/-- Suffix product 5 of the `sm` decomposition chain. -/
def smS5 {α : Type} [ Field α] (cc sc e : α) : Matrix B2 B2 α :=
  Matrix.of fun r =>
    match r with
    | (false, false) => smS8r1 cc sc e
    | (false, true) => smS9r0 cc sc e
    | (true, false) => smS6r3 cc sc e
    | (true, true) => smS8r3 cc sc e

/-- Suffix product 4 of the `sm` decomposition chain. -/
def smS4 {α : Type} [ Field α] (cc sc e : α) : Matrix B2 B2 α :=
  Matrix.of fun r =>
    match r with
    | (false, false) => smS6r3 cc sc e
    | (false, true) => smS8r3 cc sc e
    | (true, false) => smS8r1 cc sc e
    | (true, true) => smS9r0 cc sc e

/-- Row of an intermediate matrix of the `sm` chain. -/
def smS3r3 {α : Type} [ Field α] (cc sc e : α) : B2 → α :=
  fun k =>
    match k with
    | (false, false) => e
    | _ => 0

/-- Suffix product 3 of the `sm` decomposition chain. -/
def smS3 {α : Type} [ Field α] (cc sc e : α) : Matrix B2 B2 α :=
  Matrix.of fun r =>
    match r with
    | (false, false) => smS6r3 cc sc e
    | (false, true) => smS8r3 cc sc e
    | (true, false) => smS8r1 cc sc e
    | (true, true) => smS3r3 cc sc e

/-- Suffix product 2 of the `sm` decomposition chain. -/
def smS2 {α : Type} [ Field α] (cc sc e : α) : Matrix B2 B2 α :=
  Matrix.of fun r =>
    match r with
    | (false, false) => smS8r3 cc sc e
    | (false, true) => smS6r3 cc sc e
    | (true, false) => smS3r3 cc sc e
    | (true, true) => smS8r1 cc sc e

/-- Suffix product 1 of the `sm` decomposition chain. -/
def smS1 {α : Type} [ Field α] (cc sc e : α) : Matrix B2 B2 α :=
  Matrix.of fun r =>
    match r with
    | (false, false) => smS3r3 cc sc e
    | (false, true) => smS8r1 cc sc e
    | (true, false) => smS8r3 cc sc e
    | (true, true) => smS6r3 cc sc e

/-- Row of an intermediate matrix of the `de` chain. -/
def deS28r0 {α : Type} [ Field α] (c s h : α) : B4 → α :=
  fun k =>
    match k with
    | (false, false, false, false) => 1
    | _ => 0

/-- Row of an intermediate matrix of the `de` chain. -/
def deS28r1 {α : Type} [ Field α] (c s h : α) : B4 → α :=
  fun k =>
    match k with
    | (false, false, false, true) => 1
    | _ => 0

/-- Row of an intermediate matrix of the `de` chain. -/
def deS28r2 {α : Type} [ Field α] (c s h : α) : B4 → α :=
  fun k =>
    match k with
    | (false, false, true, true) => 1
    | _ => 0

/-- Row of an intermediate matrix of the `de` chain. -/
def deS28r3 {α : Type} [ Field α] (c s h : α) : B4 → α :=
  fun k =>
    match k with
    | (false, false, true, false) => 1
    | _ => 0

/-- Row of an intermediate matrix of the `de` chain. -/
def deS28r4 {α : Type} [ Field α] (c s h : α) : B4 → α :=
  fun k =>
    match k with
    | (false, true, false, false) => 1
    | _ => 0

/-- Row of an intermediate matrix of the `de` chain. -/
def deS28r5 {α : Type} [ Field α] (c s h : α) : B4 → α :=
  fun k =>
    match k with
    | (false, true, false, true) => 1
    | _ => 0

/-- Row of an intermediate matrix of the `de` chain. -/
def deS28r6 {α : Type} [ Field α] (c s h : α) : B4 → α :=
  fun k =>
    match k with
    | (false, true, true, true) => 1
    | _ => 0

/-- Row of an intermediate matrix of the `de` chain. -/
def deS28r7 {α : Type} [ Field α] (c s h : α) : B4 → α :=
  fun k =>
    match k with
    | (false, true, true, false) => 1
    | _ => 0

/-- Row of an intermediate matrix of the `de` chain. -/
def deS28r8 {α : Type} [ Field α] (c s h : α) : B4 → α :=
  fun k =>
    match k with
    | (true, false, false, false) => 1
    | _ => 0

/-- Row of an intermediate matrix of the `de` chain. -/
def deS28r9 {α : Type} [ Field α] (c s h : α) : B4 → α :=
  fun k =>
    match k with
    | (true, false, false, true) => 1
    | _ => 0

/-- Row of an intermediate matrix of the `de` chain. -/
def deS28r10 {α : Type} [ Field α] (c s h : α) : B4 → α :=
  fun k =>
    match k with
    | (true, false, true, true) => 1
    | _ => 0

/-- Row of an intermediate matrix of the `de` chain. -/
def deS28r11 {α : Type} [ Field α] (c s h : α) : B4 → α :=
  fun k =>
    match k with
    | (true, false, true, false) => 1
    | _ => 0

/-- Row of an intermediate matrix of the `de` chain. -/
def deS28r12 {α : Type} [ Field α] (c s h : α) : B4 → α :=
  fun k =>
    match k with
    | (true, true, false, false) => 1
    | _ => 0

/-- Row of an intermediate matrix of the `de` chain. -/
def deS28r13 {α : Type} [ Field α] (c s h : α) : B4 → α :=
  fun k =>
    match k with
    | (true, true, false, true) => 1
    | _ => 0

/-- Row of an intermediate matrix of the `de` chain. -/
def deS28r14 {α : Type} [ Field α] (c s h : α) : B4 → α :=
  fun k =>
    match k with
    | (true, true, true, true) => 1
    | _ => 0

/-- Row of an intermediate matrix of the `de` chain. -/
def deS28r15 {α : Type} [ Field α] (c s h : α) : B4 → α :=
  fun k =>
    match k with
    | (true, true, true, false) => 1
    | _ => 0

/-- Suffix product 28 of the `de` decomposition chain. -/
def deS28 {α : Type} [ Field α] (c s h : α) : Matrix B4 B4 α :=
  Matrix.of fun r =>
    match r with
    | (false, false, false, false) => deS28r0 c s h
    | (false, false, false, true) => deS28r1 c s h
    | (false, false, true, false) => deS28r2 c s h
    | (false, false, true, true) => deS28r3 c s h
    | (false, true, false, false) => deS28r4 c s h
    | (false, true, false, true) => deS28r5 c s h
    | (false, true, true, false) => deS28r6 c s h
    | (false, true, true, true) => deS28r7 c s h
    | (true, false, false, false) => deS28r8 c s h
    | (true, false, false, true) => deS28r9 c s h
    | (true, false, true, false) => deS28r10 c s h
    | (true, false, true, true) => deS28r11 c s h
    | (true, true, false, false) => deS28r12 c s h
    | (true, true, false, true) => deS28r13 c s h
    | (true, true, true, false) => deS28r14 c s h
    | (true, true, true, true) => deS28r15 c s h

/-- Suffix product 27 of the `de` decomposition chain. -/
def deS27 {α : Type} [ Field α] (c s h : α) : Matrix B4 B4 α :=
  Matrix.of fun r =>
    match r with
    | (false, false, false, false) => deS28r0 c s h
    | (false, false, false, true) => deS28r1 c s h
    | (false, false, true, false) => deS28r2 c s h
    | (false, false, true, true) => deS28r3 c s h
    | (false, true, false, false) => deS28r4 c s h
    | (false, true, false, true) => deS28r5 c s h
    | (false, true, true, false) => deS28r6 c s h
    | (false, true, true, true) => deS28r7 c s h
    | (true, false, false, false) => deS28r10 c s h
    | (true, false, false, true) => deS28r11 c s h
    | (true, false, true, false) => deS28r8 c s h
    | (true, false, true, true) => deS28r9 c s h
    | (true, true, false, false) => deS28r14 c s h
    | (true, true, false, true) => deS28r15 c s h
    | (true, true, true, false) => deS28r12 c s h
    | (true, true, true, true) => deS28r13 c s h

/-- Row of an intermediate matrix of the `de` chain. -/
def deS26r0 {α : Type} [ Field α] (c s h : α) : B4 → α :=
  fun k =>
    match k with
    | (false, false, false, false) => h
    | (false, false, false, true) => h
    | _ => 0

/-- Row of an intermediate matrix of the `de` chain. -/
def deS26r1 {α : Type} [ Field α] (c s h : α) : B4 → α :=
  fun k =>
    match k with
    | (false, false, false, false) => h
    | (false, false, false, true) => -h
    | _ => 0

/-- Row of an intermediate matrix of the `de` chain. -/
def deS26r2 {α : Type} [ Field α] (c s h : α) : B4 → α :=
  fun k =>
    match k with
    | (false, false, true, false) => h
    | (false, false, true, true) => h
    | _ => 0

/-- Row of an intermediate matrix of the `de` chain. -/
def deS26r3 {α : Type} [ Field α] (c s h : α) : B4 → α :=
  fun k =>
    match k with
    | (false, false, true, false) => -h
    | (false, false, true, true) => h
    | _ => 0

/-- Row of an intermediate matrix of the `de` chain. -/
def deS26r4 {α : Type} [ Field α] (c s h : α) : B4 → α :=
  fun k =>
    match k with
    | (false, true, false, false) => h
    | (false, true, false, true) => h
    | _ => 0

/-- Row of an intermediate matrix of the `de` chain. -/
def deS26r5 {α : Type} [ Field α] (c s h : α) : B4 → α :=
  fun k =>
    match k with
    | (false, true, false, false) => h
    | (false, true, false, true) => -h
    | _ => 0

/-- Row of an intermediate matrix of the `de` chain. -/
def deS26r6 {α : Type} [ Field α] (c s h : α) : B4 → α :=
  fun k =>
    match k with
    | (false, true, true, false) => h
    | (false, true, true, true) => h
    | _ => 0

/-- Row of an intermediate matrix of the `de` chain. -/
def deS26r7 {α : Type} [ Field α] (c s h : α) : B4 → α :=
  fun k =>
    match k with
    | (false, true, true, false) => -h
    | (false, true, true, true) => h
    | _ => 0

/-- Row of an intermediate matrix of the `de` chain. -/
def deS26r8 {α : Type} [ Field α] (c s h : α) : B4 → α :=
  fun k =>
    match k with
    | (true, false, true, false) => h
    | (true, false, true, true) => h
    | _ => 0

/-- Row of an intermediate matrix of the `de` chain. -/
def deS26r9 {α : Type} [ Field α] (c s h : α) : B4 → α :=
  fun k =>
    match k with
    | (true, false, true, false) => -h
    | (true, false, true, true) => h
    | _ => 0

/-- Row of an intermediate matrix of the `de` chain. -/
def deS26r10 {α : Type} [ Field α] (c s h : α) : B4 → α :=
  fun k =>
    match k with
    | (true, false, false, false) => h
    | (true, false, false, true) => h
    | _ => 0

/-- Row of an intermediate matrix of the `de` chain. -/
def deS26r11 {α : Type} [ Field α] (c s h : α) : B4 → α :=
  fun k =>
    match k with
    | (true, false, false, false) => h
    | (true, false, false, true) => -h
    | _ => 0

/-- Row of an intermediate matrix of the `de` chain. -/
def deS26r12 {α : Type} [ Field α] (c s h : α) : B4 → α :=
  fun k =>
    match k with
    | (true, true, true, false) => h
    | (true, true, true, true) => h
    | _ => 0

/-- Row of an intermediate matrix of the `de` chain. -/
def deS26r13 {α : Type} [ Field α] (c s h : α) : B4 → α :=
  fun k =>
    match k with
    | (true, true, true, false) => -h
    | (true, true, true, true) => h
    | _ => 0

/-- Row of an intermediate matrix of the `de` chain. -/
def deS26r14 {α : Type} [ Field α] (c s h : α) : B4 → α :=
  fun k =>
    match k with
    | (true, true, false, false) => h
    | (true, true, false, true) => h
    | _ => 0

/-- Row of an intermediate matrix of the `de` chain. -/
def deS26r15 {α : Type} [ Field α] (c s h : α) : B4 → α :=
  fun k =>
    match k with
    | (true, true, false, false) => h
    | (true, true, false, true) => -h
    | _ => 0

/-- Suffix product 26 of the `de` decomposition chain. -/
def deS26 {α : Type} [ Field α] (c s h : α) : Matrix B4 B4 α :=
  Matrix.of fun r =>
    match r with
    | (false, false, false, false) => deS26r0 c s h
    | (false, false, false, true) => deS26r1 c s h
    | (false, false, true, false) => deS26r2 c s h
    | (false, false, true, true) => deS26r3 c s h
    | (false, true, false, false) => deS26r4 c s h
    | (false, true, false, true) => deS26r5 c s h
    | (false, true, true, false) => deS26r6 c s h
    | (false, true, true, true) => deS26r7 c s h
    | (true, false, false, false) => deS26r8 c s h
    | (true, false, false, true) => deS26r9 c s h
    | (true, false, true, false) => deS26r10 c s h
    | (true, false, true, true) => deS26r11 c s h
    | (true, true, false, false) => deS26r12 c s h
    | (true, true, false, true) => deS26r13 c s h
    | (true, true, true, false) => deS26r14 c s h
    | (true, true, true, true) => deS26r15 c s h

/-- Row of an intermediate matrix of the `de` chain. -/
def deS25r0 {α : Type} [ Field α] (c s h : α) : B4 → α :=
  fun k =>
    match k with
    | (false, false, false, false) => (1/2)
    | (false, false, false, true) => (1/2)
    | (true, false, true, false) => (1/2)
    | (true, false, true, true) => (1/2)
    | _ => 0

/-- Row of an intermediate matrix of the `de` chain. -/
def deS25r1 {α : Type} [ Field α] (c s h : α) : B4 → α :=
  fun k =>
    match k with
    | (false, false, false, false) => (1/2)
    | (false, false, false, true) => -(1/2)
    | (true, false, true, false) => -(1/2)
    | (true, false, true, true) => (1/2)
    | _ => 0

/-- Row of an intermediate matrix of the `de` chain. -/
def deS25r2 {α : Type} [ Field α] (c s h : α) : B4 → α :=
  fun k =>
    match k with
    | (false, false, true, false) => (1/2)
    | (false, false, true, true) => (1/2)
    | (true, false, false, false) => (1/2)
    | (true, false, false, true) => (1/2)
    | _ => 0

/-- Row of an intermediate matrix of the `de` chain. -/
def deS25r3 {α : Type} [ Field α] (c s h : α) : B4 → α :=
  fun k =>
    match k with
    | (false, false, true, false) => -(1/2)
    | (false, false, true, true) => (1/2)
    | (true, false, false, false) => (1/2)
    | (true, false, false, true) => -(1/2)
    | _ => 0

/-- Row of an intermediate matrix of the `de` chain. -/
def deS25r4 {α : Type} [ Field α] (c s h : α) : B4 → α :=
  fun k =>
    match k with
    | (false, true, false, false) => (1/2)
    | (false, true, false, true) => (1/2)
    | (true, true, true, false) => (1/2)
    | (true, true, true, true) => (1/2)
    | _ => 0

/-- Row of an intermediate matrix of the `de` chain. -/
def deS25r5 {α : Type} [ Field α] (c s h : α) : B4 → α :=
  fun k =>
    match k with
    | (false, true, false, false) => (1/2)
    | (false, true, false, true) => -(1/2)
    | (true, true, true, false) => -(1/2)
    | (true, true, true, true) => (1/2)
    | _ => 0

/-- Row of an intermediate matrix of the `de` chain. -/
def deS25r6 {α : Type} [ Field α] (c s h : α) : B4 → α :=
  fun k =>
    match k with
    | (false, true, true, false) => (1/2)
    | (false, true, true, true) => (1/2)
    | (true, true, false, false) => (1/2)
    | (true, true, false, true) => (1/2)
    | _ => 0

/-- Row of an intermediate matrix of the `de` chain. -/
def deS25r7 {α : Type} [ Field α] (c s h : α) : B4 → α :=
  fun k =>
    match k with
    | (false, true, true, false) => -(1/2)
    | (false, true, true, true) => (1/2)
    | (true, true, false, false) => (1/2)
    | (true, true, false, true) => -(1/2)
    | _ => 0

/-- Row of an intermediate matrix of the `de` chain. -/
def deS25r8 {α : Type} [ Field α] (c s h : α) : B4 → α :=
  fun k =>
    match k with
    | (false, false, false, false) => (1/2)
    | (false, false, false, true) => (1/2)
    | (true, false, true, false) => -(1/2)
    | (true, false, true, true) => -(1/2)
    | _ => 0

/-- Row of an intermediate matrix of the `de` chain. -/
def deS25r9 {α : Type} [ Field α] (c s h : α) : B4 → α :=
  fun k =>
    match k with
    | (false, false, false, false) => (1/2)
    | (false, false, false, true) => -(1/2)
    | (true, false, true, false) => (1/2)
    | (true, false, true, true) => -(1/2)
    | _ => 0

/-- Row of an intermediate matrix of the `de` chain. -/
def deS25r10 {α : Type} [ Field α] (c s h : α) : B4 → α :=
  fun k =>
    match k with
    | (false, false, true, false) => (1/2)
    | (false, false, true, true) => (1/2)
    | (true, false, false, false) => -(1/2)
    | (true, false, false, true) => -(1/2)
    | _ => 0

/-- Row of an intermediate matrix of the `de` chain. -/
def deS25r11 {α : Type} [ Field α] (c s h : α) : B4 → α :=
  fun k =>
    match k with
    | (false, false, true, false) => -(1/2)
    | (false, false, true, true) => (1/2)
    | (true, false, false, false) => -(1/2)
    | (true, false, false, true) => (1/2)
    | _ => 0

/-- Row of an intermediate matrix of the `de` chain. -/
def deS25r12 {α : Type} [ Field α] (c s h : α) : B4 → α :=
  fun k =>
    match k with
    | (false, true, false, false) => (1/2)
    | (false, true, false, true) => (1/2)
    | (true, true, true, false) => -(1/2)
    | (true, true, true, true) => -(1/2)
    | _ => 0

/-- Row of an intermediate matrix of the `de` chain. -/
def deS25r13 {α : Type} [ Field α] (c s h : α) : B4 → α :=
  fun k =>
    match k with
    | (false, true, false, false) => (1/2)
    | (false, true, false, true) => -(1/2)
    | (true, true, true, false) => (1/2)
    | (true, true, true, true) => -(1/2)
    | _ => 0

/-- Row of an intermediate matrix of the `de` chain. -/
def deS25r14 {α : Type} [ Field α] (c s h : α) : B4 → α :=
  fun k =>
    match k with
    | (false, true, true, false) => (1/2)
    | (false, true, true, true) => (1/2)
    | (true, true, false, false) => -(1/2)
    | (true, true, false, true) => -(1/2)
    | _ => 0

/-- Row of an intermediate matrix of the `de` chain. -/
def deS25r15 {α : Type} [ Field α] (c s h : α) : B4 → α :=
  fun k =>
    match k with
    | (false, true, true, false) => -(1/2)
    | (false, true, true, true) => (1/2)
    | (true, true, false, false) => -(1/2)
    | (true, true, false, true) => (1/2)
    | _ => 0

/-- Suffix product 25 of the `de` decomposition chain. -/
def deS25 {α : Type} [ Field α] (c s h : α) : Matrix B4 B4 α :=
  Matrix.of fun r =>
    match r with
    | (false, false, false, false) => deS25r0 c s h
    | (false, false, false, true) => deS25r1 c s h
    | (false, false, true, false) => deS25r2 c s h
    | (false, false, true, true) => deS25r3 c s h
    | (false, true, false, false) => deS25r4 c s h
    | (false, true, false, true) => deS25r5 c s h
    | (false, true, true, false) => deS25r6 c s h
    | (false, true, true, true) => deS25r7 c s h
    | (true, false, false, false) => deS25r8 c s h
    | (true, false, false, true) => deS25r9 c s h
    | (true, false, true, false) => deS25r10 c s h
    | (true, false, true, true) => deS25r11 c s h
    | (true, true, false, false) => deS25r12 c s h
    | (true, true, false, true) => deS25r13 c s h
    | (true, true, true, false) => deS25r14 c s h
    | (true, true, true, true) => deS25r15 c s h

/-- Suffix product 24 of the `de` decomposition chain. -/
def deS24 {α : Type} [ Field α] (c s h : α) : Matrix B4 B4 α :=
  Matrix.of fun r =>
    match r with
    | (false, false, false, false) => deS25r0 c s h
    | (false, false, false, true) => deS25r1 c s h
    | (false, false, true, false) => deS25r10 c s h
    | (false, false, true, true) => deS25r11 c s h
    | (false, true, false, false) => deS25r4 c s h
    | (false, true, false, true) => deS25r5 c s h
    | (false, true, true, false) => deS25r14 c s h
    | (false, true, true, true) => deS25r15 c s h
    | (true, false, false, false) => deS25r8 c s h
    | (true, false, false, true) => deS25r9 c s h
    | (true, false, true, false) => deS25r2 c s h
    | (true, false, true, true) => deS25r3 c s h
    | (true, true, false, false) => deS25r12 c s h
    | (true, true, false, true) => deS25r13 c s h
    | (true, true, true, false) => deS25r6 c s h
    | (true, true, true, true) => deS25r7 c s h

/-- Suffix product 23 of the `de` decomposition chain. -/
def deS23 {α : Type} [ Field α] (c s h : α) : Matrix B4 B4 α :=
  Matrix.of fun r =>
    match r with
    | (false, false, false, false) => deS25r0 c s h
    | (false, false, false, true) => deS25r1 c s h
    | (false, false, true, false) => deS25r10 c s h
    | (false, false, true, true) => deS25r11 c s h
    | (false, true, false, false) => deS25r4 c s h
    | (false, true, false, true) => deS25r5 c s h
    | (false, true, true, false) => deS25r14 c s h
    | (false, true, true, true) => deS25r15 c s h
    | (true, false, false, false) => deS25r12 c s h
    | (true, false, false, true) => deS25r13 c s h
    | (true, false, true, false) => deS25r6 c s h
    | (true, false, true, true) => deS25r7 c s h
    | (true, true, false, false) => deS25r8 c s h
    | (true, true, false, true) => deS25r9 c s h
    | (true, true, true, false) => deS25r2 c s h
    | (true, true, true, true) => deS25r3 c s h

/-- Row of an intermediate matrix of the `de` chain. -/
def deS22r0 {α : Type} [ Field α] (c s h : α) : B4 → α :=
  fun k =>
    match k with
    | (false, false, false, false) => (1/2) * c
    | (false, false, false, true) => (1/2) * c
    | (false, true, false, false) => -(1/2) * s
    | (false, true, false, true) => -(1/2) * s
    | (true, false, true, false) => (1/2) * c
    | (true, false, true, true) => (1/2) * c
    | (true, true, true, false) => (1/2) * s
    | (true, true, true, true) => (1/2) * s
    | _ => 0

/-- Row of an intermediate matrix of the `de` chain. -/
def deS22r1 {α : Type} [ Field α] (c s h : α) : B4 → α :=
  fun k =>
    match k with
    | (false, false, false, false) => (1/2) * c
    | (false, false, false, true) => -(1/2) * c
    | (false, true, false, false) => -(1/2) * s
    | (false, true, false, true) => (1/2) * s
    | (true, false, true, false) => -(1/2) * c
    | (true, false, true, true) => (1/2) * c
    | (true, true, true, false) => -(1/2) * s
    | (true, true, true, true) => (1/2) * s
    | _ => 0

/-- Row of an intermediate matrix of the `de` chain. -/
def deS22r2 {α : Type} [ Field α] (c s h : α) : B4 → α :=
  fun k =>
    match k with
    | (false, false, true, false) => (1/2) * c
    | (false, false, true, true) => (1/2) * c
    | (false, true, true, false) => -(1/2) * s
    | (false, true, true, true) => -(1/2) * s
    | (true, false, false, false) => -(1/2) * c
    | (true, false, false, true) => -(1/2) * c
    | (true, true, false, false) => -(1/2) * s
    | (true, true, false, true) => -(1/2) * s
    | _ => 0

/-- Row of an intermediate matrix of the `de` chain. -/
def deS22r3 {α : Type} [ Field α] (c s h : α) : B4 → α :=
  fun k =>
    match k with
    | (false, false, true, false) => -(1/2) * c
    | (false, false, true, true) => (1/2) * c
    | (false, true, true, false) => (1/2) * s
    | (false, true, true, true) => -(1/2) * s
    | (true, false, false, false) => -(1/2) * c
    | (true, false, false, true) => (1/2) * c
    | (true, true, false, false) => -(1/2) * s
    | (true, true, false, true) => (1/2) * s
    | _ => 0

/-- Row of an intermediate matrix of the `de` chain. -/
def deS22r4 {α : Type} [ Field α] (c s h : α) : B4 → α :=
  fun k =>
    match k with
    | (false, false, false, false) => -(1/2) * s
    | (false, false, false, true) => -(1/2) * s
    | (false, true, false, false) => (1/2) * c
    | (false, true, false, true) => (1/2) * c
    | (true, false, true, false) => (1/2) * s
    | (true, false, true, true) => (1/2) * s
    | (true, true, true, false) => (1/2) * c
    | (true, true, true, true) => (1/2) * c
    | _ => 0

/-- Row of an intermediate matrix of the `de` chain. -/
def deS22r5 {α : Type} [ Field α] (c s h : α) : B4 → α :=
  fun k =>
    match k with
    | (false, false, false, false) => -(1/2) * s
    | (false, false, false, true) => (1/2) * s
    | (false, true, false, false) => (1/2) * c
    | (false, true, false, true) => -(1/2) * c
    | (true, false, true, false) => -(1/2) * s
    | (true, false, true, true) => (1/2) * s
    | (true, true, true, false) => -(1/2) * c
    | (true, true, true, true) => (1/2) * c
    | _ => 0

/-- Row of an intermediate matrix of the `de` chain. -/
def deS22r6 {α : Type} [ Field α] (c s h : α) : B4 → α :=
  fun k =>
    match k with
    | (false, false, true, false) => -(1/2) * s
    | (false, false, true, true) => -(1/2) * s
    | (false, true, true, false) => (1/2) * c
    | (false, true, true, true) => (1/2) * c
    | (true, false, false, false) => -(1/2) * s
    | (true, false, false, true) => -(1/2) * s
    | (true, true, false, false) => -(1/2) * c
    | (true, true, false, true) => -(1/2) * c
    | _ => 0

/-- Row of an intermediate matrix of the `de` chain. -/
def deS22r7 {α : Type} [ Field α] (c s h : α) : B4 → α :=
  fun k =>
    match k with
    | (false, false, true, false) => (1/2) * s
    | (false, false, true, true) => -(1/2) * s
    | (false, true, true, false) => -(1/2) * c
    | (false, true, true, true) => (1/2) * c
    | (true, false, false, false) => -(1/2) * s
    | (true, false, false, true) => (1/2) * s
    | (true, true, false, false) => -(1/2) * c
    | (true, true, false, true) => (1/2) * c
    | _ => 0

/-- Row of an intermediate matrix of the `de` chain. -/
def deS22r8 {α : Type} [ Field α] (c s h : α) : B4 → α :=
  fun k =>
    match k with
    | (false, false, false, false) => (1/2) * s
    | (false, false, false, true) => (1/2) * s
    | (false, true, false, false) => (1/2) * c
    | (false, true, false, true) => (1/2) * c
    | (true, false, true, false) => (1/2) * s
    | (true, false, true, true) => (1/2) * s
    | (true, true, true, false) => -(1/2) * c
    | (true, true, true, true) => -(1/2) * c
    | _ => 0

/-- Row of an intermediate matrix of the `de` chain. -/
def deS22r9 {α : Type} [ Field α] (c s h : α) : B4 → α :=
  fun k =>
    match k with
    | (false, false, false, false) => (1/2) * s
    | (false, false, false, true) => -(1/2) * s
    | (false, true, false, false) => (1/2) * c
    | (false, true, false, true) => -(1/2) * c
    | (true, false, true, false) => -(1/2) * s
    | (true, false, true, true) => (1/2) * s
    | (true, true, true, false) => (1/2) * c
    | (true, true, true, true) => -(1/2) * c
    | _ => 0

/-- Row of an intermediate matrix of the `de` chain. -/
def deS22r10 {α : Type} [ Field α] (c s h : α) : B4 → α :=
  fun k =>
    match k with
    | (false, false, true, false) => (1/2) * s
    | (false, false, true, true) => (1/2) * s
    | (false, true, true, false) => (1/2) * c
    | (false, true, true, true) => (1/2) * c
    | (true, false, false, false) => -(1/2) * s
    | (true, false, false, true) => -(1/2) * s
    | (true, true, false, false) => (1/2) * c
    | (true, true, false, true) => (1/2) * c
    | _ => 0

/-- Row of an intermediate matrix of the `de` chain. -/
def deS22r11 {α : Type} [ Field α] (c s h : α) : B4 → α :=
  fun k =>
    match k with
    | (false, false, true, false) => -(1/2) * s
    | (false, false, true, true) => (1/2) * s
    | (false, true, true, false) => -(1/2) * c
    | (false, true, true, true) => (1/2) * c
    | (true, false, false, false) => -(1/2) * s
    | (true, false, false, true) => (1/2) * s
    | (true, true, false, false) => (1/2) * c
    | (true, true, false, true) => -(1/2) * c
    | _ => 0

/-- Row of an intermediate matrix of the `de` chain. -/
def deS22r12 {α : Type} [ Field α] (c s h : α) : B4 → α :=
  fun k =>
    match k with
    | (false, false, false, false) => (1/2) * c
    | (false, false, false, true) => (1/2) * c
    | (false, true, false, false) => (1/2) * s
    | (false, true, false, true) => (1/2) * s
    | (true, false, true, false) => -(1/2) * c
    | (true, false, true, true) => -(1/2) * c
    | (true, true, true, false) => (1/2) * s
    | (true, true, true, true) => (1/2) * s
    | _ => 0

/-- Row of an intermediate matrix of the `de` chain. -/
def deS22r13 {α : Type} [ Field α] (c s h : α) : B4 → α :=
  fun k =>
    match k with
    | (false, false, false, false) => (1/2) * c
    | (false, false, false, true) => -(1/2) * c
    | (false, true, false, false) => (1/2) * s
    | (false, true, false, true) => -(1/2) * s
    | (true, false, true, false) => (1/2) * c
    | (true, false, true, true) => -(1/2) * c
    | (true, true, true, false) => -(1/2) * s
    | (true, true, true, true) => (1/2) * s
    | _ => 0

/-- Row of an intermediate matrix of the `de` chain. -/
def deS22r14 {α : Type} [ Field α] (c s h : α) : B4 → α :=
  fun k =>
    match k with
    | (false, false, true, false) => (1/2) * c
    | (false, false, true, true) => (1/2) * c
    | (false, true, true, false) => (1/2) * s
    | (false, true, true, true) => (1/2) * s
    | (true, false, false, false) => (1/2) * c
    | (true, false, false, true) => (1/2) * c
    | (true, true, false, false) => -(1/2) * s
    | (true, true, false, true) => -(1/2) * s
    | _ => 0

/-- Row of an intermediate matrix of the `de` chain. -/
def deS22r15 {α : Type} [ Field α] (c s h : α) : B4 → α :=
  fun k =>
    match k with
    | (false, false, true, false) => -(1/2) * c
    | (false, false, true, true) => (1/2) * c
    | (false, true, true, false) => -(1/2) * s
    | (false, true, true, true) => (1/2) * s
    | (true, false, false, false) => (1/2) * c
    | (true, false, false, true) => -(1/2) * c
    | (true, true, false, false) => -(1/2) * s
    | (true, true, false, true) => (1/2) * s
    | _ => 0

/-- Suffix product 22 of the `de` decomposition chain. -/
def deS22 {α : Type} [ Field α] (c s h : α) : Matrix B4 B4 α :=
  Matrix.of fun r =>
    match r with
    | (false, false, false, false) => deS22r0 c s h
    | (false, false, false, true) => deS22r1 c s h
    | (false, false, true, false) => deS22r2 c s h
    | (false, false, true, true) => deS22r3 c s h
    | (false, true, false, false) => deS22r4 c s h
    | (false, true, false, true) => deS22r5 c s h
    | (false, true, true, false) => deS22r6 c s h
    | (false, true, true, true) => deS22r7 c s h
    | (true, false, false, false) => deS22r8 c s h
    | (true, false, false, true) => deS22r9 c s h
    | (true, false, true, false) => deS22r10 c s h
    | (true, false, true, true) => deS22r11 c s h
    | (true, true, false, false) => deS22r12 c s h
    | (true, true, false, true) => deS22r13 c s h
    | (true, true, true, false) => deS22r14 c s h
    | (true, true, true, true) => deS22r15 c s h

/-- Row of an intermediate matrix of the `de` chain. -/
def deS21r0 {α : Type} [ Field α] (c s h : α) : B4 → α :=
  fun k =>
    match k with
    | (false, false, false, false) => c^2 + -(1/2)
    | (false, false, false, true) => c^2 + -(1/2)
    | (true, false, true, false) => (1/2)
    | (true, false, true, true) => (1/2)
    | (true, true, true, false) => c * s
    | (true, true, true, true) => c * s
    | _ => 0

/-- Row of an intermediate matrix of the `de` chain. -/
def deS21r1 {α : Type} [ Field α] (c s h : α) : B4 → α :=
  fun k =>
    match k with
    | (false, false, false, false) => c^2 + -(1/2)
    | (false, false, false, true) => -c^2 + (1/2)
    | (true, false, true, false) => -(1/2)
    | (true, false, true, true) => (1/2)
    | (true, true, true, false) => -c * s
    | (true, true, true, true) => c * s
    | _ => 0

/-- Row of an intermediate matrix of the `de` chain. -/
def deS21r2 {α : Type} [ Field α] (c s h : α) : B4 → α :=
  fun k =>
    match k with
    | (false, false, true, false) => c^2 + -(1/2)
    | (false, false, true, true) => c^2 + -(1/2)
    | (true, false, false, false) => -(1/2)
    | (true, false, false, true) => -(1/2)
    | (true, true, false, false) => -c * s
    | (true, true, false, true) => -c * s
    | _ => 0

/-- Row of an intermediate matrix of the `de` chain. -/
def deS21r3 {α : Type} [ Field α] (c s h : α) : B4 → α :=
  fun k =>
    match k with
    | (false, false, true, false) => -c^2 + (1/2)
    | (false, false, true, true) => c^2 + -(1/2)
    | (true, false, false, false) => -(1/2)
    | (true, false, false, true) => (1/2)
    | (true, true, false, false) => -c * s
    | (true, true, false, true) => c * s
    | _ => 0

/-- Row of an intermediate matrix of the `de` chain. -/
def deS21r4 {α : Type} [ Field α] (c s h : α) : B4 → α :=
  fun k =>
    match k with
    | (false, false, false, false) => -c * s
    | (false, false, false, true) => -c * s
    | (false, true, false, false) => (1/2)
    | (false, true, false, true) => (1/2)
    | (true, true, true, false) => c^2 + -(1/2)
    | (true, true, true, true) => c^2 + -(1/2)
    | _ => 0

/-- Row of an intermediate matrix of the `de` chain. -/
def deS21r5 {α : Type} [ Field α] (c s h : α) : B4 → α :=
  fun k =>
    match k with
    | (false, false, false, false) => -c * s
    | (false, false, false, true) => c * s
    | (false, true, false, false) => (1/2)
    | (false, true, false, true) => -(1/2)
    | (true, true, true, false) => -c^2 + (1/2)
    | (true, true, true, true) => c^2 + -(1/2)
    | _ => 0

/-- Row of an intermediate matrix of the `de` chain. -/
def deS21r6 {α : Type} [ Field α] (c s h : α) : B4 → α :=
  fun k =>
    match k with
    | (false, false, true, false) => -c * s
    | (false, false, true, true) => -c * s
    | (false, true, true, false) => (1/2)
    | (false, true, true, true) => (1/2)
    | (true, true, false, false) => -c^2 + (1/2)
    | (true, true, false, true) => -c^2 + (1/2)
    | _ => 0

/-- Row of an intermediate matrix of the `de` chain. -/
def deS21r7 {α : Type} [ Field α] (c s h : α) : B4 → α :=
  fun k =>
    match k with
    | (false, false, true, false) => c * s
    | (false, false, true, true) => -c * s
    | (false, true, true, false) => -(1/2)
    | (false, true, true, true) => (1/2)
    | (true, true, false, false) => -c^2 + (1/2)
    | (true, true, false, true) => c^2 + -(1/2)
    | _ => 0

/-- Row of an intermediate matrix of the `de` chain. -/
def deS21r8 {α : Type} [ Field α] (c s h : α) : B4 → α :=
  fun k =>
    match k with
    | (false, false, false, false) => c * s
    | (false, false, false, true) => c * s
    | (false, true, false, false) => (1/2)
    | (false, true, false, true) => (1/2)
    | (true, true, true, false) => -c^2 + (1/2)
    | (true, true, true, true) => -c^2 + (1/2)
    | _ => 0

/-- Row of an intermediate matrix of the `de` chain. -/
def deS21r9 {α : Type} [ Field α] (c s h : α) : B4 → α :=
  fun k =>
    match k with
    | (false, false, false, false) => c * s
    | (false, false, false, true) => -c * s
    | (false, true, false, false) => (1/2)
    | (false, true, false, true) => -(1/2)
    | (true, true, true, false) => c^2 + -(1/2)
    | (true, true, true, true) => -c^2 + (1/2)
    | _ => 0

/-- Row of an intermediate matrix of the `de` chain. -/
def deS21r10 {α : Type} [ Field α] (c s h : α) : B4 → α :=
  fun k =>
    match k with
    | (false, false, true, false) => c * s
    | (false, false, true, true) => c * s
    | (false, true, true, false) => (1/2)
    | (false, true, true, true) => (1/2)
    | (true, true, false, false) => c^2 + -(1/2)
    | (true, true, false, true) => c^2 + -(1/2)
    | _ => 0

/-- Row of an intermediate matrix of the `de` chain. -/
def deS21r11 {α : Type} [ Field α] (c s h : α) : B4 → α :=
  fun k =>
    match k with
    | (false, false, true, false) => -c * s
    | (false, false, true, true) => c * s
    | (false, true, true, false) => -(1/2)
    | (false, true, true, true) => (1/2)
    | (true, true, false, false) => c^2 + -(1/2)
    | (true, true, false, true) => -c^2 + (1/2)
    | _ => 0

/-- Row of an intermediate matrix of the `de` chain. -/
def deS21r12 {α : Type} [ Field α] (c s h : α) : B4 → α :=
  fun k =>
    match k with
    | (false, false, false, false) => c^2 + -(1/2)
    | (false, false, false, true) => c^2 + -(1/2)
    | (true, false, true, false) => -(1/2)
    | (true, false, true, true) => -(1/2)
    | (true, true, true, false) => c * s
    | (true, true, true, true) => c * s
    | _ => 0

/-- Row of an intermediate matrix of the `de` chain. -/
def deS21r13 {α : Type} [ Field α] (c s h : α) : B4 → α :=
  fun k =>
    match k with
    | (false, false, false, false) => c^2 + -(1/2)
    | (false, false, false, true) => -c^2 + (1/2)
    | (true, false, true, false) => (1/2)
    | (true, false, true, true) => -(1/2)
    | (true, true, true, false) => -c * s
    | (true, true, true, true) => c * s
    | _ => 0

/-- Row of an intermediate matrix of the `de` chain. -/
def deS21r14 {α : Type} [ Field α] (c s h : α) : B4 → α :=
  fun k =>
    match k with
    | (false, false, true, false) => c^2 + -(1/2)
    | (false, false, true, true) => c^2 + -(1/2)
    | (true, false, false, false) => (1/2)
    | (true, false, false, true) => (1/2)
    | (true, true, false, false) => -c * s
    | (true, true, false, true) => -c * s
    | _ => 0

/-- Row of an intermediate matrix of the `de` chain. -/
def deS21r15 {α : Type} [ Field α] (c s h : α) : B4 → α :=
  fun k =>
    match k with
    | (false, false, true, false) => -c^2 + (1/2)
    | (false, false, true, true) => c^2 + -(1/2)
    | (true, false, false, false) => (1/2)
    | (true, false, false, true) => -(1/2)
    | (true, true, false, false) => -c * s
    | (true, true, false, true) => c * s
    | _ => 0

/-- Suffix product 21 of the `de` decomposition chain. -/
def deS21 {α : Type} [ Field α] (c s h : α) : Matrix B4 B4 α :=
  Matrix.of fun r =>
    match r with
    | (false, false, false, false) => deS21r0 c s h
    | (false, false, false, true) => deS21r1 c s h
    | (false, false, true, false) => deS21r2 c s h
    | (false, false, true, true) => deS21r3 c s h
    | (false, true, false, false) => deS21r4 c s h
    | (false, true, false, true) => deS21r5 c s h
    | (false, true, true, false) => deS21r6 c s h
    | (false, true, true, true) => deS21r7 c s h
    | (true, false, false, false) => deS21r8 c s h
    | (true, false, false, true) => deS21r9 c s h
    | (true, false, true, false) => deS21r10 c s h
    | (true, false, true, true) => deS21r11 c s h
    | (true, true, false, false) => deS21r12 c s h
    | (true, true, false, true) => deS21r13 c s h
    | (true, true, true, false) => deS21r14 c s h
    | (true, true, true, true) => deS21r15 c s h

/-- Suffix product 20 of the `de` decomposition chain. -/
def deS20 {α : Type} [ Field α] (c s h : α) : Matrix B4 B4 α :=
  Matrix.of fun r =>
    match r with
    | (false, false, false, false) => deS21r0 c s h
    | (false, false, false, true) => deS21r1 c s h
    | (false, false, true, false) => deS21r2 c s h
    | (false, false, true, true) => deS21r3 c s h
    | (false, true, false, false) => deS21r4 c s h
    | (false, true, false, true) => deS21r5 c s h
    | (false, true, true, false) => deS21r6 c s h
    | (false, true, true, true) => deS21r7 c s h
    | (true, false, false, false) => deS21r9 c s h
    | (true, false, false, true) => deS21r8 c s h
    | (true, false, true, false) => deS21r11 c s h
    | (true, false, true, true) => deS21r10 c s h
    | (true, true, false, false) => deS21r13 c s h
    | (true, true, false, true) => deS21r12 c s h
    | (true, true, true, false) => deS21r15 c s h
    | (true, true, true, true) => deS21r14 c s h

/-- Row of an intermediate matrix of the `de` chain. -/
def deS19r0 {α : Type} [ Field α] (c s h : α) : B4 → α :=
  fun k =>
    match k with
    | (false, false, false, false) => 2 * c^2 * h + -h
    | (true, false, true, true) => h
    | (true, true, true, true) => 2 * c * s * h
    | _ => 0

/-- Row of an intermediate matrix of the `de` chain. -/
def deS19r1 {α : Type} [ Field α] (c s h : α) : B4 → α :=
  fun k =>
    match k with
    | (false, false, false, true) => 2 * c^2 * h + -h
    | (true, false, true, false) => h
    | (true, true, true, false) => 2 * c * s * h
    | _ => 0

/-- Row of an intermediate matrix of the `de` chain. -/
def deS19r2 {α : Type} [ Field α] (c s h : α) : B4 → α :=
  fun k =>
    match k with
    | (false, false, true, true) => 2 * c^2 * h + -h
    | (true, false, false, false) => -h
    | (true, true, false, false) => -(2) * c * s * h
    | _ => 0

/-- Row of an intermediate matrix of the `de` chain. -/
def deS19r3 {α : Type} [ Field α] (c s h : α) : B4 → α :=
  fun k =>
    match k with
    | (false, false, true, false) => 2 * c^2 * h + -h
    | (true, false, false, true) => -h
    | (true, true, false, true) => -(2) * c * s * h
    | _ => 0

/-- Row of an intermediate matrix of the `de` chain. -/
def deS19r4 {α : Type} [ Field α] (c s h : α) : B4 → α :=
  fun k =>
    match k with
    | (false, false, false, false) => -(2) * c * s * h
    | (false, true, false, false) => h
    | (true, true, true, true) => 2 * c^2 * h + -h
    | _ => 0

/-- Row of an intermediate matrix of the `de` chain. -/
def deS19r5 {α : Type} [ Field α] (c s h : α) : B4 → α :=
  fun k =>
    match k with
    | (false, false, false, true) => -(2) * c * s * h
    | (false, true, false, true) => h
    | (true, true, true, false) => 2 * c^2 * h + -h
    | _ => 0

/-- Row of an intermediate matrix of the `de` chain. -/
def deS19r6 {α : Type} [ Field α] (c s h : α) : B4 → α :=
  fun k =>
    match k with
    | (false, false, true, true) => -(2) * c * s * h
    | (false, true, true, true) => h
    | (true, true, false, false) => -(2) * c^2 * h + h
    | _ => 0

/-- Row of an intermediate matrix of the `de` chain. -/
def deS19r7 {α : Type} [ Field α] (c s h : α) : B4 → α :=
  fun k =>
    match k with
    | (false, false, true, false) => -(2) * c * s * h
    | (false, true, true, false) => h
    | (true, true, false, true) => -(2) * c^2 * h + h
    | _ => 0

/-- Row of an intermediate matrix of the `de` chain. -/
def deS19r8 {α : Type} [ Field α] (c s h : α) : B4 → α :=
  fun k =>
    match k with
    | (false, false, false, false) => 2 * c * s * h
    | (false, true, false, false) => h
    | (true, true, true, true) => -(2) * c^2 * h + h
    | _ => 0

/-- Row of an intermediate matrix of the `de` chain. -/
def deS19r9 {α : Type} [ Field α] (c s h : α) : B4 → α :=
  fun k =>
    match k with
    | (false, false, false, true) => -(2) * c * s * h
    | (false, true, false, true) => -h
    | (true, true, true, false) => 2 * c^2 * h + -h
    | _ => 0

/-- Row of an intermediate matrix of the `de` chain. -/
def deS19r10 {α : Type} [ Field α] (c s h : α) : B4 → α :=
  fun k =>
    match k with
    | (false, false, true, true) => 2 * c * s * h
    | (false, true, true, true) => h
    | (true, true, false, false) => 2 * c^2 * h + -h
    | _ => 0

/-- Row of an intermediate matrix of the `de` chain. -/
def deS19r11 {α : Type} [ Field α] (c s h : α) : B4 → α :=
  fun k =>
    match k with
    | (false, false, true, false) => -(2) * c * s * h
    | (false, true, true, false) => -h
    | (true, true, false, true) => -(2) * c^2 * h + h
    | _ => 0

/-- Row of an intermediate matrix of the `de` chain. -/
def deS19r12 {α : Type} [ Field α] (c s h : α) : B4 → α :=
  fun k =>
    match k with
    | (false, false, false, false) => 2 * c^2 * h + -h
    | (true, false, true, true) => -h
    | (true, true, true, true) => 2 * c * s * h
    | _ => 0

/-- Row of an intermediate matrix of the `de` chain. -/
def deS19r13 {α : Type} [ Field α] (c s h : α) : B4 → α :=
  fun k =>
    match k with
    | (false, false, false, true) => -(2) * c^2 * h + h
    | (true, false, true, false) => h
    | (true, true, true, false) => -(2) * c * s * h
    | _ => 0

/-- Row of an intermediate matrix of the `de` chain. -/
def deS19r14 {α : Type} [ Field α] (c s h : α) : B4 → α :=
  fun k =>
    match k with
    | (false, false, true, true) => 2 * c^2 * h + -h
    | (true, false, false, false) => h
    | (true, true, false, false) => -(2) * c * s * h
    | _ => 0

/-- Row of an intermediate matrix of the `de` chain. -/
def deS19r15 {α : Type} [ Field α] (c s h : α) : B4 → α :=
  fun k =>
    match k with
    | (false, false, true, false) => -(2) * c^2 * h + h
    | (true, false, false, true) => -h
    | (true, true, false, true) => 2 * c * s * h
    | _ => 0

/-- Suffix product 19 of the `de` decomposition chain. -/
def deS19 {α : Type} [ Field α] (c s h : α) : Matrix B4 B4 α :=
  Matrix.of fun r =>
    match r with
    | (false, false, false, false) => deS19r0 c s h
    | (false, false, false, true) => deS19r1 c s h
    | (false, false, true, false) => deS19r2 c s h
    | (false, false, true, true) => deS19r3 c s h
    | (false, true, false, false) => deS19r4 c s h
    | (false, true, false, true) => deS19r5 c s h
    | (false, true, true, false) => deS19r6 c s h
    | (false, true, true, true) => deS19r7 c s h
    | (true, false, false, false) => deS19r8 c s h
    | (true, false, false, true) => deS19r9 c s h
    | (true, false, true, false) => deS19r10 c s h
    | (true, false, true, true) => deS19r11 c s h
    | (true, true, false, false) => deS19r12 c s h
    | (true, true, false, true) => deS19r13 c s h
    | (true, true, true, false) => deS19r14 c s h
    | (true, true, true, true) => deS19r15 c s h

/-- Suffix product 18 of the `de` decomposition chain. -/
def deS18 {α : Type} [ Field α] (c s h : α) : Matrix B4 B4 α :=
  Matrix.of fun r =>
    match r with
    | (false, false, false, false) => deS19r0 c s h
    | (false, false, false, true) => deS19r5 c s h
    | (false, false, true, false) => deS19r2 c s h
    | (false, false, true, true) => deS19r7 c s h
    | (false, true, false, false) => deS19r4 c s h
    | (false, true, false, true) => deS19r1 c s h
    | (false, true, true, false) => deS19r6 c s h
    | (false, true, true, true) => deS19r3 c s h
    | (true, false, false, false) => deS19r8 c s h
    | (true, false, false, true) => deS19r13 c s h
    | (true, false, true, false) => deS19r10 c s h
    | (true, false, true, true) => deS19r15 c s h
    | (true, true, false, false) => deS19r12 c s h
    | (true, true, false, true) => deS19r9 c s h
    | (true, true, true, false) => deS19r14 c s h
    | (true, true, true, true) => deS19r11 c s h

/-- Row of an intermediate matrix of the `de` chain. -/
def deS17r0 {α : Type} [ Field α] (c s h : α) : B4 → α :=
  fun k =>
    match k with
    | (false, false, false, false) => 4 * c^3 * h + -(3) * c * h
    | (false, true, false, false) => -s * h
    | (true, false, true, true) => c * h
    | (true, true, true, true) => 4 * c^2 * s * h + -s * h
    | _ => 0

/-- Row of an intermediate matrix of the `de` chain. -/
def deS17r1 {α : Type} [ Field α] (c s h : α) : B4 → α :=
  fun k =>
    match k with
    | (false, false, false, true) => -s * h
    | (false, true, false, true) => c * h
    | (true, false, true, false) => -s * h
    | (true, true, true, false) => c * h
    | _ => 0

/-- Row of an intermediate matrix of the `de` chain. -/
def deS17r2 {α : Type} [ Field α] (c s h : α) : B4 → α :=
  fun k =>
    match k with
    | (false, false, true, true) => 4 * c^3 * h + -(3) * c * h
    | (false, true, true, true) => -s * h
    | (true, false, false, false) => -c * h
    | (true, true, false, false) => -(4) * c^2 * s * h + s * h
    | _ => 0

/-- Row of an intermediate matrix of the `de` chain. -/
def deS17r3 {α : Type} [ Field α] (c s h : α) : B4 → α :=
  fun k =>
    match k with
    | (false, false, true, false) => -s * h
    | (false, true, true, false) => c * h
    | (true, false, false, true) => s * h
    | (true, true, false, true) => -c * h
    | _ => 0

/-- Row of an intermediate matrix of the `de` chain. -/
def deS17r4 {α : Type} [ Field α] (c s h : α) : B4 → α :=
  fun k =>
    match k with
    | (false, false, false, false) => -(4) * c^2 * s * h + s * h
    | (false, true, false, false) => c * h
    | (true, false, true, true) => s * h
    | (true, true, true, true) => 4 * c^3 * h + -(3) * c * h
    | _ => 0

/-- Row of an intermediate matrix of the `de` chain. -/
def deS17r5 {α : Type} [ Field α] (c s h : α) : B4 → α :=
  fun k =>
    match k with
    | (false, false, false, true) => c * h
    | (false, true, false, true) => s * h
    | (true, false, true, false) => c * h
    | (true, true, true, false) => s * h
    | _ => 0

/-- Row of an intermediate matrix of the `de` chain. -/
def deS17r6 {α : Type} [ Field α] (c s h : α) : B4 → α :=
  fun k =>
    match k with
    | (false, false, true, true) => -(4) * c^2 * s * h + s * h
    | (false, true, true, true) => c * h
    | (true, false, false, false) => -s * h
    | (true, true, false, false) => -(4) * c^3 * h + 3 * c * h
    | _ => 0

/-- Row of an intermediate matrix of the `de` chain. -/
def deS17r7 {α : Type} [ Field α] (c s h : α) : B4 → α :=
  fun k =>
    match k with
    | (false, false, true, false) => c * h
    | (false, true, true, false) => s * h
    | (true, false, false, true) => -c * h
    | (true, true, false, true) => -s * h
    | _ => 0

/-- Row of an intermediate matrix of the `de` chain. -/
def deS17r8 {α : Type} [ Field α] (c s h : α) : B4 → α :=
  fun k =>
    match k with
    | (false, false, false, false) => 4 * c^2 * s * h + -s * h
    | (false, true, false, false) => c * h
    | (true, false, true, true) => s * h
    | (true, true, true, true) => -(4) * c^3 * h + 3 * c * h
    | _ => 0

/-- Row of an intermediate matrix of the `de` chain. -/
def deS17r9 {α : Type} [ Field α] (c s h : α) : B4 → α :=
  fun k =>
    match k with
    | (false, false, false, true) => -c * h
    | (false, true, false, true) => s * h
    | (true, false, true, false) => c * h
    | (true, true, true, false) => -s * h
    | _ => 0

/-- Row of an intermediate matrix of the `de` chain. -/
def deS17r10 {α : Type} [ Field α] (c s h : α) : B4 → α :=
  fun k =>
    match k with
    | (false, false, true, true) => 4 * c^2 * s * h + -s * h
    | (false, true, true, true) => c * h
    | (true, false, false, false) => -s * h
    | (true, true, false, false) => 4 * c^3 * h + -(3) * c * h
    | _ => 0

/-- Row of an intermediate matrix of the `de` chain. -/
def deS17r11 {α : Type} [ Field α] (c s h : α) : B4 → α :=
  fun k =>
    match k with
    | (false, false, true, false) => -c * h
    | (false, true, true, false) => s * h
    | (true, false, false, true) => -c * h
    | (true, true, false, true) => s * h
    | _ => 0

/-- Row of an intermediate matrix of the `de` chain. -/
def deS17r12 {α : Type} [ Field α] (c s h : α) : B4 → α :=
  fun k =>
    match k with
    | (false, false, false, false) => 4 * c^3 * h + -(3) * c * h
    | (false, true, false, false) => s * h
    | (true, false, true, true) => -c * h
    | (true, true, true, true) => 4 * c^2 * s * h + -s * h
    | _ => 0

/-- Row of an intermediate matrix of the `de` chain. -/
def deS17r13 {α : Type} [ Field α] (c s h : α) : B4 → α :=
  fun k =>
    match k with
    | (false, false, false, true) => -s * h
    | (false, true, false, true) => -c * h
    | (true, false, true, false) => s * h
    | (true, true, true, false) => c * h
    | _ => 0

/-- Row of an intermediate matrix of the `de` chain. -/
def deS17r14 {α : Type} [ Field α] (c s h : α) : B4 → α :=
  fun k =>
    match k with
    | (false, false, true, true) => 4 * c^3 * h + -(3) * c * h
    | (false, true, true, true) => s * h
    | (true, false, false, false) => c * h
    | (true, true, false, false) => -(4) * c^2 * s * h + s * h
    | _ => 0

/-- Row of an intermediate matrix of the `de` chain. -/
def deS17r15 {α : Type} [ Field α] (c s h : α) : B4 → α :=
  fun k =>
    match k with
    | (false, false, true, false) => -s * h
    | (false, true, true, false) => -c * h
    | (true, false, false, true) => -s * h
    | (true, true, false, true) => -c * h
    | _ => 0

/-- Suffix product 17 of the `de` decomposition chain. -/
def deS17 {α : Type} [ Field α] (c s h : α) : Matrix B4 B4 α :=
  Matrix.of fun r =>
    match r with
    | (false, false, false, false) => deS17r0 c s h
    | (false, false, false, true) => deS17r1 c s h
    | (false, false, true, false) => deS17r2 c s h
    | (false, false, true, true) => deS17r3 c s h
    | (false, true, false, false) => deS17r4 c s h
    | (false, true, false, true) => deS17r5 c s h
    | (false, true, true, false) => deS17r6 c s h
    | (false, true, true, true) => deS17r7 c s h
    | (true, false, false, false) => deS17r8 c s h
    | (true, false, false, true) => deS17r9 c s h
    | (true, false, true, false) => deS17r10 c s h
    | (true, false, true, true) => deS17r11 c s h
    | (true, true, false, false) => deS17r12 c s h
    | (true, true, false, true) => deS17r13 c s h
    | (true, true, true, false) => deS17r14 c s h
    | (true, true, true, true) => deS17r15 c s h

/-- Row of an intermediate matrix of the `de` chain. -/
def deS16r0 {α : Type} [ Field α] (c s h : α) : B4 → α :=
  fun k =>
    match k with
    | (false, false, false, false) => 8 * c^4 * h + -(8) * c^2 * h + h
    | (true, false, true, true) => h
    | (true, true, true, true) => 8 * c^3 * s * h + -(4) * c * s * h
    | _ => 0

/-- Row of an intermediate matrix of the `de` chain. -/
def deS16r1 {α : Type} [ Field α] (c s h : α) : B4 → α :=
  fun k =>
    match k with
    | (false, true, false, true) => h
    | (true, true, true, false) => h
    | _ => 0

/-- Row of an intermediate matrix of the `de` chain. -/
def deS16r2 {α : Type} [ Field α] (c s h : α) : B4 → α :=
  fun k =>
    match k with
    | (false, false, true, true) => 8 * c^4 * h + -(8) * c^2 * h + h
    | (true, false, false, false) => -h
    | (true, true, false, false) => -(8) * c^3 * s * h + 4 * c * s * h
    | _ => 0

/-- Row of an intermediate matrix of the `de` chain. -/
def deS16r3 {α : Type} [ Field α] (c s h : α) : B4 → α :=
  fun k =>
    match k with
    | (false, true, true, false) => h
    | (true, true, false, true) => -h
    | _ => 0

/-- Row of an intermediate matrix of the `de` chain. -/
def deS16r4 {α : Type} [ Field α] (c s h : α) : B4 → α :=
  fun k =>
    match k with
    | (false, false, false, false) => -(8) * c^3 * s * h + 4 * c * s * h
    | (false, true, false, false) => h
    | (true, true, true, true) => 8 * c^4 * h + -(8) * c^2 * h + h
    | _ => 0

/-- Row of an intermediate matrix of the `de` chain. -/
def deS16r5 {α : Type} [ Field α] (c s h : α) : B4 → α :=
  fun k =>
    match k with
    | (false, false, false, true) => h
    | (true, false, true, false) => h
    | _ => 0

/-- Row of an intermediate matrix of the `de` chain. -/
def deS16r6 {α : Type} [ Field α] (c s h : α) : B4 → α :=
  fun k =>
    match k with
    | (false, false, true, true) => -(8) * c^3 * s * h + 4 * c * s * h
    | (false, true, true, true) => h
    | (true, true, false, false) => -(8) * c^4 * h + 8 * c^2 * h + -h
    | _ => 0

/-- Row of an intermediate matrix of the `de` chain. -/
def deS16r7 {α : Type} [ Field α] (c s h : α) : B4 → α :=
  fun k =>
    match k with
    | (false, false, true, false) => h
    | (true, false, false, true) => -h
    | _ => 0

/-- Row of an intermediate matrix of the `de` chain. -/
def deS16r8 {α : Type} [ Field α] (c s h : α) : B4 → α :=
  fun k =>
    match k with
    | (false, false, false, false) => 8 * c^3 * s * h + -(4) * c * s * h
    | (false, true, false, false) => h
    | (true, true, true, true) => -(8) * c^4 * h + 8 * c^2 * h + -h
    | _ => 0

/-- Row of an intermediate matrix of the `de` chain. -/
def deS16r9 {α : Type} [ Field α] (c s h : α) : B4 → α :=
  fun k =>
    match k with
    | (false, false, false, true) => -h
    | (true, false, true, false) => h
    | _ => 0

/-- Row of an intermediate matrix of the `de` chain. -/
def deS16r10 {α : Type} [ Field α] (c s h : α) : B4 → α :=
  fun k =>
    match k with
    | (false, false, true, true) => 8 * c^3 * s * h + -(4) * c * s * h
    | (false, true, true, true) => h
    | (true, true, false, false) => 8 * c^4 * h + -(8) * c^2 * h + h
    | _ => 0

/-- Row of an intermediate matrix of the `de` chain. -/
def deS16r11 {α : Type} [ Field α] (c s h : α) : B4 → α :=
  fun k =>
    match k with
    | (false, false, true, false) => -h
    | (true, false, false, true) => -h
    | _ => 0

/-- Row of an intermediate matrix of the `de` chain. -/
def deS16r12 {α : Type} [ Field α] (c s h : α) : B4 → α :=
  fun k =>
    match k with
    | (false, false, false, false) => 8 * c^4 * h + -(8) * c^2 * h + h
    | (true, false, true, true) => -h
    | (true, true, true, true) => 8 * c^3 * s * h + -(4) * c * s * h
    | _ => 0

/-- Row of an intermediate matrix of the `de` chain. -/
def deS16r13 {α : Type} [ Field α] (c s h : α) : B4 → α :=
  fun k =>
    match k with
    | (false, true, false, true) => -h
    | (true, true, true, false) => h
    | _ => 0

/-- Row of an intermediate matrix of the `de` chain. -/
def deS16r14 {α : Type} [ Field α] (c s h : α) : B4 → α :=
  fun k =>
    match k with
    | (false, false, true, true) => 8 * c^4 * h + -(8) * c^2 * h + h
    | (true, false, false, false) => h
    | (true, true, false, false) => -(8) * c^3 * s * h + 4 * c * s * h
    | _ => 0

/-- Row of an intermediate matrix of the `de` chain. -/
def deS16r15 {α : Type} [ Field α] (c s h : α) : B4 → α :=
  fun k =>
    match k with
    | (false, true, true, false) => -h
    | (true, true, false, true) => -h
    | _ => 0

/-- Suffix product 16 of the `de` decomposition chain. -/
def deS16 {α : Type} [ Field α] (c s h : α) : Matrix B4 B4 α :=
  Matrix.of fun r =>
    match r with
    | (false, false, false, false) => deS16r0 c s h
    | (false, false, false, true) => deS16r1 c s h
    | (false, false, true, false) => deS16r2 c s h
    | (false, false, true, true) => deS16r3 c s h
    | (false, true, false, false) => deS16r4 c s h
    | (false, true, false, true) => deS16r5 c s h
    | (false, true, true, false) => deS16r6 c s h
    | (false, true, true, true) => deS16r7 c s h
    | (true, false, false, false) => deS16r8 c s h
    | (true, false, false, true) => deS16r9 c s h
    | (true, false, true, false) => deS16r10 c s h
    | (true, false, true, true) => deS16r11 c s h
    | (true, true, false, false) => deS16r12 c s h
    | (true, true, false, true) => deS16r13 c s h
    | (true, true, true, false) => deS16r14 c s h
    | (true, true, true, true) => deS16r15 c s h

/-- Suffix product 15 of the `de` decomposition chain. -/
def deS15 {α : Type} [ Field α] (c s h : α) : Matrix B4 B4 α :=
  Matrix.of fun r =>
    match r with
    | (false, false, false, false) => deS16r0 c s h
    | (false, false, false, true) => deS16r1 c s h
    | (false, false, true, false) => deS16r10 c s h
    | (false, false, true, true) => deS16r11 c s h
    | (false, true, false, false) => deS16r4 c s h
    | (false, true, false, true) => deS16r5 c s h
    | (false, true, true, false) => deS16r14 c s h
    | (false, true, true, true) => deS16r15 c s h
    | (true, false, false, false) => deS16r8 c s h
    | (true, false, false, true) => deS16r9 c s h
    | (true, false, true, false) => deS16r2 c s h
    | (true, false, true, true) => deS16r3 c s h
    | (true, true, false, false) => deS16r12 c s h
    | (true, true, false, true) => deS16r13 c s h
    | (true, true, true, false) => deS16r6 c s h
    | (true, true, true, true) => deS16r7 c s h

/-- Suffix product 14 of the `de` decomposition chain. -/
def deS14 {α : Type} [ Field α] (c s h : α) : Matrix B4 B4 α :=
  Matrix.of fun r =>
    match r with
    | (false, false, false, false) => deS16r0 c s h
    | (false, false, false, true) => deS16r1 c s h
    | (false, false, true, false) => deS16r14 c s h
    | (false, false, true, true) => deS16r15 c s h
    | (false, true, false, false) => deS16r4 c s h
    | (false, true, false, true) => deS16r5 c s h
    | (false, true, true, false) => deS16r10 c s h
    | (false, true, true, true) => deS16r11 c s h
    | (true, false, false, false) => deS16r8 c s h
    | (true, false, false, true) => deS16r9 c s h
    | (true, false, true, false) => deS16r6 c s h
    | (true, false, true, true) => deS16r7 c s h
    | (true, true, false, false) => deS16r12 c s h
    | (true, true, false, true) => deS16r13 c s h
    | (true, true, true, false) => deS16r2 c s h
    | (true, true, true, true) => deS16r3 c s h

/-- Row of an intermediate matrix of the `de` chain. -/
def deS13r0 {α : Type} [ Field α] (c s h : α) : B4 → α :=
  fun k =>
    match k with
    | (false, false, false, false) => 4 * c^3 * h + -(3) * c * h
    | (false, true, false, false) => s * h
    | (true, false, true, true) => c * h
    | (true, true, true, true) => 4 * c^2 * s * h + -s * h
    | _ => 0

/-- Row of an intermediate matrix of the `de` chain. -/
def deS13r1 {α : Type} [ Field α] (c s h : α) : B4 → α :=
  fun k =>
    match k with
    | (false, false, false, true) => -s * h
    | (false, true, false, true) => c * h
    | (true, false, true, false) => s * h
    | (true, true, true, false) => c * h
    | _ => 0

/-- Row of an intermediate matrix of the `de` chain. -/
def deS13r2 {α : Type} [ Field α] (c s h : α) : B4 → α :=
  fun k =>
    match k with
    | (false, false, true, true) => 16 * c^5 * h + -(20) * c^3 * h + 5 * c * h
    | (false, true, true, true) => s * h
    | (true, false, false, false) => c * h
    | (true, true, false, false) => -(16) * c^4 * s * h + 12 * c^2 * s * h + -s * h
    | _ => 0

/-- Row of an intermediate matrix of the `de` chain. -/
def deS13r3 {α : Type} [ Field α] (c s h : α) : B4 → α :=
  fun k =>
    match k with
    | (false, false, true, false) => s * h
    | (false, true, true, false) => -c * h
    | (true, false, false, true) => -s * h
    | (true, true, false, true) => -c * h
    | _ => 0

/-- Row of an intermediate matrix of the `de` chain. -/
def deS13r4 {α : Type} [ Field α] (c s h : α) : B4 → α :=
  fun k =>
    match k with
    | (false, false, false, false) => -(4) * c^2 * s * h + s * h
    | (false, true, false, false) => c * h
    | (true, false, true, true) => -s * h
    | (true, true, true, true) => 4 * c^3 * h + -(3) * c * h
    | _ => 0

/-- Row of an intermediate matrix of the `de` chain. -/
def deS13r5 {α : Type} [ Field α] (c s h : α) : B4 → α :=
  fun k =>
    match k with
    | (false, false, false, true) => c * h
    | (false, true, false, true) => -s * h
    | (true, false, true, false) => c * h
    | (true, true, true, false) => s * h
    | _ => 0

/-- Row of an intermediate matrix of the `de` chain. -/
def deS13r6 {α : Type} [ Field α] (c s h : α) : B4 → α :=
  fun k =>
    match k with
    | (false, false, true, true) => 16 * c^4 * s * h + -(12) * c^2 * s * h + s * h
    | (false, true, true, true) => c * h
    | (true, false, false, false) => -s * h
    | (true, true, false, false) => 16 * c^5 * h + -(20) * c^3 * h + 5 * c * h
    | _ => 0

/-- Row of an intermediate matrix of the `de` chain. -/
def deS13r7 {α : Type} [ Field α] (c s h : α) : B4 → α :=
  fun k =>
    match k with
    | (false, false, true, false) => -c * h
    | (false, true, true, false) => s * h
    | (true, false, false, true) => -c * h
    | (true, true, false, true) => -s * h
    | _ => 0

/-- Row of an intermediate matrix of the `de` chain. -/
def deS13r8 {α : Type} [ Field α] (c s h : α) : B4 → α :=
  fun k =>
    match k with
    | (false, false, false, false) => 4 * c^2 * s * h + -s * h
    | (false, true, false, false) => c * h
    | (true, false, true, true) => -s * h
    | (true, true, true, true) => -(4) * c^3 * h + 3 * c * h
    | _ => 0

/-- Row of an intermediate matrix of the `de` chain. -/
def deS13r9 {α : Type} [ Field α] (c s h : α) : B4 → α :=
  fun k =>
    match k with
    | (false, false, false, true) => -c * h
    | (false, true, false, true) => -s * h
    | (true, false, true, false) => c * h
    | (true, true, true, false) => -s * h
    | _ => 0

/-- Row of an intermediate matrix of the `de` chain. -/
def deS13r10 {α : Type} [ Field α] (c s h : α) : B4 → α :=
  fun k =>
    match k with
    | (false, false, true, true) => -(16) * c^4 * s * h + 12 * c^2 * s * h + -s * h
    | (false, true, true, true) => c * h
    | (true, false, false, false) => -s * h
    | (true, true, false, false) => -(16) * c^5 * h + 20 * c^3 * h + -(5) * c * h
    | _ => 0

/-- Row of an intermediate matrix of the `de` chain. -/
def deS13r11 {α : Type} [ Field α] (c s h : α) : B4 → α :=
  fun k =>
    match k with
    | (false, false, true, false) => c * h
    | (false, true, true, false) => s * h
    | (true, false, false, true) => -c * h
    | (true, true, false, true) => s * h
    | _ => 0

/-- Row of an intermediate matrix of the `de` chain. -/
def deS13r12 {α : Type} [ Field α] (c s h : α) : B4 → α :=
  fun k =>
    match k with
    | (false, false, false, false) => 4 * c^3 * h + -(3) * c * h
    | (false, true, false, false) => -s * h
    | (true, false, true, true) => -c * h
    | (true, true, true, true) => 4 * c^2 * s * h + -s * h
    | _ => 0

/-- Row of an intermediate matrix of the `de` chain. -/
def deS13r13 {α : Type} [ Field α] (c s h : α) : B4 → α :=
  fun k =>
    match k with
    | (false, false, false, true) => -s * h
    | (false, true, false, true) => -c * h
    | (true, false, true, false) => -s * h
    | (true, true, true, false) => c * h
    | _ => 0

/-- Row of an intermediate matrix of the `de` chain. -/
def deS13r14 {α : Type} [ Field α] (c s h : α) : B4 → α :=
  fun k =>
    match k with
    | (false, false, true, true) => 16 * c^5 * h + -(20) * c^3 * h + 5 * c * h
    | (false, true, true, true) => -s * h
    | (true, false, false, false) => -c * h
    | (true, true, false, false) => -(16) * c^4 * s * h + 12 * c^2 * s * h + -s * h
    | _ => 0

/-- Row of an intermediate matrix of the `de` chain. -/
def deS13r15 {α : Type} [ Field α] (c s h : α) : B4 → α :=
  fun k =>
    match k with
    | (false, false, true, false) => s * h
    | (false, true, true, false) => c * h
    | (true, false, false, true) => s * h
    | (true, true, false, true) => -c * h
    | _ => 0

/-- Suffix product 13 of the `de` decomposition chain. -/
def deS13 {α : Type} [ Field α] (c s h : α) : Matrix B4 B4 α :=
  Matrix.of fun r =>
    match r with
    | (false, false, false, false) => deS13r0 c s h
    | (false, false, false, true) => deS13r1 c s h
    | (false, false, true, false) => deS13r2 c s h
    | (false, false, true, true) => deS13r3 c s h
    | (false, true, false, false) => deS13r4 c s h
    | (false, true, false, true) => deS13r5 c s h
    | (false, true, true, false) => deS13r6 c s h
    | (false, true, true, true) => deS13r7 c s h
    | (true, false, false, false) => deS13r8 c s h
    | (true, false, false, true) => deS13r9 c s h
    | (true, false, true, false) => deS13r10 c s h
    | (true, false, true, true) => deS13r11 c s h
    | (true, true, false, false) => deS13r12 c s h
    | (true, true, false, true) => deS13r13 c s h
    | (true, true, true, false) => deS13r14 c s h
    | (true, true, true, true) => deS13r15 c s h

/-- Row of an intermediate matrix of the `de` chain. -/
def deS12r0 {α : Type} [ Field α] (c s h : α) : B4 → α :=
  fun k =>
    match k with
    | (false, false, false, false) => 2 * c^2 * h + -h
    | (true, false, true, true) => h
    | (true, true, true, true) => 2 * c * s * h
    | _ => 0

/-- Row of an intermediate matrix of the `de` chain. -/
def deS12r1 {α : Type} [ Field α] (c s h : α) : B4 → α :=
  fun k =>
    match k with
    | (false, false, false, true) => -(2) * c * s * h
    | (false, true, false, true) => h
    | (true, true, true, false) => 2 * c^2 * h + -h
    | _ => 0

/-- Row of an intermediate matrix of the `de` chain. -/
def deS12r2 {α : Type} [ Field α] (c s h : α) : B4 → α :=
  fun k =>
    match k with
    | (false, false, true, true) => 32 * c^6 * h + -(48) * c^4 * h + 18 * c^2 * h + -h
    | (true, false, false, false) => h
    | (true, true, false, false) => -(32) * c^5 * s * h + 32 * c^3 * s * h + -(6) * c * s * h
    | _ => 0

/-- Row of an intermediate matrix of the `de` chain. -/
def deS12r3 {α : Type} [ Field α] (c s h : α) : B4 → α :=
  fun k =>
    match k with
    | (false, false, true, false) => 2 * c * s * h
    | (false, true, true, false) => -h
    | (true, true, false, true) => -(2) * c^2 * h + h
    | _ => 0

/-- Row of an intermediate matrix of the `de` chain. -/
def deS12r4 {α : Type} [ Field α] (c s h : α) : B4 → α :=
  fun k =>
    match k with
    | (false, false, false, false) => -(2) * c * s * h
    | (false, true, false, false) => h
    | (true, true, true, true) => 2 * c^2 * h + -h
    | _ => 0

/-- Row of an intermediate matrix of the `de` chain. -/
def deS12r5 {α : Type} [ Field α] (c s h : α) : B4 → α :=
  fun k =>
    match k with
    | (false, false, false, true) => 2 * c^2 * h + -h
    | (true, false, true, false) => h
    | (true, true, true, false) => 2 * c * s * h
    | _ => 0

/-- Row of an intermediate matrix of the `de` chain. -/
def deS12r6 {α : Type} [ Field α] (c s h : α) : B4 → α :=
  fun k =>
    match k with
    | (false, false, true, true) => 32 * c^5 * s * h + -(32) * c^3 * s * h + 6 * c * s * h
    | (false, true, true, true) => h
    | (true, true, false, false) => 32 * c^6 * h + -(48) * c^4 * h + 18 * c^2 * h + -h
    | _ => 0

/-- Row of an intermediate matrix of the `de` chain. -/
def deS12r7 {α : Type} [ Field α] (c s h : α) : B4 → α :=
  fun k =>
    match k with
    | (false, false, true, false) => -(2) * c^2 * h + h
    | (true, false, false, true) => -h
    | (true, true, false, true) => -(2) * c * s * h
    | _ => 0

/-- Row of an intermediate matrix of the `de` chain. -/
def deS12r8 {α : Type} [ Field α] (c s h : α) : B4 → α :=
  fun k =>
    match k with
    | (false, false, false, false) => 2 * c * s * h
    | (false, true, false, false) => h
    | (true, true, true, true) => -(2) * c^2 * h + h
    | _ => 0

/-- Row of an intermediate matrix of the `de` chain. -/
def deS12r9 {α : Type} [ Field α] (c s h : α) : B4 → α :=
  fun k =>
    match k with
    | (false, false, false, true) => -(2) * c^2 * h + h
    | (true, false, true, false) => h
    | (true, true, true, false) => -(2) * c * s * h
    | _ => 0

/-- Row of an intermediate matrix of the `de` chain. -/
def deS12r10 {α : Type} [ Field α] (c s h : α) : B4 → α :=
  fun k =>
    match k with
    | (false, false, true, true) => -(32) * c^5 * s * h + 32 * c^3 * s * h + -(6) * c * s * h
    | (false, true, true, true) => h
    | (true, true, false, false) => -(32) * c^6 * h + 48 * c^4 * h + -(18) * c^2 * h + h
    | _ => 0

/-- Row of an intermediate matrix of the `de` chain. -/
def deS12r11 {α : Type} [ Field α] (c s h : α) : B4 → α :=
  fun k =>
    match k with
    | (false, false, true, false) => 2 * c^2 * h + -h
    | (true, false, false, true) => -h
    | (true, true, false, true) => 2 * c * s * h
    | _ => 0

/-- Row of an intermediate matrix of the `de` chain. -/
def deS12r12 {α : Type} [ Field α] (c s h : α) : B4 → α :=
  fun k =>
    match k with
    | (false, false, false, false) => 2 * c^2 * h + -h
    | (true, false, true, true) => -h
    | (true, true, true, true) => 2 * c * s * h
    | _ => 0

/-- Row of an intermediate matrix of the `de` chain. -/
def deS12r13 {α : Type} [ Field α] (c s h : α) : B4 → α :=
  fun k =>
    match k with
    | (false, false, false, true) => -(2) * c * s * h
    | (false, true, false, true) => -h
    | (true, true, true, false) => 2 * c^2 * h + -h
    | _ => 0

/-- Row of an intermediate matrix of the `de` chain. -/
def deS12r14 {α : Type} [ Field α] (c s h : α) : B4 → α :=
  fun k =>
    match k with
    | (false, false, true, true) => 32 * c^6 * h + -(48) * c^4 * h + 18 * c^2 * h + -h
    | (true, false, false, false) => -h
    | (true, true, false, false) => -(32) * c^5 * s * h + 32 * c^3 * s * h + -(6) * c * s * h
    | _ => 0

/-- Row of an intermediate matrix of the `de` chain. -/
def deS12r15 {α : Type} [ Field α] (c s h : α) : B4 → α :=
  fun k =>
    match k with
    | (false, false, true, false) => 2 * c * s * h
    | (false, true, true, false) => h
    | (true, true, false, true) => -(2) * c^2 * h + h
    | _ => 0

/-- Suffix product 12 of the `de` decomposition chain. -/
def deS12 {α : Type} [ Field α] (c s h : α) : Matrix B4 B4 α :=
  Matrix.of fun r =>
    match r with
    | (false, false, false, false) => deS12r0 c s h
    | (false, false, false, true) => deS12r1 c s h
    | (false, false, true, false) => deS12r2 c s h
    | (false, false, true, true) => deS12r3 c s h
    | (false, true, false, false) => deS12r4 c s h
    | (false, true, false, true) => deS12r5 c s h
    | (false, true, true, false) => deS12r6 c s h
    | (false, true, true, true) => deS12r7 c s h
    | (true, false, false, false) => deS12r8 c s h
    | (true, false, false, true) => deS12r9 c s h
    | (true, false, true, false) => deS12r10 c s h
    | (true, false, true, true) => deS12r11 c s h
    | (true, true, false, false) => deS12r12 c s h
    | (true, true, false, true) => deS12r13 c s h
    | (true, true, true, false) => deS12r14 c s h
    | (true, true, true, true) => deS12r15 c s h

/-- Suffix product 11 of the `de` decomposition chain. -/
def deS11 {α : Type} [ Field α] (c s h : α) : Matrix B4 B4 α :=
  Matrix.of fun r =>
    match r with
    | (false, false, false, false) => deS12r0 c s h
    | (false, false, false, true) => deS12r5 c s h
    | (false, false, true, false) => deS12r2 c s h
    | (false, false, true, true) => deS12r7 c s h
    | (false, true, false, false) => deS12r4 c s h
    | (false, true, false, true) => deS12r1 c s h
    | (false, true, true, false) => deS12r6 c s h
    | (false, true, true, true) => deS12r3 c s h
    | (true, false, false, false) => deS12r8 c s h
    | (true, false, false, true) => deS12r13 c s h
    | (true, false, true, false) => deS12r10 c s h
    | (true, false, true, true) => deS12r15 c s h
    | (true, true, false, false) => deS12r12 c s h
    | (true, true, false, true) => deS12r9 c s h
    | (true, true, true, false) => deS12r14 c s h
    | (true, true, true, true) => deS12r11 c s h

/-- Row of an intermediate matrix of the `de` chain. -/
def deS10r0 {α : Type} [ Field α] (c s h : α) : B4 → α :=
  fun k =>
    match k with
    | (false, false, false, false) => c^2 + -(1/2)
    | (false, false, false, true) => c^2 + -(1/2)
    | (true, false, true, false) => (1/2)
    | (true, false, true, true) => (1/2)
    | (true, true, true, false) => c * s
    | (true, true, true, true) => c * s
    | _ => 0

/-- Row of an intermediate matrix of the `de` chain. -/
def deS10r1 {α : Type} [ Field α] (c s h : α) : B4 → α :=
  fun k =>
    match k with
    | (false, false, false, false) => c^2 + -(1/2)
    | (false, false, false, true) => -c^2 + (1/2)
    | (true, false, true, false) => -(1/2)
    | (true, false, true, true) => (1/2)
    | (true, true, true, false) => -c * s
    | (true, true, true, true) => c * s
    | _ => 0

/-- Row of an intermediate matrix of the `de` chain. -/
def deS10r2 {α : Type} [ Field α] (c s h : α) : B4 → α :=
  fun k =>
    match k with
    | (false, false, true, false) => -c^2 + (1/2)
    | (false, false, true, true) => 16 * c^6 + -(24) * c^4 + 9 * c^2 + -(1/2)
    | (true, false, false, false) => (1/2)
    | (true, false, false, true) => -(1/2)
    | (true, true, false, false) => -(16) * c^5 * s + 16 * c^3 * s + -(3) * c * s
    | (true, true, false, true) => -c * s
    | _ => 0

/-- Row of an intermediate matrix of the `de` chain. -/
def deS10r3 {α : Type} [ Field α] (c s h : α) : B4 → α :=
  fun k =>
    match k with
    | (false, false, true, false) => c^2 + -(1/2)
    | (false, false, true, true) => 16 * c^6 + -(24) * c^4 + 9 * c^2 + -(1/2)
    | (true, false, false, false) => (1/2)
    | (true, false, false, true) => (1/2)
    | (true, true, false, false) => -(16) * c^5 * s + 16 * c^3 * s + -(3) * c * s
    | (true, true, false, true) => c * s
    | _ => 0

/-- Row of an intermediate matrix of the `de` chain. -/
def deS10r4 {α : Type} [ Field α] (c s h : α) : B4 → α :=
  fun k =>
    match k with
    | (false, false, false, false) => -c * s
    | (false, false, false, true) => -c * s
    | (false, true, false, false) => (1/2)
    | (false, true, false, true) => (1/2)
    | (true, true, true, false) => c^2 + -(1/2)
    | (true, true, true, true) => c^2 + -(1/2)
    | _ => 0

/-- Row of an intermediate matrix of the `de` chain. -/
def deS10r5 {α : Type} [ Field α] (c s h : α) : B4 → α :=
  fun k =>
    match k with
    | (false, false, false, false) => -c * s
    | (false, false, false, true) => c * s
    | (false, true, false, false) => (1/2)
    | (false, true, false, true) => -(1/2)
    | (true, true, true, false) => -c^2 + (1/2)
    | (true, true, true, true) => c^2 + -(1/2)
    | _ => 0

/-- Row of an intermediate matrix of the `de` chain. -/
def deS10r6 {α : Type} [ Field α] (c s h : α) : B4 → α :=
  fun k =>
    match k with
    | (false, false, true, false) => c * s
    | (false, false, true, true) => 16 * c^5 * s + -(16) * c^3 * s + 3 * c * s
    | (false, true, true, false) => -(1/2)
    | (false, true, true, true) => (1/2)
    | (true, true, false, false) => 16 * c^6 + -(24) * c^4 + 9 * c^2 + -(1/2)
    | (true, true, false, true) => -c^2 + (1/2)
    | _ => 0

/-- Row of an intermediate matrix of the `de` chain. -/
def deS10r7 {α : Type} [ Field α] (c s h : α) : B4 → α :=
  fun k =>
    match k with
    | (false, false, true, false) => -c * s
    | (false, false, true, true) => 16 * c^5 * s + -(16) * c^3 * s + 3 * c * s
    | (false, true, true, false) => (1/2)
    | (false, true, true, true) => (1/2)
    | (true, true, false, false) => 16 * c^6 + -(24) * c^4 + 9 * c^2 + -(1/2)
    | (true, true, false, true) => c^2 + -(1/2)
    | _ => 0

/-- Row of an intermediate matrix of the `de` chain. -/
def deS10r8 {α : Type} [ Field α] (c s h : α) : B4 → α :=
  fun k =>
    match k with
    | (false, false, false, false) => c * s
    | (false, false, false, true) => -c * s
    | (false, true, false, false) => (1/2)
    | (false, true, false, true) => -(1/2)
    | (true, true, true, false) => c^2 + -(1/2)
    | (true, true, true, true) => -c^2 + (1/2)
    | _ => 0

/-- Row of an intermediate matrix of the `de` chain. -/
def deS10r9 {α : Type} [ Field α] (c s h : α) : B4 → α :=
  fun k =>
    match k with
    | (false, false, false, false) => c * s
    | (false, false, false, true) => c * s
    | (false, true, false, false) => (1/2)
    | (false, true, false, true) => (1/2)
    | (true, true, true, false) => -c^2 + (1/2)
    | (true, true, true, true) => -c^2 + (1/2)
    | _ => 0

/-- Row of an intermediate matrix of the `de` chain. -/
def deS10r10 {α : Type} [ Field α] (c s h : α) : B4 → α :=
  fun k =>
    match k with
    | (false, false, true, false) => c * s
    | (false, false, true, true) => -(16) * c^5 * s + 16 * c^3 * s + -(3) * c * s
    | (false, true, true, false) => (1/2)
    | (false, true, true, true) => (1/2)
    | (true, true, false, false) => -(16) * c^6 + 24 * c^4 + -(9) * c^2 + (1/2)
    | (true, true, false, true) => -c^2 + (1/2)
    | _ => 0

/-- Row of an intermediate matrix of the `de` chain. -/
def deS10r11 {α : Type} [ Field α] (c s h : α) : B4 → α :=
  fun k =>
    match k with
    | (false, false, true, false) => -c * s
    | (false, false, true, true) => -(16) * c^5 * s + 16 * c^3 * s + -(3) * c * s
    | (false, true, true, false) => -(1/2)
    | (false, true, true, true) => (1/2)
    | (true, true, false, false) => -(16) * c^6 + 24 * c^4 + -(9) * c^2 + (1/2)
    | (true, true, false, true) => c^2 + -(1/2)
    | _ => 0

/-- Row of an intermediate matrix of the `de` chain. -/
def deS10r12 {α : Type} [ Field α] (c s h : α) : B4 → α :=
  fun k =>
    match k with
    | (false, false, false, false) => c^2 + -(1/2)
    | (false, false, false, true) => -c^2 + (1/2)
    | (true, false, true, false) => (1/2)
    | (true, false, true, true) => -(1/2)
    | (true, true, true, false) => -c * s
    | (true, true, true, true) => c * s
    | _ => 0

/-- Row of an intermediate matrix of the `de` chain. -/
def deS10r13 {α : Type} [ Field α] (c s h : α) : B4 → α :=
  fun k =>
    match k with
    | (false, false, false, false) => c^2 + -(1/2)
    | (false, false, false, true) => c^2 + -(1/2)
    | (true, false, true, false) => -(1/2)
    | (true, false, true, true) => -(1/2)
    | (true, true, true, false) => c * s
    | (true, true, true, true) => c * s
    | _ => 0

/-- Row of an intermediate matrix of the `de` chain. -/
def deS10r14 {α : Type} [ Field α] (c s h : α) : B4 → α :=
  fun k =>
    match k with
    | (false, false, true, false) => c^2 + -(1/2)
    | (false, false, true, true) => 16 * c^6 + -(24) * c^4 + 9 * c^2 + -(1/2)
    | (true, false, false, false) => -(1/2)
    | (true, false, false, true) => -(1/2)
    | (true, true, false, false) => -(16) * c^5 * s + 16 * c^3 * s + -(3) * c * s
    | (true, true, false, true) => c * s
    | _ => 0

/-- Row of an intermediate matrix of the `de` chain. -/
def deS10r15 {α : Type} [ Field α] (c s h : α) : B4 → α :=
  fun k =>
    match k with
    | (false, false, true, false) => -c^2 + (1/2)
    | (false, false, true, true) => 16 * c^6 + -(24) * c^4 + 9 * c^2 + -(1/2)
    | (true, false, false, false) => -(1/2)
    | (true, false, false, true) => (1/2)
    | (true, true, false, false) => -(16) * c^5 * s + 16 * c^3 * s + -(3) * c * s
    | (true, true, false, true) => -c * s
    | _ => 0

/-- Suffix product 10 of the `de` decomposition chain. -/
def deS10 {α : Type} [ Field α] (c s h : α) : Matrix B4 B4 α :=
  Matrix.of fun r =>
    match r with
    | (false, false, false, false) => deS10r0 c s h
    | (false, false, false, true) => deS10r1 c s h
    | (false, false, true, false) => deS10r2 c s h
    | (false, false, true, true) => deS10r3 c s h
    | (false, true, false, false) => deS10r4 c s h
    | (false, true, false, true) => deS10r5 c s h
    | (false, true, true, false) => deS10r6 c s h
    | (false, true, true, true) => deS10r7 c s h
    | (true, false, false, false) => deS10r8 c s h
    | (true, false, false, true) => deS10r9 c s h
    | (true, false, true, false) => deS10r10 c s h
    | (true, false, true, true) => deS10r11 c s h
    | (true, true, false, false) => deS10r12 c s h
    | (true, true, false, true) => deS10r13 c s h
    | (true, true, true, false) => deS10r14 c s h
    | (true, true, true, true) => deS10r15 c s h

/-- Suffix product 9 of the `de` decomposition chain. -/
def deS9 {α : Type} [ Field α] (c s h : α) : Matrix B4 B4 α :=
  Matrix.of fun r =>
    match r with
    | (false, false, false, false) => deS10r0 c s h
    | (false, false, false, true) => deS10r1 c s h
    | (false, false, true, false) => deS10r2 c s h
    | (false, false, true, true) => deS10r3 c s h
    | (false, true, false, false) => deS10r4 c s h
    | (false, true, false, true) => deS10r5 c s h
    | (false, true, true, false) => deS10r6 c s h
    | (false, true, true, true) => deS10r7 c s h
    | (true, false, false, false) => deS10r9 c s h
    | (true, false, false, true) => deS10r8 c s h
    | (true, false, true, false) => deS10r11 c s h
    | (true, false, true, true) => deS10r10 c s h
    | (true, true, false, false) => deS10r13 c s h
    | (true, true, false, true) => deS10r12 c s h
    | (true, true, true, false) => deS10r15 c s h
    | (true, true, true, true) => deS10r14 c s h

/-- Row of an intermediate matrix of the `de` chain. -/
def deS8r0 {α : Type} [ Field α] (c s h : α) : B4 → α :=
  fun k =>
    match k with
    | (false, false, false, false) => (1/2) * c
    | (false, false, false, true) => (1/2) * c
    | (false, true, false, false) => (1/2) * s
    | (false, true, false, true) => (1/2) * s
    | (true, false, true, false) => (1/2) * c
    | (true, false, true, true) => (1/2) * c
    | (true, true, true, false) => (1/2) * s
    | (true, true, true, true) => (1/2) * s
    | _ => 0

/-- Row of an intermediate matrix of the `de` chain. -/
def deS8r1 {α : Type} [ Field α] (c s h : α) : B4 → α :=
  fun k =>
    match k with
    | (false, false, false, false) => (1/2) * c
    | (false, false, false, true) => -(1/2) * c
    | (false, true, false, false) => (1/2) * s
    | (false, true, false, true) => -(1/2) * s
    | (true, false, true, false) => -(1/2) * c
    | (true, false, true, true) => (1/2) * c
    | (true, true, true, false) => -(1/2) * s
    | (true, true, true, true) => (1/2) * s
    | _ => 0

/-- Row of an intermediate matrix of the `de` chain. -/
def deS8r2 {α : Type} [ Field α] (c s h : α) : B4 → α :=
  fun k =>
    match k with
    | (false, false, true, false) => -(1/2) * c
    | (false, false, true, true) => 32 * c^7 + -(56) * c^5 + 28 * c^3 + -(7/2) * c
    | (false, true, true, false) => -(1/2) * s
    | (false, true, true, true) => (1/2) * s
    | (true, false, false, false) => (1/2) * c
    | (true, false, false, true) => -(1/2) * c
    | (true, true, false, false) => -(32) * c^6 * s + 40 * c^4 * s + -(12) * c^2 * s + (1/2) * s
    | (true, true, false, true) => -(1/2) * s
    | _ => 0

/-- Row of an intermediate matrix of the `de` chain. -/
def deS8r3 {α : Type} [ Field α] (c s h : α) : B4 → α :=
  fun k =>
    match k with
    | (false, false, true, false) => (1/2) * c
    | (false, false, true, true) => 32 * c^7 + -(56) * c^5 + 28 * c^3 + -(7/2) * c
    | (false, true, true, false) => (1/2) * s
    | (false, true, true, true) => (1/2) * s
    | (true, false, false, false) => (1/2) * c
    | (true, false, false, true) => (1/2) * c
    | (true, true, false, false) => -(32) * c^6 * s + 40 * c^4 * s + -(12) * c^2 * s + (1/2) * s
    | (true, true, false, true) => (1/2) * s
    | _ => 0

/-- Row of an intermediate matrix of the `de` chain. -/
def deS8r4 {α : Type} [ Field α] (c s h : α) : B4 → α :=
  fun k =>
    match k with
    | (false, false, false, false) => -(1/2) * s
    | (false, false, false, true) => -(1/2) * s
    | (false, true, false, false) => (1/2) * c
    | (false, true, false, true) => (1/2) * c
    | (true, false, true, false) => -(1/2) * s
    | (true, false, true, true) => -(1/2) * s
    | (true, true, true, false) => (1/2) * c
    | (true, true, true, true) => (1/2) * c
    | _ => 0

/-- Row of an intermediate matrix of the `de` chain. -/
def deS8r5 {α : Type} [ Field α] (c s h : α) : B4 → α :=
  fun k =>
    match k with
    | (false, false, false, false) => -(1/2) * s
    | (false, false, false, true) => (1/2) * s
    | (false, true, false, false) => (1/2) * c
    | (false, true, false, true) => -(1/2) * c
    | (true, false, true, false) => (1/2) * s
    | (true, false, true, true) => -(1/2) * s
    | (true, true, true, false) => -(1/2) * c
    | (true, true, true, true) => (1/2) * c
    | _ => 0

/-- Row of an intermediate matrix of the `de` chain. -/
def deS8r6 {α : Type} [ Field α] (c s h : α) : B4 → α :=
  fun k =>
    match k with
    | (false, false, true, false) => (1/2) * s
    | (false, false, true, true) => 32 * c^6 * s + -(40) * c^4 * s + 12 * c^2 * s + -(1/2) * s
    | (false, true, true, false) => -(1/2) * c
    | (false, true, true, true) => (1/2) * c
    | (true, false, false, false) => -(1/2) * s
    | (true, false, false, true) => (1/2) * s
    | (true, true, false, false) => 32 * c^7 + -(56) * c^5 + 28 * c^3 + -(7/2) * c
    | (true, true, false, true) => -(1/2) * c
    | _ => 0

/-- Row of an intermediate matrix of the `de` chain. -/
def deS8r7 {α : Type} [ Field α] (c s h : α) : B4 → α :=
  fun k =>
    match k with
    | (false, false, true, false) => -(1/2) * s
    | (false, false, true, true) => 32 * c^6 * s + -(40) * c^4 * s + 12 * c^2 * s + -(1/2) * s
    | (false, true, true, false) => (1/2) * c
    | (false, true, true, true) => (1/2) * c
    | (true, false, false, false) => -(1/2) * s
    | (true, false, false, true) => -(1/2) * s
    | (true, true, false, false) => 32 * c^7 + -(56) * c^5 + 28 * c^3 + -(7/2) * c
    | (true, true, false, true) => (1/2) * c
    | _ => 0

/-- Row of an intermediate matrix of the `de` chain. -/
def deS8r8 {α : Type} [ Field α] (c s h : α) : B4 → α :=
  fun k =>
    match k with
    | (false, false, false, false) => (1/2) * s
    | (false, false, false, true) => (1/2) * s
    | (false, true, false, false) => (1/2) * c
    | (false, true, false, true) => (1/2) * c
    | (true, false, true, false) => -(1/2) * s
    | (true, false, true, true) => -(1/2) * s
    | (true, true, true, false) => -(1/2) * c
    | (true, true, true, true) => -(1/2) * c
    | _ => 0

/-- Row of an intermediate matrix of the `de` chain. -/
def deS8r9 {α : Type} [ Field α] (c s h : α) : B4 → α :=
  fun k =>
    match k with
    | (false, false, false, false) => (1/2) * s
    | (false, false, false, true) => -(1/2) * s
    | (false, true, false, false) => (1/2) * c
    | (false, true, false, true) => -(1/2) * c
    | (true, false, true, false) => (1/2) * s
    | (true, false, true, true) => -(1/2) * s
    | (true, true, true, false) => (1/2) * c
    | (true, true, true, true) => -(1/2) * c
    | _ => 0

/-- Row of an intermediate matrix of the `de` chain. -/
def deS8r10 {α : Type} [ Field α] (c s h : α) : B4 → α :=
  fun k =>
    match k with
    | (false, false, true, false) => -(1/2) * s
    | (false, false, true, true) => -(32) * c^6 * s + 40 * c^4 * s + -(12) * c^2 * s + (1/2) * s
    | (false, true, true, false) => -(1/2) * c
    | (false, true, true, true) => (1/2) * c
    | (true, false, false, false) => -(1/2) * s
    | (true, false, false, true) => (1/2) * s
    | (true, true, false, false) => -(32) * c^7 + 56 * c^5 + -(28) * c^3 + (7/2) * c
    | (true, true, false, true) => (1/2) * c
    | _ => 0

/-- Row of an intermediate matrix of the `de` chain. -/
def deS8r11 {α : Type} [ Field α] (c s h : α) : B4 → α :=
  fun k =>
    match k with
    | (false, false, true, false) => (1/2) * s
    | (false, false, true, true) => -(32) * c^6 * s + 40 * c^4 * s + -(12) * c^2 * s + (1/2) * s
    | (false, true, true, false) => (1/2) * c
    | (false, true, true, true) => (1/2) * c
    | (true, false, false, false) => -(1/2) * s
    | (true, false, false, true) => -(1/2) * s
    | (true, true, false, false) => -(32) * c^7 + 56 * c^5 + -(28) * c^3 + (7/2) * c
    | (true, true, false, true) => -(1/2) * c
    | _ => 0

/-- Row of an intermediate matrix of the `de` chain. -/
def deS8r12 {α : Type} [ Field α] (c s h : α) : B4 → α :=
  fun k =>
    match k with
    | (false, false, false, false) => (1/2) * c
    | (false, false, false, true) => (1/2) * c
    | (false, true, false, false) => -(1/2) * s
    | (false, true, false, true) => -(1/2) * s
    | (true, false, true, false) => -(1/2) * c
    | (true, false, true, true) => -(1/2) * c
    | (true, true, true, false) => (1/2) * s
    | (true, true, true, true) => (1/2) * s
    | _ => 0

/-- Row of an intermediate matrix of the `de` chain. -/
def deS8r13 {α : Type} [ Field α] (c s h : α) : B4 → α :=
  fun k =>
    match k with
    | (false, false, false, false) => (1/2) * c
    | (false, false, false, true) => -(1/2) * c
    | (false, true, false, false) => -(1/2) * s
    | (false, true, false, true) => (1/2) * s
    | (true, false, true, false) => (1/2) * c
    | (true, false, true, true) => -(1/2) * c
    | (true, true, true, false) => -(1/2) * s
    | (true, true, true, true) => (1/2) * s
    | _ => 0

/-- Row of an intermediate matrix of the `de` chain. -/
def deS8r14 {α : Type} [ Field α] (c s h : α) : B4 → α :=
  fun k =>
    match k with
    | (false, false, true, false) => -(1/2) * c
    | (false, false, true, true) => 32 * c^7 + -(56) * c^5 + 28 * c^3 + -(7/2) * c
    | (false, true, true, false) => (1/2) * s
    | (false, true, true, true) => -(1/2) * s
    | (true, false, false, false) => -(1/2) * c
    | (true, false, false, true) => (1/2) * c
    | (true, true, false, false) => -(32) * c^6 * s + 40 * c^4 * s + -(12) * c^2 * s + (1/2) * s
    | (true, true, false, true) => -(1/2) * s
    | _ => 0

/-- Row of an intermediate matrix of the `de` chain. -/
def deS8r15 {α : Type} [ Field α] (c s h : α) : B4 → α :=
  fun k =>
    match k with
    | (false, false, true, false) => (1/2) * c
    | (false, false, true, true) => 32 * c^7 + -(56) * c^5 + 28 * c^3 + -(7/2) * c
    | (false, true, true, false) => -(1/2) * s
    | (false, true, true, true) => -(1/2) * s
    | (true, false, false, false) => -(1/2) * c
    | (true, false, false, true) => -(1/2) * c
    | (true, true, false, false) => -(32) * c^6 * s + 40 * c^4 * s + -(12) * c^2 * s + (1/2) * s
    | (true, true, false, true) => (1/2) * s
    | _ => 0

/-- Suffix product 8 of the `de` decomposition chain. -/
def deS8 {α : Type} [ Field α] (c s h : α) : Matrix B4 B4 α :=
  Matrix.of fun r =>
    match r with
    | (false, false, false, false) => deS8r0 c s h
    | (false, false, false, true) => deS8r1 c s h
    | (false, false, true, false) => deS8r2 c s h
    | (false, false, true, true) => deS8r3 c s h
    | (false, true, false, false) => deS8r4 c s h
    | (false, true, false, true) => deS8r5 c s h
    | (false, true, true, false) => deS8r6 c s h
    | (false, true, true, true) => deS8r7 c s h
    | (true, false, false, false) => deS8r8 c s h
    | (true, false, false, true) => deS8r9 c s h
    | (true, false, true, false) => deS8r10 c s h
    | (true, false, true, true) => deS8r11 c s h
    | (true, true, false, false) => deS8r12 c s h
    | (true, true, false, true) => deS8r13 c s h
    | (true, true, true, false) => deS8r14 c s h
    | (true, true, true, true) => deS8r15 c s h

/-- Row of an intermediate matrix of the `de` chain. -/
def deS7r0 {α : Type} [ Field α] (c s h : α) : B4 → α :=
  fun k =>
    match k with
    | (false, false, false, false) => (1/2)
    | (false, false, false, true) => (1/2)
    | (true, false, true, false) => (1/2)
    | (true, false, true, true) => (1/2)
    | _ => 0

/-- Row of an intermediate matrix of the `de` chain. -/
def deS7r1 {α : Type} [ Field α] (c s h : α) : B4 → α :=
  fun k =>
    match k with
    | (false, false, false, false) => (1/2)
    | (false, false, false, true) => -(1/2)
    | (true, false, true, false) => -(1/2)
    | (true, false, true, true) => (1/2)
    | _ => 0

/-- Row of an intermediate matrix of the `de` chain. -/
def deS7r2 {α : Type} [ Field α] (c s h : α) : B4 → α :=
  fun k =>
    match k with
    | (false, false, true, false) => -(1/2)
    | (false, false, true, true) => 64 * c^8 + -(128) * c^6 + 80 * c^4 + -(16) * c^2 + (1/2)
    | (true, false, false, false) => (1/2)
    | (true, false, false, true) => -(1/2)
    | (true, true, false, false) => -(64) * c^7 * s + 96 * c^5 * s + -(40) * c^3 * s + 4 * c * s
    | _ => 0

/-- Row of an intermediate matrix of the `de` chain. -/
def deS7r3 {α : Type} [ Field α] (c s h : α) : B4 → α :=
  fun k =>
    match k with
    | (false, false, true, false) => (1/2)
    | (false, false, true, true) => 64 * c^8 + -(128) * c^6 + 80 * c^4 + -(16) * c^2 + (1/2)
    | (true, false, false, false) => (1/2)
    | (true, false, false, true) => (1/2)
    | (true, true, false, false) => -(64) * c^7 * s + 96 * c^5 * s + -(40) * c^3 * s + 4 * c * s
    | _ => 0

/-- Row of an intermediate matrix of the `de` chain. -/
def deS7r4 {α : Type} [ Field α] (c s h : α) : B4 → α :=
  fun k =>
    match k with
    | (false, true, false, false) => (1/2)
    | (false, true, false, true) => (1/2)
    | (true, true, true, false) => (1/2)
    | (true, true, true, true) => (1/2)
    | _ => 0

/-- Row of an intermediate matrix of the `de` chain. -/
def deS7r5 {α : Type} [ Field α] (c s h : α) : B4 → α :=
  fun k =>
    match k with
    | (false, true, false, false) => (1/2)
    | (false, true, false, true) => -(1/2)
    | (true, true, true, false) => -(1/2)
    | (true, true, true, true) => (1/2)
    | _ => 0

/-- Row of an intermediate matrix of the `de` chain. -/
def deS7r6 {α : Type} [ Field α] (c s h : α) : B4 → α :=
  fun k =>
    match k with
    | (false, false, true, true) => 64 * c^7 * s + -(96) * c^5 * s + 40 * c^3 * s + -(4) * c * s
    | (false, true, true, false) => -(1/2)
    | (false, true, true, true) => (1/2)
    | (true, true, false, false) => 64 * c^8 + -(128) * c^6 + 80 * c^4 + -(16) * c^2 + (1/2)
    | (true, true, false, true) => -(1/2)
    | _ => 0

/-- Row of an intermediate matrix of the `de` chain. -/
def deS7r7 {α : Type} [ Field α] (c s h : α) : B4 → α :=
  fun k =>
    match k with
    | (false, false, true, true) => 64 * c^7 * s + -(96) * c^5 * s + 40 * c^3 * s + -(4) * c * s
    | (false, true, true, false) => (1/2)
    | (false, true, true, true) => (1/2)
    | (true, true, false, false) => 64 * c^8 + -(128) * c^6 + 80 * c^4 + -(16) * c^2 + (1/2)
    | (true, true, false, true) => (1/2)
    | _ => 0

/-- Row of an intermediate matrix of the `de` chain. -/
def deS7r8 {α : Type} [ Field α] (c s h : α) : B4 → α :=
  fun k =>
    match k with
    | (false, true, false, false) => (1/2)
    | (false, true, false, true) => (1/2)
    | (true, true, true, false) => -(1/2)
    | (true, true, true, true) => -(1/2)
    | _ => 0

/-- Row of an intermediate matrix of the `de` chain. -/
def deS7r9 {α : Type} [ Field α] (c s h : α) : B4 → α :=
  fun k =>
    match k with
    | (false, true, false, false) => (1/2)
    | (false, true, false, true) => -(1/2)
    | (true, true, true, false) => (1/2)
    | (true, true, true, true) => -(1/2)
    | _ => 0

/-- Row of an intermediate matrix of the `de` chain. -/
def deS7r10 {α : Type} [ Field α] (c s h : α) : B4 → α :=
  fun k =>
    match k with
    | (false, false, true, true) => -(64) * c^7 * s + 96 * c^5 * s + -(40) * c^3 * s + 4 * c * s
    | (false, true, true, false) => -(1/2)
    | (false, true, true, true) => (1/2)
    | (true, true, false, false) => -(64) * c^8 + 128 * c^6 + -(80) * c^4 + 16 * c^2 + -(1/2)
    | (true, true, false, true) => (1/2)
    | _ => 0

/-- Row of an intermediate matrix of the `de` chain. -/
def deS7r11 {α : Type} [ Field α] (c s h : α) : B4 → α :=
  fun k =>
    match k with
    | (false, false, true, true) => -(64) * c^7 * s + 96 * c^5 * s + -(40) * c^3 * s + 4 * c * s
    | (false, true, true, false) => (1/2)
    | (false, true, true, true) => (1/2)
    | (true, true, false, false) => -(64) * c^8 + 128 * c^6 + -(80) * c^4 + 16 * c^2 + -(1/2)
    | (true, true, false, true) => -(1/2)
    | _ => 0

/-- Row of an intermediate matrix of the `de` chain. -/
def deS7r12 {α : Type} [ Field α] (c s h : α) : B4 → α :=
  fun k =>
    match k with
    | (false, false, false, false) => (1/2)
    | (false, false, false, true) => (1/2)
    | (true, false, true, false) => -(1/2)
    | (true, false, true, true) => -(1/2)
    | _ => 0

/-- Row of an intermediate matrix of the `de` chain. -/
def deS7r13 {α : Type} [ Field α] (c s h : α) : B4 → α :=
  fun k =>
    match k with
    | (false, false, false, false) => (1/2)
    | (false, false, false, true) => -(1/2)
    | (true, false, true, false) => (1/2)
    | (true, false, true, true) => -(1/2)
    | _ => 0

/-- Row of an intermediate matrix of the `de` chain. -/
def deS7r14 {α : Type} [ Field α] (c s h : α) : B4 → α :=
  fun k =>
    match k with
    | (false, false, true, false) => -(1/2)
    | (false, false, true, true) => 64 * c^8 + -(128) * c^6 + 80 * c^4 + -(16) * c^2 + (1/2)
    | (true, false, false, false) => -(1/2)
    | (true, false, false, true) => (1/2)
    | (true, true, false, false) => -(64) * c^7 * s + 96 * c^5 * s + -(40) * c^3 * s + 4 * c * s
    | _ => 0

/-- Row of an intermediate matrix of the `de` chain. -/
def deS7r15 {α : Type} [ Field α] (c s h : α) : B4 → α :=
  fun k =>
    match k with
    | (false, false, true, false) => (1/2)
    | (false, false, true, true) => 64 * c^8 + -(128) * c^6 + 80 * c^4 + -(16) * c^2 + (1/2)
    | (true, false, false, false) => -(1/2)
    | (true, false, false, true) => -(1/2)
    | (true, true, false, false) => -(64) * c^7 * s + 96 * c^5 * s + -(40) * c^3 * s + 4 * c * s
    | _ => 0

/-- Suffix product 7 of the `de` decomposition chain. -/
def deS7 {α : Type} [ Field α] (c s h : α) : Matrix B4 B4 α :=
  Matrix.of fun r =>
    match r with
    | (false, false, false, false) => deS7r0 c s h
    | (false, false, false, true) => deS7r1 c s h
    | (false, false, true, false) => deS7r2 c s h
    | (false, false, true, true) => deS7r3 c s h
    | (false, true, false, false) => deS7r4 c s h
    | (false, true, false, true) => deS7r5 c s h
    | (false, true, true, false) => deS7r6 c s h
    | (false, true, true, true) => deS7r7 c s h
    | (true, false, false, false) => deS7r8 c s h
    | (true, false, false, true) => deS7r9 c s h
    | (true, false, true, false) => deS7r10 c s h
    | (true, false, true, true) => deS7r11 c s h
    | (true, true, false, false) => deS7r12 c s h
    | (true, true, false, true) => deS7r13 c s h
    | (true, true, true, false) => deS7r14 c s h
    | (true, true, true, true) => deS7r15 c s h

/-- Suffix product 6 of the `de` decomposition chain. -/
def deS6 {α : Type} [ Field α] (c s h : α) : Matrix B4 B4 α :=
  Matrix.of fun r =>
    match r with
    | (false, false, false, false) => deS7r0 c s h
    | (false, false, false, true) => deS7r1 c s h
    | (false, false, true, false) => deS7r2 c s h
    | (false, false, true, true) => deS7r3 c s h
    | (false, true, false, false) => deS7r4 c s h
    | (false, true, false, true) => deS7r5 c s h
    | (false, true, true, false) => deS7r6 c s h
    | (false, true, true, true) => deS7r7 c s h
    | (true, false, false, false) => deS7r12 c s h
    | (true, false, false, true) => deS7r13 c s h
    | (true, false, true, false) => deS7r14 c s h
    | (true, false, true, true) => deS7r15 c s h
    | (true, true, false, false) => deS7r8 c s h
    | (true, true, false, true) => deS7r9 c s h
    | (true, true, true, false) => deS7r10 c s h
    | (true, true, true, true) => deS7r11 c s h

/-- Suffix product 5 of the `de` decomposition chain. -/
def deS5 {α : Type} [ Field α] (c s h : α) : Matrix B4 B4 α :=
  Matrix.of fun r =>
    match r with
    | (false, false, false, false) => deS7r0 c s h
    | (false, false, false, true) => deS7r1 c s h
    | (false, false, true, false) => deS7r3 c s h
    | (false, false, true, true) => deS7r2 c s h
    | (false, true, false, false) => deS7r4 c s h
    | (false, true, false, true) => deS7r5 c s h
    | (false, true, true, false) => deS7r7 c s h
    | (false, true, true, true) => deS7r6 c s h
    | (true, false, false, false) => deS7r12 c s h
    | (true, false, false, true) => deS7r13 c s h
    | (true, false, true, false) => deS7r15 c s h
    | (true, false, true, true) => deS7r14 c s h
    | (true, true, false, false) => deS7r8 c s h
    | (true, true, false, true) => deS7r9 c s h
    | (true, true, true, false) => deS7r11 c s h
    | (true, true, true, true) => deS7r10 c s h

/-- Row of an intermediate matrix of the `de` chain. -/
def deS4r0 {α : Type} [ Field α] (c s h : α) : B4 → α :=
  fun k =>
    match k with
    | (false, false, false, false) => h
    | (false, false, false, true) => h
    | _ => 0

/-- Row of an intermediate matrix of the `de` chain. -/
def deS4r1 {α : Type} [ Field α] (c s h : α) : B4 → α :=
  fun k =>
    match k with
    | (false, false, false, false) => h
    | (false, false, false, true) => -h
    | _ => 0

/-- Row of an intermediate matrix of the `de` chain. -/
def deS4r2 {α : Type} [ Field α] (c s h : α) : B4 → α :=
  fun k =>
    match k with
    | (false, false, true, false) => h
    | (false, false, true, true) => 128 * c^8 * h + -(256) * c^6 * h + 160 * c^4 * h + -(32) * c^2 * h + h
    | (true, true, false, false) => -(128) * c^7 * s * h + 192 * c^5 * s * h + -(80) * c^3 * s * h + 8 * c * s * h
    | _ => 0

/-- Row of an intermediate matrix of the `de` chain. -/
def deS4r3 {α : Type} [ Field α] (c s h : α) : B4 → α :=
  fun k =>
    match k with
    | (false, false, true, false) => -h
    | (false, false, true, true) => 128 * c^8 * h + -(256) * c^6 * h + 160 * c^4 * h + -(32) * c^2 * h + h
    | (true, true, false, false) => -(128) * c^7 * s * h + 192 * c^5 * s * h + -(80) * c^3 * s * h + 8 * c * s * h
    | _ => 0

/-- Row of an intermediate matrix of the `de` chain. -/
def deS4r4 {α : Type} [ Field α] (c s h : α) : B4 → α :=
  fun k =>
    match k with
    | (false, true, false, false) => h
    | (false, true, false, true) => h
    | _ => 0

/-- Row of an intermediate matrix of the `de` chain. -/
def deS4r5 {α : Type} [ Field α] (c s h : α) : B4 → α :=
  fun k =>
    match k with
    | (false, true, false, false) => h
    | (false, true, false, true) => -h
    | _ => 0

/-- Row of an intermediate matrix of the `de` chain. -/
def deS4r6 {α : Type} [ Field α] (c s h : α) : B4 → α :=
  fun k =>
    match k with
    | (false, true, true, false) => h
    | (false, true, true, true) => h
    | _ => 0

/-- Row of an intermediate matrix of the `de` chain. -/
def deS4r7 {α : Type} [ Field α] (c s h : α) : B4 → α :=
  fun k =>
    match k with
    | (false, true, true, false) => -h
    | (false, true, true, true) => h
    | _ => 0

/-- Row of an intermediate matrix of the `de` chain. -/
def deS4r8 {α : Type} [ Field α] (c s h : α) : B4 → α :=
  fun k =>
    match k with
    | (true, false, true, false) => h
    | (true, false, true, true) => h
    | _ => 0

/-- Row of an intermediate matrix of the `de` chain. -/
def deS4r9 {α : Type} [ Field α] (c s h : α) : B4 → α :=
  fun k =>
    match k with
    | (true, false, true, false) => -h
    | (true, false, true, true) => h
    | _ => 0

/-- Row of an intermediate matrix of the `de` chain. -/
def deS4r10 {α : Type} [ Field α] (c s h : α) : B4 → α :=
  fun k =>
    match k with
    | (true, false, false, false) => h
    | (true, false, false, true) => h
    | _ => 0

/-- Row of an intermediate matrix of the `de` chain. -/
def deS4r11 {α : Type} [ Field α] (c s h : α) : B4 → α :=
  fun k =>
    match k with
    | (true, false, false, false) => h
    | (true, false, false, true) => -h
    | _ => 0

/-- Row of an intermediate matrix of the `de` chain. -/
def deS4r12 {α : Type} [ Field α] (c s h : α) : B4 → α :=
  fun k =>
    match k with
    | (true, true, true, false) => h
    | (true, true, true, true) => h
    | _ => 0

/-- Row of an intermediate matrix of the `de` chain. -/
def deS4r13 {α : Type} [ Field α] (c s h : α) : B4 → α :=
  fun k =>
    match k with
    | (true, true, true, false) => -h
    | (true, true, true, true) => h
    | _ => 0

/-- Row of an intermediate matrix of the `de` chain. -/
def deS4r14 {α : Type} [ Field α] (c s h : α) : B4 → α :=
  fun k =>
    match k with
    | (false, false, true, true) => 128 * c^7 * s * h + -(192) * c^5 * s * h + 80 * c^3 * s * h + -(8) * c * s * h
    | (true, true, false, false) => 128 * c^8 * h + -(256) * c^6 * h + 160 * c^4 * h + -(32) * c^2 * h + h
    | (true, true, false, true) => h
    | _ => 0

/-- Row of an intermediate matrix of the `de` chain. -/
def deS4r15 {α : Type} [ Field α] (c s h : α) : B4 → α :=
  fun k =>
    match k with
    | (false, false, true, true) => 128 * c^7 * s * h + -(192) * c^5 * s * h + 80 * c^3 * s * h + -(8) * c * s * h
    | (true, true, false, false) => 128 * c^8 * h + -(256) * c^6 * h + 160 * c^4 * h + -(32) * c^2 * h + h
    | (true, true, false, true) => -h
    | _ => 0

/-- Suffix product 4 of the `de` decomposition chain. -/
def deS4 {α : Type} [ Field α] (c s h : α) : Matrix B4 B4 α :=
  Matrix.of fun r =>
    match r with
    | (false, false, false, false) => deS4r0 c s h
    | (false, false, false, true) => deS4r1 c s h
    | (false, false, true, false) => deS4r2 c s h
    | (false, false, true, true) => deS4r3 c s h
    | (false, true, false, false) => deS4r4 c s h
    | (false, true, false, true) => deS4r5 c s h
    | (false, true, true, false) => deS4r6 c s h
    | (false, true, true, true) => deS4r7 c s h
    | (true, false, false, false) => deS4r8 c s h
    | (true, false, false, true) => deS4r9 c s h
    | (true, false, true, false) => deS4r10 c s h
    | (true, false, true, true) => deS4r11 c s h
    | (true, true, false, false) => deS4r12 c s h
    | (true, true, false, true) => deS4r13 c s h
    | (true, true, true, false) => deS4r14 c s h
    | (true, true, true, true) => deS4r15 c s h

/-- Row of an intermediate matrix of the `de` chain. -/
def deS3r0 {α : Type} [ Field α] (c s h : α) : B4 → α :=
  fun k =>
    match k with
    | (false, false, false, false) => 1
    | _ => 0

/-- Row of an intermediate matrix of the `de` chain. -/
def deS3r1 {α : Type} [ Field α] (c s h : α) : B4 → α :=
  fun k =>
    match k with
    | (false, false, false, true) => 1
    | _ => 0

/-- Row of an intermediate matrix of the `de` chain. -/
def deS3r2 {α : Type} [ Field α] (c s h : α) : B4 → α :=
  fun k =>
    match k with
    | (false, false, true, true) => 128 * c^8 + -(256) * c^6 + 160 * c^4 + -(32) * c^2 + 1
    | (true, true, false, false) => -(128) * c^7 * s + 192 * c^5 * s + -(80) * c^3 * s + 8 * c * s
    | _ => 0

/-- Row of an intermediate matrix of the `de` chain. -/
def deS3r3 {α : Type} [ Field α] (c s h : α) : B4 → α :=
  fun k =>
    match k with
    | (false, false, true, false) => 1
    | _ => 0

/-- Row of an intermediate matrix of the `de` chain. -/
def deS3r4 {α : Type} [ Field α] (c s h : α) : B4 → α :=
  fun k =>
    match k with
    | (false, true, false, false) => 1
    | _ => 0

/-- Row of an intermediate matrix of the `de` chain. -/
def deS3r5 {α : Type} [ Field α] (c s h : α) : B4 → α :=
  fun k =>
    match k with
    | (false, true, false, true) => 1
    | _ => 0

/-- Row of an intermediate matrix of the `de` chain. -/
def deS3r6 {α : Type} [ Field α] (c s h : α) : B4 → α :=
  fun k =>
    match k with
    | (false, true, true, true) => 1
    | _ => 0

/-- Row of an intermediate matrix of the `de` chain. -/
def deS3r7 {α : Type} [ Field α] (c s h : α) : B4 → α :=
  fun k =>
    match k with
    | (false, true, true, false) => 1
    | _ => 0

/-- Row of an intermediate matrix of the `de` chain. -/
def deS3r8 {α : Type} [ Field α] (c s h : α) : B4 → α :=
  fun k =>
    match k with
    | (true, false, true, true) => 1
    | _ => 0

/-- Row of an intermediate matrix of the `de` chain. -/
def deS3r9 {α : Type} [ Field α] (c s h : α) : B4 → α :=
  fun k =>
    match k with
    | (true, false, true, false) => 1
    | _ => 0

/-- Row of an intermediate matrix of the `de` chain. -/
def deS3r10 {α : Type} [ Field α] (c s h : α) : B4 → α :=
  fun k =>
    match k with
    | (true, false, false, false) => 1
    | _ => 0

/-- Row of an intermediate matrix of the `de` chain. -/
def deS3r11 {α : Type} [ Field α] (c s h : α) : B4 → α :=
  fun k =>
    match k with
    | (true, false, false, true) => 1
    | _ => 0

/-- Row of an intermediate matrix of the `de` chain. -/
def deS3r12 {α : Type} [ Field α] (c s h : α) : B4 → α :=
  fun k =>
    match k with
    | (true, true, true, true) => 1
    | _ => 0

/-- Row of an intermediate matrix of the `de` chain. -/
def deS3r13 {α : Type} [ Field α] (c s h : α) : B4 → α :=
  fun k =>
    match k with
    | (true, true, true, false) => 1
    | _ => 0

/-- Row of an intermediate matrix of the `de` chain. -/
def deS3r14 {α : Type} [ Field α] (c s h : α) : B4 → α :=
  fun k =>
    match k with
    | (false, false, true, true) => 128 * c^7 * s + -(192) * c^5 * s + 80 * c^3 * s + -(8) * c * s
    | (true, true, false, false) => 128 * c^8 + -(256) * c^6 + 160 * c^4 + -(32) * c^2 + 1
    | _ => 0

/-- Row of an intermediate matrix of the `de` chain. -/
def deS3r15 {α : Type} [ Field α] (c s h : α) : B4 → α :=
  fun k =>
    match k with
    | (true, true, false, true) => 1
    | _ => 0

/-- Suffix product 3 of the `de` decomposition chain. -/
def deS3 {α : Type} [ Field α] (c s h : α) : Matrix B4 B4 α :=
  Matrix.of fun r =>
    match r with
    | (false, false, false, false) => deS3r0 c s h
    | (false, false, false, true) => deS3r1 c s h
    | (false, false, true, false) => deS3r2 c s h
    | (false, false, true, true) => deS3r3 c s h
    | (false, true, false, false) => deS3r4 c s h
    | (false, true, false, true) => deS3r5 c s h
    | (false, true, true, false) => deS3r6 c s h
    | (false, true, true, true) => deS3r7 c s h
    | (true, false, false, false) => deS3r8 c s h
    | (true, false, false, true) => deS3r9 c s h
    | (true, false, true, false) => deS3r10 c s h
    | (true, false, true, true) => deS3r11 c s h
    | (true, true, false, false) => deS3r12 c s h
    | (true, true, false, true) => deS3r13 c s h
    | (true, true, true, false) => deS3r14 c s h
    | (true, true, true, true) => deS3r15 c s h

/-- Suffix product 2 of the `de` decomposition chain. -/
def deS2 {α : Type} [ Field α] (c s h : α) : Matrix B4 B4 α :=
  Matrix.of fun r =>
    match r with
    | (false, false, false, false) => deS3r0 c s h
    | (false, false, false, true) => deS3r1 c s h
    | (false, false, true, false) => deS3r2 c s h
    | (false, false, true, true) => deS3r3 c s h
    | (false, true, false, false) => deS3r4 c s h
    | (false, true, false, true) => deS3r5 c s h
    | (false, true, true, false) => deS3r6 c s h
    | (false, true, true, true) => deS3r7 c s h
    | (true, false, false, false) => deS3r10 c s h
    | (true, false, false, true) => deS3r11 c s h
    | (true, false, true, false) => deS3r8 c s h
    | (true, false, true, true) => deS3r9 c s h
    | (true, true, false, false) => deS3r14 c s h
    | (true, true, false, true) => deS3r15 c s h
    | (true, true, true, false) => deS3r12 c s h
    | (true, true, true, true) => deS3r13 c s h

/-- Suffix product 1 of the `de` decomposition chain. -/
def deS1 {α : Type} [ Field α] (c s h : α) : Matrix B4 B4 α :=
  Matrix.of fun r =>
    match r with
    | (false, false, false, false) => deS3r0 c s h
    | (false, false, false, true) => deS3r1 c s h
    | (false, false, true, false) => deS3r3 c s h
    | (false, false, true, true) => deS3r2 c s h
    | (false, true, false, false) => deS3r4 c s h
    | (false, true, false, true) => deS3r5 c s h
    | (false, true, true, false) => deS3r7 c s h
    | (false, true, true, true) => deS3r6 c s h
    | (true, false, false, false) => deS3r10 c s h
    | (true, false, false, true) => deS3r11 c s h
    | (true, false, true, false) => deS3r9 c s h
    | (true, false, true, true) => deS3r8 c s h
    | (true, true, false, false) => deS3r14 c s h
    | (true, true, false, true) => deS3r15 c s h
    | (true, true, true, false) => deS3r13 c s h
    | (true, true, true, true) => deS3r12 c s h

/-- Row of an intermediate matrix of the `orb` chain. -/
def orbS12r0 {α : Type} [ Field α] (c s h : α) : B4 → α :=
  fun k =>
    match k with
    | (false, false, false, false) => h
    | (false, false, true, false) => h
    | _ => 0

/-- Row of an intermediate matrix of the `orb` chain. -/
def orbS12r1 {α : Type} [ Field α] (c s h : α) : B4 → α :=
  fun k =>
    match k with
    | (false, false, false, true) => h
    | (false, false, true, true) => h
    | _ => 0

/-- Row of an intermediate matrix of the `orb` chain. -/
def orbS12r2 {α : Type} [ Field α] (c s h : α) : B4 → α :=
  fun k =>
    match k with
    | (false, false, false, false) => h
    | (false, false, true, false) => -h
    | _ => 0

/-- Row of an intermediate matrix of the `orb` chain. -/
def orbS12r3 {α : Type} [ Field α] (c s h : α) : B4 → α :=
  fun k =>
    match k with
    | (false, false, false, true) => h
    | (false, false, true, true) => -h
    | _ => 0

/-- Row of an intermediate matrix of the `orb` chain. -/
def orbS12r4 {α : Type} [ Field α] (c s h : α) : B4 → α :=
  fun k =>
    match k with
    | (false, true, false, false) => h
    | (false, true, true, false) => h
    | _ => 0

/-- Row of an intermediate matrix of the `orb` chain. -/
def orbS12r5 {α : Type} [ Field α] (c s h : α) : B4 → α :=
  fun k =>
    match k with
    | (false, true, false, true) => h
    | (false, true, true, true) => h
    | _ => 0

/-- Row of an intermediate matrix of the `orb` chain. -/
def orbS12r6 {α : Type} [ Field α] (c s h : α) : B4 → α :=
  fun k =>
    match k with
    | (false, true, false, false) => h
    | (false, true, true, false) => -h
    | _ => 0

/-- Row of an intermediate matrix of the `orb` chain. -/
def orbS12r7 {α : Type} [ Field α] (c s h : α) : B4 → α :=
  fun k =>
    match k with
    | (false, true, false, true) => h
    | (false, true, true, true) => -h
    | _ => 0

/-- Row of an intermediate matrix of the `orb` chain. -/
def orbS12r8 {α : Type} [ Field α] (c s h : α) : B4 → α :=
  fun k =>
    match k with
    | (true, false, false, false) => h
    | (true, false, true, false) => h
    | _ => 0

/-- Row of an intermediate matrix of the `orb` chain. -/
def orbS12r9 {α : Type} [ Field α] (c s h : α) : B4 → α :=
  fun k =>
    match k with
    | (true, false, false, true) => h
    | (true, false, true, true) => h
    | _ => 0

/-- Row of an intermediate matrix of the `orb` chain. -/
def orbS12r10 {α : Type} [ Field α] (c s h : α) : B4 → α :=
  fun k =>
    match k with
    | (true, false, false, false) => h
    | (true, false, true, false) => -h
    | _ => 0

/-- Row of an intermediate matrix of the `orb` chain. -/
def orbS12r11 {α : Type} [ Field α] (c s h : α) : B4 → α :=
  fun k =>
    match k with
    | (true, false, false, true) => h
    | (true, false, true, true) => -h
    | _ => 0

/-- Row of an intermediate matrix of the `orb` chain. -/
def orbS12r12 {α : Type} [ Field α] (c s h : α) : B4 → α :=
  fun k =>
    match k with
    | (true, true, false, false) => h
    | (true, true, true, false) => h
    | _ => 0

/-- Row of an intermediate matrix of the `orb` chain. -/
def orbS12r13 {α : Type} [ Field α] (c s h : α) : B4 → α :=
  fun k =>
    match k with
    | (true, true, false, true) => h
    | (true, true, true, true) => h
    | _ => 0

/-- Row of an intermediate matrix of the `orb` chain. -/
def orbS12r14 {α : Type} [ Field α] (c s h : α) : B4 → α :=
  fun k =>
    match k with
    | (true, true, false, false) => h
    | (true, true, true, false) => -h
    | _ => 0

/-- Row of an intermediate matrix of the `orb` chain. -/
def orbS12r15 {α : Type} [ Field α] (c s h : α) : B4 → α :=
  fun k =>
    match k with
    | (true, true, false, true) => h
    | (true, true, true, true) => -h
    | _ => 0

/-- Suffix product 12 of the `orb` decomposition chain. -/
def orbS12 {α : Type} [ Field α] (c s h : α) : Matrix B4 B4 α :=
  Matrix.of fun r =>
    match r with
    | (false, false, false, false) => orbS12r0 c s h
    | (false, false, false, true) => orbS12r1 c s h
    | (false, false, true, false) => orbS12r2 c s h
    | (false, false, true, true) => orbS12r3 c s h
    | (false, true, false, false) => orbS12r4 c s h
    | (false, true, false, true) => orbS12r5 c s h
    | (false, true, true, false) => orbS12r6 c s h
    | (false, true, true, true) => orbS12r7 c s h
    | (true, false, false, false) => orbS12r8 c s h
    | (true, false, false, true) => orbS12r9 c s h
    | (true, false, true, false) => orbS12r10 c s h
    | (true, false, true, true) => orbS12r11 c s h
    | (true, true, false, false) => orbS12r12 c s h
    | (true, true, false, true) => orbS12r13 c s h
    | (true, true, true, false) => orbS12r14 c s h
    | (true, true, true, true) => orbS12r15 c s h

/-- Row of an intermediate matrix of the `orb` chain. -/
def orbS11r0 {α : Type} [ Field α] (c s h : α) : B4 → α :=
  fun k =>
    match k with
    | (false, false, false, false) => (1/2)
    | (false, false, false, true) => (1/2)
    | (false, false, true, false) => (1/2)
    | (false, false, true, true) => (1/2)
    | _ => 0

/-- Row of an intermediate matrix of the `orb` chain. -/
def orbS11r1 {α : Type} [ Field α] (c s h : α) : B4 → α :=
  fun k =>
    match k with
    | (false, false, false, false) => (1/2)
    | (false, false, false, true) => -(1/2)
    | (false, false, true, false) => (1/2)
    | (false, false, true, true) => -(1/2)
    | _ => 0

/-- Row of an intermediate matrix of the `orb` chain. -/
def orbS11r2 {α : Type} [ Field α] (c s h : α) : B4 → α :=
  fun k =>
    match k with
    | (false, false, false, false) => (1/2)
    | (false, false, false, true) => (1/2)
    | (false, false, true, false) => -(1/2)
    | (false, false, true, true) => -(1/2)
    | _ => 0

/-- Row of an intermediate matrix of the `orb` chain. -/
def orbS11r3 {α : Type} [ Field α] (c s h : α) : B4 → α :=
  fun k =>
    match k with
    | (false, false, false, false) => (1/2)
    | (false, false, false, true) => -(1/2)
    | (false, false, true, false) => -(1/2)
    | (false, false, true, true) => (1/2)
    | _ => 0

/-- Row of an intermediate matrix of the `orb` chain. -/
def orbS11r4 {α : Type} [ Field α] (c s h : α) : B4 → α :=
  fun k =>
    match k with
    | (false, true, false, false) => (1/2)
    | (false, true, false, true) => (1/2)
    | (false, true, true, false) => (1/2)
    | (false, true, true, true) => (1/2)
    | _ => 0

/-- Row of an intermediate matrix of the `orb` chain. -/
def orbS11r5 {α : Type} [ Field α] (c s h : α) : B4 → α :=
  fun k =>
    match k with
    | (false, true, false, false) => (1/2)
    | (false, true, false, true) => -(1/2)
    | (false, true, true, false) => (1/2)
    | (false, true, true, true) => -(1/2)
    | _ => 0

/-- Row of an intermediate matrix of the `orb` chain. -/
def orbS11r6 {α : Type} [ Field α] (c s h : α) : B4 → α :=
  fun k =>
    match k with
    | (false, true, false, false) => (1/2)
    | (false, true, false, true) => (1/2)
    | (false, true, true, false) => -(1/2)
    | (false, true, true, true) => -(1/2)
    | _ => 0

/-- Row of an intermediate matrix of the `orb` chain. -/
def orbS11r7 {α : Type} [ Field α] (c s h : α) : B4 → α :=
  fun k =>
    match k with
    | (false, true, false, false) => (1/2)
    | (false, true, false, true) => -(1/2)
    | (false, true, true, false) => -(1/2)
    | (false, true, true, true) => (1/2)
    | _ => 0

/-- Row of an intermediate matrix of the `orb` chain. -/
def orbS11r8 {α : Type} [ Field α] (c s h : α) : B4 → α :=
  fun k =>
    match k with
    | (true, false, false, false) => (1/2)
    | (true, false, false, true) => (1/2)
    | (true, false, true, false) => (1/2)
    | (true, false, true, true) => (1/2)
    | _ => 0

/-- Row of an intermediate matrix of the `orb` chain. -/
def orbS11r9 {α : Type} [ Field α] (c s h : α) : B4 → α :=
  fun k =>
    match k with
    | (true, false, false, false) => (1/2)
    | (true, false, false, true) => -(1/2)
    | (true, false, true, false) => (1/2)
    | (true, false, true, true) => -(1/2)
    | _ => 0

/-- Row of an intermediate matrix of the `orb` chain. -/
def orbS11r10 {α : Type} [ Field α] (c s h : α) : B4 → α :=
  fun k =>
    match k with
    | (true, false, false, false) => (1/2)
    | (true, false, false, true) => (1/2)
    | (true, false, true, false) => -(1/2)
    | (true, false, true, true) => -(1/2)
    | _ => 0

/-- Row of an intermediate matrix of the `orb` chain. -/
def orbS11r11 {α : Type} [ Field α] (c s h : α) : B4 → α :=
  fun k =>
    match k with
    | (true, false, false, false) => (1/2)
    | (true, false, false, true) => -(1/2)
    | (true, false, true, false) => -(1/2)
    | (true, false, true, true) => (1/2)
    | _ => 0

/-- Row of an intermediate matrix of the `orb` chain. -/
def orbS11r12 {α : Type} [ Field α] (c s h : α) : B4 → α :=
  fun k =>
    match k with
    | (true, true, false, false) => (1/2)
    | (true, true, false, true) => (1/2)
    | (true, true, true, false) => (1/2)
    | (true, true, true, true) => (1/2)
    | _ => 0

/-- Row of an intermediate matrix of the `orb` chain. -/
def orbS11r13 {α : Type} [ Field α] (c s h : α) : B4 → α :=
  fun k =>
    match k with
    | (true, true, false, false) => (1/2)
    | (true, true, false, true) => -(1/2)
    | (true, true, true, false) => (1/2)
    | (true, true, true, true) => -(1/2)
    | _ => 0

/-- Row of an intermediate matrix of the `orb` chain. -/
def orbS11r14 {α : Type} [ Field α] (c s h : α) : B4 → α :=
  fun k =>
    match k with
    | (true, true, false, false) => (1/2)
    | (true, true, false, true) => (1/2)
    | (true, true, true, false) => -(1/2)
    | (true, true, true, true) => -(1/2)
    | _ => 0

/-- Row of an intermediate matrix of the `orb` chain. -/
def orbS11r15 {α : Type} [ Field α] (c s h : α) : B4 → α :=
  fun k =>
    match k with
    | (true, true, false, false) => (1/2)
    | (true, true, false, true) => -(1/2)
    | (true, true, true, false) => -(1/2)
    | (true, true, true, true) => (1/2)
    | _ => 0

/-- Suffix product 11 of the `orb` decomposition chain. -/
def orbS11 {α : Type} [ Field α] (c s h : α) : Matrix B4 B4 α :=
  Matrix.of fun r =>
    match r with
    | (false, false, false, false) => orbS11r0 c s h
    | (false, false, false, true) => orbS11r1 c s h
    | (false, false, true, false) => orbS11r2 c s h
    | (false, false, true, true) => orbS11r3 c s h
    | (false, true, false, false) => orbS11r4 c s h
    | (false, true, false, true) => orbS11r5 c s h
    | (false, true, true, false) => orbS11r6 c s h
    | (false, true, true, true) => orbS11r7 c s h
    | (true, false, false, false) => orbS11r8 c s h
    | (true, false, false, true) => orbS11r9 c s h
    | (true, false, true, false) => orbS11r10 c s h
    | (true, false, true, true) => orbS11r11 c s h
    | (true, true, false, false) => orbS11r12 c s h
    | (true, true, false, true) => orbS11r13 c s h
    | (true, true, true, false) => orbS11r14 c s h
    | (true, true, true, true) => orbS11r15 c s h

/-- Suffix product 10 of the `orb` decomposition chain. -/
def orbS10 {α : Type} [ Field α] (c s h : α) : Matrix B4 B4 α :=
  Matrix.of fun r =>
    match r with
    | (false, false, false, false) => orbS11r0 c s h
    | (false, false, false, true) => orbS11r1 c s h
    | (false, false, true, false) => orbS11r10 c s h
    | (false, false, true, true) => orbS11r11 c s h
    | (false, true, false, false) => orbS11r4 c s h
    | (false, true, false, true) => orbS11r5 c s h
    | (false, true, true, false) => orbS11r14 c s h
    | (false, true, true, true) => orbS11r15 c s h
    | (true, false, false, false) => orbS11r8 c s h
    | (true, false, false, true) => orbS11r9 c s h
    | (true, false, true, false) => orbS11r2 c s h
    | (true, false, true, true) => orbS11r3 c s h
    | (true, true, false, false) => orbS11r12 c s h
    | (true, true, false, true) => orbS11r13 c s h
    | (true, true, true, false) => orbS11r6 c s h
    | (true, true, true, true) => orbS11r7 c s h

/-- Suffix product 9 of the `orb` decomposition chain. -/
def orbS9 {α : Type} [ Field α] (c s h : α) : Matrix B4 B4 α :=
  Matrix.of fun r =>
    match r with
    | (false, false, false, false) => orbS11r0 c s h
    | (false, false, false, true) => orbS11r5 c s h
    | (false, false, true, false) => orbS11r10 c s h
    | (false, false, true, true) => orbS11r15 c s h
    | (false, true, false, false) => orbS11r4 c s h
    | (false, true, false, true) => orbS11r1 c s h
    | (false, true, true, false) => orbS11r14 c s h
    | (false, true, true, true) => orbS11r11 c s h
    | (true, false, false, false) => orbS11r8 c s h
    | (true, false, false, true) => orbS11r13 c s h
    | (true, false, true, false) => orbS11r2 c s h
    | (true, false, true, true) => orbS11r7 c s h
    | (true, true, false, false) => orbS11r12 c s h
    | (true, true, false, true) => orbS11r9 c s h
    | (true, true, true, false) => orbS11r6 c s h
    | (true, true, true, true) => orbS11r3 c s h

/-- Row of an intermediate matrix of the `orb` chain. -/
def orbS8r0 {α : Type} [ Field α] (c s h : α) : B4 → α :=
  fun k =>
    match k with
    | (false, false, false, false) => (1/2) * c
    | (false, false, false, true) => (1/2) * c
    | (false, false, true, false) => (1/2) * c
    | (false, false, true, true) => (1/2) * c
    | (true, false, false, false) => -(1/2) * s
    | (true, false, false, true) => -(1/2) * s
    | (true, false, true, false) => -(1/2) * s
    | (true, false, true, true) => -(1/2) * s
    | _ => 0

/-- Row of an intermediate matrix of the `orb` chain. -/
def orbS8r1 {α : Type} [ Field α] (c s h : α) : B4 → α :=
  fun k =>
    match k with
    | (false, true, false, false) => (1/2) * c
    | (false, true, false, true) => -(1/2) * c
    | (false, true, true, false) => (1/2) * c
    | (false, true, true, true) => -(1/2) * c
    | (true, true, false, false) => -(1/2) * s
    | (true, true, false, true) => (1/2) * s
    | (true, true, true, false) => -(1/2) * s
    | (true, true, true, true) => (1/2) * s
    | _ => 0

/-- Row of an intermediate matrix of the `orb` chain. -/
def orbS8r2 {α : Type} [ Field α] (c s h : α) : B4 → α :=
  fun k =>
    match k with
    | (false, false, false, false) => -(1/2) * s
    | (false, false, false, true) => -(1/2) * s
    | (false, false, true, false) => (1/2) * s
    | (false, false, true, true) => (1/2) * s
    | (true, false, false, false) => (1/2) * c
    | (true, false, false, true) => (1/2) * c
    | (true, false, true, false) => -(1/2) * c
    | (true, false, true, true) => -(1/2) * c
    | _ => 0

/-- Row of an intermediate matrix of the `orb` chain. -/
def orbS8r3 {α : Type} [ Field α] (c s h : α) : B4 → α :=
  fun k =>
    match k with
    | (false, true, false, false) => -(1/2) * s
    | (false, true, false, true) => (1/2) * s
    | (false, true, true, false) => (1/2) * s
    | (false, true, true, true) => -(1/2) * s
    | (true, true, false, false) => (1/2) * c
    | (true, true, false, true) => -(1/2) * c
    | (true, true, true, false) => -(1/2) * c
    | (true, true, true, true) => (1/2) * c
    | _ => 0

/-- Row of an intermediate matrix of the `orb` chain. -/
def orbS8r4 {α : Type} [ Field α] (c s h : α) : B4 → α :=
  fun k =>
    match k with
    | (false, true, false, false) => (1/2) * c
    | (false, true, false, true) => (1/2) * c
    | (false, true, true, false) => (1/2) * c
    | (false, true, true, true) => (1/2) * c
    | (true, true, false, false) => -(1/2) * s
    | (true, true, false, true) => -(1/2) * s
    | (true, true, true, false) => -(1/2) * s
    | (true, true, true, true) => -(1/2) * s
    | _ => 0

/-- Row of an intermediate matrix of the `orb` chain. -/
def orbS8r5 {α : Type} [ Field α] (c s h : α) : B4 → α :=
  fun k =>
    match k with
    | (false, false, false, false) => (1/2) * c
    | (false, false, false, true) => -(1/2) * c
    | (false, false, true, false) => (1/2) * c
    | (false, false, true, true) => -(1/2) * c
    | (true, false, false, false) => -(1/2) * s
    | (true, false, false, true) => (1/2) * s
    | (true, false, true, false) => -(1/2) * s
    | (true, false, true, true) => (1/2) * s
    | _ => 0

/-- Row of an intermediate matrix of the `orb` chain. -/
def orbS8r6 {α : Type} [ Field α] (c s h : α) : B4 → α :=
  fun k =>
    match k with
    | (false, true, false, false) => -(1/2) * s
    | (false, true, false, true) => -(1/2) * s
    | (false, true, true, false) => (1/2) * s
    | (false, true, true, true) => (1/2) * s
    | (true, true, false, false) => (1/2) * c
    | (true, true, false, true) => (1/2) * c
    | (true, true, true, false) => -(1/2) * c
    | (true, true, true, true) => -(1/2) * c
    | _ => 0

/-- Row of an intermediate matrix of the `orb` chain. -/
def orbS8r7 {α : Type} [ Field α] (c s h : α) : B4 → α :=
  fun k =>
    match k with
    | (false, false, false, false) => -(1/2) * s
    | (false, false, false, true) => (1/2) * s
    | (false, false, true, false) => (1/2) * s
    | (false, false, true, true) => -(1/2) * s
    | (true, false, false, false) => (1/2) * c
    | (true, false, false, true) => -(1/2) * c
    | (true, false, true, false) => -(1/2) * c
    | (true, false, true, true) => (1/2) * c
    | _ => 0

/-- Row of an intermediate matrix of the `orb` chain. -/
def orbS8r8 {α : Type} [ Field α] (c s h : α) : B4 → α :=
  fun k =>
    match k with
    | (false, false, false, false) => (1/2) * s
    | (false, false, false, true) => (1/2) * s
    | (false, false, true, false) => (1/2) * s
    | (false, false, true, true) => (1/2) * s
    | (true, false, false, false) => (1/2) * c
    | (true, false, false, true) => (1/2) * c
    | (true, false, true, false) => (1/2) * c
    | (true, false, true, true) => (1/2) * c
    | _ => 0

/-- Row of an intermediate matrix of the `orb` chain. -/
def orbS8r9 {α : Type} [ Field α] (c s h : α) : B4 → α :=
  fun k =>
    match k with
    | (false, true, false, false) => (1/2) * s
    | (false, true, false, true) => -(1/2) * s
    | (false, true, true, false) => (1/2) * s
    | (false, true, true, true) => -(1/2) * s
    | (true, true, false, false) => (1/2) * c
    | (true, true, false, true) => -(1/2) * c
    | (true, true, true, false) => (1/2) * c
    | (true, true, true, true) => -(1/2) * c
    | _ => 0

/-- Row of an intermediate matrix of the `orb` chain. -/
def orbS8r10 {α : Type} [ Field α] (c s h : α) : B4 → α :=
  fun k =>
    match k with
    | (false, false, false, false) => (1/2) * c
    | (false, false, false, true) => (1/2) * c
    | (false, false, true, false) => -(1/2) * c
    | (false, false, true, true) => -(1/2) * c
    | (true, false, false, false) => (1/2) * s
    | (true, false, false, true) => (1/2) * s
    | (true, false, true, false) => -(1/2) * s
    | (true, false, true, true) => -(1/2) * s
    | _ => 0

/-- Row of an intermediate matrix of the `orb` chain. -/
def orbS8r11 {α : Type} [ Field α] (c s h : α) : B4 → α :=
  fun k =>
    match k with
    | (false, true, false, false) => (1/2) * c
    | (false, true, false, true) => -(1/2) * c
    | (false, true, true, false) => -(1/2) * c
    | (false, true, true, true) => (1/2) * c
    | (true, true, false, false) => (1/2) * s
    | (true, true, false, true) => -(1/2) * s
    | (true, true, true, false) => -(1/2) * s
    | (true, true, true, true) => (1/2) * s
    | _ => 0

/-- Row of an intermediate matrix of the `orb` chain. -/
def orbS8r12 {α : Type} [ Field α] (c s h : α) : B4 → α :=
  fun k =>
    match k with
    | (false, true, false, false) => (1/2) * s
    | (false, true, false, true) => (1/2) * s
    | (false, true, true, false) => (1/2) * s
    | (false, true, true, true) => (1/2) * s
    | (true, true, false, false) => (1/2) * c
    | (true, true, false, true) => (1/2) * c
    | (true, true, true, false) => (1/2) * c
    | (true, true, true, true) => (1/2) * c
    | _ => 0

/-- Row of an intermediate matrix of the `orb` chain. -/
def orbS8r13 {α : Type} [ Field α] (c s h : α) : B4 → α :=
  fun k =>
    match k with
    | (false, false, false, false) => (1/2) * s
    | (false, false, false, true) => -(1/2) * s
    | (false, false, true, false) => (1/2) * s
    | (false, false, true, true) => -(1/2) * s
    | (true, false, false, false) => (1/2) * c
    | (true, false, false, true) => -(1/2) * c
    | (true, false, true, false) => (1/2) * c
    | (true, false, true, true) => -(1/2) * c
    | _ => 0

/-- Row of an intermediate matrix of the `orb` chain. -/
def orbS8r14 {α : Type} [ Field α] (c s h : α) : B4 → α :=
  fun k =>
    match k with
    | (false, true, false, false) => (1/2) * c
    | (false, true, false, true) => (1/2) * c
    | (false, true, true, false) => -(1/2) * c
    | (false, true, true, true) => -(1/2) * c
    | (true, true, false, false) => (1/2) * s
    | (true, true, false, true) => (1/2) * s
    | (true, true, true, false) => -(1/2) * s
    | (true, true, true, true) => -(1/2) * s
    | _ => 0

/-- Row of an intermediate matrix of the `orb` chain. -/
def orbS8r15 {α : Type} [ Field α] (c s h : α) : B4 → α :=
  fun k =>
    match k with
    | (false, false, false, false) => (1/2) * c
    | (false, false, false, true) => -(1/2) * c
    | (false, false, true, false) => -(1/2) * c
    | (false, false, true, true) => (1/2) * c
    | (true, false, false, false) => (1/2) * s
    | (true, false, false, true) => -(1/2) * s
    | (true, false, true, false) => -(1/2) * s
    | (true, false, true, true) => (1/2) * s
    | _ => 0

/-- Suffix product 8 of the `orb` decomposition chain. -/
def orbS8 {α : Type} [ Field α] (c s h : α) : Matrix B4 B4 α :=
  Matrix.of fun r =>
    match r with
    | (false, false, false, false) => orbS8r0 c s h
    | (false, false, false, true) => orbS8r1 c s h
    | (false, false, true, false) => orbS8r2 c s h
    | (false, false, true, true) => orbS8r3 c s h
    | (false, true, false, false) => orbS8r4 c s h
    | (false, true, false, true) => orbS8r5 c s h
    | (false, true, true, false) => orbS8r6 c s h
    | (false, true, true, true) => orbS8r7 c s h
    | (true, false, false, false) => orbS8r8 c s h
    | (true, false, false, true) => orbS8r9 c s h
    | (true, false, true, false) => orbS8r10 c s h
    | (true, false, true, true) => orbS8r11 c s h
    | (true, true, false, false) => orbS8r12 c s h
    | (true, true, false, true) => orbS8r13 c s h
    | (true, true, true, false) => orbS8r14 c s h
    | (true, true, true, true) => orbS8r15 c s h

/-- Row of an intermediate matrix of the `orb` chain. -/
def orbS7r0 {α : Type} [ Field α] (c s h : α) : B4 → α :=
  fun k =>
    match k with
    | (false, false, false, false) => (1/2) * c^2
    | (false, false, false, true) => (1/2) * c^2
    | (false, false, true, false) => (1/2) * c^2
    | (false, false, true, true) => (1/2) * c^2
    | (false, true, false, false) => -(1/2) * c * s
    | (false, true, false, true) => -(1/2) * c * s
    | (false, true, true, false) => -(1/2) * c * s
    | (false, true, true, true) => -(1/2) * c * s
    | (true, false, false, false) => -(1/2) * c * s
    | (true, false, false, true) => -(1/2) * c * s
    | (true, false, true, false) => -(1/2) * c * s
    | (true, false, true, true) => -(1/2) * c * s
    | (true, true, false, false) => -(1/2) * c^2 + (1/2)
    | (true, true, false, true) => -(1/2) * c^2 + (1/2)
    | (true, true, true, false) => -(1/2) * c^2 + (1/2)
    | (true, true, true, true) => -(1/2) * c^2 + (1/2)

/-- Row of an intermediate matrix of the `orb` chain. -/
def orbS7r1 {α : Type} [ Field α] (c s h : α) : B4 → α :=
  fun k =>
    match k with
    | (false, false, false, false) => -(1/2) * c * s
    | (false, false, false, true) => (1/2) * c * s
    | (false, false, true, false) => -(1/2) * c * s
    | (false, false, true, true) => (1/2) * c * s
    | (false, true, false, false) => (1/2) * c^2
    | (false, true, false, true) => -(1/2) * c^2
    | (false, true, true, false) => (1/2) * c^2
    | (false, true, true, true) => -(1/2) * c^2
    | (true, false, false, false) => -(1/2) * c^2 + (1/2)
    | (true, false, false, true) => (1/2) * c^2 + -(1/2)
    | (true, false, true, false) => -(1/2) * c^2 + (1/2)
    | (true, false, true, true) => (1/2) * c^2 + -(1/2)
    | (true, true, false, false) => -(1/2) * c * s
    | (true, true, false, true) => (1/2) * c * s
    | (true, true, true, false) => -(1/2) * c * s
    | (true, true, true, true) => (1/2) * c * s

/-- Row of an intermediate matrix of the `orb` chain. -/
def orbS7r2 {α : Type} [ Field α] (c s h : α) : B4 → α :=
  fun k =>
    match k with
    | (false, false, false, false) => -(1/2) * c * s
    | (false, false, false, true) => -(1/2) * c * s
    | (false, false, true, false) => (1/2) * c * s
    | (false, false, true, true) => (1/2) * c * s
    | (false, true, false, false) => -(1/2) * c^2 + (1/2)
    | (false, true, false, true) => -(1/2) * c^2 + (1/2)
    | (false, true, true, false) => (1/2) * c^2 + -(1/2)
    | (false, true, true, true) => (1/2) * c^2 + -(1/2)
    | (true, false, false, false) => (1/2) * c^2
    | (true, false, false, true) => (1/2) * c^2
    | (true, false, true, false) => -(1/2) * c^2
    | (true, false, true, true) => -(1/2) * c^2
    | (true, true, false, false) => -(1/2) * c * s
    | (true, true, false, true) => -(1/2) * c * s
    | (true, true, true, false) => (1/2) * c * s
    | (true, true, true, true) => (1/2) * c * s

/-- Row of an intermediate matrix of the `orb` chain. -/
def orbS7r3 {α : Type} [ Field α] (c s h : α) : B4 → α :=
  fun k =>
    match k with
    | (false, false, false, false) => -(1/2) * c^2 + (1/2)
    | (false, false, false, true) => (1/2) * c^2 + -(1/2)
    | (false, false, true, false) => (1/2) * c^2 + -(1/2)
    | (false, false, true, true) => -(1/2) * c^2 + (1/2)
    | (false, true, false, false) => -(1/2) * c * s
    | (false, true, false, true) => (1/2) * c * s
    | (false, true, true, false) => (1/2) * c * s
    | (false, true, true, true) => -(1/2) * c * s
    | (true, false, false, false) => -(1/2) * c * s
    | (true, false, false, true) => (1/2) * c * s
    | (true, false, true, false) => (1/2) * c * s
    | (true, false, true, true) => -(1/2) * c * s
    | (true, true, false, false) => (1/2) * c^2
    | (true, true, false, true) => -(1/2) * c^2
    | (true, true, true, false) => -(1/2) * c^2
    | (true, true, true, true) => (1/2) * c^2

/-- Row of an intermediate matrix of the `orb` chain. -/
def orbS7r4 {α : Type} [ Field α] (c s h : α) : B4 → α :=
  fun k =>
    match k with
    | (false, false, false, false) => (1/2) * c * s
    | (false, false, false, true) => (1/2) * c * s
    | (false, false, true, false) => (1/2) * c * s
    | (false, false, true, true) => (1/2) * c * s
    | (false, true, false, false) => (1/2) * c^2
    | (false, true, false, true) => (1/2) * c^2
    | (false, true, true, false) => (1/2) * c^2
    | (false, true, true, true) => (1/2) * c^2
    | (true, false, false, false) => (1/2) * c^2 + -(1/2)
    | (true, false, false, true) => (1/2) * c^2 + -(1/2)
    | (true, false, true, false) => (1/2) * c^2 + -(1/2)
    | (true, false, true, true) => (1/2) * c^2 + -(1/2)
    | (true, true, false, false) => -(1/2) * c * s
    | (true, true, false, true) => -(1/2) * c * s
    | (true, true, true, false) => -(1/2) * c * s
    | (true, true, true, true) => -(1/2) * c * s

/-- Row of an intermediate matrix of the `orb` chain. -/
def orbS7r5 {α : Type} [ Field α] (c s h : α) : B4 → α :=
  fun k =>
    match k with
    | (false, false, false, false) => (1/2) * c^2
    | (false, false, false, true) => -(1/2) * c^2
    | (false, false, true, false) => (1/2) * c^2
    | (false, false, true, true) => -(1/2) * c^2
    | (false, true, false, false) => (1/2) * c * s
    | (false, true, false, true) => -(1/2) * c * s
    | (false, true, true, false) => (1/2) * c * s
    | (false, true, true, true) => -(1/2) * c * s
    | (true, false, false, false) => -(1/2) * c * s
    | (true, false, false, true) => (1/2) * c * s
    | (true, false, true, false) => -(1/2) * c * s
    | (true, false, true, true) => (1/2) * c * s
    | (true, true, false, false) => (1/2) * c^2 + -(1/2)
    | (true, true, false, true) => -(1/2) * c^2 + (1/2)
    | (true, true, true, false) => (1/2) * c^2 + -(1/2)
    | (true, true, true, true) => -(1/2) * c^2 + (1/2)

/-- Row of an intermediate matrix of the `orb` chain. -/
def orbS7r6 {α : Type} [ Field α] (c s h : α) : B4 → α :=
  fun k =>
    match k with
    | (false, false, false, false) => (1/2) * c^2 + -(1/2)
    | (false, false, false, true) => (1/2) * c^2 + -(1/2)
    | (false, false, true, false) => -(1/2) * c^2 + (1/2)
    | (false, false, true, true) => -(1/2) * c^2 + (1/2)
    | (false, true, false, false) => -(1/2) * c * s
    | (false, true, false, true) => -(1/2) * c * s
    | (false, true, true, false) => (1/2) * c * s
    | (false, true, true, true) => (1/2) * c * s
    | (true, false, false, false) => (1/2) * c * s
    | (true, false, false, true) => (1/2) * c * s
    | (true, false, true, false) => -(1/2) * c * s
    | (true, false, true, true) => -(1/2) * c * s
    | (true, true, false, false) => (1/2) * c^2
    | (true, true, false, true) => (1/2) * c^2
    | (true, true, true, false) => -(1/2) * c^2
    | (true, true, true, true) => -(1/2) * c^2

/-- Row of an intermediate matrix of the `orb` chain. -/
def orbS7r7 {α : Type} [ Field α] (c s h : α) : B4 → α :=
  fun k =>
    match k with
    | (false, false, false, false) => -(1/2) * c * s
    | (false, false, false, true) => (1/2) * c * s
    | (false, false, true, false) => (1/2) * c * s
    | (false, false, true, true) => -(1/2) * c * s
    | (false, true, false, false) => (1/2) * c^2 + -(1/2)
    | (false, true, false, true) => -(1/2) * c^2 + (1/2)
    | (false, true, true, false) => -(1/2) * c^2 + (1/2)
    | (false, true, true, true) => (1/2) * c^2 + -(1/2)
    | (true, false, false, false) => (1/2) * c^2
    | (true, false, false, true) => -(1/2) * c^2
    | (true, false, true, false) => -(1/2) * c^2
    | (true, false, true, true) => (1/2) * c^2
    | (true, true, false, false) => (1/2) * c * s
    | (true, true, false, true) => -(1/2) * c * s
    | (true, true, true, false) => -(1/2) * c * s
    | (true, true, true, true) => (1/2) * c * s

/-- Row of an intermediate matrix of the `orb` chain. -/
def orbS7r8 {α : Type} [ Field α] (c s h : α) : B4 → α :=
  fun k =>
    match k with
    | (false, false, false, false) => (1/2) * c * s
    | (false, false, false, true) => (1/2) * c * s
    | (false, false, true, false) => (1/2) * c * s
    | (false, false, true, true) => (1/2) * c * s
    | (false, true, false, false) => (1/2) * c^2 + -(1/2)
    | (false, true, false, true) => (1/2) * c^2 + -(1/2)
    | (false, true, true, false) => (1/2) * c^2 + -(1/2)
    | (false, true, true, true) => (1/2) * c^2 + -(1/2)
    | (true, false, false, false) => (1/2) * c^2
    | (true, false, false, true) => (1/2) * c^2
    | (true, false, true, false) => (1/2) * c^2
    | (true, false, true, true) => (1/2) * c^2
    | (true, true, false, false) => -(1/2) * c * s
    | (true, true, false, true) => -(1/2) * c * s
    | (true, true, true, false) => -(1/2) * c * s
    | (true, true, true, true) => -(1/2) * c * s

/-- Row of an intermediate matrix of the `orb` chain. -/
def orbS7r9 {α : Type} [ Field α] (c s h : α) : B4 → α :=
  fun k =>
    match k with
    | (false, false, false, false) => (1/2) * c^2 + -(1/2)
    | (false, false, false, true) => -(1/2) * c^2 + (1/2)
    | (false, false, true, false) => (1/2) * c^2 + -(1/2)
    | (false, false, true, true) => -(1/2) * c^2 + (1/2)
    | (false, true, false, false) => (1/2) * c * s
    | (false, true, false, true) => -(1/2) * c * s
    | (false, true, true, false) => (1/2) * c * s
    | (false, true, true, true) => -(1/2) * c * s
    | (true, false, false, false) => -(1/2) * c * s
    | (true, false, false, true) => (1/2) * c * s
    | (true, false, true, false) => -(1/2) * c * s
    | (true, false, true, true) => (1/2) * c * s
    | (true, true, false, false) => (1/2) * c^2
    | (true, true, false, true) => -(1/2) * c^2
    | (true, true, true, false) => (1/2) * c^2
    | (true, true, true, true) => -(1/2) * c^2

/-- Row of an intermediate matrix of the `orb` chain. -/
def orbS7r10 {α : Type} [ Field α] (c s h : α) : B4 → α :=
  fun k =>
    match k with
    | (false, false, false, false) => (1/2) * c^2
    | (false, false, false, true) => (1/2) * c^2
    | (false, false, true, false) => -(1/2) * c^2
    | (false, false, true, true) => -(1/2) * c^2
    | (false, true, false, false) => -(1/2) * c * s
    | (false, true, false, true) => -(1/2) * c * s
    | (false, true, true, false) => (1/2) * c * s
    | (false, true, true, true) => (1/2) * c * s
    | (true, false, false, false) => (1/2) * c * s
    | (true, false, false, true) => (1/2) * c * s
    | (true, false, true, false) => -(1/2) * c * s
    | (true, false, true, true) => -(1/2) * c * s
    | (true, true, false, false) => (1/2) * c^2 + -(1/2)
    | (true, true, false, true) => (1/2) * c^2 + -(1/2)
    | (true, true, true, false) => -(1/2) * c^2 + (1/2)
    | (true, true, true, true) => -(1/2) * c^2 + (1/2)

/-- Row of an intermediate matrix of the `orb` chain. -/
def orbS7r11 {α : Type} [ Field α] (c s h : α) : B4 → α :=
  fun k =>
    match k with
    | (false, false, false, false) => -(1/2) * c * s
    | (false, false, false, true) => (1/2) * c * s
    | (false, false, true, false) => (1/2) * c * s
    | (false, false, true, true) => -(1/2) * c * s
    | (false, true, false, false) => (1/2) * c^2
    | (false, true, false, true) => -(1/2) * c^2
    | (false, true, true, false) => -(1/2) * c^2
    | (false, true, true, true) => (1/2) * c^2
    | (true, false, false, false) => (1/2) * c^2 + -(1/2)
    | (true, false, false, true) => -(1/2) * c^2 + (1/2)
    | (true, false, true, false) => -(1/2) * c^2 + (1/2)
    | (true, false, true, true) => (1/2) * c^2 + -(1/2)
    | (true, true, false, false) => (1/2) * c * s
    | (true, true, false, true) => -(1/2) * c * s
    | (true, true, true, false) => -(1/2) * c * s
    | (true, true, true, true) => (1/2) * c * s

/-- Row of an intermediate matrix of the `orb` chain. -/
def orbS7r12 {α : Type} [ Field α] (c s h : α) : B4 → α :=
  fun k =>
    match k with
    | (false, false, false, false) => -(1/2) * c^2 + (1/2)
    | (false, false, false, true) => -(1/2) * c^2 + (1/2)
    | (false, false, true, false) => -(1/2) * c^2 + (1/2)
    | (false, false, true, true) => -(1/2) * c^2 + (1/2)
    | (false, true, false, false) => (1/2) * c * s
    | (false, true, false, true) => (1/2) * c * s
    | (false, true, true, false) => (1/2) * c * s
    | (false, true, true, true) => (1/2) * c * s
    | (true, false, false, false) => (1/2) * c * s
    | (true, false, false, true) => (1/2) * c * s
    | (true, false, true, false) => (1/2) * c * s
    | (true, false, true, true) => (1/2) * c * s
    | (true, true, false, false) => (1/2) * c^2
    | (true, true, false, true) => (1/2) * c^2
    | (true, true, true, false) => (1/2) * c^2
    | (true, true, true, true) => (1/2) * c^2

/-- Row of an intermediate matrix of the `orb` chain. -/
def orbS7r13 {α : Type} [ Field α] (c s h : α) : B4 → α :=
  fun k =>
    match k with
    | (false, false, false, false) => (1/2) * c * s
    | (false, false, false, true) => -(1/2) * c * s
    | (false, false, true, false) => (1/2) * c * s
    | (false, false, true, true) => -(1/2) * c * s
    | (false, true, false, false) => -(1/2) * c^2 + (1/2)
    | (false, true, false, true) => (1/2) * c^2 + -(1/2)
    | (false, true, true, false) => -(1/2) * c^2 + (1/2)
    | (false, true, true, true) => (1/2) * c^2 + -(1/2)
    | (true, false, false, false) => (1/2) * c^2
    | (true, false, false, true) => -(1/2) * c^2
    | (true, false, true, false) => (1/2) * c^2
    | (true, false, true, true) => -(1/2) * c^2
    | (true, true, false, false) => (1/2) * c * s
    | (true, true, false, true) => -(1/2) * c * s
    | (true, true, true, false) => (1/2) * c * s
    | (true, true, true, true) => -(1/2) * c * s

/-- Row of an intermediate matrix of the `orb` chain. -/
def orbS7r14 {α : Type} [ Field α] (c s h : α) : B4 → α :=
  fun k =>
    match k with
    | (false, false, false, false) => (1/2) * c * s
    | (false, false, false, true) => (1/2) * c * s
    | (false, false, true, false) => -(1/2) * c * s
    | (false, false, true, true) => -(1/2) * c * s
    | (false, true, false, false) => (1/2) * c^2
    | (false, true, false, true) => (1/2) * c^2
    | (false, true, true, false) => -(1/2) * c^2
    | (false, true, true, true) => -(1/2) * c^2
    | (true, false, false, false) => -(1/2) * c^2 + (1/2)
    | (true, false, false, true) => -(1/2) * c^2 + (1/2)
    | (true, false, true, false) => (1/2) * c^2 + -(1/2)
    | (true, false, true, true) => (1/2) * c^2 + -(1/2)
    | (true, true, false, false) => (1/2) * c * s
    | (true, true, false, true) => (1/2) * c * s
    | (true, true, true, false) => -(1/2) * c * s
    | (true, true, true, true) => -(1/2) * c * s

/-- Row of an intermediate matrix of the `orb` chain. -/
def orbS7r15 {α : Type} [ Field α] (c s h : α) : B4 → α :=
  fun k =>
    match k with
    | (false, false, false, false) => (1/2) * c^2
    | (false, false, false, true) => -(1/2) * c^2
    | (false, false, true, false) => -(1/2) * c^2
    | (false, false, true, true) => (1/2) * c^2
    | (false, true, false, false) => (1/2) * c * s
    | (false, true, false, true) => -(1/2) * c * s
    | (false, true, true, false) => -(1/2) * c * s
    | (false, true, true, true) => (1/2) * c * s
    | (true, false, false, false) => (1/2) * c * s
    | (true, false, false, true) => -(1/2) * c * s
    | (true, false, true, false) => -(1/2) * c * s
    | (true, false, true, true) => (1/2) * c * s
    | (true, true, false, false) => -(1/2) * c^2 + (1/2)
    | (true, true, false, true) => (1/2) * c^2 + -(1/2)
    | (true, true, true, false) => (1/2) * c^2 + -(1/2)
    | (true, true, true, true) => -(1/2) * c^2 + (1/2)

/-- Suffix product 7 of the `orb` decomposition chain. -/
def orbS7 {α : Type} [ Field α] (c s h : α) : Matrix B4 B4 α :=
  Matrix.of fun r =>
    match r with
    | (false, false, false, false) => orbS7r0 c s h
    | (false, false, false, true) => orbS7r1 c s h
    | (false, false, true, false) => orbS7r2 c s h
    | (false, false, true, true) => orbS7r3 c s h
    | (false, true, false, false) => orbS7r4 c s h
    | (false, true, false, true) => orbS7r5 c s h
    | (false, true, true, false) => orbS7r6 c s h
    | (false, true, true, true) => orbS7r7 c s h
    | (true, false, false, false) => orbS7r8 c s h
    | (true, false, false, true) => orbS7r9 c s h
    | (true, false, true, false) => orbS7r10 c s h
    | (true, false, true, true) => orbS7r11 c s h
    | (true, true, false, false) => orbS7r12 c s h
    | (true, true, false, true) => orbS7r13 c s h
    | (true, true, true, false) => orbS7r14 c s h
    | (true, true, true, true) => orbS7r15 c s h

/-- Row of an intermediate matrix of the `orb` chain. -/
def orbS6r0 {α : Type} [ Field α] (c s h : α) : B4 → α :=
  fun k =>
    match k with
    | (false, false, false, false) => (1/2) * c
    | (false, false, false, true) => (1/2) * c
    | (false, false, true, false) => c^3 + -(1/2) * c
    | (false, false, true, true) => c^3 + -(1/2) * c
    | (false, true, false, false) => -(1/2) * s
    | (false, true, false, true) => -(1/2) * s
    | (false, true, true, false) => -c^2 * s + (1/2) * s
    | (false, true, true, true) => -c^2 * s + (1/2) * s
    | (true, false, false, false) => -c^2 * s
    | (true, false, false, true) => -c^2 * s
    | (true, true, false, false) => -c^3 + c
    | (true, true, false, true) => -c^3 + c
    | _ => 0

/-- Row of an intermediate matrix of the `orb` chain. -/
def orbS6r1 {α : Type} [ Field α] (c s h : α) : B4 → α :=
  fun k =>
    match k with
    | (false, false, false, false) => -(1/2) * s
    | (false, false, false, true) => (1/2) * s
    | (false, false, true, false) => -c^2 * s + (1/2) * s
    | (false, false, true, true) => c^2 * s + -(1/2) * s
    | (false, true, false, false) => (1/2) * c
    | (false, true, false, true) => -(1/2) * c
    | (false, true, true, false) => c^3 + -(1/2) * c
    | (false, true, true, true) => -c^3 + (1/2) * c
    | (true, false, false, false) => -c^3 + c
    | (true, false, false, true) => c^3 + -c
    | (true, true, false, false) => -c^2 * s
    | (true, true, false, true) => c^2 * s
    | _ => 0

/-- Row of an intermediate matrix of the `orb` chain. -/
def orbS6r2 {α : Type} [ Field α] (c s h : α) : B4 → α :=
  fun k =>
    match k with
    | (false, false, true, false) => c^2 * s
    | (false, false, true, true) => c^2 * s
    | (false, true, true, false) => c^3 + -c
    | (false, true, true, true) => c^3 + -c
    | (true, false, false, false) => c^3 + -(1/2) * c
    | (true, false, false, true) => c^3 + -(1/2) * c
    | (true, false, true, false) => -(1/2) * c
    | (true, false, true, true) => -(1/2) * c
    | (true, true, false, false) => -c^2 * s + (1/2) * s
    | (true, true, false, true) => -c^2 * s + (1/2) * s
    | (true, true, true, false) => (1/2) * s
    | (true, true, true, true) => (1/2) * s
    | _ => 0

/-- Row of an intermediate matrix of the `orb` chain. -/
def orbS6r3 {α : Type} [ Field α] (c s h : α) : B4 → α :=
  fun k =>
    match k with
    | (false, false, true, false) => c^3 + -c
    | (false, false, true, true) => -c^3 + c
    | (false, true, true, false) => c^2 * s
    | (false, true, true, true) => -c^2 * s
    | (true, false, false, false) => -c^2 * s + (1/2) * s
    | (true, false, false, true) => c^2 * s + -(1/2) * s
    | (true, false, true, false) => (1/2) * s
    | (true, false, true, true) => -(1/2) * s
    | (true, true, false, false) => c^3 + -(1/2) * c
    | (true, true, false, true) => -c^3 + (1/2) * c
    | (true, true, true, false) => -(1/2) * c
    | (true, true, true, true) => (1/2) * c
    | _ => 0

/-- Row of an intermediate matrix of the `orb` chain. -/
def orbS6r4 {α : Type} [ Field α] (c s h : α) : B4 → α :=
  fun k =>
    match k with
    | (false, false, false, false) => (1/2) * s
    | (false, false, false, true) => (1/2) * s
    | (false, false, true, false) => c^2 * s + -(1/2) * s
    | (false, false, true, true) => c^2 * s + -(1/2) * s
    | (false, true, false, false) => (1/2) * c
    | (false, true, false, true) => (1/2) * c
    | (false, true, true, false) => c^3 + -(1/2) * c
    | (false, true, true, true) => c^3 + -(1/2) * c
    | (true, false, false, false) => c^3 + -c
    | (true, false, false, true) => c^3 + -c
    | (true, true, false, false) => -c^2 * s
    | (true, true, false, true) => -c^2 * s
    | _ => 0

/-- Row of an intermediate matrix of the `orb` chain. -/
def orbS6r5 {α : Type} [ Field α] (c s h : α) : B4 → α :=
  fun k =>
    match k with
    | (false, false, false, false) => (1/2) * c
    | (false, false, false, true) => -(1/2) * c
    | (false, false, true, false) => c^3 + -(1/2) * c
    | (false, false, true, true) => -c^3 + (1/2) * c
    | (false, true, false, false) => (1/2) * s
    | (false, true, false, true) => -(1/2) * s
    | (false, true, true, false) => c^2 * s + -(1/2) * s
    | (false, true, true, true) => -c^2 * s + (1/2) * s
    | (true, false, false, false) => -c^2 * s
    | (true, false, false, true) => c^2 * s
    | (true, true, false, false) => c^3 + -c
    | (true, true, false, true) => -c^3 + c
    | _ => 0

/-- Row of an intermediate matrix of the `orb` chain. -/
def orbS6r6 {α : Type} [ Field α] (c s h : α) : B4 → α :=
  fun k =>
    match k with
    | (false, false, true, false) => -c^3 + c
    | (false, false, true, true) => -c^3 + c
    | (false, true, true, false) => c^2 * s
    | (false, true, true, true) => c^2 * s
    | (true, false, false, false) => c^2 * s + -(1/2) * s
    | (true, false, false, true) => c^2 * s + -(1/2) * s
    | (true, false, true, false) => -(1/2) * s
    | (true, false, true, true) => -(1/2) * s
    | (true, true, false, false) => c^3 + -(1/2) * c
    | (true, true, false, true) => c^3 + -(1/2) * c
    | (true, true, true, false) => -(1/2) * c
    | (true, true, true, true) => -(1/2) * c
    | _ => 0

/-- Row of an intermediate matrix of the `orb` chain. -/
def orbS6r7 {α : Type} [ Field α] (c s h : α) : B4 → α :=
  fun k =>
    match k with
    | (false, false, true, false) => c^2 * s
    | (false, false, true, true) => -c^2 * s
    | (false, true, true, false) => -c^3 + c
    | (false, true, true, true) => c^3 + -c
    | (true, false, false, false) => c^3 + -(1/2) * c
    | (true, false, false, true) => -c^3 + (1/2) * c
    | (true, false, true, false) => -(1/2) * c
    | (true, false, true, true) => (1/2) * c
    | (true, true, false, false) => c^2 * s + -(1/2) * s
    | (true, true, false, true) => -c^2 * s + (1/2) * s
    | (true, true, true, false) => -(1/2) * s
    | (true, true, true, true) => (1/2) * s
    | _ => 0

/-- Row of an intermediate matrix of the `orb` chain. -/
def orbS6r8 {α : Type} [ Field α] (c s h : α) : B4 → α :=
  fun k =>
    match k with
    | (false, false, true, false) => c^2 * s
    | (false, false, true, true) => c^2 * s
    | (false, true, true, false) => c^3 + -c
    | (false, true, true, true) => c^3 + -c
    | (true, false, false, false) => c^3 + -(1/2) * c
    | (true, false, false, true) => c^3 + -(1/2) * c
    | (true, false, true, false) => (1/2) * c
    | (true, false, true, true) => (1/2) * c
    | (true, true, false, false) => -c^2 * s + (1/2) * s
    | (true, true, false, true) => -c^2 * s + (1/2) * s
    | (true, true, true, false) => -(1/2) * s
    | (true, true, true, true) => -(1/2) * s
    | _ => 0

/-- Row of an intermediate matrix of the `orb` chain. -/
def orbS6r9 {α : Type} [ Field α] (c s h : α) : B4 → α :=
  fun k =>
    match k with
    | (false, false, true, false) => c^3 + -c
    | (false, false, true, true) => -c^3 + c
    | (false, true, true, false) => c^2 * s
    | (false, true, true, true) => -c^2 * s
    | (true, false, false, false) => -c^2 * s + (1/2) * s
    | (true, false, false, true) => c^2 * s + -(1/2) * s
    | (true, false, true, false) => -(1/2) * s
    | (true, false, true, true) => (1/2) * s
    | (true, true, false, false) => c^3 + -(1/2) * c
    | (true, true, false, true) => -c^3 + (1/2) * c
    | (true, true, true, false) => (1/2) * c
    | (true, true, true, true) => -(1/2) * c
    | _ => 0

/-- Row of an intermediate matrix of the `orb` chain. -/
def orbS6r10 {α : Type} [ Field α] (c s h : α) : B4 → α :=
  fun k =>
    match k with
    | (false, false, false, false) => (1/2) * c
    | (false, false, false, true) => (1/2) * c
    | (false, false, true, false) => -c^3 + (1/2) * c
    | (false, false, true, true) => -c^3 + (1/2) * c
    | (false, true, false, false) => -(1/2) * s
    | (false, true, false, true) => -(1/2) * s
    | (false, true, true, false) => c^2 * s + -(1/2) * s
    | (false, true, true, true) => c^2 * s + -(1/2) * s
    | (true, false, false, false) => c^2 * s
    | (true, false, false, true) => c^2 * s
    | (true, true, false, false) => c^3 + -c
    | (true, true, false, true) => c^3 + -c
    | _ => 0

/-- Row of an intermediate matrix of the `orb` chain. -/
def orbS6r11 {α : Type} [ Field α] (c s h : α) : B4 → α :=
  fun k =>
    match k with
    | (false, false, false, false) => -(1/2) * s
    | (false, false, false, true) => (1/2) * s
    | (false, false, true, false) => c^2 * s + -(1/2) * s
    | (false, false, true, true) => -c^2 * s + (1/2) * s
    | (false, true, false, false) => (1/2) * c
    | (false, true, false, true) => -(1/2) * c
    | (false, true, true, false) => -c^3 + (1/2) * c
    | (false, true, true, true) => c^3 + -(1/2) * c
    | (true, false, false, false) => c^3 + -c
    | (true, false, false, true) => -c^3 + c
    | (true, true, false, false) => c^2 * s
    | (true, true, false, true) => -c^2 * s
    | _ => 0

/-- Row of an intermediate matrix of the `orb` chain. -/
def orbS6r12 {α : Type} [ Field α] (c s h : α) : B4 → α :=
  fun k =>
    match k with
    | (false, false, true, false) => -c^3 + c
    | (false, false, true, true) => -c^3 + c
    | (false, true, true, false) => c^2 * s
    | (false, true, true, true) => c^2 * s
    | (true, false, false, false) => c^2 * s + -(1/2) * s
    | (true, false, false, true) => c^2 * s + -(1/2) * s
    | (true, false, true, false) => (1/2) * s
    | (true, false, true, true) => (1/2) * s
    | (true, true, false, false) => c^3 + -(1/2) * c
    | (true, true, false, true) => c^3 + -(1/2) * c
    | (true, true, true, false) => (1/2) * c
    | (true, true, true, true) => (1/2) * c
    | _ => 0

/-- Row of an intermediate matrix of the `orb` chain. -/
def orbS6r13 {α : Type} [ Field α] (c s h : α) : B4 → α :=
  fun k =>
    match k with
    | (false, false, true, false) => c^2 * s
    | (false, false, true, true) => -c^2 * s
    | (false, true, true, false) => -c^3 + c
    | (false, true, true, true) => c^3 + -c
    | (true, false, false, false) => c^3 + -(1/2) * c
    | (true, false, false, true) => -c^3 + (1/2) * c
    | (true, false, true, false) => (1/2) * c
    | (true, false, true, true) => -(1/2) * c
    | (true, true, false, false) => c^2 * s + -(1/2) * s
    | (true, true, false, true) => -c^2 * s + (1/2) * s
    | (true, true, true, false) => (1/2) * s
    | (true, true, true, true) => -(1/2) * s
    | _ => 0

/-- Row of an intermediate matrix of the `orb` chain. -/
def orbS6r14 {α : Type} [ Field α] (c s h : α) : B4 → α :=
  fun k =>
    match k with
    | (false, false, false, false) => (1/2) * s
    | (false, false, false, true) => (1/2) * s
    | (false, false, true, false) => -c^2 * s + (1/2) * s
    | (false, false, true, true) => -c^2 * s + (1/2) * s
    | (false, true, false, false) => (1/2) * c
    | (false, true, false, true) => (1/2) * c
    | (false, true, true, false) => -c^3 + (1/2) * c
    | (false, true, true, true) => -c^3 + (1/2) * c
    | (true, false, false, false) => -c^3 + c
    | (true, false, false, true) => -c^3 + c
    | (true, true, false, false) => c^2 * s
    | (true, true, false, true) => c^2 * s
    | _ => 0

/-- Row of an intermediate matrix of the `orb` chain. -/
def orbS6r15 {α : Type} [ Field α] (c s h : α) : B4 → α :=
  fun k =>
    match k with
    | (false, false, false, false) => (1/2) * c
    | (false, false, false, true) => -(1/2) * c
    | (false, false, true, false) => -c^3 + (1/2) * c
    | (false, false, true, true) => c^3 + -(1/2) * c
    | (false, true, false, false) => (1/2) * s
    | (false, true, false, true) => -(1/2) * s
    | (false, true, true, false) => -c^2 * s + (1/2) * s
    | (false, true, true, true) => c^2 * s + -(1/2) * s
    | (true, false, false, false) => c^2 * s
    | (true, false, false, true) => -c^2 * s
    | (true, true, false, false) => -c^3 + c
    | (true, true, false, true) => c^3 + -c
    | _ => 0

/-- Suffix product 6 of the `orb` decomposition chain. -/
def orbS6 {α : Type} [ Field α] (c s h : α) : Matrix B4 B4 α :=
  Matrix.of fun r =>
    match r with
    | (false, false, false, false) => orbS6r0 c s h
    | (false, false, false, true) => orbS6r1 c s h
    | (false, false, true, false) => orbS6r2 c s h
    | (false, false, true, true) => orbS6r3 c s h
    | (false, true, false, false) => orbS6r4 c s h
    | (false, true, false, true) => orbS6r5 c s h
    | (false, true, true, false) => orbS6r6 c s h
    | (false, true, true, true) => orbS6r7 c s h
    | (true, false, false, false) => orbS6r8 c s h
    | (true, false, false, true) => orbS6r9 c s h
    | (true, false, true, false) => orbS6r10 c s h
    | (true, false, true, true) => orbS6r11 c s h
    | (true, true, false, false) => orbS6r12 c s h
    | (true, true, false, true) => orbS6r13 c s h
    | (true, true, true, false) => orbS6r14 c s h
    | (true, true, true, true) => orbS6r15 c s h

/-- Row of an intermediate matrix of the `orb` chain. -/
def orbS5r0 {α : Type} [ Field α] (c s h : α) : B4 → α :=
  fun k =>
    match k with
    | (false, false, false, false) => (1/2)
    | (false, false, false, true) => c^2 + -(1/2)
    | (false, false, true, false) => c^2 + -(1/2)
    | (false, false, true, true) => 2 * c^4 + -(2) * c^2 + (1/2)
    | (false, true, false, false) => -c * s
    | (false, true, true, false) => -(2) * c^3 * s + c * s
    | (true, false, false, false) => -c * s
    | (true, false, false, true) => -(2) * c^3 * s + c * s
    | (true, true, false, false) => -(2) * c^4 + 2 * c^2
    | _ => 0

/-- Row of an intermediate matrix of the `orb` chain. -/
def orbS5r1 {α : Type} [ Field α] (c s h : α) : B4 → α :=
  fun k =>
    match k with
    | (false, false, false, true) => c * s
    | (false, false, true, true) => 2 * c^3 * s + -c * s
    | (false, true, false, false) => c^2 + -(1/2)
    | (false, true, false, true) => -(1/2)
    | (false, true, true, false) => 2 * c^4 + -(2) * c^2 + (1/2)
    | (false, true, true, true) => -c^2 + (1/2)
    | (true, false, false, true) => 2 * c^4 + -(2) * c^2
    | (true, true, false, false) => -(2) * c^3 * s + c * s
    | (true, true, false, true) => c * s
    | _ => 0

/-- Row of an intermediate matrix of the `orb` chain. -/
def orbS5r2 {α : Type} [ Field α] (c s h : α) : B4 → α :=
  fun k =>
    match k with
    | (false, false, true, false) => c * s
    | (false, false, true, true) => 2 * c^3 * s + -c * s
    | (false, true, true, false) => 2 * c^4 + -(2) * c^2
    | (true, false, false, false) => c^2 + -(1/2)
    | (true, false, false, true) => 2 * c^4 + -(2) * c^2 + (1/2)
    | (true, false, true, false) => -(1/2)
    | (true, false, true, true) => -c^2 + (1/2)
    | (true, true, false, false) => -(2) * c^3 * s + c * s
    | (true, true, true, false) => c * s
    | _ => 0

/-- Row of an intermediate matrix of the `orb` chain. -/
def orbS5r3 {α : Type} [ Field α] (c s h : α) : B4 → α :=
  fun k =>
    match k with
    | (false, false, true, true) => -(2) * c^4 + 2 * c^2
    | (false, true, true, false) => 2 * c^3 * s + -c * s
    | (false, true, true, true) => -c * s
    | (true, false, false, true) => 2 * c^3 * s + -c * s
    | (true, false, true, true) => -c * s
    | (true, true, false, false) => 2 * c^4 + -(2) * c^2 + (1/2)
    | (true, true, false, true) => -c^2 + (1/2)
    | (true, true, true, false) => -c^2 + (1/2)
    | (true, true, true, true) => (1/2)
    | _ => 0

/-- Row of an intermediate matrix of the `orb` chain. -/
def orbS5r4 {α : Type} [ Field α] (c s h : α) : B4 → α :=
  fun k =>
    match k with
    | (false, false, false, true) => c * s
    | (false, false, true, true) => 2 * c^3 * s + -c * s
    | (false, true, false, false) => c^2 + -(1/2)
    | (false, true, false, true) => (1/2)
    | (false, true, true, false) => 2 * c^4 + -(2) * c^2 + (1/2)
    | (false, true, true, true) => c^2 + -(1/2)
    | (true, false, false, true) => 2 * c^4 + -(2) * c^2
    | (true, true, false, false) => -(2) * c^3 * s + c * s
    | (true, true, false, true) => -c * s
    | _ => 0

/-- Row of an intermediate matrix of the `orb` chain. -/
def orbS5r5 {α : Type} [ Field α] (c s h : α) : B4 → α :=
  fun k =>
    match k with
    | (false, false, false, false) => (1/2)
    | (false, false, false, true) => -c^2 + (1/2)
    | (false, false, true, false) => c^2 + -(1/2)
    | (false, false, true, true) => -(2) * c^4 + 2 * c^2 + -(1/2)
    | (false, true, false, false) => c * s
    | (false, true, true, false) => 2 * c^3 * s + -c * s
    | (true, false, false, false) => -c * s
    | (true, false, false, true) => 2 * c^3 * s + -c * s
    | (true, true, false, false) => 2 * c^4 + -(2) * c^2
    | _ => 0

/-- Row of an intermediate matrix of the `orb` chain. -/
def orbS5r6 {α : Type} [ Field α] (c s h : α) : B4 → α :=
  fun k =>
    match k with
    | (false, false, true, true) => -(2) * c^4 + 2 * c^2
    | (false, true, true, false) => 2 * c^3 * s + -c * s
    | (false, true, true, true) => c * s
    | (true, false, false, true) => 2 * c^3 * s + -c * s
    | (true, false, true, true) => -c * s
    | (true, true, false, false) => 2 * c^4 + -(2) * c^2 + (1/2)
    | (true, true, false, true) => c^2 + -(1/2)
    | (true, true, true, false) => -c^2 + (1/2)
    | (true, true, true, true) => -(1/2)
    | _ => 0

/-- Row of an intermediate matrix of the `orb` chain. -/
def orbS5r7 {α : Type} [ Field α] (c s h : α) : B4 → α :=
  fun k =>
    match k with
    | (false, false, true, false) => c * s
    | (false, false, true, true) => -(2) * c^3 * s + c * s
    | (false, true, true, false) => -(2) * c^4 + 2 * c^2
    | (true, false, false, false) => c^2 + -(1/2)
    | (true, false, false, true) => -(2) * c^4 + 2 * c^2 + -(1/2)
    | (true, false, true, false) => -(1/2)
    | (true, false, true, true) => c^2 + -(1/2)
    | (true, true, false, false) => 2 * c^3 * s + -c * s
    | (true, true, true, false) => -c * s
    | _ => 0

/-- Row of an intermediate matrix of the `orb` chain. -/
def orbS5r8 {α : Type} [ Field α] (c s h : α) : B4 → α :=
  fun k =>
    match k with
    | (false, false, true, false) => c * s
    | (false, false, true, true) => 2 * c^3 * s + -c * s
    | (false, true, true, false) => 2 * c^4 + -(2) * c^2
    | (true, false, false, false) => c^2 + -(1/2)
    | (true, false, false, true) => 2 * c^4 + -(2) * c^2 + (1/2)
    | (true, false, true, false) => (1/2)
    | (true, false, true, true) => c^2 + -(1/2)
    | (true, true, false, false) => -(2) * c^3 * s + c * s
    | (true, true, true, false) => -c * s
    | _ => 0

/-- Row of an intermediate matrix of the `orb` chain. -/
def orbS5r9 {α : Type} [ Field α] (c s h : α) : B4 → α :=
  fun k =>
    match k with
    | (false, false, true, true) => -(2) * c^4 + 2 * c^2
    | (false, true, true, false) => 2 * c^3 * s + -c * s
    | (false, true, true, true) => -c * s
    | (true, false, false, true) => 2 * c^3 * s + -c * s
    | (true, false, true, true) => c * s
    | (true, true, false, false) => 2 * c^4 + -(2) * c^2 + (1/2)
    | (true, true, false, true) => -c^2 + (1/2)
    | (true, true, true, false) => c^2 + -(1/2)
    | (true, true, true, true) => -(1/2)
    | _ => 0

/-- Row of an intermediate matrix of the `orb` chain. -/
def orbS5r10 {α : Type} [ Field α] (c s h : α) : B4 → α :=
  fun k =>
    match k with
    | (false, false, false, false) => (1/2)
    | (false, false, false, true) => c^2 + -(1/2)
    | (false, false, true, false) => -c^2 + (1/2)
    | (false, false, true, true) => -(2) * c^4 + 2 * c^2 + -(1/2)
    | (false, true, false, false) => -c * s
    | (false, true, true, false) => 2 * c^3 * s + -c * s
    | (true, false, false, false) => c * s
    | (true, false, false, true) => 2 * c^3 * s + -c * s
    | (true, true, false, false) => 2 * c^4 + -(2) * c^2
    | _ => 0

/-- Row of an intermediate matrix of the `orb` chain. -/
def orbS5r11 {α : Type} [ Field α] (c s h : α) : B4 → α :=
  fun k =>
    match k with
    | (false, false, false, true) => c * s
    | (false, false, true, true) => -(2) * c^3 * s + c * s
    | (false, true, false, false) => c^2 + -(1/2)
    | (false, true, false, true) => -(1/2)
    | (false, true, true, false) => -(2) * c^4 + 2 * c^2 + -(1/2)
    | (false, true, true, true) => c^2 + -(1/2)
    | (true, false, false, true) => -(2) * c^4 + 2 * c^2
    | (true, true, false, false) => 2 * c^3 * s + -c * s
    | (true, true, false, true) => -c * s
    | _ => 0

/-- Row of an intermediate matrix of the `orb` chain. -/
def orbS5r12 {α : Type} [ Field α] (c s h : α) : B4 → α :=
  fun k =>
    match k with
    | (false, false, true, true) => -(2) * c^4 + 2 * c^2
    | (false, true, true, false) => 2 * c^3 * s + -c * s
    | (false, true, true, true) => c * s
    | (true, false, false, true) => 2 * c^3 * s + -c * s
    | (true, false, true, true) => c * s
    | (true, true, false, false) => 2 * c^4 + -(2) * c^2 + (1/2)
    | (true, true, false, true) => c^2 + -(1/2)
    | (true, true, true, false) => c^2 + -(1/2)
    | (true, true, true, true) => (1/2)
    | _ => 0

/-- Row of an intermediate matrix of the `orb` chain. -/
def orbS5r13 {α : Type} [ Field α] (c s h : α) : B4 → α :=
  fun k =>
    match k with
    | (false, false, true, false) => c * s
    | (false, false, true, true) => -(2) * c^3 * s + c * s
    | (false, true, true, false) => -(2) * c^4 + 2 * c^2
    | (true, false, false, false) => c^2 + -(1/2)
    | (true, false, false, true) => -(2) * c^4 + 2 * c^2 + -(1/2)
    | (true, false, true, false) => (1/2)
    | (true, false, true, true) => -c^2 + (1/2)
    | (true, true, false, false) => 2 * c^3 * s + -c * s
    | (true, true, true, false) => c * s
    | _ => 0

/-- Row of an intermediate matrix of the `orb` chain. -/
def orbS5r14 {α : Type} [ Field α] (c s h : α) : B4 → α :=
  fun k =>
    match k with
    | (false, false, false, true) => c * s
    | (false, false, true, true) => -(2) * c^3 * s + c * s
    | (false, true, false, false) => c^2 + -(1/2)
    | (false, true, false, true) => (1/2)
    | (false, true, true, false) => -(2) * c^4 + 2 * c^2 + -(1/2)
    | (false, true, true, true) => -c^2 + (1/2)
    | (true, false, false, true) => -(2) * c^4 + 2 * c^2
    | (true, true, false, false) => 2 * c^3 * s + -c * s
    | (true, true, false, true) => c * s
    | _ => 0

/-- Row of an intermediate matrix of the `orb` chain. -/
def orbS5r15 {α : Type} [ Field α] (c s h : α) : B4 → α :=
  fun k =>
    match k with
    | (false, false, false, false) => (1/2)
    | (false, false, false, true) => -c^2 + (1/2)
    | (false, false, true, false) => -c^2 + (1/2)
    | (false, false, true, true) => 2 * c^4 + -(2) * c^2 + (1/2)
    | (false, true, false, false) => c * s
    | (false, true, true, false) => -(2) * c^3 * s + c * s
    | (true, false, false, false) => c * s
    | (true, false, false, true) => -(2) * c^3 * s + c * s
    | (true, true, false, false) => -(2) * c^4 + 2 * c^2
    | _ => 0

/-- Suffix product 5 of the `orb` decomposition chain. -/
def orbS5 {α : Type} [ Field α] (c s h : α) : Matrix B4 B4 α :=
  Matrix.of fun r =>
    match r with
    | (false, false, false, false) => orbS5r0 c s h
    | (false, false, false, true) => orbS5r1 c s h
    | (false, false, true, false) => orbS5r2 c s h
    | (false, false, true, true) => orbS5r3 c s h
    | (false, true, false, false) => orbS5r4 c s h
    | (false, true, false, true) => orbS5r5 c s h
    | (false, true, true, false) => orbS5r6 c s h
    | (false, true, true, true) => orbS5r7 c s h
    | (true, false, false, false) => orbS5r8 c s h
    | (true, false, false, true) => orbS5r9 c s h
    | (true, false, true, false) => orbS5r10 c s h
    | (true, false, true, true) => orbS5r11 c s h
    | (true, true, false, false) => orbS5r12 c s h
    | (true, true, false, true) => orbS5r13 c s h
    | (true, true, true, false) => orbS5r14 c s h
    | (true, true, true, true) => orbS5r15 c s h

/-- Suffix product 4 of the `orb` decomposition chain. -/
def orbS4 {α : Type} [ Field α] (c s h : α) : Matrix B4 B4 α :=
  Matrix.of fun r =>
    match r with
    | (false, false, false, false) => orbS5r0 c s h
    | (false, false, false, true) => orbS5r1 c s h
    | (false, false, true, false) => orbS5r10 c s h
    | (false, false, true, true) => orbS5r11 c s h
    | (false, true, false, false) => orbS5r4 c s h
    | (false, true, false, true) => orbS5r5 c s h
    | (false, true, true, false) => orbS5r14 c s h
    | (false, true, true, true) => orbS5r15 c s h
    | (true, false, false, false) => orbS5r8 c s h
    | (true, false, false, true) => orbS5r9 c s h
    | (true, false, true, false) => orbS5r2 c s h
    | (true, false, true, true) => orbS5r3 c s h
    | (true, true, false, false) => orbS5r12 c s h
    | (true, true, false, true) => orbS5r13 c s h
    | (true, true, true, false) => orbS5r6 c s h
    | (true, true, true, true) => orbS5r7 c s h

/-- Suffix product 3 of the `orb` decomposition chain. -/
def orbS3 {α : Type} [ Field α] (c s h : α) : Matrix B4 B4 α :=
  Matrix.of fun r =>
    match r with
    | (false, false, false, false) => orbS5r0 c s h
    | (false, false, false, true) => orbS5r5 c s h
    | (false, false, true, false) => orbS5r10 c s h
    | (false, false, true, true) => orbS5r15 c s h
    | (false, true, false, false) => orbS5r4 c s h
    | (false, true, false, true) => orbS5r1 c s h
    | (false, true, true, false) => orbS5r14 c s h
    | (false, true, true, true) => orbS5r11 c s h
    | (true, false, false, false) => orbS5r8 c s h
    | (true, false, false, true) => orbS5r13 c s h
    | (true, false, true, false) => orbS5r2 c s h
    | (true, false, true, true) => orbS5r7 c s h
    | (true, true, false, false) => orbS5r12 c s h
    | (true, true, false, true) => orbS5r9 c s h
    | (true, true, true, false) => orbS5r6 c s h
    | (true, true, true, true) => orbS5r3 c s h

/-- Row of an intermediate matrix of the `orb` chain. -/
def orbS2r0 {α : Type} [ Field α] (c s h : α) : B4 → α :=
  fun k =>
    match k with
    | (false, false, false, false) => h
    | (false, false, false, true) => 2 * c^2 * h + -h
    | (false, true, false, false) => -(2) * c * s * h
    | _ => 0

/-- Row of an intermediate matrix of the `orb` chain. -/
def orbS2r1 {α : Type} [ Field α] (c s h : α) : B4 → α :=
  fun k =>
    match k with
    | (false, false, false, false) => h
    | (false, false, false, true) => -(2) * c^2 * h + h
    | (false, true, false, false) => 2 * c * s * h
    | _ => 0

/-- Row of an intermediate matrix of the `orb` chain. -/
def orbS2r2 {α : Type} [ Field α] (c s h : α) : B4 → α :=
  fun k =>
    match k with
    | (false, false, true, false) => 2 * c^2 * h + -h
    | (false, false, true, true) => 4 * c^4 * h + -(4) * c^2 * h + h
    | (false, true, true, false) => -(4) * c^3 * s * h + 2 * c * s * h
    | (true, false, false, false) => -(2) * c * s * h
    | (true, false, false, true) => -(4) * c^3 * s * h + 2 * c * s * h
    | (true, true, false, false) => -(4) * c^4 * h + 4 * c^2 * h
    | _ => 0

/-- Row of an intermediate matrix of the `orb` chain. -/
def orbS2r3 {α : Type} [ Field α] (c s h : α) : B4 → α :=
  fun k =>
    match k with
    | (false, false, true, false) => 2 * c^2 * h + -h
    | (false, false, true, true) => -(4) * c^4 * h + 4 * c^2 * h + -h
    | (false, true, true, false) => 4 * c^3 * s * h + -(2) * c * s * h
    | (true, false, false, false) => -(2) * c * s * h
    | (true, false, false, true) => 4 * c^3 * s * h + -(2) * c * s * h
    | (true, true, false, false) => 4 * c^4 * h + -(4) * c^2 * h
    | _ => 0

/-- Row of an intermediate matrix of the `orb` chain. -/
def orbS2r4 {α : Type} [ Field α] (c s h : α) : B4 → α :=
  fun k =>
    match k with
    | (false, false, false, true) => 2 * c * s * h
    | (false, true, false, false) => 2 * c^2 * h + -h
    | (false, true, false, true) => h
    | _ => 0

/-- Row of an intermediate matrix of the `orb` chain. -/
def orbS2r5 {α : Type} [ Field α] (c s h : α) : B4 → α :=
  fun k =>
    match k with
    | (false, false, false, true) => 2 * c * s * h
    | (false, true, false, false) => 2 * c^2 * h + -h
    | (false, true, false, true) => -h
    | _ => 0

/-- Row of an intermediate matrix of the `orb` chain. -/
def orbS2r6 {α : Type} [ Field α] (c s h : α) : B4 → α :=
  fun k =>
    match k with
    | (false, false, true, true) => 4 * c^3 * s * h + -(2) * c * s * h
    | (false, true, true, false) => 4 * c^4 * h + -(4) * c^2 * h + h
    | (false, true, true, true) => 2 * c^2 * h + -h
    | (true, false, false, true) => 4 * c^4 * h + -(4) * c^2 * h
    | (true, true, false, false) => -(4) * c^3 * s * h + 2 * c * s * h
    | (true, true, false, true) => -(2) * c * s * h
    | _ => 0

/-- Row of an intermediate matrix of the `orb` chain. -/
def orbS2r7 {α : Type} [ Field α] (c s h : α) : B4 → α :=
  fun k =>
    match k with
    | (false, false, true, true) => 4 * c^3 * s * h + -(2) * c * s * h
    | (false, true, true, false) => 4 * c^4 * h + -(4) * c^2 * h + h
    | (false, true, true, true) => -(2) * c^2 * h + h
    | (true, false, false, true) => 4 * c^4 * h + -(4) * c^2 * h
    | (true, true, false, false) => -(4) * c^3 * s * h + 2 * c * s * h
    | (true, true, false, true) => 2 * c * s * h
    | _ => 0

/-- Row of an intermediate matrix of the `orb` chain. -/
def orbS2r8 {α : Type} [ Field α] (c s h : α) : B4 → α :=
  fun k =>
    match k with
    | (false, false, true, false) => 2 * c * s * h
    | (false, false, true, true) => 4 * c^3 * s * h + -(2) * c * s * h
    | (false, true, true, false) => 4 * c^4 * h + -(4) * c^2 * h
    | (true, false, false, false) => 2 * c^2 * h + -h
    | (true, false, false, true) => 4 * c^4 * h + -(4) * c^2 * h + h
    | (true, true, false, false) => -(4) * c^3 * s * h + 2 * c * s * h
    | _ => 0

/-- Row of an intermediate matrix of the `orb` chain. -/
def orbS2r9 {α : Type} [ Field α] (c s h : α) : B4 → α :=
  fun k =>
    match k with
    | (false, false, true, false) => 2 * c * s * h
    | (false, false, true, true) => -(4) * c^3 * s * h + 2 * c * s * h
    | (false, true, true, false) => -(4) * c^4 * h + 4 * c^2 * h
    | (true, false, false, false) => 2 * c^2 * h + -h
    | (true, false, false, true) => -(4) * c^4 * h + 4 * c^2 * h + -h
    | (true, true, false, false) => 4 * c^3 * s * h + -(2) * c * s * h
    | _ => 0

/-- Row of an intermediate matrix of the `orb` chain. -/
def orbS2r10 {α : Type} [ Field α] (c s h : α) : B4 → α :=
  fun k =>
    match k with
    | (true, false, true, false) => h
    | (true, false, true, true) => 2 * c^2 * h + -h
    | (true, true, true, false) => -(2) * c * s * h
    | _ => 0

/-- Row of an intermediate matrix of the `orb` chain. -/
def orbS2r11 {α : Type} [ Field α] (c s h : α) : B4 → α :=
  fun k =>
    match k with
    | (true, false, true, false) => h
    | (true, false, true, true) => -(2) * c^2 * h + h
    | (true, true, true, false) => 2 * c * s * h
    | _ => 0

/-- Row of an intermediate matrix of the `orb` chain. -/
def orbS2r12 {α : Type} [ Field α] (c s h : α) : B4 → α :=
  fun k =>
    match k with
    | (false, false, true, true) => -(4) * c^4 * h + 4 * c^2 * h
    | (false, true, true, false) => 4 * c^3 * s * h + -(2) * c * s * h
    | (false, true, true, true) => 2 * c * s * h
    | (true, false, false, true) => 4 * c^3 * s * h + -(2) * c * s * h
    | (true, true, false, false) => 4 * c^4 * h + -(4) * c^2 * h + h
    | (true, true, false, true) => 2 * c^2 * h + -h
    | _ => 0

/-- Row of an intermediate matrix of the `orb` chain. -/
def orbS2r13 {α : Type} [ Field α] (c s h : α) : B4 → α :=
  fun k =>
    match k with
    | (false, false, true, true) => -(4) * c^4 * h + 4 * c^2 * h
    | (false, true, true, false) => 4 * c^3 * s * h + -(2) * c * s * h
    | (false, true, true, true) => -(2) * c * s * h
    | (true, false, false, true) => 4 * c^3 * s * h + -(2) * c * s * h
    | (true, true, false, false) => 4 * c^4 * h + -(4) * c^2 * h + h
    | (true, true, false, true) => -(2) * c^2 * h + h
    | _ => 0

/-- Row of an intermediate matrix of the `orb` chain. -/
def orbS2r14 {α : Type} [ Field α] (c s h : α) : B4 → α :=
  fun k =>
    match k with
    | (true, false, true, true) => 2 * c * s * h
    | (true, true, true, false) => 2 * c^2 * h + -h
    | (true, true, true, true) => h
    | _ => 0

/-- Row of an intermediate matrix of the `orb` chain. -/
def orbS2r15 {α : Type} [ Field α] (c s h : α) : B4 → α :=
  fun k =>
    match k with
    | (true, false, true, true) => 2 * c * s * h
    | (true, true, true, false) => 2 * c^2 * h + -h
    | (true, true, true, true) => -h
    | _ => 0

/-- Suffix product 2 of the `orb` decomposition chain. -/
def orbS2 {α : Type} [ Field α] (c s h : α) : Matrix B4 B4 α :=
  Matrix.of fun r =>
    match r with
    | (false, false, false, false) => orbS2r0 c s h
    | (false, false, false, true) => orbS2r1 c s h
    | (false, false, true, false) => orbS2r2 c s h
    | (false, false, true, true) => orbS2r3 c s h
    | (false, true, false, false) => orbS2r4 c s h
    | (false, true, false, true) => orbS2r5 c s h
    | (false, true, true, false) => orbS2r6 c s h
    | (false, true, true, true) => orbS2r7 c s h
    | (true, false, false, false) => orbS2r8 c s h
    | (true, false, false, true) => orbS2r9 c s h
    | (true, false, true, false) => orbS2r10 c s h
    | (true, false, true, true) => orbS2r11 c s h
    | (true, true, false, false) => orbS2r12 c s h
    | (true, true, false, true) => orbS2r13 c s h
    | (true, true, true, false) => orbS2r14 c s h
    | (true, true, true, true) => orbS2r15 c s h

/-- Row of an intermediate matrix of the `orb` chain. -/
def orbS1r0 {α : Type} [ Field α] (c s h : α) : B4 → α :=
  fun k =>
    match k with
    | (false, false, false, false) => 1
    | _ => 0

/-- Row of an intermediate matrix of the `orb` chain. -/
def orbS1r1 {α : Type} [ Field α] (c s h : α) : B4 → α :=
  fun k =>
    match k with
    | (false, false, false, true) => 2 * c^2 + -(1)
    | (false, true, false, false) => -(2) * c * s
    | _ => 0

/-- Row of an intermediate matrix of the `orb` chain. -/
def orbS1r2 {α : Type} [ Field α] (c s h : α) : B4 → α :=
  fun k =>
    match k with
    | (false, false, true, false) => 2 * c^2 + -(1)
    | (true, false, false, false) => -(2) * c * s
    | _ => 0

/-- Row of an intermediate matrix of the `orb` chain. -/
def orbS1r3 {α : Type} [ Field α] (c s h : α) : B4 → α :=
  fun k =>
    match k with
    | (false, false, true, true) => 4 * c^4 + -(4) * c^2 + 1
    | (false, true, true, false) => -(4) * c^3 * s + 2 * c * s
    | (true, false, false, true) => -(4) * c^3 * s + 2 * c * s
    | (true, true, false, false) => -(4) * c^4 + 4 * c^2
    | _ => 0

/-- Row of an intermediate matrix of the `orb` chain. -/
def orbS1r4 {α : Type} [ Field α] (c s h : α) : B4 → α :=
  fun k =>
    match k with
    | (false, false, false, true) => 2 * c * s
    | (false, true, false, false) => 2 * c^2 + -(1)
    | _ => 0

/-- Row of an intermediate matrix of the `orb` chain. -/
def orbS1r5 {α : Type} [ Field α] (c s h : α) : B4 → α :=
  fun k =>
    match k with
    | (false, true, false, true) => 1
    | _ => 0

/-- Row of an intermediate matrix of the `orb` chain. -/
def orbS1r6 {α : Type} [ Field α] (c s h : α) : B4 → α :=
  fun k =>
    match k with
    | (false, false, true, true) => 4 * c^3 * s + -(2) * c * s
    | (false, true, true, false) => 4 * c^4 + -(4) * c^2 + 1
    | (true, false, false, true) => 4 * c^4 + -(4) * c^2
    | (true, true, false, false) => -(4) * c^3 * s + 2 * c * s
    | _ => 0

/-- Row of an intermediate matrix of the `orb` chain. -/
def orbS1r7 {α : Type} [ Field α] (c s h : α) : B4 → α :=
  fun k =>
    match k with
    | (false, true, true, true) => 2 * c^2 + -(1)
    | (true, true, false, true) => -(2) * c * s
    | _ => 0

/-- Row of an intermediate matrix of the `orb` chain. -/
def orbS1r8 {α : Type} [ Field α] (c s h : α) : B4 → α :=
  fun k =>
    match k with
    | (false, false, true, false) => 2 * c * s
    | (true, false, false, false) => 2 * c^2 + -(1)
    | _ => 0

/-- Row of an intermediate matrix of the `orb` chain. -/
def orbS1r9 {α : Type} [ Field α] (c s h : α) : B4 → α :=
  fun k =>
    match k with
    | (false, false, true, true) => 4 * c^3 * s + -(2) * c * s
    | (false, true, true, false) => 4 * c^4 + -(4) * c^2
    | (true, false, false, true) => 4 * c^4 + -(4) * c^2 + 1
    | (true, true, false, false) => -(4) * c^3 * s + 2 * c * s
    | _ => 0

/-- Row of an intermediate matrix of the `orb` chain. -/
def orbS1r10 {α : Type} [ Field α] (c s h : α) : B4 → α :=
  fun k =>
    match k with
    | (true, false, true, false) => 1
    | _ => 0

/-- Row of an intermediate matrix of the `orb` chain. -/
def orbS1r11 {α : Type} [ Field α] (c s h : α) : B4 → α :=
  fun k =>
    match k with
    | (true, false, true, true) => 2 * c^2 + -(1)
    | (true, true, true, false) => -(2) * c * s
    | _ => 0

/-- Row of an intermediate matrix of the `orb` chain. -/
def orbS1r12 {α : Type} [ Field α] (c s h : α) : B4 → α :=
  fun k =>
    match k with
    | (false, false, true, true) => -(4) * c^4 + 4 * c^2
    | (false, true, true, false) => 4 * c^3 * s + -(2) * c * s
    | (true, false, false, true) => 4 * c^3 * s + -(2) * c * s
    | (true, true, false, false) => 4 * c^4 + -(4) * c^2 + 1
    | _ => 0

/-- Row of an intermediate matrix of the `orb` chain. -/
def orbS1r13 {α : Type} [ Field α] (c s h : α) : B4 → α :=
  fun k =>
    match k with
    | (false, true, true, true) => 2 * c * s
    | (true, true, false, true) => 2 * c^2 + -(1)
    | _ => 0

/-- Row of an intermediate matrix of the `orb` chain. -/
def orbS1r14 {α : Type} [ Field α] (c s h : α) : B4 → α :=
  fun k =>
    match k with
    | (true, false, true, true) => 2 * c * s
    | (true, true, true, false) => 2 * c^2 + -(1)
    | _ => 0

/-- Row of an intermediate matrix of the `orb` chain. -/
def orbS1r15 {α : Type} [ Field α] (c s h : α) : B4 → α :=
  fun k =>
    match k with
    | (true, true, true, true) => 1
    | _ => 0

/-- Suffix product 1 of the `orb` decomposition chain. -/
def orbS1 {α : Type} [ Field α] (c s h : α) : Matrix B4 B4 α :=
  Matrix.of fun r =>
    match r with
    | (false, false, false, false) => orbS1r0 c s h
    | (false, false, false, true) => orbS1r1 c s h
    | (false, false, true, false) => orbS1r2 c s h
    | (false, false, true, true) => orbS1r3 c s h
    | (false, true, false, false) => orbS1r4 c s h
    | (false, true, false, true) => orbS1r5 c s h
    | (false, true, true, false) => orbS1r6 c s h
    | (false, true, true, true) => orbS1r7 c s h
    | (true, false, false, false) => orbS1r8 c s h
    | (true, false, false, true) => orbS1r9 c s h
    | (true, false, true, false) => orbS1r10 c s h
    | (true, false, true, true) => orbS1r11 c s h
    | (true, true, false, false) => orbS1r12 c s h
    | (true, true, false, true) => orbS1r13 c s h
    | (true, true, true, false) => orbS1r14 c s h
    | (true, true, true, true) => orbS1r15 c s h

/-!
Application rules: multiplying a lifted gate onto a matrix from the left
rewrites each row as a combination of at most two rows of the matrix.
-/

/-- Row action of `CNOT` on wires `(2, 3)` of the four-wire register. -/
theorem cnotRule_2_3 {α : Type} [ Field α] (M : Matrix B4 B4 α) :
    lift2 2 3 cnotG * M = Matrix.of fun r k => M (r.1, r.2.1, r.2.2.1, xor r.2.2.1 r.2.2.2) k := by
  ext r k
  obtain ⟨x1, x2, x3, x4⟩ := r
  simp only [Matrix.mul_apply, lift2, cnotG, getB4, setB4, Matrix.of_apply,
    Fintype.sum_prod_type, Fintype.sum_bool]
  cases x1 <;> cases x2 <;> cases x3 <;> cases x4 <;> simp

/-- Row action of `CNOT` on wires `(0, 2)` of the four-wire register. -/
theorem cnotRule_0_2 {α : Type} [ Field α] (M : Matrix B4 B4 α) :
    lift2 0 2 cnotG * M = Matrix.of fun r k => M (r.1, r.2.1, xor r.1 r.2.2.1, r.2.2.2) k := by
  ext r k
  obtain ⟨x1, x2, x3, x4⟩ := r
  simp only [Matrix.mul_apply, lift2, cnotG, getB4, setB4, Matrix.of_apply,
    Fintype.sum_prod_type, Fintype.sum_bool]
  cases x1 <;> cases x2 <;> cases x3 <;> cases x4 <;> simp

/-- Row action of `CNOT` on wires `(0, 1)` of the four-wire register. -/
theorem cnotRule_0_1 {α : Type} [ Field α] (M : Matrix B4 B4 α) :
    lift2 0 1 cnotG * M = Matrix.of fun r k => M (r.1, xor r.1 r.2.1, r.2.2.1, r.2.2.2) k := by
  ext r k
  obtain ⟨x1, x2, x3, x4⟩ := r
  simp only [Matrix.mul_apply, lift2, cnotG, getB4, setB4, Matrix.of_apply,
    Fintype.sum_prod_type, Fintype.sum_bool]
  cases x1 <;> cases x2 <;> cases x3 <;> cases x4 <;> simp

/-- Row action of `CNOT` on wires `(0, 3)` of the four-wire register. -/
theorem cnotRule_0_3 {α : Type} [ Field α] (M : Matrix B4 B4 α) :
    lift2 0 3 cnotG * M = Matrix.of fun r k => M (r.1, r.2.1, r.2.2.1, xor r.1 r.2.2.2) k := by
  ext r k
  obtain ⟨x1, x2, x3, x4⟩ := r
  simp only [Matrix.mul_apply, lift2, cnotG, getB4, setB4, Matrix.of_apply,
    Fintype.sum_prod_type, Fintype.sum_bool]
  cases x1 <;> cases x2 <;> cases x3 <;> cases x4 <;> simp

/-- Row action of `CNOT` on wires `(3, 1)` of the four-wire register. -/
theorem cnotRule_3_1 {α : Type} [ Field α] (M : Matrix B4 B4 α) :
    lift2 3 1 cnotG * M = Matrix.of fun r k => M (r.1, xor r.2.2.2 r.2.1, r.2.2.1, r.2.2.2) k := by
  ext r k
  obtain ⟨x1, x2, x3, x4⟩ := r
  simp only [Matrix.mul_apply, lift2, cnotG, getB4, setB4, Matrix.of_apply,
    Fintype.sum_prod_type, Fintype.sum_bool]
  cases x1 <;> cases x2 <;> cases x3 <;> cases x4 <;> simp

/-- Row action of `CNOT` on wires `(2, 1)` of the four-wire register. -/
theorem cnotRule_2_1 {α : Type} [ Field α] (M : Matrix B4 B4 α) :
    lift2 2 1 cnotG * M = Matrix.of fun r k => M (r.1, xor r.2.2.1 r.2.1, r.2.2.1, r.2.2.2) k := by
  ext r k
  obtain ⟨x1, x2, x3, x4⟩ := r
  simp only [Matrix.mul_apply, lift2, cnotG, getB4, setB4, Matrix.of_apply,
    Fintype.sum_prod_type, Fintype.sum_bool]
  cases x1 <;> cases x2 <;> cases x3 <;> cases x4 <;> simp

/-- Row action of `CNOT` on wires `(2, 0)` of the four-wire register. -/
theorem cnotRule_2_0 {α : Type} [ Field α] (M : Matrix B4 B4 α) :
    lift2 2 0 cnotG * M = Matrix.of fun r k => M (xor r.2.2.1 r.1, r.2.1, r.2.2.1, r.2.2.2) k := by
  ext r k
  obtain ⟨x1, x2, x3, x4⟩ := r
  simp only [Matrix.mul_apply, lift2, cnotG, getB4, setB4, Matrix.of_apply,
    Fintype.sum_prod_type, Fintype.sum_bool]
  cases x1 <;> cases x2 <;> cases x3 <;> cases x4 <;> simp

/-- Row action of the `Hadamard` gate on wire `0` of the four-wire
register. -/
theorem hRule_0 {α : Type} [ Field α] (h : α) (M : Matrix B4 B4 α) :
    lift1 0 (hG h) * M =
      Matrix.of fun r k =>
        match r with
        | (true, x2, x3, x4) => -h * M (true, x2, x3, x4) k + h * M (false, x2, x3, x4) k
        | (false, x2, x3, x4) => h * M (true, x2, x3, x4) k + h * M (false, x2, x3, x4) k := by
  ext r k
  obtain ⟨x1, x2, x3, x4⟩ := r
  simp only [Matrix.mul_apply, lift1, hG, getB4, setB4, Matrix.of_apply,
    Fintype.sum_prod_type, Fintype.sum_bool]
  cases x1 <;> cases x2 <;> cases x3 <;> cases x4 <;> simp

/-- Row action of the `Hadamard` gate on wire `2` of the four-wire
register. -/
theorem hRule_2 {α : Type} [ Field α] (h : α) (M : Matrix B4 B4 α) :
    lift1 2 (hG h) * M =
      Matrix.of fun r k =>
        match r with
        | (x1, x2, true, x4) => -h * M (x1, x2, true, x4) k + h * M (x1, x2, false, x4) k
        | (x1, x2, false, x4) => h * M (x1, x2, true, x4) k + h * M (x1, x2, false, x4) k := by
  ext r k
  obtain ⟨x1, x2, x3, x4⟩ := r
  simp only [Matrix.mul_apply, lift1, hG, getB4, setB4, Matrix.of_apply,
    Fintype.sum_prod_type, Fintype.sum_bool]
  cases x1 <;> cases x2 <;> cases x3 <;> cases x4 <;> simp

/-- Row action of the `Hadamard` gate on wire `3` of the four-wire
register. -/
theorem hRule_3 {α : Type} [ Field α] (h : α) (M : Matrix B4 B4 α) :
    lift1 3 (hG h) * M =
      Matrix.of fun r k =>
        match r with
        | (x1, x2, x3, true) => -h * M (x1, x2, x3, true) k + h * M (x1, x2, x3, false) k
        | (x1, x2, x3, false) => h * M (x1, x2, x3, true) k + h * M (x1, x2, x3, false) k := by
  ext r k
  obtain ⟨x1, x2, x3, x4⟩ := r
  simp only [Matrix.mul_apply, lift1, hG, getB4, setB4, Matrix.of_apply,
    Fintype.sum_prod_type, Fintype.sum_bool]
  cases x1 <;> cases x2 <;> cases x3 <;> cases x4 <;> simp

/-- Row action of the `RY` rotation block on wire `0` of the four-wire
register. -/
theorem ryRule_0 {α : Type} [ Field α] (c s : α) (M : Matrix B4 B4 α) :
    lift1 0 (ryG c s) * M =
      Matrix.of fun r k =>
        match r with
        | (true, x2, x3, x4) => c * M (true, x2, x3, x4) k + s * M (false, x2, x3, x4) k
        | (false, x2, x3, x4) => -s * M (true, x2, x3, x4) k + c * M (false, x2, x3, x4) k := by
  ext r k
  obtain ⟨x1, x2, x3, x4⟩ := r
  simp only [Matrix.mul_apply, lift1, ryG, getB4, setB4, Matrix.of_apply,
    Fintype.sum_prod_type, Fintype.sum_bool]
  cases x1 <;> cases x2 <;> cases x3 <;> cases x4 <;> simp

/-- Row action of the `RY` rotation block on wire `1` of the four-wire
register. -/
theorem ryRule_1 {α : Type} [ Field α] (c s : α) (M : Matrix B4 B4 α) :
    lift1 1 (ryG c s) * M =
      Matrix.of fun r k =>
        match r with
        | (x1, true, x3, x4) => c * M (x1, true, x3, x4) k + s * M (x1, false, x3, x4) k
        | (x1, false, x3, x4) => -s * M (x1, true, x3, x4) k + c * M (x1, false, x3, x4) k := by
  ext r k
  obtain ⟨x1, x2, x3, x4⟩ := r
  simp only [Matrix.mul_apply, lift1, ryG, getB4, setB4, Matrix.of_apply,
    Fintype.sum_prod_type, Fintype.sum_bool]
  cases x1 <;> cases x2 <;> cases x3 <;> cases x4 <;> simp

/-- Row action of the `RY` rotation block on wire `2` of the four-wire
register. -/
theorem ryRule_2 {α : Type} [ Field α] (c s : α) (M : Matrix B4 B4 α) :
    lift1 2 (ryG c s) * M =
      Matrix.of fun r k =>
        match r with
        | (x1, x2, true, x4) => c * M (x1, x2, true, x4) k + s * M (x1, x2, false, x4) k
        | (x1, x2, false, x4) => -s * M (x1, x2, true, x4) k + c * M (x1, x2, false, x4) k := by
  ext r k
  obtain ⟨x1, x2, x3, x4⟩ := r
  simp only [Matrix.mul_apply, lift1, ryG, getB4, setB4, Matrix.of_apply,
    Fintype.sum_prod_type, Fintype.sum_bool]
  cases x1 <;> cases x2 <;> cases x3 <;> cases x4 <;> simp

/-- Row action of the `RY` rotation block on wire `3` of the four-wire
register. -/
theorem ryRule_3 {α : Type} [ Field α] (c s : α) (M : Matrix B4 B4 α) :
    lift1 3 (ryG c s) * M =
      Matrix.of fun r k =>
        match r with
        | (x1, x2, x3, true) => c * M (x1, x2, x3, true) k + s * M (x1, x2, x3, false) k
        | (x1, x2, x3, false) => -s * M (x1, x2, x3, true) k + c * M (x1, x2, x3, false) k := by
  ext r k
  obtain ⟨x1, x2, x3, x4⟩ := r
  simp only [Matrix.mul_apply, lift1, ryG, getB4, setB4, Matrix.of_apply,
    Fintype.sum_prod_type, Fintype.sum_bool]
  cases x1 <;> cases x2 <;> cases x3 <;> cases x4 <;> simp

/-- Row action of `PauliX` on wire `0` of the two-wire register. -/
theorem xRule_0 {α : Type} [ Field α] (M : Matrix B2 B2 α) :
    lift1b2 0 xG * M = Matrix.of fun r k => M (!r.1, r.2) k := by
  ext r k
  obtain ⟨x1, x2⟩ := r
  simp only [Matrix.mul_apply, lift1b2, xG, getB2, setB2, Matrix.of_apply,
    Fintype.sum_prod_type, Fintype.sum_bool]
  cases x1 <;> cases x2 <;> simp

/-- Row action of `PauliX` on wire `1` of the two-wire register. -/
theorem xRule_1 {α : Type} [ Field α] (M : Matrix B2 B2 α) :
    lift1b2 1 xG * M = Matrix.of fun r k => M (r.1, !r.2) k := by
  ext r k
  obtain ⟨x1, x2⟩ := r
  simp only [Matrix.mul_apply, lift1b2, xG, getB2, setB2, Matrix.of_apply,
    Fintype.sum_prod_type, Fintype.sum_bool]
  cases x1 <;> cases x2 <;> simp

/-- Row action of `CNOT` on wires `(0, 1)` of the two-wire register. -/
theorem cnotRuleB2_0_1 {α : Type} [ Field α] (M : Matrix B2 B2 α) :
    lift2b2 0 1 cnotG * M = Matrix.of fun r k => M (r.1, xor r.1 r.2) k := by
  ext r k
  obtain ⟨x1, x2⟩ := r
  simp only [Matrix.mul_apply, lift2b2, cnotG, getB2, setB2, Matrix.of_apply,
    Fintype.sum_prod_type, Fintype.sum_bool]
  cases x1 <;> cases x2 <;> simp

/-- Row action of `CRY` with control wire `1` and target wire `0` of the
two-wire register. -/
theorem cryRuleB2_1_0 {α : Type} [ Field α] (c s : α) (M : Matrix B2 B2 α) :
    lift2b2 1 0 (cryG c s) * M =
      Matrix.of fun r k =>
        match r with
        | (false, false) => M (false, false) k
        | (true, false) => M (true, false) k
        | (false, true) => -s * M (true, true) k + c * M (false, true) k
        | (true, true) => c * M (true, true) k + s * M (false, true) k := by
  ext r k
  obtain ⟨x1, x2⟩ := r
  simp only [Matrix.mul_apply, lift2b2, cryG, ryG, getB2, setB2,
    Matrix.of_apply, Fintype.sum_prod_type, Fintype.sum_bool]
  cases x1 <;> cases x2 <;> simp

/-- Row action of `ControlledPhaseShift` on wires `(1, 0)` of the two-wire
register. -/
theorem cpsRuleB2_1_0 {α : Type} [ Field α] (e : α) (M : Matrix B2 B2 α) :
    lift2b2 1 0 (cpsG e) * M =
      Matrix.of fun r k =>
        match r with
        | (true, true) => e * M (true, true) k
        | (a, b) => M (a, b) k := by
  ext r k
  obtain ⟨x1, x2⟩ := r
  simp only [Matrix.mul_apply, lift2b2, cpsG, getB2, setB2, Matrix.of_apply,
    Fintype.sum_prod_type, Fintype.sum_bool]
  cases x1 <;> cases x2 <;> simp

/-- Row action of `ControlledPhaseShift` on wires `(0, 1)` of the two-wire
register. -/
theorem cpsRuleB2_0_1 {α : Type} [ Field α] (e : α) (M : Matrix B2 B2 α) :
    lift2b2 0 1 (cpsG e) * M =
      Matrix.of fun r k =>
        match r with
        | (true, true) => e * M (true, true) k
        | (a, b) => M (a, b) k := by
  ext r k
  obtain ⟨x1, x2⟩ := r
  simp only [Matrix.mul_apply, lift2b2, cpsG, getB2, setB2, Matrix.of_apply,
    Fintype.sum_prod_type, Fintype.sum_bool]
  cases x1 <;> cases x2 <;> simp

/-!
Theorems.
-/

/-- Conjugate-transposing the phase-decorated single-excitation body negates
`s` and conjugates the corner phase. -/
theorem sePhaseMatCS_conj (c s : ℝ) (e : ℂ) :
    sePhaseMatCS ((c : ℝ) : ℂ) (-((s : ℝ) : ℂ)) (star e) =
      (sePhaseMatCS ((c : ℝ) : ℂ) ((s : ℝ) : ℂ) e)ᴴ := by
  ext r k
  obtain ⟨a, b⟩ := r
  obtain ⟨a2, b2⟩ := k
  cases a <;> cases b <;> cases a2 <;> cases b2 <;>
    simp [sePhaseMatCS, Matrix.conjTranspose_apply, Complex.conj_ofReal]

/-- Corner phase of the minus kind at `-phi` is the conjugate of the one at
`phi`. -/
theorem expCornerMinus_neg (phi : ℝ) :
    Complex.exp (-Complex.I * ((-phi : ℝ) : ℂ) / 2) =
      star (Complex.exp (-Complex.I * (phi : ℂ) / 2)) := by
  rw [Complex.star_def, ← Complex.exp_conj]
  congr 1
  simp [map_div₀, Complex.conj_I, Complex.conj_ofReal, Complex.ofReal_neg, map_ofNat]

/-- Corner phase of the plus kind at `-phi` is the conjugate of the one at
`phi`. -/
theorem expCornerPlus_neg (phi : ℝ) :
    Complex.exp (Complex.I * ((-phi : ℝ) : ℂ) / 2) =
      star (Complex.exp (Complex.I * (phi : ℂ) / 2)) := by
  rw [Complex.star_def, ← Complex.exp_conj]
  congr 1
  simp [map_div₀, Complex.conj_I, Complex.conj_ofReal, Complex.ofReal_neg, map_ofNat]

/-- Negating the parameter of `SingleExcitation` conjugate-transposes its
matrix. -/
theorem singleExcitationMatrix_neg (phi : ℝ) :
    singleExcitationMatrix (-phi) = (singleExcitationMatrix phi)ᴴ := by
  unfold singleExcitationMatrix
  rw [neg_div, Real.cos_neg, Real.sin_neg]
  ext r k
  obtain ⟨a, b⟩ := r
  obtain ⟨a2, b2⟩ := k
  cases a <;> cases b <;> cases a2 <;> cases b2 <;>
    simp [seMatCS, Matrix.conjTranspose_apply]

/-- Negating the parameter of `SingleExcitationMinus` conjugate-transposes
its matrix. -/
theorem singleExcitationMinusMatrix_neg (phi : ℝ) :
    singleExcitationMinusMatrix (-phi) = (singleExcitationMinusMatrix phi)ᴴ := by
  unfold singleExcitationMinusMatrix
  rw [neg_div, Real.cos_neg, Real.sin_neg, expCornerMinus_neg, Complex.ofReal_neg]
  exact sePhaseMatCS_conj _ _ _

/-- Negating the parameter of `SingleExcitationPlus` conjugate-transposes
its matrix. -/
theorem singleExcitationPlusMatrix_neg (phi : ℝ) :
    singleExcitationPlusMatrix (-phi) = (singleExcitationPlusMatrix phi)ᴴ := by
  unfold singleExcitationPlusMatrix
  rw [neg_div, Real.cos_neg, Real.sin_neg, expCornerPlus_neg, Complex.ofReal_neg]
  exact sePhaseMatCS_conj _ _ _

set_option maxHeartbeats 1000000 in
/-- Conjugate-transposing the phase-decorated double-excitation body negates
`s` and conjugates the off-subspace phase. -/
theorem dePhaseMatCS_conj (c s : ℝ) (e : ℂ) :
    dePhaseMatCS ((c : ℝ) : ℂ) (-((s : ℝ) : ℂ)) (star e) =
      (dePhaseMatCS ((c : ℝ) : ℂ) ((s : ℝ) : ℂ) e)ᴴ := by
  ext r k
  obtain ⟨a, b, d, f⟩ := r
  obtain ⟨a2, b2, d2, f2⟩ := k
  simp only [dePhaseMatCS, Matrix.conjTranspose_apply, Matrix.of_apply]
  cases a <;> cases b <;> cases d <;> cases f <;>
    cases a2 <;> cases b2 <;> cases d2 <;> cases f2 <;>
    simp [Complex.conj_ofReal]

set_option maxHeartbeats 1000000 in
/-- Negating the parameter of `DoubleExcitation` conjugate-transposes its
matrix. -/
theorem doubleExcitationMatrix_neg (phi : ℝ) :
    doubleExcitationMatrix (-phi) = (doubleExcitationMatrix phi)ᴴ := by
  unfold doubleExcitationMatrix
  rw [neg_div, Real.cos_neg, Real.sin_neg]
  ext r k
  obtain ⟨a, b, d, f⟩ := r
  obtain ⟨a2, b2, d2, f2⟩ := k
  simp only [deMatCS, Matrix.conjTranspose_apply, Matrix.of_apply]
  cases a <;> cases b <;> cases d <;> cases f <;>
    cases a2 <;> cases b2 <;> cases d2 <;> cases f2 <;>
    simp

/-- Negating the parameter of `DoubleExcitationPlus` conjugate-transposes
its matrix. -/
theorem doubleExcitationPlusMatrix_neg (phi : ℝ) :
    doubleExcitationPlusMatrix (-phi) = (doubleExcitationPlusMatrix phi)ᴴ := by
  unfold doubleExcitationPlusMatrix
  rw [neg_div, Real.cos_neg, Real.sin_neg, expCornerPlus_neg, Complex.ofReal_neg]
  exact dePhaseMatCS_conj _ _ _

/-- Negating the parameter of `DoubleExcitationMinus` conjugate-transposes
its matrix. -/
theorem doubleExcitationMinusMatrix_neg (phi : ℝ) :
    doubleExcitationMinusMatrix (-phi) = (doubleExcitationMinusMatrix phi)ᴴ := by
  unfold doubleExcitationMinusMatrix
  rw [neg_div, Real.cos_neg, Real.sin_neg, expCornerMinus_neg, Complex.ofReal_neg]
  exact dePhaseMatCS_conj _ _ _

set_option maxHeartbeats 1000000 in
/-- Negating the parameter of `OrbitalRotation` conjugate-transposes its
matrix. -/
theorem orbitalRotationMatrix_neg (phi : ℝ) :
    orbitalRotationMatrix (-phi) = (orbitalRotationMatrix phi)ᴴ := by
  unfold orbitalRotationMatrix
  rw [neg_div, Real.cos_neg, Real.sin_neg]
  ext r k
  obtain ⟨a, b, d, f⟩ := r
  obtain ⟨a2, b2, d2, f2⟩ := k
  simp only [orbMatCS, Matrix.conjTranspose_apply, Matrix.of_apply]
  cases a <;> cases b <;> cases d <;> cases f <;>
    cases a2 <;> cases b2 <;> cases d2 <;> cases f2 <;>
    simp

/-- The square of `INV_SQRT2` is one half. -/
theorem invSqrt2_sq : INV_SQRT2 ^ 2 = (1 : ℝ) / 2 := by
  rw [INV_SQRT2, div_pow, one_pow, Real.sq_sqrt (by norm_num : (0 : ℝ) ≤ 2)]
set_option maxHeartbeats 2000000 in
/-- The innermost factor of the `seq` chain. -/
theorem seqBase {α : Type} [ Field α] [ CharZero α] (c s : α) :
    lift2b2 0 1 cnotG * 1 = seqS3 c s := by
  rw [mul_one]
  ext r k
  obtain ⟨x1, x2⟩ := r
  obtain ⟨y1, y2⟩ := k
  simp only [lift2b2, cnotG, getB2, setB2, seqS3, Matrix.of_apply]
  cases x1 <;> cases x2 <;> cases y1 <;> cases y2 <;> simp [seqS3r0, seqS3r1, seqS3r2, seqS3r3]

set_option maxHeartbeats 4000000 in
/-- Chain step 2 of `seq`. -/
theorem seqStep2 {α : Type} [ Field α] [ CharZero α] (c s : α) :
    lift2b2 1 0 (cryG c s) * seqS3 c s = seqS2 c s := by
  rw [cryRuleB2_1_0]
  ext r k
  obtain ⟨x1, x2⟩ := r
  simp only [seqS3, seqS2, Matrix.of_apply]
  obtain ⟨y1, y2⟩ := k
  cases x1 <;> cases x2 <;> cases y1 <;> cases y2
  · rfl
  · rfl
  · rfl
  · rfl
  · simp only [seqS3r1, seqS3r3, seqS2r1] <;> ring1
  · simp only [seqS3r1, seqS3r3, seqS2r1] <;> ring1
  · simp only [seqS3r1, seqS3r3, seqS2r1] <;> ring1
  · simp only [seqS3r1, seqS3r3, seqS2r1] <;> ring1
  · rfl
  · rfl
  · rfl
  · rfl
  · simp only [seqS3r1, seqS3r3, seqS2r3] <;> ring1
  · simp only [seqS3r1, seqS3r3, seqS2r3] <;> ring1
  · simp only [seqS3r1, seqS3r3, seqS2r3] <;> ring1
  · simp only [seqS3r1, seqS3r3, seqS2r3] <;> ring1

set_option maxHeartbeats 4000000 in
/-- Chain step 1 of `seq`. -/
theorem seqStep1 {α : Type} [ Field α] [ CharZero α] (c s : α) :
    lift2b2 0 1 cnotG * seqS2 c s = seqS1 c s := by
  rw [cnotRuleB2_0_1]
  ext r k
  obtain ⟨x1, x2⟩ := r
  simp only [seqS2, seqS1, Matrix.of_apply]
  cases x1 <;> cases x2 <;> rfl

set_option maxHeartbeats 2000000 in
/-- The innermost factor of the `sm` chain. -/
theorem smBase {α : Type} [ Field α] [ CharZero α] (cc sc e : α) :
    lift2b2 0 1 cnotG * 1 = smS9 cc sc e := by
  rw [mul_one]
  ext r k
  obtain ⟨x1, x2⟩ := r
  obtain ⟨y1, y2⟩ := k
  simp only [lift2b2, cnotG, getB2, setB2, smS9, Matrix.of_apply]
  cases x1 <;> cases x2 <;> cases y1 <;> cases y2 <;> simp [smS9r0, smS9r1, smS9r2, smS9r3]

set_option maxHeartbeats 4000000 in
/-- Chain step 8 of `sm`. -/
theorem smStep8 {α : Type} [ Field α] [ CharZero α] (cc sc e : α) :
    lift2b2 1 0 (cryG cc sc) * smS9 cc sc e = smS8 cc sc e := by
  rw [cryRuleB2_1_0]
  ext r k
  obtain ⟨x1, x2⟩ := r
  simp only [smS9, smS8, Matrix.of_apply]
  obtain ⟨y1, y2⟩ := k
  cases x1 <;> cases x2 <;> cases y1 <;> cases y2
  · rfl
  · rfl
  · rfl
  · rfl
  · simp only [smS9r1, smS9r3, smS8r1] <;> ring1
  · simp only [smS9r1, smS9r3, smS8r1] <;> ring1
  · simp only [smS9r1, smS9r3, smS8r1] <;> ring1
  · simp only [smS9r1, smS9r3, smS8r1] <;> ring1
  · rfl
  · rfl
  · rfl
  · rfl
  · simp only [smS9r1, smS9r3, smS8r3] <;> ring1
  · simp only [smS9r1, smS9r3, smS8r3] <;> ring1
  · simp only [smS9r1, smS9r3, smS8r3] <;> ring1
  · simp only [smS9r1, smS9r3, smS8r3] <;> ring1

set_option maxHeartbeats 4000000 in
/-- Chain step 7 of `sm`. -/
theorem smStep7 {α : Type} [ Field α] [ CharZero α] (cc sc e : α) :
    lift2b2 0 1 cnotG * smS8 cc sc e = smS7 cc sc e := by
  rw [cnotRuleB2_0_1]
  ext r k
  obtain ⟨x1, x2⟩ := r
  simp only [smS8, smS7, Matrix.of_apply]
  cases x1 <;> cases x2 <;> rfl

set_option maxHeartbeats 4000000 in
/-- Chain step 6 of `sm`. -/
theorem smStep6 {α : Type} [ Field α] [ CharZero α] (cc sc e : α) :
    lift2b2 0 1 (cpsG e) * smS7 cc sc e = smS6 cc sc e := by
  rw [cpsRuleB2_0_1]
  ext r k
  obtain ⟨x1, x2⟩ := r
  simp only [smS7, smS6, Matrix.of_apply]
  obtain ⟨y1, y2⟩ := k
  cases x1 <;> cases x2 <;> cases y1 <;> cases y2
  · rfl
  · rfl
  · rfl
  · rfl
  · rfl
  · rfl
  · rfl
  · rfl
  · rfl
  · rfl
  · rfl
  · rfl
  · simp only [smS9r2, smS6r3] <;> ring1
  · simp only [smS9r2, smS6r3] <;> ring1
  · simp only [smS9r2, smS6r3] <;> ring1
  · simp only [smS9r2, smS6r3] <;> ring1

set_option maxHeartbeats 4000000 in
/-- Chain step 5 of `sm`. -/
theorem smStep5 {α : Type} [ Field α] [ CharZero α] (cc sc e : α) :
    lift1b2 1 xG * smS6 cc sc e = smS5 cc sc e := by
  rw [xRule_1]
  ext r k
  obtain ⟨x1, x2⟩ := r
  simp only [smS6, smS5, Matrix.of_apply]
  cases x1 <;> cases x2 <;> rfl

set_option maxHeartbeats 4000000 in
/-- Chain step 4 of `sm`. -/
theorem smStep4 {α : Type} [ Field α] [ CharZero α] (cc sc e : α) :
    lift1b2 0 xG * smS5 cc sc e = smS4 cc sc e := by
  rw [xRule_0]
  ext r k
  obtain ⟨x1, x2⟩ := r
  simp only [smS5, smS4, Matrix.of_apply]
  cases x1 <;> cases x2 <;> rfl

set_option maxHeartbeats 4000000 in
/-- Chain step 3 of `sm`. -/
theorem smStep3 {α : Type} [ Field α] [ CharZero α] (cc sc e : α) :
    lift2b2 1 0 (cpsG e) * smS4 cc sc e = smS3 cc sc e := by
  rw [cpsRuleB2_1_0]
  ext r k
  obtain ⟨x1, x2⟩ := r
  simp only [smS4, smS3, Matrix.of_apply]
  obtain ⟨y1, y2⟩ := k
  cases x1 <;> cases x2 <;> cases y1 <;> cases y2
  · rfl
  · rfl
  · rfl
  · rfl
  · rfl
  · rfl
  · rfl
  · rfl
  · rfl
  · rfl
  · rfl
  · rfl
  · simp only [smS9r0, smS3r3] <;> ring1
  · simp only [smS9r0, smS3r3] <;> ring1
  · simp only [smS9r0, smS3r3] <;> ring1
  · simp only [smS9r0, smS3r3] <;> ring1

set_option maxHeartbeats 4000000 in
/-- Chain step 2 of `sm`. -/
theorem smStep2 {α : Type} [ Field α] [ CharZero α] (cc sc e : α) :
    lift1b2 1 xG * smS3 cc sc e = smS2 cc sc e := by
  rw [xRule_1]
  ext r k
  obtain ⟨x1, x2⟩ := r
  simp only [smS3, smS2, Matrix.of_apply]
  cases x1 <;> cases x2 <;> rfl

set_option maxHeartbeats 4000000 in
/-- Chain step 1 of `sm`. -/
theorem smStep1 {α : Type} [ Field α] [ CharZero α] (cc sc e : α) :
    lift1b2 0 xG * smS2 cc sc e = smS1 cc sc e := by
  rw [xRule_0]
  ext r k
  obtain ⟨x1, x2⟩ := r
  simp only [smS2, smS1, Matrix.of_apply]
  cases x1 <;> cases x2 <;> rfl

set_option maxHeartbeats 2000000 in
/-- The innermost factor of the `de` chain. -/
theorem deBase {α : Type} [ Field α] [ CharZero α] (c s h : α) :
    lift2 2 3 cnotG * 1 = deS28 c s h := by
  rw [mul_one]
  ext r k
  obtain ⟨x1, x2, x3, x4⟩ := r
  obtain ⟨y1, y2, y3, y4⟩ := k
  simp only [lift2, cnotG, getB4, setB4, deS28, Matrix.of_apply]
  cases x1 <;> cases x2 <;> cases x3 <;> cases x4 <;>
    cases y1 <;> cases y2 <;> cases y3 <;> cases y4 <;> simp [deS28r0, deS28r1, deS28r10, deS28r11, deS28r12, deS28r13, deS28r14, deS28r15, deS28r2, deS28r3, deS28r4, deS28r5, deS28r6, deS28r7, deS28r8, deS28r9]

set_option maxHeartbeats 4000000 in
/-- Chain step 27 of `de`. -/
theorem deStep27 {α : Type} [ Field α] [ CharZero α] (c s h : α) (hs : s ^ 2 = 1 - c ^ 2) (hh : h ^ 2 = 1 / 2) :
    lift2 0 2 cnotG * deS28 c s h = deS27 c s h := by
  rw [cnotRule_0_2]
  ext r k
  obtain ⟨x1, x2, x3, x4⟩ := r
  simp only [deS28, deS27, Matrix.of_apply]
  cases x1 <;> cases x2 <;> cases x3 <;> cases x4 <;> rfl

set_option maxHeartbeats 4000000 in
/-- Chain step 26 of `de`. -/
theorem deStep26 {α : Type} [ Field α] [ CharZero α] (c s h : α) (hs : s ^ 2 = 1 - c ^ 2) (hh : h ^ 2 = 1 / 2) :
    lift1 3 (hG h) * deS27 c s h = deS26 c s h := by
  rw [hRule_3]
  ext r k
  obtain ⟨x1, x2, x3, x4⟩ := r
  simp only [deS27, deS26, Matrix.of_apply]
  obtain ⟨y1, y2, y3, y4⟩ := k
  cases x1 <;> cases x2 <;> cases x3 <;> cases x4 <;>
    cases y1 <;> cases y2 <;> cases y3 <;> cases y4
  · simp only [deS28r0, deS28r1, deS26r0] <;> ring1
  · simp only [deS28r0, deS28r1, deS26r0] <;> ring1
  · simp only [deS28r0, deS28r1, deS26r0] <;> ring1
  · simp only [deS28r0, deS28r1, deS26r0] <;> ring1
  · simp only [deS28r0, deS28r1, deS26r0] <;> ring1
  · simp only [deS28r0, deS28r1, deS26r0] <;> ring1
  · simp only [deS28r0, deS28r1, deS26r0] <;> ring1
  · simp only [deS28r0, deS28r1, deS26r0] <;> ring1
  · simp only [deS28r0, deS28r1, deS26r0] <;> ring1
  · simp only [deS28r0, deS28r1, deS26r0] <;> ring1
  · simp only [deS28r0, deS28r1, deS26r0] <;> ring1
  · simp only [deS28r0, deS28r1, deS26r0] <;> ring1
  · simp only [deS28r0, deS28r1, deS26r0] <;> ring1
  · simp only [deS28r0, deS28r1, deS26r0] <;> ring1
  · simp only [deS28r0, deS28r1, deS26r0] <;> ring1
  · simp only [deS28r0, deS28r1, deS26r0] <;> ring1
  · simp only [deS28r0, deS28r1, deS26r1] <;> ring1
  · simp only [deS28r0, deS28r1, deS26r1] <;> ring1
  · simp only [deS28r0, deS28r1, deS26r1] <;> ring1
  · simp only [deS28r0, deS28r1, deS26r1] <;> ring1
  · simp only [deS28r0, deS28r1, deS26r1] <;> ring1
  · simp only [deS28r0, deS28r1, deS26r1] <;> ring1
  · simp only [deS28r0, deS28r1, deS26r1] <;> ring1
  · simp only [deS28r0, deS28r1, deS26r1] <;> ring1
  · simp only [deS28r0, deS28r1, deS26r1] <;> ring1
  · simp only [deS28r0, deS28r1, deS26r1] <;> ring1
  · simp only [deS28r0, deS28r1, deS26r1] <;> ring1
  · simp only [deS28r0, deS28r1, deS26r1] <;> ring1
  · simp only [deS28r0, deS28r1, deS26r1] <;> ring1
  · simp only [deS28r0, deS28r1, deS26r1] <;> ring1
  · simp only [deS28r0, deS28r1, deS26r1] <;> ring1
  · simp only [deS28r0, deS28r1, deS26r1] <;> ring1
  · simp only [deS28r2, deS28r3, deS26r2] <;> ring1
  · simp only [deS28r2, deS28r3, deS26r2] <;> ring1
  · simp only [deS28r2, deS28r3, deS26r2] <;> ring1
  · simp only [deS28r2, deS28r3, deS26r2] <;> ring1
  · simp only [deS28r2, deS28r3, deS26r2] <;> ring1
  · simp only [deS28r2, deS28r3, deS26r2] <;> ring1
  · simp only [deS28r2, deS28r3, deS26r2] <;> ring1
  · simp only [deS28r2, deS28r3, deS26r2] <;> ring1
  · simp only [deS28r2, deS28r3, deS26r2] <;> ring1
  · simp only [deS28r2, deS28r3, deS26r2] <;> ring1
  · simp only [deS28r2, deS28r3, deS26r2] <;> ring1
  · simp only [deS28r2, deS28r3, deS26r2] <;> ring1
  · simp only [deS28r2, deS28r3, deS26r2] <;> ring1
  · simp only [deS28r2, deS28r3, deS26r2] <;> ring1
  · simp only [deS28r2, deS28r3, deS26r2] <;> ring1
  · simp only [deS28r2, deS28r3, deS26r2] <;> ring1
  · simp only [deS28r2, deS28r3, deS26r3] <;> ring1
  · simp only [deS28r2, deS28r3, deS26r3] <;> ring1
  · simp only [deS28r2, deS28r3, deS26r3] <;> ring1
  · simp only [deS28r2, deS28r3, deS26r3] <;> ring1
  · simp only [deS28r2, deS28r3, deS26r3] <;> ring1
  · simp only [deS28r2, deS28r3, deS26r3] <;> ring1
  · simp only [deS28r2, deS28r3, deS26r3] <;> ring1
  · simp only [deS28r2, deS28r3, deS26r3] <;> ring1
  · simp only [deS28r2, deS28r3, deS26r3] <;> ring1
  · simp only [deS28r2, deS28r3, deS26r3] <;> ring1
  · simp only [deS28r2, deS28r3, deS26r3] <;> ring1
  · simp only [deS28r2, deS28r3, deS26r3] <;> ring1
  · simp only [deS28r2, deS28r3, deS26r3] <;> ring1
  · simp only [deS28r2, deS28r3, deS26r3] <;> ring1
  · simp only [deS28r2, deS28r3, deS26r3] <;> ring1
  · simp only [deS28r2, deS28r3, deS26r3] <;> ring1
  · simp only [deS28r4, deS28r5, deS26r4] <;> ring1
  · simp only [deS28r4, deS28r5, deS26r4] <;> ring1
  · simp only [deS28r4, deS28r5, deS26r4] <;> ring1
  · simp only [deS28r4, deS28r5, deS26r4] <;> ring1
  · simp only [deS28r4, deS28r5, deS26r4] <;> ring1
  · simp only [deS28r4, deS28r5, deS26r4] <;> ring1
  · simp only [deS28r4, deS28r5, deS26r4] <;> ring1
  · simp only [deS28r4, deS28r5, deS26r4] <;> ring1
  · simp only [deS28r4, deS28r5, deS26r4] <;> ring1
  · simp only [deS28r4, deS28r5, deS26r4] <;> ring1
  · simp only [deS28r4, deS28r5, deS26r4] <;> ring1
  · simp only [deS28r4, deS28r5, deS26r4] <;> ring1
  · simp only [deS28r4, deS28r5, deS26r4] <;> ring1
  · simp only [deS28r4, deS28r5, deS26r4] <;> ring1
  · simp only [deS28r4, deS28r5, deS26r4] <;> ring1
  · simp only [deS28r4, deS28r5, deS26r4] <;> ring1
  · simp only [deS28r4, deS28r5, deS26r5] <;> ring1
  · simp only [deS28r4, deS28r5, deS26r5] <;> ring1
  · simp only [deS28r4, deS28r5, deS26r5] <;> ring1
  · simp only [deS28r4, deS28r5, deS26r5] <;> ring1
  · simp only [deS28r4, deS28r5, deS26r5] <;> ring1
  · simp only [deS28r4, deS28r5, deS26r5] <;> ring1
  · simp only [deS28r4, deS28r5, deS26r5] <;> ring1
  · simp only [deS28r4, deS28r5, deS26r5] <;> ring1
  · simp only [deS28r4, deS28r5, deS26r5] <;> ring1
  · simp only [deS28r4, deS28r5, deS26r5] <;> ring1
  · simp only [deS28r4, deS28r5, deS26r5] <;> ring1
  · simp only [deS28r4, deS28r5, deS26r5] <;> ring1
  · simp only [deS28r4, deS28r5, deS26r5] <;> ring1
  · simp only [deS28r4, deS28r5, deS26r5] <;> ring1
  · simp only [deS28r4, deS28r5, deS26r5] <;> ring1
  · simp only [deS28r4, deS28r5, deS26r5] <;> ring1
  · simp only [deS28r6, deS28r7, deS26r6] <;> ring1
  · simp only [deS28r6, deS28r7, deS26r6] <;> ring1
  · simp only [deS28r6, deS28r7, deS26r6] <;> ring1
  · simp only [deS28r6, deS28r7, deS26r6] <;> ring1
  · simp only [deS28r6, deS28r7, deS26r6] <;> ring1
  · simp only [deS28r6, deS28r7, deS26r6] <;> ring1
  · simp only [deS28r6, deS28r7, deS26r6] <;> ring1
  · simp only [deS28r6, deS28r7, deS26r6] <;> ring1
  · simp only [deS28r6, deS28r7, deS26r6] <;> ring1
  · simp only [deS28r6, deS28r7, deS26r6] <;> ring1
  · simp only [deS28r6, deS28r7, deS26r6] <;> ring1
  · simp only [deS28r6, deS28r7, deS26r6] <;> ring1
  · simp only [deS28r6, deS28r7, deS26r6] <;> ring1
  · simp only [deS28r6, deS28r7, deS26r6] <;> ring1
  · simp only [deS28r6, deS28r7, deS26r6] <;> ring1
  · simp only [deS28r6, deS28r7, deS26r6] <;> ring1
  · simp only [deS28r6, deS28r7, deS26r7] <;> ring1
  · simp only [deS28r6, deS28r7, deS26r7] <;> ring1
  · simp only [deS28r6, deS28r7, deS26r7] <;> ring1
  · simp only [deS28r6, deS28r7, deS26r7] <;> ring1
  · simp only [deS28r6, deS28r7, deS26r7] <;> ring1
  · simp only [deS28r6, deS28r7, deS26r7] <;> ring1
  · simp only [deS28r6, deS28r7, deS26r7] <;> ring1
  · simp only [deS28r6, deS28r7, deS26r7] <;> ring1
  · simp only [deS28r6, deS28r7, deS26r7] <;> ring1
  · simp only [deS28r6, deS28r7, deS26r7] <;> ring1
  · simp only [deS28r6, deS28r7, deS26r7] <;> ring1
  · simp only [deS28r6, deS28r7, deS26r7] <;> ring1
  · simp only [deS28r6, deS28r7, deS26r7] <;> ring1
  · simp only [deS28r6, deS28r7, deS26r7] <;> ring1
  · simp only [deS28r6, deS28r7, deS26r7] <;> ring1
  · simp only [deS28r6, deS28r7, deS26r7] <;> ring1
  · simp only [deS28r10, deS28r11, deS26r8] <;> ring1
  · simp only [deS28r10, deS28r11, deS26r8] <;> ring1
  · simp only [deS28r10, deS28r11, deS26r8] <;> ring1
  · simp only [deS28r10, deS28r11, deS26r8] <;> ring1
  · simp only [deS28r10, deS28r11, deS26r8] <;> ring1
  · simp only [deS28r10, deS28r11, deS26r8] <;> ring1
  · simp only [deS28r10, deS28r11, deS26r8] <;> ring1
  · simp only [deS28r10, deS28r11, deS26r8] <;> ring1
  · simp only [deS28r10, deS28r11, deS26r8] <;> ring1
  · simp only [deS28r10, deS28r11, deS26r8] <;> ring1
  · simp only [deS28r10, deS28r11, deS26r8] <;> ring1
  · simp only [deS28r10, deS28r11, deS26r8] <;> ring1
  · simp only [deS28r10, deS28r11, deS26r8] <;> ring1
  · simp only [deS28r10, deS28r11, deS26r8] <;> ring1
  · simp only [deS28r10, deS28r11, deS26r8] <;> ring1
  · simp only [deS28r10, deS28r11, deS26r8] <;> ring1
  · simp only [deS28r10, deS28r11, deS26r9] <;> ring1
  · simp only [deS28r10, deS28r11, deS26r9] <;> ring1
  · simp only [deS28r10, deS28r11, deS26r9] <;> ring1
  · simp only [deS28r10, deS28r11, deS26r9] <;> ring1
  · simp only [deS28r10, deS28r11, deS26r9] <;> ring1
  · simp only [deS28r10, deS28r11, deS26r9] <;> ring1
  · simp only [deS28r10, deS28r11, deS26r9] <;> ring1
  · simp only [deS28r10, deS28r11, deS26r9] <;> ring1
  · simp only [deS28r10, deS28r11, deS26r9] <;> ring1
  · simp only [deS28r10, deS28r11, deS26r9] <;> ring1
  · simp only [deS28r10, deS28r11, deS26r9] <;> ring1
  · simp only [deS28r10, deS28r11, deS26r9] <;> ring1
  · simp only [deS28r10, deS28r11, deS26r9] <;> ring1
  · simp only [deS28r10, deS28r11, deS26r9] <;> ring1
  · simp only [deS28r10, deS28r11, deS26r9] <;> ring1
  · simp only [deS28r10, deS28r11, deS26r9] <;> ring1
  · simp only [deS28r8, deS28r9, deS26r10] <;> ring1
  · simp only [deS28r8, deS28r9, deS26r10] <;> ring1
  · simp only [deS28r8, deS28r9, deS26r10] <;> ring1
  · simp only [deS28r8, deS28r9, deS26r10] <;> ring1
  · simp only [deS28r8, deS28r9, deS26r10] <;> ring1
  · simp only [deS28r8, deS28r9, deS26r10] <;> ring1
  · simp only [deS28r8, deS28r9, deS26r10] <;> ring1
  · simp only [deS28r8, deS28r9, deS26r10] <;> ring1
  · simp only [deS28r8, deS28r9, deS26r10] <;> ring1
  · simp only [deS28r8, deS28r9, deS26r10] <;> ring1
  · simp only [deS28r8, deS28r9, deS26r10] <;> ring1
  · simp only [deS28r8, deS28r9, deS26r10] <;> ring1
  · simp only [deS28r8, deS28r9, deS26r10] <;> ring1
  · simp only [deS28r8, deS28r9, deS26r10] <;> ring1
  · simp only [deS28r8, deS28r9, deS26r10] <;> ring1
  · simp only [deS28r8, deS28r9, deS26r10] <;> ring1
  · simp only [deS28r8, deS28r9, deS26r11] <;> ring1
  · simp only [deS28r8, deS28r9, deS26r11] <;> ring1
  · simp only [deS28r8, deS28r9, deS26r11] <;> ring1
  · simp only [deS28r8, deS28r9, deS26r11] <;> ring1
  · simp only [deS28r8, deS28r9, deS26r11] <;> ring1
  · simp only [deS28r8, deS28r9, deS26r11] <;> ring1
  · simp only [deS28r8, deS28r9, deS26r11] <;> ring1
  · simp only [deS28r8, deS28r9, deS26r11] <;> ring1
  · simp only [deS28r8, deS28r9, deS26r11] <;> ring1
  · simp only [deS28r8, deS28r9, deS26r11] <;> ring1
  · simp only [deS28r8, deS28r9, deS26r11] <;> ring1
  · simp only [deS28r8, deS28r9, deS26r11] <;> ring1
  · simp only [deS28r8, deS28r9, deS26r11] <;> ring1
  · simp only [deS28r8, deS28r9, deS26r11] <;> ring1
  · simp only [deS28r8, deS28r9, deS26r11] <;> ring1
  · simp only [deS28r8, deS28r9, deS26r11] <;> ring1
  · simp only [deS28r14, deS28r15, deS26r12] <;> ring1
  · simp only [deS28r14, deS28r15, deS26r12] <;> ring1
  · simp only [deS28r14, deS28r15, deS26r12] <;> ring1
  · simp only [deS28r14, deS28r15, deS26r12] <;> ring1
  · simp only [deS28r14, deS28r15, deS26r12] <;> ring1
  · simp only [deS28r14, deS28r15, deS26r12] <;> ring1
  · simp only [deS28r14, deS28r15, deS26r12] <;> ring1
  · simp only [deS28r14, deS28r15, deS26r12] <;> ring1
  · simp only [deS28r14, deS28r15, deS26r12] <;> ring1
  · simp only [deS28r14, deS28r15, deS26r12] <;> ring1
  · simp only [deS28r14, deS28r15, deS26r12] <;> ring1
  · simp only [deS28r14, deS28r15, deS26r12] <;> ring1
  · simp only [deS28r14, deS28r15, deS26r12] <;> ring1
  · simp only [deS28r14, deS28r15, deS26r12] <;> ring1
  · simp only [deS28r14, deS28r15, deS26r12] <;> ring1
  · simp only [deS28r14, deS28r15, deS26r12] <;> ring1
  · simp only [deS28r14, deS28r15, deS26r13] <;> ring1
  · simp only [deS28r14, deS28r15, deS26r13] <;> ring1
  · simp only [deS28r14, deS28r15, deS26r13] <;> ring1
  · simp only [deS28r14, deS28r15, deS26r13] <;> ring1
  · simp only [deS28r14, deS28r15, deS26r13] <;> ring1
  · simp only [deS28r14, deS28r15, deS26r13] <;> ring1
  · simp only [deS28r14, deS28r15, deS26r13] <;> ring1
  · simp only [deS28r14, deS28r15, deS26r13] <;> ring1
  · simp only [deS28r14, deS28r15, deS26r13] <;> ring1
  · simp only [deS28r14, deS28r15, deS26r13] <;> ring1
  · simp only [deS28r14, deS28r15, deS26r13] <;> ring1
  · simp only [deS28r14, deS28r15, deS26r13] <;> ring1
  · simp only [deS28r14, deS28r15, deS26r13] <;> ring1
  · simp only [deS28r14, deS28r15, deS26r13] <;> ring1
  · simp only [deS28r14, deS28r15, deS26r13] <;> ring1
  · simp only [deS28r14, deS28r15, deS26r13] <;> ring1
  · simp only [deS28r12, deS28r13, deS26r14] <;> ring1
  · simp only [deS28r12, deS28r13, deS26r14] <;> ring1
  · simp only [deS28r12, deS28r13, deS26r14] <;> ring1
  · simp only [deS28r12, deS28r13, deS26r14] <;> ring1
  · simp only [deS28r12, deS28r13, deS26r14] <;> ring1
  · simp only [deS28r12, deS28r13, deS26r14] <;> ring1
  · simp only [deS28r12, deS28r13, deS26r14] <;> ring1
  · simp only [deS28r12, deS28r13, deS26r14] <;> ring1
  · simp only [deS28r12, deS28r13, deS26r14] <;> ring1
  · simp only [deS28r12, deS28r13, deS26r14] <;> ring1
  · simp only [deS28r12, deS28r13, deS26r14] <;> ring1
  · simp only [deS28r12, deS28r13, deS26r14] <;> ring1
  · simp only [deS28r12, deS28r13, deS26r14] <;> ring1
  · simp only [deS28r12, deS28r13, deS26r14] <;> ring1
  · simp only [deS28r12, deS28r13, deS26r14] <;> ring1
  · simp only [deS28r12, deS28r13, deS26r14] <;> ring1
  · simp only [deS28r12, deS28r13, deS26r15] <;> ring1
  · simp only [deS28r12, deS28r13, deS26r15] <;> ring1
  · simp only [deS28r12, deS28r13, deS26r15] <;> ring1
  · simp only [deS28r12, deS28r13, deS26r15] <;> ring1
  · simp only [deS28r12, deS28r13, deS26r15] <;> ring1
  · simp only [deS28r12, deS28r13, deS26r15] <;> ring1
  · simp only [deS28r12, deS28r13, deS26r15] <;> ring1
  · simp only [deS28r12, deS28r13, deS26r15] <;> ring1
  · simp only [deS28r12, deS28r13, deS26r15] <;> ring1
  · simp only [deS28r12, deS28r13, deS26r15] <;> ring1
  · simp only [deS28r12, deS28r13, deS26r15] <;> ring1
  · simp only [deS28r12, deS28r13, deS26r15] <;> ring1
  · simp only [deS28r12, deS28r13, deS26r15] <;> ring1
  · simp only [deS28r12, deS28r13, deS26r15] <;> ring1
  · simp only [deS28r12, deS28r13, deS26r15] <;> ring1
  · simp only [deS28r12, deS28r13, deS26r15] <;> ring1

set_option maxHeartbeats 4000000 in
/-- Chain step 25 of `de`. -/
theorem deStep25 {α : Type} [ Field α] [ CharZero α] (c s h : α) (hs : s ^ 2 = 1 - c ^ 2) (hh : h ^ 2 = 1 / 2) :
    lift1 0 (hG h) * deS26 c s h = deS25 c s h := by
  rw [hRule_0]
  ext r k
  obtain ⟨x1, x2, x3, x4⟩ := r
  simp only [deS26, deS25, Matrix.of_apply]
  obtain ⟨y1, y2, y3, y4⟩ := k
  cases x1 <;> cases x2 <;> cases x3 <;> cases x4 <;>
    cases y1 <;> cases y2 <;> cases y3 <;> cases y4
  · simp only [deS26r0, deS26r8, deS25r0] <;> linear_combination (1) * hh
  · simp only [deS26r0, deS26r8, deS25r0] <;> linear_combination (1) * hh
  · simp only [deS26r0, deS26r8, deS25r0] <;> ring1
  · simp only [deS26r0, deS26r8, deS25r0] <;> ring1
  · simp only [deS26r0, deS26r8, deS25r0] <;> ring1
  · simp only [deS26r0, deS26r8, deS25r0] <;> ring1
  · simp only [deS26r0, deS26r8, deS25r0] <;> ring1
  · simp only [deS26r0, deS26r8, deS25r0] <;> ring1
  · simp only [deS26r0, deS26r8, deS25r0] <;> ring1
  · simp only [deS26r0, deS26r8, deS25r0] <;> ring1
  · simp only [deS26r0, deS26r8, deS25r0] <;> linear_combination (1) * hh
  · simp only [deS26r0, deS26r8, deS25r0] <;> linear_combination (1) * hh
  · simp only [deS26r0, deS26r8, deS25r0] <;> ring1
  · simp only [deS26r0, deS26r8, deS25r0] <;> ring1
  · simp only [deS26r0, deS26r8, deS25r0] <;> ring1
  · simp only [deS26r0, deS26r8, deS25r0] <;> ring1
  · simp only [deS26r1, deS26r9, deS25r1] <;> linear_combination (1) * hh
  · simp only [deS26r1, deS26r9, deS25r1] <;> linear_combination (-(1)) * hh
  · simp only [deS26r1, deS26r9, deS25r1] <;> ring1
  · simp only [deS26r1, deS26r9, deS25r1] <;> ring1
  · simp only [deS26r1, deS26r9, deS25r1] <;> ring1
  · simp only [deS26r1, deS26r9, deS25r1] <;> ring1
  · simp only [deS26r1, deS26r9, deS25r1] <;> ring1
  · simp only [deS26r1, deS26r9, deS25r1] <;> ring1
  · simp only [deS26r1, deS26r9, deS25r1] <;> ring1
  · simp only [deS26r1, deS26r9, deS25r1] <;> ring1
  · simp only [deS26r1, deS26r9, deS25r1] <;> linear_combination (-(1)) * hh
  · simp only [deS26r1, deS26r9, deS25r1] <;> linear_combination (1) * hh
  · simp only [deS26r1, deS26r9, deS25r1] <;> ring1
  · simp only [deS26r1, deS26r9, deS25r1] <;> ring1
  · simp only [deS26r1, deS26r9, deS25r1] <;> ring1
  · simp only [deS26r1, deS26r9, deS25r1] <;> ring1
  · simp only [deS26r10, deS26r2, deS25r2] <;> ring1
  · simp only [deS26r10, deS26r2, deS25r2] <;> ring1
  · simp only [deS26r10, deS26r2, deS25r2] <;> linear_combination (1) * hh
  · simp only [deS26r10, deS26r2, deS25r2] <;> linear_combination (1) * hh
  · simp only [deS26r10, deS26r2, deS25r2] <;> ring1
  · simp only [deS26r10, deS26r2, deS25r2] <;> ring1
  · simp only [deS26r10, deS26r2, deS25r2] <;> ring1
  · simp only [deS26r10, deS26r2, deS25r2] <;> ring1
  · simp only [deS26r10, deS26r2, deS25r2] <;> linear_combination (1) * hh
  · simp only [deS26r10, deS26r2, deS25r2] <;> linear_combination (1) * hh
  · simp only [deS26r10, deS26r2, deS25r2] <;> ring1
  · simp only [deS26r10, deS26r2, deS25r2] <;> ring1
  · simp only [deS26r10, deS26r2, deS25r2] <;> ring1
  · simp only [deS26r10, deS26r2, deS25r2] <;> ring1
  · simp only [deS26r10, deS26r2, deS25r2] <;> ring1
  · simp only [deS26r10, deS26r2, deS25r2] <;> ring1
  · simp only [deS26r11, deS26r3, deS25r3] <;> ring1
  · simp only [deS26r11, deS26r3, deS25r3] <;> ring1
  · simp only [deS26r11, deS26r3, deS25r3] <;> linear_combination (-(1)) * hh
  · simp only [deS26r11, deS26r3, deS25r3] <;> linear_combination (1) * hh
  · simp only [deS26r11, deS26r3, deS25r3] <;> ring1
  · simp only [deS26r11, deS26r3, deS25r3] <;> ring1
  · simp only [deS26r11, deS26r3, deS25r3] <;> ring1
  · simp only [deS26r11, deS26r3, deS25r3] <;> ring1
  · simp only [deS26r11, deS26r3, deS25r3] <;> linear_combination (1) * hh
  · simp only [deS26r11, deS26r3, deS25r3] <;> linear_combination (-(1)) * hh
  · simp only [deS26r11, deS26r3, deS25r3] <;> ring1
  · simp only [deS26r11, deS26r3, deS25r3] <;> ring1
  · simp only [deS26r11, deS26r3, deS25r3] <;> ring1
  · simp only [deS26r11, deS26r3, deS25r3] <;> ring1
  · simp only [deS26r11, deS26r3, deS25r3] <;> ring1
  · simp only [deS26r11, deS26r3, deS25r3] <;> ring1
  · simp only [deS26r12, deS26r4, deS25r4] <;> ring1
  · simp only [deS26r12, deS26r4, deS25r4] <;> ring1
  · simp only [deS26r12, deS26r4, deS25r4] <;> ring1
  · simp only [deS26r12, deS26r4, deS25r4] <;> ring1
  · simp only [deS26r12, deS26r4, deS25r4] <;> linear_combination (1) * hh
  · simp only [deS26r12, deS26r4, deS25r4] <;> linear_combination (1) * hh
  · simp only [deS26r12, deS26r4, deS25r4] <;> ring1
  · simp only [deS26r12, deS26r4, deS25r4] <;> ring1
  · simp only [deS26r12, deS26r4, deS25r4] <;> ring1
  · simp only [deS26r12, deS26r4, deS25r4] <;> ring1
  · simp only [deS26r12, deS26r4, deS25r4] <;> ring1
  · simp only [deS26r12, deS26r4, deS25r4] <;> ring1
  · simp only [deS26r12, deS26r4, deS25r4] <;> ring1
  · simp only [deS26r12, deS26r4, deS25r4] <;> ring1
  · simp only [deS26r12, deS26r4, deS25r4] <;> linear_combination (1) * hh
  · simp only [deS26r12, deS26r4, deS25r4] <;> linear_combination (1) * hh
  · simp only [deS26r13, deS26r5, deS25r5] <;> ring1
  · simp only [deS26r13, deS26r5, deS25r5] <;> ring1
  · simp only [deS26r13, deS26r5, deS25r5] <;> ring1
  · simp only [deS26r13, deS26r5, deS25r5] <;> ring1
  · simp only [deS26r13, deS26r5, deS25r5] <;> linear_combination (1) * hh
  · simp only [deS26r13, deS26r5, deS25r5] <;> linear_combination (-(1)) * hh
  · simp only [deS26r13, deS26r5, deS25r5] <;> ring1
  · simp only [deS26r13, deS26r5, deS25r5] <;> ring1
  · simp only [deS26r13, deS26r5, deS25r5] <;> ring1
  · simp only [deS26r13, deS26r5, deS25r5] <;> ring1
  · simp only [deS26r13, deS26r5, deS25r5] <;> ring1
  · simp only [deS26r13, deS26r5, deS25r5] <;> ring1
  · simp only [deS26r13, deS26r5, deS25r5] <;> ring1
  · simp only [deS26r13, deS26r5, deS25r5] <;> ring1
  · simp only [deS26r13, deS26r5, deS25r5] <;> linear_combination (-(1)) * hh
  · simp only [deS26r13, deS26r5, deS25r5] <;> linear_combination (1) * hh
  · simp only [deS26r14, deS26r6, deS25r6] <;> ring1
  · simp only [deS26r14, deS26r6, deS25r6] <;> ring1
  · simp only [deS26r14, deS26r6, deS25r6] <;> ring1
  · simp only [deS26r14, deS26r6, deS25r6] <;> ring1
  · simp only [deS26r14, deS26r6, deS25r6] <;> ring1
  · simp only [deS26r14, deS26r6, deS25r6] <;> ring1
  · simp only [deS26r14, deS26r6, deS25r6] <;> linear_combination (1) * hh
  · simp only [deS26r14, deS26r6, deS25r6] <;> linear_combination (1) * hh
  · simp only [deS26r14, deS26r6, deS25r6] <;> ring1
  · simp only [deS26r14, deS26r6, deS25r6] <;> ring1
  · simp only [deS26r14, deS26r6, deS25r6] <;> ring1
  · simp only [deS26r14, deS26r6, deS25r6] <;> ring1
  · simp only [deS26r14, deS26r6, deS25r6] <;> linear_combination (1) * hh
  · simp only [deS26r14, deS26r6, deS25r6] <;> linear_combination (1) * hh
  · simp only [deS26r14, deS26r6, deS25r6] <;> ring1
  · simp only [deS26r14, deS26r6, deS25r6] <;> ring1
  · simp only [deS26r15, deS26r7, deS25r7] <;> ring1
  · simp only [deS26r15, deS26r7, deS25r7] <;> ring1
  · simp only [deS26r15, deS26r7, deS25r7] <;> ring1
  · simp only [deS26r15, deS26r7, deS25r7] <;> ring1
  · simp only [deS26r15, deS26r7, deS25r7] <;> ring1
  · simp only [deS26r15, deS26r7, deS25r7] <;> ring1
  · simp only [deS26r15, deS26r7, deS25r7] <;> linear_combination (-(1)) * hh
  · simp only [deS26r15, deS26r7, deS25r7] <;> linear_combination (1) * hh
  · simp only [deS26r15, deS26r7, deS25r7] <;> ring1
  · simp only [deS26r15, deS26r7, deS25r7] <;> ring1
  · simp only [deS26r15, deS26r7, deS25r7] <;> ring1
  · simp only [deS26r15, deS26r7, deS25r7] <;> ring1
  · simp only [deS26r15, deS26r7, deS25r7] <;> linear_combination (1) * hh
  · simp only [deS26r15, deS26r7, deS25r7] <;> linear_combination (-(1)) * hh
  · simp only [deS26r15, deS26r7, deS25r7] <;> ring1
  · simp only [deS26r15, deS26r7, deS25r7] <;> ring1
  · simp only [deS26r0, deS26r8, deS25r8] <;> linear_combination (1) * hh
  · simp only [deS26r0, deS26r8, deS25r8] <;> linear_combination (1) * hh
  · simp only [deS26r0, deS26r8, deS25r8] <;> ring1
  · simp only [deS26r0, deS26r8, deS25r8] <;> ring1
  · simp only [deS26r0, deS26r8, deS25r8] <;> ring1
  · simp only [deS26r0, deS26r8, deS25r8] <;> ring1
  · simp only [deS26r0, deS26r8, deS25r8] <;> ring1
  · simp only [deS26r0, deS26r8, deS25r8] <;> ring1
  · simp only [deS26r0, deS26r8, deS25r8] <;> ring1
  · simp only [deS26r0, deS26r8, deS25r8] <;> ring1
  · simp only [deS26r0, deS26r8, deS25r8] <;> linear_combination (-(1)) * hh
  · simp only [deS26r0, deS26r8, deS25r8] <;> linear_combination (-(1)) * hh
  · simp only [deS26r0, deS26r8, deS25r8] <;> ring1
  · simp only [deS26r0, deS26r8, deS25r8] <;> ring1
  · simp only [deS26r0, deS26r8, deS25r8] <;> ring1
  · simp only [deS26r0, deS26r8, deS25r8] <;> ring1
  · simp only [deS26r1, deS26r9, deS25r9] <;> linear_combination (1) * hh
  · simp only [deS26r1, deS26r9, deS25r9] <;> linear_combination (-(1)) * hh
  · simp only [deS26r1, deS26r9, deS25r9] <;> ring1
  · simp only [deS26r1, deS26r9, deS25r9] <;> ring1
  · simp only [deS26r1, deS26r9, deS25r9] <;> ring1
  · simp only [deS26r1, deS26r9, deS25r9] <;> ring1
  · simp only [deS26r1, deS26r9, deS25r9] <;> ring1
  · simp only [deS26r1, deS26r9, deS25r9] <;> ring1
  · simp only [deS26r1, deS26r9, deS25r9] <;> ring1
  · simp only [deS26r1, deS26r9, deS25r9] <;> ring1
  · simp only [deS26r1, deS26r9, deS25r9] <;> linear_combination (1) * hh
  · simp only [deS26r1, deS26r9, deS25r9] <;> linear_combination (-(1)) * hh
  · simp only [deS26r1, deS26r9, deS25r9] <;> ring1
  · simp only [deS26r1, deS26r9, deS25r9] <;> ring1
  · simp only [deS26r1, deS26r9, deS25r9] <;> ring1
  · simp only [deS26r1, deS26r9, deS25r9] <;> ring1
  · simp only [deS26r10, deS26r2, deS25r10] <;> ring1
  · simp only [deS26r10, deS26r2, deS25r10] <;> ring1
  · simp only [deS26r10, deS26r2, deS25r10] <;> linear_combination (1) * hh
  · simp only [deS26r10, deS26r2, deS25r10] <;> linear_combination (1) * hh
  · simp only [deS26r10, deS26r2, deS25r10] <;> ring1
  · simp only [deS26r10, deS26r2, deS25r10] <;> ring1
  · simp only [deS26r10, deS26r2, deS25r10] <;> ring1
  · simp only [deS26r10, deS26r2, deS25r10] <;> ring1
  · simp only [deS26r10, deS26r2, deS25r10] <;> linear_combination (-(1)) * hh
  · simp only [deS26r10, deS26r2, deS25r10] <;> linear_combination (-(1)) * hh
  · simp only [deS26r10, deS26r2, deS25r10] <;> ring1
  · simp only [deS26r10, deS26r2, deS25r10] <;> ring1
  · simp only [deS26r10, deS26r2, deS25r10] <;> ring1
  · simp only [deS26r10, deS26r2, deS25r10] <;> ring1
  · simp only [deS26r10, deS26r2, deS25r10] <;> ring1
  · simp only [deS26r10, deS26r2, deS25r10] <;> ring1
  · simp only [deS26r11, deS26r3, deS25r11] <;> ring1
  · simp only [deS26r11, deS26r3, deS25r11] <;> ring1
  · simp only [deS26r11, deS26r3, deS25r11] <;> linear_combination (-(1)) * hh
  · simp only [deS26r11, deS26r3, deS25r11] <;> linear_combination (1) * hh
  · simp only [deS26r11, deS26r3, deS25r11] <;> ring1
  · simp only [deS26r11, deS26r3, deS25r11] <;> ring1
  · simp only [deS26r11, deS26r3, deS25r11] <;> ring1
  · simp only [deS26r11, deS26r3, deS25r11] <;> ring1
  · simp only [deS26r11, deS26r3, deS25r11] <;> linear_combination (-(1)) * hh
  · simp only [deS26r11, deS26r3, deS25r11] <;> linear_combination (1) * hh
  · simp only [deS26r11, deS26r3, deS25r11] <;> ring1
  · simp only [deS26r11, deS26r3, deS25r11] <;> ring1
  · simp only [deS26r11, deS26r3, deS25r11] <;> ring1
  · simp only [deS26r11, deS26r3, deS25r11] <;> ring1
  · simp only [deS26r11, deS26r3, deS25r11] <;> ring1
  · simp only [deS26r11, deS26r3, deS25r11] <;> ring1
  · simp only [deS26r12, deS26r4, deS25r12] <;> ring1
  · simp only [deS26r12, deS26r4, deS25r12] <;> ring1
  · simp only [deS26r12, deS26r4, deS25r12] <;> ring1
  · simp only [deS26r12, deS26r4, deS25r12] <;> ring1
  · simp only [deS26r12, deS26r4, deS25r12] <;> linear_combination (1) * hh
  · simp only [deS26r12, deS26r4, deS25r12] <;> linear_combination (1) * hh
  · simp only [deS26r12, deS26r4, deS25r12] <;> ring1
  · simp only [deS26r12, deS26r4, deS25r12] <;> ring1
  · simp only [deS26r12, deS26r4, deS25r12] <;> ring1
  · simp only [deS26r12, deS26r4, deS25r12] <;> ring1
  · simp only [deS26r12, deS26r4, deS25r12] <;> ring1
  · simp only [deS26r12, deS26r4, deS25r12] <;> ring1
  · simp only [deS26r12, deS26r4, deS25r12] <;> ring1
  · simp only [deS26r12, deS26r4, deS25r12] <;> ring1
  · simp only [deS26r12, deS26r4, deS25r12] <;> linear_combination (-(1)) * hh
  · simp only [deS26r12, deS26r4, deS25r12] <;> linear_combination (-(1)) * hh
  · simp only [deS26r13, deS26r5, deS25r13] <;> ring1
  · simp only [deS26r13, deS26r5, deS25r13] <;> ring1
  · simp only [deS26r13, deS26r5, deS25r13] <;> ring1
  · simp only [deS26r13, deS26r5, deS25r13] <;> ring1
  · simp only [deS26r13, deS26r5, deS25r13] <;> linear_combination (1) * hh
  · simp only [deS26r13, deS26r5, deS25r13] <;> linear_combination (-(1)) * hh
  · simp only [deS26r13, deS26r5, deS25r13] <;> ring1
  · simp only [deS26r13, deS26r5, deS25r13] <;> ring1
  · simp only [deS26r13, deS26r5, deS25r13] <;> ring1
  · simp only [deS26r13, deS26r5, deS25r13] <;> ring1
  · simp only [deS26r13, deS26r5, deS25r13] <;> ring1
  · simp only [deS26r13, deS26r5, deS25r13] <;> ring1
  · simp only [deS26r13, deS26r5, deS25r13] <;> ring1
  · simp only [deS26r13, deS26r5, deS25r13] <;> ring1
  · simp only [deS26r13, deS26r5, deS25r13] <;> linear_combination (1) * hh
  · simp only [deS26r13, deS26r5, deS25r13] <;> linear_combination (-(1)) * hh
  · simp only [deS26r14, deS26r6, deS25r14] <;> ring1
  · simp only [deS26r14, deS26r6, deS25r14] <;> ring1
  · simp only [deS26r14, deS26r6, deS25r14] <;> ring1
  · simp only [deS26r14, deS26r6, deS25r14] <;> ring1
  · simp only [deS26r14, deS26r6, deS25r14] <;> ring1
  · simp only [deS26r14, deS26r6, deS25r14] <;> ring1
  · simp only [deS26r14, deS26r6, deS25r14] <;> linear_combination (1) * hh
  · simp only [deS26r14, deS26r6, deS25r14] <;> linear_combination (1) * hh
  · simp only [deS26r14, deS26r6, deS25r14] <;> ring1
  · simp only [deS26r14, deS26r6, deS25r14] <;> ring1
  · simp only [deS26r14, deS26r6, deS25r14] <;> ring1
  · simp only [deS26r14, deS26r6, deS25r14] <;> ring1
  · simp only [deS26r14, deS26r6, deS25r14] <;> linear_combination (-(1)) * hh
  · simp only [deS26r14, deS26r6, deS25r14] <;> linear_combination (-(1)) * hh
  · simp only [deS26r14, deS26r6, deS25r14] <;> ring1
  · simp only [deS26r14, deS26r6, deS25r14] <;> ring1
  · simp only [deS26r15, deS26r7, deS25r15] <;> ring1
  · simp only [deS26r15, deS26r7, deS25r15] <;> ring1
  · simp only [deS26r15, deS26r7, deS25r15] <;> ring1
  · simp only [deS26r15, deS26r7, deS25r15] <;> ring1
  · simp only [deS26r15, deS26r7, deS25r15] <;> ring1
  · simp only [deS26r15, deS26r7, deS25r15] <;> ring1
  · simp only [deS26r15, deS26r7, deS25r15] <;> linear_combination (-(1)) * hh
  · simp only [deS26r15, deS26r7, deS25r15] <;> linear_combination (1) * hh
  · simp only [deS26r15, deS26r7, deS25r15] <;> ring1
  · simp only [deS26r15, deS26r7, deS25r15] <;> ring1
  · simp only [deS26r15, deS26r7, deS25r15] <;> ring1
  · simp only [deS26r15, deS26r7, deS25r15] <;> ring1
  · simp only [deS26r15, deS26r7, deS25r15] <;> linear_combination (-(1)) * hh
  · simp only [deS26r15, deS26r7, deS25r15] <;> linear_combination (1) * hh
  · simp only [deS26r15, deS26r7, deS25r15] <;> ring1
  · simp only [deS26r15, deS26r7, deS25r15] <;> ring1

set_option maxHeartbeats 4000000 in
/-- Chain step 24 of `de`. -/
theorem deStep24 {α : Type} [ Field α] [ CharZero α] (c s h : α) (hs : s ^ 2 = 1 - c ^ 2) (hh : h ^ 2 = 1 / 2) :
    lift2 2 0 cnotG * deS25 c s h = deS24 c s h := by
  rw [cnotRule_2_0]
  ext r k
  obtain ⟨x1, x2, x3, x4⟩ := r
  simp only [deS25, deS24, Matrix.of_apply]
  cases x1 <;> cases x2 <;> cases x3 <;> cases x4 <;> rfl

set_option maxHeartbeats 4000000 in
/-- Chain step 23 of `de`. -/
theorem deStep23 {α : Type} [ Field α] [ CharZero α] (c s h : α) (hs : s ^ 2 = 1 - c ^ 2) (hh : h ^ 2 = 1 / 2) :
    lift2 0 1 cnotG * deS24 c s h = deS23 c s h := by
  rw [cnotRule_0_1]
  ext r k
  obtain ⟨x1, x2, x3, x4⟩ := r
  simp only [deS24, deS23, Matrix.of_apply]
  cases x1 <;> cases x2 <;> cases x3 <;> cases x4 <;> rfl

set_option maxHeartbeats 4000000 in
/-- Chain step 22 of `de`. -/
theorem deStep22 {α : Type} [ Field α] [ CharZero α] (c s h : α) (hs : s ^ 2 = 1 - c ^ 2) (hh : h ^ 2 = 1 / 2) :
    lift1 0 (ryG c s) * deS23 c s h = deS22 c s h := by
  rw [ryRule_0]
  ext r k
  obtain ⟨x1, x2, x3, x4⟩ := r
  simp only [deS23, deS22, Matrix.of_apply]
  obtain ⟨y1, y2, y3, y4⟩ := k
  cases x1 <;> cases x2 <;> cases x3 <;> cases x4 <;>
    cases y1 <;> cases y2 <;> cases y3 <;> cases y4
  · simp only [deS25r0, deS25r12, deS22r0] <;> ring1
  · simp only [deS25r0, deS25r12, deS22r0] <;> ring1
  · simp only [deS25r0, deS25r12, deS22r0] <;> ring1
  · simp only [deS25r0, deS25r12, deS22r0] <;> ring1
  · simp only [deS25r0, deS25r12, deS22r0] <;> ring1
  · simp only [deS25r0, deS25r12, deS22r0] <;> ring1
  · simp only [deS25r0, deS25r12, deS22r0] <;> ring1
  · simp only [deS25r0, deS25r12, deS22r0] <;> ring1
  · simp only [deS25r0, deS25r12, deS22r0] <;> ring1
  · simp only [deS25r0, deS25r12, deS22r0] <;> ring1
  · simp only [deS25r0, deS25r12, deS22r0] <;> ring1
  · simp only [deS25r0, deS25r12, deS22r0] <;> ring1
  · simp only [deS25r0, deS25r12, deS22r0] <;> ring1
  · simp only [deS25r0, deS25r12, deS22r0] <;> ring1
  · simp only [deS25r0, deS25r12, deS22r0] <;> ring1
  · simp only [deS25r0, deS25r12, deS22r0] <;> ring1
  · simp only [deS25r1, deS25r13, deS22r1] <;> ring1
  · simp only [deS25r1, deS25r13, deS22r1] <;> ring1
  · simp only [deS25r1, deS25r13, deS22r1] <;> ring1
  · simp only [deS25r1, deS25r13, deS22r1] <;> ring1
  · simp only [deS25r1, deS25r13, deS22r1] <;> ring1
  · simp only [deS25r1, deS25r13, deS22r1] <;> ring1
  · simp only [deS25r1, deS25r13, deS22r1] <;> ring1
  · simp only [deS25r1, deS25r13, deS22r1] <;> ring1
  · simp only [deS25r1, deS25r13, deS22r1] <;> ring1
  · simp only [deS25r1, deS25r13, deS22r1] <;> ring1
  · simp only [deS25r1, deS25r13, deS22r1] <;> ring1
  · simp only [deS25r1, deS25r13, deS22r1] <;> ring1
  · simp only [deS25r1, deS25r13, deS22r1] <;> ring1
  · simp only [deS25r1, deS25r13, deS22r1] <;> ring1
  · simp only [deS25r1, deS25r13, deS22r1] <;> ring1
  · simp only [deS25r1, deS25r13, deS22r1] <;> ring1
  · simp only [deS25r10, deS25r6, deS22r2] <;> ring1
  · simp only [deS25r10, deS25r6, deS22r2] <;> ring1
  · simp only [deS25r10, deS25r6, deS22r2] <;> ring1
  · simp only [deS25r10, deS25r6, deS22r2] <;> ring1
  · simp only [deS25r10, deS25r6, deS22r2] <;> ring1
  · simp only [deS25r10, deS25r6, deS22r2] <;> ring1
  · simp only [deS25r10, deS25r6, deS22r2] <;> ring1
  · simp only [deS25r10, deS25r6, deS22r2] <;> ring1
  · simp only [deS25r10, deS25r6, deS22r2] <;> ring1
  · simp only [deS25r10, deS25r6, deS22r2] <;> ring1
  · simp only [deS25r10, deS25r6, deS22r2] <;> ring1
  · simp only [deS25r10, deS25r6, deS22r2] <;> ring1
  · simp only [deS25r10, deS25r6, deS22r2] <;> ring1
  · simp only [deS25r10, deS25r6, deS22r2] <;> ring1
  · simp only [deS25r10, deS25r6, deS22r2] <;> ring1
  · simp only [deS25r10, deS25r6, deS22r2] <;> ring1
  · simp only [deS25r11, deS25r7, deS22r3] <;> ring1
  · simp only [deS25r11, deS25r7, deS22r3] <;> ring1
  · simp only [deS25r11, deS25r7, deS22r3] <;> ring1
  · simp only [deS25r11, deS25r7, deS22r3] <;> ring1
  · simp only [deS25r11, deS25r7, deS22r3] <;> ring1
  · simp only [deS25r11, deS25r7, deS22r3] <;> ring1
  · simp only [deS25r11, deS25r7, deS22r3] <;> ring1
  · simp only [deS25r11, deS25r7, deS22r3] <;> ring1
  · simp only [deS25r11, deS25r7, deS22r3] <;> ring1
  · simp only [deS25r11, deS25r7, deS22r3] <;> ring1
  · simp only [deS25r11, deS25r7, deS22r3] <;> ring1
  · simp only [deS25r11, deS25r7, deS22r3] <;> ring1
  · simp only [deS25r11, deS25r7, deS22r3] <;> ring1
  · simp only [deS25r11, deS25r7, deS22r3] <;> ring1
  · simp only [deS25r11, deS25r7, deS22r3] <;> ring1
  · simp only [deS25r11, deS25r7, deS22r3] <;> ring1
  · simp only [deS25r4, deS25r8, deS22r4] <;> ring1
  · simp only [deS25r4, deS25r8, deS22r4] <;> ring1
  · simp only [deS25r4, deS25r8, deS22r4] <;> ring1
  · simp only [deS25r4, deS25r8, deS22r4] <;> ring1
  · simp only [deS25r4, deS25r8, deS22r4] <;> ring1
  · simp only [deS25r4, deS25r8, deS22r4] <;> ring1
  · simp only [deS25r4, deS25r8, deS22r4] <;> ring1
  · simp only [deS25r4, deS25r8, deS22r4] <;> ring1
  · simp only [deS25r4, deS25r8, deS22r4] <;> ring1
  · simp only [deS25r4, deS25r8, deS22r4] <;> ring1
  · simp only [deS25r4, deS25r8, deS22r4] <;> ring1
  · simp only [deS25r4, deS25r8, deS22r4] <;> ring1
  · simp only [deS25r4, deS25r8, deS22r4] <;> ring1
  · simp only [deS25r4, deS25r8, deS22r4] <;> ring1
  · simp only [deS25r4, deS25r8, deS22r4] <;> ring1
  · simp only [deS25r4, deS25r8, deS22r4] <;> ring1
  · simp only [deS25r5, deS25r9, deS22r5] <;> ring1
  · simp only [deS25r5, deS25r9, deS22r5] <;> ring1
  · simp only [deS25r5, deS25r9, deS22r5] <;> ring1
  · simp only [deS25r5, deS25r9, deS22r5] <;> ring1
  · simp only [deS25r5, deS25r9, deS22r5] <;> ring1
  · simp only [deS25r5, deS25r9, deS22r5] <;> ring1
  · simp only [deS25r5, deS25r9, deS22r5] <;> ring1
  · simp only [deS25r5, deS25r9, deS22r5] <;> ring1
  · simp only [deS25r5, deS25r9, deS22r5] <;> ring1
  · simp only [deS25r5, deS25r9, deS22r5] <;> ring1
  · simp only [deS25r5, deS25r9, deS22r5] <;> ring1
  · simp only [deS25r5, deS25r9, deS22r5] <;> ring1
  · simp only [deS25r5, deS25r9, deS22r5] <;> ring1
  · simp only [deS25r5, deS25r9, deS22r5] <;> ring1
  · simp only [deS25r5, deS25r9, deS22r5] <;> ring1
  · simp only [deS25r5, deS25r9, deS22r5] <;> ring1
  · simp only [deS25r14, deS25r2, deS22r6] <;> ring1
  · simp only [deS25r14, deS25r2, deS22r6] <;> ring1
  · simp only [deS25r14, deS25r2, deS22r6] <;> ring1
  · simp only [deS25r14, deS25r2, deS22r6] <;> ring1
  · simp only [deS25r14, deS25r2, deS22r6] <;> ring1
  · simp only [deS25r14, deS25r2, deS22r6] <;> ring1
  · simp only [deS25r14, deS25r2, deS22r6] <;> ring1
  · simp only [deS25r14, deS25r2, deS22r6] <;> ring1
  · simp only [deS25r14, deS25r2, deS22r6] <;> ring1
  · simp only [deS25r14, deS25r2, deS22r6] <;> ring1
  · simp only [deS25r14, deS25r2, deS22r6] <;> ring1
  · simp only [deS25r14, deS25r2, deS22r6] <;> ring1
  · simp only [deS25r14, deS25r2, deS22r6] <;> ring1
  · simp only [deS25r14, deS25r2, deS22r6] <;> ring1
  · simp only [deS25r14, deS25r2, deS22r6] <;> ring1
  · simp only [deS25r14, deS25r2, deS22r6] <;> ring1
  · simp only [deS25r15, deS25r3, deS22r7] <;> ring1
  · simp only [deS25r15, deS25r3, deS22r7] <;> ring1
  · simp only [deS25r15, deS25r3, deS22r7] <;> ring1
  · simp only [deS25r15, deS25r3, deS22r7] <;> ring1
  · simp only [deS25r15, deS25r3, deS22r7] <;> ring1
  · simp only [deS25r15, deS25r3, deS22r7] <;> ring1
  · simp only [deS25r15, deS25r3, deS22r7] <;> ring1
  · simp only [deS25r15, deS25r3, deS22r7] <;> ring1
  · simp only [deS25r15, deS25r3, deS22r7] <;> ring1
  · simp only [deS25r15, deS25r3, deS22r7] <;> ring1
  · simp only [deS25r15, deS25r3, deS22r7] <;> ring1
  · simp only [deS25r15, deS25r3, deS22r7] <;> ring1
  · simp only [deS25r15, deS25r3, deS22r7] <;> ring1
  · simp only [deS25r15, deS25r3, deS22r7] <;> ring1
  · simp only [deS25r15, deS25r3, deS22r7] <;> ring1
  · simp only [deS25r15, deS25r3, deS22r7] <;> ring1
  · simp only [deS25r0, deS25r12, deS22r8] <;> ring1
  · simp only [deS25r0, deS25r12, deS22r8] <;> ring1
  · simp only [deS25r0, deS25r12, deS22r8] <;> ring1
  · simp only [deS25r0, deS25r12, deS22r8] <;> ring1
  · simp only [deS25r0, deS25r12, deS22r8] <;> ring1
  · simp only [deS25r0, deS25r12, deS22r8] <;> ring1
  · simp only [deS25r0, deS25r12, deS22r8] <;> ring1
  · simp only [deS25r0, deS25r12, deS22r8] <;> ring1
  · simp only [deS25r0, deS25r12, deS22r8] <;> ring1
  · simp only [deS25r0, deS25r12, deS22r8] <;> ring1
  · simp only [deS25r0, deS25r12, deS22r8] <;> ring1
  · simp only [deS25r0, deS25r12, deS22r8] <;> ring1
  · simp only [deS25r0, deS25r12, deS22r8] <;> ring1
  · simp only [deS25r0, deS25r12, deS22r8] <;> ring1
  · simp only [deS25r0, deS25r12, deS22r8] <;> ring1
  · simp only [deS25r0, deS25r12, deS22r8] <;> ring1
  · simp only [deS25r1, deS25r13, deS22r9] <;> ring1
  · simp only [deS25r1, deS25r13, deS22r9] <;> ring1
  · simp only [deS25r1, deS25r13, deS22r9] <;> ring1
  · simp only [deS25r1, deS25r13, deS22r9] <;> ring1
  · simp only [deS25r1, deS25r13, deS22r9] <;> ring1
  · simp only [deS25r1, deS25r13, deS22r9] <;> ring1
  · simp only [deS25r1, deS25r13, deS22r9] <;> ring1
  · simp only [deS25r1, deS25r13, deS22r9] <;> ring1
  · simp only [deS25r1, deS25r13, deS22r9] <;> ring1
  · simp only [deS25r1, deS25r13, deS22r9] <;> ring1
  · simp only [deS25r1, deS25r13, deS22r9] <;> ring1
  · simp only [deS25r1, deS25r13, deS22r9] <;> ring1
  · simp only [deS25r1, deS25r13, deS22r9] <;> ring1
  · simp only [deS25r1, deS25r13, deS22r9] <;> ring1
  · simp only [deS25r1, deS25r13, deS22r9] <;> ring1
  · simp only [deS25r1, deS25r13, deS22r9] <;> ring1
  · simp only [deS25r10, deS25r6, deS22r10] <;> ring1
  · simp only [deS25r10, deS25r6, deS22r10] <;> ring1
  · simp only [deS25r10, deS25r6, deS22r10] <;> ring1
  · simp only [deS25r10, deS25r6, deS22r10] <;> ring1
  · simp only [deS25r10, deS25r6, deS22r10] <;> ring1
  · simp only [deS25r10, deS25r6, deS22r10] <;> ring1
  · simp only [deS25r10, deS25r6, deS22r10] <;> ring1
  · simp only [deS25r10, deS25r6, deS22r10] <;> ring1
  · simp only [deS25r10, deS25r6, deS22r10] <;> ring1
  · simp only [deS25r10, deS25r6, deS22r10] <;> ring1
  · simp only [deS25r10, deS25r6, deS22r10] <;> ring1
  · simp only [deS25r10, deS25r6, deS22r10] <;> ring1
  · simp only [deS25r10, deS25r6, deS22r10] <;> ring1
  · simp only [deS25r10, deS25r6, deS22r10] <;> ring1
  · simp only [deS25r10, deS25r6, deS22r10] <;> ring1
  · simp only [deS25r10, deS25r6, deS22r10] <;> ring1
  · simp only [deS25r11, deS25r7, deS22r11] <;> ring1
  · simp only [deS25r11, deS25r7, deS22r11] <;> ring1
  · simp only [deS25r11, deS25r7, deS22r11] <;> ring1
  · simp only [deS25r11, deS25r7, deS22r11] <;> ring1
  · simp only [deS25r11, deS25r7, deS22r11] <;> ring1
  · simp only [deS25r11, deS25r7, deS22r11] <;> ring1
  · simp only [deS25r11, deS25r7, deS22r11] <;> ring1
  · simp only [deS25r11, deS25r7, deS22r11] <;> ring1
  · simp only [deS25r11, deS25r7, deS22r11] <;> ring1
  · simp only [deS25r11, deS25r7, deS22r11] <;> ring1
  · simp only [deS25r11, deS25r7, deS22r11] <;> ring1
  · simp only [deS25r11, deS25r7, deS22r11] <;> ring1
  · simp only [deS25r11, deS25r7, deS22r11] <;> ring1
  · simp only [deS25r11, deS25r7, deS22r11] <;> ring1
  · simp only [deS25r11, deS25r7, deS22r11] <;> ring1
  · simp only [deS25r11, deS25r7, deS22r11] <;> ring1
  · simp only [deS25r4, deS25r8, deS22r12] <;> ring1
  · simp only [deS25r4, deS25r8, deS22r12] <;> ring1
  · simp only [deS25r4, deS25r8, deS22r12] <;> ring1
  · simp only [deS25r4, deS25r8, deS22r12] <;> ring1
  · simp only [deS25r4, deS25r8, deS22r12] <;> ring1
  · simp only [deS25r4, deS25r8, deS22r12] <;> ring1
  · simp only [deS25r4, deS25r8, deS22r12] <;> ring1
  · simp only [deS25r4, deS25r8, deS22r12] <;> ring1
  · simp only [deS25r4, deS25r8, deS22r12] <;> ring1
  · simp only [deS25r4, deS25r8, deS22r12] <;> ring1
  · simp only [deS25r4, deS25r8, deS22r12] <;> ring1
  · simp only [deS25r4, deS25r8, deS22r12] <;> ring1
  · simp only [deS25r4, deS25r8, deS22r12] <;> ring1
  · simp only [deS25r4, deS25r8, deS22r12] <;> ring1
  · simp only [deS25r4, deS25r8, deS22r12] <;> ring1
  · simp only [deS25r4, deS25r8, deS22r12] <;> ring1
  · simp only [deS25r5, deS25r9, deS22r13] <;> ring1
  · simp only [deS25r5, deS25r9, deS22r13] <;> ring1
  · simp only [deS25r5, deS25r9, deS22r13] <;> ring1
  · simp only [deS25r5, deS25r9, deS22r13] <;> ring1
  · simp only [deS25r5, deS25r9, deS22r13] <;> ring1
  · simp only [deS25r5, deS25r9, deS22r13] <;> ring1
  · simp only [deS25r5, deS25r9, deS22r13] <;> ring1
  · simp only [deS25r5, deS25r9, deS22r13] <;> ring1
  · simp only [deS25r5, deS25r9, deS22r13] <;> ring1
  · simp only [deS25r5, deS25r9, deS22r13] <;> ring1
  · simp only [deS25r5, deS25r9, deS22r13] <;> ring1
  · simp only [deS25r5, deS25r9, deS22r13] <;> ring1
  · simp only [deS25r5, deS25r9, deS22r13] <;> ring1
  · simp only [deS25r5, deS25r9, deS22r13] <;> ring1
  · simp only [deS25r5, deS25r9, deS22r13] <;> ring1
  · simp only [deS25r5, deS25r9, deS22r13] <;> ring1
  · simp only [deS25r14, deS25r2, deS22r14] <;> ring1
  · simp only [deS25r14, deS25r2, deS22r14] <;> ring1
  · simp only [deS25r14, deS25r2, deS22r14] <;> ring1
  · simp only [deS25r14, deS25r2, deS22r14] <;> ring1
  · simp only [deS25r14, deS25r2, deS22r14] <;> ring1
  · simp only [deS25r14, deS25r2, deS22r14] <;> ring1
  · simp only [deS25r14, deS25r2, deS22r14] <;> ring1
  · simp only [deS25r14, deS25r2, deS22r14] <;> ring1
  · simp only [deS25r14, deS25r2, deS22r14] <;> ring1
  · simp only [deS25r14, deS25r2, deS22r14] <;> ring1
  · simp only [deS25r14, deS25r2, deS22r14] <;> ring1
  · simp only [deS25r14, deS25r2, deS22r14] <;> ring1
  · simp only [deS25r14, deS25r2, deS22r14] <;> ring1
  · simp only [deS25r14, deS25r2, deS22r14] <;> ring1
  · simp only [deS25r14, deS25r2, deS22r14] <;> ring1
  · simp only [deS25r14, deS25r2, deS22r14] <;> ring1
  · simp only [deS25r15, deS25r3, deS22r15] <;> ring1
  · simp only [deS25r15, deS25r3, deS22r15] <;> ring1
  · simp only [deS25r15, deS25r3, deS22r15] <;> ring1
  · simp only [deS25r15, deS25r3, deS22r15] <;> ring1
  · simp only [deS25r15, deS25r3, deS22r15] <;> ring1
  · simp only [deS25r15, deS25r3, deS22r15] <;> ring1
  · simp only [deS25r15, deS25r3, deS22r15] <;> ring1
  · simp only [deS25r15, deS25r3, deS22r15] <;> ring1
  · simp only [deS25r15, deS25r3, deS22r15] <;> ring1
  · simp only [deS25r15, deS25r3, deS22r15] <;> ring1
  · simp only [deS25r15, deS25r3, deS22r15] <;> ring1
  · simp only [deS25r15, deS25r3, deS22r15] <;> ring1
  · simp only [deS25r15, deS25r3, deS22r15] <;> ring1
  · simp only [deS25r15, deS25r3, deS22r15] <;> ring1
  · simp only [deS25r15, deS25r3, deS22r15] <;> ring1
  · simp only [deS25r15, deS25r3, deS22r15] <;> ring1

set_option maxHeartbeats 4000000 in
/-- Chain step 21 of `de`. -/
theorem deStep21 {α : Type} [ Field α] [ CharZero α] (c s h : α) (hs : s ^ 2 = 1 - c ^ 2) (hh : h ^ 2 = 1 / 2) :
    lift1 1 (ryG c (-s)) * deS22 c s h = deS21 c s h := by
  rw [ryRule_1]
  ext r k
  obtain ⟨x1, x2, x3, x4⟩ := r
  simp only [deS22, deS21, Matrix.of_apply]
  obtain ⟨y1, y2, y3, y4⟩ := k
  cases x1 <;> cases x2 <;> cases x3 <;> cases x4 <;>
    cases y1 <;> cases y2 <;> cases y3 <;> cases y4
  · simp only [deS22r0, deS22r4, deS21r0] <;> linear_combination (-(1/2)) * hs
  · simp only [deS22r0, deS22r4, deS21r0] <;> linear_combination (-(1/2)) * hs
  · simp only [deS22r0, deS22r4, deS21r0] <;> ring1
  · simp only [deS22r0, deS22r4, deS21r0] <;> ring1
  · simp only [deS22r0, deS22r4, deS21r0] <;> ring1
  · simp only [deS22r0, deS22r4, deS21r0] <;> ring1
  · simp only [deS22r0, deS22r4, deS21r0] <;> ring1
  · simp only [deS22r0, deS22r4, deS21r0] <;> ring1
  · simp only [deS22r0, deS22r4, deS21r0] <;> ring1
  · simp only [deS22r0, deS22r4, deS21r0] <;> ring1
  · simp only [deS22r0, deS22r4, deS21r0] <;> linear_combination ((1/2)) * hs
  · simp only [deS22r0, deS22r4, deS21r0] <;> linear_combination ((1/2)) * hs
  · simp only [deS22r0, deS22r4, deS21r0] <;> ring1
  · simp only [deS22r0, deS22r4, deS21r0] <;> ring1
  · simp only [deS22r0, deS22r4, deS21r0] <;> ring1
  · simp only [deS22r0, deS22r4, deS21r0] <;> ring1
  · simp only [deS22r1, deS22r5, deS21r1] <;> linear_combination (-(1/2)) * hs
  · simp only [deS22r1, deS22r5, deS21r1] <;> linear_combination ((1/2)) * hs
  · simp only [deS22r1, deS22r5, deS21r1] <;> ring1
  · simp only [deS22r1, deS22r5, deS21r1] <;> ring1
  · simp only [deS22r1, deS22r5, deS21r1] <;> ring1
  · simp only [deS22r1, deS22r5, deS21r1] <;> ring1
  · simp only [deS22r1, deS22r5, deS21r1] <;> ring1
  · simp only [deS22r1, deS22r5, deS21r1] <;> ring1
  · simp only [deS22r1, deS22r5, deS21r1] <;> ring1
  · simp only [deS22r1, deS22r5, deS21r1] <;> ring1
  · simp only [deS22r1, deS22r5, deS21r1] <;> linear_combination (-(1/2)) * hs
  · simp only [deS22r1, deS22r5, deS21r1] <;> linear_combination ((1/2)) * hs
  · simp only [deS22r1, deS22r5, deS21r1] <;> ring1
  · simp only [deS22r1, deS22r5, deS21r1] <;> ring1
  · simp only [deS22r1, deS22r5, deS21r1] <;> ring1
  · simp only [deS22r1, deS22r5, deS21r1] <;> ring1
  · simp only [deS22r2, deS22r6, deS21r2] <;> ring1
  · simp only [deS22r2, deS22r6, deS21r2] <;> ring1
  · simp only [deS22r2, deS22r6, deS21r2] <;> linear_combination (-(1/2)) * hs
  · simp only [deS22r2, deS22r6, deS21r2] <;> linear_combination (-(1/2)) * hs
  · simp only [deS22r2, deS22r6, deS21r2] <;> ring1
  · simp only [deS22r2, deS22r6, deS21r2] <;> ring1
  · simp only [deS22r2, deS22r6, deS21r2] <;> ring1
  · simp only [deS22r2, deS22r6, deS21r2] <;> ring1
  · simp only [deS22r2, deS22r6, deS21r2] <;> linear_combination (-(1/2)) * hs
  · simp only [deS22r2, deS22r6, deS21r2] <;> linear_combination (-(1/2)) * hs
  · simp only [deS22r2, deS22r6, deS21r2] <;> ring1
  · simp only [deS22r2, deS22r6, deS21r2] <;> ring1
  · simp only [deS22r2, deS22r6, deS21r2] <;> ring1
  · simp only [deS22r2, deS22r6, deS21r2] <;> ring1
  · simp only [deS22r2, deS22r6, deS21r2] <;> ring1
  · simp only [deS22r2, deS22r6, deS21r2] <;> ring1
  · simp only [deS22r3, deS22r7, deS21r3] <;> ring1
  · simp only [deS22r3, deS22r7, deS21r3] <;> ring1
  · simp only [deS22r3, deS22r7, deS21r3] <;> linear_combination ((1/2)) * hs
  · simp only [deS22r3, deS22r7, deS21r3] <;> linear_combination (-(1/2)) * hs
  · simp only [deS22r3, deS22r7, deS21r3] <;> ring1
  · simp only [deS22r3, deS22r7, deS21r3] <;> ring1
  · simp only [deS22r3, deS22r7, deS21r3] <;> ring1
  · simp only [deS22r3, deS22r7, deS21r3] <;> ring1
  · simp only [deS22r3, deS22r7, deS21r3] <;> linear_combination (-(1/2)) * hs
  · simp only [deS22r3, deS22r7, deS21r3] <;> linear_combination ((1/2)) * hs
  · simp only [deS22r3, deS22r7, deS21r3] <;> ring1
  · simp only [deS22r3, deS22r7, deS21r3] <;> ring1
  · simp only [deS22r3, deS22r7, deS21r3] <;> ring1
  · simp only [deS22r3, deS22r7, deS21r3] <;> ring1
  · simp only [deS22r3, deS22r7, deS21r3] <;> ring1
  · simp only [deS22r3, deS22r7, deS21r3] <;> ring1
  · simp only [deS22r0, deS22r4, deS21r4] <;> ring1
  · simp only [deS22r0, deS22r4, deS21r4] <;> ring1
  · simp only [deS22r0, deS22r4, deS21r4] <;> ring1
  · simp only [deS22r0, deS22r4, deS21r4] <;> ring1
  · simp only [deS22r0, deS22r4, deS21r4] <;> linear_combination ((1/2)) * hs
  · simp only [deS22r0, deS22r4, deS21r4] <;> linear_combination ((1/2)) * hs
  · simp only [deS22r0, deS22r4, deS21r4] <;> ring1
  · simp only [deS22r0, deS22r4, deS21r4] <;> ring1
  · simp only [deS22r0, deS22r4, deS21r4] <;> ring1
  · simp only [deS22r0, deS22r4, deS21r4] <;> ring1
  · simp only [deS22r0, deS22r4, deS21r4] <;> ring1
  · simp only [deS22r0, deS22r4, deS21r4] <;> ring1
  · simp only [deS22r0, deS22r4, deS21r4] <;> ring1
  · simp only [deS22r0, deS22r4, deS21r4] <;> ring1
  · simp only [deS22r0, deS22r4, deS21r4] <;> linear_combination (-(1/2)) * hs
  · simp only [deS22r0, deS22r4, deS21r4] <;> linear_combination (-(1/2)) * hs
  · simp only [deS22r1, deS22r5, deS21r5] <;> ring1
  · simp only [deS22r1, deS22r5, deS21r5] <;> ring1
  · simp only [deS22r1, deS22r5, deS21r5] <;> ring1
  · simp only [deS22r1, deS22r5, deS21r5] <;> ring1
  · simp only [deS22r1, deS22r5, deS21r5] <;> linear_combination ((1/2)) * hs
  · simp only [deS22r1, deS22r5, deS21r5] <;> linear_combination (-(1/2)) * hs
  · simp only [deS22r1, deS22r5, deS21r5] <;> ring1
  · simp only [deS22r1, deS22r5, deS21r5] <;> ring1
  · simp only [deS22r1, deS22r5, deS21r5] <;> ring1
  · simp only [deS22r1, deS22r5, deS21r5] <;> ring1
  · simp only [deS22r1, deS22r5, deS21r5] <;> ring1
  · simp only [deS22r1, deS22r5, deS21r5] <;> ring1
  · simp only [deS22r1, deS22r5, deS21r5] <;> ring1
  · simp only [deS22r1, deS22r5, deS21r5] <;> ring1
  · simp only [deS22r1, deS22r5, deS21r5] <;> linear_combination ((1/2)) * hs
  · simp only [deS22r1, deS22r5, deS21r5] <;> linear_combination (-(1/2)) * hs
  · simp only [deS22r2, deS22r6, deS21r6] <;> ring1
  · simp only [deS22r2, deS22r6, deS21r6] <;> ring1
  · simp only [deS22r2, deS22r6, deS21r6] <;> ring1
  · simp only [deS22r2, deS22r6, deS21r6] <;> ring1
  · simp only [deS22r2, deS22r6, deS21r6] <;> ring1
  · simp only [deS22r2, deS22r6, deS21r6] <;> ring1
  · simp only [deS22r2, deS22r6, deS21r6] <;> linear_combination ((1/2)) * hs
  · simp only [deS22r2, deS22r6, deS21r6] <;> linear_combination ((1/2)) * hs
  · simp only [deS22r2, deS22r6, deS21r6] <;> ring1
  · simp only [deS22r2, deS22r6, deS21r6] <;> ring1
  · simp only [deS22r2, deS22r6, deS21r6] <;> ring1
  · simp only [deS22r2, deS22r6, deS21r6] <;> ring1
  · simp only [deS22r2, deS22r6, deS21r6] <;> linear_combination ((1/2)) * hs
  · simp only [deS22r2, deS22r6, deS21r6] <;> linear_combination ((1/2)) * hs
  · simp only [deS22r2, deS22r6, deS21r6] <;> ring1
  · simp only [deS22r2, deS22r6, deS21r6] <;> ring1
  · simp only [deS22r3, deS22r7, deS21r7] <;> ring1
  · simp only [deS22r3, deS22r7, deS21r7] <;> ring1
  · simp only [deS22r3, deS22r7, deS21r7] <;> ring1
  · simp only [deS22r3, deS22r7, deS21r7] <;> ring1
  · simp only [deS22r3, deS22r7, deS21r7] <;> ring1
  · simp only [deS22r3, deS22r7, deS21r7] <;> ring1
  · simp only [deS22r3, deS22r7, deS21r7] <;> linear_combination (-(1/2)) * hs
  · simp only [deS22r3, deS22r7, deS21r7] <;> linear_combination ((1/2)) * hs
  · simp only [deS22r3, deS22r7, deS21r7] <;> ring1
  · simp only [deS22r3, deS22r7, deS21r7] <;> ring1
  · simp only [deS22r3, deS22r7, deS21r7] <;> ring1
  · simp only [deS22r3, deS22r7, deS21r7] <;> ring1
  · simp only [deS22r3, deS22r7, deS21r7] <;> linear_combination ((1/2)) * hs
  · simp only [deS22r3, deS22r7, deS21r7] <;> linear_combination (-(1/2)) * hs
  · simp only [deS22r3, deS22r7, deS21r7] <;> ring1
  · simp only [deS22r3, deS22r7, deS21r7] <;> ring1
  · simp only [deS22r12, deS22r8, deS21r8] <;> ring1
  · simp only [deS22r12, deS22r8, deS21r8] <;> ring1
  · simp only [deS22r12, deS22r8, deS21r8] <;> ring1
  · simp only [deS22r12, deS22r8, deS21r8] <;> ring1
  · simp only [deS22r12, deS22r8, deS21r8] <;> linear_combination ((1/2)) * hs
  · simp only [deS22r12, deS22r8, deS21r8] <;> linear_combination ((1/2)) * hs
  · simp only [deS22r12, deS22r8, deS21r8] <;> ring1
  · simp only [deS22r12, deS22r8, deS21r8] <;> ring1
  · simp only [deS22r12, deS22r8, deS21r8] <;> ring1
  · simp only [deS22r12, deS22r8, deS21r8] <;> ring1
  · simp only [deS22r12, deS22r8, deS21r8] <;> ring1
  · simp only [deS22r12, deS22r8, deS21r8] <;> ring1
  · simp only [deS22r12, deS22r8, deS21r8] <;> ring1
  · simp only [deS22r12, deS22r8, deS21r8] <;> ring1
  · simp only [deS22r12, deS22r8, deS21r8] <;> linear_combination ((1/2)) * hs
  · simp only [deS22r12, deS22r8, deS21r8] <;> linear_combination ((1/2)) * hs
  · simp only [deS22r13, deS22r9, deS21r9] <;> ring1
  · simp only [deS22r13, deS22r9, deS21r9] <;> ring1
  · simp only [deS22r13, deS22r9, deS21r9] <;> ring1
  · simp only [deS22r13, deS22r9, deS21r9] <;> ring1
  · simp only [deS22r13, deS22r9, deS21r9] <;> linear_combination ((1/2)) * hs
  · simp only [deS22r13, deS22r9, deS21r9] <;> linear_combination (-(1/2)) * hs
  · simp only [deS22r13, deS22r9, deS21r9] <;> ring1
  · simp only [deS22r13, deS22r9, deS21r9] <;> ring1
  · simp only [deS22r13, deS22r9, deS21r9] <;> ring1
  · simp only [deS22r13, deS22r9, deS21r9] <;> ring1
  · simp only [deS22r13, deS22r9, deS21r9] <;> ring1
  · simp only [deS22r13, deS22r9, deS21r9] <;> ring1
  · simp only [deS22r13, deS22r9, deS21r9] <;> ring1
  · simp only [deS22r13, deS22r9, deS21r9] <;> ring1
  · simp only [deS22r13, deS22r9, deS21r9] <;> linear_combination (-(1/2)) * hs
  · simp only [deS22r13, deS22r9, deS21r9] <;> linear_combination ((1/2)) * hs
  · simp only [deS22r10, deS22r14, deS21r10] <;> ring1
  · simp only [deS22r10, deS22r14, deS21r10] <;> ring1
  · simp only [deS22r10, deS22r14, deS21r10] <;> ring1
  · simp only [deS22r10, deS22r14, deS21r10] <;> ring1
  · simp only [deS22r10, deS22r14, deS21r10] <;> ring1
  · simp only [deS22r10, deS22r14, deS21r10] <;> ring1
  · simp only [deS22r10, deS22r14, deS21r10] <;> linear_combination ((1/2)) * hs
  · simp only [deS22r10, deS22r14, deS21r10] <;> linear_combination ((1/2)) * hs
  · simp only [deS22r10, deS22r14, deS21r10] <;> ring1
  · simp only [deS22r10, deS22r14, deS21r10] <;> ring1
  · simp only [deS22r10, deS22r14, deS21r10] <;> ring1
  · simp only [deS22r10, deS22r14, deS21r10] <;> ring1
  · simp only [deS22r10, deS22r14, deS21r10] <;> linear_combination (-(1/2)) * hs
  · simp only [deS22r10, deS22r14, deS21r10] <;> linear_combination (-(1/2)) * hs
  · simp only [deS22r10, deS22r14, deS21r10] <;> ring1
  · simp only [deS22r10, deS22r14, deS21r10] <;> ring1
  · simp only [deS22r11, deS22r15, deS21r11] <;> ring1
  · simp only [deS22r11, deS22r15, deS21r11] <;> ring1
  · simp only [deS22r11, deS22r15, deS21r11] <;> ring1
  · simp only [deS22r11, deS22r15, deS21r11] <;> ring1
  · simp only [deS22r11, deS22r15, deS21r11] <;> ring1
  · simp only [deS22r11, deS22r15, deS21r11] <;> ring1
  · simp only [deS22r11, deS22r15, deS21r11] <;> linear_combination (-(1/2)) * hs
  · simp only [deS22r11, deS22r15, deS21r11] <;> linear_combination ((1/2)) * hs
  · simp only [deS22r11, deS22r15, deS21r11] <;> ring1
  · simp only [deS22r11, deS22r15, deS21r11] <;> ring1
  · simp only [deS22r11, deS22r15, deS21r11] <;> ring1
  · simp only [deS22r11, deS22r15, deS21r11] <;> ring1
  · simp only [deS22r11, deS22r15, deS21r11] <;> linear_combination (-(1/2)) * hs
  · simp only [deS22r11, deS22r15, deS21r11] <;> linear_combination ((1/2)) * hs
  · simp only [deS22r11, deS22r15, deS21r11] <;> ring1
  · simp only [deS22r11, deS22r15, deS21r11] <;> ring1
  · simp only [deS22r12, deS22r8, deS21r12] <;> linear_combination (-(1/2)) * hs
  · simp only [deS22r12, deS22r8, deS21r12] <;> linear_combination (-(1/2)) * hs
  · simp only [deS22r12, deS22r8, deS21r12] <;> ring1
  · simp only [deS22r12, deS22r8, deS21r12] <;> ring1
  · simp only [deS22r12, deS22r8, deS21r12] <;> ring1
  · simp only [deS22r12, deS22r8, deS21r12] <;> ring1
  · simp only [deS22r12, deS22r8, deS21r12] <;> ring1
  · simp only [deS22r12, deS22r8, deS21r12] <;> ring1
  · simp only [deS22r12, deS22r8, deS21r12] <;> ring1
  · simp only [deS22r12, deS22r8, deS21r12] <;> ring1
  · simp only [deS22r12, deS22r8, deS21r12] <;> linear_combination (-(1/2)) * hs
  · simp only [deS22r12, deS22r8, deS21r12] <;> linear_combination (-(1/2)) * hs
  · simp only [deS22r12, deS22r8, deS21r12] <;> ring1
  · simp only [deS22r12, deS22r8, deS21r12] <;> ring1
  · simp only [deS22r12, deS22r8, deS21r12] <;> ring1
  · simp only [deS22r12, deS22r8, deS21r12] <;> ring1
  · simp only [deS22r13, deS22r9, deS21r13] <;> linear_combination (-(1/2)) * hs
  · simp only [deS22r13, deS22r9, deS21r13] <;> linear_combination ((1/2)) * hs
  · simp only [deS22r13, deS22r9, deS21r13] <;> ring1
  · simp only [deS22r13, deS22r9, deS21r13] <;> ring1
  · simp only [deS22r13, deS22r9, deS21r13] <;> ring1
  · simp only [deS22r13, deS22r9, deS21r13] <;> ring1
  · simp only [deS22r13, deS22r9, deS21r13] <;> ring1
  · simp only [deS22r13, deS22r9, deS21r13] <;> ring1
  · simp only [deS22r13, deS22r9, deS21r13] <;> ring1
  · simp only [deS22r13, deS22r9, deS21r13] <;> ring1
  · simp only [deS22r13, deS22r9, deS21r13] <;> linear_combination ((1/2)) * hs
  · simp only [deS22r13, deS22r9, deS21r13] <;> linear_combination (-(1/2)) * hs
  · simp only [deS22r13, deS22r9, deS21r13] <;> ring1
  · simp only [deS22r13, deS22r9, deS21r13] <;> ring1
  · simp only [deS22r13, deS22r9, deS21r13] <;> ring1
  · simp only [deS22r13, deS22r9, deS21r13] <;> ring1
  · simp only [deS22r10, deS22r14, deS21r14] <;> ring1
  · simp only [deS22r10, deS22r14, deS21r14] <;> ring1
  · simp only [deS22r10, deS22r14, deS21r14] <;> linear_combination (-(1/2)) * hs
  · simp only [deS22r10, deS22r14, deS21r14] <;> linear_combination (-(1/2)) * hs
  · simp only [deS22r10, deS22r14, deS21r14] <;> ring1
  · simp only [deS22r10, deS22r14, deS21r14] <;> ring1
  · simp only [deS22r10, deS22r14, deS21r14] <;> ring1
  · simp only [deS22r10, deS22r14, deS21r14] <;> ring1
  · simp only [deS22r10, deS22r14, deS21r14] <;> linear_combination ((1/2)) * hs
  · simp only [deS22r10, deS22r14, deS21r14] <;> linear_combination ((1/2)) * hs
  · simp only [deS22r10, deS22r14, deS21r14] <;> ring1
  · simp only [deS22r10, deS22r14, deS21r14] <;> ring1
  · simp only [deS22r10, deS22r14, deS21r14] <;> ring1
  · simp only [deS22r10, deS22r14, deS21r14] <;> ring1
  · simp only [deS22r10, deS22r14, deS21r14] <;> ring1
  · simp only [deS22r10, deS22r14, deS21r14] <;> ring1
  · simp only [deS22r11, deS22r15, deS21r15] <;> ring1
  · simp only [deS22r11, deS22r15, deS21r15] <;> ring1
  · simp only [deS22r11, deS22r15, deS21r15] <;> linear_combination ((1/2)) * hs
  · simp only [deS22r11, deS22r15, deS21r15] <;> linear_combination (-(1/2)) * hs
  · simp only [deS22r11, deS22r15, deS21r15] <;> ring1
  · simp only [deS22r11, deS22r15, deS21r15] <;> ring1
  · simp only [deS22r11, deS22r15, deS21r15] <;> ring1
  · simp only [deS22r11, deS22r15, deS21r15] <;> ring1
  · simp only [deS22r11, deS22r15, deS21r15] <;> linear_combination ((1/2)) * hs
  · simp only [deS22r11, deS22r15, deS21r15] <;> linear_combination (-(1/2)) * hs
  · simp only [deS22r11, deS22r15, deS21r15] <;> ring1
  · simp only [deS22r11, deS22r15, deS21r15] <;> ring1
  · simp only [deS22r11, deS22r15, deS21r15] <;> ring1
  · simp only [deS22r11, deS22r15, deS21r15] <;> ring1
  · simp only [deS22r11, deS22r15, deS21r15] <;> ring1
  · simp only [deS22r11, deS22r15, deS21r15] <;> ring1

set_option maxHeartbeats 4000000 in
/-- Chain step 20 of `de`. -/
theorem deStep20 {α : Type} [ Field α] [ CharZero α] (c s h : α) (hs : s ^ 2 = 1 - c ^ 2) (hh : h ^ 2 = 1 / 2) :
    lift2 0 3 cnotG * deS21 c s h = deS20 c s h := by
  rw [cnotRule_0_3]
  ext r k
  obtain ⟨x1, x2, x3, x4⟩ := r
  simp only [deS21, deS20, Matrix.of_apply]
  cases x1 <;> cases x2 <;> cases x3 <;> cases x4 <;> rfl

set_option maxHeartbeats 4000000 in
/-- Chain step 19 of `de`. -/
theorem deStep19 {α : Type} [ Field α] [ CharZero α] (c s h : α) (hs : s ^ 2 = 1 - c ^ 2) (hh : h ^ 2 = 1 / 2) :
    lift1 3 (hG h) * deS20 c s h = deS19 c s h := by
  rw [hRule_3]
  ext r k
  obtain ⟨x1, x2, x3, x4⟩ := r
  simp only [deS20, deS19, Matrix.of_apply]
  obtain ⟨y1, y2, y3, y4⟩ := k
  cases x1 <;> cases x2 <;> cases x3 <;> cases x4 <;>
    cases y1 <;> cases y2 <;> cases y3 <;> cases y4
  · simp only [deS21r0, deS21r1, deS19r0] <;> ring1
  · simp only [deS21r0, deS21r1, deS19r0] <;> ring1
  · simp only [deS21r0, deS21r1, deS19r0] <;> ring1
  · simp only [deS21r0, deS21r1, deS19r0] <;> ring1
  · simp only [deS21r0, deS21r1, deS19r0] <;> ring1
  · simp only [deS21r0, deS21r1, deS19r0] <;> ring1
  · simp only [deS21r0, deS21r1, deS19r0] <;> ring1
  · simp only [deS21r0, deS21r1, deS19r0] <;> ring1
  · simp only [deS21r0, deS21r1, deS19r0] <;> ring1
  · simp only [deS21r0, deS21r1, deS19r0] <;> ring1
  · simp only [deS21r0, deS21r1, deS19r0] <;> ring1
  · simp only [deS21r0, deS21r1, deS19r0] <;> ring1
  · simp only [deS21r0, deS21r1, deS19r0] <;> ring1
  · simp only [deS21r0, deS21r1, deS19r0] <;> ring1
  · simp only [deS21r0, deS21r1, deS19r0] <;> ring1
  · simp only [deS21r0, deS21r1, deS19r0] <;> ring1
  · simp only [deS21r0, deS21r1, deS19r1] <;> ring1
  · simp only [deS21r0, deS21r1, deS19r1] <;> ring1
  · simp only [deS21r0, deS21r1, deS19r1] <;> ring1
  · simp only [deS21r0, deS21r1, deS19r1] <;> ring1
  · simp only [deS21r0, deS21r1, deS19r1] <;> ring1
  · simp only [deS21r0, deS21r1, deS19r1] <;> ring1
  · simp only [deS21r0, deS21r1, deS19r1] <;> ring1
  · simp only [deS21r0, deS21r1, deS19r1] <;> ring1
  · simp only [deS21r0, deS21r1, deS19r1] <;> ring1
  · simp only [deS21r0, deS21r1, deS19r1] <;> ring1
  · simp only [deS21r0, deS21r1, deS19r1] <;> ring1
  · simp only [deS21r0, deS21r1, deS19r1] <;> ring1
  · simp only [deS21r0, deS21r1, deS19r1] <;> ring1
  · simp only [deS21r0, deS21r1, deS19r1] <;> ring1
  · simp only [deS21r0, deS21r1, deS19r1] <;> ring1
  · simp only [deS21r0, deS21r1, deS19r1] <;> ring1
  · simp only [deS21r2, deS21r3, deS19r2] <;> ring1
  · simp only [deS21r2, deS21r3, deS19r2] <;> ring1
  · simp only [deS21r2, deS21r3, deS19r2] <;> ring1
  · simp only [deS21r2, deS21r3, deS19r2] <;> ring1
  · simp only [deS21r2, deS21r3, deS19r2] <;> ring1
  · simp only [deS21r2, deS21r3, deS19r2] <;> ring1
  · simp only [deS21r2, deS21r3, deS19r2] <;> ring1
  · simp only [deS21r2, deS21r3, deS19r2] <;> ring1
  · simp only [deS21r2, deS21r3, deS19r2] <;> ring1
  · simp only [deS21r2, deS21r3, deS19r2] <;> ring1
  · simp only [deS21r2, deS21r3, deS19r2] <;> ring1
  · simp only [deS21r2, deS21r3, deS19r2] <;> ring1
  · simp only [deS21r2, deS21r3, deS19r2] <;> ring1
  · simp only [deS21r2, deS21r3, deS19r2] <;> ring1
  · simp only [deS21r2, deS21r3, deS19r2] <;> ring1
  · simp only [deS21r2, deS21r3, deS19r2] <;> ring1
  · simp only [deS21r2, deS21r3, deS19r3] <;> ring1
  · simp only [deS21r2, deS21r3, deS19r3] <;> ring1
  · simp only [deS21r2, deS21r3, deS19r3] <;> ring1
  · simp only [deS21r2, deS21r3, deS19r3] <;> ring1
  · simp only [deS21r2, deS21r3, deS19r3] <;> ring1
  · simp only [deS21r2, deS21r3, deS19r3] <;> ring1
  · simp only [deS21r2, deS21r3, deS19r3] <;> ring1
  · simp only [deS21r2, deS21r3, deS19r3] <;> ring1
  · simp only [deS21r2, deS21r3, deS19r3] <;> ring1
  · simp only [deS21r2, deS21r3, deS19r3] <;> ring1
  · simp only [deS21r2, deS21r3, deS19r3] <;> ring1
  · simp only [deS21r2, deS21r3, deS19r3] <;> ring1
  · simp only [deS21r2, deS21r3, deS19r3] <;> ring1
  · simp only [deS21r2, deS21r3, deS19r3] <;> ring1
  · simp only [deS21r2, deS21r3, deS19r3] <;> ring1
  · simp only [deS21r2, deS21r3, deS19r3] <;> ring1
  · simp only [deS21r4, deS21r5, deS19r4] <;> ring1
  · simp only [deS21r4, deS21r5, deS19r4] <;> ring1
  · simp only [deS21r4, deS21r5, deS19r4] <;> ring1
  · simp only [deS21r4, deS21r5, deS19r4] <;> ring1
  · simp only [deS21r4, deS21r5, deS19r4] <;> ring1
  · simp only [deS21r4, deS21r5, deS19r4] <;> ring1
  · simp only [deS21r4, deS21r5, deS19r4] <;> ring1
  · simp only [deS21r4, deS21r5, deS19r4] <;> ring1
  · simp only [deS21r4, deS21r5, deS19r4] <;> ring1
  · simp only [deS21r4, deS21r5, deS19r4] <;> ring1
  · simp only [deS21r4, deS21r5, deS19r4] <;> ring1
  · simp only [deS21r4, deS21r5, deS19r4] <;> ring1
  · simp only [deS21r4, deS21r5, deS19r4] <;> ring1
  · simp only [deS21r4, deS21r5, deS19r4] <;> ring1
  · simp only [deS21r4, deS21r5, deS19r4] <;> ring1
  · simp only [deS21r4, deS21r5, deS19r4] <;> ring1
  · simp only [deS21r4, deS21r5, deS19r5] <;> ring1
  · simp only [deS21r4, deS21r5, deS19r5] <;> ring1
  · simp only [deS21r4, deS21r5, deS19r5] <;> ring1
  · simp only [deS21r4, deS21r5, deS19r5] <;> ring1
  · simp only [deS21r4, deS21r5, deS19r5] <;> ring1
  · simp only [deS21r4, deS21r5, deS19r5] <;> ring1
  · simp only [deS21r4, deS21r5, deS19r5] <;> ring1
  · simp only [deS21r4, deS21r5, deS19r5] <;> ring1
  · simp only [deS21r4, deS21r5, deS19r5] <;> ring1
  · simp only [deS21r4, deS21r5, deS19r5] <;> ring1
  · simp only [deS21r4, deS21r5, deS19r5] <;> ring1
  · simp only [deS21r4, deS21r5, deS19r5] <;> ring1
  · simp only [deS21r4, deS21r5, deS19r5] <;> ring1
  · simp only [deS21r4, deS21r5, deS19r5] <;> ring1
  · simp only [deS21r4, deS21r5, deS19r5] <;> ring1
  · simp only [deS21r4, deS21r5, deS19r5] <;> ring1
  · simp only [deS21r6, deS21r7, deS19r6] <;> ring1
  · simp only [deS21r6, deS21r7, deS19r6] <;> ring1
  · simp only [deS21r6, deS21r7, deS19r6] <;> ring1
  · simp only [deS21r6, deS21r7, deS19r6] <;> ring1
  · simp only [deS21r6, deS21r7, deS19r6] <;> ring1
  · simp only [deS21r6, deS21r7, deS19r6] <;> ring1
  · simp only [deS21r6, deS21r7, deS19r6] <;> ring1
  · simp only [deS21r6, deS21r7, deS19r6] <;> ring1
  · simp only [deS21r6, deS21r7, deS19r6] <;> ring1
  · simp only [deS21r6, deS21r7, deS19r6] <;> ring1
  · simp only [deS21r6, deS21r7, deS19r6] <;> ring1
  · simp only [deS21r6, deS21r7, deS19r6] <;> ring1
  · simp only [deS21r6, deS21r7, deS19r6] <;> ring1
  · simp only [deS21r6, deS21r7, deS19r6] <;> ring1
  · simp only [deS21r6, deS21r7, deS19r6] <;> ring1
  · simp only [deS21r6, deS21r7, deS19r6] <;> ring1
  · simp only [deS21r6, deS21r7, deS19r7] <;> ring1
  · simp only [deS21r6, deS21r7, deS19r7] <;> ring1
  · simp only [deS21r6, deS21r7, deS19r7] <;> ring1
  · simp only [deS21r6, deS21r7, deS19r7] <;> ring1
  · simp only [deS21r6, deS21r7, deS19r7] <;> ring1
  · simp only [deS21r6, deS21r7, deS19r7] <;> ring1
  · simp only [deS21r6, deS21r7, deS19r7] <;> ring1
  · simp only [deS21r6, deS21r7, deS19r7] <;> ring1
  · simp only [deS21r6, deS21r7, deS19r7] <;> ring1
  · simp only [deS21r6, deS21r7, deS19r7] <;> ring1
  · simp only [deS21r6, deS21r7, deS19r7] <;> ring1
  · simp only [deS21r6, deS21r7, deS19r7] <;> ring1
  · simp only [deS21r6, deS21r7, deS19r7] <;> ring1
  · simp only [deS21r6, deS21r7, deS19r7] <;> ring1
  · simp only [deS21r6, deS21r7, deS19r7] <;> ring1
  · simp only [deS21r6, deS21r7, deS19r7] <;> ring1
  · simp only [deS21r8, deS21r9, deS19r8] <;> ring1
  · simp only [deS21r8, deS21r9, deS19r8] <;> ring1
  · simp only [deS21r8, deS21r9, deS19r8] <;> ring1
  · simp only [deS21r8, deS21r9, deS19r8] <;> ring1
  · simp only [deS21r8, deS21r9, deS19r8] <;> ring1
  · simp only [deS21r8, deS21r9, deS19r8] <;> ring1
  · simp only [deS21r8, deS21r9, deS19r8] <;> ring1
  · simp only [deS21r8, deS21r9, deS19r8] <;> ring1
  · simp only [deS21r8, deS21r9, deS19r8] <;> ring1
  · simp only [deS21r8, deS21r9, deS19r8] <;> ring1
  · simp only [deS21r8, deS21r9, deS19r8] <;> ring1
  · simp only [deS21r8, deS21r9, deS19r8] <;> ring1
  · simp only [deS21r8, deS21r9, deS19r8] <;> ring1
  · simp only [deS21r8, deS21r9, deS19r8] <;> ring1
  · simp only [deS21r8, deS21r9, deS19r8] <;> ring1
  · simp only [deS21r8, deS21r9, deS19r8] <;> ring1
  · simp only [deS21r8, deS21r9, deS19r9] <;> ring1
  · simp only [deS21r8, deS21r9, deS19r9] <;> ring1
  · simp only [deS21r8, deS21r9, deS19r9] <;> ring1
  · simp only [deS21r8, deS21r9, deS19r9] <;> ring1
  · simp only [deS21r8, deS21r9, deS19r9] <;> ring1
  · simp only [deS21r8, deS21r9, deS19r9] <;> ring1
  · simp only [deS21r8, deS21r9, deS19r9] <;> ring1
  · simp only [deS21r8, deS21r9, deS19r9] <;> ring1
  · simp only [deS21r8, deS21r9, deS19r9] <;> ring1
  · simp only [deS21r8, deS21r9, deS19r9] <;> ring1
  · simp only [deS21r8, deS21r9, deS19r9] <;> ring1
  · simp only [deS21r8, deS21r9, deS19r9] <;> ring1
  · simp only [deS21r8, deS21r9, deS19r9] <;> ring1
  · simp only [deS21r8, deS21r9, deS19r9] <;> ring1
  · simp only [deS21r8, deS21r9, deS19r9] <;> ring1
  · simp only [deS21r8, deS21r9, deS19r9] <;> ring1
  · simp only [deS21r10, deS21r11, deS19r10] <;> ring1
  · simp only [deS21r10, deS21r11, deS19r10] <;> ring1
  · simp only [deS21r10, deS21r11, deS19r10] <;> ring1
  · simp only [deS21r10, deS21r11, deS19r10] <;> ring1
  · simp only [deS21r10, deS21r11, deS19r10] <;> ring1
  · simp only [deS21r10, deS21r11, deS19r10] <;> ring1
  · simp only [deS21r10, deS21r11, deS19r10] <;> ring1
  · simp only [deS21r10, deS21r11, deS19r10] <;> ring1
  · simp only [deS21r10, deS21r11, deS19r10] <;> ring1
  · simp only [deS21r10, deS21r11, deS19r10] <;> ring1
  · simp only [deS21r10, deS21r11, deS19r10] <;> ring1
  · simp only [deS21r10, deS21r11, deS19r10] <;> ring1
  · simp only [deS21r10, deS21r11, deS19r10] <;> ring1
  · simp only [deS21r10, deS21r11, deS19r10] <;> ring1
  · simp only [deS21r10, deS21r11, deS19r10] <;> ring1
  · simp only [deS21r10, deS21r11, deS19r10] <;> ring1
  · simp only [deS21r10, deS21r11, deS19r11] <;> ring1
  · simp only [deS21r10, deS21r11, deS19r11] <;> ring1
  · simp only [deS21r10, deS21r11, deS19r11] <;> ring1
  · simp only [deS21r10, deS21r11, deS19r11] <;> ring1
  · simp only [deS21r10, deS21r11, deS19r11] <;> ring1
  · simp only [deS21r10, deS21r11, deS19r11] <;> ring1
  · simp only [deS21r10, deS21r11, deS19r11] <;> ring1
  · simp only [deS21r10, deS21r11, deS19r11] <;> ring1
  · simp only [deS21r10, deS21r11, deS19r11] <;> ring1
  · simp only [deS21r10, deS21r11, deS19r11] <;> ring1
  · simp only [deS21r10, deS21r11, deS19r11] <;> ring1
  · simp only [deS21r10, deS21r11, deS19r11] <;> ring1
  · simp only [deS21r10, deS21r11, deS19r11] <;> ring1
  · simp only [deS21r10, deS21r11, deS19r11] <;> ring1
  · simp only [deS21r10, deS21r11, deS19r11] <;> ring1
  · simp only [deS21r10, deS21r11, deS19r11] <;> ring1
  · simp only [deS21r12, deS21r13, deS19r12] <;> ring1
  · simp only [deS21r12, deS21r13, deS19r12] <;> ring1
  · simp only [deS21r12, deS21r13, deS19r12] <;> ring1
  · simp only [deS21r12, deS21r13, deS19r12] <;> ring1
  · simp only [deS21r12, deS21r13, deS19r12] <;> ring1
  · simp only [deS21r12, deS21r13, deS19r12] <;> ring1
  · simp only [deS21r12, deS21r13, deS19r12] <;> ring1
  · simp only [deS21r12, deS21r13, deS19r12] <;> ring1
  · simp only [deS21r12, deS21r13, deS19r12] <;> ring1
  · simp only [deS21r12, deS21r13, deS19r12] <;> ring1
  · simp only [deS21r12, deS21r13, deS19r12] <;> ring1
  · simp only [deS21r12, deS21r13, deS19r12] <;> ring1
  · simp only [deS21r12, deS21r13, deS19r12] <;> ring1
  · simp only [deS21r12, deS21r13, deS19r12] <;> ring1
  · simp only [deS21r12, deS21r13, deS19r12] <;> ring1
  · simp only [deS21r12, deS21r13, deS19r12] <;> ring1
  · simp only [deS21r12, deS21r13, deS19r13] <;> ring1
  · simp only [deS21r12, deS21r13, deS19r13] <;> ring1
  · simp only [deS21r12, deS21r13, deS19r13] <;> ring1
  · simp only [deS21r12, deS21r13, deS19r13] <;> ring1
  · simp only [deS21r12, deS21r13, deS19r13] <;> ring1
  · simp only [deS21r12, deS21r13, deS19r13] <;> ring1
  · simp only [deS21r12, deS21r13, deS19r13] <;> ring1
  · simp only [deS21r12, deS21r13, deS19r13] <;> ring1
  · simp only [deS21r12, deS21r13, deS19r13] <;> ring1
  · simp only [deS21r12, deS21r13, deS19r13] <;> ring1
  · simp only [deS21r12, deS21r13, deS19r13] <;> ring1
  · simp only [deS21r12, deS21r13, deS19r13] <;> ring1
  · simp only [deS21r12, deS21r13, deS19r13] <;> ring1
  · simp only [deS21r12, deS21r13, deS19r13] <;> ring1
  · simp only [deS21r12, deS21r13, deS19r13] <;> ring1
  · simp only [deS21r12, deS21r13, deS19r13] <;> ring1
  · simp only [deS21r14, deS21r15, deS19r14] <;> ring1
  · simp only [deS21r14, deS21r15, deS19r14] <;> ring1
  · simp only [deS21r14, deS21r15, deS19r14] <;> ring1
  · simp only [deS21r14, deS21r15, deS19r14] <;> ring1
  · simp only [deS21r14, deS21r15, deS19r14] <;> ring1
  · simp only [deS21r14, deS21r15, deS19r14] <;> ring1
  · simp only [deS21r14, deS21r15, deS19r14] <;> ring1
  · simp only [deS21r14, deS21r15, deS19r14] <;> ring1
  · simp only [deS21r14, deS21r15, deS19r14] <;> ring1
  · simp only [deS21r14, deS21r15, deS19r14] <;> ring1
  · simp only [deS21r14, deS21r15, deS19r14] <;> ring1
  · simp only [deS21r14, deS21r15, deS19r14] <;> ring1
  · simp only [deS21r14, deS21r15, deS19r14] <;> ring1
  · simp only [deS21r14, deS21r15, deS19r14] <;> ring1
  · simp only [deS21r14, deS21r15, deS19r14] <;> ring1
  · simp only [deS21r14, deS21r15, deS19r14] <;> ring1
  · simp only [deS21r14, deS21r15, deS19r15] <;> ring1
  · simp only [deS21r14, deS21r15, deS19r15] <;> ring1
  · simp only [deS21r14, deS21r15, deS19r15] <;> ring1
  · simp only [deS21r14, deS21r15, deS19r15] <;> ring1
  · simp only [deS21r14, deS21r15, deS19r15] <;> ring1
  · simp only [deS21r14, deS21r15, deS19r15] <;> ring1
  · simp only [deS21r14, deS21r15, deS19r15] <;> ring1
  · simp only [deS21r14, deS21r15, deS19r15] <;> ring1
  · simp only [deS21r14, deS21r15, deS19r15] <;> ring1
  · simp only [deS21r14, deS21r15, deS19r15] <;> ring1
  · simp only [deS21r14, deS21r15, deS19r15] <;> ring1
  · simp only [deS21r14, deS21r15, deS19r15] <;> ring1
  · simp only [deS21r14, deS21r15, deS19r15] <;> ring1
  · simp only [deS21r14, deS21r15, deS19r15] <;> ring1
  · simp only [deS21r14, deS21r15, deS19r15] <;> ring1
  · simp only [deS21r14, deS21r15, deS19r15] <;> ring1

set_option maxHeartbeats 4000000 in
/-- Chain step 18 of `de`. -/
theorem deStep18 {α : Type} [ Field α] [ CharZero α] (c s h : α) (hs : s ^ 2 = 1 - c ^ 2) (hh : h ^ 2 = 1 / 2) :
    lift2 3 1 cnotG * deS19 c s h = deS18 c s h := by
  rw [cnotRule_3_1]
  ext r k
  obtain ⟨x1, x2, x3, x4⟩ := r
  simp only [deS19, deS18, Matrix.of_apply]
  cases x1 <;> cases x2 <;> cases x3 <;> cases x4 <;> rfl

set_option maxHeartbeats 4000000 in
/-- Chain step 17 of `de`. -/
theorem deStep17 {α : Type} [ Field α] [ CharZero α] (c s h : α) (hs : s ^ 2 = 1 - c ^ 2) (hh : h ^ 2 = 1 / 2) :
    lift1 0 (ryG c s) * deS18 c s h = deS17 c s h := by
  rw [ryRule_0]
  ext r k
  obtain ⟨x1, x2, x3, x4⟩ := r
  simp only [deS18, deS17, Matrix.of_apply]
  obtain ⟨y1, y2, y3, y4⟩ := k
  cases x1 <;> cases x2 <;> cases x3 <;> cases x4 <;>
    cases y1 <;> cases y2 <;> cases y3 <;> cases y4
  · simp only [deS19r0, deS19r8, deS17r0] <;> linear_combination (-(2) * c * h) * hs
  · simp only [deS19r0, deS19r8, deS17r0] <;> ring1
  · simp only [deS19r0, deS19r8, deS17r0] <;> ring1
  · simp only [deS19r0, deS19r8, deS17r0] <;> ring1
  · simp only [deS19r0, deS19r8, deS17r0] <;> ring1
  · simp only [deS19r0, deS19r8, deS17r0] <;> ring1
  · simp only [deS19r0, deS19r8, deS17r0] <;> ring1
  · simp only [deS19r0, deS19r8, deS17r0] <;> ring1
  · simp only [deS19r0, deS19r8, deS17r0] <;> ring1
  · simp only [deS19r0, deS19r8, deS17r0] <;> ring1
  · simp only [deS19r0, deS19r8, deS17r0] <;> ring1
  · simp only [deS19r0, deS19r8, deS17r0] <;> ring1
  · simp only [deS19r0, deS19r8, deS17r0] <;> ring1
  · simp only [deS19r0, deS19r8, deS17r0] <;> ring1
  · simp only [deS19r0, deS19r8, deS17r0] <;> ring1
  · simp only [deS19r0, deS19r8, deS17r0] <;> ring1
  · simp only [deS19r13, deS19r5, deS17r1] <;> ring1
  · simp only [deS19r13, deS19r5, deS17r1] <;> ring1
  · simp only [deS19r13, deS19r5, deS17r1] <;> ring1
  · simp only [deS19r13, deS19r5, deS17r1] <;> ring1
  · simp only [deS19r13, deS19r5, deS17r1] <;> ring1
  · simp only [deS19r13, deS19r5, deS17r1] <;> ring1
  · simp only [deS19r13, deS19r5, deS17r1] <;> ring1
  · simp only [deS19r13, deS19r5, deS17r1] <;> ring1
  · simp only [deS19r13, deS19r5, deS17r1] <;> ring1
  · simp only [deS19r13, deS19r5, deS17r1] <;> ring1
  · simp only [deS19r13, deS19r5, deS17r1] <;> ring1
  · simp only [deS19r13, deS19r5, deS17r1] <;> ring1
  · simp only [deS19r13, deS19r5, deS17r1] <;> ring1
  · simp only [deS19r13, deS19r5, deS17r1] <;> ring1
  · simp only [deS19r13, deS19r5, deS17r1] <;> linear_combination (2 * c * h) * hs
  · simp only [deS19r13, deS19r5, deS17r1] <;> ring1
  · simp only [deS19r10, deS19r2, deS17r2] <;> ring1
  · simp only [deS19r10, deS19r2, deS17r2] <;> ring1
  · simp only [deS19r10, deS19r2, deS17r2] <;> ring1
  · simp only [deS19r10, deS19r2, deS17r2] <;> linear_combination (-(2) * c * h) * hs
  · simp only [deS19r10, deS19r2, deS17r2] <;> ring1
  · simp only [deS19r10, deS19r2, deS17r2] <;> ring1
  · simp only [deS19r10, deS19r2, deS17r2] <;> ring1
  · simp only [deS19r10, deS19r2, deS17r2] <;> ring1
  · simp only [deS19r10, deS19r2, deS17r2] <;> ring1
  · simp only [deS19r10, deS19r2, deS17r2] <;> ring1
  · simp only [deS19r10, deS19r2, deS17r2] <;> ring1
  · simp only [deS19r10, deS19r2, deS17r2] <;> ring1
  · simp only [deS19r10, deS19r2, deS17r2] <;> ring1
  · simp only [deS19r10, deS19r2, deS17r2] <;> ring1
  · simp only [deS19r10, deS19r2, deS17r2] <;> ring1
  · simp only [deS19r10, deS19r2, deS17r2] <;> ring1
  · simp only [deS19r15, deS19r7, deS17r3] <;> ring1
  · simp only [deS19r15, deS19r7, deS17r3] <;> ring1
  · simp only [deS19r15, deS19r7, deS17r3] <;> ring1
  · simp only [deS19r15, deS19r7, deS17r3] <;> ring1
  · simp only [deS19r15, deS19r7, deS17r3] <;> ring1
  · simp only [deS19r15, deS19r7, deS17r3] <;> ring1
  · simp only [deS19r15, deS19r7, deS17r3] <;> ring1
  · simp only [deS19r15, deS19r7, deS17r3] <;> ring1
  · simp only [deS19r15, deS19r7, deS17r3] <;> ring1
  · simp only [deS19r15, deS19r7, deS17r3] <;> ring1
  · simp only [deS19r15, deS19r7, deS17r3] <;> ring1
  · simp only [deS19r15, deS19r7, deS17r3] <;> ring1
  · simp only [deS19r15, deS19r7, deS17r3] <;> ring1
  · simp only [deS19r15, deS19r7, deS17r3] <;> linear_combination (-(2) * c * h) * hs
  · simp only [deS19r15, deS19r7, deS17r3] <;> ring1
  · simp only [deS19r15, deS19r7, deS17r3] <;> ring1
  · simp only [deS19r12, deS19r4, deS17r4] <;> ring1
  · simp only [deS19r12, deS19r4, deS17r4] <;> ring1
  · simp only [deS19r12, deS19r4, deS17r4] <;> ring1
  · simp only [deS19r12, deS19r4, deS17r4] <;> ring1
  · simp only [deS19r12, deS19r4, deS17r4] <;> ring1
  · simp only [deS19r12, deS19r4, deS17r4] <;> ring1
  · simp only [deS19r12, deS19r4, deS17r4] <;> ring1
  · simp only [deS19r12, deS19r4, deS17r4] <;> ring1
  · simp only [deS19r12, deS19r4, deS17r4] <;> ring1
  · simp only [deS19r12, deS19r4, deS17r4] <;> ring1
  · simp only [deS19r12, deS19r4, deS17r4] <;> ring1
  · simp only [deS19r12, deS19r4, deS17r4] <;> ring1
  · simp only [deS19r12, deS19r4, deS17r4] <;> ring1
  · simp only [deS19r12, deS19r4, deS17r4] <;> ring1
  · simp only [deS19r12, deS19r4, deS17r4] <;> ring1
  · simp only [deS19r12, deS19r4, deS17r4] <;> linear_combination (-(2) * c * h) * hs
  · simp only [deS19r1, deS19r9, deS17r5] <;> ring1
  · simp only [deS19r1, deS19r9, deS17r5] <;> linear_combination (2 * c * h) * hs
  · simp only [deS19r1, deS19r9, deS17r5] <;> ring1
  · simp only [deS19r1, deS19r9, deS17r5] <;> ring1
  · simp only [deS19r1, deS19r9, deS17r5] <;> ring1
  · simp only [deS19r1, deS19r9, deS17r5] <;> ring1
  · simp only [deS19r1, deS19r9, deS17r5] <;> ring1
  · simp only [deS19r1, deS19r9, deS17r5] <;> ring1
  · simp only [deS19r1, deS19r9, deS17r5] <;> ring1
  · simp only [deS19r1, deS19r9, deS17r5] <;> ring1
  · simp only [deS19r1, deS19r9, deS17r5] <;> ring1
  · simp only [deS19r1, deS19r9, deS17r5] <;> ring1
  · simp only [deS19r1, deS19r9, deS17r5] <;> ring1
  · simp only [deS19r1, deS19r9, deS17r5] <;> ring1
  · simp only [deS19r1, deS19r9, deS17r5] <;> ring1
  · simp only [deS19r1, deS19r9, deS17r5] <;> ring1
  · simp only [deS19r14, deS19r6, deS17r6] <;> ring1
  · simp only [deS19r14, deS19r6, deS17r6] <;> ring1
  · simp only [deS19r14, deS19r6, deS17r6] <;> ring1
  · simp only [deS19r14, deS19r6, deS17r6] <;> ring1
  · simp only [deS19r14, deS19r6, deS17r6] <;> ring1
  · simp only [deS19r14, deS19r6, deS17r6] <;> ring1
  · simp only [deS19r14, deS19r6, deS17r6] <;> ring1
  · simp only [deS19r14, deS19r6, deS17r6] <;> ring1
  · simp only [deS19r14, deS19r6, deS17r6] <;> ring1
  · simp only [deS19r14, deS19r6, deS17r6] <;> ring1
  · simp only [deS19r14, deS19r6, deS17r6] <;> ring1
  · simp only [deS19r14, deS19r6, deS17r6] <;> ring1
  · simp only [deS19r14, deS19r6, deS17r6] <;> linear_combination (2 * c * h) * hs
  · simp only [deS19r14, deS19r6, deS17r6] <;> ring1
  · simp only [deS19r14, deS19r6, deS17r6] <;> ring1
  · simp only [deS19r14, deS19r6, deS17r6] <;> ring1
  · simp only [deS19r11, deS19r3, deS17r7] <;> ring1
  · simp only [deS19r11, deS19r3, deS17r7] <;> ring1
  · simp only [deS19r11, deS19r3, deS17r7] <;> linear_combination (2 * c * h) * hs
  · simp only [deS19r11, deS19r3, deS17r7] <;> ring1
  · simp only [deS19r11, deS19r3, deS17r7] <;> ring1
  · simp only [deS19r11, deS19r3, deS17r7] <;> ring1
  · simp only [deS19r11, deS19r3, deS17r7] <;> ring1
  · simp only [deS19r11, deS19r3, deS17r7] <;> ring1
  · simp only [deS19r11, deS19r3, deS17r7] <;> ring1
  · simp only [deS19r11, deS19r3, deS17r7] <;> ring1
  · simp only [deS19r11, deS19r3, deS17r7] <;> ring1
  · simp only [deS19r11, deS19r3, deS17r7] <;> ring1
  · simp only [deS19r11, deS19r3, deS17r7] <;> ring1
  · simp only [deS19r11, deS19r3, deS17r7] <;> ring1
  · simp only [deS19r11, deS19r3, deS17r7] <;> ring1
  · simp only [deS19r11, deS19r3, deS17r7] <;> ring1
  · simp only [deS19r0, deS19r8, deS17r8] <;> ring1
  · simp only [deS19r0, deS19r8, deS17r8] <;> ring1
  · simp only [deS19r0, deS19r8, deS17r8] <;> ring1
  · simp only [deS19r0, deS19r8, deS17r8] <;> ring1
  · simp only [deS19r0, deS19r8, deS17r8] <;> ring1
  · simp only [deS19r0, deS19r8, deS17r8] <;> ring1
  · simp only [deS19r0, deS19r8, deS17r8] <;> ring1
  · simp only [deS19r0, deS19r8, deS17r8] <;> ring1
  · simp only [deS19r0, deS19r8, deS17r8] <;> ring1
  · simp only [deS19r0, deS19r8, deS17r8] <;> ring1
  · simp only [deS19r0, deS19r8, deS17r8] <;> ring1
  · simp only [deS19r0, deS19r8, deS17r8] <;> ring1
  · simp only [deS19r0, deS19r8, deS17r8] <;> ring1
  · simp only [deS19r0, deS19r8, deS17r8] <;> ring1
  · simp only [deS19r0, deS19r8, deS17r8] <;> ring1
  · simp only [deS19r0, deS19r8, deS17r8] <;> linear_combination (2 * c * h) * hs
  · simp only [deS19r13, deS19r5, deS17r9] <;> ring1
  · simp only [deS19r13, deS19r5, deS17r9] <;> linear_combination (-(2) * c * h) * hs
  · simp only [deS19r13, deS19r5, deS17r9] <;> ring1
  · simp only [deS19r13, deS19r5, deS17r9] <;> ring1
  · simp only [deS19r13, deS19r5, deS17r9] <;> ring1
  · simp only [deS19r13, deS19r5, deS17r9] <;> ring1
  · simp only [deS19r13, deS19r5, deS17r9] <;> ring1
  · simp only [deS19r13, deS19r5, deS17r9] <;> ring1
  · simp only [deS19r13, deS19r5, deS17r9] <;> ring1
  · simp only [deS19r13, deS19r5, deS17r9] <;> ring1
  · simp only [deS19r13, deS19r5, deS17r9] <;> ring1
  · simp only [deS19r13, deS19r5, deS17r9] <;> ring1
  · simp only [deS19r13, deS19r5, deS17r9] <;> ring1
  · simp only [deS19r13, deS19r5, deS17r9] <;> ring1
  · simp only [deS19r13, deS19r5, deS17r9] <;> ring1
  · simp only [deS19r13, deS19r5, deS17r9] <;> ring1
  · simp only [deS19r10, deS19r2, deS17r10] <;> ring1
  · simp only [deS19r10, deS19r2, deS17r10] <;> ring1
  · simp only [deS19r10, deS19r2, deS17r10] <;> ring1
  · simp only [deS19r10, deS19r2, deS17r10] <;> ring1
  · simp only [deS19r10, deS19r2, deS17r10] <;> ring1
  · simp only [deS19r10, deS19r2, deS17r10] <;> ring1
  · simp only [deS19r10, deS19r2, deS17r10] <;> ring1
  · simp only [deS19r10, deS19r2, deS17r10] <;> ring1
  · simp only [deS19r10, deS19r2, deS17r10] <;> ring1
  · simp only [deS19r10, deS19r2, deS17r10] <;> ring1
  · simp only [deS19r10, deS19r2, deS17r10] <;> ring1
  · simp only [deS19r10, deS19r2, deS17r10] <;> ring1
  · simp only [deS19r10, deS19r2, deS17r10] <;> linear_combination (-(2) * c * h) * hs
  · simp only [deS19r10, deS19r2, deS17r10] <;> ring1
  · simp only [deS19r10, deS19r2, deS17r10] <;> ring1
  · simp only [deS19r10, deS19r2, deS17r10] <;> ring1
  · simp only [deS19r15, deS19r7, deS17r11] <;> ring1
  · simp only [deS19r15, deS19r7, deS17r11] <;> ring1
  · simp only [deS19r15, deS19r7, deS17r11] <;> linear_combination (-(2) * c * h) * hs
  · simp only [deS19r15, deS19r7, deS17r11] <;> ring1
  · simp only [deS19r15, deS19r7, deS17r11] <;> ring1
  · simp only [deS19r15, deS19r7, deS17r11] <;> ring1
  · simp only [deS19r15, deS19r7, deS17r11] <;> ring1
  · simp only [deS19r15, deS19r7, deS17r11] <;> ring1
  · simp only [deS19r15, deS19r7, deS17r11] <;> ring1
  · simp only [deS19r15, deS19r7, deS17r11] <;> ring1
  · simp only [deS19r15, deS19r7, deS17r11] <;> ring1
  · simp only [deS19r15, deS19r7, deS17r11] <;> ring1
  · simp only [deS19r15, deS19r7, deS17r11] <;> ring1
  · simp only [deS19r15, deS19r7, deS17r11] <;> ring1
  · simp only [deS19r15, deS19r7, deS17r11] <;> ring1
  · simp only [deS19r15, deS19r7, deS17r11] <;> ring1
  · simp only [deS19r12, deS19r4, deS17r12] <;> linear_combination (-(2) * c * h) * hs
  · simp only [deS19r12, deS19r4, deS17r12] <;> ring1
  · simp only [deS19r12, deS19r4, deS17r12] <;> ring1
  · simp only [deS19r12, deS19r4, deS17r12] <;> ring1
  · simp only [deS19r12, deS19r4, deS17r12] <;> ring1
  · simp only [deS19r12, deS19r4, deS17r12] <;> ring1
  · simp only [deS19r12, deS19r4, deS17r12] <;> ring1
  · simp only [deS19r12, deS19r4, deS17r12] <;> ring1
  · simp only [deS19r12, deS19r4, deS17r12] <;> ring1
  · simp only [deS19r12, deS19r4, deS17r12] <;> ring1
  · simp only [deS19r12, deS19r4, deS17r12] <;> ring1
  · simp only [deS19r12, deS19r4, deS17r12] <;> ring1
  · simp only [deS19r12, deS19r4, deS17r12] <;> ring1
  · simp only [deS19r12, deS19r4, deS17r12] <;> ring1
  · simp only [deS19r12, deS19r4, deS17r12] <;> ring1
  · simp only [deS19r12, deS19r4, deS17r12] <;> ring1
  · simp only [deS19r1, deS19r9, deS17r13] <;> ring1
  · simp only [deS19r1, deS19r9, deS17r13] <;> ring1
  · simp only [deS19r1, deS19r9, deS17r13] <;> ring1
  · simp only [deS19r1, deS19r9, deS17r13] <;> ring1
  · simp only [deS19r1, deS19r9, deS17r13] <;> ring1
  · simp only [deS19r1, deS19r9, deS17r13] <;> ring1
  · simp only [deS19r1, deS19r9, deS17r13] <;> ring1
  · simp only [deS19r1, deS19r9, deS17r13] <;> ring1
  · simp only [deS19r1, deS19r9, deS17r13] <;> ring1
  · simp only [deS19r1, deS19r9, deS17r13] <;> ring1
  · simp only [deS19r1, deS19r9, deS17r13] <;> ring1
  · simp only [deS19r1, deS19r9, deS17r13] <;> ring1
  · simp only [deS19r1, deS19r9, deS17r13] <;> ring1
  · simp only [deS19r1, deS19r9, deS17r13] <;> ring1
  · simp only [deS19r1, deS19r9, deS17r13] <;> linear_combination (2 * c * h) * hs
  · simp only [deS19r1, deS19r9, deS17r13] <;> ring1
  · simp only [deS19r14, deS19r6, deS17r14] <;> ring1
  · simp only [deS19r14, deS19r6, deS17r14] <;> ring1
  · simp only [deS19r14, deS19r6, deS17r14] <;> ring1
  · simp only [deS19r14, deS19r6, deS17r14] <;> linear_combination (-(2) * c * h) * hs
  · simp only [deS19r14, deS19r6, deS17r14] <;> ring1
  · simp only [deS19r14, deS19r6, deS17r14] <;> ring1
  · simp only [deS19r14, deS19r6, deS17r14] <;> ring1
  · simp only [deS19r14, deS19r6, deS17r14] <;> ring1
  · simp only [deS19r14, deS19r6, deS17r14] <;> ring1
  · simp only [deS19r14, deS19r6, deS17r14] <;> ring1
  · simp only [deS19r14, deS19r6, deS17r14] <;> ring1
  · simp only [deS19r14, deS19r6, deS17r14] <;> ring1
  · simp only [deS19r14, deS19r6, deS17r14] <;> ring1
  · simp only [deS19r14, deS19r6, deS17r14] <;> ring1
  · simp only [deS19r14, deS19r6, deS17r14] <;> ring1
  · simp only [deS19r14, deS19r6, deS17r14] <;> ring1
  · simp only [deS19r11, deS19r3, deS17r15] <;> ring1
  · simp only [deS19r11, deS19r3, deS17r15] <;> ring1
  · simp only [deS19r11, deS19r3, deS17r15] <;> ring1
  · simp only [deS19r11, deS19r3, deS17r15] <;> ring1
  · simp only [deS19r11, deS19r3, deS17r15] <;> ring1
  · simp only [deS19r11, deS19r3, deS17r15] <;> ring1
  · simp only [deS19r11, deS19r3, deS17r15] <;> ring1
  · simp only [deS19r11, deS19r3, deS17r15] <;> ring1
  · simp only [deS19r11, deS19r3, deS17r15] <;> ring1
  · simp only [deS19r11, deS19r3, deS17r15] <;> ring1
  · simp only [deS19r11, deS19r3, deS17r15] <;> ring1
  · simp only [deS19r11, deS19r3, deS17r15] <;> ring1
  · simp only [deS19r11, deS19r3, deS17r15] <;> ring1
  · simp only [deS19r11, deS19r3, deS17r15] <;> linear_combination (-(2) * c * h) * hs
  · simp only [deS19r11, deS19r3, deS17r15] <;> ring1
  · simp only [deS19r11, deS19r3, deS17r15] <;> ring1

set_option maxHeartbeats 4000000 in
/-- Chain step 16 of `de`. -/
theorem deStep16 {α : Type} [ Field α] [ CharZero α] (c s h : α) (hs : s ^ 2 = 1 - c ^ 2) (hh : h ^ 2 = 1 / 2) :
    lift1 1 (ryG c (-s)) * deS17 c s h = deS16 c s h := by
  rw [ryRule_1]
  ext r k
  obtain ⟨x1, x2, x3, x4⟩ := r
  simp only [deS17, deS16, Matrix.of_apply]
  obtain ⟨y1, y2, y3, y4⟩ := k
  cases x1 <;> cases x2 <;> cases x3 <;> cases x4 <;>
    cases y1 <;> cases y2 <;> cases y3 <;> cases y4
  · simp only [deS17r0, deS17r4, deS16r0] <;> linear_combination (-(4) * c^2 * h + h) * hs
  · simp only [deS17r0, deS17r4, deS16r0] <;> ring1
  · simp only [deS17r0, deS17r4, deS16r0] <;> ring1
  · simp only [deS17r0, deS17r4, deS16r0] <;> ring1
  · simp only [deS17r0, deS17r4, deS16r0] <;> ring1
  · simp only [deS17r0, deS17r4, deS16r0] <;> ring1
  · simp only [deS17r0, deS17r4, deS16r0] <;> ring1
  · simp only [deS17r0, deS17r4, deS16r0] <;> ring1
  · simp only [deS17r0, deS17r4, deS16r0] <;> ring1
  · simp only [deS17r0, deS17r4, deS16r0] <;> ring1
  · simp only [deS17r0, deS17r4, deS16r0] <;> ring1
  · simp only [deS17r0, deS17r4, deS16r0] <;> linear_combination (h) * hs
  · simp only [deS17r0, deS17r4, deS16r0] <;> ring1
  · simp only [deS17r0, deS17r4, deS16r0] <;> ring1
  · simp only [deS17r0, deS17r4, deS16r0] <;> ring1
  · simp only [deS17r0, deS17r4, deS16r0] <;> ring1
  · simp only [deS17r1, deS17r5, deS16r1] <;> ring1
  · simp only [deS17r1, deS17r5, deS16r1] <;> ring1
  · simp only [deS17r1, deS17r5, deS16r1] <;> ring1
  · simp only [deS17r1, deS17r5, deS16r1] <;> ring1
  · simp only [deS17r1, deS17r5, deS16r1] <;> ring1
  · simp only [deS17r1, deS17r5, deS16r1] <;> linear_combination (h) * hs
  · simp only [deS17r1, deS17r5, deS16r1] <;> ring1
  · simp only [deS17r1, deS17r5, deS16r1] <;> ring1
  · simp only [deS17r1, deS17r5, deS16r1] <;> ring1
  · simp only [deS17r1, deS17r5, deS16r1] <;> ring1
  · simp only [deS17r1, deS17r5, deS16r1] <;> ring1
  · simp only [deS17r1, deS17r5, deS16r1] <;> ring1
  · simp only [deS17r1, deS17r5, deS16r1] <;> ring1
  · simp only [deS17r1, deS17r5, deS16r1] <;> ring1
  · simp only [deS17r1, deS17r5, deS16r1] <;> linear_combination (h) * hs
  · simp only [deS17r1, deS17r5, deS16r1] <;> ring1
  · simp only [deS17r2, deS17r6, deS16r2] <;> ring1
  · simp only [deS17r2, deS17r6, deS16r2] <;> ring1
  · simp only [deS17r2, deS17r6, deS16r2] <;> ring1
  · simp only [deS17r2, deS17r6, deS16r2] <;> linear_combination (-(4) * c^2 * h + h) * hs
  · simp only [deS17r2, deS17r6, deS16r2] <;> ring1
  · simp only [deS17r2, deS17r6, deS16r2] <;> ring1
  · simp only [deS17r2, deS17r6, deS16r2] <;> ring1
  · simp only [deS17r2, deS17r6, deS16r2] <;> ring1
  · simp only [deS17r2, deS17r6, deS16r2] <;> linear_combination (-h) * hs
  · simp only [deS17r2, deS17r6, deS16r2] <;> ring1
  · simp only [deS17r2, deS17r6, deS16r2] <;> ring1
  · simp only [deS17r2, deS17r6, deS16r2] <;> ring1
  · simp only [deS17r2, deS17r6, deS16r2] <;> ring1
  · simp only [deS17r2, deS17r6, deS16r2] <;> ring1
  · simp only [deS17r2, deS17r6, deS16r2] <;> ring1
  · simp only [deS17r2, deS17r6, deS16r2] <;> ring1
  · simp only [deS17r3, deS17r7, deS16r3] <;> ring1
  · simp only [deS17r3, deS17r7, deS16r3] <;> ring1
  · simp only [deS17r3, deS17r7, deS16r3] <;> ring1
  · simp only [deS17r3, deS17r7, deS16r3] <;> ring1
  · simp only [deS17r3, deS17r7, deS16r3] <;> ring1
  · simp only [deS17r3, deS17r7, deS16r3] <;> ring1
  · simp only [deS17r3, deS17r7, deS16r3] <;> linear_combination (h) * hs
  · simp only [deS17r3, deS17r7, deS16r3] <;> ring1
  · simp only [deS17r3, deS17r7, deS16r3] <;> ring1
  · simp only [deS17r3, deS17r7, deS16r3] <;> ring1
  · simp only [deS17r3, deS17r7, deS16r3] <;> ring1
  · simp only [deS17r3, deS17r7, deS16r3] <;> ring1
  · simp only [deS17r3, deS17r7, deS16r3] <;> ring1
  · simp only [deS17r3, deS17r7, deS16r3] <;> linear_combination (-h) * hs
  · simp only [deS17r3, deS17r7, deS16r3] <;> ring1
  · simp only [deS17r3, deS17r7, deS16r3] <;> ring1
  · simp only [deS17r0, deS17r4, deS16r4] <;> ring1
  · simp only [deS17r0, deS17r4, deS16r4] <;> ring1
  · simp only [deS17r0, deS17r4, deS16r4] <;> ring1
  · simp only [deS17r0, deS17r4, deS16r4] <;> ring1
  · simp only [deS17r0, deS17r4, deS16r4] <;> linear_combination (h) * hs
  · simp only [deS17r0, deS17r4, deS16r4] <;> ring1
  · simp only [deS17r0, deS17r4, deS16r4] <;> ring1
  · simp only [deS17r0, deS17r4, deS16r4] <;> ring1
  · simp only [deS17r0, deS17r4, deS16r4] <;> ring1
  · simp only [deS17r0, deS17r4, deS16r4] <;> ring1
  · simp only [deS17r0, deS17r4, deS16r4] <;> ring1
  · simp only [deS17r0, deS17r4, deS16r4] <;> ring1
  · simp only [deS17r0, deS17r4, deS16r4] <;> ring1
  · simp only [deS17r0, deS17r4, deS16r4] <;> ring1
  · simp only [deS17r0, deS17r4, deS16r4] <;> ring1
  · simp only [deS17r0, deS17r4, deS16r4] <;> linear_combination (-(4) * c^2 * h + h) * hs
  · simp only [deS17r1, deS17r5, deS16r5] <;> ring1
  · simp only [deS17r1, deS17r5, deS16r5] <;> linear_combination (h) * hs
  · simp only [deS17r1, deS17r5, deS16r5] <;> ring1
  · simp only [deS17r1, deS17r5, deS16r5] <;> ring1
  · simp only [deS17r1, deS17r5, deS16r5] <;> ring1
  · simp only [deS17r1, deS17r5, deS16r5] <;> ring1
  · simp only [deS17r1, deS17r5, deS16r5] <;> ring1
  · simp only [deS17r1, deS17r5, deS16r5] <;> ring1
  · simp only [deS17r1, deS17r5, deS16r5] <;> ring1
  · simp only [deS17r1, deS17r5, deS16r5] <;> ring1
  · simp only [deS17r1, deS17r5, deS16r5] <;> linear_combination (h) * hs
  · simp only [deS17r1, deS17r5, deS16r5] <;> ring1
  · simp only [deS17r1, deS17r5, deS16r5] <;> ring1
  · simp only [deS17r1, deS17r5, deS16r5] <;> ring1
  · simp only [deS17r1, deS17r5, deS16r5] <;> ring1
  · simp only [deS17r1, deS17r5, deS16r5] <;> ring1
  · simp only [deS17r2, deS17r6, deS16r6] <;> ring1
  · simp only [deS17r2, deS17r6, deS16r6] <;> ring1
  · simp only [deS17r2, deS17r6, deS16r6] <;> ring1
  · simp only [deS17r2, deS17r6, deS16r6] <;> ring1
  · simp only [deS17r2, deS17r6, deS16r6] <;> ring1
  · simp only [deS17r2, deS17r6, deS16r6] <;> ring1
  · simp only [deS17r2, deS17r6, deS16r6] <;> ring1
  · simp only [deS17r2, deS17r6, deS16r6] <;> linear_combination (h) * hs
  · simp only [deS17r2, deS17r6, deS16r6] <;> ring1
  · simp only [deS17r2, deS17r6, deS16r6] <;> ring1
  · simp only [deS17r2, deS17r6, deS16r6] <;> ring1
  · simp only [deS17r2, deS17r6, deS16r6] <;> ring1
  · simp only [deS17r2, deS17r6, deS16r6] <;> linear_combination (4 * c^2 * h + -h) * hs
  · simp only [deS17r2, deS17r6, deS16r6] <;> ring1
  · simp only [deS17r2, deS17r6, deS16r6] <;> ring1
  · simp only [deS17r2, deS17r6, deS16r6] <;> ring1
  · simp only [deS17r3, deS17r7, deS16r7] <;> ring1
  · simp only [deS17r3, deS17r7, deS16r7] <;> ring1
  · simp only [deS17r3, deS17r7, deS16r7] <;> linear_combination (h) * hs
  · simp only [deS17r3, deS17r7, deS16r7] <;> ring1
  · simp only [deS17r3, deS17r7, deS16r7] <;> ring1
  · simp only [deS17r3, deS17r7, deS16r7] <;> ring1
  · simp only [deS17r3, deS17r7, deS16r7] <;> ring1
  · simp only [deS17r3, deS17r7, deS16r7] <;> ring1
  · simp only [deS17r3, deS17r7, deS16r7] <;> ring1
  · simp only [deS17r3, deS17r7, deS16r7] <;> linear_combination (-h) * hs
  · simp only [deS17r3, deS17r7, deS16r7] <;> ring1
  · simp only [deS17r3, deS17r7, deS16r7] <;> ring1
  · simp only [deS17r3, deS17r7, deS16r7] <;> ring1
  · simp only [deS17r3, deS17r7, deS16r7] <;> ring1
  · simp only [deS17r3, deS17r7, deS16r7] <;> ring1
  · simp only [deS17r3, deS17r7, deS16r7] <;> ring1
  · simp only [deS17r12, deS17r8, deS16r8] <;> ring1
  · simp only [deS17r12, deS17r8, deS16r8] <;> ring1
  · simp only [deS17r12, deS17r8, deS16r8] <;> ring1
  · simp only [deS17r12, deS17r8, deS16r8] <;> ring1
  · simp only [deS17r12, deS17r8, deS16r8] <;> linear_combination (h) * hs
  · simp only [deS17r12, deS17r8, deS16r8] <;> ring1
  · simp only [deS17r12, deS17r8, deS16r8] <;> ring1
  · simp only [deS17r12, deS17r8, deS16r8] <;> ring1
  · simp only [deS17r12, deS17r8, deS16r8] <;> ring1
  · simp only [deS17r12, deS17r8, deS16r8] <;> ring1
  · simp only [deS17r12, deS17r8, deS16r8] <;> ring1
  · simp only [deS17r12, deS17r8, deS16r8] <;> ring1
  · simp only [deS17r12, deS17r8, deS16r8] <;> ring1
  · simp only [deS17r12, deS17r8, deS16r8] <;> ring1
  · simp only [deS17r12, deS17r8, deS16r8] <;> ring1
  · simp only [deS17r12, deS17r8, deS16r8] <;> linear_combination (4 * c^2 * h + -h) * hs
  · simp only [deS17r13, deS17r9, deS16r9] <;> ring1
  · simp only [deS17r13, deS17r9, deS16r9] <;> linear_combination (-h) * hs
  · simp only [deS17r13, deS17r9, deS16r9] <;> ring1
  · simp only [deS17r13, deS17r9, deS16r9] <;> ring1
  · simp only [deS17r13, deS17r9, deS16r9] <;> ring1
  · simp only [deS17r13, deS17r9, deS16r9] <;> ring1
  · simp only [deS17r13, deS17r9, deS16r9] <;> ring1
  · simp only [deS17r13, deS17r9, deS16r9] <;> ring1
  · simp only [deS17r13, deS17r9, deS16r9] <;> ring1
  · simp only [deS17r13, deS17r9, deS16r9] <;> ring1
  · simp only [deS17r13, deS17r9, deS16r9] <;> linear_combination (h) * hs
  · simp only [deS17r13, deS17r9, deS16r9] <;> ring1
  · simp only [deS17r13, deS17r9, deS16r9] <;> ring1
  · simp only [deS17r13, deS17r9, deS16r9] <;> ring1
  · simp only [deS17r13, deS17r9, deS16r9] <;> ring1
  · simp only [deS17r13, deS17r9, deS16r9] <;> ring1
  · simp only [deS17r10, deS17r14, deS16r10] <;> ring1
  · simp only [deS17r10, deS17r14, deS16r10] <;> ring1
  · simp only [deS17r10, deS17r14, deS16r10] <;> ring1
  · simp only [deS17r10, deS17r14, deS16r10] <;> ring1
  · simp only [deS17r10, deS17r14, deS16r10] <;> ring1
  · simp only [deS17r10, deS17r14, deS16r10] <;> ring1
  · simp only [deS17r10, deS17r14, deS16r10] <;> ring1
  · simp only [deS17r10, deS17r14, deS16r10] <;> linear_combination (h) * hs
  · simp only [deS17r10, deS17r14, deS16r10] <;> ring1
  · simp only [deS17r10, deS17r14, deS16r10] <;> ring1
  · simp only [deS17r10, deS17r14, deS16r10] <;> ring1
  · simp only [deS17r10, deS17r14, deS16r10] <;> ring1
  · simp only [deS17r10, deS17r14, deS16r10] <;> linear_combination (-(4) * c^2 * h + h) * hs
  · simp only [deS17r10, deS17r14, deS16r10] <;> ring1
  · simp only [deS17r10, deS17r14, deS16r10] <;> ring1
  · simp only [deS17r10, deS17r14, deS16r10] <;> ring1
  · simp only [deS17r11, deS17r15, deS16r11] <;> ring1
  · simp only [deS17r11, deS17r15, deS16r11] <;> ring1
  · simp only [deS17r11, deS17r15, deS16r11] <;> linear_combination (-h) * hs
  · simp only [deS17r11, deS17r15, deS16r11] <;> ring1
  · simp only [deS17r11, deS17r15, deS16r11] <;> ring1
  · simp only [deS17r11, deS17r15, deS16r11] <;> ring1
  · simp only [deS17r11, deS17r15, deS16r11] <;> ring1
  · simp only [deS17r11, deS17r15, deS16r11] <;> ring1
  · simp only [deS17r11, deS17r15, deS16r11] <;> ring1
  · simp only [deS17r11, deS17r15, deS16r11] <;> linear_combination (-h) * hs
  · simp only [deS17r11, deS17r15, deS16r11] <;> ring1
  · simp only [deS17r11, deS17r15, deS16r11] <;> ring1
  · simp only [deS17r11, deS17r15, deS16r11] <;> ring1
  · simp only [deS17r11, deS17r15, deS16r11] <;> ring1
  · simp only [deS17r11, deS17r15, deS16r11] <;> ring1
  · simp only [deS17r11, deS17r15, deS16r11] <;> ring1
  · simp only [deS17r12, deS17r8, deS16r12] <;> linear_combination (-(4) * c^2 * h + h) * hs
  · simp only [deS17r12, deS17r8, deS16r12] <;> ring1
  · simp only [deS17r12, deS17r8, deS16r12] <;> ring1
  · simp only [deS17r12, deS17r8, deS16r12] <;> ring1
  · simp only [deS17r12, deS17r8, deS16r12] <;> ring1
  · simp only [deS17r12, deS17r8, deS16r12] <;> ring1
  · simp only [deS17r12, deS17r8, deS16r12] <;> ring1
  · simp only [deS17r12, deS17r8, deS16r12] <;> ring1
  · simp only [deS17r12, deS17r8, deS16r12] <;> ring1
  · simp only [deS17r12, deS17r8, deS16r12] <;> ring1
  · simp only [deS17r12, deS17r8, deS16r12] <;> ring1
  · simp only [deS17r12, deS17r8, deS16r12] <;> linear_combination (-h) * hs
  · simp only [deS17r12, deS17r8, deS16r12] <;> ring1
  · simp only [deS17r12, deS17r8, deS16r12] <;> ring1
  · simp only [deS17r12, deS17r8, deS16r12] <;> ring1
  · simp only [deS17r12, deS17r8, deS16r12] <;> ring1
  · simp only [deS17r13, deS17r9, deS16r13] <;> ring1
  · simp only [deS17r13, deS17r9, deS16r13] <;> ring1
  · simp only [deS17r13, deS17r9, deS16r13] <;> ring1
  · simp only [deS17r13, deS17r9, deS16r13] <;> ring1
  · simp only [deS17r13, deS17r9, deS16r13] <;> ring1
  · simp only [deS17r13, deS17r9, deS16r13] <;> linear_combination (-h) * hs
  · simp only [deS17r13, deS17r9, deS16r13] <;> ring1
  · simp only [deS17r13, deS17r9, deS16r13] <;> ring1
  · simp only [deS17r13, deS17r9, deS16r13] <;> ring1
  · simp only [deS17r13, deS17r9, deS16r13] <;> ring1
  · simp only [deS17r13, deS17r9, deS16r13] <;> ring1
  · simp only [deS17r13, deS17r9, deS16r13] <;> ring1
  · simp only [deS17r13, deS17r9, deS16r13] <;> ring1
  · simp only [deS17r13, deS17r9, deS16r13] <;> ring1
  · simp only [deS17r13, deS17r9, deS16r13] <;> linear_combination (h) * hs
  · simp only [deS17r13, deS17r9, deS16r13] <;> ring1
  · simp only [deS17r10, deS17r14, deS16r14] <;> ring1
  · simp only [deS17r10, deS17r14, deS16r14] <;> ring1
  · simp only [deS17r10, deS17r14, deS16r14] <;> ring1
  · simp only [deS17r10, deS17r14, deS16r14] <;> linear_combination (-(4) * c^2 * h + h) * hs
  · simp only [deS17r10, deS17r14, deS16r14] <;> ring1
  · simp only [deS17r10, deS17r14, deS16r14] <;> ring1
  · simp only [deS17r10, deS17r14, deS16r14] <;> ring1
  · simp only [deS17r10, deS17r14, deS16r14] <;> ring1
  · simp only [deS17r10, deS17r14, deS16r14] <;> linear_combination (h) * hs
  · simp only [deS17r10, deS17r14, deS16r14] <;> ring1
  · simp only [deS17r10, deS17r14, deS16r14] <;> ring1
  · simp only [deS17r10, deS17r14, deS16r14] <;> ring1
  · simp only [deS17r10, deS17r14, deS16r14] <;> ring1
  · simp only [deS17r10, deS17r14, deS16r14] <;> ring1
  · simp only [deS17r10, deS17r14, deS16r14] <;> ring1
  · simp only [deS17r10, deS17r14, deS16r14] <;> ring1
  · simp only [deS17r11, deS17r15, deS16r15] <;> ring1
  · simp only [deS17r11, deS17r15, deS16r15] <;> ring1
  · simp only [deS17r11, deS17r15, deS16r15] <;> ring1
  · simp only [deS17r11, deS17r15, deS16r15] <;> ring1
  · simp only [deS17r11, deS17r15, deS16r15] <;> ring1
  · simp only [deS17r11, deS17r15, deS16r15] <;> ring1
  · simp only [deS17r11, deS17r15, deS16r15] <;> linear_combination (-h) * hs
  · simp only [deS17r11, deS17r15, deS16r15] <;> ring1
  · simp only [deS17r11, deS17r15, deS16r15] <;> ring1
  · simp only [deS17r11, deS17r15, deS16r15] <;> ring1
  · simp only [deS17r11, deS17r15, deS16r15] <;> ring1
  · simp only [deS17r11, deS17r15, deS16r15] <;> ring1
  · simp only [deS17r11, deS17r15, deS16r15] <;> ring1
  · simp only [deS17r11, deS17r15, deS16r15] <;> linear_combination (-h) * hs
  · simp only [deS17r11, deS17r15, deS16r15] <;> ring1
  · simp only [deS17r11, deS17r15, deS16r15] <;> ring1

set_option maxHeartbeats 4000000 in
/-- Chain step 15 of `de`. -/
theorem deStep15 {α : Type} [ Field α] [ CharZero α] (c s h : α) (hs : s ^ 2 = 1 - c ^ 2) (hh : h ^ 2 = 1 / 2) :
    lift2 2 0 cnotG * deS16 c s h = deS15 c s h := by
  rw [cnotRule_2_0]
  ext r k
  obtain ⟨x1, x2, x3, x4⟩ := r
  simp only [deS16, deS15, Matrix.of_apply]
  cases x1 <;> cases x2 <;> cases x3 <;> cases x4 <;> rfl

set_option maxHeartbeats 4000000 in
/-- Chain step 14 of `de`. -/
theorem deStep14 {α : Type} [ Field α] [ CharZero α] (c s h : α) (hs : s ^ 2 = 1 - c ^ 2) (hh : h ^ 2 = 1 / 2) :
    lift2 2 1 cnotG * deS15 c s h = deS14 c s h := by
  rw [cnotRule_2_1]
  ext r k
  obtain ⟨x1, x2, x3, x4⟩ := r
  simp only [deS15, deS14, Matrix.of_apply]
  cases x1 <;> cases x2 <;> cases x3 <;> cases x4 <;> rfl

set_option maxHeartbeats 4000000 in
/-- Chain step 13 of `de`. -/
theorem deStep13 {α : Type} [ Field α] [ CharZero α] (c s h : α) (hs : s ^ 2 = 1 - c ^ 2) (hh : h ^ 2 = 1 / 2) :
    lift1 0 (ryG c (-s)) * deS14 c s h = deS13 c s h := by
  rw [ryRule_0]
  ext r k
  obtain ⟨x1, x2, x3, x4⟩ := r
  simp only [deS14, deS13, Matrix.of_apply]
  obtain ⟨y1, y2, y3, y4⟩ := k
  cases x1 <;> cases x2 <;> cases x3 <;> cases x4 <;>
    cases y1 <;> cases y2 <;> cases y3 <;> cases y4
  · simp only [deS16r0, deS16r8, deS13r0] <;> linear_combination (8 * c^3 * h + -(4) * c * h) * hs
  · simp only [deS16r0, deS16r8, deS13r0] <;> ring1
  · simp only [deS16r0, deS16r8, deS13r0] <;> ring1
  · simp only [deS16r0, deS16r8, deS13r0] <;> ring1
  · simp only [deS16r0, deS16r8, deS13r0] <;> ring1
  · simp only [deS16r0, deS16r8, deS13r0] <;> ring1
  · simp only [deS16r0, deS16r8, deS13r0] <;> ring1
  · simp only [deS16r0, deS16r8, deS13r0] <;> ring1
  · simp only [deS16r0, deS16r8, deS13r0] <;> ring1
  · simp only [deS16r0, deS16r8, deS13r0] <;> ring1
  · simp only [deS16r0, deS16r8, deS13r0] <;> ring1
  · simp only [deS16r0, deS16r8, deS13r0] <;> ring1
  · simp only [deS16r0, deS16r8, deS13r0] <;> ring1
  · simp only [deS16r0, deS16r8, deS13r0] <;> ring1
  · simp only [deS16r0, deS16r8, deS13r0] <;> ring1
  · simp only [deS16r0, deS16r8, deS13r0] <;> ring1
  · simp only [deS16r1, deS16r9, deS13r1] <;> ring1
  · simp only [deS16r1, deS16r9, deS13r1] <;> ring1
  · simp only [deS16r1, deS16r9, deS13r1] <;> ring1
  · simp only [deS16r1, deS16r9, deS13r1] <;> ring1
  · simp only [deS16r1, deS16r9, deS13r1] <;> ring1
  · simp only [deS16r1, deS16r9, deS13r1] <;> ring1
  · simp only [deS16r1, deS16r9, deS13r1] <;> ring1
  · simp only [deS16r1, deS16r9, deS13r1] <;> ring1
  · simp only [deS16r1, deS16r9, deS13r1] <;> ring1
  · simp only [deS16r1, deS16r9, deS13r1] <;> ring1
  · simp only [deS16r1, deS16r9, deS13r1] <;> ring1
  · simp only [deS16r1, deS16r9, deS13r1] <;> ring1
  · simp only [deS16r1, deS16r9, deS13r1] <;> ring1
  · simp only [deS16r1, deS16r9, deS13r1] <;> ring1
  · simp only [deS16r1, deS16r9, deS13r1] <;> ring1
  · simp only [deS16r1, deS16r9, deS13r1] <;> ring1
  · simp only [deS16r14, deS16r6, deS13r2] <;> ring1
  · simp only [deS16r14, deS16r6, deS13r2] <;> ring1
  · simp only [deS16r14, deS16r6, deS13r2] <;> ring1
  · simp only [deS16r14, deS16r6, deS13r2] <;> linear_combination (-(8) * c^3 * h + 4 * c * h) * hs
  · simp only [deS16r14, deS16r6, deS13r2] <;> ring1
  · simp only [deS16r14, deS16r6, deS13r2] <;> ring1
  · simp only [deS16r14, deS16r6, deS13r2] <;> ring1
  · simp only [deS16r14, deS16r6, deS13r2] <;> ring1
  · simp only [deS16r14, deS16r6, deS13r2] <;> ring1
  · simp only [deS16r14, deS16r6, deS13r2] <;> ring1
  · simp only [deS16r14, deS16r6, deS13r2] <;> ring1
  · simp only [deS16r14, deS16r6, deS13r2] <;> ring1
  · simp only [deS16r14, deS16r6, deS13r2] <;> ring1
  · simp only [deS16r14, deS16r6, deS13r2] <;> ring1
  · simp only [deS16r14, deS16r6, deS13r2] <;> ring1
  · simp only [deS16r14, deS16r6, deS13r2] <;> ring1
  · simp only [deS16r15, deS16r7, deS13r3] <;> ring1
  · simp only [deS16r15, deS16r7, deS13r3] <;> ring1
  · simp only [deS16r15, deS16r7, deS13r3] <;> ring1
  · simp only [deS16r15, deS16r7, deS13r3] <;> ring1
  · simp only [deS16r15, deS16r7, deS13r3] <;> ring1
  · simp only [deS16r15, deS16r7, deS13r3] <;> ring1
  · simp only [deS16r15, deS16r7, deS13r3] <;> ring1
  · simp only [deS16r15, deS16r7, deS13r3] <;> ring1
  · simp only [deS16r15, deS16r7, deS13r3] <;> ring1
  · simp only [deS16r15, deS16r7, deS13r3] <;> ring1
  · simp only [deS16r15, deS16r7, deS13r3] <;> ring1
  · simp only [deS16r15, deS16r7, deS13r3] <;> ring1
  · simp only [deS16r15, deS16r7, deS13r3] <;> ring1
  · simp only [deS16r15, deS16r7, deS13r3] <;> ring1
  · simp only [deS16r15, deS16r7, deS13r3] <;> ring1
  · simp only [deS16r15, deS16r7, deS13r3] <;> ring1
  · simp only [deS16r12, deS16r4, deS13r4] <;> ring1
  · simp only [deS16r12, deS16r4, deS13r4] <;> ring1
  · simp only [deS16r12, deS16r4, deS13r4] <;> ring1
  · simp only [deS16r12, deS16r4, deS13r4] <;> ring1
  · simp only [deS16r12, deS16r4, deS13r4] <;> ring1
  · simp only [deS16r12, deS16r4, deS13r4] <;> ring1
  · simp only [deS16r12, deS16r4, deS13r4] <;> ring1
  · simp only [deS16r12, deS16r4, deS13r4] <;> ring1
  · simp only [deS16r12, deS16r4, deS13r4] <;> ring1
  · simp only [deS16r12, deS16r4, deS13r4] <;> ring1
  · simp only [deS16r12, deS16r4, deS13r4] <;> ring1
  · simp only [deS16r12, deS16r4, deS13r4] <;> ring1
  · simp only [deS16r12, deS16r4, deS13r4] <;> ring1
  · simp only [deS16r12, deS16r4, deS13r4] <;> ring1
  · simp only [deS16r12, deS16r4, deS13r4] <;> ring1
  · simp only [deS16r12, deS16r4, deS13r4] <;> linear_combination (8 * c^3 * h + -(4) * c * h) * hs
  · simp only [deS16r13, deS16r5, deS13r5] <;> ring1
  · simp only [deS16r13, deS16r5, deS13r5] <;> ring1
  · simp only [deS16r13, deS16r5, deS13r5] <;> ring1
  · simp only [deS16r13, deS16r5, deS13r5] <;> ring1
  · simp only [deS16r13, deS16r5, deS13r5] <;> ring1
  · simp only [deS16r13, deS16r5, deS13r5] <;> ring1
  · simp only [deS16r13, deS16r5, deS13r5] <;> ring1
  · simp only [deS16r13, deS16r5, deS13r5] <;> ring1
  · simp only [deS16r13, deS16r5, deS13r5] <;> ring1
  · simp only [deS16r13, deS16r5, deS13r5] <;> ring1
  · simp only [deS16r13, deS16r5, deS13r5] <;> ring1
  · simp only [deS16r13, deS16r5, deS13r5] <;> ring1
  · simp only [deS16r13, deS16r5, deS13r5] <;> ring1
  · simp only [deS16r13, deS16r5, deS13r5] <;> ring1
  · simp only [deS16r13, deS16r5, deS13r5] <;> ring1
  · simp only [deS16r13, deS16r5, deS13r5] <;> ring1
  · simp only [deS16r10, deS16r2, deS13r6] <;> ring1
  · simp only [deS16r10, deS16r2, deS13r6] <;> ring1
  · simp only [deS16r10, deS16r2, deS13r6] <;> ring1
  · simp only [deS16r10, deS16r2, deS13r6] <;> ring1
  · simp only [deS16r10, deS16r2, deS13r6] <;> ring1
  · simp only [deS16r10, deS16r2, deS13r6] <;> ring1
  · simp only [deS16r10, deS16r2, deS13r6] <;> ring1
  · simp only [deS16r10, deS16r2, deS13r6] <;> ring1
  · simp only [deS16r10, deS16r2, deS13r6] <;> ring1
  · simp only [deS16r10, deS16r2, deS13r6] <;> ring1
  · simp only [deS16r10, deS16r2, deS13r6] <;> ring1
  · simp only [deS16r10, deS16r2, deS13r6] <;> ring1
  · simp only [deS16r10, deS16r2, deS13r6] <;> linear_combination (-(8) * c^3 * h + 4 * c * h) * hs
  · simp only [deS16r10, deS16r2, deS13r6] <;> ring1
  · simp only [deS16r10, deS16r2, deS13r6] <;> ring1
  · simp only [deS16r10, deS16r2, deS13r6] <;> ring1
  · simp only [deS16r11, deS16r3, deS13r7] <;> ring1
  · simp only [deS16r11, deS16r3, deS13r7] <;> ring1
  · simp only [deS16r11, deS16r3, deS13r7] <;> ring1
  · simp only [deS16r11, deS16r3, deS13r7] <;> ring1
  · simp only [deS16r11, deS16r3, deS13r7] <;> ring1
  · simp only [deS16r11, deS16r3, deS13r7] <;> ring1
  · simp only [deS16r11, deS16r3, deS13r7] <;> ring1
  · simp only [deS16r11, deS16r3, deS13r7] <;> ring1
  · simp only [deS16r11, deS16r3, deS13r7] <;> ring1
  · simp only [deS16r11, deS16r3, deS13r7] <;> ring1
  · simp only [deS16r11, deS16r3, deS13r7] <;> ring1
  · simp only [deS16r11, deS16r3, deS13r7] <;> ring1
  · simp only [deS16r11, deS16r3, deS13r7] <;> ring1
  · simp only [deS16r11, deS16r3, deS13r7] <;> ring1
  · simp only [deS16r11, deS16r3, deS13r7] <;> ring1
  · simp only [deS16r11, deS16r3, deS13r7] <;> ring1
  · simp only [deS16r0, deS16r8, deS13r8] <;> ring1
  · simp only [deS16r0, deS16r8, deS13r8] <;> ring1
  · simp only [deS16r0, deS16r8, deS13r8] <;> ring1
  · simp only [deS16r0, deS16r8, deS13r8] <;> ring1
  · simp only [deS16r0, deS16r8, deS13r8] <;> ring1
  · simp only [deS16r0, deS16r8, deS13r8] <;> ring1
  · simp only [deS16r0, deS16r8, deS13r8] <;> ring1
  · simp only [deS16r0, deS16r8, deS13r8] <;> ring1
  · simp only [deS16r0, deS16r8, deS13r8] <;> ring1
  · simp only [deS16r0, deS16r8, deS13r8] <;> ring1
  · simp only [deS16r0, deS16r8, deS13r8] <;> ring1
  · simp only [deS16r0, deS16r8, deS13r8] <;> ring1
  · simp only [deS16r0, deS16r8, deS13r8] <;> ring1
  · simp only [deS16r0, deS16r8, deS13r8] <;> ring1
  · simp only [deS16r0, deS16r8, deS13r8] <;> ring1
  · simp only [deS16r0, deS16r8, deS13r8] <;> linear_combination (-(8) * c^3 * h + 4 * c * h) * hs
  · simp only [deS16r1, deS16r9, deS13r9] <;> ring1
  · simp only [deS16r1, deS16r9, deS13r9] <;> ring1
  · simp only [deS16r1, deS16r9, deS13r9] <;> ring1
  · simp only [deS16r1, deS16r9, deS13r9] <;> ring1
  · simp only [deS16r1, deS16r9, deS13r9] <;> ring1
  · simp only [deS16r1, deS16r9, deS13r9] <;> ring1
  · simp only [deS16r1, deS16r9, deS13r9] <;> ring1
  · simp only [deS16r1, deS16r9, deS13r9] <;> ring1
  · simp only [deS16r1, deS16r9, deS13r9] <;> ring1
  · simp only [deS16r1, deS16r9, deS13r9] <;> ring1
  · simp only [deS16r1, deS16r9, deS13r9] <;> ring1
  · simp only [deS16r1, deS16r9, deS13r9] <;> ring1
  · simp only [deS16r1, deS16r9, deS13r9] <;> ring1
  · simp only [deS16r1, deS16r9, deS13r9] <;> ring1
  · simp only [deS16r1, deS16r9, deS13r9] <;> ring1
  · simp only [deS16r1, deS16r9, deS13r9] <;> ring1
  · simp only [deS16r14, deS16r6, deS13r10] <;> ring1
  · simp only [deS16r14, deS16r6, deS13r10] <;> ring1
  · simp only [deS16r14, deS16r6, deS13r10] <;> ring1
  · simp only [deS16r14, deS16r6, deS13r10] <;> ring1
  · simp only [deS16r14, deS16r6, deS13r10] <;> ring1
  · simp only [deS16r14, deS16r6, deS13r10] <;> ring1
  · simp only [deS16r14, deS16r6, deS13r10] <;> ring1
  · simp only [deS16r14, deS16r6, deS13r10] <;> ring1
  · simp only [deS16r14, deS16r6, deS13r10] <;> ring1
  · simp only [deS16r14, deS16r6, deS13r10] <;> ring1
  · simp only [deS16r14, deS16r6, deS13r10] <;> ring1
  · simp only [deS16r14, deS16r6, deS13r10] <;> ring1
  · simp only [deS16r14, deS16r6, deS13r10] <;> linear_combination (8 * c^3 * h + -(4) * c * h) * hs
  · simp only [deS16r14, deS16r6, deS13r10] <;> ring1
  · simp only [deS16r14, deS16r6, deS13r10] <;> ring1
  · simp only [deS16r14, deS16r6, deS13r10] <;> ring1
  · simp only [deS16r15, deS16r7, deS13r11] <;> ring1
  · simp only [deS16r15, deS16r7, deS13r11] <;> ring1
  · simp only [deS16r15, deS16r7, deS13r11] <;> ring1
  · simp only [deS16r15, deS16r7, deS13r11] <;> ring1
  · simp only [deS16r15, deS16r7, deS13r11] <;> ring1
  · simp only [deS16r15, deS16r7, deS13r11] <;> ring1
  · simp only [deS16r15, deS16r7, deS13r11] <;> ring1
  · simp only [deS16r15, deS16r7, deS13r11] <;> ring1
  · simp only [deS16r15, deS16r7, deS13r11] <;> ring1
  · simp only [deS16r15, deS16r7, deS13r11] <;> ring1
  · simp only [deS16r15, deS16r7, deS13r11] <;> ring1
  · simp only [deS16r15, deS16r7, deS13r11] <;> ring1
  · simp only [deS16r15, deS16r7, deS13r11] <;> ring1
  · simp only [deS16r15, deS16r7, deS13r11] <;> ring1
  · simp only [deS16r15, deS16r7, deS13r11] <;> ring1
  · simp only [deS16r15, deS16r7, deS13r11] <;> ring1
  · simp only [deS16r12, deS16r4, deS13r12] <;> linear_combination (8 * c^3 * h + -(4) * c * h) * hs
  · simp only [deS16r12, deS16r4, deS13r12] <;> ring1
  · simp only [deS16r12, deS16r4, deS13r12] <;> ring1
  · simp only [deS16r12, deS16r4, deS13r12] <;> ring1
  · simp only [deS16r12, deS16r4, deS13r12] <;> ring1
  · simp only [deS16r12, deS16r4, deS13r12] <;> ring1
  · simp only [deS16r12, deS16r4, deS13r12] <;> ring1
  · simp only [deS16r12, deS16r4, deS13r12] <;> ring1
  · simp only [deS16r12, deS16r4, deS13r12] <;> ring1
  · simp only [deS16r12, deS16r4, deS13r12] <;> ring1
  · simp only [deS16r12, deS16r4, deS13r12] <;> ring1
  · simp only [deS16r12, deS16r4, deS13r12] <;> ring1
  · simp only [deS16r12, deS16r4, deS13r12] <;> ring1
  · simp only [deS16r12, deS16r4, deS13r12] <;> ring1
  · simp only [deS16r12, deS16r4, deS13r12] <;> ring1
  · simp only [deS16r12, deS16r4, deS13r12] <;> ring1
  · simp only [deS16r13, deS16r5, deS13r13] <;> ring1
  · simp only [deS16r13, deS16r5, deS13r13] <;> ring1
  · simp only [deS16r13, deS16r5, deS13r13] <;> ring1
  · simp only [deS16r13, deS16r5, deS13r13] <;> ring1
  · simp only [deS16r13, deS16r5, deS13r13] <;> ring1
  · simp only [deS16r13, deS16r5, deS13r13] <;> ring1
  · simp only [deS16r13, deS16r5, deS13r13] <;> ring1
  · simp only [deS16r13, deS16r5, deS13r13] <;> ring1
  · simp only [deS16r13, deS16r5, deS13r13] <;> ring1
  · simp only [deS16r13, deS16r5, deS13r13] <;> ring1
  · simp only [deS16r13, deS16r5, deS13r13] <;> ring1
  · simp only [deS16r13, deS16r5, deS13r13] <;> ring1
  · simp only [deS16r13, deS16r5, deS13r13] <;> ring1
  · simp only [deS16r13, deS16r5, deS13r13] <;> ring1
  · simp only [deS16r13, deS16r5, deS13r13] <;> ring1
  · simp only [deS16r13, deS16r5, deS13r13] <;> ring1
  · simp only [deS16r10, deS16r2, deS13r14] <;> ring1
  · simp only [deS16r10, deS16r2, deS13r14] <;> ring1
  · simp only [deS16r10, deS16r2, deS13r14] <;> ring1
  · simp only [deS16r10, deS16r2, deS13r14] <;> linear_combination (-(8) * c^3 * h + 4 * c * h) * hs
  · simp only [deS16r10, deS16r2, deS13r14] <;> ring1
  · simp only [deS16r10, deS16r2, deS13r14] <;> ring1
  · simp only [deS16r10, deS16r2, deS13r14] <;> ring1
  · simp only [deS16r10, deS16r2, deS13r14] <;> ring1
  · simp only [deS16r10, deS16r2, deS13r14] <;> ring1
  · simp only [deS16r10, deS16r2, deS13r14] <;> ring1
  · simp only [deS16r10, deS16r2, deS13r14] <;> ring1
  · simp only [deS16r10, deS16r2, deS13r14] <;> ring1
  · simp only [deS16r10, deS16r2, deS13r14] <;> ring1
  · simp only [deS16r10, deS16r2, deS13r14] <;> ring1
  · simp only [deS16r10, deS16r2, deS13r14] <;> ring1
  · simp only [deS16r10, deS16r2, deS13r14] <;> ring1
  · simp only [deS16r11, deS16r3, deS13r15] <;> ring1
  · simp only [deS16r11, deS16r3, deS13r15] <;> ring1
  · simp only [deS16r11, deS16r3, deS13r15] <;> ring1
  · simp only [deS16r11, deS16r3, deS13r15] <;> ring1
  · simp only [deS16r11, deS16r3, deS13r15] <;> ring1
  · simp only [deS16r11, deS16r3, deS13r15] <;> ring1
  · simp only [deS16r11, deS16r3, deS13r15] <;> ring1
  · simp only [deS16r11, deS16r3, deS13r15] <;> ring1
  · simp only [deS16r11, deS16r3, deS13r15] <;> ring1
  · simp only [deS16r11, deS16r3, deS13r15] <;> ring1
  · simp only [deS16r11, deS16r3, deS13r15] <;> ring1
  · simp only [deS16r11, deS16r3, deS13r15] <;> ring1
  · simp only [deS16r11, deS16r3, deS13r15] <;> ring1
  · simp only [deS16r11, deS16r3, deS13r15] <;> ring1
  · simp only [deS16r11, deS16r3, deS13r15] <;> ring1
  · simp only [deS16r11, deS16r3, deS13r15] <;> ring1

set_option maxHeartbeats 4000000 in
/-- Chain step 12 of `de`. -/
theorem deStep12 {α : Type} [ Field α] [ CharZero α] (c s h : α) (hs : s ^ 2 = 1 - c ^ 2) (hh : h ^ 2 = 1 / 2) :
    lift1 1 (ryG c s) * deS13 c s h = deS12 c s h := by
  rw [ryRule_1]
  ext r k
  obtain ⟨x1, x2, x3, x4⟩ := r
  simp only [deS13, deS12, Matrix.of_apply]
  obtain ⟨y1, y2, y3, y4⟩ := k
  cases x1 <;> cases x2 <;> cases x3 <;> cases x4 <;>
    cases y1 <;> cases y2 <;> cases y3 <;> cases y4
  · simp only [deS13r0, deS13r4, deS12r0] <;> linear_combination (4 * c^2 * h + -h) * hs
  · simp only [deS13r0, deS13r4, deS12r0] <;> ring1
  · simp only [deS13r0, deS13r4, deS12r0] <;> ring1
  · simp only [deS13r0, deS13r4, deS12r0] <;> ring1
  · simp only [deS13r0, deS13r4, deS12r0] <;> ring1
  · simp only [deS13r0, deS13r4, deS12r0] <;> ring1
  · simp only [deS13r0, deS13r4, deS12r0] <;> ring1
  · simp only [deS13r0, deS13r4, deS12r0] <;> ring1
  · simp only [deS13r0, deS13r4, deS12r0] <;> ring1
  · simp only [deS13r0, deS13r4, deS12r0] <;> ring1
  · simp only [deS13r0, deS13r4, deS12r0] <;> ring1
  · simp only [deS13r0, deS13r4, deS12r0] <;> linear_combination (h) * hs
  · simp only [deS13r0, deS13r4, deS12r0] <;> ring1
  · simp only [deS13r0, deS13r4, deS12r0] <;> ring1
  · simp only [deS13r0, deS13r4, deS12r0] <;> ring1
  · simp only [deS13r0, deS13r4, deS12r0] <;> ring1
  · simp only [deS13r1, deS13r5, deS12r1] <;> ring1
  · simp only [deS13r1, deS13r5, deS12r1] <;> ring1
  · simp only [deS13r1, deS13r5, deS12r1] <;> ring1
  · simp only [deS13r1, deS13r5, deS12r1] <;> ring1
  · simp only [deS13r1, deS13r5, deS12r1] <;> ring1
  · simp only [deS13r1, deS13r5, deS12r1] <;> linear_combination (h) * hs
  · simp only [deS13r1, deS13r5, deS12r1] <;> ring1
  · simp only [deS13r1, deS13r5, deS12r1] <;> ring1
  · simp only [deS13r1, deS13r5, deS12r1] <;> ring1
  · simp only [deS13r1, deS13r5, deS12r1] <;> ring1
  · simp only [deS13r1, deS13r5, deS12r1] <;> ring1
  · simp only [deS13r1, deS13r5, deS12r1] <;> ring1
  · simp only [deS13r1, deS13r5, deS12r1] <;> ring1
  · simp only [deS13r1, deS13r5, deS12r1] <;> ring1
  · simp only [deS13r1, deS13r5, deS12r1] <;> linear_combination (-h) * hs
  · simp only [deS13r1, deS13r5, deS12r1] <;> ring1
  · simp only [deS13r2, deS13r6, deS12r2] <;> ring1
  · simp only [deS13r2, deS13r6, deS12r2] <;> ring1
  · simp only [deS13r2, deS13r6, deS12r2] <;> ring1
  · simp only [deS13r2, deS13r6, deS12r2] <;> linear_combination (-(16) * c^4 * h + 12 * c^2 * h + -h) * hs
  · simp only [deS13r2, deS13r6, deS12r2] <;> ring1
  · simp only [deS13r2, deS13r6, deS12r2] <;> ring1
  · simp only [deS13r2, deS13r6, deS12r2] <;> ring1
  · simp only [deS13r2, deS13r6, deS12r2] <;> ring1
  · simp only [deS13r2, deS13r6, deS12r2] <;> linear_combination (h) * hs
  · simp only [deS13r2, deS13r6, deS12r2] <;> ring1
  · simp only [deS13r2, deS13r6, deS12r2] <;> ring1
  · simp only [deS13r2, deS13r6, deS12r2] <;> ring1
  · simp only [deS13r2, deS13r6, deS12r2] <;> ring1
  · simp only [deS13r2, deS13r6, deS12r2] <;> ring1
  · simp only [deS13r2, deS13r6, deS12r2] <;> ring1
  · simp only [deS13r2, deS13r6, deS12r2] <;> ring1
  · simp only [deS13r3, deS13r7, deS12r3] <;> ring1
  · simp only [deS13r3, deS13r7, deS12r3] <;> ring1
  · simp only [deS13r3, deS13r7, deS12r3] <;> ring1
  · simp only [deS13r3, deS13r7, deS12r3] <;> ring1
  · simp only [deS13r3, deS13r7, deS12r3] <;> ring1
  · simp only [deS13r3, deS13r7, deS12r3] <;> ring1
  · simp only [deS13r3, deS13r7, deS12r3] <;> linear_combination (-h) * hs
  · simp only [deS13r3, deS13r7, deS12r3] <;> ring1
  · simp only [deS13r3, deS13r7, deS12r3] <;> ring1
  · simp only [deS13r3, deS13r7, deS12r3] <;> ring1
  · simp only [deS13r3, deS13r7, deS12r3] <;> ring1
  · simp only [deS13r3, deS13r7, deS12r3] <;> ring1
  · simp only [deS13r3, deS13r7, deS12r3] <;> ring1
  · simp only [deS13r3, deS13r7, deS12r3] <;> linear_combination (h) * hs
  · simp only [deS13r3, deS13r7, deS12r3] <;> ring1
  · simp only [deS13r3, deS13r7, deS12r3] <;> ring1
  · simp only [deS13r0, deS13r4, deS12r4] <;> ring1
  · simp only [deS13r0, deS13r4, deS12r4] <;> ring1
  · simp only [deS13r0, deS13r4, deS12r4] <;> ring1
  · simp only [deS13r0, deS13r4, deS12r4] <;> ring1
  · simp only [deS13r0, deS13r4, deS12r4] <;> linear_combination (h) * hs
  · simp only [deS13r0, deS13r4, deS12r4] <;> ring1
  · simp only [deS13r0, deS13r4, deS12r4] <;> ring1
  · simp only [deS13r0, deS13r4, deS12r4] <;> ring1
  · simp only [deS13r0, deS13r4, deS12r4] <;> ring1
  · simp only [deS13r0, deS13r4, deS12r4] <;> ring1
  · simp only [deS13r0, deS13r4, deS12r4] <;> ring1
  · simp only [deS13r0, deS13r4, deS12r4] <;> ring1
  · simp only [deS13r0, deS13r4, deS12r4] <;> ring1
  · simp only [deS13r0, deS13r4, deS12r4] <;> ring1
  · simp only [deS13r0, deS13r4, deS12r4] <;> ring1
  · simp only [deS13r0, deS13r4, deS12r4] <;> linear_combination (4 * c^2 * h + -h) * hs
  · simp only [deS13r1, deS13r5, deS12r5] <;> ring1
  · simp only [deS13r1, deS13r5, deS12r5] <;> linear_combination (-h) * hs
  · simp only [deS13r1, deS13r5, deS12r5] <;> ring1
  · simp only [deS13r1, deS13r5, deS12r5] <;> ring1
  · simp only [deS13r1, deS13r5, deS12r5] <;> ring1
  · simp only [deS13r1, deS13r5, deS12r5] <;> ring1
  · simp only [deS13r1, deS13r5, deS12r5] <;> ring1
  · simp only [deS13r1, deS13r5, deS12r5] <;> ring1
  · simp only [deS13r1, deS13r5, deS12r5] <;> ring1
  · simp only [deS13r1, deS13r5, deS12r5] <;> ring1
  · simp only [deS13r1, deS13r5, deS12r5] <;> linear_combination (h) * hs
  · simp only [deS13r1, deS13r5, deS12r5] <;> ring1
  · simp only [deS13r1, deS13r5, deS12r5] <;> ring1
  · simp only [deS13r1, deS13r5, deS12r5] <;> ring1
  · simp only [deS13r1, deS13r5, deS12r5] <;> ring1
  · simp only [deS13r1, deS13r5, deS12r5] <;> ring1
  · simp only [deS13r2, deS13r6, deS12r6] <;> ring1
  · simp only [deS13r2, deS13r6, deS12r6] <;> ring1
  · simp only [deS13r2, deS13r6, deS12r6] <;> ring1
  · simp only [deS13r2, deS13r6, deS12r6] <;> ring1
  · simp only [deS13r2, deS13r6, deS12r6] <;> ring1
  · simp only [deS13r2, deS13r6, deS12r6] <;> ring1
  · simp only [deS13r2, deS13r6, deS12r6] <;> ring1
  · simp only [deS13r2, deS13r6, deS12r6] <;> linear_combination (h) * hs
  · simp only [deS13r2, deS13r6, deS12r6] <;> ring1
  · simp only [deS13r2, deS13r6, deS12r6] <;> ring1
  · simp only [deS13r2, deS13r6, deS12r6] <;> ring1
  · simp only [deS13r2, deS13r6, deS12r6] <;> ring1
  · simp only [deS13r2, deS13r6, deS12r6] <;> linear_combination (-(16) * c^4 * h + 12 * c^2 * h + -h) * hs
  · simp only [deS13r2, deS13r6, deS12r6] <;> ring1
  · simp only [deS13r2, deS13r6, deS12r6] <;> ring1
  · simp only [deS13r2, deS13r6, deS12r6] <;> ring1
  · simp only [deS13r3, deS13r7, deS12r7] <;> ring1
  · simp only [deS13r3, deS13r7, deS12r7] <;> ring1
  · simp only [deS13r3, deS13r7, deS12r7] <;> linear_combination (h) * hs
  · simp only [deS13r3, deS13r7, deS12r7] <;> ring1
  · simp only [deS13r3, deS13r7, deS12r7] <;> ring1
  · simp only [deS13r3, deS13r7, deS12r7] <;> ring1
  · simp only [deS13r3, deS13r7, deS12r7] <;> ring1
  · simp only [deS13r3, deS13r7, deS12r7] <;> ring1
  · simp only [deS13r3, deS13r7, deS12r7] <;> ring1
  · simp only [deS13r3, deS13r7, deS12r7] <;> linear_combination (-h) * hs
  · simp only [deS13r3, deS13r7, deS12r7] <;> ring1
  · simp only [deS13r3, deS13r7, deS12r7] <;> ring1
  · simp only [deS13r3, deS13r7, deS12r7] <;> ring1
  · simp only [deS13r3, deS13r7, deS12r7] <;> ring1
  · simp only [deS13r3, deS13r7, deS12r7] <;> ring1
  · simp only [deS13r3, deS13r7, deS12r7] <;> ring1
  · simp only [deS13r12, deS13r8, deS12r8] <;> ring1
  · simp only [deS13r12, deS13r8, deS12r8] <;> ring1
  · simp only [deS13r12, deS13r8, deS12r8] <;> ring1
  · simp only [deS13r12, deS13r8, deS12r8] <;> ring1
  · simp only [deS13r12, deS13r8, deS12r8] <;> linear_combination (h) * hs
  · simp only [deS13r12, deS13r8, deS12r8] <;> ring1
  · simp only [deS13r12, deS13r8, deS12r8] <;> ring1
  · simp only [deS13r12, deS13r8, deS12r8] <;> ring1
  · simp only [deS13r12, deS13r8, deS12r8] <;> ring1
  · simp only [deS13r12, deS13r8, deS12r8] <;> ring1
  · simp only [deS13r12, deS13r8, deS12r8] <;> ring1
  · simp only [deS13r12, deS13r8, deS12r8] <;> ring1
  · simp only [deS13r12, deS13r8, deS12r8] <;> ring1
  · simp only [deS13r12, deS13r8, deS12r8] <;> ring1
  · simp only [deS13r12, deS13r8, deS12r8] <;> ring1
  · simp only [deS13r12, deS13r8, deS12r8] <;> linear_combination (-(4) * c^2 * h + h) * hs
  · simp only [deS13r13, deS13r9, deS12r9] <;> ring1
  · simp only [deS13r13, deS13r9, deS12r9] <;> linear_combination (h) * hs
  · simp only [deS13r13, deS13r9, deS12r9] <;> ring1
  · simp only [deS13r13, deS13r9, deS12r9] <;> ring1
  · simp only [deS13r13, deS13r9, deS12r9] <;> ring1
  · simp only [deS13r13, deS13r9, deS12r9] <;> ring1
  · simp only [deS13r13, deS13r9, deS12r9] <;> ring1
  · simp only [deS13r13, deS13r9, deS12r9] <;> ring1
  · simp only [deS13r13, deS13r9, deS12r9] <;> ring1
  · simp only [deS13r13, deS13r9, deS12r9] <;> ring1
  · simp only [deS13r13, deS13r9, deS12r9] <;> linear_combination (h) * hs
  · simp only [deS13r13, deS13r9, deS12r9] <;> ring1
  · simp only [deS13r13, deS13r9, deS12r9] <;> ring1
  · simp only [deS13r13, deS13r9, deS12r9] <;> ring1
  · simp only [deS13r13, deS13r9, deS12r9] <;> ring1
  · simp only [deS13r13, deS13r9, deS12r9] <;> ring1
  · simp only [deS13r10, deS13r14, deS12r10] <;> ring1
  · simp only [deS13r10, deS13r14, deS12r10] <;> ring1
  · simp only [deS13r10, deS13r14, deS12r10] <;> ring1
  · simp only [deS13r10, deS13r14, deS12r10] <;> ring1
  · simp only [deS13r10, deS13r14, deS12r10] <;> ring1
  · simp only [deS13r10, deS13r14, deS12r10] <;> ring1
  · simp only [deS13r10, deS13r14, deS12r10] <;> ring1
  · simp only [deS13r10, deS13r14, deS12r10] <;> linear_combination (h) * hs
  · simp only [deS13r10, deS13r14, deS12r10] <;> ring1
  · simp only [deS13r10, deS13r14, deS12r10] <;> ring1
  · simp only [deS13r10, deS13r14, deS12r10] <;> ring1
  · simp only [deS13r10, deS13r14, deS12r10] <;> ring1
  · simp only [deS13r10, deS13r14, deS12r10] <;> linear_combination (16 * c^4 * h + -(12) * c^2 * h + h) * hs
  · simp only [deS13r10, deS13r14, deS12r10] <;> ring1
  · simp only [deS13r10, deS13r14, deS12r10] <;> ring1
  · simp only [deS13r10, deS13r14, deS12r10] <;> ring1
  · simp only [deS13r11, deS13r15, deS12r11] <;> ring1
  · simp only [deS13r11, deS13r15, deS12r11] <;> ring1
  · simp only [deS13r11, deS13r15, deS12r11] <;> linear_combination (-h) * hs
  · simp only [deS13r11, deS13r15, deS12r11] <;> ring1
  · simp only [deS13r11, deS13r15, deS12r11] <;> ring1
  · simp only [deS13r11, deS13r15, deS12r11] <;> ring1
  · simp only [deS13r11, deS13r15, deS12r11] <;> ring1
  · simp only [deS13r11, deS13r15, deS12r11] <;> ring1
  · simp only [deS13r11, deS13r15, deS12r11] <;> ring1
  · simp only [deS13r11, deS13r15, deS12r11] <;> linear_combination (-h) * hs
  · simp only [deS13r11, deS13r15, deS12r11] <;> ring1
  · simp only [deS13r11, deS13r15, deS12r11] <;> ring1
  · simp only [deS13r11, deS13r15, deS12r11] <;> ring1
  · simp only [deS13r11, deS13r15, deS12r11] <;> ring1
  · simp only [deS13r11, deS13r15, deS12r11] <;> ring1
  · simp only [deS13r11, deS13r15, deS12r11] <;> ring1
  · simp only [deS13r12, deS13r8, deS12r12] <;> linear_combination (4 * c^2 * h + -h) * hs
  · simp only [deS13r12, deS13r8, deS12r12] <;> ring1
  · simp only [deS13r12, deS13r8, deS12r12] <;> ring1
  · simp only [deS13r12, deS13r8, deS12r12] <;> ring1
  · simp only [deS13r12, deS13r8, deS12r12] <;> ring1
  · simp only [deS13r12, deS13r8, deS12r12] <;> ring1
  · simp only [deS13r12, deS13r8, deS12r12] <;> ring1
  · simp only [deS13r12, deS13r8, deS12r12] <;> ring1
  · simp only [deS13r12, deS13r8, deS12r12] <;> ring1
  · simp only [deS13r12, deS13r8, deS12r12] <;> ring1
  · simp only [deS13r12, deS13r8, deS12r12] <;> ring1
  · simp only [deS13r12, deS13r8, deS12r12] <;> linear_combination (-h) * hs
  · simp only [deS13r12, deS13r8, deS12r12] <;> ring1
  · simp only [deS13r12, deS13r8, deS12r12] <;> ring1
  · simp only [deS13r12, deS13r8, deS12r12] <;> ring1
  · simp only [deS13r12, deS13r8, deS12r12] <;> ring1
  · simp only [deS13r13, deS13r9, deS12r13] <;> ring1
  · simp only [deS13r13, deS13r9, deS12r13] <;> ring1
  · simp only [deS13r13, deS13r9, deS12r13] <;> ring1
  · simp only [deS13r13, deS13r9, deS12r13] <;> ring1
  · simp only [deS13r13, deS13r9, deS12r13] <;> ring1
  · simp only [deS13r13, deS13r9, deS12r13] <;> linear_combination (-h) * hs
  · simp only [deS13r13, deS13r9, deS12r13] <;> ring1
  · simp only [deS13r13, deS13r9, deS12r13] <;> ring1
  · simp only [deS13r13, deS13r9, deS12r13] <;> ring1
  · simp only [deS13r13, deS13r9, deS12r13] <;> ring1
  · simp only [deS13r13, deS13r9, deS12r13] <;> ring1
  · simp only [deS13r13, deS13r9, deS12r13] <;> ring1
  · simp only [deS13r13, deS13r9, deS12r13] <;> ring1
  · simp only [deS13r13, deS13r9, deS12r13] <;> ring1
  · simp only [deS13r13, deS13r9, deS12r13] <;> linear_combination (-h) * hs
  · simp only [deS13r13, deS13r9, deS12r13] <;> ring1
  · simp only [deS13r10, deS13r14, deS12r14] <;> ring1
  · simp only [deS13r10, deS13r14, deS12r14] <;> ring1
  · simp only [deS13r10, deS13r14, deS12r14] <;> ring1
  · simp only [deS13r10, deS13r14, deS12r14] <;> linear_combination (-(16) * c^4 * h + 12 * c^2 * h + -h) * hs
  · simp only [deS13r10, deS13r14, deS12r14] <;> ring1
  · simp only [deS13r10, deS13r14, deS12r14] <;> ring1
  · simp only [deS13r10, deS13r14, deS12r14] <;> ring1
  · simp only [deS13r10, deS13r14, deS12r14] <;> ring1
  · simp only [deS13r10, deS13r14, deS12r14] <;> linear_combination (-h) * hs
  · simp only [deS13r10, deS13r14, deS12r14] <;> ring1
  · simp only [deS13r10, deS13r14, deS12r14] <;> ring1
  · simp only [deS13r10, deS13r14, deS12r14] <;> ring1
  · simp only [deS13r10, deS13r14, deS12r14] <;> ring1
  · simp only [deS13r10, deS13r14, deS12r14] <;> ring1
  · simp only [deS13r10, deS13r14, deS12r14] <;> ring1
  · simp only [deS13r10, deS13r14, deS12r14] <;> ring1
  · simp only [deS13r11, deS13r15, deS12r15] <;> ring1
  · simp only [deS13r11, deS13r15, deS12r15] <;> ring1
  · simp only [deS13r11, deS13r15, deS12r15] <;> ring1
  · simp only [deS13r11, deS13r15, deS12r15] <;> ring1
  · simp only [deS13r11, deS13r15, deS12r15] <;> ring1
  · simp only [deS13r11, deS13r15, deS12r15] <;> ring1
  · simp only [deS13r11, deS13r15, deS12r15] <;> linear_combination (h) * hs
  · simp only [deS13r11, deS13r15, deS12r15] <;> ring1
  · simp only [deS13r11, deS13r15, deS12r15] <;> ring1
  · simp only [deS13r11, deS13r15, deS12r15] <;> ring1
  · simp only [deS13r11, deS13r15, deS12r15] <;> ring1
  · simp only [deS13r11, deS13r15, deS12r15] <;> ring1
  · simp only [deS13r11, deS13r15, deS12r15] <;> ring1
  · simp only [deS13r11, deS13r15, deS12r15] <;> linear_combination (h) * hs
  · simp only [deS13r11, deS13r15, deS12r15] <;> ring1
  · simp only [deS13r11, deS13r15, deS12r15] <;> ring1

set_option maxHeartbeats 4000000 in
/-- Chain step 11 of `de`. -/
theorem deStep11 {α : Type} [ Field α] [ CharZero α] (c s h : α) (hs : s ^ 2 = 1 - c ^ 2) (hh : h ^ 2 = 1 / 2) :
    lift2 3 1 cnotG * deS12 c s h = deS11 c s h := by
  rw [cnotRule_3_1]
  ext r k
  obtain ⟨x1, x2, x3, x4⟩ := r
  simp only [deS12, deS11, Matrix.of_apply]
  cases x1 <;> cases x2 <;> cases x3 <;> cases x4 <;> rfl

set_option maxHeartbeats 4000000 in
/-- Chain step 10 of `de`. -/
theorem deStep10 {α : Type} [ Field α] [ CharZero α] (c s h : α) (hs : s ^ 2 = 1 - c ^ 2) (hh : h ^ 2 = 1 / 2) :
    lift1 3 (hG h) * deS11 c s h = deS10 c s h := by
  rw [hRule_3]
  ext r k
  obtain ⟨x1, x2, x3, x4⟩ := r
  simp only [deS11, deS10, Matrix.of_apply]
  obtain ⟨y1, y2, y3, y4⟩ := k
  cases x1 <;> cases x2 <;> cases x3 <;> cases x4 <;>
    cases y1 <;> cases y2 <;> cases y3 <;> cases y4
  · simp only [deS12r0, deS12r5, deS10r0] <;> linear_combination (2 * c^2 + -(1)) * hh
  · simp only [deS12r0, deS12r5, deS10r0] <;> linear_combination (2 * c^2 + -(1)) * hh
  · simp only [deS12r0, deS12r5, deS10r0] <;> ring1
  · simp only [deS12r0, deS12r5, deS10r0] <;> ring1
  · simp only [deS12r0, deS12r5, deS10r0] <;> ring1
  · simp only [deS12r0, deS12r5, deS10r0] <;> ring1
  · simp only [deS12r0, deS12r5, deS10r0] <;> ring1
  · simp only [deS12r0, deS12r5, deS10r0] <;> ring1
  · simp only [deS12r0, deS12r5, deS10r0] <;> ring1
  · simp only [deS12r0, deS12r5, deS10r0] <;> ring1
  · simp only [deS12r0, deS12r5, deS10r0] <;> linear_combination (1) * hh
  · simp only [deS12r0, deS12r5, deS10r0] <;> linear_combination (1) * hh
  · simp only [deS12r0, deS12r5, deS10r0] <;> ring1
  · simp only [deS12r0, deS12r5, deS10r0] <;> ring1
  · simp only [deS12r0, deS12r5, deS10r0] <;> linear_combination (2 * c * s) * hh
  · simp only [deS12r0, deS12r5, deS10r0] <;> linear_combination (2 * c * s) * hh
  · simp only [deS12r0, deS12r5, deS10r1] <;> linear_combination (2 * c^2 + -(1)) * hh
  · simp only [deS12r0, deS12r5, deS10r1] <;> linear_combination (-(2) * c^2 + 1) * hh
  · simp only [deS12r0, deS12r5, deS10r1] <;> ring1
  · simp only [deS12r0, deS12r5, deS10r1] <;> ring1
  · simp only [deS12r0, deS12r5, deS10r1] <;> ring1
  · simp only [deS12r0, deS12r5, deS10r1] <;> ring1
  · simp only [deS12r0, deS12r5, deS10r1] <;> ring1
  · simp only [deS12r0, deS12r5, deS10r1] <;> ring1
  · simp only [deS12r0, deS12r5, deS10r1] <;> ring1
  · simp only [deS12r0, deS12r5, deS10r1] <;> ring1
  · simp only [deS12r0, deS12r5, deS10r1] <;> linear_combination (-(1)) * hh
  · simp only [deS12r0, deS12r5, deS10r1] <;> linear_combination (1) * hh
  · simp only [deS12r0, deS12r5, deS10r1] <;> ring1
  · simp only [deS12r0, deS12r5, deS10r1] <;> ring1
  · simp only [deS12r0, deS12r5, deS10r1] <;> linear_combination (-(2) * c * s) * hh
  · simp only [deS12r0, deS12r5, deS10r1] <;> linear_combination (2 * c * s) * hh
  · simp only [deS12r2, deS12r7, deS10r2] <;> ring1
  · simp only [deS12r2, deS12r7, deS10r2] <;> ring1
  · simp only [deS12r2, deS12r7, deS10r2] <;> linear_combination (-(2) * c^2 + 1) * hh
  · simp only [deS12r2, deS12r7, deS10r2] <;> linear_combination (32 * c^6 + -(48) * c^4 + 18 * c^2 + -(1)) * hh
  · simp only [deS12r2, deS12r7, deS10r2] <;> ring1
  · simp only [deS12r2, deS12r7, deS10r2] <;> ring1
  · simp only [deS12r2, deS12r7, deS10r2] <;> ring1
  · simp only [deS12r2, deS12r7, deS10r2] <;> ring1
  · simp only [deS12r2, deS12r7, deS10r2] <;> linear_combination (1) * hh
  · simp only [deS12r2, deS12r7, deS10r2] <;> linear_combination (-(1)) * hh
  · simp only [deS12r2, deS12r7, deS10r2] <;> ring1
  · simp only [deS12r2, deS12r7, deS10r2] <;> ring1
  · simp only [deS12r2, deS12r7, deS10r2] <;> linear_combination (-(32) * c^5 * s + 32 * c^3 * s + -(6) * c * s) * hh
  · simp only [deS12r2, deS12r7, deS10r2] <;> linear_combination (-(2) * c * s) * hh
  · simp only [deS12r2, deS12r7, deS10r2] <;> ring1
  · simp only [deS12r2, deS12r7, deS10r2] <;> ring1
  · simp only [deS12r2, deS12r7, deS10r3] <;> ring1
  · simp only [deS12r2, deS12r7, deS10r3] <;> ring1
  · simp only [deS12r2, deS12r7, deS10r3] <;> linear_combination (2 * c^2 + -(1)) * hh
  · simp only [deS12r2, deS12r7, deS10r3] <;> linear_combination (32 * c^6 + -(48) * c^4 + 18 * c^2 + -(1)) * hh
  · simp only [deS12r2, deS12r7, deS10r3] <;> ring1
  · simp only [deS12r2, deS12r7, deS10r3] <;> ring1
  · simp only [deS12r2, deS12r7, deS10r3] <;> ring1
  · simp only [deS12r2, deS12r7, deS10r3] <;> ring1
  · simp only [deS12r2, deS12r7, deS10r3] <;> linear_combination (1) * hh
  · simp only [deS12r2, deS12r7, deS10r3] <;> linear_combination (1) * hh
  · simp only [deS12r2, deS12r7, deS10r3] <;> ring1
  · simp only [deS12r2, deS12r7, deS10r3] <;> ring1
  · simp only [deS12r2, deS12r7, deS10r3] <;> linear_combination (-(32) * c^5 * s + 32 * c^3 * s + -(6) * c * s) * hh
  · simp only [deS12r2, deS12r7, deS10r3] <;> linear_combination (2 * c * s) * hh
  · simp only [deS12r2, deS12r7, deS10r3] <;> ring1
  · simp only [deS12r2, deS12r7, deS10r3] <;> ring1
  · simp only [deS12r1, deS12r4, deS10r4] <;> linear_combination (-(2) * c * s) * hh
  · simp only [deS12r1, deS12r4, deS10r4] <;> linear_combination (-(2) * c * s) * hh
  · simp only [deS12r1, deS12r4, deS10r4] <;> ring1
  · simp only [deS12r1, deS12r4, deS10r4] <;> ring1
  · simp only [deS12r1, deS12r4, deS10r4] <;> linear_combination (1) * hh
  · simp only [deS12r1, deS12r4, deS10r4] <;> linear_combination (1) * hh
  · simp only [deS12r1, deS12r4, deS10r4] <;> ring1
  · simp only [deS12r1, deS12r4, deS10r4] <;> ring1
  · simp only [deS12r1, deS12r4, deS10r4] <;> ring1
  · simp only [deS12r1, deS12r4, deS10r4] <;> ring1
  · simp only [deS12r1, deS12r4, deS10r4] <;> ring1
  · simp only [deS12r1, deS12r4, deS10r4] <;> ring1
  · simp only [deS12r1, deS12r4, deS10r4] <;> ring1
  · simp only [deS12r1, deS12r4, deS10r4] <;> ring1
  · simp only [deS12r1, deS12r4, deS10r4] <;> linear_combination (2 * c^2 + -(1)) * hh
  · simp only [deS12r1, deS12r4, deS10r4] <;> linear_combination (2 * c^2 + -(1)) * hh
  · simp only [deS12r1, deS12r4, deS10r5] <;> linear_combination (-(2) * c * s) * hh
  · simp only [deS12r1, deS12r4, deS10r5] <;> linear_combination (2 * c * s) * hh
  · simp only [deS12r1, deS12r4, deS10r5] <;> ring1
  · simp only [deS12r1, deS12r4, deS10r5] <;> ring1
  · simp only [deS12r1, deS12r4, deS10r5] <;> linear_combination (1) * hh
  · simp only [deS12r1, deS12r4, deS10r5] <;> linear_combination (-(1)) * hh
  · simp only [deS12r1, deS12r4, deS10r5] <;> ring1
  · simp only [deS12r1, deS12r4, deS10r5] <;> ring1
  · simp only [deS12r1, deS12r4, deS10r5] <;> ring1
  · simp only [deS12r1, deS12r4, deS10r5] <;> ring1
  · simp only [deS12r1, deS12r4, deS10r5] <;> ring1
  · simp only [deS12r1, deS12r4, deS10r5] <;> ring1
  · simp only [deS12r1, deS12r4, deS10r5] <;> ring1
  · simp only [deS12r1, deS12r4, deS10r5] <;> ring1
  · simp only [deS12r1, deS12r4, deS10r5] <;> linear_combination (-(2) * c^2 + 1) * hh
  · simp only [deS12r1, deS12r4, deS10r5] <;> linear_combination (2 * c^2 + -(1)) * hh
  · simp only [deS12r3, deS12r6, deS10r6] <;> ring1
  · simp only [deS12r3, deS12r6, deS10r6] <;> ring1
  · simp only [deS12r3, deS12r6, deS10r6] <;> linear_combination (2 * c * s) * hh
  · simp only [deS12r3, deS12r6, deS10r6] <;> linear_combination (32 * c^5 * s + -(32) * c^3 * s + 6 * c * s) * hh
  · simp only [deS12r3, deS12r6, deS10r6] <;> ring1
  · simp only [deS12r3, deS12r6, deS10r6] <;> ring1
  · simp only [deS12r3, deS12r6, deS10r6] <;> linear_combination (-(1)) * hh
  · simp only [deS12r3, deS12r6, deS10r6] <;> linear_combination (1) * hh
  · simp only [deS12r3, deS12r6, deS10r6] <;> ring1
  · simp only [deS12r3, deS12r6, deS10r6] <;> ring1
  · simp only [deS12r3, deS12r6, deS10r6] <;> ring1
  · simp only [deS12r3, deS12r6, deS10r6] <;> ring1
  · simp only [deS12r3, deS12r6, deS10r6] <;> linear_combination (32 * c^6 + -(48) * c^4 + 18 * c^2 + -(1)) * hh
  · simp only [deS12r3, deS12r6, deS10r6] <;> linear_combination (-(2) * c^2 + 1) * hh
  · simp only [deS12r3, deS12r6, deS10r6] <;> ring1
  · simp only [deS12r3, deS12r6, deS10r6] <;> ring1
  · simp only [deS12r3, deS12r6, deS10r7] <;> ring1
  · simp only [deS12r3, deS12r6, deS10r7] <;> ring1
  · simp only [deS12r3, deS12r6, deS10r7] <;> linear_combination (-(2) * c * s) * hh
  · simp only [deS12r3, deS12r6, deS10r7] <;> linear_combination (32 * c^5 * s + -(32) * c^3 * s + 6 * c * s) * hh
  · simp only [deS12r3, deS12r6, deS10r7] <;> ring1
  · simp only [deS12r3, deS12r6, deS10r7] <;> ring1
  · simp only [deS12r3, deS12r6, deS10r7] <;> linear_combination (1) * hh
  · simp only [deS12r3, deS12r6, deS10r7] <;> linear_combination (1) * hh
  · simp only [deS12r3, deS12r6, deS10r7] <;> ring1
  · simp only [deS12r3, deS12r6, deS10r7] <;> ring1
  · simp only [deS12r3, deS12r6, deS10r7] <;> ring1
  · simp only [deS12r3, deS12r6, deS10r7] <;> ring1
  · simp only [deS12r3, deS12r6, deS10r7] <;> linear_combination (32 * c^6 + -(48) * c^4 + 18 * c^2 + -(1)) * hh
  · simp only [deS12r3, deS12r6, deS10r7] <;> linear_combination (2 * c^2 + -(1)) * hh
  · simp only [deS12r3, deS12r6, deS10r7] <;> ring1
  · simp only [deS12r3, deS12r6, deS10r7] <;> ring1
  · simp only [deS12r13, deS12r8, deS10r8] <;> linear_combination (2 * c * s) * hh
  · simp only [deS12r13, deS12r8, deS10r8] <;> linear_combination (-(2) * c * s) * hh
  · simp only [deS12r13, deS12r8, deS10r8] <;> ring1
  · simp only [deS12r13, deS12r8, deS10r8] <;> ring1
  · simp only [deS12r13, deS12r8, deS10r8] <;> linear_combination (1) * hh
  · simp only [deS12r13, deS12r8, deS10r8] <;> linear_combination (-(1)) * hh
  · simp only [deS12r13, deS12r8, deS10r8] <;> ring1
  · simp only [deS12r13, deS12r8, deS10r8] <;> ring1
  · simp only [deS12r13, deS12r8, deS10r8] <;> ring1
  · simp only [deS12r13, deS12r8, deS10r8] <;> ring1
  · simp only [deS12r13, deS12r8, deS10r8] <;> ring1
  · simp only [deS12r13, deS12r8, deS10r8] <;> ring1
  · simp only [deS12r13, deS12r8, deS10r8] <;> ring1
  · simp only [deS12r13, deS12r8, deS10r8] <;> ring1
  · simp only [deS12r13, deS12r8, deS10r8] <;> linear_combination (2 * c^2 + -(1)) * hh
  · simp only [deS12r13, deS12r8, deS10r8] <;> linear_combination (-(2) * c^2 + 1) * hh
  · simp only [deS12r13, deS12r8, deS10r9] <;> linear_combination (2 * c * s) * hh
  · simp only [deS12r13, deS12r8, deS10r9] <;> linear_combination (2 * c * s) * hh
  · simp only [deS12r13, deS12r8, deS10r9] <;> ring1
  · simp only [deS12r13, deS12r8, deS10r9] <;> ring1
  · simp only [deS12r13, deS12r8, deS10r9] <;> linear_combination (1) * hh
  · simp only [deS12r13, deS12r8, deS10r9] <;> linear_combination (1) * hh
  · simp only [deS12r13, deS12r8, deS10r9] <;> ring1
  · simp only [deS12r13, deS12r8, deS10r9] <;> ring1
  · simp only [deS12r13, deS12r8, deS10r9] <;> ring1
  · simp only [deS12r13, deS12r8, deS10r9] <;> ring1
  · simp only [deS12r13, deS12r8, deS10r9] <;> ring1
  · simp only [deS12r13, deS12r8, deS10r9] <;> ring1
  · simp only [deS12r13, deS12r8, deS10r9] <;> ring1
  · simp only [deS12r13, deS12r8, deS10r9] <;> ring1
  · simp only [deS12r13, deS12r8, deS10r9] <;> linear_combination (-(2) * c^2 + 1) * hh
  · simp only [deS12r13, deS12r8, deS10r9] <;> linear_combination (-(2) * c^2 + 1) * hh
  · simp only [deS12r10, deS12r15, deS10r10] <;> ring1
  · simp only [deS12r10, deS12r15, deS10r10] <;> ring1
  · simp only [deS12r10, deS12r15, deS10r10] <;> linear_combination (2 * c * s) * hh
  · simp only [deS12r10, deS12r15, deS10r10] <;> linear_combination (-(32) * c^5 * s + 32 * c^3 * s + -(6) * c * s) * hh
  · simp only [deS12r10, deS12r15, deS10r10] <;> ring1
  · simp only [deS12r10, deS12r15, deS10r10] <;> ring1
  · simp only [deS12r10, deS12r15, deS10r10] <;> linear_combination (1) * hh
  · simp only [deS12r10, deS12r15, deS10r10] <;> linear_combination (1) * hh
  · simp only [deS12r10, deS12r15, deS10r10] <;> ring1
  · simp only [deS12r10, deS12r15, deS10r10] <;> ring1
  · simp only [deS12r10, deS12r15, deS10r10] <;> ring1
  · simp only [deS12r10, deS12r15, deS10r10] <;> ring1
  · simp only [deS12r10, deS12r15, deS10r10] <;> linear_combination (-(32) * c^6 + 48 * c^4 + -(18) * c^2 + 1) * hh
  · simp only [deS12r10, deS12r15, deS10r10] <;> linear_combination (-(2) * c^2 + 1) * hh
  · simp only [deS12r10, deS12r15, deS10r10] <;> ring1
  · simp only [deS12r10, deS12r15, deS10r10] <;> ring1
  · simp only [deS12r10, deS12r15, deS10r11] <;> ring1
  · simp only [deS12r10, deS12r15, deS10r11] <;> ring1
  · simp only [deS12r10, deS12r15, deS10r11] <;> linear_combination (-(2) * c * s) * hh
  · simp only [deS12r10, deS12r15, deS10r11] <;> linear_combination (-(32) * c^5 * s + 32 * c^3 * s + -(6) * c * s) * hh
  · simp only [deS12r10, deS12r15, deS10r11] <;> ring1
  · simp only [deS12r10, deS12r15, deS10r11] <;> ring1
  · simp only [deS12r10, deS12r15, deS10r11] <;> linear_combination (-(1)) * hh
  · simp only [deS12r10, deS12r15, deS10r11] <;> linear_combination (1) * hh
  · simp only [deS12r10, deS12r15, deS10r11] <;> ring1
  · simp only [deS12r10, deS12r15, deS10r11] <;> ring1
  · simp only [deS12r10, deS12r15, deS10r11] <;> ring1
  · simp only [deS12r10, deS12r15, deS10r11] <;> ring1
  · simp only [deS12r10, deS12r15, deS10r11] <;> linear_combination (-(32) * c^6 + 48 * c^4 + -(18) * c^2 + 1) * hh
  · simp only [deS12r10, deS12r15, deS10r11] <;> linear_combination (2 * c^2 + -(1)) * hh
  · simp only [deS12r10, deS12r15, deS10r11] <;> ring1
  · simp only [deS12r10, deS12r15, deS10r11] <;> ring1
  · simp only [deS12r12, deS12r9, deS10r12] <;> linear_combination (2 * c^2 + -(1)) * hh
  · simp only [deS12r12, deS12r9, deS10r12] <;> linear_combination (-(2) * c^2 + 1) * hh
  · simp only [deS12r12, deS12r9, deS10r12] <;> ring1
  · simp only [deS12r12, deS12r9, deS10r12] <;> ring1
  · simp only [deS12r12, deS12r9, deS10r12] <;> ring1
  · simp only [deS12r12, deS12r9, deS10r12] <;> ring1
  · simp only [deS12r12, deS12r9, deS10r12] <;> ring1
  · simp only [deS12r12, deS12r9, deS10r12] <;> ring1
  · simp only [deS12r12, deS12r9, deS10r12] <;> ring1
  · simp only [deS12r12, deS12r9, deS10r12] <;> ring1
  · simp only [deS12r12, deS12r9, deS10r12] <;> linear_combination (1) * hh
  · simp only [deS12r12, deS12r9, deS10r12] <;> linear_combination (-(1)) * hh
  · simp only [deS12r12, deS12r9, deS10r12] <;> ring1
  · simp only [deS12r12, deS12r9, deS10r12] <;> ring1
  · simp only [deS12r12, deS12r9, deS10r12] <;> linear_combination (-(2) * c * s) * hh
  · simp only [deS12r12, deS12r9, deS10r12] <;> linear_combination (2 * c * s) * hh
  · simp only [deS12r12, deS12r9, deS10r13] <;> linear_combination (2 * c^2 + -(1)) * hh
  · simp only [deS12r12, deS12r9, deS10r13] <;> linear_combination (2 * c^2 + -(1)) * hh
  · simp only [deS12r12, deS12r9, deS10r13] <;> ring1
  · simp only [deS12r12, deS12r9, deS10r13] <;> ring1
  · simp only [deS12r12, deS12r9, deS10r13] <;> ring1
  · simp only [deS12r12, deS12r9, deS10r13] <;> ring1
  · simp only [deS12r12, deS12r9, deS10r13] <;> ring1
  · simp only [deS12r12, deS12r9, deS10r13] <;> ring1
  · simp only [deS12r12, deS12r9, deS10r13] <;> ring1
  · simp only [deS12r12, deS12r9, deS10r13] <;> ring1
  · simp only [deS12r12, deS12r9, deS10r13] <;> linear_combination (-(1)) * hh
  · simp only [deS12r12, deS12r9, deS10r13] <;> linear_combination (-(1)) * hh
  · simp only [deS12r12, deS12r9, deS10r13] <;> ring1
  · simp only [deS12r12, deS12r9, deS10r13] <;> ring1
  · simp only [deS12r12, deS12r9, deS10r13] <;> linear_combination (2 * c * s) * hh
  · simp only [deS12r12, deS12r9, deS10r13] <;> linear_combination (2 * c * s) * hh
  · simp only [deS12r11, deS12r14, deS10r14] <;> ring1
  · simp only [deS12r11, deS12r14, deS10r14] <;> ring1
  · simp only [deS12r11, deS12r14, deS10r14] <;> linear_combination (2 * c^2 + -(1)) * hh
  · simp only [deS12r11, deS12r14, deS10r14] <;> linear_combination (32 * c^6 + -(48) * c^4 + 18 * c^2 + -(1)) * hh
  · simp only [deS12r11, deS12r14, deS10r14] <;> ring1
  · simp only [deS12r11, deS12r14, deS10r14] <;> ring1
  · simp only [deS12r11, deS12r14, deS10r14] <;> ring1
  · simp only [deS12r11, deS12r14, deS10r14] <;> ring1
  · simp only [deS12r11, deS12r14, deS10r14] <;> linear_combination (-(1)) * hh
  · simp only [deS12r11, deS12r14, deS10r14] <;> linear_combination (-(1)) * hh
  · simp only [deS12r11, deS12r14, deS10r14] <;> ring1
  · simp only [deS12r11, deS12r14, deS10r14] <;> ring1
  · simp only [deS12r11, deS12r14, deS10r14] <;> linear_combination (-(32) * c^5 * s + 32 * c^3 * s + -(6) * c * s) * hh
  · simp only [deS12r11, deS12r14, deS10r14] <;> linear_combination (2 * c * s) * hh
  · simp only [deS12r11, deS12r14, deS10r14] <;> ring1
  · simp only [deS12r11, deS12r14, deS10r14] <;> ring1
  · simp only [deS12r11, deS12r14, deS10r15] <;> ring1
  · simp only [deS12r11, deS12r14, deS10r15] <;> ring1
  · simp only [deS12r11, deS12r14, deS10r15] <;> linear_combination (-(2) * c^2 + 1) * hh
  · simp only [deS12r11, deS12r14, deS10r15] <;> linear_combination (32 * c^6 + -(48) * c^4 + 18 * c^2 + -(1)) * hh
  · simp only [deS12r11, deS12r14, deS10r15] <;> ring1
  · simp only [deS12r11, deS12r14, deS10r15] <;> ring1
  · simp only [deS12r11, deS12r14, deS10r15] <;> ring1
  · simp only [deS12r11, deS12r14, deS10r15] <;> ring1
  · simp only [deS12r11, deS12r14, deS10r15] <;> linear_combination (-(1)) * hh
  · simp only [deS12r11, deS12r14, deS10r15] <;> linear_combination (1) * hh
  · simp only [deS12r11, deS12r14, deS10r15] <;> ring1
  · simp only [deS12r11, deS12r14, deS10r15] <;> ring1
  · simp only [deS12r11, deS12r14, deS10r15] <;> linear_combination (-(32) * c^5 * s + 32 * c^3 * s + -(6) * c * s) * hh
  · simp only [deS12r11, deS12r14, deS10r15] <;> linear_combination (-(2) * c * s) * hh
  · simp only [deS12r11, deS12r14, deS10r15] <;> ring1
  · simp only [deS12r11, deS12r14, deS10r15] <;> ring1

set_option maxHeartbeats 4000000 in
/-- Chain step 9 of `de`. -/
theorem deStep9 {α : Type} [ Field α] [ CharZero α] (c s h : α) (hs : s ^ 2 = 1 - c ^ 2) (hh : h ^ 2 = 1 / 2) :
    lift2 0 3 cnotG * deS10 c s h = deS9 c s h := by
  rw [cnotRule_0_3]
  ext r k
  obtain ⟨x1, x2, x3, x4⟩ := r
  simp only [deS10, deS9, Matrix.of_apply]
  cases x1 <;> cases x2 <;> cases x3 <;> cases x4 <;> rfl

set_option maxHeartbeats 4000000 in
/-- Chain step 8 of `de`. -/
theorem deStep8 {α : Type} [ Field α] [ CharZero α] (c s h : α) (hs : s ^ 2 = 1 - c ^ 2) (hh : h ^ 2 = 1 / 2) :
    lift1 0 (ryG c (-s)) * deS9 c s h = deS8 c s h := by
  rw [ryRule_0]
  ext r k
  obtain ⟨x1, x2, x3, x4⟩ := r
  simp only [deS9, deS8, Matrix.of_apply]
  obtain ⟨y1, y2, y3, y4⟩ := k
  cases x1 <;> cases x2 <;> cases x3 <;> cases x4 <;>
    cases y1 <;> cases y2 <;> cases y3 <;> cases y4
  · simp only [deS10r0, deS10r9, deS8r0] <;> linear_combination (c) * hs
  · simp only [deS10r0, deS10r9, deS8r0] <;> linear_combination (c) * hs
  · simp only [deS10r0, deS10r9, deS8r0] <;> ring1
  · simp only [deS10r0, deS10r9, deS8r0] <;> ring1
  · simp only [deS10r0, deS10r9, deS8r0] <;> ring1
  · simp only [deS10r0, deS10r9, deS8r0] <;> ring1
  · simp only [deS10r0, deS10r9, deS8r0] <;> ring1
  · simp only [deS10r0, deS10r9, deS8r0] <;> ring1
  · simp only [deS10r0, deS10r9, deS8r0] <;> ring1
  · simp only [deS10r0, deS10r9, deS8r0] <;> ring1
  · simp only [deS10r0, deS10r9, deS8r0] <;> ring1
  · simp only [deS10r0, deS10r9, deS8r0] <;> ring1
  · simp only [deS10r0, deS10r9, deS8r0] <;> ring1
  · simp only [deS10r0, deS10r9, deS8r0] <;> ring1
  · simp only [deS10r0, deS10r9, deS8r0] <;> ring1
  · simp only [deS10r0, deS10r9, deS8r0] <;> ring1
  · simp only [deS10r1, deS10r8, deS8r1] <;> linear_combination (c) * hs
  · simp only [deS10r1, deS10r8, deS8r1] <;> linear_combination (-c) * hs
  · simp only [deS10r1, deS10r8, deS8r1] <;> ring1
  · simp only [deS10r1, deS10r8, deS8r1] <;> ring1
  · simp only [deS10r1, deS10r8, deS8r1] <;> ring1
  · simp only [deS10r1, deS10r8, deS8r1] <;> ring1
  · simp only [deS10r1, deS10r8, deS8r1] <;> ring1
  · simp only [deS10r1, deS10r8, deS8r1] <;> ring1
  · simp only [deS10r1, deS10r8, deS8r1] <;> ring1
  · simp only [deS10r1, deS10r8, deS8r1] <;> ring1
  · simp only [deS10r1, deS10r8, deS8r1] <;> ring1
  · simp only [deS10r1, deS10r8, deS8r1] <;> ring1
  · simp only [deS10r1, deS10r8, deS8r1] <;> ring1
  · simp only [deS10r1, deS10r8, deS8r1] <;> ring1
  · simp only [deS10r1, deS10r8, deS8r1] <;> ring1
  · simp only [deS10r1, deS10r8, deS8r1] <;> ring1
  · simp only [deS10r11, deS10r2, deS8r2] <;> ring1
  · simp only [deS10r11, deS10r2, deS8r2] <;> ring1
  · simp only [deS10r11, deS10r2, deS8r2] <;> linear_combination (-c) * hs
  · simp only [deS10r11, deS10r2, deS8r2] <;> linear_combination (-(16) * c^5 + 16 * c^3 + -(3) * c) * hs
  · simp only [deS10r11, deS10r2, deS8r2] <;> ring1
  · simp only [deS10r11, deS10r2, deS8r2] <;> ring1
  · simp only [deS10r11, deS10r2, deS8r2] <;> ring1
  · simp only [deS10r11, deS10r2, deS8r2] <;> ring1
  · simp only [deS10r11, deS10r2, deS8r2] <;> ring1
  · simp only [deS10r11, deS10r2, deS8r2] <;> ring1
  · simp only [deS10r11, deS10r2, deS8r2] <;> ring1
  · simp only [deS10r11, deS10r2, deS8r2] <;> ring1
  · simp only [deS10r11, deS10r2, deS8r2] <;> ring1
  · simp only [deS10r11, deS10r2, deS8r2] <;> ring1
  · simp only [deS10r11, deS10r2, deS8r2] <;> ring1
  · simp only [deS10r11, deS10r2, deS8r2] <;> ring1
  · simp only [deS10r10, deS10r3, deS8r3] <;> ring1
  · simp only [deS10r10, deS10r3, deS8r3] <;> ring1
  · simp only [deS10r10, deS10r3, deS8r3] <;> linear_combination (c) * hs
  · simp only [deS10r10, deS10r3, deS8r3] <;> linear_combination (-(16) * c^5 + 16 * c^3 + -(3) * c) * hs
  · simp only [deS10r10, deS10r3, deS8r3] <;> ring1
  · simp only [deS10r10, deS10r3, deS8r3] <;> ring1
  · simp only [deS10r10, deS10r3, deS8r3] <;> ring1
  · simp only [deS10r10, deS10r3, deS8r3] <;> ring1
  · simp only [deS10r10, deS10r3, deS8r3] <;> ring1
  · simp only [deS10r10, deS10r3, deS8r3] <;> ring1
  · simp only [deS10r10, deS10r3, deS8r3] <;> ring1
  · simp only [deS10r10, deS10r3, deS8r3] <;> ring1
  · simp only [deS10r10, deS10r3, deS8r3] <;> ring1
  · simp only [deS10r10, deS10r3, deS8r3] <;> ring1
  · simp only [deS10r10, deS10r3, deS8r3] <;> ring1
  · simp only [deS10r10, deS10r3, deS8r3] <;> ring1
  · simp only [deS10r13, deS10r4, deS8r4] <;> ring1
  · simp only [deS10r13, deS10r4, deS8r4] <;> ring1
  · simp only [deS10r13, deS10r4, deS8r4] <;> ring1
  · simp only [deS10r13, deS10r4, deS8r4] <;> ring1
  · simp only [deS10r13, deS10r4, deS8r4] <;> ring1
  · simp only [deS10r13, deS10r4, deS8r4] <;> ring1
  · simp only [deS10r13, deS10r4, deS8r4] <;> ring1
  · simp only [deS10r13, deS10r4, deS8r4] <;> ring1
  · simp only [deS10r13, deS10r4, deS8r4] <;> ring1
  · simp only [deS10r13, deS10r4, deS8r4] <;> ring1
  · simp only [deS10r13, deS10r4, deS8r4] <;> ring1
  · simp only [deS10r13, deS10r4, deS8r4] <;> ring1
  · simp only [deS10r13, deS10r4, deS8r4] <;> ring1
  · simp only [deS10r13, deS10r4, deS8r4] <;> ring1
  · simp only [deS10r13, deS10r4, deS8r4] <;> linear_combination (c) * hs
  · simp only [deS10r13, deS10r4, deS8r4] <;> linear_combination (c) * hs
  · simp only [deS10r12, deS10r5, deS8r5] <;> ring1
  · simp only [deS10r12, deS10r5, deS8r5] <;> ring1
  · simp only [deS10r12, deS10r5, deS8r5] <;> ring1
  · simp only [deS10r12, deS10r5, deS8r5] <;> ring1
  · simp only [deS10r12, deS10r5, deS8r5] <;> ring1
  · simp only [deS10r12, deS10r5, deS8r5] <;> ring1
  · simp only [deS10r12, deS10r5, deS8r5] <;> ring1
  · simp only [deS10r12, deS10r5, deS8r5] <;> ring1
  · simp only [deS10r12, deS10r5, deS8r5] <;> ring1
  · simp only [deS10r12, deS10r5, deS8r5] <;> ring1
  · simp only [deS10r12, deS10r5, deS8r5] <;> ring1
  · simp only [deS10r12, deS10r5, deS8r5] <;> ring1
  · simp only [deS10r12, deS10r5, deS8r5] <;> ring1
  · simp only [deS10r12, deS10r5, deS8r5] <;> ring1
  · simp only [deS10r12, deS10r5, deS8r5] <;> linear_combination (-c) * hs
  · simp only [deS10r12, deS10r5, deS8r5] <;> linear_combination (c) * hs
  · simp only [deS10r15, deS10r6, deS8r6] <;> ring1
  · simp only [deS10r15, deS10r6, deS8r6] <;> ring1
  · simp only [deS10r15, deS10r6, deS8r6] <;> ring1
  · simp only [deS10r15, deS10r6, deS8r6] <;> ring1
  · simp only [deS10r15, deS10r6, deS8r6] <;> ring1
  · simp only [deS10r15, deS10r6, deS8r6] <;> ring1
  · simp only [deS10r15, deS10r6, deS8r6] <;> ring1
  · simp only [deS10r15, deS10r6, deS8r6] <;> ring1
  · simp only [deS10r15, deS10r6, deS8r6] <;> ring1
  · simp only [deS10r15, deS10r6, deS8r6] <;> ring1
  · simp only [deS10r15, deS10r6, deS8r6] <;> ring1
  · simp only [deS10r15, deS10r6, deS8r6] <;> ring1
  · simp only [deS10r15, deS10r6, deS8r6] <;> linear_combination (-(16) * c^5 + 16 * c^3 + -(3) * c) * hs
  · simp only [deS10r15, deS10r6, deS8r6] <;> linear_combination (-c) * hs
  · simp only [deS10r15, deS10r6, deS8r6] <;> ring1
  · simp only [deS10r15, deS10r6, deS8r6] <;> ring1
  · simp only [deS10r14, deS10r7, deS8r7] <;> ring1
  · simp only [deS10r14, deS10r7, deS8r7] <;> ring1
  · simp only [deS10r14, deS10r7, deS8r7] <;> ring1
  · simp only [deS10r14, deS10r7, deS8r7] <;> ring1
  · simp only [deS10r14, deS10r7, deS8r7] <;> ring1
  · simp only [deS10r14, deS10r7, deS8r7] <;> ring1
  · simp only [deS10r14, deS10r7, deS8r7] <;> ring1
  · simp only [deS10r14, deS10r7, deS8r7] <;> ring1
  · simp only [deS10r14, deS10r7, deS8r7] <;> ring1
  · simp only [deS10r14, deS10r7, deS8r7] <;> ring1
  · simp only [deS10r14, deS10r7, deS8r7] <;> ring1
  · simp only [deS10r14, deS10r7, deS8r7] <;> ring1
  · simp only [deS10r14, deS10r7, deS8r7] <;> linear_combination (-(16) * c^5 + 16 * c^3 + -(3) * c) * hs
  · simp only [deS10r14, deS10r7, deS8r7] <;> linear_combination (c) * hs
  · simp only [deS10r14, deS10r7, deS8r7] <;> ring1
  · simp only [deS10r14, deS10r7, deS8r7] <;> ring1
  · simp only [deS10r0, deS10r9, deS8r8] <;> ring1
  · simp only [deS10r0, deS10r9, deS8r8] <;> ring1
  · simp only [deS10r0, deS10r9, deS8r8] <;> ring1
  · simp only [deS10r0, deS10r9, deS8r8] <;> ring1
  · simp only [deS10r0, deS10r9, deS8r8] <;> ring1
  · simp only [deS10r0, deS10r9, deS8r8] <;> ring1
  · simp only [deS10r0, deS10r9, deS8r8] <;> ring1
  · simp only [deS10r0, deS10r9, deS8r8] <;> ring1
  · simp only [deS10r0, deS10r9, deS8r8] <;> ring1
  · simp only [deS10r0, deS10r9, deS8r8] <;> ring1
  · simp only [deS10r0, deS10r9, deS8r8] <;> ring1
  · simp only [deS10r0, deS10r9, deS8r8] <;> ring1
  · simp only [deS10r0, deS10r9, deS8r8] <;> ring1
  · simp only [deS10r0, deS10r9, deS8r8] <;> ring1
  · simp only [deS10r0, deS10r9, deS8r8] <;> linear_combination (-c) * hs
  · simp only [deS10r0, deS10r9, deS8r8] <;> linear_combination (-c) * hs
  · simp only [deS10r1, deS10r8, deS8r9] <;> ring1
  · simp only [deS10r1, deS10r8, deS8r9] <;> ring1
  · simp only [deS10r1, deS10r8, deS8r9] <;> ring1
  · simp only [deS10r1, deS10r8, deS8r9] <;> ring1
  · simp only [deS10r1, deS10r8, deS8r9] <;> ring1
  · simp only [deS10r1, deS10r8, deS8r9] <;> ring1
  · simp only [deS10r1, deS10r8, deS8r9] <;> ring1
  · simp only [deS10r1, deS10r8, deS8r9] <;> ring1
  · simp only [deS10r1, deS10r8, deS8r9] <;> ring1
  · simp only [deS10r1, deS10r8, deS8r9] <;> ring1
  · simp only [deS10r1, deS10r8, deS8r9] <;> ring1
  · simp only [deS10r1, deS10r8, deS8r9] <;> ring1
  · simp only [deS10r1, deS10r8, deS8r9] <;> ring1
  · simp only [deS10r1, deS10r8, deS8r9] <;> ring1
  · simp only [deS10r1, deS10r8, deS8r9] <;> linear_combination (c) * hs
  · simp only [deS10r1, deS10r8, deS8r9] <;> linear_combination (-c) * hs
  · simp only [deS10r11, deS10r2, deS8r10] <;> ring1
  · simp only [deS10r11, deS10r2, deS8r10] <;> ring1
  · simp only [deS10r11, deS10r2, deS8r10] <;> ring1
  · simp only [deS10r11, deS10r2, deS8r10] <;> ring1
  · simp only [deS10r11, deS10r2, deS8r10] <;> ring1
  · simp only [deS10r11, deS10r2, deS8r10] <;> ring1
  · simp only [deS10r11, deS10r2, deS8r10] <;> ring1
  · simp only [deS10r11, deS10r2, deS8r10] <;> ring1
  · simp only [deS10r11, deS10r2, deS8r10] <;> ring1
  · simp only [deS10r11, deS10r2, deS8r10] <;> ring1
  · simp only [deS10r11, deS10r2, deS8r10] <;> ring1
  · simp only [deS10r11, deS10r2, deS8r10] <;> ring1
  · simp only [deS10r11, deS10r2, deS8r10] <;> linear_combination (16 * c^5 + -(16) * c^3 + 3 * c) * hs
  · simp only [deS10r11, deS10r2, deS8r10] <;> linear_combination (c) * hs
  · simp only [deS10r11, deS10r2, deS8r10] <;> ring1
  · simp only [deS10r11, deS10r2, deS8r10] <;> ring1
  · simp only [deS10r10, deS10r3, deS8r11] <;> ring1
  · simp only [deS10r10, deS10r3, deS8r11] <;> ring1
  · simp only [deS10r10, deS10r3, deS8r11] <;> ring1
  · simp only [deS10r10, deS10r3, deS8r11] <;> ring1
  · simp only [deS10r10, deS10r3, deS8r11] <;> ring1
  · simp only [deS10r10, deS10r3, deS8r11] <;> ring1
  · simp only [deS10r10, deS10r3, deS8r11] <;> ring1
  · simp only [deS10r10, deS10r3, deS8r11] <;> ring1
  · simp only [deS10r10, deS10r3, deS8r11] <;> ring1
  · simp only [deS10r10, deS10r3, deS8r11] <;> ring1
  · simp only [deS10r10, deS10r3, deS8r11] <;> ring1
  · simp only [deS10r10, deS10r3, deS8r11] <;> ring1
  · simp only [deS10r10, deS10r3, deS8r11] <;> linear_combination (16 * c^5 + -(16) * c^3 + 3 * c) * hs
  · simp only [deS10r10, deS10r3, deS8r11] <;> linear_combination (-c) * hs
  · simp only [deS10r10, deS10r3, deS8r11] <;> ring1
  · simp only [deS10r10, deS10r3, deS8r11] <;> ring1
  · simp only [deS10r13, deS10r4, deS8r12] <;> linear_combination (c) * hs
  · simp only [deS10r13, deS10r4, deS8r12] <;> linear_combination (c) * hs
  · simp only [deS10r13, deS10r4, deS8r12] <;> ring1
  · simp only [deS10r13, deS10r4, deS8r12] <;> ring1
  · simp only [deS10r13, deS10r4, deS8r12] <;> ring1
  · simp only [deS10r13, deS10r4, deS8r12] <;> ring1
  · simp only [deS10r13, deS10r4, deS8r12] <;> ring1
  · simp only [deS10r13, deS10r4, deS8r12] <;> ring1
  · simp only [deS10r13, deS10r4, deS8r12] <;> ring1
  · simp only [deS10r13, deS10r4, deS8r12] <;> ring1
  · simp only [deS10r13, deS10r4, deS8r12] <;> ring1
  · simp only [deS10r13, deS10r4, deS8r12] <;> ring1
  · simp only [deS10r13, deS10r4, deS8r12] <;> ring1
  · simp only [deS10r13, deS10r4, deS8r12] <;> ring1
  · simp only [deS10r13, deS10r4, deS8r12] <;> ring1
  · simp only [deS10r13, deS10r4, deS8r12] <;> ring1
  · simp only [deS10r12, deS10r5, deS8r13] <;> linear_combination (c) * hs
  · simp only [deS10r12, deS10r5, deS8r13] <;> linear_combination (-c) * hs
  · simp only [deS10r12, deS10r5, deS8r13] <;> ring1
  · simp only [deS10r12, deS10r5, deS8r13] <;> ring1
  · simp only [deS10r12, deS10r5, deS8r13] <;> ring1
  · simp only [deS10r12, deS10r5, deS8r13] <;> ring1
  · simp only [deS10r12, deS10r5, deS8r13] <;> ring1
  · simp only [deS10r12, deS10r5, deS8r13] <;> ring1
  · simp only [deS10r12, deS10r5, deS8r13] <;> ring1
  · simp only [deS10r12, deS10r5, deS8r13] <;> ring1
  · simp only [deS10r12, deS10r5, deS8r13] <;> ring1
  · simp only [deS10r12, deS10r5, deS8r13] <;> ring1
  · simp only [deS10r12, deS10r5, deS8r13] <;> ring1
  · simp only [deS10r12, deS10r5, deS8r13] <;> ring1
  · simp only [deS10r12, deS10r5, deS8r13] <;> ring1
  · simp only [deS10r12, deS10r5, deS8r13] <;> ring1
  · simp only [deS10r15, deS10r6, deS8r14] <;> ring1
  · simp only [deS10r15, deS10r6, deS8r14] <;> ring1
  · simp only [deS10r15, deS10r6, deS8r14] <;> linear_combination (-c) * hs
  · simp only [deS10r15, deS10r6, deS8r14] <;> linear_combination (-(16) * c^5 + 16 * c^3 + -(3) * c) * hs
  · simp only [deS10r15, deS10r6, deS8r14] <;> ring1
  · simp only [deS10r15, deS10r6, deS8r14] <;> ring1
  · simp only [deS10r15, deS10r6, deS8r14] <;> ring1
  · simp only [deS10r15, deS10r6, deS8r14] <;> ring1
  · simp only [deS10r15, deS10r6, deS8r14] <;> ring1
  · simp only [deS10r15, deS10r6, deS8r14] <;> ring1
  · simp only [deS10r15, deS10r6, deS8r14] <;> ring1
  · simp only [deS10r15, deS10r6, deS8r14] <;> ring1
  · simp only [deS10r15, deS10r6, deS8r14] <;> ring1
  · simp only [deS10r15, deS10r6, deS8r14] <;> ring1
  · simp only [deS10r15, deS10r6, deS8r14] <;> ring1
  · simp only [deS10r15, deS10r6, deS8r14] <;> ring1
  · simp only [deS10r14, deS10r7, deS8r15] <;> ring1
  · simp only [deS10r14, deS10r7, deS8r15] <;> ring1
  · simp only [deS10r14, deS10r7, deS8r15] <;> linear_combination (c) * hs
  · simp only [deS10r14, deS10r7, deS8r15] <;> linear_combination (-(16) * c^5 + 16 * c^3 + -(3) * c) * hs
  · simp only [deS10r14, deS10r7, deS8r15] <;> ring1
  · simp only [deS10r14, deS10r7, deS8r15] <;> ring1
  · simp only [deS10r14, deS10r7, deS8r15] <;> ring1
  · simp only [deS10r14, deS10r7, deS8r15] <;> ring1
  · simp only [deS10r14, deS10r7, deS8r15] <;> ring1
  · simp only [deS10r14, deS10r7, deS8r15] <;> ring1
  · simp only [deS10r14, deS10r7, deS8r15] <;> ring1
  · simp only [deS10r14, deS10r7, deS8r15] <;> ring1
  · simp only [deS10r14, deS10r7, deS8r15] <;> ring1
  · simp only [deS10r14, deS10r7, deS8r15] <;> ring1
  · simp only [deS10r14, deS10r7, deS8r15] <;> ring1
  · simp only [deS10r14, deS10r7, deS8r15] <;> ring1

set_option maxHeartbeats 4000000 in
/-- Chain step 7 of `de`. -/
theorem deStep7 {α : Type} [ Field α] [ CharZero α] (c s h : α) (hs : s ^ 2 = 1 - c ^ 2) (hh : h ^ 2 = 1 / 2) :
    lift1 1 (ryG c s) * deS8 c s h = deS7 c s h := by
  rw [ryRule_1]
  ext r k
  obtain ⟨x1, x2, x3, x4⟩ := r
  simp only [deS8, deS7, Matrix.of_apply]
  obtain ⟨y1, y2, y3, y4⟩ := k
  cases x1 <;> cases x2 <;> cases x3 <;> cases x4 <;>
    cases y1 <;> cases y2 <;> cases y3 <;> cases y4
  · simp only [deS8r0, deS8r4, deS7r0] <;> linear_combination ((1/2)) * hs
  · simp only [deS8r0, deS8r4, deS7r0] <;> linear_combination ((1/2)) * hs
  · simp only [deS8r0, deS8r4, deS7r0] <;> ring1
  · simp only [deS8r0, deS8r4, deS7r0] <;> ring1
  · simp only [deS8r0, deS8r4, deS7r0] <;> ring1
  · simp only [deS8r0, deS8r4, deS7r0] <;> ring1
  · simp only [deS8r0, deS8r4, deS7r0] <;> ring1
  · simp only [deS8r0, deS8r4, deS7r0] <;> ring1
  · simp only [deS8r0, deS8r4, deS7r0] <;> ring1
  · simp only [deS8r0, deS8r4, deS7r0] <;> ring1
  · simp only [deS8r0, deS8r4, deS7r0] <;> linear_combination ((1/2)) * hs
  · simp only [deS8r0, deS8r4, deS7r0] <;> linear_combination ((1/2)) * hs
  · simp only [deS8r0, deS8r4, deS7r0] <;> ring1
  · simp only [deS8r0, deS8r4, deS7r0] <;> ring1
  · simp only [deS8r0, deS8r4, deS7r0] <;> ring1
  · simp only [deS8r0, deS8r4, deS7r0] <;> ring1
  · simp only [deS8r1, deS8r5, deS7r1] <;> linear_combination ((1/2)) * hs
  · simp only [deS8r1, deS8r5, deS7r1] <;> linear_combination (-(1/2)) * hs
  · simp only [deS8r1, deS8r5, deS7r1] <;> ring1
  · simp only [deS8r1, deS8r5, deS7r1] <;> ring1
  · simp only [deS8r1, deS8r5, deS7r1] <;> ring1
  · simp only [deS8r1, deS8r5, deS7r1] <;> ring1
  · simp only [deS8r1, deS8r5, deS7r1] <;> ring1
  · simp only [deS8r1, deS8r5, deS7r1] <;> ring1
  · simp only [deS8r1, deS8r5, deS7r1] <;> ring1
  · simp only [deS8r1, deS8r5, deS7r1] <;> ring1
  · simp only [deS8r1, deS8r5, deS7r1] <;> linear_combination (-(1/2)) * hs
  · simp only [deS8r1, deS8r5, deS7r1] <;> linear_combination ((1/2)) * hs
  · simp only [deS8r1, deS8r5, deS7r1] <;> ring1
  · simp only [deS8r1, deS8r5, deS7r1] <;> ring1
  · simp only [deS8r1, deS8r5, deS7r1] <;> ring1
  · simp only [deS8r1, deS8r5, deS7r1] <;> ring1
  · simp only [deS8r2, deS8r6, deS7r2] <;> ring1
  · simp only [deS8r2, deS8r6, deS7r2] <;> ring1
  · simp only [deS8r2, deS8r6, deS7r2] <;> linear_combination (-(1/2)) * hs
  · simp only [deS8r2, deS8r6, deS7r2] <;> linear_combination (-(32) * c^6 + 40 * c^4 + -(12) * c^2 + (1/2)) * hs
  · simp only [deS8r2, deS8r6, deS7r2] <;> ring1
  · simp only [deS8r2, deS8r6, deS7r2] <;> ring1
  · simp only [deS8r2, deS8r6, deS7r2] <;> ring1
  · simp only [deS8r2, deS8r6, deS7r2] <;> ring1
  · simp only [deS8r2, deS8r6, deS7r2] <;> linear_combination ((1/2)) * hs
  · simp only [deS8r2, deS8r6, deS7r2] <;> linear_combination (-(1/2)) * hs
  · simp only [deS8r2, deS8r6, deS7r2] <;> ring1
  · simp only [deS8r2, deS8r6, deS7r2] <;> ring1
  · simp only [deS8r2, deS8r6, deS7r2] <;> ring1
  · simp only [deS8r2, deS8r6, deS7r2] <;> ring1
  · simp only [deS8r2, deS8r6, deS7r2] <;> ring1
  · simp only [deS8r2, deS8r6, deS7r2] <;> ring1
  · simp only [deS8r3, deS8r7, deS7r3] <;> ring1
  · simp only [deS8r3, deS8r7, deS7r3] <;> ring1
  · simp only [deS8r3, deS8r7, deS7r3] <;> linear_combination ((1/2)) * hs
  · simp only [deS8r3, deS8r7, deS7r3] <;> linear_combination (-(32) * c^6 + 40 * c^4 + -(12) * c^2 + (1/2)) * hs
  · simp only [deS8r3, deS8r7, deS7r3] <;> ring1
  · simp only [deS8r3, deS8r7, deS7r3] <;> ring1
  · simp only [deS8r3, deS8r7, deS7r3] <;> ring1
  · simp only [deS8r3, deS8r7, deS7r3] <;> ring1
  · simp only [deS8r3, deS8r7, deS7r3] <;> linear_combination ((1/2)) * hs
  · simp only [deS8r3, deS8r7, deS7r3] <;> linear_combination ((1/2)) * hs
  · simp only [deS8r3, deS8r7, deS7r3] <;> ring1
  · simp only [deS8r3, deS8r7, deS7r3] <;> ring1
  · simp only [deS8r3, deS8r7, deS7r3] <;> ring1
  · simp only [deS8r3, deS8r7, deS7r3] <;> ring1
  · simp only [deS8r3, deS8r7, deS7r3] <;> ring1
  · simp only [deS8r3, deS8r7, deS7r3] <;> ring1
  · simp only [deS8r0, deS8r4, deS7r4] <;> ring1
  · simp only [deS8r0, deS8r4, deS7r4] <;> ring1
  · simp only [deS8r0, deS8r4, deS7r4] <;> ring1
  · simp only [deS8r0, deS8r4, deS7r4] <;> ring1
  · simp only [deS8r0, deS8r4, deS7r4] <;> linear_combination ((1/2)) * hs
  · simp only [deS8r0, deS8r4, deS7r4] <;> linear_combination ((1/2)) * hs
  · simp only [deS8r0, deS8r4, deS7r4] <;> ring1
  · simp only [deS8r0, deS8r4, deS7r4] <;> ring1
  · simp only [deS8r0, deS8r4, deS7r4] <;> ring1
  · simp only [deS8r0, deS8r4, deS7r4] <;> ring1
  · simp only [deS8r0, deS8r4, deS7r4] <;> ring1
  · simp only [deS8r0, deS8r4, deS7r4] <;> ring1
  · simp only [deS8r0, deS8r4, deS7r4] <;> ring1
  · simp only [deS8r0, deS8r4, deS7r4] <;> ring1
  · simp only [deS8r0, deS8r4, deS7r4] <;> linear_combination ((1/2)) * hs
  · simp only [deS8r0, deS8r4, deS7r4] <;> linear_combination ((1/2)) * hs
  · simp only [deS8r1, deS8r5, deS7r5] <;> ring1
  · simp only [deS8r1, deS8r5, deS7r5] <;> ring1
  · simp only [deS8r1, deS8r5, deS7r5] <;> ring1
  · simp only [deS8r1, deS8r5, deS7r5] <;> ring1
  · simp only [deS8r1, deS8r5, deS7r5] <;> linear_combination ((1/2)) * hs
  · simp only [deS8r1, deS8r5, deS7r5] <;> linear_combination (-(1/2)) * hs
  · simp only [deS8r1, deS8r5, deS7r5] <;> ring1
  · simp only [deS8r1, deS8r5, deS7r5] <;> ring1
  · simp only [deS8r1, deS8r5, deS7r5] <;> ring1
  · simp only [deS8r1, deS8r5, deS7r5] <;> ring1
  · simp only [deS8r1, deS8r5, deS7r5] <;> ring1
  · simp only [deS8r1, deS8r5, deS7r5] <;> ring1
  · simp only [deS8r1, deS8r5, deS7r5] <;> ring1
  · simp only [deS8r1, deS8r5, deS7r5] <;> ring1
  · simp only [deS8r1, deS8r5, deS7r5] <;> linear_combination (-(1/2)) * hs
  · simp only [deS8r1, deS8r5, deS7r5] <;> linear_combination ((1/2)) * hs
  · simp only [deS8r2, deS8r6, deS7r6] <;> ring1
  · simp only [deS8r2, deS8r6, deS7r6] <;> ring1
  · simp only [deS8r2, deS8r6, deS7r6] <;> ring1
  · simp only [deS8r2, deS8r6, deS7r6] <;> ring1
  · simp only [deS8r2, deS8r6, deS7r6] <;> ring1
  · simp only [deS8r2, deS8r6, deS7r6] <;> ring1
  · simp only [deS8r2, deS8r6, deS7r6] <;> linear_combination (-(1/2)) * hs
  · simp only [deS8r2, deS8r6, deS7r6] <;> linear_combination ((1/2)) * hs
  · simp only [deS8r2, deS8r6, deS7r6] <;> ring1
  · simp only [deS8r2, deS8r6, deS7r6] <;> ring1
  · simp only [deS8r2, deS8r6, deS7r6] <;> ring1
  · simp only [deS8r2, deS8r6, deS7r6] <;> ring1
  · simp only [deS8r2, deS8r6, deS7r6] <;> linear_combination (-(32) * c^6 + 40 * c^4 + -(12) * c^2 + (1/2)) * hs
  · simp only [deS8r2, deS8r6, deS7r6] <;> linear_combination (-(1/2)) * hs
  · simp only [deS8r2, deS8r6, deS7r6] <;> ring1
  · simp only [deS8r2, deS8r6, deS7r6] <;> ring1
  · simp only [deS8r3, deS8r7, deS7r7] <;> ring1
  · simp only [deS8r3, deS8r7, deS7r7] <;> ring1
  · simp only [deS8r3, deS8r7, deS7r7] <;> ring1
  · simp only [deS8r3, deS8r7, deS7r7] <;> ring1
  · simp only [deS8r3, deS8r7, deS7r7] <;> ring1
  · simp only [deS8r3, deS8r7, deS7r7] <;> ring1
  · simp only [deS8r3, deS8r7, deS7r7] <;> linear_combination ((1/2)) * hs
  · simp only [deS8r3, deS8r7, deS7r7] <;> linear_combination ((1/2)) * hs
  · simp only [deS8r3, deS8r7, deS7r7] <;> ring1
  · simp only [deS8r3, deS8r7, deS7r7] <;> ring1
  · simp only [deS8r3, deS8r7, deS7r7] <;> ring1
  · simp only [deS8r3, deS8r7, deS7r7] <;> ring1
  · simp only [deS8r3, deS8r7, deS7r7] <;> linear_combination (-(32) * c^6 + 40 * c^4 + -(12) * c^2 + (1/2)) * hs
  · simp only [deS8r3, deS8r7, deS7r7] <;> linear_combination ((1/2)) * hs
  · simp only [deS8r3, deS8r7, deS7r7] <;> ring1
  · simp only [deS8r3, deS8r7, deS7r7] <;> ring1
  · simp only [deS8r12, deS8r8, deS7r8] <;> ring1
  · simp only [deS8r12, deS8r8, deS7r8] <;> ring1
  · simp only [deS8r12, deS8r8, deS7r8] <;> ring1
  · simp only [deS8r12, deS8r8, deS7r8] <;> ring1
  · simp only [deS8r12, deS8r8, deS7r8] <;> linear_combination ((1/2)) * hs
  · simp only [deS8r12, deS8r8, deS7r8] <;> linear_combination ((1/2)) * hs
  · simp only [deS8r12, deS8r8, deS7r8] <;> ring1
  · simp only [deS8r12, deS8r8, deS7r8] <;> ring1
  · simp only [deS8r12, deS8r8, deS7r8] <;> ring1
  · simp only [deS8r12, deS8r8, deS7r8] <;> ring1
  · simp only [deS8r12, deS8r8, deS7r8] <;> ring1
  · simp only [deS8r12, deS8r8, deS7r8] <;> ring1
  · simp only [deS8r12, deS8r8, deS7r8] <;> ring1
  · simp only [deS8r12, deS8r8, deS7r8] <;> ring1
  · simp only [deS8r12, deS8r8, deS7r8] <;> linear_combination (-(1/2)) * hs
  · simp only [deS8r12, deS8r8, deS7r8] <;> linear_combination (-(1/2)) * hs
  · simp only [deS8r13, deS8r9, deS7r9] <;> ring1
  · simp only [deS8r13, deS8r9, deS7r9] <;> ring1
  · simp only [deS8r13, deS8r9, deS7r9] <;> ring1
  · simp only [deS8r13, deS8r9, deS7r9] <;> ring1
  · simp only [deS8r13, deS8r9, deS7r9] <;> linear_combination ((1/2)) * hs
  · simp only [deS8r13, deS8r9, deS7r9] <;> linear_combination (-(1/2)) * hs
  · simp only [deS8r13, deS8r9, deS7r9] <;> ring1
  · simp only [deS8r13, deS8r9, deS7r9] <;> ring1
  · simp only [deS8r13, deS8r9, deS7r9] <;> ring1
  · simp only [deS8r13, deS8r9, deS7r9] <;> ring1
  · simp only [deS8r13, deS8r9, deS7r9] <;> ring1
  · simp only [deS8r13, deS8r9, deS7r9] <;> ring1
  · simp only [deS8r13, deS8r9, deS7r9] <;> ring1
  · simp only [deS8r13, deS8r9, deS7r9] <;> ring1
  · simp only [deS8r13, deS8r9, deS7r9] <;> linear_combination ((1/2)) * hs
  · simp only [deS8r13, deS8r9, deS7r9] <;> linear_combination (-(1/2)) * hs
  · simp only [deS8r10, deS8r14, deS7r10] <;> ring1
  · simp only [deS8r10, deS8r14, deS7r10] <;> ring1
  · simp only [deS8r10, deS8r14, deS7r10] <;> ring1
  · simp only [deS8r10, deS8r14, deS7r10] <;> ring1
  · simp only [deS8r10, deS8r14, deS7r10] <;> ring1
  · simp only [deS8r10, deS8r14, deS7r10] <;> ring1
  · simp only [deS8r10, deS8r14, deS7r10] <;> linear_combination (-(1/2)) * hs
  · simp only [deS8r10, deS8r14, deS7r10] <;> linear_combination ((1/2)) * hs
  · simp only [deS8r10, deS8r14, deS7r10] <;> ring1
  · simp only [deS8r10, deS8r14, deS7r10] <;> ring1
  · simp only [deS8r10, deS8r14, deS7r10] <;> ring1
  · simp only [deS8r10, deS8r14, deS7r10] <;> ring1
  · simp only [deS8r10, deS8r14, deS7r10] <;> linear_combination (32 * c^6 + -(40) * c^4 + 12 * c^2 + -(1/2)) * hs
  · simp only [deS8r10, deS8r14, deS7r10] <;> linear_combination ((1/2)) * hs
  · simp only [deS8r10, deS8r14, deS7r10] <;> ring1
  · simp only [deS8r10, deS8r14, deS7r10] <;> ring1
  · simp only [deS8r11, deS8r15, deS7r11] <;> ring1
  · simp only [deS8r11, deS8r15, deS7r11] <;> ring1
  · simp only [deS8r11, deS8r15, deS7r11] <;> ring1
  · simp only [deS8r11, deS8r15, deS7r11] <;> ring1
  · simp only [deS8r11, deS8r15, deS7r11] <;> ring1
  · simp only [deS8r11, deS8r15, deS7r11] <;> ring1
  · simp only [deS8r11, deS8r15, deS7r11] <;> linear_combination ((1/2)) * hs
  · simp only [deS8r11, deS8r15, deS7r11] <;> linear_combination ((1/2)) * hs
  · simp only [deS8r11, deS8r15, deS7r11] <;> ring1
  · simp only [deS8r11, deS8r15, deS7r11] <;> ring1
  · simp only [deS8r11, deS8r15, deS7r11] <;> ring1
  · simp only [deS8r11, deS8r15, deS7r11] <;> ring1
  · simp only [deS8r11, deS8r15, deS7r11] <;> linear_combination (32 * c^6 + -(40) * c^4 + 12 * c^2 + -(1/2)) * hs
  · simp only [deS8r11, deS8r15, deS7r11] <;> linear_combination (-(1/2)) * hs
  · simp only [deS8r11, deS8r15, deS7r11] <;> ring1
  · simp only [deS8r11, deS8r15, deS7r11] <;> ring1
  · simp only [deS8r12, deS8r8, deS7r12] <;> linear_combination ((1/2)) * hs
  · simp only [deS8r12, deS8r8, deS7r12] <;> linear_combination ((1/2)) * hs
  · simp only [deS8r12, deS8r8, deS7r12] <;> ring1
  · simp only [deS8r12, deS8r8, deS7r12] <;> ring1
  · simp only [deS8r12, deS8r8, deS7r12] <;> ring1
  · simp only [deS8r12, deS8r8, deS7r12] <;> ring1
  · simp only [deS8r12, deS8r8, deS7r12] <;> ring1
  · simp only [deS8r12, deS8r8, deS7r12] <;> ring1
  · simp only [deS8r12, deS8r8, deS7r12] <;> ring1
  · simp only [deS8r12, deS8r8, deS7r12] <;> ring1
  · simp only [deS8r12, deS8r8, deS7r12] <;> linear_combination (-(1/2)) * hs
  · simp only [deS8r12, deS8r8, deS7r12] <;> linear_combination (-(1/2)) * hs
  · simp only [deS8r12, deS8r8, deS7r12] <;> ring1
  · simp only [deS8r12, deS8r8, deS7r12] <;> ring1
  · simp only [deS8r12, deS8r8, deS7r12] <;> ring1
  · simp only [deS8r12, deS8r8, deS7r12] <;> ring1
  · simp only [deS8r13, deS8r9, deS7r13] <;> linear_combination ((1/2)) * hs
  · simp only [deS8r13, deS8r9, deS7r13] <;> linear_combination (-(1/2)) * hs
  · simp only [deS8r13, deS8r9, deS7r13] <;> ring1
  · simp only [deS8r13, deS8r9, deS7r13] <;> ring1
  · simp only [deS8r13, deS8r9, deS7r13] <;> ring1
  · simp only [deS8r13, deS8r9, deS7r13] <;> ring1
  · simp only [deS8r13, deS8r9, deS7r13] <;> ring1
  · simp only [deS8r13, deS8r9, deS7r13] <;> ring1
  · simp only [deS8r13, deS8r9, deS7r13] <;> ring1
  · simp only [deS8r13, deS8r9, deS7r13] <;> ring1
  · simp only [deS8r13, deS8r9, deS7r13] <;> linear_combination ((1/2)) * hs
  · simp only [deS8r13, deS8r9, deS7r13] <;> linear_combination (-(1/2)) * hs
  · simp only [deS8r13, deS8r9, deS7r13] <;> ring1
  · simp only [deS8r13, deS8r9, deS7r13] <;> ring1
  · simp only [deS8r13, deS8r9, deS7r13] <;> ring1
  · simp only [deS8r13, deS8r9, deS7r13] <;> ring1
  · simp only [deS8r10, deS8r14, deS7r14] <;> ring1
  · simp only [deS8r10, deS8r14, deS7r14] <;> ring1
  · simp only [deS8r10, deS8r14, deS7r14] <;> linear_combination (-(1/2)) * hs
  · simp only [deS8r10, deS8r14, deS7r14] <;> linear_combination (-(32) * c^6 + 40 * c^4 + -(12) * c^2 + (1/2)) * hs
  · simp only [deS8r10, deS8r14, deS7r14] <;> ring1
  · simp only [deS8r10, deS8r14, deS7r14] <;> ring1
  · simp only [deS8r10, deS8r14, deS7r14] <;> ring1
  · simp only [deS8r10, deS8r14, deS7r14] <;> ring1
  · simp only [deS8r10, deS8r14, deS7r14] <;> linear_combination (-(1/2)) * hs
  · simp only [deS8r10, deS8r14, deS7r14] <;> linear_combination ((1/2)) * hs
  · simp only [deS8r10, deS8r14, deS7r14] <;> ring1
  · simp only [deS8r10, deS8r14, deS7r14] <;> ring1
  · simp only [deS8r10, deS8r14, deS7r14] <;> ring1
  · simp only [deS8r10, deS8r14, deS7r14] <;> ring1
  · simp only [deS8r10, deS8r14, deS7r14] <;> ring1
  · simp only [deS8r10, deS8r14, deS7r14] <;> ring1
  · simp only [deS8r11, deS8r15, deS7r15] <;> ring1
  · simp only [deS8r11, deS8r15, deS7r15] <;> ring1
  · simp only [deS8r11, deS8r15, deS7r15] <;> linear_combination ((1/2)) * hs
  · simp only [deS8r11, deS8r15, deS7r15] <;> linear_combination (-(32) * c^6 + 40 * c^4 + -(12) * c^2 + (1/2)) * hs
  · simp only [deS8r11, deS8r15, deS7r15] <;> ring1
  · simp only [deS8r11, deS8r15, deS7r15] <;> ring1
  · simp only [deS8r11, deS8r15, deS7r15] <;> ring1
  · simp only [deS8r11, deS8r15, deS7r15] <;> ring1
  · simp only [deS8r11, deS8r15, deS7r15] <;> linear_combination (-(1/2)) * hs
  · simp only [deS8r11, deS8r15, deS7r15] <;> linear_combination (-(1/2)) * hs
  · simp only [deS8r11, deS8r15, deS7r15] <;> ring1
  · simp only [deS8r11, deS8r15, deS7r15] <;> ring1
  · simp only [deS8r11, deS8r15, deS7r15] <;> ring1
  · simp only [deS8r11, deS8r15, deS7r15] <;> ring1
  · simp only [deS8r11, deS8r15, deS7r15] <;> ring1
  · simp only [deS8r11, deS8r15, deS7r15] <;> ring1

set_option maxHeartbeats 4000000 in
/-- Chain step 6 of `de`. -/
theorem deStep6 {α : Type} [ Field α] [ CharZero α] (c s h : α) (hs : s ^ 2 = 1 - c ^ 2) (hh : h ^ 2 = 1 / 2) :
    lift2 0 1 cnotG * deS7 c s h = deS6 c s h := by
  rw [cnotRule_0_1]
  ext r k
  obtain ⟨x1, x2, x3, x4⟩ := r
  simp only [deS7, deS6, Matrix.of_apply]
  cases x1 <;> cases x2 <;> cases x3 <;> cases x4 <;> rfl

set_option maxHeartbeats 4000000 in
/-- Chain step 5 of `de`. -/
theorem deStep5 {α : Type} [ Field α] [ CharZero α] (c s h : α) (hs : s ^ 2 = 1 - c ^ 2) (hh : h ^ 2 = 1 / 2) :
    lift2 2 3 cnotG * deS6 c s h = deS5 c s h := by
  rw [cnotRule_2_3]
  ext r k
  obtain ⟨x1, x2, x3, x4⟩ := r
  simp only [deS6, deS5, Matrix.of_apply]
  cases x1 <;> cases x2 <;> cases x3 <;> cases x4 <;> rfl

set_option maxHeartbeats 4000000 in
/-- Chain step 4 of `de`. -/
theorem deStep4 {α : Type} [ Field α] [ CharZero α] (c s h : α) (hs : s ^ 2 = 1 - c ^ 2) (hh : h ^ 2 = 1 / 2) :
    lift1 0 (hG h) * deS5 c s h = deS4 c s h := by
  rw [hRule_0]
  ext r k
  obtain ⟨x1, x2, x3, x4⟩ := r
  simp only [deS5, deS4, Matrix.of_apply]
  obtain ⟨y1, y2, y3, y4⟩ := k
  cases x1 <;> cases x2 <;> cases x3 <;> cases x4 <;>
    cases y1 <;> cases y2 <;> cases y3 <;> cases y4
  · simp only [deS7r0, deS7r12, deS4r0] <;> ring1
  · simp only [deS7r0, deS7r12, deS4r0] <;> ring1
  · simp only [deS7r0, deS7r12, deS4r0] <;> ring1
  · simp only [deS7r0, deS7r12, deS4r0] <;> ring1
  · simp only [deS7r0, deS7r12, deS4r0] <;> ring1
  · simp only [deS7r0, deS7r12, deS4r0] <;> ring1
  · simp only [deS7r0, deS7r12, deS4r0] <;> ring1
  · simp only [deS7r0, deS7r12, deS4r0] <;> ring1
  · simp only [deS7r0, deS7r12, deS4r0] <;> ring1
  · simp only [deS7r0, deS7r12, deS4r0] <;> ring1
  · simp only [deS7r0, deS7r12, deS4r0] <;> ring1
  · simp only [deS7r0, deS7r12, deS4r0] <;> ring1
  · simp only [deS7r0, deS7r12, deS4r0] <;> ring1
  · simp only [deS7r0, deS7r12, deS4r0] <;> ring1
  · simp only [deS7r0, deS7r12, deS4r0] <;> ring1
  · simp only [deS7r0, deS7r12, deS4r0] <;> ring1
  · simp only [deS7r1, deS7r13, deS4r1] <;> ring1
  · simp only [deS7r1, deS7r13, deS4r1] <;> ring1
  · simp only [deS7r1, deS7r13, deS4r1] <;> ring1
  · simp only [deS7r1, deS7r13, deS4r1] <;> ring1
  · simp only [deS7r1, deS7r13, deS4r1] <;> ring1
  · simp only [deS7r1, deS7r13, deS4r1] <;> ring1
  · simp only [deS7r1, deS7r13, deS4r1] <;> ring1
  · simp only [deS7r1, deS7r13, deS4r1] <;> ring1
  · simp only [deS7r1, deS7r13, deS4r1] <;> ring1
  · simp only [deS7r1, deS7r13, deS4r1] <;> ring1
  · simp only [deS7r1, deS7r13, deS4r1] <;> ring1
  · simp only [deS7r1, deS7r13, deS4r1] <;> ring1
  · simp only [deS7r1, deS7r13, deS4r1] <;> ring1
  · simp only [deS7r1, deS7r13, deS4r1] <;> ring1
  · simp only [deS7r1, deS7r13, deS4r1] <;> ring1
  · simp only [deS7r1, deS7r13, deS4r1] <;> ring1
  · simp only [deS7r15, deS7r3, deS4r2] <;> ring1
  · simp only [deS7r15, deS7r3, deS4r2] <;> ring1
  · simp only [deS7r15, deS7r3, deS4r2] <;> ring1
  · simp only [deS7r15, deS7r3, deS4r2] <;> ring1
  · simp only [deS7r15, deS7r3, deS4r2] <;> ring1
  · simp only [deS7r15, deS7r3, deS4r2] <;> ring1
  · simp only [deS7r15, deS7r3, deS4r2] <;> ring1
  · simp only [deS7r15, deS7r3, deS4r2] <;> ring1
  · simp only [deS7r15, deS7r3, deS4r2] <;> ring1
  · simp only [deS7r15, deS7r3, deS4r2] <;> ring1
  · simp only [deS7r15, deS7r3, deS4r2] <;> ring1
  · simp only [deS7r15, deS7r3, deS4r2] <;> ring1
  · simp only [deS7r15, deS7r3, deS4r2] <;> ring1
  · simp only [deS7r15, deS7r3, deS4r2] <;> ring1
  · simp only [deS7r15, deS7r3, deS4r2] <;> ring1
  · simp only [deS7r15, deS7r3, deS4r2] <;> ring1
  · simp only [deS7r14, deS7r2, deS4r3] <;> ring1
  · simp only [deS7r14, deS7r2, deS4r3] <;> ring1
  · simp only [deS7r14, deS7r2, deS4r3] <;> ring1
  · simp only [deS7r14, deS7r2, deS4r3] <;> ring1
  · simp only [deS7r14, deS7r2, deS4r3] <;> ring1
  · simp only [deS7r14, deS7r2, deS4r3] <;> ring1
  · simp only [deS7r14, deS7r2, deS4r3] <;> ring1
  · simp only [deS7r14, deS7r2, deS4r3] <;> ring1
  · simp only [deS7r14, deS7r2, deS4r3] <;> ring1
  · simp only [deS7r14, deS7r2, deS4r3] <;> ring1
  · simp only [deS7r14, deS7r2, deS4r3] <;> ring1
  · simp only [deS7r14, deS7r2, deS4r3] <;> ring1
  · simp only [deS7r14, deS7r2, deS4r3] <;> ring1
  · simp only [deS7r14, deS7r2, deS4r3] <;> ring1
  · simp only [deS7r14, deS7r2, deS4r3] <;> ring1
  · simp only [deS7r14, deS7r2, deS4r3] <;> ring1
  · simp only [deS7r4, deS7r8, deS4r4] <;> ring1
  · simp only [deS7r4, deS7r8, deS4r4] <;> ring1
  · simp only [deS7r4, deS7r8, deS4r4] <;> ring1
  · simp only [deS7r4, deS7r8, deS4r4] <;> ring1
  · simp only [deS7r4, deS7r8, deS4r4] <;> ring1
  · simp only [deS7r4, deS7r8, deS4r4] <;> ring1
  · simp only [deS7r4, deS7r8, deS4r4] <;> ring1
  · simp only [deS7r4, deS7r8, deS4r4] <;> ring1
  · simp only [deS7r4, deS7r8, deS4r4] <;> ring1
  · simp only [deS7r4, deS7r8, deS4r4] <;> ring1
  · simp only [deS7r4, deS7r8, deS4r4] <;> ring1
  · simp only [deS7r4, deS7r8, deS4r4] <;> ring1
  · simp only [deS7r4, deS7r8, deS4r4] <;> ring1
  · simp only [deS7r4, deS7r8, deS4r4] <;> ring1
  · simp only [deS7r4, deS7r8, deS4r4] <;> ring1
  · simp only [deS7r4, deS7r8, deS4r4] <;> ring1
  · simp only [deS7r5, deS7r9, deS4r5] <;> ring1
  · simp only [deS7r5, deS7r9, deS4r5] <;> ring1
  · simp only [deS7r5, deS7r9, deS4r5] <;> ring1
  · simp only [deS7r5, deS7r9, deS4r5] <;> ring1
  · simp only [deS7r5, deS7r9, deS4r5] <;> ring1
  · simp only [deS7r5, deS7r9, deS4r5] <;> ring1
  · simp only [deS7r5, deS7r9, deS4r5] <;> ring1
  · simp only [deS7r5, deS7r9, deS4r5] <;> ring1
  · simp only [deS7r5, deS7r9, deS4r5] <;> ring1
  · simp only [deS7r5, deS7r9, deS4r5] <;> ring1
  · simp only [deS7r5, deS7r9, deS4r5] <;> ring1
  · simp only [deS7r5, deS7r9, deS4r5] <;> ring1
  · simp only [deS7r5, deS7r9, deS4r5] <;> ring1
  · simp only [deS7r5, deS7r9, deS4r5] <;> ring1
  · simp only [deS7r5, deS7r9, deS4r5] <;> ring1
  · simp only [deS7r5, deS7r9, deS4r5] <;> ring1
  · simp only [deS7r11, deS7r7, deS4r6] <;> ring1
  · simp only [deS7r11, deS7r7, deS4r6] <;> ring1
  · simp only [deS7r11, deS7r7, deS4r6] <;> ring1
  · simp only [deS7r11, deS7r7, deS4r6] <;> ring1
  · simp only [deS7r11, deS7r7, deS4r6] <;> ring1
  · simp only [deS7r11, deS7r7, deS4r6] <;> ring1
  · simp only [deS7r11, deS7r7, deS4r6] <;> ring1
  · simp only [deS7r11, deS7r7, deS4r6] <;> ring1
  · simp only [deS7r11, deS7r7, deS4r6] <;> ring1
  · simp only [deS7r11, deS7r7, deS4r6] <;> ring1
  · simp only [deS7r11, deS7r7, deS4r6] <;> ring1
  · simp only [deS7r11, deS7r7, deS4r6] <;> ring1
  · simp only [deS7r11, deS7r7, deS4r6] <;> ring1
  · simp only [deS7r11, deS7r7, deS4r6] <;> ring1
  · simp only [deS7r11, deS7r7, deS4r6] <;> ring1
  · simp only [deS7r11, deS7r7, deS4r6] <;> ring1
  · simp only [deS7r10, deS7r6, deS4r7] <;> ring1
  · simp only [deS7r10, deS7r6, deS4r7] <;> ring1
  · simp only [deS7r10, deS7r6, deS4r7] <;> ring1
  · simp only [deS7r10, deS7r6, deS4r7] <;> ring1
  · simp only [deS7r10, deS7r6, deS4r7] <;> ring1
  · simp only [deS7r10, deS7r6, deS4r7] <;> ring1
  · simp only [deS7r10, deS7r6, deS4r7] <;> ring1
  · simp only [deS7r10, deS7r6, deS4r7] <;> ring1
  · simp only [deS7r10, deS7r6, deS4r7] <;> ring1
  · simp only [deS7r10, deS7r6, deS4r7] <;> ring1
  · simp only [deS7r10, deS7r6, deS4r7] <;> ring1
  · simp only [deS7r10, deS7r6, deS4r7] <;> ring1
  · simp only [deS7r10, deS7r6, deS4r7] <;> ring1
  · simp only [deS7r10, deS7r6, deS4r7] <;> ring1
  · simp only [deS7r10, deS7r6, deS4r7] <;> ring1
  · simp only [deS7r10, deS7r6, deS4r7] <;> ring1
  · simp only [deS7r0, deS7r12, deS4r8] <;> ring1
  · simp only [deS7r0, deS7r12, deS4r8] <;> ring1
  · simp only [deS7r0, deS7r12, deS4r8] <;> ring1
  · simp only [deS7r0, deS7r12, deS4r8] <;> ring1
  · simp only [deS7r0, deS7r12, deS4r8] <;> ring1
  · simp only [deS7r0, deS7r12, deS4r8] <;> ring1
  · simp only [deS7r0, deS7r12, deS4r8] <;> ring1
  · simp only [deS7r0, deS7r12, deS4r8] <;> ring1
  · simp only [deS7r0, deS7r12, deS4r8] <;> ring1
  · simp only [deS7r0, deS7r12, deS4r8] <;> ring1
  · simp only [deS7r0, deS7r12, deS4r8] <;> ring1
  · simp only [deS7r0, deS7r12, deS4r8] <;> ring1
  · simp only [deS7r0, deS7r12, deS4r8] <;> ring1
  · simp only [deS7r0, deS7r12, deS4r8] <;> ring1
  · simp only [deS7r0, deS7r12, deS4r8] <;> ring1
  · simp only [deS7r0, deS7r12, deS4r8] <;> ring1
  · simp only [deS7r1, deS7r13, deS4r9] <;> ring1
  · simp only [deS7r1, deS7r13, deS4r9] <;> ring1
  · simp only [deS7r1, deS7r13, deS4r9] <;> ring1
  · simp only [deS7r1, deS7r13, deS4r9] <;> ring1
  · simp only [deS7r1, deS7r13, deS4r9] <;> ring1
  · simp only [deS7r1, deS7r13, deS4r9] <;> ring1
  · simp only [deS7r1, deS7r13, deS4r9] <;> ring1
  · simp only [deS7r1, deS7r13, deS4r9] <;> ring1
  · simp only [deS7r1, deS7r13, deS4r9] <;> ring1
  · simp only [deS7r1, deS7r13, deS4r9] <;> ring1
  · simp only [deS7r1, deS7r13, deS4r9] <;> ring1
  · simp only [deS7r1, deS7r13, deS4r9] <;> ring1
  · simp only [deS7r1, deS7r13, deS4r9] <;> ring1
  · simp only [deS7r1, deS7r13, deS4r9] <;> ring1
  · simp only [deS7r1, deS7r13, deS4r9] <;> ring1
  · simp only [deS7r1, deS7r13, deS4r9] <;> ring1
  · simp only [deS7r15, deS7r3, deS4r10] <;> ring1
  · simp only [deS7r15, deS7r3, deS4r10] <;> ring1
  · simp only [deS7r15, deS7r3, deS4r10] <;> ring1
  · simp only [deS7r15, deS7r3, deS4r10] <;> ring1
  · simp only [deS7r15, deS7r3, deS4r10] <;> ring1
  · simp only [deS7r15, deS7r3, deS4r10] <;> ring1
  · simp only [deS7r15, deS7r3, deS4r10] <;> ring1
  · simp only [deS7r15, deS7r3, deS4r10] <;> ring1
  · simp only [deS7r15, deS7r3, deS4r10] <;> ring1
  · simp only [deS7r15, deS7r3, deS4r10] <;> ring1
  · simp only [deS7r15, deS7r3, deS4r10] <;> ring1
  · simp only [deS7r15, deS7r3, deS4r10] <;> ring1
  · simp only [deS7r15, deS7r3, deS4r10] <;> ring1
  · simp only [deS7r15, deS7r3, deS4r10] <;> ring1
  · simp only [deS7r15, deS7r3, deS4r10] <;> ring1
  · simp only [deS7r15, deS7r3, deS4r10] <;> ring1
  · simp only [deS7r14, deS7r2, deS4r11] <;> ring1
  · simp only [deS7r14, deS7r2, deS4r11] <;> ring1
  · simp only [deS7r14, deS7r2, deS4r11] <;> ring1
  · simp only [deS7r14, deS7r2, deS4r11] <;> ring1
  · simp only [deS7r14, deS7r2, deS4r11] <;> ring1
  · simp only [deS7r14, deS7r2, deS4r11] <;> ring1
  · simp only [deS7r14, deS7r2, deS4r11] <;> ring1
  · simp only [deS7r14, deS7r2, deS4r11] <;> ring1
  · simp only [deS7r14, deS7r2, deS4r11] <;> ring1
  · simp only [deS7r14, deS7r2, deS4r11] <;> ring1
  · simp only [deS7r14, deS7r2, deS4r11] <;> ring1
  · simp only [deS7r14, deS7r2, deS4r11] <;> ring1
  · simp only [deS7r14, deS7r2, deS4r11] <;> ring1
  · simp only [deS7r14, deS7r2, deS4r11] <;> ring1
  · simp only [deS7r14, deS7r2, deS4r11] <;> ring1
  · simp only [deS7r14, deS7r2, deS4r11] <;> ring1
  · simp only [deS7r4, deS7r8, deS4r12] <;> ring1
  · simp only [deS7r4, deS7r8, deS4r12] <;> ring1
  · simp only [deS7r4, deS7r8, deS4r12] <;> ring1
  · simp only [deS7r4, deS7r8, deS4r12] <;> ring1
  · simp only [deS7r4, deS7r8, deS4r12] <;> ring1
  · simp only [deS7r4, deS7r8, deS4r12] <;> ring1
  · simp only [deS7r4, deS7r8, deS4r12] <;> ring1
  · simp only [deS7r4, deS7r8, deS4r12] <;> ring1
  · simp only [deS7r4, deS7r8, deS4r12] <;> ring1
  · simp only [deS7r4, deS7r8, deS4r12] <;> ring1
  · simp only [deS7r4, deS7r8, deS4r12] <;> ring1
  · simp only [deS7r4, deS7r8, deS4r12] <;> ring1
  · simp only [deS7r4, deS7r8, deS4r12] <;> ring1
  · simp only [deS7r4, deS7r8, deS4r12] <;> ring1
  · simp only [deS7r4, deS7r8, deS4r12] <;> ring1
  · simp only [deS7r4, deS7r8, deS4r12] <;> ring1
  · simp only [deS7r5, deS7r9, deS4r13] <;> ring1
  · simp only [deS7r5, deS7r9, deS4r13] <;> ring1
  · simp only [deS7r5, deS7r9, deS4r13] <;> ring1
  · simp only [deS7r5, deS7r9, deS4r13] <;> ring1
  · simp only [deS7r5, deS7r9, deS4r13] <;> ring1
  · simp only [deS7r5, deS7r9, deS4r13] <;> ring1
  · simp only [deS7r5, deS7r9, deS4r13] <;> ring1
  · simp only [deS7r5, deS7r9, deS4r13] <;> ring1
  · simp only [deS7r5, deS7r9, deS4r13] <;> ring1
  · simp only [deS7r5, deS7r9, deS4r13] <;> ring1
  · simp only [deS7r5, deS7r9, deS4r13] <;> ring1
  · simp only [deS7r5, deS7r9, deS4r13] <;> ring1
  · simp only [deS7r5, deS7r9, deS4r13] <;> ring1
  · simp only [deS7r5, deS7r9, deS4r13] <;> ring1
  · simp only [deS7r5, deS7r9, deS4r13] <;> ring1
  · simp only [deS7r5, deS7r9, deS4r13] <;> ring1
  · simp only [deS7r11, deS7r7, deS4r14] <;> ring1
  · simp only [deS7r11, deS7r7, deS4r14] <;> ring1
  · simp only [deS7r11, deS7r7, deS4r14] <;> ring1
  · simp only [deS7r11, deS7r7, deS4r14] <;> ring1
  · simp only [deS7r11, deS7r7, deS4r14] <;> ring1
  · simp only [deS7r11, deS7r7, deS4r14] <;> ring1
  · simp only [deS7r11, deS7r7, deS4r14] <;> ring1
  · simp only [deS7r11, deS7r7, deS4r14] <;> ring1
  · simp only [deS7r11, deS7r7, deS4r14] <;> ring1
  · simp only [deS7r11, deS7r7, deS4r14] <;> ring1
  · simp only [deS7r11, deS7r7, deS4r14] <;> ring1
  · simp only [deS7r11, deS7r7, deS4r14] <;> ring1
  · simp only [deS7r11, deS7r7, deS4r14] <;> ring1
  · simp only [deS7r11, deS7r7, deS4r14] <;> ring1
  · simp only [deS7r11, deS7r7, deS4r14] <;> ring1
  · simp only [deS7r11, deS7r7, deS4r14] <;> ring1
  · simp only [deS7r10, deS7r6, deS4r15] <;> ring1
  · simp only [deS7r10, deS7r6, deS4r15] <;> ring1
  · simp only [deS7r10, deS7r6, deS4r15] <;> ring1
  · simp only [deS7r10, deS7r6, deS4r15] <;> ring1
  · simp only [deS7r10, deS7r6, deS4r15] <;> ring1
  · simp only [deS7r10, deS7r6, deS4r15] <;> ring1
  · simp only [deS7r10, deS7r6, deS4r15] <;> ring1
  · simp only [deS7r10, deS7r6, deS4r15] <;> ring1
  · simp only [deS7r10, deS7r6, deS4r15] <;> ring1
  · simp only [deS7r10, deS7r6, deS4r15] <;> ring1
  · simp only [deS7r10, deS7r6, deS4r15] <;> ring1
  · simp only [deS7r10, deS7r6, deS4r15] <;> ring1
  · simp only [deS7r10, deS7r6, deS4r15] <;> ring1
  · simp only [deS7r10, deS7r6, deS4r15] <;> ring1
  · simp only [deS7r10, deS7r6, deS4r15] <;> ring1
  · simp only [deS7r10, deS7r6, deS4r15] <;> ring1

set_option maxHeartbeats 4000000 in
/-- Chain step 3 of `de`. -/
theorem deStep3 {α : Type} [ Field α] [ CharZero α] (c s h : α) (hs : s ^ 2 = 1 - c ^ 2) (hh : h ^ 2 = 1 / 2) :
    lift1 3 (hG h) * deS4 c s h = deS3 c s h := by
  rw [hRule_3]
  ext r k
  obtain ⟨x1, x2, x3, x4⟩ := r
  simp only [deS4, deS3, Matrix.of_apply]
  obtain ⟨y1, y2, y3, y4⟩ := k
  cases x1 <;> cases x2 <;> cases x3 <;> cases x4 <;>
    cases y1 <;> cases y2 <;> cases y3 <;> cases y4
  · simp only [deS4r0, deS4r1, deS3r0] <;> linear_combination (2) * hh
  · simp only [deS4r0, deS4r1, deS3r0] <;> ring1
  · simp only [deS4r0, deS4r1, deS3r0] <;> ring1
  · simp only [deS4r0, deS4r1, deS3r0] <;> ring1
  · simp only [deS4r0, deS4r1, deS3r0] <;> ring1
  · simp only [deS4r0, deS4r1, deS3r0] <;> ring1
  · simp only [deS4r0, deS4r1, deS3r0] <;> ring1
  · simp only [deS4r0, deS4r1, deS3r0] <;> ring1
  · simp only [deS4r0, deS4r1, deS3r0] <;> ring1
  · simp only [deS4r0, deS4r1, deS3r0] <;> ring1
  · simp only [deS4r0, deS4r1, deS3r0] <;> ring1
  · simp only [deS4r0, deS4r1, deS3r0] <;> ring1
  · simp only [deS4r0, deS4r1, deS3r0] <;> ring1
  · simp only [deS4r0, deS4r1, deS3r0] <;> ring1
  · simp only [deS4r0, deS4r1, deS3r0] <;> ring1
  · simp only [deS4r0, deS4r1, deS3r0] <;> ring1
  · simp only [deS4r0, deS4r1, deS3r1] <;> ring1
  · simp only [deS4r0, deS4r1, deS3r1] <;> linear_combination (2) * hh
  · simp only [deS4r0, deS4r1, deS3r1] <;> ring1
  · simp only [deS4r0, deS4r1, deS3r1] <;> ring1
  · simp only [deS4r0, deS4r1, deS3r1] <;> ring1
  · simp only [deS4r0, deS4r1, deS3r1] <;> ring1
  · simp only [deS4r0, deS4r1, deS3r1] <;> ring1
  · simp only [deS4r0, deS4r1, deS3r1] <;> ring1
  · simp only [deS4r0, deS4r1, deS3r1] <;> ring1
  · simp only [deS4r0, deS4r1, deS3r1] <;> ring1
  · simp only [deS4r0, deS4r1, deS3r1] <;> ring1
  · simp only [deS4r0, deS4r1, deS3r1] <;> ring1
  · simp only [deS4r0, deS4r1, deS3r1] <;> ring1
  · simp only [deS4r0, deS4r1, deS3r1] <;> ring1
  · simp only [deS4r0, deS4r1, deS3r1] <;> ring1
  · simp only [deS4r0, deS4r1, deS3r1] <;> ring1
  · simp only [deS4r2, deS4r3, deS3r2] <;> ring1
  · simp only [deS4r2, deS4r3, deS3r2] <;> ring1
  · simp only [deS4r2, deS4r3, deS3r2] <;> ring1
  · simp only [deS4r2, deS4r3, deS3r2] <;> linear_combination (256 * c^8 + -(512) * c^6 + 320 * c^4 + -(64) * c^2 + 2) * hh
  · simp only [deS4r2, deS4r3, deS3r2] <;> ring1
  · simp only [deS4r2, deS4r3, deS3r2] <;> ring1
  · simp only [deS4r2, deS4r3, deS3r2] <;> ring1
  · simp only [deS4r2, deS4r3, deS3r2] <;> ring1
  · simp only [deS4r2, deS4r3, deS3r2] <;> ring1
  · simp only [deS4r2, deS4r3, deS3r2] <;> ring1
  · simp only [deS4r2, deS4r3, deS3r2] <;> ring1
  · simp only [deS4r2, deS4r3, deS3r2] <;> ring1
  · simp only [deS4r2, deS4r3, deS3r2] <;> linear_combination (-(256) * c^7 * s + 384 * c^5 * s + -(160) * c^3 * s + 16 * c * s) * hh
  · simp only [deS4r2, deS4r3, deS3r2] <;> ring1
  · simp only [deS4r2, deS4r3, deS3r2] <;> ring1
  · simp only [deS4r2, deS4r3, deS3r2] <;> ring1
  · simp only [deS4r2, deS4r3, deS3r3] <;> ring1
  · simp only [deS4r2, deS4r3, deS3r3] <;> ring1
  · simp only [deS4r2, deS4r3, deS3r3] <;> linear_combination (2) * hh
  · simp only [deS4r2, deS4r3, deS3r3] <;> ring1
  · simp only [deS4r2, deS4r3, deS3r3] <;> ring1
  · simp only [deS4r2, deS4r3, deS3r3] <;> ring1
  · simp only [deS4r2, deS4r3, deS3r3] <;> ring1
  · simp only [deS4r2, deS4r3, deS3r3] <;> ring1
  · simp only [deS4r2, deS4r3, deS3r3] <;> ring1
  · simp only [deS4r2, deS4r3, deS3r3] <;> ring1
  · simp only [deS4r2, deS4r3, deS3r3] <;> ring1
  · simp only [deS4r2, deS4r3, deS3r3] <;> ring1
  · simp only [deS4r2, deS4r3, deS3r3] <;> ring1
  · simp only [deS4r2, deS4r3, deS3r3] <;> ring1
  · simp only [deS4r2, deS4r3, deS3r3] <;> ring1
  · simp only [deS4r2, deS4r3, deS3r3] <;> ring1
  · simp only [deS4r4, deS4r5, deS3r4] <;> ring1
  · simp only [deS4r4, deS4r5, deS3r4] <;> ring1
  · simp only [deS4r4, deS4r5, deS3r4] <;> ring1
  · simp only [deS4r4, deS4r5, deS3r4] <;> ring1
  · simp only [deS4r4, deS4r5, deS3r4] <;> linear_combination (2) * hh
  · simp only [deS4r4, deS4r5, deS3r4] <;> ring1
  · simp only [deS4r4, deS4r5, deS3r4] <;> ring1
  · simp only [deS4r4, deS4r5, deS3r4] <;> ring1
  · simp only [deS4r4, deS4r5, deS3r4] <;> ring1
  · simp only [deS4r4, deS4r5, deS3r4] <;> ring1
  · simp only [deS4r4, deS4r5, deS3r4] <;> ring1
  · simp only [deS4r4, deS4r5, deS3r4] <;> ring1
  · simp only [deS4r4, deS4r5, deS3r4] <;> ring1
  · simp only [deS4r4, deS4r5, deS3r4] <;> ring1
  · simp only [deS4r4, deS4r5, deS3r4] <;> ring1
  · simp only [deS4r4, deS4r5, deS3r4] <;> ring1
  · simp only [deS4r4, deS4r5, deS3r5] <;> ring1
  · simp only [deS4r4, deS4r5, deS3r5] <;> ring1
  · simp only [deS4r4, deS4r5, deS3r5] <;> ring1
  · simp only [deS4r4, deS4r5, deS3r5] <;> ring1
  · simp only [deS4r4, deS4r5, deS3r5] <;> ring1
  · simp only [deS4r4, deS4r5, deS3r5] <;> linear_combination (2) * hh
  · simp only [deS4r4, deS4r5, deS3r5] <;> ring1
  · simp only [deS4r4, deS4r5, deS3r5] <;> ring1
  · simp only [deS4r4, deS4r5, deS3r5] <;> ring1
  · simp only [deS4r4, deS4r5, deS3r5] <;> ring1
  · simp only [deS4r4, deS4r5, deS3r5] <;> ring1
  · simp only [deS4r4, deS4r5, deS3r5] <;> ring1
  · simp only [deS4r4, deS4r5, deS3r5] <;> ring1
  · simp only [deS4r4, deS4r5, deS3r5] <;> ring1
  · simp only [deS4r4, deS4r5, deS3r5] <;> ring1
  · simp only [deS4r4, deS4r5, deS3r5] <;> ring1
  · simp only [deS4r6, deS4r7, deS3r6] <;> ring1
  · simp only [deS4r6, deS4r7, deS3r6] <;> ring1
  · simp only [deS4r6, deS4r7, deS3r6] <;> ring1
  · simp only [deS4r6, deS4r7, deS3r6] <;> ring1
  · simp only [deS4r6, deS4r7, deS3r6] <;> ring1
  · simp only [deS4r6, deS4r7, deS3r6] <;> ring1
  · simp only [deS4r6, deS4r7, deS3r6] <;> ring1
  · simp only [deS4r6, deS4r7, deS3r6] <;> linear_combination (2) * hh
  · simp only [deS4r6, deS4r7, deS3r6] <;> ring1
  · simp only [deS4r6, deS4r7, deS3r6] <;> ring1
  · simp only [deS4r6, deS4r7, deS3r6] <;> ring1
  · simp only [deS4r6, deS4r7, deS3r6] <;> ring1
  · simp only [deS4r6, deS4r7, deS3r6] <;> ring1
  · simp only [deS4r6, deS4r7, deS3r6] <;> ring1
  · simp only [deS4r6, deS4r7, deS3r6] <;> ring1
  · simp only [deS4r6, deS4r7, deS3r6] <;> ring1
  · simp only [deS4r6, deS4r7, deS3r7] <;> ring1
  · simp only [deS4r6, deS4r7, deS3r7] <;> ring1
  · simp only [deS4r6, deS4r7, deS3r7] <;> ring1
  · simp only [deS4r6, deS4r7, deS3r7] <;> ring1
  · simp only [deS4r6, deS4r7, deS3r7] <;> ring1
  · simp only [deS4r6, deS4r7, deS3r7] <;> ring1
  · simp only [deS4r6, deS4r7, deS3r7] <;> linear_combination (2) * hh
  · simp only [deS4r6, deS4r7, deS3r7] <;> ring1
  · simp only [deS4r6, deS4r7, deS3r7] <;> ring1
  · simp only [deS4r6, deS4r7, deS3r7] <;> ring1
  · simp only [deS4r6, deS4r7, deS3r7] <;> ring1
  · simp only [deS4r6, deS4r7, deS3r7] <;> ring1
  · simp only [deS4r6, deS4r7, deS3r7] <;> ring1
  · simp only [deS4r6, deS4r7, deS3r7] <;> ring1
  · simp only [deS4r6, deS4r7, deS3r7] <;> ring1
  · simp only [deS4r6, deS4r7, deS3r7] <;> ring1
  · simp only [deS4r8, deS4r9, deS3r8] <;> ring1
  · simp only [deS4r8, deS4r9, deS3r8] <;> ring1
  · simp only [deS4r8, deS4r9, deS3r8] <;> ring1
  · simp only [deS4r8, deS4r9, deS3r8] <;> ring1
  · simp only [deS4r8, deS4r9, deS3r8] <;> ring1
  · simp only [deS4r8, deS4r9, deS3r8] <;> ring1
  · simp only [deS4r8, deS4r9, deS3r8] <;> ring1
  · simp only [deS4r8, deS4r9, deS3r8] <;> ring1
  · simp only [deS4r8, deS4r9, deS3r8] <;> ring1
  · simp only [deS4r8, deS4r9, deS3r8] <;> ring1
  · simp only [deS4r8, deS4r9, deS3r8] <;> ring1
  · simp only [deS4r8, deS4r9, deS3r8] <;> linear_combination (2) * hh
  · simp only [deS4r8, deS4r9, deS3r8] <;> ring1
  · simp only [deS4r8, deS4r9, deS3r8] <;> ring1
  · simp only [deS4r8, deS4r9, deS3r8] <;> ring1
  · simp only [deS4r8, deS4r9, deS3r8] <;> ring1
  · simp only [deS4r8, deS4r9, deS3r9] <;> ring1
  · simp only [deS4r8, deS4r9, deS3r9] <;> ring1
  · simp only [deS4r8, deS4r9, deS3r9] <;> ring1
  · simp only [deS4r8, deS4r9, deS3r9] <;> ring1
  · simp only [deS4r8, deS4r9, deS3r9] <;> ring1
  · simp only [deS4r8, deS4r9, deS3r9] <;> ring1
  · simp only [deS4r8, deS4r9, deS3r9] <;> ring1
  · simp only [deS4r8, deS4r9, deS3r9] <;> ring1
  · simp only [deS4r8, deS4r9, deS3r9] <;> ring1
  · simp only [deS4r8, deS4r9, deS3r9] <;> ring1
  · simp only [deS4r8, deS4r9, deS3r9] <;> linear_combination (2) * hh
  · simp only [deS4r8, deS4r9, deS3r9] <;> ring1
  · simp only [deS4r8, deS4r9, deS3r9] <;> ring1
  · simp only [deS4r8, deS4r9, deS3r9] <;> ring1
  · simp only [deS4r8, deS4r9, deS3r9] <;> ring1
  · simp only [deS4r8, deS4r9, deS3r9] <;> ring1
  · simp only [deS4r10, deS4r11, deS3r10] <;> ring1
  · simp only [deS4r10, deS4r11, deS3r10] <;> ring1
  · simp only [deS4r10, deS4r11, deS3r10] <;> ring1
  · simp only [deS4r10, deS4r11, deS3r10] <;> ring1
  · simp only [deS4r10, deS4r11, deS3r10] <;> ring1
  · simp only [deS4r10, deS4r11, deS3r10] <;> ring1
  · simp only [deS4r10, deS4r11, deS3r10] <;> ring1
  · simp only [deS4r10, deS4r11, deS3r10] <;> ring1
  · simp only [deS4r10, deS4r11, deS3r10] <;> linear_combination (2) * hh
  · simp only [deS4r10, deS4r11, deS3r10] <;> ring1
  · simp only [deS4r10, deS4r11, deS3r10] <;> ring1
  · simp only [deS4r10, deS4r11, deS3r10] <;> ring1
  · simp only [deS4r10, deS4r11, deS3r10] <;> ring1
  · simp only [deS4r10, deS4r11, deS3r10] <;> ring1
  · simp only [deS4r10, deS4r11, deS3r10] <;> ring1
  · simp only [deS4r10, deS4r11, deS3r10] <;> ring1
  · simp only [deS4r10, deS4r11, deS3r11] <;> ring1
  · simp only [deS4r10, deS4r11, deS3r11] <;> ring1
  · simp only [deS4r10, deS4r11, deS3r11] <;> ring1
  · simp only [deS4r10, deS4r11, deS3r11] <;> ring1
  · simp only [deS4r10, deS4r11, deS3r11] <;> ring1
  · simp only [deS4r10, deS4r11, deS3r11] <;> ring1
  · simp only [deS4r10, deS4r11, deS3r11] <;> ring1
  · simp only [deS4r10, deS4r11, deS3r11] <;> ring1
  · simp only [deS4r10, deS4r11, deS3r11] <;> ring1
  · simp only [deS4r10, deS4r11, deS3r11] <;> linear_combination (2) * hh
  · simp only [deS4r10, deS4r11, deS3r11] <;> ring1
  · simp only [deS4r10, deS4r11, deS3r11] <;> ring1
  · simp only [deS4r10, deS4r11, deS3r11] <;> ring1
  · simp only [deS4r10, deS4r11, deS3r11] <;> ring1
  · simp only [deS4r10, deS4r11, deS3r11] <;> ring1
  · simp only [deS4r10, deS4r11, deS3r11] <;> ring1
  · simp only [deS4r12, deS4r13, deS3r12] <;> ring1
  · simp only [deS4r12, deS4r13, deS3r12] <;> ring1
  · simp only [deS4r12, deS4r13, deS3r12] <;> ring1
  · simp only [deS4r12, deS4r13, deS3r12] <;> ring1
  · simp only [deS4r12, deS4r13, deS3r12] <;> ring1
  · simp only [deS4r12, deS4r13, deS3r12] <;> ring1
  · simp only [deS4r12, deS4r13, deS3r12] <;> ring1
  · simp only [deS4r12, deS4r13, deS3r12] <;> ring1
  · simp only [deS4r12, deS4r13, deS3r12] <;> ring1
  · simp only [deS4r12, deS4r13, deS3r12] <;> ring1
  · simp only [deS4r12, deS4r13, deS3r12] <;> ring1
  · simp only [deS4r12, deS4r13, deS3r12] <;> ring1
  · simp only [deS4r12, deS4r13, deS3r12] <;> ring1
  · simp only [deS4r12, deS4r13, deS3r12] <;> ring1
  · simp only [deS4r12, deS4r13, deS3r12] <;> ring1
  · simp only [deS4r12, deS4r13, deS3r12] <;> linear_combination (2) * hh
  · simp only [deS4r12, deS4r13, deS3r13] <;> ring1
  · simp only [deS4r12, deS4r13, deS3r13] <;> ring1
  · simp only [deS4r12, deS4r13, deS3r13] <;> ring1
  · simp only [deS4r12, deS4r13, deS3r13] <;> ring1
  · simp only [deS4r12, deS4r13, deS3r13] <;> ring1
  · simp only [deS4r12, deS4r13, deS3r13] <;> ring1
  · simp only [deS4r12, deS4r13, deS3r13] <;> ring1
  · simp only [deS4r12, deS4r13, deS3r13] <;> ring1
  · simp only [deS4r12, deS4r13, deS3r13] <;> ring1
  · simp only [deS4r12, deS4r13, deS3r13] <;> ring1
  · simp only [deS4r12, deS4r13, deS3r13] <;> ring1
  · simp only [deS4r12, deS4r13, deS3r13] <;> ring1
  · simp only [deS4r12, deS4r13, deS3r13] <;> ring1
  · simp only [deS4r12, deS4r13, deS3r13] <;> ring1
  · simp only [deS4r12, deS4r13, deS3r13] <;> linear_combination (2) * hh
  · simp only [deS4r12, deS4r13, deS3r13] <;> ring1
  · simp only [deS4r14, deS4r15, deS3r14] <;> ring1
  · simp only [deS4r14, deS4r15, deS3r14] <;> ring1
  · simp only [deS4r14, deS4r15, deS3r14] <;> ring1
  · simp only [deS4r14, deS4r15, deS3r14] <;> linear_combination (256 * c^7 * s + -(384) * c^5 * s + 160 * c^3 * s + -(16) * c * s) * hh
  · simp only [deS4r14, deS4r15, deS3r14] <;> ring1
  · simp only [deS4r14, deS4r15, deS3r14] <;> ring1
  · simp only [deS4r14, deS4r15, deS3r14] <;> ring1
  · simp only [deS4r14, deS4r15, deS3r14] <;> ring1
  · simp only [deS4r14, deS4r15, deS3r14] <;> ring1
  · simp only [deS4r14, deS4r15, deS3r14] <;> ring1
  · simp only [deS4r14, deS4r15, deS3r14] <;> ring1
  · simp only [deS4r14, deS4r15, deS3r14] <;> ring1
  · simp only [deS4r14, deS4r15, deS3r14] <;> linear_combination (256 * c^8 + -(512) * c^6 + 320 * c^4 + -(64) * c^2 + 2) * hh
  · simp only [deS4r14, deS4r15, deS3r14] <;> ring1
  · simp only [deS4r14, deS4r15, deS3r14] <;> ring1
  · simp only [deS4r14, deS4r15, deS3r14] <;> ring1
  · simp only [deS4r14, deS4r15, deS3r15] <;> ring1
  · simp only [deS4r14, deS4r15, deS3r15] <;> ring1
  · simp only [deS4r14, deS4r15, deS3r15] <;> ring1
  · simp only [deS4r14, deS4r15, deS3r15] <;> ring1
  · simp only [deS4r14, deS4r15, deS3r15] <;> ring1
  · simp only [deS4r14, deS4r15, deS3r15] <;> ring1
  · simp only [deS4r14, deS4r15, deS3r15] <;> ring1
  · simp only [deS4r14, deS4r15, deS3r15] <;> ring1
  · simp only [deS4r14, deS4r15, deS3r15] <;> ring1
  · simp only [deS4r14, deS4r15, deS3r15] <;> ring1
  · simp only [deS4r14, deS4r15, deS3r15] <;> ring1
  · simp only [deS4r14, deS4r15, deS3r15] <;> ring1
  · simp only [deS4r14, deS4r15, deS3r15] <;> ring1
  · simp only [deS4r14, deS4r15, deS3r15] <;> linear_combination (2) * hh
  · simp only [deS4r14, deS4r15, deS3r15] <;> ring1
  · simp only [deS4r14, deS4r15, deS3r15] <;> ring1

set_option maxHeartbeats 4000000 in
/-- Chain step 2 of `de`. -/
theorem deStep2 {α : Type} [ Field α] [ CharZero α] (c s h : α) (hs : s ^ 2 = 1 - c ^ 2) (hh : h ^ 2 = 1 / 2) :
    lift2 0 2 cnotG * deS3 c s h = deS2 c s h := by
  rw [cnotRule_0_2]
  ext r k
  obtain ⟨x1, x2, x3, x4⟩ := r
  simp only [deS3, deS2, Matrix.of_apply]
  cases x1 <;> cases x2 <;> cases x3 <;> cases x4 <;> rfl

set_option maxHeartbeats 4000000 in
/-- Chain step 1 of `de`. -/
theorem deStep1 {α : Type} [ Field α] [ CharZero α] (c s h : α) (hs : s ^ 2 = 1 - c ^ 2) (hh : h ^ 2 = 1 / 2) :
    lift2 2 3 cnotG * deS2 c s h = deS1 c s h := by
  rw [cnotRule_2_3]
  ext r k
  obtain ⟨x1, x2, x3, x4⟩ := r
  simp only [deS2, deS1, Matrix.of_apply]
  cases x1 <;> cases x2 <;> cases x3 <;> cases x4 <;> rfl

set_option maxHeartbeats 4000000 in
/-- The chain output of `deS1` equals the body of the source matrix. -/
theorem deFinal {α : Type} [ Field α] [ CharZero α] (c s h C S : α) (hs : s ^ 2 = 1 - c ^ 2) (hh : h ^ 2 = 1 / 2)
    (hC : C = 128 * c^8 + -(256) * c^6 + 160 * c^4 + -(32) * c^2 + 1)
    (hS : S = 128 * c^7 * s + -(192) * c^5 * s + 80 * c^3 * s + -(8) * c * s) :
    deS1 c s h = deMatCS C S := by
  ext r k
  obtain ⟨x1, x2, x3, x4⟩ := r
  obtain ⟨y1, y2, y3, y4⟩ := k
  simp only [deS1, deMatCS, Matrix.of_apply]
  cases x1 <;> cases x2 <;> cases x3 <;> cases x4 <;>
    cases y1 <;> cases y2 <;> cases y3 <;> cases y4
  · simp only [deS3r0] <;> (try simp) <;> ring1
  · simp only [deS3r0] <;> (try simp) <;> ring1
  · simp only [deS3r0] <;> (try simp) <;> ring1
  · simp only [deS3r0] <;> (try simp) <;> ring1
  · simp only [deS3r0] <;> (try simp) <;> ring1
  · simp only [deS3r0] <;> (try simp) <;> ring1
  · simp only [deS3r0] <;> (try simp) <;> ring1
  · simp only [deS3r0] <;> (try simp) <;> ring1
  · simp only [deS3r0] <;> (try simp) <;> ring1
  · simp only [deS3r0] <;> (try simp) <;> ring1
  · simp only [deS3r0] <;> (try simp) <;> ring1
  · simp only [deS3r0] <;> (try simp) <;> ring1
  · simp only [deS3r0] <;> (try simp) <;> ring1
  · simp only [deS3r0] <;> (try simp) <;> ring1
  · simp only [deS3r0] <;> (try simp) <;> ring1
  · simp only [deS3r0] <;> (try simp) <;> ring1
  · simp only [deS3r1] <;> (try simp) <;> ring1
  · simp only [deS3r1] <;> (try simp) <;> ring1
  · simp only [deS3r1] <;> (try simp) <;> ring1
  · simp only [deS3r1] <;> (try simp) <;> ring1
  · simp only [deS3r1] <;> (try simp) <;> ring1
  · simp only [deS3r1] <;> (try simp) <;> ring1
  · simp only [deS3r1] <;> (try simp) <;> ring1
  · simp only [deS3r1] <;> (try simp) <;> ring1
  · simp only [deS3r1] <;> (try simp) <;> ring1
  · simp only [deS3r1] <;> (try simp) <;> ring1
  · simp only [deS3r1] <;> (try simp) <;> ring1
  · simp only [deS3r1] <;> (try simp) <;> ring1
  · simp only [deS3r1] <;> (try simp) <;> ring1
  · simp only [deS3r1] <;> (try simp) <;> ring1
  · simp only [deS3r1] <;> (try simp) <;> ring1
  · simp only [deS3r1] <;> (try simp) <;> ring1
  · simp only [deS3r3] <;> (try simp) <;> ring1
  · simp only [deS3r3] <;> (try simp) <;> ring1
  · simp only [deS3r3] <;> (try simp) <;> ring1
  · simp only [deS3r3] <;> (try simp) <;> ring1
  · simp only [deS3r3] <;> (try simp) <;> ring1
  · simp only [deS3r3] <;> (try simp) <;> ring1
  · simp only [deS3r3] <;> (try simp) <;> ring1
  · simp only [deS3r3] <;> (try simp) <;> ring1
  · simp only [deS3r3] <;> (try simp) <;> ring1
  · simp only [deS3r3] <;> (try simp) <;> ring1
  · simp only [deS3r3] <;> (try simp) <;> ring1
  · simp only [deS3r3] <;> (try simp) <;> ring1
  · simp only [deS3r3] <;> (try simp) <;> ring1
  · simp only [deS3r3] <;> (try simp) <;> ring1
  · simp only [deS3r3] <;> (try simp) <;> ring1
  · simp only [deS3r3] <;> (try simp) <;> ring1
  · simp only [deS3r2] <;> (try simp) <;> ring1
  · simp only [deS3r2] <;> (try simp) <;> ring1
  · simp only [deS3r2] <;> (try simp) <;> ring1
  · simp only [deS3r2] <;> (try simp) <;> linear_combination (-(1)) * hC
  · simp only [deS3r2] <;> (try simp) <;> ring1
  · simp only [deS3r2] <;> (try simp) <;> ring1
  · simp only [deS3r2] <;> (try simp) <;> ring1
  · simp only [deS3r2] <;> (try simp) <;> ring1
  · simp only [deS3r2] <;> (try simp) <;> ring1
  · simp only [deS3r2] <;> (try simp) <;> ring1
  · simp only [deS3r2] <;> (try simp) <;> ring1
  · simp only [deS3r2] <;> (try simp) <;> ring1
  · simp only [deS3r2] <;> (try simp) <;> linear_combination (1) * hS
  · simp only [deS3r2] <;> (try simp) <;> ring1
  · simp only [deS3r2] <;> (try simp) <;> ring1
  · simp only [deS3r2] <;> (try simp) <;> ring1
  · simp only [deS3r4] <;> (try simp) <;> ring1
  · simp only [deS3r4] <;> (try simp) <;> ring1
  · simp only [deS3r4] <;> (try simp) <;> ring1
  · simp only [deS3r4] <;> (try simp) <;> ring1
  · simp only [deS3r4] <;> (try simp) <;> ring1
  · simp only [deS3r4] <;> (try simp) <;> ring1
  · simp only [deS3r4] <;> (try simp) <;> ring1
  · simp only [deS3r4] <;> (try simp) <;> ring1
  · simp only [deS3r4] <;> (try simp) <;> ring1
  · simp only [deS3r4] <;> (try simp) <;> ring1
  · simp only [deS3r4] <;> (try simp) <;> ring1
  · simp only [deS3r4] <;> (try simp) <;> ring1
  · simp only [deS3r4] <;> (try simp) <;> ring1
  · simp only [deS3r4] <;> (try simp) <;> ring1
  · simp only [deS3r4] <;> (try simp) <;> ring1
  · simp only [deS3r4] <;> (try simp) <;> ring1
  · simp only [deS3r5] <;> (try simp) <;> ring1
  · simp only [deS3r5] <;> (try simp) <;> ring1
  · simp only [deS3r5] <;> (try simp) <;> ring1
  · simp only [deS3r5] <;> (try simp) <;> ring1
  · simp only [deS3r5] <;> (try simp) <;> ring1
  · simp only [deS3r5] <;> (try simp) <;> ring1
  · simp only [deS3r5] <;> (try simp) <;> ring1
  · simp only [deS3r5] <;> (try simp) <;> ring1
  · simp only [deS3r5] <;> (try simp) <;> ring1
  · simp only [deS3r5] <;> (try simp) <;> ring1
  · simp only [deS3r5] <;> (try simp) <;> ring1
  · simp only [deS3r5] <;> (try simp) <;> ring1
  · simp only [deS3r5] <;> (try simp) <;> ring1
  · simp only [deS3r5] <;> (try simp) <;> ring1
  · simp only [deS3r5] <;> (try simp) <;> ring1
  · simp only [deS3r5] <;> (try simp) <;> ring1
  · simp only [deS3r7] <;> (try simp) <;> ring1
  · simp only [deS3r7] <;> (try simp) <;> ring1
  · simp only [deS3r7] <;> (try simp) <;> ring1
  · simp only [deS3r7] <;> (try simp) <;> ring1
  · simp only [deS3r7] <;> (try simp) <;> ring1
  · simp only [deS3r7] <;> (try simp) <;> ring1
  · simp only [deS3r7] <;> (try simp) <;> ring1
  · simp only [deS3r7] <;> (try simp) <;> ring1
  · simp only [deS3r7] <;> (try simp) <;> ring1
  · simp only [deS3r7] <;> (try simp) <;> ring1
  · simp only [deS3r7] <;> (try simp) <;> ring1
  · simp only [deS3r7] <;> (try simp) <;> ring1
  · simp only [deS3r7] <;> (try simp) <;> ring1
  · simp only [deS3r7] <;> (try simp) <;> ring1
  · simp only [deS3r7] <;> (try simp) <;> ring1
  · simp only [deS3r7] <;> (try simp) <;> ring1
  · simp only [deS3r6] <;> (try simp) <;> ring1
  · simp only [deS3r6] <;> (try simp) <;> ring1
  · simp only [deS3r6] <;> (try simp) <;> ring1
  · simp only [deS3r6] <;> (try simp) <;> ring1
  · simp only [deS3r6] <;> (try simp) <;> ring1
  · simp only [deS3r6] <;> (try simp) <;> ring1
  · simp only [deS3r6] <;> (try simp) <;> ring1
  · simp only [deS3r6] <;> (try simp) <;> ring1
  · simp only [deS3r6] <;> (try simp) <;> ring1
  · simp only [deS3r6] <;> (try simp) <;> ring1
  · simp only [deS3r6] <;> (try simp) <;> ring1
  · simp only [deS3r6] <;> (try simp) <;> ring1
  · simp only [deS3r6] <;> (try simp) <;> ring1
  · simp only [deS3r6] <;> (try simp) <;> ring1
  · simp only [deS3r6] <;> (try simp) <;> ring1
  · simp only [deS3r6] <;> (try simp) <;> ring1
  · simp only [deS3r10] <;> (try simp) <;> ring1
  · simp only [deS3r10] <;> (try simp) <;> ring1
  · simp only [deS3r10] <;> (try simp) <;> ring1
  · simp only [deS3r10] <;> (try simp) <;> ring1
  · simp only [deS3r10] <;> (try simp) <;> ring1
  · simp only [deS3r10] <;> (try simp) <;> ring1
  · simp only [deS3r10] <;> (try simp) <;> ring1
  · simp only [deS3r10] <;> (try simp) <;> ring1
  · simp only [deS3r10] <;> (try simp) <;> ring1
  · simp only [deS3r10] <;> (try simp) <;> ring1
  · simp only [deS3r10] <;> (try simp) <;> ring1
  · simp only [deS3r10] <;> (try simp) <;> ring1
  · simp only [deS3r10] <;> (try simp) <;> ring1
  · simp only [deS3r10] <;> (try simp) <;> ring1
  · simp only [deS3r10] <;> (try simp) <;> ring1
  · simp only [deS3r10] <;> (try simp) <;> ring1
  · simp only [deS3r11] <;> (try simp) <;> ring1
  · simp only [deS3r11] <;> (try simp) <;> ring1
  · simp only [deS3r11] <;> (try simp) <;> ring1
  · simp only [deS3r11] <;> (try simp) <;> ring1
  · simp only [deS3r11] <;> (try simp) <;> ring1
  · simp only [deS3r11] <;> (try simp) <;> ring1
  · simp only [deS3r11] <;> (try simp) <;> ring1
  · simp only [deS3r11] <;> (try simp) <;> ring1
  · simp only [deS3r11] <;> (try simp) <;> ring1
  · simp only [deS3r11] <;> (try simp) <;> ring1
  · simp only [deS3r11] <;> (try simp) <;> ring1
  · simp only [deS3r11] <;> (try simp) <;> ring1
  · simp only [deS3r11] <;> (try simp) <;> ring1
  · simp only [deS3r11] <;> (try simp) <;> ring1
  · simp only [deS3r11] <;> (try simp) <;> ring1
  · simp only [deS3r11] <;> (try simp) <;> ring1
  · simp only [deS3r9] <;> (try simp) <;> ring1
  · simp only [deS3r9] <;> (try simp) <;> ring1
  · simp only [deS3r9] <;> (try simp) <;> ring1
  · simp only [deS3r9] <;> (try simp) <;> ring1
  · simp only [deS3r9] <;> (try simp) <;> ring1
  · simp only [deS3r9] <;> (try simp) <;> ring1
  · simp only [deS3r9] <;> (try simp) <;> ring1
  · simp only [deS3r9] <;> (try simp) <;> ring1
  · simp only [deS3r9] <;> (try simp) <;> ring1
  · simp only [deS3r9] <;> (try simp) <;> ring1
  · simp only [deS3r9] <;> (try simp) <;> ring1
  · simp only [deS3r9] <;> (try simp) <;> ring1
  · simp only [deS3r9] <;> (try simp) <;> ring1
  · simp only [deS3r9] <;> (try simp) <;> ring1
  · simp only [deS3r9] <;> (try simp) <;> ring1
  · simp only [deS3r9] <;> (try simp) <;> ring1
  · simp only [deS3r8] <;> (try simp) <;> ring1
  · simp only [deS3r8] <;> (try simp) <;> ring1
  · simp only [deS3r8] <;> (try simp) <;> ring1
  · simp only [deS3r8] <;> (try simp) <;> ring1
  · simp only [deS3r8] <;> (try simp) <;> ring1
  · simp only [deS3r8] <;> (try simp) <;> ring1
  · simp only [deS3r8] <;> (try simp) <;> ring1
  · simp only [deS3r8] <;> (try simp) <;> ring1
  · simp only [deS3r8] <;> (try simp) <;> ring1
  · simp only [deS3r8] <;> (try simp) <;> ring1
  · simp only [deS3r8] <;> (try simp) <;> ring1
  · simp only [deS3r8] <;> (try simp) <;> ring1
  · simp only [deS3r8] <;> (try simp) <;> ring1
  · simp only [deS3r8] <;> (try simp) <;> ring1
  · simp only [deS3r8] <;> (try simp) <;> ring1
  · simp only [deS3r8] <;> (try simp) <;> ring1
  · simp only [deS3r14] <;> (try simp) <;> ring1
  · simp only [deS3r14] <;> (try simp) <;> ring1
  · simp only [deS3r14] <;> (try simp) <;> ring1
  · simp only [deS3r14] <;> (try simp) <;> linear_combination (-(1)) * hS
  · simp only [deS3r14] <;> (try simp) <;> ring1
  · simp only [deS3r14] <;> (try simp) <;> ring1
  · simp only [deS3r14] <;> (try simp) <;> ring1
  · simp only [deS3r14] <;> (try simp) <;> ring1
  · simp only [deS3r14] <;> (try simp) <;> ring1
  · simp only [deS3r14] <;> (try simp) <;> ring1
  · simp only [deS3r14] <;> (try simp) <;> ring1
  · simp only [deS3r14] <;> (try simp) <;> ring1
  · simp only [deS3r14] <;> (try simp) <;> linear_combination (-(1)) * hC
  · simp only [deS3r14] <;> (try simp) <;> ring1
  · simp only [deS3r14] <;> (try simp) <;> ring1
  · simp only [deS3r14] <;> (try simp) <;> ring1
  · simp only [deS3r15] <;> (try simp) <;> ring1
  · simp only [deS3r15] <;> (try simp) <;> ring1
  · simp only [deS3r15] <;> (try simp) <;> ring1
  · simp only [deS3r15] <;> (try simp) <;> ring1
  · simp only [deS3r15] <;> (try simp) <;> ring1
  · simp only [deS3r15] <;> (try simp) <;> ring1
  · simp only [deS3r15] <;> (try simp) <;> ring1
  · simp only [deS3r15] <;> (try simp) <;> ring1
  · simp only [deS3r15] <;> (try simp) <;> ring1
  · simp only [deS3r15] <;> (try simp) <;> ring1
  · simp only [deS3r15] <;> (try simp) <;> ring1
  · simp only [deS3r15] <;> (try simp) <;> ring1
  · simp only [deS3r15] <;> (try simp) <;> ring1
  · simp only [deS3r15] <;> (try simp) <;> ring1
  · simp only [deS3r15] <;> (try simp) <;> ring1
  · simp only [deS3r15] <;> (try simp) <;> ring1
  · simp only [deS3r13] <;> (try simp) <;> ring1
  · simp only [deS3r13] <;> (try simp) <;> ring1
  · simp only [deS3r13] <;> (try simp) <;> ring1
  · simp only [deS3r13] <;> (try simp) <;> ring1
  · simp only [deS3r13] <;> (try simp) <;> ring1
  · simp only [deS3r13] <;> (try simp) <;> ring1
  · simp only [deS3r13] <;> (try simp) <;> ring1
  · simp only [deS3r13] <;> (try simp) <;> ring1
  · simp only [deS3r13] <;> (try simp) <;> ring1
  · simp only [deS3r13] <;> (try simp) <;> ring1
  · simp only [deS3r13] <;> (try simp) <;> ring1
  · simp only [deS3r13] <;> (try simp) <;> ring1
  · simp only [deS3r13] <;> (try simp) <;> ring1
  · simp only [deS3r13] <;> (try simp) <;> ring1
  · simp only [deS3r13] <;> (try simp) <;> ring1
  · simp only [deS3r13] <;> (try simp) <;> ring1
  · simp only [deS3r12] <;> (try simp) <;> ring1
  · simp only [deS3r12] <;> (try simp) <;> ring1
  · simp only [deS3r12] <;> (try simp) <;> ring1
  · simp only [deS3r12] <;> (try simp) <;> ring1
  · simp only [deS3r12] <;> (try simp) <;> ring1
  · simp only [deS3r12] <;> (try simp) <;> ring1
  · simp only [deS3r12] <;> (try simp) <;> ring1
  · simp only [deS3r12] <;> (try simp) <;> ring1
  · simp only [deS3r12] <;> (try simp) <;> ring1
  · simp only [deS3r12] <;> (try simp) <;> ring1
  · simp only [deS3r12] <;> (try simp) <;> ring1
  · simp only [deS3r12] <;> (try simp) <;> ring1
  · simp only [deS3r12] <;> (try simp) <;> ring1
  · simp only [deS3r12] <;> (try simp) <;> ring1
  · simp only [deS3r12] <;> (try simp) <;> ring1
  · simp only [deS3r12] <;> (try simp) <;> ring1

set_option maxHeartbeats 2000000 in
/-- The innermost factor of the `orb` chain. -/
theorem orbBase {α : Type} [ Field α] [ CharZero α] (c s h : α) :
    lift1 2 (hG h) * 1 = orbS12 c s h := by
  rw [mul_one]
  ext r k
  obtain ⟨x1, x2, x3, x4⟩ := r
  obtain ⟨y1, y2, y3, y4⟩ := k
  simp only [lift1, hG, getB4, setB4, orbS12, Matrix.of_apply]
  cases x1 <;> cases x2 <;> cases x3 <;> cases x4 <;>
    cases y1 <;> cases y2 <;> cases y3 <;> cases y4 <;> simp [orbS12r0, orbS12r1, orbS12r10, orbS12r11, orbS12r12, orbS12r13, orbS12r14, orbS12r15, orbS12r2, orbS12r3, orbS12r4, orbS12r5, orbS12r6, orbS12r7, orbS12r8, orbS12r9]

set_option maxHeartbeats 4000000 in
/-- Chain step 11 of `orb`. -/
theorem orbStep11 {α : Type} [ Field α] [ CharZero α] (c s h : α) (hs : s ^ 2 = 1 - c ^ 2) (hh : h ^ 2 = 1 / 2) :
    lift1 3 (hG h) * orbS12 c s h = orbS11 c s h := by
  rw [hRule_3]
  ext r k
  obtain ⟨x1, x2, x3, x4⟩ := r
  simp only [orbS12, orbS11, Matrix.of_apply]
  obtain ⟨y1, y2, y3, y4⟩ := k
  cases x1 <;> cases x2 <;> cases x3 <;> cases x4 <;>
    cases y1 <;> cases y2 <;> cases y3 <;> cases y4
  · simp only [orbS12r0, orbS12r1, orbS11r0] <;> linear_combination (1) * hh
  · simp only [orbS12r0, orbS12r1, orbS11r0] <;> linear_combination (1) * hh
  · simp only [orbS12r0, orbS12r1, orbS11r0] <;> linear_combination (1) * hh
  · simp only [orbS12r0, orbS12r1, orbS11r0] <;> linear_combination (1) * hh
  · simp only [orbS12r0, orbS12r1, orbS11r0] <;> ring1
  · simp only [orbS12r0, orbS12r1, orbS11r0] <;> ring1
  · simp only [orbS12r0, orbS12r1, orbS11r0] <;> ring1
  · simp only [orbS12r0, orbS12r1, orbS11r0] <;> ring1
  · simp only [orbS12r0, orbS12r1, orbS11r0] <;> ring1
  · simp only [orbS12r0, orbS12r1, orbS11r0] <;> ring1
  · simp only [orbS12r0, orbS12r1, orbS11r0] <;> ring1
  · simp only [orbS12r0, orbS12r1, orbS11r0] <;> ring1
  · simp only [orbS12r0, orbS12r1, orbS11r0] <;> ring1
  · simp only [orbS12r0, orbS12r1, orbS11r0] <;> ring1
  · simp only [orbS12r0, orbS12r1, orbS11r0] <;> ring1
  · simp only [orbS12r0, orbS12r1, orbS11r0] <;> ring1
  · simp only [orbS12r0, orbS12r1, orbS11r1] <;> linear_combination (1) * hh
  · simp only [orbS12r0, orbS12r1, orbS11r1] <;> linear_combination (-(1)) * hh
  · simp only [orbS12r0, orbS12r1, orbS11r1] <;> linear_combination (1) * hh
  · simp only [orbS12r0, orbS12r1, orbS11r1] <;> linear_combination (-(1)) * hh
  · simp only [orbS12r0, orbS12r1, orbS11r1] <;> ring1
  · simp only [orbS12r0, orbS12r1, orbS11r1] <;> ring1
  · simp only [orbS12r0, orbS12r1, orbS11r1] <;> ring1
  · simp only [orbS12r0, orbS12r1, orbS11r1] <;> ring1
  · simp only [orbS12r0, orbS12r1, orbS11r1] <;> ring1
  · simp only [orbS12r0, orbS12r1, orbS11r1] <;> ring1
  · simp only [orbS12r0, orbS12r1, orbS11r1] <;> ring1
  · simp only [orbS12r0, orbS12r1, orbS11r1] <;> ring1
  · simp only [orbS12r0, orbS12r1, orbS11r1] <;> ring1
  · simp only [orbS12r0, orbS12r1, orbS11r1] <;> ring1
  · simp only [orbS12r0, orbS12r1, orbS11r1] <;> ring1
  · simp only [orbS12r0, orbS12r1, orbS11r1] <;> ring1
  · simp only [orbS12r2, orbS12r3, orbS11r2] <;> linear_combination (1) * hh
  · simp only [orbS12r2, orbS12r3, orbS11r2] <;> linear_combination (1) * hh
  · simp only [orbS12r2, orbS12r3, orbS11r2] <;> linear_combination (-(1)) * hh
  · simp only [orbS12r2, orbS12r3, orbS11r2] <;> linear_combination (-(1)) * hh
  · simp only [orbS12r2, orbS12r3, orbS11r2] <;> ring1
  · simp only [orbS12r2, orbS12r3, orbS11r2] <;> ring1
  · simp only [orbS12r2, orbS12r3, orbS11r2] <;> ring1
  · simp only [orbS12r2, orbS12r3, orbS11r2] <;> ring1
  · simp only [orbS12r2, orbS12r3, orbS11r2] <;> ring1
  · simp only [orbS12r2, orbS12r3, orbS11r2] <;> ring1
  · simp only [orbS12r2, orbS12r3, orbS11r2] <;> ring1
  · simp only [orbS12r2, orbS12r3, orbS11r2] <;> ring1
  · simp only [orbS12r2, orbS12r3, orbS11r2] <;> ring1
  · simp only [orbS12r2, orbS12r3, orbS11r2] <;> ring1
  · simp only [orbS12r2, orbS12r3, orbS11r2] <;> ring1
  · simp only [orbS12r2, orbS12r3, orbS11r2] <;> ring1
  · simp only [orbS12r2, orbS12r3, orbS11r3] <;> linear_combination (1) * hh
  · simp only [orbS12r2, orbS12r3, orbS11r3] <;> linear_combination (-(1)) * hh
  · simp only [orbS12r2, orbS12r3, orbS11r3] <;> linear_combination (-(1)) * hh
  · simp only [orbS12r2, orbS12r3, orbS11r3] <;> linear_combination (1) * hh
  · simp only [orbS12r2, orbS12r3, orbS11r3] <;> ring1
  · simp only [orbS12r2, orbS12r3, orbS11r3] <;> ring1
  · simp only [orbS12r2, orbS12r3, orbS11r3] <;> ring1
  · simp only [orbS12r2, orbS12r3, orbS11r3] <;> ring1
  · simp only [orbS12r2, orbS12r3, orbS11r3] <;> ring1
  · simp only [orbS12r2, orbS12r3, orbS11r3] <;> ring1
  · simp only [orbS12r2, orbS12r3, orbS11r3] <;> ring1
  · simp only [orbS12r2, orbS12r3, orbS11r3] <;> ring1
  · simp only [orbS12r2, orbS12r3, orbS11r3] <;> ring1
  · simp only [orbS12r2, orbS12r3, orbS11r3] <;> ring1
  · simp only [orbS12r2, orbS12r3, orbS11r3] <;> ring1
  · simp only [orbS12r2, orbS12r3, orbS11r3] <;> ring1
  · simp only [orbS12r4, orbS12r5, orbS11r4] <;> ring1
  · simp only [orbS12r4, orbS12r5, orbS11r4] <;> ring1
  · simp only [orbS12r4, orbS12r5, orbS11r4] <;> ring1
  · simp only [orbS12r4, orbS12r5, orbS11r4] <;> ring1
  · simp only [orbS12r4, orbS12r5, orbS11r4] <;> linear_combination (1) * hh
  · simp only [orbS12r4, orbS12r5, orbS11r4] <;> linear_combination (1) * hh
  · simp only [orbS12r4, orbS12r5, orbS11r4] <;> linear_combination (1) * hh
  · simp only [orbS12r4, orbS12r5, orbS11r4] <;> linear_combination (1) * hh
  · simp only [orbS12r4, orbS12r5, orbS11r4] <;> ring1
  · simp only [orbS12r4, orbS12r5, orbS11r4] <;> ring1
  · simp only [orbS12r4, orbS12r5, orbS11r4] <;> ring1
  · simp only [orbS12r4, orbS12r5, orbS11r4] <;> ring1
  · simp only [orbS12r4, orbS12r5, orbS11r4] <;> ring1
  · simp only [orbS12r4, orbS12r5, orbS11r4] <;> ring1
  · simp only [orbS12r4, orbS12r5, orbS11r4] <;> ring1
  · simp only [orbS12r4, orbS12r5, orbS11r4] <;> ring1
  · simp only [orbS12r4, orbS12r5, orbS11r5] <;> ring1
  · simp only [orbS12r4, orbS12r5, orbS11r5] <;> ring1
  · simp only [orbS12r4, orbS12r5, orbS11r5] <;> ring1
  · simp only [orbS12r4, orbS12r5, orbS11r5] <;> ring1
  · simp only [orbS12r4, orbS12r5, orbS11r5] <;> linear_combination (1) * hh
  · simp only [orbS12r4, orbS12r5, orbS11r5] <;> linear_combination (-(1)) * hh
  · simp only [orbS12r4, orbS12r5, orbS11r5] <;> linear_combination (1) * hh
  · simp only [orbS12r4, orbS12r5, orbS11r5] <;> linear_combination (-(1)) * hh
  · simp only [orbS12r4, orbS12r5, orbS11r5] <;> ring1
  · simp only [orbS12r4, orbS12r5, orbS11r5] <;> ring1
  · simp only [orbS12r4, orbS12r5, orbS11r5] <;> ring1
  · simp only [orbS12r4, orbS12r5, orbS11r5] <;> ring1
  · simp only [orbS12r4, orbS12r5, orbS11r5] <;> ring1
  · simp only [orbS12r4, orbS12r5, orbS11r5] <;> ring1
  · simp only [orbS12r4, orbS12r5, orbS11r5] <;> ring1
  · simp only [orbS12r4, orbS12r5, orbS11r5] <;> ring1
  · simp only [orbS12r6, orbS12r7, orbS11r6] <;> ring1
  · simp only [orbS12r6, orbS12r7, orbS11r6] <;> ring1
  · simp only [orbS12r6, orbS12r7, orbS11r6] <;> ring1
  · simp only [orbS12r6, orbS12r7, orbS11r6] <;> ring1
  · simp only [orbS12r6, orbS12r7, orbS11r6] <;> linear_combination (1) * hh
  · simp only [orbS12r6, orbS12r7, orbS11r6] <;> linear_combination (1) * hh
  · simp only [orbS12r6, orbS12r7, orbS11r6] <;> linear_combination (-(1)) * hh
  · simp only [orbS12r6, orbS12r7, orbS11r6] <;> linear_combination (-(1)) * hh
  · simp only [orbS12r6, orbS12r7, orbS11r6] <;> ring1
  · simp only [orbS12r6, orbS12r7, orbS11r6] <;> ring1
  · simp only [orbS12r6, orbS12r7, orbS11r6] <;> ring1
  · simp only [orbS12r6, orbS12r7, orbS11r6] <;> ring1
  · simp only [orbS12r6, orbS12r7, orbS11r6] <;> ring1
  · simp only [orbS12r6, orbS12r7, orbS11r6] <;> ring1
  · simp only [orbS12r6, orbS12r7, orbS11r6] <;> ring1
  · simp only [orbS12r6, orbS12r7, orbS11r6] <;> ring1
  · simp only [orbS12r6, orbS12r7, orbS11r7] <;> ring1
  · simp only [orbS12r6, orbS12r7, orbS11r7] <;> ring1
  · simp only [orbS12r6, orbS12r7, orbS11r7] <;> ring1
  · simp only [orbS12r6, orbS12r7, orbS11r7] <;> ring1
  · simp only [orbS12r6, orbS12r7, orbS11r7] <;> linear_combination (1) * hh
  · simp only [orbS12r6, orbS12r7, orbS11r7] <;> linear_combination (-(1)) * hh
  · simp only [orbS12r6, orbS12r7, orbS11r7] <;> linear_combination (-(1)) * hh
  · simp only [orbS12r6, orbS12r7, orbS11r7] <;> linear_combination (1) * hh
  · simp only [orbS12r6, orbS12r7, orbS11r7] <;> ring1
  · simp only [orbS12r6, orbS12r7, orbS11r7] <;> ring1
  · simp only [orbS12r6, orbS12r7, orbS11r7] <;> ring1
  · simp only [orbS12r6, orbS12r7, orbS11r7] <;> ring1
  · simp only [orbS12r6, orbS12r7, orbS11r7] <;> ring1
  · simp only [orbS12r6, orbS12r7, orbS11r7] <;> ring1
  · simp only [orbS12r6, orbS12r7, orbS11r7] <;> ring1
  · simp only [orbS12r6, orbS12r7, orbS11r7] <;> ring1
  · simp only [orbS12r8, orbS12r9, orbS11r8] <;> ring1
  · simp only [orbS12r8, orbS12r9, orbS11r8] <;> ring1
  · simp only [orbS12r8, orbS12r9, orbS11r8] <;> ring1
  · simp only [orbS12r8, orbS12r9, orbS11r8] <;> ring1
  · simp only [orbS12r8, orbS12r9, orbS11r8] <;> ring1
  · simp only [orbS12r8, orbS12r9, orbS11r8] <;> ring1
  · simp only [orbS12r8, orbS12r9, orbS11r8] <;> ring1
  · simp only [orbS12r8, orbS12r9, orbS11r8] <;> ring1
  · simp only [orbS12r8, orbS12r9, orbS11r8] <;> linear_combination (1) * hh
  · simp only [orbS12r8, orbS12r9, orbS11r8] <;> linear_combination (1) * hh
  · simp only [orbS12r8, orbS12r9, orbS11r8] <;> linear_combination (1) * hh
  · simp only [orbS12r8, orbS12r9, orbS11r8] <;> linear_combination (1) * hh
  · simp only [orbS12r8, orbS12r9, orbS11r8] <;> ring1
  · simp only [orbS12r8, orbS12r9, orbS11r8] <;> ring1
  · simp only [orbS12r8, orbS12r9, orbS11r8] <;> ring1
  · simp only [orbS12r8, orbS12r9, orbS11r8] <;> ring1
  · simp only [orbS12r8, orbS12r9, orbS11r9] <;> ring1
  · simp only [orbS12r8, orbS12r9, orbS11r9] <;> ring1
  · simp only [orbS12r8, orbS12r9, orbS11r9] <;> ring1
  · simp only [orbS12r8, orbS12r9, orbS11r9] <;> ring1
  · simp only [orbS12r8, orbS12r9, orbS11r9] <;> ring1
  · simp only [orbS12r8, orbS12r9, orbS11r9] <;> ring1
  · simp only [orbS12r8, orbS12r9, orbS11r9] <;> ring1
  · simp only [orbS12r8, orbS12r9, orbS11r9] <;> ring1
  · simp only [orbS12r8, orbS12r9, orbS11r9] <;> linear_combination (1) * hh
  · simp only [orbS12r8, orbS12r9, orbS11r9] <;> linear_combination (-(1)) * hh
  · simp only [orbS12r8, orbS12r9, orbS11r9] <;> linear_combination (1) * hh
  · simp only [orbS12r8, orbS12r9, orbS11r9] <;> linear_combination (-(1)) * hh
  · simp only [orbS12r8, orbS12r9, orbS11r9] <;> ring1
  · simp only [orbS12r8, orbS12r9, orbS11r9] <;> ring1
  · simp only [orbS12r8, orbS12r9, orbS11r9] <;> ring1
  · simp only [orbS12r8, orbS12r9, orbS11r9] <;> ring1
  · simp only [orbS12r10, orbS12r11, orbS11r10] <;> ring1
  · simp only [orbS12r10, orbS12r11, orbS11r10] <;> ring1
  · simp only [orbS12r10, orbS12r11, orbS11r10] <;> ring1
  · simp only [orbS12r10, orbS12r11, orbS11r10] <;> ring1
  · simp only [orbS12r10, orbS12r11, orbS11r10] <;> ring1
  · simp only [orbS12r10, orbS12r11, orbS11r10] <;> ring1
  · simp only [orbS12r10, orbS12r11, orbS11r10] <;> ring1
  · simp only [orbS12r10, orbS12r11, orbS11r10] <;> ring1
  · simp only [orbS12r10, orbS12r11, orbS11r10] <;> linear_combination (1) * hh
  · simp only [orbS12r10, orbS12r11, orbS11r10] <;> linear_combination (1) * hh
  · simp only [orbS12r10, orbS12r11, orbS11r10] <;> linear_combination (-(1)) * hh
  · simp only [orbS12r10, orbS12r11, orbS11r10] <;> linear_combination (-(1)) * hh
  · simp only [orbS12r10, orbS12r11, orbS11r10] <;> ring1
  · simp only [orbS12r10, orbS12r11, orbS11r10] <;> ring1
  · simp only [orbS12r10, orbS12r11, orbS11r10] <;> ring1
  · simp only [orbS12r10, orbS12r11, orbS11r10] <;> ring1
  · simp only [orbS12r10, orbS12r11, orbS11r11] <;> ring1
  · simp only [orbS12r10, orbS12r11, orbS11r11] <;> ring1
  · simp only [orbS12r10, orbS12r11, orbS11r11] <;> ring1
  · simp only [orbS12r10, orbS12r11, orbS11r11] <;> ring1
  · simp only [orbS12r10, orbS12r11, orbS11r11] <;> ring1
  · simp only [orbS12r10, orbS12r11, orbS11r11] <;> ring1
  · simp only [orbS12r10, orbS12r11, orbS11r11] <;> ring1
  · simp only [orbS12r10, orbS12r11, orbS11r11] <;> ring1
  · simp only [orbS12r10, orbS12r11, orbS11r11] <;> linear_combination (1) * hh
  · simp only [orbS12r10, orbS12r11, orbS11r11] <;> linear_combination (-(1)) * hh
  · simp only [orbS12r10, orbS12r11, orbS11r11] <;> linear_combination (-(1)) * hh
  · simp only [orbS12r10, orbS12r11, orbS11r11] <;> linear_combination (1) * hh
  · simp only [orbS12r10, orbS12r11, orbS11r11] <;> ring1
  · simp only [orbS12r10, orbS12r11, orbS11r11] <;> ring1
  · simp only [orbS12r10, orbS12r11, orbS11r11] <;> ring1
  · simp only [orbS12r10, orbS12r11, orbS11r11] <;> ring1
  · simp only [orbS12r12, orbS12r13, orbS11r12] <;> ring1
  · simp only [orbS12r12, orbS12r13, orbS11r12] <;> ring1
  · simp only [orbS12r12, orbS12r13, orbS11r12] <;> ring1
  · simp only [orbS12r12, orbS12r13, orbS11r12] <;> ring1
  · simp only [orbS12r12, orbS12r13, orbS11r12] <;> ring1
  · simp only [orbS12r12, orbS12r13, orbS11r12] <;> ring1
  · simp only [orbS12r12, orbS12r13, orbS11r12] <;> ring1
  · simp only [orbS12r12, orbS12r13, orbS11r12] <;> ring1
  · simp only [orbS12r12, orbS12r13, orbS11r12] <;> ring1
  · simp only [orbS12r12, orbS12r13, orbS11r12] <;> ring1
  · simp only [orbS12r12, orbS12r13, orbS11r12] <;> ring1
  · simp only [orbS12r12, orbS12r13, orbS11r12] <;> ring1
  · simp only [orbS12r12, orbS12r13, orbS11r12] <;> linear_combination (1) * hh
  · simp only [orbS12r12, orbS12r13, orbS11r12] <;> linear_combination (1) * hh
  · simp only [orbS12r12, orbS12r13, orbS11r12] <;> linear_combination (1) * hh
  · simp only [orbS12r12, orbS12r13, orbS11r12] <;> linear_combination (1) * hh
  · simp only [orbS12r12, orbS12r13, orbS11r13] <;> ring1
  · simp only [orbS12r12, orbS12r13, orbS11r13] <;> ring1
  · simp only [orbS12r12, orbS12r13, orbS11r13] <;> ring1
  · simp only [orbS12r12, orbS12r13, orbS11r13] <;> ring1
  · simp only [orbS12r12, orbS12r13, orbS11r13] <;> ring1
  · simp only [orbS12r12, orbS12r13, orbS11r13] <;> ring1
  · simp only [orbS12r12, orbS12r13, orbS11r13] <;> ring1
  · simp only [orbS12r12, orbS12r13, orbS11r13] <;> ring1
  · simp only [orbS12r12, orbS12r13, orbS11r13] <;> ring1
  · simp only [orbS12r12, orbS12r13, orbS11r13] <;> ring1
  · simp only [orbS12r12, orbS12r13, orbS11r13] <;> ring1
  · simp only [orbS12r12, orbS12r13, orbS11r13] <;> ring1
  · simp only [orbS12r12, orbS12r13, orbS11r13] <;> linear_combination (1) * hh
  · simp only [orbS12r12, orbS12r13, orbS11r13] <;> linear_combination (-(1)) * hh
  · simp only [orbS12r12, orbS12r13, orbS11r13] <;> linear_combination (1) * hh
  · simp only [orbS12r12, orbS12r13, orbS11r13] <;> linear_combination (-(1)) * hh
  · simp only [orbS12r14, orbS12r15, orbS11r14] <;> ring1
  · simp only [orbS12r14, orbS12r15, orbS11r14] <;> ring1
  · simp only [orbS12r14, orbS12r15, orbS11r14] <;> ring1
  · simp only [orbS12r14, orbS12r15, orbS11r14] <;> ring1
  · simp only [orbS12r14, orbS12r15, orbS11r14] <;> ring1
  · simp only [orbS12r14, orbS12r15, orbS11r14] <;> ring1
  · simp only [orbS12r14, orbS12r15, orbS11r14] <;> ring1
  · simp only [orbS12r14, orbS12r15, orbS11r14] <;> ring1
  · simp only [orbS12r14, orbS12r15, orbS11r14] <;> ring1
  · simp only [orbS12r14, orbS12r15, orbS11r14] <;> ring1
  · simp only [orbS12r14, orbS12r15, orbS11r14] <;> ring1
  · simp only [orbS12r14, orbS12r15, orbS11r14] <;> ring1
  · simp only [orbS12r14, orbS12r15, orbS11r14] <;> linear_combination (1) * hh
  · simp only [orbS12r14, orbS12r15, orbS11r14] <;> linear_combination (1) * hh
  · simp only [orbS12r14, orbS12r15, orbS11r14] <;> linear_combination (-(1)) * hh
  · simp only [orbS12r14, orbS12r15, orbS11r14] <;> linear_combination (-(1)) * hh
  · simp only [orbS12r14, orbS12r15, orbS11r15] <;> ring1
  · simp only [orbS12r14, orbS12r15, orbS11r15] <;> ring1
  · simp only [orbS12r14, orbS12r15, orbS11r15] <;> ring1
  · simp only [orbS12r14, orbS12r15, orbS11r15] <;> ring1
  · simp only [orbS12r14, orbS12r15, orbS11r15] <;> ring1
  · simp only [orbS12r14, orbS12r15, orbS11r15] <;> ring1
  · simp only [orbS12r14, orbS12r15, orbS11r15] <;> ring1
  · simp only [orbS12r14, orbS12r15, orbS11r15] <;> ring1
  · simp only [orbS12r14, orbS12r15, orbS11r15] <;> ring1
  · simp only [orbS12r14, orbS12r15, orbS11r15] <;> ring1
  · simp only [orbS12r14, orbS12r15, orbS11r15] <;> ring1
  · simp only [orbS12r14, orbS12r15, orbS11r15] <;> ring1
  · simp only [orbS12r14, orbS12r15, orbS11r15] <;> linear_combination (1) * hh
  · simp only [orbS12r14, orbS12r15, orbS11r15] <;> linear_combination (-(1)) * hh
  · simp only [orbS12r14, orbS12r15, orbS11r15] <;> linear_combination (-(1)) * hh
  · simp only [orbS12r14, orbS12r15, orbS11r15] <;> linear_combination (1) * hh

set_option maxHeartbeats 4000000 in
/-- Chain step 10 of `orb`. -/
theorem orbStep10 {α : Type} [ Field α] [ CharZero α] (c s h : α) (hs : s ^ 2 = 1 - c ^ 2) (hh : h ^ 2 = 1 / 2) :
    lift2 2 0 cnotG * orbS11 c s h = orbS10 c s h := by
  rw [cnotRule_2_0]
  ext r k
  obtain ⟨x1, x2, x3, x4⟩ := r
  simp only [orbS11, orbS10, Matrix.of_apply]
  cases x1 <;> cases x2 <;> cases x3 <;> cases x4 <;> rfl

set_option maxHeartbeats 4000000 in
/-- Chain step 9 of `orb`. -/
theorem orbStep9 {α : Type} [ Field α] [ CharZero α] (c s h : α) (hs : s ^ 2 = 1 - c ^ 2) (hh : h ^ 2 = 1 / 2) :
    lift2 3 1 cnotG * orbS10 c s h = orbS9 c s h := by
  rw [cnotRule_3_1]
  ext r k
  obtain ⟨x1, x2, x3, x4⟩ := r
  simp only [orbS10, orbS9, Matrix.of_apply]
  cases x1 <;> cases x2 <;> cases x3 <;> cases x4 <;> rfl

set_option maxHeartbeats 4000000 in
/-- Chain step 8 of `orb`. -/
theorem orbStep8 {α : Type} [ Field α] [ CharZero α] (c s h : α) (hs : s ^ 2 = 1 - c ^ 2) (hh : h ^ 2 = 1 / 2) :
    lift1 0 (ryG c s) * orbS9 c s h = orbS8 c s h := by
  rw [ryRule_0]
  ext r k
  obtain ⟨x1, x2, x3, x4⟩ := r
  simp only [orbS9, orbS8, Matrix.of_apply]
  obtain ⟨y1, y2, y3, y4⟩ := k
  cases x1 <;> cases x2 <;> cases x3 <;> cases x4 <;>
    cases y1 <;> cases y2 <;> cases y3 <;> cases y4
  · simp only [orbS11r0, orbS11r8, orbS8r0] <;> ring1
  · simp only [orbS11r0, orbS11r8, orbS8r0] <;> ring1
  · simp only [orbS11r0, orbS11r8, orbS8r0] <;> ring1
  · simp only [orbS11r0, orbS11r8, orbS8r0] <;> ring1
  · simp only [orbS11r0, orbS11r8, orbS8r0] <;> ring1
  · simp only [orbS11r0, orbS11r8, orbS8r0] <;> ring1
  · simp only [orbS11r0, orbS11r8, orbS8r0] <;> ring1
  · simp only [orbS11r0, orbS11r8, orbS8r0] <;> ring1
  · simp only [orbS11r0, orbS11r8, orbS8r0] <;> ring1
  · simp only [orbS11r0, orbS11r8, orbS8r0] <;> ring1
  · simp only [orbS11r0, orbS11r8, orbS8r0] <;> ring1
  · simp only [orbS11r0, orbS11r8, orbS8r0] <;> ring1
  · simp only [orbS11r0, orbS11r8, orbS8r0] <;> ring1
  · simp only [orbS11r0, orbS11r8, orbS8r0] <;> ring1
  · simp only [orbS11r0, orbS11r8, orbS8r0] <;> ring1
  · simp only [orbS11r0, orbS11r8, orbS8r0] <;> ring1
  · simp only [orbS11r13, orbS11r5, orbS8r1] <;> ring1
  · simp only [orbS11r13, orbS11r5, orbS8r1] <;> ring1
  · simp only [orbS11r13, orbS11r5, orbS8r1] <;> ring1
  · simp only [orbS11r13, orbS11r5, orbS8r1] <;> ring1
  · simp only [orbS11r13, orbS11r5, orbS8r1] <;> ring1
  · simp only [orbS11r13, orbS11r5, orbS8r1] <;> ring1
  · simp only [orbS11r13, orbS11r5, orbS8r1] <;> ring1
  · simp only [orbS11r13, orbS11r5, orbS8r1] <;> ring1
  · simp only [orbS11r13, orbS11r5, orbS8r1] <;> ring1
  · simp only [orbS11r13, orbS11r5, orbS8r1] <;> ring1
  · simp only [orbS11r13, orbS11r5, orbS8r1] <;> ring1
  · simp only [orbS11r13, orbS11r5, orbS8r1] <;> ring1
  · simp only [orbS11r13, orbS11r5, orbS8r1] <;> ring1
  · simp only [orbS11r13, orbS11r5, orbS8r1] <;> ring1
  · simp only [orbS11r13, orbS11r5, orbS8r1] <;> ring1
  · simp only [orbS11r13, orbS11r5, orbS8r1] <;> ring1
  · simp only [orbS11r10, orbS11r2, orbS8r2] <;> ring1
  · simp only [orbS11r10, orbS11r2, orbS8r2] <;> ring1
  · simp only [orbS11r10, orbS11r2, orbS8r2] <;> ring1
  · simp only [orbS11r10, orbS11r2, orbS8r2] <;> ring1
  · simp only [orbS11r10, orbS11r2, orbS8r2] <;> ring1
  · simp only [orbS11r10, orbS11r2, orbS8r2] <;> ring1
  · simp only [orbS11r10, orbS11r2, orbS8r2] <;> ring1
  · simp only [orbS11r10, orbS11r2, orbS8r2] <;> ring1
  · simp only [orbS11r10, orbS11r2, orbS8r2] <;> ring1
  · simp only [orbS11r10, orbS11r2, orbS8r2] <;> ring1
  · simp only [orbS11r10, orbS11r2, orbS8r2] <;> ring1
  · simp only [orbS11r10, orbS11r2, orbS8r2] <;> ring1
  · simp only [orbS11r10, orbS11r2, orbS8r2] <;> ring1
  · simp only [orbS11r10, orbS11r2, orbS8r2] <;> ring1
  · simp only [orbS11r10, orbS11r2, orbS8r2] <;> ring1
  · simp only [orbS11r10, orbS11r2, orbS8r2] <;> ring1
  · simp only [orbS11r15, orbS11r7, orbS8r3] <;> ring1
  · simp only [orbS11r15, orbS11r7, orbS8r3] <;> ring1
  · simp only [orbS11r15, orbS11r7, orbS8r3] <;> ring1
  · simp only [orbS11r15, orbS11r7, orbS8r3] <;> ring1
  · simp only [orbS11r15, orbS11r7, orbS8r3] <;> ring1
  · simp only [orbS11r15, orbS11r7, orbS8r3] <;> ring1
  · simp only [orbS11r15, orbS11r7, orbS8r3] <;> ring1
  · simp only [orbS11r15, orbS11r7, orbS8r3] <;> ring1
  · simp only [orbS11r15, orbS11r7, orbS8r3] <;> ring1
  · simp only [orbS11r15, orbS11r7, orbS8r3] <;> ring1
  · simp only [orbS11r15, orbS11r7, orbS8r3] <;> ring1
  · simp only [orbS11r15, orbS11r7, orbS8r3] <;> ring1
  · simp only [orbS11r15, orbS11r7, orbS8r3] <;> ring1
  · simp only [orbS11r15, orbS11r7, orbS8r3] <;> ring1
  · simp only [orbS11r15, orbS11r7, orbS8r3] <;> ring1
  · simp only [orbS11r15, orbS11r7, orbS8r3] <;> ring1
  · simp only [orbS11r12, orbS11r4, orbS8r4] <;> ring1
  · simp only [orbS11r12, orbS11r4, orbS8r4] <;> ring1
  · simp only [orbS11r12, orbS11r4, orbS8r4] <;> ring1
  · simp only [orbS11r12, orbS11r4, orbS8r4] <;> ring1
  · simp only [orbS11r12, orbS11r4, orbS8r4] <;> ring1
  · simp only [orbS11r12, orbS11r4, orbS8r4] <;> ring1
  · simp only [orbS11r12, orbS11r4, orbS8r4] <;> ring1
  · simp only [orbS11r12, orbS11r4, orbS8r4] <;> ring1
  · simp only [orbS11r12, orbS11r4, orbS8r4] <;> ring1
  · simp only [orbS11r12, orbS11r4, orbS8r4] <;> ring1
  · simp only [orbS11r12, orbS11r4, orbS8r4] <;> ring1
  · simp only [orbS11r12, orbS11r4, orbS8r4] <;> ring1
  · simp only [orbS11r12, orbS11r4, orbS8r4] <;> ring1
  · simp only [orbS11r12, orbS11r4, orbS8r4] <;> ring1
  · simp only [orbS11r12, orbS11r4, orbS8r4] <;> ring1
  · simp only [orbS11r12, orbS11r4, orbS8r4] <;> ring1
  · simp only [orbS11r1, orbS11r9, orbS8r5] <;> ring1
  · simp only [orbS11r1, orbS11r9, orbS8r5] <;> ring1
  · simp only [orbS11r1, orbS11r9, orbS8r5] <;> ring1
  · simp only [orbS11r1, orbS11r9, orbS8r5] <;> ring1
  · simp only [orbS11r1, orbS11r9, orbS8r5] <;> ring1
  · simp only [orbS11r1, orbS11r9, orbS8r5] <;> ring1
  · simp only [orbS11r1, orbS11r9, orbS8r5] <;> ring1
  · simp only [orbS11r1, orbS11r9, orbS8r5] <;> ring1
  · simp only [orbS11r1, orbS11r9, orbS8r5] <;> ring1
  · simp only [orbS11r1, orbS11r9, orbS8r5] <;> ring1
  · simp only [orbS11r1, orbS11r9, orbS8r5] <;> ring1
  · simp only [orbS11r1, orbS11r9, orbS8r5] <;> ring1
  · simp only [orbS11r1, orbS11r9, orbS8r5] <;> ring1
  · simp only [orbS11r1, orbS11r9, orbS8r5] <;> ring1
  · simp only [orbS11r1, orbS11r9, orbS8r5] <;> ring1
  · simp only [orbS11r1, orbS11r9, orbS8r5] <;> ring1
  · simp only [orbS11r14, orbS11r6, orbS8r6] <;> ring1
  · simp only [orbS11r14, orbS11r6, orbS8r6] <;> ring1
  · simp only [orbS11r14, orbS11r6, orbS8r6] <;> ring1
  · simp only [orbS11r14, orbS11r6, orbS8r6] <;> ring1
  · simp only [orbS11r14, orbS11r6, orbS8r6] <;> ring1
  · simp only [orbS11r14, orbS11r6, orbS8r6] <;> ring1
  · simp only [orbS11r14, orbS11r6, orbS8r6] <;> ring1
  · simp only [orbS11r14, orbS11r6, orbS8r6] <;> ring1
  · simp only [orbS11r14, orbS11r6, orbS8r6] <;> ring1
  · simp only [orbS11r14, orbS11r6, orbS8r6] <;> ring1
  · simp only [orbS11r14, orbS11r6, orbS8r6] <;> ring1
  · simp only [orbS11r14, orbS11r6, orbS8r6] <;> ring1
  · simp only [orbS11r14, orbS11r6, orbS8r6] <;> ring1
  · simp only [orbS11r14, orbS11r6, orbS8r6] <;> ring1
  · simp only [orbS11r14, orbS11r6, orbS8r6] <;> ring1
  · simp only [orbS11r14, orbS11r6, orbS8r6] <;> ring1
  · simp only [orbS11r11, orbS11r3, orbS8r7] <;> ring1
  · simp only [orbS11r11, orbS11r3, orbS8r7] <;> ring1
  · simp only [orbS11r11, orbS11r3, orbS8r7] <;> ring1
  · simp only [orbS11r11, orbS11r3, orbS8r7] <;> ring1
  · simp only [orbS11r11, orbS11r3, orbS8r7] <;> ring1
  · simp only [orbS11r11, orbS11r3, orbS8r7] <;> ring1
  · simp only [orbS11r11, orbS11r3, orbS8r7] <;> ring1
  · simp only [orbS11r11, orbS11r3, orbS8r7] <;> ring1
  · simp only [orbS11r11, orbS11r3, orbS8r7] <;> ring1
  · simp only [orbS11r11, orbS11r3, orbS8r7] <;> ring1
  · simp only [orbS11r11, orbS11r3, orbS8r7] <;> ring1
  · simp only [orbS11r11, orbS11r3, orbS8r7] <;> ring1
  · simp only [orbS11r11, orbS11r3, orbS8r7] <;> ring1
  · simp only [orbS11r11, orbS11r3, orbS8r7] <;> ring1
  · simp only [orbS11r11, orbS11r3, orbS8r7] <;> ring1
  · simp only [orbS11r11, orbS11r3, orbS8r7] <;> ring1
  · simp only [orbS11r0, orbS11r8, orbS8r8] <;> ring1
  · simp only [orbS11r0, orbS11r8, orbS8r8] <;> ring1
  · simp only [orbS11r0, orbS11r8, orbS8r8] <;> ring1
  · simp only [orbS11r0, orbS11r8, orbS8r8] <;> ring1
  · simp only [orbS11r0, orbS11r8, orbS8r8] <;> ring1
  · simp only [orbS11r0, orbS11r8, orbS8r8] <;> ring1
  · simp only [orbS11r0, orbS11r8, orbS8r8] <;> ring1
  · simp only [orbS11r0, orbS11r8, orbS8r8] <;> ring1
  · simp only [orbS11r0, orbS11r8, orbS8r8] <;> ring1
  · simp only [orbS11r0, orbS11r8, orbS8r8] <;> ring1
  · simp only [orbS11r0, orbS11r8, orbS8r8] <;> ring1
  · simp only [orbS11r0, orbS11r8, orbS8r8] <;> ring1
  · simp only [orbS11r0, orbS11r8, orbS8r8] <;> ring1
  · simp only [orbS11r0, orbS11r8, orbS8r8] <;> ring1
  · simp only [orbS11r0, orbS11r8, orbS8r8] <;> ring1
  · simp only [orbS11r0, orbS11r8, orbS8r8] <;> ring1
  · simp only [orbS11r13, orbS11r5, orbS8r9] <;> ring1
  · simp only [orbS11r13, orbS11r5, orbS8r9] <;> ring1
  · simp only [orbS11r13, orbS11r5, orbS8r9] <;> ring1
  · simp only [orbS11r13, orbS11r5, orbS8r9] <;> ring1
  · simp only [orbS11r13, orbS11r5, orbS8r9] <;> ring1
  · simp only [orbS11r13, orbS11r5, orbS8r9] <;> ring1
  · simp only [orbS11r13, orbS11r5, orbS8r9] <;> ring1
  · simp only [orbS11r13, orbS11r5, orbS8r9] <;> ring1
  · simp only [orbS11r13, orbS11r5, orbS8r9] <;> ring1
  · simp only [orbS11r13, orbS11r5, orbS8r9] <;> ring1
  · simp only [orbS11r13, orbS11r5, orbS8r9] <;> ring1
  · simp only [orbS11r13, orbS11r5, orbS8r9] <;> ring1
  · simp only [orbS11r13, orbS11r5, orbS8r9] <;> ring1
  · simp only [orbS11r13, orbS11r5, orbS8r9] <;> ring1
  · simp only [orbS11r13, orbS11r5, orbS8r9] <;> ring1
  · simp only [orbS11r13, orbS11r5, orbS8r9] <;> ring1
  · simp only [orbS11r10, orbS11r2, orbS8r10] <;> ring1
  · simp only [orbS11r10, orbS11r2, orbS8r10] <;> ring1
  · simp only [orbS11r10, orbS11r2, orbS8r10] <;> ring1
  · simp only [orbS11r10, orbS11r2, orbS8r10] <;> ring1
  · simp only [orbS11r10, orbS11r2, orbS8r10] <;> ring1
  · simp only [orbS11r10, orbS11r2, orbS8r10] <;> ring1
  · simp only [orbS11r10, orbS11r2, orbS8r10] <;> ring1
  · simp only [orbS11r10, orbS11r2, orbS8r10] <;> ring1
  · simp only [orbS11r10, orbS11r2, orbS8r10] <;> ring1
  · simp only [orbS11r10, orbS11r2, orbS8r10] <;> ring1
  · simp only [orbS11r10, orbS11r2, orbS8r10] <;> ring1
  · simp only [orbS11r10, orbS11r2, orbS8r10] <;> ring1
  · simp only [orbS11r10, orbS11r2, orbS8r10] <;> ring1
  · simp only [orbS11r10, orbS11r2, orbS8r10] <;> ring1
  · simp only [orbS11r10, orbS11r2, orbS8r10] <;> ring1
  · simp only [orbS11r10, orbS11r2, orbS8r10] <;> ring1
  · simp only [orbS11r15, orbS11r7, orbS8r11] <;> ring1
  · simp only [orbS11r15, orbS11r7, orbS8r11] <;> ring1
  · simp only [orbS11r15, orbS11r7, orbS8r11] <;> ring1
  · simp only [orbS11r15, orbS11r7, orbS8r11] <;> ring1
  · simp only [orbS11r15, orbS11r7, orbS8r11] <;> ring1
  · simp only [orbS11r15, orbS11r7, orbS8r11] <;> ring1
  · simp only [orbS11r15, orbS11r7, orbS8r11] <;> ring1
  · simp only [orbS11r15, orbS11r7, orbS8r11] <;> ring1
  · simp only [orbS11r15, orbS11r7, orbS8r11] <;> ring1
  · simp only [orbS11r15, orbS11r7, orbS8r11] <;> ring1
  · simp only [orbS11r15, orbS11r7, orbS8r11] <;> ring1
  · simp only [orbS11r15, orbS11r7, orbS8r11] <;> ring1
  · simp only [orbS11r15, orbS11r7, orbS8r11] <;> ring1
  · simp only [orbS11r15, orbS11r7, orbS8r11] <;> ring1
  · simp only [orbS11r15, orbS11r7, orbS8r11] <;> ring1
  · simp only [orbS11r15, orbS11r7, orbS8r11] <;> ring1
  · simp only [orbS11r12, orbS11r4, orbS8r12] <;> ring1
  · simp only [orbS11r12, orbS11r4, orbS8r12] <;> ring1
  · simp only [orbS11r12, orbS11r4, orbS8r12] <;> ring1
  · simp only [orbS11r12, orbS11r4, orbS8r12] <;> ring1
  · simp only [orbS11r12, orbS11r4, orbS8r12] <;> ring1
  · simp only [orbS11r12, orbS11r4, orbS8r12] <;> ring1
  · simp only [orbS11r12, orbS11r4, orbS8r12] <;> ring1
  · simp only [orbS11r12, orbS11r4, orbS8r12] <;> ring1
  · simp only [orbS11r12, orbS11r4, orbS8r12] <;> ring1
  · simp only [orbS11r12, orbS11r4, orbS8r12] <;> ring1
  · simp only [orbS11r12, orbS11r4, orbS8r12] <;> ring1
  · simp only [orbS11r12, orbS11r4, orbS8r12] <;> ring1
  · simp only [orbS11r12, orbS11r4, orbS8r12] <;> ring1
  · simp only [orbS11r12, orbS11r4, orbS8r12] <;> ring1
  · simp only [orbS11r12, orbS11r4, orbS8r12] <;> ring1
  · simp only [orbS11r12, orbS11r4, orbS8r12] <;> ring1
  · simp only [orbS11r1, orbS11r9, orbS8r13] <;> ring1
  · simp only [orbS11r1, orbS11r9, orbS8r13] <;> ring1
  · simp only [orbS11r1, orbS11r9, orbS8r13] <;> ring1
  · simp only [orbS11r1, orbS11r9, orbS8r13] <;> ring1
  · simp only [orbS11r1, orbS11r9, orbS8r13] <;> ring1
  · simp only [orbS11r1, orbS11r9, orbS8r13] <;> ring1
  · simp only [orbS11r1, orbS11r9, orbS8r13] <;> ring1
  · simp only [orbS11r1, orbS11r9, orbS8r13] <;> ring1
  · simp only [orbS11r1, orbS11r9, orbS8r13] <;> ring1
  · simp only [orbS11r1, orbS11r9, orbS8r13] <;> ring1
  · simp only [orbS11r1, orbS11r9, orbS8r13] <;> ring1
  · simp only [orbS11r1, orbS11r9, orbS8r13] <;> ring1
  · simp only [orbS11r1, orbS11r9, orbS8r13] <;> ring1
  · simp only [orbS11r1, orbS11r9, orbS8r13] <;> ring1
  · simp only [orbS11r1, orbS11r9, orbS8r13] <;> ring1
  · simp only [orbS11r1, orbS11r9, orbS8r13] <;> ring1
  · simp only [orbS11r14, orbS11r6, orbS8r14] <;> ring1
  · simp only [orbS11r14, orbS11r6, orbS8r14] <;> ring1
  · simp only [orbS11r14, orbS11r6, orbS8r14] <;> ring1
  · simp only [orbS11r14, orbS11r6, orbS8r14] <;> ring1
  · simp only [orbS11r14, orbS11r6, orbS8r14] <;> ring1
  · simp only [orbS11r14, orbS11r6, orbS8r14] <;> ring1
  · simp only [orbS11r14, orbS11r6, orbS8r14] <;> ring1
  · simp only [orbS11r14, orbS11r6, orbS8r14] <;> ring1
  · simp only [orbS11r14, orbS11r6, orbS8r14] <;> ring1
  · simp only [orbS11r14, orbS11r6, orbS8r14] <;> ring1
  · simp only [orbS11r14, orbS11r6, orbS8r14] <;> ring1
  · simp only [orbS11r14, orbS11r6, orbS8r14] <;> ring1
  · simp only [orbS11r14, orbS11r6, orbS8r14] <;> ring1
  · simp only [orbS11r14, orbS11r6, orbS8r14] <;> ring1
  · simp only [orbS11r14, orbS11r6, orbS8r14] <;> ring1
  · simp only [orbS11r14, orbS11r6, orbS8r14] <;> ring1
  · simp only [orbS11r11, orbS11r3, orbS8r15] <;> ring1
  · simp only [orbS11r11, orbS11r3, orbS8r15] <;> ring1
  · simp only [orbS11r11, orbS11r3, orbS8r15] <;> ring1
  · simp only [orbS11r11, orbS11r3, orbS8r15] <;> ring1
  · simp only [orbS11r11, orbS11r3, orbS8r15] <;> ring1
  · simp only [orbS11r11, orbS11r3, orbS8r15] <;> ring1
  · simp only [orbS11r11, orbS11r3, orbS8r15] <;> ring1
  · simp only [orbS11r11, orbS11r3, orbS8r15] <;> ring1
  · simp only [orbS11r11, orbS11r3, orbS8r15] <;> ring1
  · simp only [orbS11r11, orbS11r3, orbS8r15] <;> ring1
  · simp only [orbS11r11, orbS11r3, orbS8r15] <;> ring1
  · simp only [orbS11r11, orbS11r3, orbS8r15] <;> ring1
  · simp only [orbS11r11, orbS11r3, orbS8r15] <;> ring1
  · simp only [orbS11r11, orbS11r3, orbS8r15] <;> ring1
  · simp only [orbS11r11, orbS11r3, orbS8r15] <;> ring1
  · simp only [orbS11r11, orbS11r3, orbS8r15] <;> ring1

set_option maxHeartbeats 4000000 in
/-- Chain step 7 of `orb`. -/
theorem orbStep7 {α : Type} [ Field α] [ CharZero α] (c s h : α) (hs : s ^ 2 = 1 - c ^ 2) (hh : h ^ 2 = 1 / 2) :
    lift1 1 (ryG c s) * orbS8 c s h = orbS7 c s h := by
  rw [ryRule_1]
  ext r k
  obtain ⟨x1, x2, x3, x4⟩ := r
  simp only [orbS8, orbS7, Matrix.of_apply]
  obtain ⟨y1, y2, y3, y4⟩ := k
  cases x1 <;> cases x2 <;> cases x3 <;> cases x4 <;>
    cases y1 <;> cases y2 <;> cases y3 <;> cases y4
  · simp only [orbS8r0, orbS8r4, orbS7r0] <;> ring1
  · simp only [orbS8r0, orbS8r4, orbS7r0] <;> ring1
  · simp only [orbS8r0, orbS8r4, orbS7r0] <;> ring1
  · simp only [orbS8r0, orbS8r4, orbS7r0] <;> ring1
  · simp only [orbS8r0, orbS8r4, orbS7r0] <;> ring1
  · simp only [orbS8r0, orbS8r4, orbS7r0] <;> ring1
  · simp only [orbS8r0, orbS8r4, orbS7r0] <;> ring1
  · simp only [orbS8r0, orbS8r4, orbS7r0] <;> ring1
  · simp only [orbS8r0, orbS8r4, orbS7r0] <;> ring1
  · simp only [orbS8r0, orbS8r4, orbS7r0] <;> ring1
  · simp only [orbS8r0, orbS8r4, orbS7r0] <;> ring1
  · simp only [orbS8r0, orbS8r4, orbS7r0] <;> ring1
  · simp only [orbS8r0, orbS8r4, orbS7r0] <;> linear_combination ((1/2)) * hs
  · simp only [orbS8r0, orbS8r4, orbS7r0] <;> linear_combination ((1/2)) * hs
  · simp only [orbS8r0, orbS8r4, orbS7r0] <;> linear_combination ((1/2)) * hs
  · simp only [orbS8r0, orbS8r4, orbS7r0] <;> linear_combination ((1/2)) * hs
  · simp only [orbS8r1, orbS8r5, orbS7r1] <;> ring1
  · simp only [orbS8r1, orbS8r5, orbS7r1] <;> ring1
  · simp only [orbS8r1, orbS8r5, orbS7r1] <;> ring1
  · simp only [orbS8r1, orbS8r5, orbS7r1] <;> ring1
  · simp only [orbS8r1, orbS8r5, orbS7r1] <;> ring1
  · simp only [orbS8r1, orbS8r5, orbS7r1] <;> ring1
  · simp only [orbS8r1, orbS8r5, orbS7r1] <;> ring1
  · simp only [orbS8r1, orbS8r5, orbS7r1] <;> ring1
  · simp only [orbS8r1, orbS8r5, orbS7r1] <;> linear_combination ((1/2)) * hs
  · simp only [orbS8r1, orbS8r5, orbS7r1] <;> linear_combination (-(1/2)) * hs
  · simp only [orbS8r1, orbS8r5, orbS7r1] <;> linear_combination ((1/2)) * hs
  · simp only [orbS8r1, orbS8r5, orbS7r1] <;> linear_combination (-(1/2)) * hs
  · simp only [orbS8r1, orbS8r5, orbS7r1] <;> ring1
  · simp only [orbS8r1, orbS8r5, orbS7r1] <;> ring1
  · simp only [orbS8r1, orbS8r5, orbS7r1] <;> ring1
  · simp only [orbS8r1, orbS8r5, orbS7r1] <;> ring1
  · simp only [orbS8r2, orbS8r6, orbS7r2] <;> ring1
  · simp only [orbS8r2, orbS8r6, orbS7r2] <;> ring1
  · simp only [orbS8r2, orbS8r6, orbS7r2] <;> ring1
  · simp only [orbS8r2, orbS8r6, orbS7r2] <;> ring1
  · simp only [orbS8r2, orbS8r6, orbS7r2] <;> linear_combination ((1/2)) * hs
  · simp only [orbS8r2, orbS8r6, orbS7r2] <;> linear_combination ((1/2)) * hs
  · simp only [orbS8r2, orbS8r6, orbS7r2] <;> linear_combination (-(1/2)) * hs
  · simp only [orbS8r2, orbS8r6, orbS7r2] <;> linear_combination (-(1/2)) * hs
  · simp only [orbS8r2, orbS8r6, orbS7r2] <;> ring1
  · simp only [orbS8r2, orbS8r6, orbS7r2] <;> ring1
  · simp only [orbS8r2, orbS8r6, orbS7r2] <;> ring1
  · simp only [orbS8r2, orbS8r6, orbS7r2] <;> ring1
  · simp only [orbS8r2, orbS8r6, orbS7r2] <;> ring1
  · simp only [orbS8r2, orbS8r6, orbS7r2] <;> ring1
  · simp only [orbS8r2, orbS8r6, orbS7r2] <;> ring1
  · simp only [orbS8r2, orbS8r6, orbS7r2] <;> ring1
  · simp only [orbS8r3, orbS8r7, orbS7r3] <;> linear_combination ((1/2)) * hs
  · simp only [orbS8r3, orbS8r7, orbS7r3] <;> linear_combination (-(1/2)) * hs
  · simp only [orbS8r3, orbS8r7, orbS7r3] <;> linear_combination (-(1/2)) * hs
  · simp only [orbS8r3, orbS8r7, orbS7r3] <;> linear_combination ((1/2)) * hs
  · simp only [orbS8r3, orbS8r7, orbS7r3] <;> ring1
  · simp only [orbS8r3, orbS8r7, orbS7r3] <;> ring1
  · simp only [orbS8r3, orbS8r7, orbS7r3] <;> ring1
  · simp only [orbS8r3, orbS8r7, orbS7r3] <;> ring1
  · simp only [orbS8r3, orbS8r7, orbS7r3] <;> ring1
  · simp only [orbS8r3, orbS8r7, orbS7r3] <;> ring1
  · simp only [orbS8r3, orbS8r7, orbS7r3] <;> ring1
  · simp only [orbS8r3, orbS8r7, orbS7r3] <;> ring1
  · simp only [orbS8r3, orbS8r7, orbS7r3] <;> ring1
  · simp only [orbS8r3, orbS8r7, orbS7r3] <;> ring1
  · simp only [orbS8r3, orbS8r7, orbS7r3] <;> ring1
  · simp only [orbS8r3, orbS8r7, orbS7r3] <;> ring1
  · simp only [orbS8r0, orbS8r4, orbS7r4] <;> ring1
  · simp only [orbS8r0, orbS8r4, orbS7r4] <;> ring1
  · simp only [orbS8r0, orbS8r4, orbS7r4] <;> ring1
  · simp only [orbS8r0, orbS8r4, orbS7r4] <;> ring1
  · simp only [orbS8r0, orbS8r4, orbS7r4] <;> ring1
  · simp only [orbS8r0, orbS8r4, orbS7r4] <;> ring1
  · simp only [orbS8r0, orbS8r4, orbS7r4] <;> ring1
  · simp only [orbS8r0, orbS8r4, orbS7r4] <;> ring1
  · simp only [orbS8r0, orbS8r4, orbS7r4] <;> linear_combination (-(1/2)) * hs
  · simp only [orbS8r0, orbS8r4, orbS7r4] <;> linear_combination (-(1/2)) * hs
  · simp only [orbS8r0, orbS8r4, orbS7r4] <;> linear_combination (-(1/2)) * hs
  · simp only [orbS8r0, orbS8r4, orbS7r4] <;> linear_combination (-(1/2)) * hs
  · simp only [orbS8r0, orbS8r4, orbS7r4] <;> ring1
  · simp only [orbS8r0, orbS8r4, orbS7r4] <;> ring1
  · simp only [orbS8r0, orbS8r4, orbS7r4] <;> ring1
  · simp only [orbS8r0, orbS8r4, orbS7r4] <;> ring1
  · simp only [orbS8r1, orbS8r5, orbS7r5] <;> ring1
  · simp only [orbS8r1, orbS8r5, orbS7r5] <;> ring1
  · simp only [orbS8r1, orbS8r5, orbS7r5] <;> ring1
  · simp only [orbS8r1, orbS8r5, orbS7r5] <;> ring1
  · simp only [orbS8r1, orbS8r5, orbS7r5] <;> ring1
  · simp only [orbS8r1, orbS8r5, orbS7r5] <;> ring1
  · simp only [orbS8r1, orbS8r5, orbS7r5] <;> ring1
  · simp only [orbS8r1, orbS8r5, orbS7r5] <;> ring1
  · simp only [orbS8r1, orbS8r5, orbS7r5] <;> ring1
  · simp only [orbS8r1, orbS8r5, orbS7r5] <;> ring1
  · simp only [orbS8r1, orbS8r5, orbS7r5] <;> ring1
  · simp only [orbS8r1, orbS8r5, orbS7r5] <;> ring1
  · simp only [orbS8r1, orbS8r5, orbS7r5] <;> linear_combination (-(1/2)) * hs
  · simp only [orbS8r1, orbS8r5, orbS7r5] <;> linear_combination ((1/2)) * hs
  · simp only [orbS8r1, orbS8r5, orbS7r5] <;> linear_combination (-(1/2)) * hs
  · simp only [orbS8r1, orbS8r5, orbS7r5] <;> linear_combination ((1/2)) * hs
  · simp only [orbS8r2, orbS8r6, orbS7r6] <;> linear_combination (-(1/2)) * hs
  · simp only [orbS8r2, orbS8r6, orbS7r6] <;> linear_combination (-(1/2)) * hs
  · simp only [orbS8r2, orbS8r6, orbS7r6] <;> linear_combination ((1/2)) * hs
  · simp only [orbS8r2, orbS8r6, orbS7r6] <;> linear_combination ((1/2)) * hs
  · simp only [orbS8r2, orbS8r6, orbS7r6] <;> ring1
  · simp only [orbS8r2, orbS8r6, orbS7r6] <;> ring1
  · simp only [orbS8r2, orbS8r6, orbS7r6] <;> ring1
  · simp only [orbS8r2, orbS8r6, orbS7r6] <;> ring1
  · simp only [orbS8r2, orbS8r6, orbS7r6] <;> ring1
  · simp only [orbS8r2, orbS8r6, orbS7r6] <;> ring1
  · simp only [orbS8r2, orbS8r6, orbS7r6] <;> ring1
  · simp only [orbS8r2, orbS8r6, orbS7r6] <;> ring1
  · simp only [orbS8r2, orbS8r6, orbS7r6] <;> ring1
  · simp only [orbS8r2, orbS8r6, orbS7r6] <;> ring1
  · simp only [orbS8r2, orbS8r6, orbS7r6] <;> ring1
  · simp only [orbS8r2, orbS8r6, orbS7r6] <;> ring1
  · simp only [orbS8r3, orbS8r7, orbS7r7] <;> ring1
  · simp only [orbS8r3, orbS8r7, orbS7r7] <;> ring1
  · simp only [orbS8r3, orbS8r7, orbS7r7] <;> ring1
  · simp only [orbS8r3, orbS8r7, orbS7r7] <;> ring1
  · simp only [orbS8r3, orbS8r7, orbS7r7] <;> linear_combination (-(1/2)) * hs
  · simp only [orbS8r3, orbS8r7, orbS7r7] <;> linear_combination ((1/2)) * hs
  · simp only [orbS8r3, orbS8r7, orbS7r7] <;> linear_combination ((1/2)) * hs
  · simp only [orbS8r3, orbS8r7, orbS7r7] <;> linear_combination (-(1/2)) * hs
  · simp only [orbS8r3, orbS8r7, orbS7r7] <;> ring1
  · simp only [orbS8r3, orbS8r7, orbS7r7] <;> ring1
  · simp only [orbS8r3, orbS8r7, orbS7r7] <;> ring1
  · simp only [orbS8r3, orbS8r7, orbS7r7] <;> ring1
  · simp only [orbS8r3, orbS8r7, orbS7r7] <;> ring1
  · simp only [orbS8r3, orbS8r7, orbS7r7] <;> ring1
  · simp only [orbS8r3, orbS8r7, orbS7r7] <;> ring1
  · simp only [orbS8r3, orbS8r7, orbS7r7] <;> ring1
  · simp only [orbS8r12, orbS8r8, orbS7r8] <;> ring1
  · simp only [orbS8r12, orbS8r8, orbS7r8] <;> ring1
  · simp only [orbS8r12, orbS8r8, orbS7r8] <;> ring1
  · simp only [orbS8r12, orbS8r8, orbS7r8] <;> ring1
  · simp only [orbS8r12, orbS8r8, orbS7r8] <;> linear_combination (-(1/2)) * hs
  · simp only [orbS8r12, orbS8r8, orbS7r8] <;> linear_combination (-(1/2)) * hs
  · simp only [orbS8r12, orbS8r8, orbS7r8] <;> linear_combination (-(1/2)) * hs
  · simp only [orbS8r12, orbS8r8, orbS7r8] <;> linear_combination (-(1/2)) * hs
  · simp only [orbS8r12, orbS8r8, orbS7r8] <;> ring1
  · simp only [orbS8r12, orbS8r8, orbS7r8] <;> ring1
  · simp only [orbS8r12, orbS8r8, orbS7r8] <;> ring1
  · simp only [orbS8r12, orbS8r8, orbS7r8] <;> ring1
  · simp only [orbS8r12, orbS8r8, orbS7r8] <;> ring1
  · simp only [orbS8r12, orbS8r8, orbS7r8] <;> ring1
  · simp only [orbS8r12, orbS8r8, orbS7r8] <;> ring1
  · simp only [orbS8r12, orbS8r8, orbS7r8] <;> ring1
  · simp only [orbS8r13, orbS8r9, orbS7r9] <;> linear_combination (-(1/2)) * hs
  · simp only [orbS8r13, orbS8r9, orbS7r9] <;> linear_combination ((1/2)) * hs
  · simp only [orbS8r13, orbS8r9, orbS7r9] <;> linear_combination (-(1/2)) * hs
  · simp only [orbS8r13, orbS8r9, orbS7r9] <;> linear_combination ((1/2)) * hs
  · simp only [orbS8r13, orbS8r9, orbS7r9] <;> ring1
  · simp only [orbS8r13, orbS8r9, orbS7r9] <;> ring1
  · simp only [orbS8r13, orbS8r9, orbS7r9] <;> ring1
  · simp only [orbS8r13, orbS8r9, orbS7r9] <;> ring1
  · simp only [orbS8r13, orbS8r9, orbS7r9] <;> ring1
  · simp only [orbS8r13, orbS8r9, orbS7r9] <;> ring1
  · simp only [orbS8r13, orbS8r9, orbS7r9] <;> ring1
  · simp only [orbS8r13, orbS8r9, orbS7r9] <;> ring1
  · simp only [orbS8r13, orbS8r9, orbS7r9] <;> ring1
  · simp only [orbS8r13, orbS8r9, orbS7r9] <;> ring1
  · simp only [orbS8r13, orbS8r9, orbS7r9] <;> ring1
  · simp only [orbS8r13, orbS8r9, orbS7r9] <;> ring1
  · simp only [orbS8r10, orbS8r14, orbS7r10] <;> ring1
  · simp only [orbS8r10, orbS8r14, orbS7r10] <;> ring1
  · simp only [orbS8r10, orbS8r14, orbS7r10] <;> ring1
  · simp only [orbS8r10, orbS8r14, orbS7r10] <;> ring1
  · simp only [orbS8r10, orbS8r14, orbS7r10] <;> ring1
  · simp only [orbS8r10, orbS8r14, orbS7r10] <;> ring1
  · simp only [orbS8r10, orbS8r14, orbS7r10] <;> ring1
  · simp only [orbS8r10, orbS8r14, orbS7r10] <;> ring1
  · simp only [orbS8r10, orbS8r14, orbS7r10] <;> ring1
  · simp only [orbS8r10, orbS8r14, orbS7r10] <;> ring1
  · simp only [orbS8r10, orbS8r14, orbS7r10] <;> ring1
  · simp only [orbS8r10, orbS8r14, orbS7r10] <;> ring1
  · simp only [orbS8r10, orbS8r14, orbS7r10] <;> linear_combination (-(1/2)) * hs
  · simp only [orbS8r10, orbS8r14, orbS7r10] <;> linear_combination (-(1/2)) * hs
  · simp only [orbS8r10, orbS8r14, orbS7r10] <;> linear_combination ((1/2)) * hs
  · simp only [orbS8r10, orbS8r14, orbS7r10] <;> linear_combination ((1/2)) * hs
  · simp only [orbS8r11, orbS8r15, orbS7r11] <;> ring1
  · simp only [orbS8r11, orbS8r15, orbS7r11] <;> ring1
  · simp only [orbS8r11, orbS8r15, orbS7r11] <;> ring1
  · simp only [orbS8r11, orbS8r15, orbS7r11] <;> ring1
  · simp only [orbS8r11, orbS8r15, orbS7r11] <;> ring1
  · simp only [orbS8r11, orbS8r15, orbS7r11] <;> ring1
  · simp only [orbS8r11, orbS8r15, orbS7r11] <;> ring1
  · simp only [orbS8r11, orbS8r15, orbS7r11] <;> ring1
  · simp only [orbS8r11, orbS8r15, orbS7r11] <;> linear_combination (-(1/2)) * hs
  · simp only [orbS8r11, orbS8r15, orbS7r11] <;> linear_combination ((1/2)) * hs
  · simp only [orbS8r11, orbS8r15, orbS7r11] <;> linear_combination ((1/2)) * hs
  · simp only [orbS8r11, orbS8r15, orbS7r11] <;> linear_combination (-(1/2)) * hs
  · simp only [orbS8r11, orbS8r15, orbS7r11] <;> ring1
  · simp only [orbS8r11, orbS8r15, orbS7r11] <;> ring1
  · simp only [orbS8r11, orbS8r15, orbS7r11] <;> ring1
  · simp only [orbS8r11, orbS8r15, orbS7r11] <;> ring1
  · simp only [orbS8r12, orbS8r8, orbS7r12] <;> linear_combination ((1/2)) * hs
  · simp only [orbS8r12, orbS8r8, orbS7r12] <;> linear_combination ((1/2)) * hs
  · simp only [orbS8r12, orbS8r8, orbS7r12] <;> linear_combination ((1/2)) * hs
  · simp only [orbS8r12, orbS8r8, orbS7r12] <;> linear_combination ((1/2)) * hs
  · simp only [orbS8r12, orbS8r8, orbS7r12] <;> ring1
  · simp only [orbS8r12, orbS8r8, orbS7r12] <;> ring1
  · simp only [orbS8r12, orbS8r8, orbS7r12] <;> ring1
  · simp only [orbS8r12, orbS8r8, orbS7r12] <;> ring1
  · simp only [orbS8r12, orbS8r8, orbS7r12] <;> ring1
  · simp only [orbS8r12, orbS8r8, orbS7r12] <;> ring1
  · simp only [orbS8r12, orbS8r8, orbS7r12] <;> ring1
  · simp only [orbS8r12, orbS8r8, orbS7r12] <;> ring1
  · simp only [orbS8r12, orbS8r8, orbS7r12] <;> ring1
  · simp only [orbS8r12, orbS8r8, orbS7r12] <;> ring1
  · simp only [orbS8r12, orbS8r8, orbS7r12] <;> ring1
  · simp only [orbS8r12, orbS8r8, orbS7r12] <;> ring1
  · simp only [orbS8r13, orbS8r9, orbS7r13] <;> ring1
  · simp only [orbS8r13, orbS8r9, orbS7r13] <;> ring1
  · simp only [orbS8r13, orbS8r9, orbS7r13] <;> ring1
  · simp only [orbS8r13, orbS8r9, orbS7r13] <;> ring1
  · simp only [orbS8r13, orbS8r9, orbS7r13] <;> linear_combination ((1/2)) * hs
  · simp only [orbS8r13, orbS8r9, orbS7r13] <;> linear_combination (-(1/2)) * hs
  · simp only [orbS8r13, orbS8r9, orbS7r13] <;> linear_combination ((1/2)) * hs
  · simp only [orbS8r13, orbS8r9, orbS7r13] <;> linear_combination (-(1/2)) * hs
  · simp only [orbS8r13, orbS8r9, orbS7r13] <;> ring1
  · simp only [orbS8r13, orbS8r9, orbS7r13] <;> ring1
  · simp only [orbS8r13, orbS8r9, orbS7r13] <;> ring1
  · simp only [orbS8r13, orbS8r9, orbS7r13] <;> ring1
  · simp only [orbS8r13, orbS8r9, orbS7r13] <;> ring1
  · simp only [orbS8r13, orbS8r9, orbS7r13] <;> ring1
  · simp only [orbS8r13, orbS8r9, orbS7r13] <;> ring1
  · simp only [orbS8r13, orbS8r9, orbS7r13] <;> ring1
  · simp only [orbS8r10, orbS8r14, orbS7r14] <;> ring1
  · simp only [orbS8r10, orbS8r14, orbS7r14] <;> ring1
  · simp only [orbS8r10, orbS8r14, orbS7r14] <;> ring1
  · simp only [orbS8r10, orbS8r14, orbS7r14] <;> ring1
  · simp only [orbS8r10, orbS8r14, orbS7r14] <;> ring1
  · simp only [orbS8r10, orbS8r14, orbS7r14] <;> ring1
  · simp only [orbS8r10, orbS8r14, orbS7r14] <;> ring1
  · simp only [orbS8r10, orbS8r14, orbS7r14] <;> ring1
  · simp only [orbS8r10, orbS8r14, orbS7r14] <;> linear_combination ((1/2)) * hs
  · simp only [orbS8r10, orbS8r14, orbS7r14] <;> linear_combination ((1/2)) * hs
  · simp only [orbS8r10, orbS8r14, orbS7r14] <;> linear_combination (-(1/2)) * hs
  · simp only [orbS8r10, orbS8r14, orbS7r14] <;> linear_combination (-(1/2)) * hs
  · simp only [orbS8r10, orbS8r14, orbS7r14] <;> ring1
  · simp only [orbS8r10, orbS8r14, orbS7r14] <;> ring1
  · simp only [orbS8r10, orbS8r14, orbS7r14] <;> ring1
  · simp only [orbS8r10, orbS8r14, orbS7r14] <;> ring1
  · simp only [orbS8r11, orbS8r15, orbS7r15] <;> ring1
  · simp only [orbS8r11, orbS8r15, orbS7r15] <;> ring1
  · simp only [orbS8r11, orbS8r15, orbS7r15] <;> ring1
  · simp only [orbS8r11, orbS8r15, orbS7r15] <;> ring1
  · simp only [orbS8r11, orbS8r15, orbS7r15] <;> ring1
  · simp only [orbS8r11, orbS8r15, orbS7r15] <;> ring1
  · simp only [orbS8r11, orbS8r15, orbS7r15] <;> ring1
  · simp only [orbS8r11, orbS8r15, orbS7r15] <;> ring1
  · simp only [orbS8r11, orbS8r15, orbS7r15] <;> ring1
  · simp only [orbS8r11, orbS8r15, orbS7r15] <;> ring1
  · simp only [orbS8r11, orbS8r15, orbS7r15] <;> ring1
  · simp only [orbS8r11, orbS8r15, orbS7r15] <;> ring1
  · simp only [orbS8r11, orbS8r15, orbS7r15] <;> linear_combination ((1/2)) * hs
  · simp only [orbS8r11, orbS8r15, orbS7r15] <;> linear_combination (-(1/2)) * hs
  · simp only [orbS8r11, orbS8r15, orbS7r15] <;> linear_combination (-(1/2)) * hs
  · simp only [orbS8r11, orbS8r15, orbS7r15] <;> linear_combination ((1/2)) * hs

set_option maxHeartbeats 4000000 in
/-- Chain step 6 of `orb`. -/
theorem orbStep6 {α : Type} [ Field α] [ CharZero α] (c s h : α) (hs : s ^ 2 = 1 - c ^ 2) (hh : h ^ 2 = 1 / 2) :
    lift1 2 (ryG c s) * orbS7 c s h = orbS6 c s h := by
  rw [ryRule_2]
  ext r k
  obtain ⟨x1, x2, x3, x4⟩ := r
  simp only [orbS7, orbS6, Matrix.of_apply]
  obtain ⟨y1, y2, y3, y4⟩ := k
  cases x1 <;> cases x2 <;> cases x3 <;> cases x4 <;>
    cases y1 <;> cases y2 <;> cases y3 <;> cases y4
  · simp only [orbS7r0, orbS7r2, orbS6r0] <;> linear_combination ((1/2) * c) * hs
  · simp only [orbS7r0, orbS7r2, orbS6r0] <;> linear_combination ((1/2) * c) * hs
  · simp only [orbS7r0, orbS7r2, orbS6r0] <;> linear_combination (-(1/2) * c) * hs
  · simp only [orbS7r0, orbS7r2, orbS6r0] <;> linear_combination (-(1/2) * c) * hs
  · simp only [orbS7r0, orbS7r2, orbS6r0] <;> ring1
  · simp only [orbS7r0, orbS7r2, orbS6r0] <;> ring1
  · simp only [orbS7r0, orbS7r2, orbS6r0] <;> ring1
  · simp only [orbS7r0, orbS7r2, orbS6r0] <;> ring1
  · simp only [orbS7r0, orbS7r2, orbS6r0] <;> ring1
  · simp only [orbS7r0, orbS7r2, orbS6r0] <;> ring1
  · simp only [orbS7r0, orbS7r2, orbS6r0] <;> ring1
  · simp only [orbS7r0, orbS7r2, orbS6r0] <;> ring1
  · simp only [orbS7r0, orbS7r2, orbS6r0] <;> linear_combination ((1/2) * c) * hs
  · simp only [orbS7r0, orbS7r2, orbS6r0] <;> linear_combination ((1/2) * c) * hs
  · simp only [orbS7r0, orbS7r2, orbS6r0] <;> linear_combination (-(1/2) * c) * hs
  · simp only [orbS7r0, orbS7r2, orbS6r0] <;> linear_combination (-(1/2) * c) * hs
  · simp only [orbS7r1, orbS7r3, orbS6r1] <;> ring1
  · simp only [orbS7r1, orbS7r3, orbS6r1] <;> ring1
  · simp only [orbS7r1, orbS7r3, orbS6r1] <;> ring1
  · simp only [orbS7r1, orbS7r3, orbS6r1] <;> ring1
  · simp only [orbS7r1, orbS7r3, orbS6r1] <;> linear_combination ((1/2) * c) * hs
  · simp only [orbS7r1, orbS7r3, orbS6r1] <;> linear_combination (-(1/2) * c) * hs
  · simp only [orbS7r1, orbS7r3, orbS6r1] <;> linear_combination (-(1/2) * c) * hs
  · simp only [orbS7r1, orbS7r3, orbS6r1] <;> linear_combination ((1/2) * c) * hs
  · simp only [orbS7r1, orbS7r3, orbS6r1] <;> linear_combination ((1/2) * c) * hs
  · simp only [orbS7r1, orbS7r3, orbS6r1] <;> linear_combination (-(1/2) * c) * hs
  · simp only [orbS7r1, orbS7r3, orbS6r1] <;> linear_combination (-(1/2) * c) * hs
  · simp only [orbS7r1, orbS7r3, orbS6r1] <;> linear_combination ((1/2) * c) * hs
  · simp only [orbS7r1, orbS7r3, orbS6r1] <;> ring1
  · simp only [orbS7r1, orbS7r3, orbS6r1] <;> ring1
  · simp only [orbS7r1, orbS7r3, orbS6r1] <;> ring1
  · simp only [orbS7r1, orbS7r3, orbS6r1] <;> ring1
  · simp only [orbS7r0, orbS7r2, orbS6r2] <;> ring1
  · simp only [orbS7r0, orbS7r2, orbS6r2] <;> ring1
  · simp only [orbS7r0, orbS7r2, orbS6r2] <;> ring1
  · simp only [orbS7r0, orbS7r2, orbS6r2] <;> ring1
  · simp only [orbS7r0, orbS7r2, orbS6r2] <;> linear_combination (-(1/2) * c) * hs
  · simp only [orbS7r0, orbS7r2, orbS6r2] <;> linear_combination (-(1/2) * c) * hs
  · simp only [orbS7r0, orbS7r2, orbS6r2] <;> linear_combination (-(1/2) * c) * hs
  · simp only [orbS7r0, orbS7r2, orbS6r2] <;> linear_combination (-(1/2) * c) * hs
  · simp only [orbS7r0, orbS7r2, orbS6r2] <;> linear_combination (-(1/2) * c) * hs
  · simp only [orbS7r0, orbS7r2, orbS6r2] <;> linear_combination (-(1/2) * c) * hs
  · simp only [orbS7r0, orbS7r2, orbS6r2] <;> linear_combination (-(1/2) * c) * hs
  · simp only [orbS7r0, orbS7r2, orbS6r2] <;> linear_combination (-(1/2) * c) * hs
  · simp only [orbS7r0, orbS7r2, orbS6r2] <;> ring1
  · simp only [orbS7r0, orbS7r2, orbS6r2] <;> ring1
  · simp only [orbS7r0, orbS7r2, orbS6r2] <;> ring1
  · simp only [orbS7r0, orbS7r2, orbS6r2] <;> ring1
  · simp only [orbS7r1, orbS7r3, orbS6r3] <;> linear_combination (-(1/2) * c) * hs
  · simp only [orbS7r1, orbS7r3, orbS6r3] <;> linear_combination ((1/2) * c) * hs
  · simp only [orbS7r1, orbS7r3, orbS6r3] <;> linear_combination (-(1/2) * c) * hs
  · simp only [orbS7r1, orbS7r3, orbS6r3] <;> linear_combination ((1/2) * c) * hs
  · simp only [orbS7r1, orbS7r3, orbS6r3] <;> ring1
  · simp only [orbS7r1, orbS7r3, orbS6r3] <;> ring1
  · simp only [orbS7r1, orbS7r3, orbS6r3] <;> ring1
  · simp only [orbS7r1, orbS7r3, orbS6r3] <;> ring1
  · simp only [orbS7r1, orbS7r3, orbS6r3] <;> ring1
  · simp only [orbS7r1, orbS7r3, orbS6r3] <;> ring1
  · simp only [orbS7r1, orbS7r3, orbS6r3] <;> ring1
  · simp only [orbS7r1, orbS7r3, orbS6r3] <;> ring1
  · simp only [orbS7r1, orbS7r3, orbS6r3] <;> linear_combination (-(1/2) * c) * hs
  · simp only [orbS7r1, orbS7r3, orbS6r3] <;> linear_combination ((1/2) * c) * hs
  · simp only [orbS7r1, orbS7r3, orbS6r3] <;> linear_combination (-(1/2) * c) * hs
  · simp only [orbS7r1, orbS7r3, orbS6r3] <;> linear_combination ((1/2) * c) * hs
  · simp only [orbS7r4, orbS7r6, orbS6r4] <;> ring1
  · simp only [orbS7r4, orbS7r6, orbS6r4] <;> ring1
  · simp only [orbS7r4, orbS7r6, orbS6r4] <;> ring1
  · simp only [orbS7r4, orbS7r6, orbS6r4] <;> ring1
  · simp only [orbS7r4, orbS7r6, orbS6r4] <;> linear_combination ((1/2) * c) * hs
  · simp only [orbS7r4, orbS7r6, orbS6r4] <;> linear_combination ((1/2) * c) * hs
  · simp only [orbS7r4, orbS7r6, orbS6r4] <;> linear_combination (-(1/2) * c) * hs
  · simp only [orbS7r4, orbS7r6, orbS6r4] <;> linear_combination (-(1/2) * c) * hs
  · simp only [orbS7r4, orbS7r6, orbS6r4] <;> linear_combination (-(1/2) * c) * hs
  · simp only [orbS7r4, orbS7r6, orbS6r4] <;> linear_combination (-(1/2) * c) * hs
  · simp only [orbS7r4, orbS7r6, orbS6r4] <;> linear_combination ((1/2) * c) * hs
  · simp only [orbS7r4, orbS7r6, orbS6r4] <;> linear_combination ((1/2) * c) * hs
  · simp only [orbS7r4, orbS7r6, orbS6r4] <;> ring1
  · simp only [orbS7r4, orbS7r6, orbS6r4] <;> ring1
  · simp only [orbS7r4, orbS7r6, orbS6r4] <;> ring1
  · simp only [orbS7r4, orbS7r6, orbS6r4] <;> ring1
  · simp only [orbS7r5, orbS7r7, orbS6r5] <;> linear_combination ((1/2) * c) * hs
  · simp only [orbS7r5, orbS7r7, orbS6r5] <;> linear_combination (-(1/2) * c) * hs
  · simp only [orbS7r5, orbS7r7, orbS6r5] <;> linear_combination (-(1/2) * c) * hs
  · simp only [orbS7r5, orbS7r7, orbS6r5] <;> linear_combination ((1/2) * c) * hs
  · simp only [orbS7r5, orbS7r7, orbS6r5] <;> ring1
  · simp only [orbS7r5, orbS7r7, orbS6r5] <;> ring1
  · simp only [orbS7r5, orbS7r7, orbS6r5] <;> ring1
  · simp only [orbS7r5, orbS7r7, orbS6r5] <;> ring1
  · simp only [orbS7r5, orbS7r7, orbS6r5] <;> ring1
  · simp only [orbS7r5, orbS7r7, orbS6r5] <;> ring1
  · simp only [orbS7r5, orbS7r7, orbS6r5] <;> ring1
  · simp only [orbS7r5, orbS7r7, orbS6r5] <;> ring1
  · simp only [orbS7r5, orbS7r7, orbS6r5] <;> linear_combination (-(1/2) * c) * hs
  · simp only [orbS7r5, orbS7r7, orbS6r5] <;> linear_combination ((1/2) * c) * hs
  · simp only [orbS7r5, orbS7r7, orbS6r5] <;> linear_combination ((1/2) * c) * hs
  · simp only [orbS7r5, orbS7r7, orbS6r5] <;> linear_combination (-(1/2) * c) * hs
  · simp only [orbS7r4, orbS7r6, orbS6r6] <;> linear_combination ((1/2) * c) * hs
  · simp only [orbS7r4, orbS7r6, orbS6r6] <;> linear_combination ((1/2) * c) * hs
  · simp only [orbS7r4, orbS7r6, orbS6r6] <;> linear_combination ((1/2) * c) * hs
  · simp only [orbS7r4, orbS7r6, orbS6r6] <;> linear_combination ((1/2) * c) * hs
  · simp only [orbS7r4, orbS7r6, orbS6r6] <;> ring1
  · simp only [orbS7r4, orbS7r6, orbS6r6] <;> ring1
  · simp only [orbS7r4, orbS7r6, orbS6r6] <;> ring1
  · simp only [orbS7r4, orbS7r6, orbS6r6] <;> ring1
  · simp only [orbS7r4, orbS7r6, orbS6r6] <;> ring1
  · simp only [orbS7r4, orbS7r6, orbS6r6] <;> ring1
  · simp only [orbS7r4, orbS7r6, orbS6r6] <;> ring1
  · simp only [orbS7r4, orbS7r6, orbS6r6] <;> ring1
  · simp only [orbS7r4, orbS7r6, orbS6r6] <;> linear_combination (-(1/2) * c) * hs
  · simp only [orbS7r4, orbS7r6, orbS6r6] <;> linear_combination (-(1/2) * c) * hs
  · simp only [orbS7r4, orbS7r6, orbS6r6] <;> linear_combination (-(1/2) * c) * hs
  · simp only [orbS7r4, orbS7r6, orbS6r6] <;> linear_combination (-(1/2) * c) * hs
  · simp only [orbS7r5, orbS7r7, orbS6r7] <;> ring1
  · simp only [orbS7r5, orbS7r7, orbS6r7] <;> ring1
  · simp only [orbS7r5, orbS7r7, orbS6r7] <;> ring1
  · simp only [orbS7r5, orbS7r7, orbS6r7] <;> ring1
  · simp only [orbS7r5, orbS7r7, orbS6r7] <;> linear_combination ((1/2) * c) * hs
  · simp only [orbS7r5, orbS7r7, orbS6r7] <;> linear_combination (-(1/2) * c) * hs
  · simp only [orbS7r5, orbS7r7, orbS6r7] <;> linear_combination ((1/2) * c) * hs
  · simp only [orbS7r5, orbS7r7, orbS6r7] <;> linear_combination (-(1/2) * c) * hs
  · simp only [orbS7r5, orbS7r7, orbS6r7] <;> linear_combination (-(1/2) * c) * hs
  · simp only [orbS7r5, orbS7r7, orbS6r7] <;> linear_combination ((1/2) * c) * hs
  · simp only [orbS7r5, orbS7r7, orbS6r7] <;> linear_combination (-(1/2) * c) * hs
  · simp only [orbS7r5, orbS7r7, orbS6r7] <;> linear_combination ((1/2) * c) * hs
  · simp only [orbS7r5, orbS7r7, orbS6r7] <;> ring1
  · simp only [orbS7r5, orbS7r7, orbS6r7] <;> ring1
  · simp only [orbS7r5, orbS7r7, orbS6r7] <;> ring1
  · simp only [orbS7r5, orbS7r7, orbS6r7] <;> ring1
  · simp only [orbS7r10, orbS7r8, orbS6r8] <;> ring1
  · simp only [orbS7r10, orbS7r8, orbS6r8] <;> ring1
  · simp only [orbS7r10, orbS7r8, orbS6r8] <;> ring1
  · simp only [orbS7r10, orbS7r8, orbS6r8] <;> ring1
  · simp only [orbS7r10, orbS7r8, orbS6r8] <;> linear_combination ((1/2) * c) * hs
  · simp only [orbS7r10, orbS7r8, orbS6r8] <;> linear_combination ((1/2) * c) * hs
  · simp only [orbS7r10, orbS7r8, orbS6r8] <;> linear_combination (-(1/2) * c) * hs
  · simp only [orbS7r10, orbS7r8, orbS6r8] <;> linear_combination (-(1/2) * c) * hs
  · simp only [orbS7r10, orbS7r8, orbS6r8] <;> linear_combination (-(1/2) * c) * hs
  · simp only [orbS7r10, orbS7r8, orbS6r8] <;> linear_combination (-(1/2) * c) * hs
  · simp only [orbS7r10, orbS7r8, orbS6r8] <;> linear_combination ((1/2) * c) * hs
  · simp only [orbS7r10, orbS7r8, orbS6r8] <;> linear_combination ((1/2) * c) * hs
  · simp only [orbS7r10, orbS7r8, orbS6r8] <;> ring1
  · simp only [orbS7r10, orbS7r8, orbS6r8] <;> ring1
  · simp only [orbS7r10, orbS7r8, orbS6r8] <;> ring1
  · simp only [orbS7r10, orbS7r8, orbS6r8] <;> ring1
  · simp only [orbS7r11, orbS7r9, orbS6r9] <;> linear_combination ((1/2) * c) * hs
  · simp only [orbS7r11, orbS7r9, orbS6r9] <;> linear_combination (-(1/2) * c) * hs
  · simp only [orbS7r11, orbS7r9, orbS6r9] <;> linear_combination (-(1/2) * c) * hs
  · simp only [orbS7r11, orbS7r9, orbS6r9] <;> linear_combination ((1/2) * c) * hs
  · simp only [orbS7r11, orbS7r9, orbS6r9] <;> ring1
  · simp only [orbS7r11, orbS7r9, orbS6r9] <;> ring1
  · simp only [orbS7r11, orbS7r9, orbS6r9] <;> ring1
  · simp only [orbS7r11, orbS7r9, orbS6r9] <;> ring1
  · simp only [orbS7r11, orbS7r9, orbS6r9] <;> ring1
  · simp only [orbS7r11, orbS7r9, orbS6r9] <;> ring1
  · simp only [orbS7r11, orbS7r9, orbS6r9] <;> ring1
  · simp only [orbS7r11, orbS7r9, orbS6r9] <;> ring1
  · simp only [orbS7r11, orbS7r9, orbS6r9] <;> linear_combination (-(1/2) * c) * hs
  · simp only [orbS7r11, orbS7r9, orbS6r9] <;> linear_combination ((1/2) * c) * hs
  · simp only [orbS7r11, orbS7r9, orbS6r9] <;> linear_combination ((1/2) * c) * hs
  · simp only [orbS7r11, orbS7r9, orbS6r9] <;> linear_combination (-(1/2) * c) * hs
  · simp only [orbS7r10, orbS7r8, orbS6r10] <;> linear_combination ((1/2) * c) * hs
  · simp only [orbS7r10, orbS7r8, orbS6r10] <;> linear_combination ((1/2) * c) * hs
  · simp only [orbS7r10, orbS7r8, orbS6r10] <;> linear_combination ((1/2) * c) * hs
  · simp only [orbS7r10, orbS7r8, orbS6r10] <;> linear_combination ((1/2) * c) * hs
  · simp only [orbS7r10, orbS7r8, orbS6r10] <;> ring1
  · simp only [orbS7r10, orbS7r8, orbS6r10] <;> ring1
  · simp only [orbS7r10, orbS7r8, orbS6r10] <;> ring1
  · simp only [orbS7r10, orbS7r8, orbS6r10] <;> ring1
  · simp only [orbS7r10, orbS7r8, orbS6r10] <;> ring1
  · simp only [orbS7r10, orbS7r8, orbS6r10] <;> ring1
  · simp only [orbS7r10, orbS7r8, orbS6r10] <;> ring1
  · simp only [orbS7r10, orbS7r8, orbS6r10] <;> ring1
  · simp only [orbS7r10, orbS7r8, orbS6r10] <;> linear_combination (-(1/2) * c) * hs
  · simp only [orbS7r10, orbS7r8, orbS6r10] <;> linear_combination (-(1/2) * c) * hs
  · simp only [orbS7r10, orbS7r8, orbS6r10] <;> linear_combination (-(1/2) * c) * hs
  · simp only [orbS7r10, orbS7r8, orbS6r10] <;> linear_combination (-(1/2) * c) * hs
  · simp only [orbS7r11, orbS7r9, orbS6r11] <;> ring1
  · simp only [orbS7r11, orbS7r9, orbS6r11] <;> ring1
  · simp only [orbS7r11, orbS7r9, orbS6r11] <;> ring1
  · simp only [orbS7r11, orbS7r9, orbS6r11] <;> ring1
  · simp only [orbS7r11, orbS7r9, orbS6r11] <;> linear_combination ((1/2) * c) * hs
  · simp only [orbS7r11, orbS7r9, orbS6r11] <;> linear_combination (-(1/2) * c) * hs
  · simp only [orbS7r11, orbS7r9, orbS6r11] <;> linear_combination ((1/2) * c) * hs
  · simp only [orbS7r11, orbS7r9, orbS6r11] <;> linear_combination (-(1/2) * c) * hs
  · simp only [orbS7r11, orbS7r9, orbS6r11] <;> linear_combination (-(1/2) * c) * hs
  · simp only [orbS7r11, orbS7r9, orbS6r11] <;> linear_combination ((1/2) * c) * hs
  · simp only [orbS7r11, orbS7r9, orbS6r11] <;> linear_combination (-(1/2) * c) * hs
  · simp only [orbS7r11, orbS7r9, orbS6r11] <;> linear_combination ((1/2) * c) * hs
  · simp only [orbS7r11, orbS7r9, orbS6r11] <;> ring1
  · simp only [orbS7r11, orbS7r9, orbS6r11] <;> ring1
  · simp only [orbS7r11, orbS7r9, orbS6r11] <;> ring1
  · simp only [orbS7r11, orbS7r9, orbS6r11] <;> ring1
  · simp only [orbS7r12, orbS7r14, orbS6r12] <;> linear_combination (-(1/2) * c) * hs
  · simp only [orbS7r12, orbS7r14, orbS6r12] <;> linear_combination (-(1/2) * c) * hs
  · simp only [orbS7r12, orbS7r14, orbS6r12] <;> linear_combination ((1/2) * c) * hs
  · simp only [orbS7r12, orbS7r14, orbS6r12] <;> linear_combination ((1/2) * c) * hs
  · simp only [orbS7r12, orbS7r14, orbS6r12] <;> ring1
  · simp only [orbS7r12, orbS7r14, orbS6r12] <;> ring1
  · simp only [orbS7r12, orbS7r14, orbS6r12] <;> ring1
  · simp only [orbS7r12, orbS7r14, orbS6r12] <;> ring1
  · simp only [orbS7r12, orbS7r14, orbS6r12] <;> ring1
  · simp only [orbS7r12, orbS7r14, orbS6r12] <;> ring1
  · simp only [orbS7r12, orbS7r14, orbS6r12] <;> ring1
  · simp only [orbS7r12, orbS7r14, orbS6r12] <;> ring1
  · simp only [orbS7r12, orbS7r14, orbS6r12] <;> linear_combination (-(1/2) * c) * hs
  · simp only [orbS7r12, orbS7r14, orbS6r12] <;> linear_combination (-(1/2) * c) * hs
  · simp only [orbS7r12, orbS7r14, orbS6r12] <;> linear_combination ((1/2) * c) * hs
  · simp only [orbS7r12, orbS7r14, orbS6r12] <;> linear_combination ((1/2) * c) * hs
  · simp only [orbS7r13, orbS7r15, orbS6r13] <;> ring1
  · simp only [orbS7r13, orbS7r15, orbS6r13] <;> ring1
  · simp only [orbS7r13, orbS7r15, orbS6r13] <;> ring1
  · simp only [orbS7r13, orbS7r15, orbS6r13] <;> ring1
  · simp only [orbS7r13, orbS7r15, orbS6r13] <;> linear_combination (-(1/2) * c) * hs
  · simp only [orbS7r13, orbS7r15, orbS6r13] <;> linear_combination ((1/2) * c) * hs
  · simp only [orbS7r13, orbS7r15, orbS6r13] <;> linear_combination ((1/2) * c) * hs
  · simp only [orbS7r13, orbS7r15, orbS6r13] <;> linear_combination (-(1/2) * c) * hs
  · simp only [orbS7r13, orbS7r15, orbS6r13] <;> linear_combination (-(1/2) * c) * hs
  · simp only [orbS7r13, orbS7r15, orbS6r13] <;> linear_combination ((1/2) * c) * hs
  · simp only [orbS7r13, orbS7r15, orbS6r13] <;> linear_combination ((1/2) * c) * hs
  · simp only [orbS7r13, orbS7r15, orbS6r13] <;> linear_combination (-(1/2) * c) * hs
  · simp only [orbS7r13, orbS7r15, orbS6r13] <;> ring1
  · simp only [orbS7r13, orbS7r15, orbS6r13] <;> ring1
  · simp only [orbS7r13, orbS7r15, orbS6r13] <;> ring1
  · simp only [orbS7r13, orbS7r15, orbS6r13] <;> ring1
  · simp only [orbS7r12, orbS7r14, orbS6r14] <;> ring1
  · simp only [orbS7r12, orbS7r14, orbS6r14] <;> ring1
  · simp only [orbS7r12, orbS7r14, orbS6r14] <;> ring1
  · simp only [orbS7r12, orbS7r14, orbS6r14] <;> ring1
  · simp only [orbS7r12, orbS7r14, orbS6r14] <;> linear_combination ((1/2) * c) * hs
  · simp only [orbS7r12, orbS7r14, orbS6r14] <;> linear_combination ((1/2) * c) * hs
  · simp only [orbS7r12, orbS7r14, orbS6r14] <;> linear_combination ((1/2) * c) * hs
  · simp only [orbS7r12, orbS7r14, orbS6r14] <;> linear_combination ((1/2) * c) * hs
  · simp only [orbS7r12, orbS7r14, orbS6r14] <;> linear_combination ((1/2) * c) * hs
  · simp only [orbS7r12, orbS7r14, orbS6r14] <;> linear_combination ((1/2) * c) * hs
  · simp only [orbS7r12, orbS7r14, orbS6r14] <;> linear_combination ((1/2) * c) * hs
  · simp only [orbS7r12, orbS7r14, orbS6r14] <;> linear_combination ((1/2) * c) * hs
  · simp only [orbS7r12, orbS7r14, orbS6r14] <;> ring1
  · simp only [orbS7r12, orbS7r14, orbS6r14] <;> ring1
  · simp only [orbS7r12, orbS7r14, orbS6r14] <;> ring1
  · simp only [orbS7r12, orbS7r14, orbS6r14] <;> ring1
  · simp only [orbS7r13, orbS7r15, orbS6r15] <;> linear_combination ((1/2) * c) * hs
  · simp only [orbS7r13, orbS7r15, orbS6r15] <;> linear_combination (-(1/2) * c) * hs
  · simp only [orbS7r13, orbS7r15, orbS6r15] <;> linear_combination ((1/2) * c) * hs
  · simp only [orbS7r13, orbS7r15, orbS6r15] <;> linear_combination (-(1/2) * c) * hs
  · simp only [orbS7r13, orbS7r15, orbS6r15] <;> ring1
  · simp only [orbS7r13, orbS7r15, orbS6r15] <;> ring1
  · simp only [orbS7r13, orbS7r15, orbS6r15] <;> ring1
  · simp only [orbS7r13, orbS7r15, orbS6r15] <;> ring1
  · simp only [orbS7r13, orbS7r15, orbS6r15] <;> ring1
  · simp only [orbS7r13, orbS7r15, orbS6r15] <;> ring1
  · simp only [orbS7r13, orbS7r15, orbS6r15] <;> ring1
  · simp only [orbS7r13, orbS7r15, orbS6r15] <;> ring1
  · simp only [orbS7r13, orbS7r15, orbS6r15] <;> linear_combination ((1/2) * c) * hs
  · simp only [orbS7r13, orbS7r15, orbS6r15] <;> linear_combination (-(1/2) * c) * hs
  · simp only [orbS7r13, orbS7r15, orbS6r15] <;> linear_combination ((1/2) * c) * hs
  · simp only [orbS7r13, orbS7r15, orbS6r15] <;> linear_combination (-(1/2) * c) * hs

set_option maxHeartbeats 4000000 in
/-- Chain step 5 of `orb`. -/
theorem orbStep5 {α : Type} [ Field α] [ CharZero α] (c s h : α) (hs : s ^ 2 = 1 - c ^ 2) (hh : h ^ 2 = 1 / 2) :
    lift1 3 (ryG c s) * orbS6 c s h = orbS5 c s h := by
  rw [ryRule_3]
  ext r k
  obtain ⟨x1, x2, x3, x4⟩ := r
  simp only [orbS6, orbS5, Matrix.of_apply]
  obtain ⟨y1, y2, y3, y4⟩ := k
  cases x1 <;> cases x2 <;> cases x3 <;> cases x4 <;>
    cases y1 <;> cases y2 <;> cases y3 <;> cases y4
  · simp only [orbS6r0, orbS6r1, orbS5r0] <;> linear_combination ((1/2)) * hs
  · simp only [orbS6r0, orbS6r1, orbS5r0] <;> linear_combination (-(1/2)) * hs
  · simp only [orbS6r0, orbS6r1, orbS5r0] <;> linear_combination (c^2 + -(1/2)) * hs
  · simp only [orbS6r0, orbS6r1, orbS5r0] <;> linear_combination (-c^2 + (1/2)) * hs
  · simp only [orbS6r0, orbS6r1, orbS5r0] <;> ring1
  · simp only [orbS6r0, orbS6r1, orbS5r0] <;> ring1
  · simp only [orbS6r0, orbS6r1, orbS5r0] <;> ring1
  · simp only [orbS6r0, orbS6r1, orbS5r0] <;> ring1
  · simp only [orbS6r0, orbS6r1, orbS5r0] <;> ring1
  · simp only [orbS6r0, orbS6r1, orbS5r0] <;> ring1
  · simp only [orbS6r0, orbS6r1, orbS5r0] <;> ring1
  · simp only [orbS6r0, orbS6r1, orbS5r0] <;> ring1
  · simp only [orbS6r0, orbS6r1, orbS5r0] <;> linear_combination (c^2) * hs
  · simp only [orbS6r0, orbS6r1, orbS5r0] <;> linear_combination (-c^2) * hs
  · simp only [orbS6r0, orbS6r1, orbS5r0] <;> ring1
  · simp only [orbS6r0, orbS6r1, orbS5r0] <;> ring1
  · simp only [orbS6r0, orbS6r1, orbS5r1] <;> ring1
  · simp only [orbS6r0, orbS6r1, orbS5r1] <;> ring1
  · simp only [orbS6r0, orbS6r1, orbS5r1] <;> ring1
  · simp only [orbS6r0, orbS6r1, orbS5r1] <;> ring1
  · simp only [orbS6r0, orbS6r1, orbS5r1] <;> linear_combination (-(1/2)) * hs
  · simp only [orbS6r0, orbS6r1, orbS5r1] <;> linear_combination (-(1/2)) * hs
  · simp only [orbS6r0, orbS6r1, orbS5r1] <;> linear_combination (-c^2 + (1/2)) * hs
  · simp only [orbS6r0, orbS6r1, orbS5r1] <;> linear_combination (-c^2 + (1/2)) * hs
  · simp only [orbS6r0, orbS6r1, orbS5r1] <;> linear_combination (-c^2) * hs
  · simp only [orbS6r0, orbS6r1, orbS5r1] <;> linear_combination (-c^2) * hs
  · simp only [orbS6r0, orbS6r1, orbS5r1] <;> ring1
  · simp only [orbS6r0, orbS6r1, orbS5r1] <;> ring1
  · simp only [orbS6r0, orbS6r1, orbS5r1] <;> ring1
  · simp only [orbS6r0, orbS6r1, orbS5r1] <;> ring1
  · simp only [orbS6r0, orbS6r1, orbS5r1] <;> ring1
  · simp only [orbS6r0, orbS6r1, orbS5r1] <;> ring1
  · simp only [orbS6r2, orbS6r3, orbS5r2] <;> ring1
  · simp only [orbS6r2, orbS6r3, orbS5r2] <;> ring1
  · simp only [orbS6r2, orbS6r3, orbS5r2] <;> ring1
  · simp only [orbS6r2, orbS6r3, orbS5r2] <;> ring1
  · simp only [orbS6r2, orbS6r3, orbS5r2] <;> ring1
  · simp only [orbS6r2, orbS6r3, orbS5r2] <;> ring1
  · simp only [orbS6r2, orbS6r3, orbS5r2] <;> linear_combination (-c^2) * hs
  · simp only [orbS6r2, orbS6r3, orbS5r2] <;> linear_combination (c^2) * hs
  · simp only [orbS6r2, orbS6r3, orbS5r2] <;> linear_combination (c^2 + -(1/2)) * hs
  · simp only [orbS6r2, orbS6r3, orbS5r2] <;> linear_combination (-c^2 + (1/2)) * hs
  · simp only [orbS6r2, orbS6r3, orbS5r2] <;> linear_combination (-(1/2)) * hs
  · simp only [orbS6r2, orbS6r3, orbS5r2] <;> linear_combination ((1/2)) * hs
  · simp only [orbS6r2, orbS6r3, orbS5r2] <;> ring1
  · simp only [orbS6r2, orbS6r3, orbS5r2] <;> ring1
  · simp only [orbS6r2, orbS6r3, orbS5r2] <;> ring1
  · simp only [orbS6r2, orbS6r3, orbS5r2] <;> ring1
  · simp only [orbS6r2, orbS6r3, orbS5r3] <;> ring1
  · simp only [orbS6r2, orbS6r3, orbS5r3] <;> ring1
  · simp only [orbS6r2, orbS6r3, orbS5r3] <;> linear_combination (c^2) * hs
  · simp only [orbS6r2, orbS6r3, orbS5r3] <;> linear_combination (c^2) * hs
  · simp only [orbS6r2, orbS6r3, orbS5r3] <;> ring1
  · simp only [orbS6r2, orbS6r3, orbS5r3] <;> ring1
  · simp only [orbS6r2, orbS6r3, orbS5r3] <;> ring1
  · simp only [orbS6r2, orbS6r3, orbS5r3] <;> ring1
  · simp only [orbS6r2, orbS6r3, orbS5r3] <;> ring1
  · simp only [orbS6r2, orbS6r3, orbS5r3] <;> ring1
  · simp only [orbS6r2, orbS6r3, orbS5r3] <;> ring1
  · simp only [orbS6r2, orbS6r3, orbS5r3] <;> ring1
  · simp only [orbS6r2, orbS6r3, orbS5r3] <;> linear_combination (-c^2 + (1/2)) * hs
  · simp only [orbS6r2, orbS6r3, orbS5r3] <;> linear_combination (-c^2 + (1/2)) * hs
  · simp only [orbS6r2, orbS6r3, orbS5r3] <;> linear_combination ((1/2)) * hs
  · simp only [orbS6r2, orbS6r3, orbS5r3] <;> linear_combination ((1/2)) * hs
  · simp only [orbS6r4, orbS6r5, orbS5r4] <;> ring1
  · simp only [orbS6r4, orbS6r5, orbS5r4] <;> ring1
  · simp only [orbS6r4, orbS6r5, orbS5r4] <;> ring1
  · simp only [orbS6r4, orbS6r5, orbS5r4] <;> ring1
  · simp only [orbS6r4, orbS6r5, orbS5r4] <;> linear_combination (-(1/2)) * hs
  · simp only [orbS6r4, orbS6r5, orbS5r4] <;> linear_combination ((1/2)) * hs
  · simp only [orbS6r4, orbS6r5, orbS5r4] <;> linear_combination (-c^2 + (1/2)) * hs
  · simp only [orbS6r4, orbS6r5, orbS5r4] <;> linear_combination (c^2 + -(1/2)) * hs
  · simp only [orbS6r4, orbS6r5, orbS5r4] <;> linear_combination (c^2) * hs
  · simp only [orbS6r4, orbS6r5, orbS5r4] <;> linear_combination (-c^2) * hs
  · simp only [orbS6r4, orbS6r5, orbS5r4] <;> ring1
  · simp only [orbS6r4, orbS6r5, orbS5r4] <;> ring1
  · simp only [orbS6r4, orbS6r5, orbS5r4] <;> ring1
  · simp only [orbS6r4, orbS6r5, orbS5r4] <;> ring1
  · simp only [orbS6r4, orbS6r5, orbS5r4] <;> ring1
  · simp only [orbS6r4, orbS6r5, orbS5r4] <;> ring1
  · simp only [orbS6r4, orbS6r5, orbS5r5] <;> linear_combination ((1/2)) * hs
  · simp only [orbS6r4, orbS6r5, orbS5r5] <;> linear_combination ((1/2)) * hs
  · simp only [orbS6r4, orbS6r5, orbS5r5] <;> linear_combination (c^2 + -(1/2)) * hs
  · simp only [orbS6r4, orbS6r5, orbS5r5] <;> linear_combination (c^2 + -(1/2)) * hs
  · simp only [orbS6r4, orbS6r5, orbS5r5] <;> ring1
  · simp only [orbS6r4, orbS6r5, orbS5r5] <;> ring1
  · simp only [orbS6r4, orbS6r5, orbS5r5] <;> ring1
  · simp only [orbS6r4, orbS6r5, orbS5r5] <;> ring1
  · simp only [orbS6r4, orbS6r5, orbS5r5] <;> ring1
  · simp only [orbS6r4, orbS6r5, orbS5r5] <;> ring1
  · simp only [orbS6r4, orbS6r5, orbS5r5] <;> ring1
  · simp only [orbS6r4, orbS6r5, orbS5r5] <;> ring1
  · simp only [orbS6r4, orbS6r5, orbS5r5] <;> linear_combination (-c^2) * hs
  · simp only [orbS6r4, orbS6r5, orbS5r5] <;> linear_combination (-c^2) * hs
  · simp only [orbS6r4, orbS6r5, orbS5r5] <;> ring1
  · simp only [orbS6r4, orbS6r5, orbS5r5] <;> ring1
  · simp only [orbS6r6, orbS6r7, orbS5r6] <;> ring1
  · simp only [orbS6r6, orbS6r7, orbS5r6] <;> ring1
  · simp only [orbS6r6, orbS6r7, orbS5r6] <;> linear_combination (-c^2) * hs
  · simp only [orbS6r6, orbS6r7, orbS5r6] <;> linear_combination (c^2) * hs
  · simp only [orbS6r6, orbS6r7, orbS5r6] <;> ring1
  · simp only [orbS6r6, orbS6r7, orbS5r6] <;> ring1
  · simp only [orbS6r6, orbS6r7, orbS5r6] <;> ring1
  · simp only [orbS6r6, orbS6r7, orbS5r6] <;> ring1
  · simp only [orbS6r6, orbS6r7, orbS5r6] <;> ring1
  · simp only [orbS6r6, orbS6r7, orbS5r6] <;> ring1
  · simp only [orbS6r6, orbS6r7, orbS5r6] <;> ring1
  · simp only [orbS6r6, orbS6r7, orbS5r6] <;> ring1
  · simp only [orbS6r6, orbS6r7, orbS5r6] <;> linear_combination (-c^2 + (1/2)) * hs
  · simp only [orbS6r6, orbS6r7, orbS5r6] <;> linear_combination (c^2 + -(1/2)) * hs
  · simp only [orbS6r6, orbS6r7, orbS5r6] <;> linear_combination ((1/2)) * hs
  · simp only [orbS6r6, orbS6r7, orbS5r6] <;> linear_combination (-(1/2)) * hs
  · simp only [orbS6r6, orbS6r7, orbS5r7] <;> ring1
  · simp only [orbS6r6, orbS6r7, orbS5r7] <;> ring1
  · simp only [orbS6r6, orbS6r7, orbS5r7] <;> ring1
  · simp only [orbS6r6, orbS6r7, orbS5r7] <;> ring1
  · simp only [orbS6r6, orbS6r7, orbS5r7] <;> ring1
  · simp only [orbS6r6, orbS6r7, orbS5r7] <;> ring1
  · simp only [orbS6r6, orbS6r7, orbS5r7] <;> linear_combination (c^2) * hs
  · simp only [orbS6r6, orbS6r7, orbS5r7] <;> linear_combination (c^2) * hs
  · simp only [orbS6r6, orbS6r7, orbS5r7] <;> linear_combination (c^2 + -(1/2)) * hs
  · simp only [orbS6r6, orbS6r7, orbS5r7] <;> linear_combination (c^2 + -(1/2)) * hs
  · simp only [orbS6r6, orbS6r7, orbS5r7] <;> linear_combination (-(1/2)) * hs
  · simp only [orbS6r6, orbS6r7, orbS5r7] <;> linear_combination (-(1/2)) * hs
  · simp only [orbS6r6, orbS6r7, orbS5r7] <;> ring1
  · simp only [orbS6r6, orbS6r7, orbS5r7] <;> ring1
  · simp only [orbS6r6, orbS6r7, orbS5r7] <;> ring1
  · simp only [orbS6r6, orbS6r7, orbS5r7] <;> ring1
  · simp only [orbS6r8, orbS6r9, orbS5r8] <;> ring1
  · simp only [orbS6r8, orbS6r9, orbS5r8] <;> ring1
  · simp only [orbS6r8, orbS6r9, orbS5r8] <;> ring1
  · simp only [orbS6r8, orbS6r9, orbS5r8] <;> ring1
  · simp only [orbS6r8, orbS6r9, orbS5r8] <;> ring1
  · simp only [orbS6r8, orbS6r9, orbS5r8] <;> ring1
  · simp only [orbS6r8, orbS6r9, orbS5r8] <;> linear_combination (-c^2) * hs
  · simp only [orbS6r8, orbS6r9, orbS5r8] <;> linear_combination (c^2) * hs
  · simp only [orbS6r8, orbS6r9, orbS5r8] <;> linear_combination (c^2 + -(1/2)) * hs
  · simp only [orbS6r8, orbS6r9, orbS5r8] <;> linear_combination (-c^2 + (1/2)) * hs
  · simp only [orbS6r8, orbS6r9, orbS5r8] <;> linear_combination ((1/2)) * hs
  · simp only [orbS6r8, orbS6r9, orbS5r8] <;> linear_combination (-(1/2)) * hs
  · simp only [orbS6r8, orbS6r9, orbS5r8] <;> ring1
  · simp only [orbS6r8, orbS6r9, orbS5r8] <;> ring1
  · simp only [orbS6r8, orbS6r9, orbS5r8] <;> ring1
  · simp only [orbS6r8, orbS6r9, orbS5r8] <;> ring1
  · simp only [orbS6r8, orbS6r9, orbS5r9] <;> ring1
  · simp only [orbS6r8, orbS6r9, orbS5r9] <;> ring1
  · simp only [orbS6r8, orbS6r9, orbS5r9] <;> linear_combination (c^2) * hs
  · simp only [orbS6r8, orbS6r9, orbS5r9] <;> linear_combination (c^2) * hs
  · simp only [orbS6r8, orbS6r9, orbS5r9] <;> ring1
  · simp only [orbS6r8, orbS6r9, orbS5r9] <;> ring1
  · simp only [orbS6r8, orbS6r9, orbS5r9] <;> ring1
  · simp only [orbS6r8, orbS6r9, orbS5r9] <;> ring1
  · simp only [orbS6r8, orbS6r9, orbS5r9] <;> ring1
  · simp only [orbS6r8, orbS6r9, orbS5r9] <;> ring1
  · simp only [orbS6r8, orbS6r9, orbS5r9] <;> ring1
  · simp only [orbS6r8, orbS6r9, orbS5r9] <;> ring1
  · simp only [orbS6r8, orbS6r9, orbS5r9] <;> linear_combination (-c^2 + (1/2)) * hs
  · simp only [orbS6r8, orbS6r9, orbS5r9] <;> linear_combination (-c^2 + (1/2)) * hs
  · simp only [orbS6r8, orbS6r9, orbS5r9] <;> linear_combination (-(1/2)) * hs
  · simp only [orbS6r8, orbS6r9, orbS5r9] <;> linear_combination (-(1/2)) * hs
  · simp only [orbS6r10, orbS6r11, orbS5r10] <;> linear_combination ((1/2)) * hs
  · simp only [orbS6r10, orbS6r11, orbS5r10] <;> linear_combination (-(1/2)) * hs
  · simp only [orbS6r10, orbS6r11, orbS5r10] <;> linear_combination (-c^2 + (1/2)) * hs
  · simp only [orbS6r10, orbS6r11, orbS5r10] <;> linear_combination (c^2 + -(1/2)) * hs
  · simp only [orbS6r10, orbS6r11, orbS5r10] <;> ring1
  · simp only [orbS6r10, orbS6r11, orbS5r10] <;> ring1
  · simp only [orbS6r10, orbS6r11, orbS5r10] <;> ring1
  · simp only [orbS6r10, orbS6r11, orbS5r10] <;> ring1
  · simp only [orbS6r10, orbS6r11, orbS5r10] <;> ring1
  · simp only [orbS6r10, orbS6r11, orbS5r10] <;> ring1
  · simp only [orbS6r10, orbS6r11, orbS5r10] <;> ring1
  · simp only [orbS6r10, orbS6r11, orbS5r10] <;> ring1
  · simp only [orbS6r10, orbS6r11, orbS5r10] <;> linear_combination (-c^2) * hs
  · simp only [orbS6r10, orbS6r11, orbS5r10] <;> linear_combination (c^2) * hs
  · simp only [orbS6r10, orbS6r11, orbS5r10] <;> ring1
  · simp only [orbS6r10, orbS6r11, orbS5r10] <;> ring1
  · simp only [orbS6r10, orbS6r11, orbS5r11] <;> ring1
  · simp only [orbS6r10, orbS6r11, orbS5r11] <;> ring1
  · simp only [orbS6r10, orbS6r11, orbS5r11] <;> ring1
  · simp only [orbS6r10, orbS6r11, orbS5r11] <;> ring1
  · simp only [orbS6r10, orbS6r11, orbS5r11] <;> linear_combination (-(1/2)) * hs
  · simp only [orbS6r10, orbS6r11, orbS5r11] <;> linear_combination (-(1/2)) * hs
  · simp only [orbS6r10, orbS6r11, orbS5r11] <;> linear_combination (c^2 + -(1/2)) * hs
  · simp only [orbS6r10, orbS6r11, orbS5r11] <;> linear_combination (c^2 + -(1/2)) * hs
  · simp only [orbS6r10, orbS6r11, orbS5r11] <;> linear_combination (c^2) * hs
  · simp only [orbS6r10, orbS6r11, orbS5r11] <;> linear_combination (c^2) * hs
  · simp only [orbS6r10, orbS6r11, orbS5r11] <;> ring1
  · simp only [orbS6r10, orbS6r11, orbS5r11] <;> ring1
  · simp only [orbS6r10, orbS6r11, orbS5r11] <;> ring1
  · simp only [orbS6r10, orbS6r11, orbS5r11] <;> ring1
  · simp only [orbS6r10, orbS6r11, orbS5r11] <;> ring1
  · simp only [orbS6r10, orbS6r11, orbS5r11] <;> ring1
  · simp only [orbS6r12, orbS6r13, orbS5r12] <;> ring1
  · simp only [orbS6r12, orbS6r13, orbS5r12] <;> ring1
  · simp only [orbS6r12, orbS6r13, orbS5r12] <;> linear_combination (-c^2) * hs
  · simp only [orbS6r12, orbS6r13, orbS5r12] <;> linear_combination (c^2) * hs
  · simp only [orbS6r12, orbS6r13, orbS5r12] <;> ring1
  · simp only [orbS6r12, orbS6r13, orbS5r12] <;> ring1
  · simp only [orbS6r12, orbS6r13, orbS5r12] <;> ring1
  · simp only [orbS6r12, orbS6r13, orbS5r12] <;> ring1
  · simp only [orbS6r12, orbS6r13, orbS5r12] <;> ring1
  · simp only [orbS6r12, orbS6r13, orbS5r12] <;> ring1
  · simp only [orbS6r12, orbS6r13, orbS5r12] <;> ring1
  · simp only [orbS6r12, orbS6r13, orbS5r12] <;> ring1
  · simp only [orbS6r12, orbS6r13, orbS5r12] <;> linear_combination (-c^2 + (1/2)) * hs
  · simp only [orbS6r12, orbS6r13, orbS5r12] <;> linear_combination (c^2 + -(1/2)) * hs
  · simp only [orbS6r12, orbS6r13, orbS5r12] <;> linear_combination (-(1/2)) * hs
  · simp only [orbS6r12, orbS6r13, orbS5r12] <;> linear_combination ((1/2)) * hs
  · simp only [orbS6r12, orbS6r13, orbS5r13] <;> ring1
  · simp only [orbS6r12, orbS6r13, orbS5r13] <;> ring1
  · simp only [orbS6r12, orbS6r13, orbS5r13] <;> ring1
  · simp only [orbS6r12, orbS6r13, orbS5r13] <;> ring1
  · simp only [orbS6r12, orbS6r13, orbS5r13] <;> ring1
  · simp only [orbS6r12, orbS6r13, orbS5r13] <;> ring1
  · simp only [orbS6r12, orbS6r13, orbS5r13] <;> linear_combination (c^2) * hs
  · simp only [orbS6r12, orbS6r13, orbS5r13] <;> linear_combination (c^2) * hs
  · simp only [orbS6r12, orbS6r13, orbS5r13] <;> linear_combination (c^2 + -(1/2)) * hs
  · simp only [orbS6r12, orbS6r13, orbS5r13] <;> linear_combination (c^2 + -(1/2)) * hs
  · simp only [orbS6r12, orbS6r13, orbS5r13] <;> linear_combination ((1/2)) * hs
  · simp only [orbS6r12, orbS6r13, orbS5r13] <;> linear_combination ((1/2)) * hs
  · simp only [orbS6r12, orbS6r13, orbS5r13] <;> ring1
  · simp only [orbS6r12, orbS6r13, orbS5r13] <;> ring1
  · simp only [orbS6r12, orbS6r13, orbS5r13] <;> ring1
  · simp only [orbS6r12, orbS6r13, orbS5r13] <;> ring1
  · simp only [orbS6r14, orbS6r15, orbS5r14] <;> ring1
  · simp only [orbS6r14, orbS6r15, orbS5r14] <;> ring1
  · simp only [orbS6r14, orbS6r15, orbS5r14] <;> ring1
  · simp only [orbS6r14, orbS6r15, orbS5r14] <;> ring1
  · simp only [orbS6r14, orbS6r15, orbS5r14] <;> linear_combination (-(1/2)) * hs
  · simp only [orbS6r14, orbS6r15, orbS5r14] <;> linear_combination ((1/2)) * hs
  · simp only [orbS6r14, orbS6r15, orbS5r14] <;> linear_combination (c^2 + -(1/2)) * hs
  · simp only [orbS6r14, orbS6r15, orbS5r14] <;> linear_combination (-c^2 + (1/2)) * hs
  · simp only [orbS6r14, orbS6r15, orbS5r14] <;> linear_combination (-c^2) * hs
  · simp only [orbS6r14, orbS6r15, orbS5r14] <;> linear_combination (c^2) * hs
  · simp only [orbS6r14, orbS6r15, orbS5r14] <;> ring1
  · simp only [orbS6r14, orbS6r15, orbS5r14] <;> ring1
  · simp only [orbS6r14, orbS6r15, orbS5r14] <;> ring1
  · simp only [orbS6r14, orbS6r15, orbS5r14] <;> ring1
  · simp only [orbS6r14, orbS6r15, orbS5r14] <;> ring1
  · simp only [orbS6r14, orbS6r15, orbS5r14] <;> ring1
  · simp only [orbS6r14, orbS6r15, orbS5r15] <;> linear_combination ((1/2)) * hs
  · simp only [orbS6r14, orbS6r15, orbS5r15] <;> linear_combination ((1/2)) * hs
  · simp only [orbS6r14, orbS6r15, orbS5r15] <;> linear_combination (-c^2 + (1/2)) * hs
  · simp only [orbS6r14, orbS6r15, orbS5r15] <;> linear_combination (-c^2 + (1/2)) * hs
  · simp only [orbS6r14, orbS6r15, orbS5r15] <;> ring1
  · simp only [orbS6r14, orbS6r15, orbS5r15] <;> ring1
  · simp only [orbS6r14, orbS6r15, orbS5r15] <;> ring1
  · simp only [orbS6r14, orbS6r15, orbS5r15] <;> ring1
  · simp only [orbS6r14, orbS6r15, orbS5r15] <;> ring1
  · simp only [orbS6r14, orbS6r15, orbS5r15] <;> ring1
  · simp only [orbS6r14, orbS6r15, orbS5r15] <;> ring1
  · simp only [orbS6r14, orbS6r15, orbS5r15] <;> ring1
  · simp only [orbS6r14, orbS6r15, orbS5r15] <;> linear_combination (c^2) * hs
  · simp only [orbS6r14, orbS6r15, orbS5r15] <;> linear_combination (c^2) * hs
  · simp only [orbS6r14, orbS6r15, orbS5r15] <;> ring1
  · simp only [orbS6r14, orbS6r15, orbS5r15] <;> ring1

set_option maxHeartbeats 4000000 in
/-- Chain step 4 of `orb`. -/
theorem orbStep4 {α : Type} [ Field α] [ CharZero α] (c s h : α) (hs : s ^ 2 = 1 - c ^ 2) (hh : h ^ 2 = 1 / 2) :
    lift2 2 0 cnotG * orbS5 c s h = orbS4 c s h := by
  rw [cnotRule_2_0]
  ext r k
  obtain ⟨x1, x2, x3, x4⟩ := r
  simp only [orbS5, orbS4, Matrix.of_apply]
  cases x1 <;> cases x2 <;> cases x3 <;> cases x4 <;> rfl

set_option maxHeartbeats 4000000 in
/-- Chain step 3 of `orb`. -/
theorem orbStep3 {α : Type} [ Field α] [ CharZero α] (c s h : α) (hs : s ^ 2 = 1 - c ^ 2) (hh : h ^ 2 = 1 / 2) :
    lift2 3 1 cnotG * orbS4 c s h = orbS3 c s h := by
  rw [cnotRule_3_1]
  ext r k
  obtain ⟨x1, x2, x3, x4⟩ := r
  simp only [orbS4, orbS3, Matrix.of_apply]
  cases x1 <;> cases x2 <;> cases x3 <;> cases x4 <;> rfl

set_option maxHeartbeats 4000000 in
/-- Chain step 2 of `orb`. -/
theorem orbStep2 {α : Type} [ Field α] [ CharZero α] (c s h : α) (hs : s ^ 2 = 1 - c ^ 2) (hh : h ^ 2 = 1 / 2) :
    lift1 2 (hG h) * orbS3 c s h = orbS2 c s h := by
  rw [hRule_2]
  ext r k
  obtain ⟨x1, x2, x3, x4⟩ := r
  simp only [orbS3, orbS2, Matrix.of_apply]
  obtain ⟨y1, y2, y3, y4⟩ := k
  cases x1 <;> cases x2 <;> cases x3 <;> cases x4 <;>
    cases y1 <;> cases y2 <;> cases y3 <;> cases y4
  · simp only [orbS5r0, orbS5r10, orbS2r0] <;> ring1
  · simp only [orbS5r0, orbS5r10, orbS2r0] <;> ring1
  · simp only [orbS5r0, orbS5r10, orbS2r0] <;> ring1
  · simp only [orbS5r0, orbS5r10, orbS2r0] <;> ring1
  · simp only [orbS5r0, orbS5r10, orbS2r0] <;> ring1
  · simp only [orbS5r0, orbS5r10, orbS2r0] <;> ring1
  · simp only [orbS5r0, orbS5r10, orbS2r0] <;> ring1
  · simp only [orbS5r0, orbS5r10, orbS2r0] <;> ring1
  · simp only [orbS5r0, orbS5r10, orbS2r0] <;> ring1
  · simp only [orbS5r0, orbS5r10, orbS2r0] <;> ring1
  · simp only [orbS5r0, orbS5r10, orbS2r0] <;> ring1
  · simp only [orbS5r0, orbS5r10, orbS2r0] <;> ring1
  · simp only [orbS5r0, orbS5r10, orbS2r0] <;> ring1
  · simp only [orbS5r0, orbS5r10, orbS2r0] <;> ring1
  · simp only [orbS5r0, orbS5r10, orbS2r0] <;> ring1
  · simp only [orbS5r0, orbS5r10, orbS2r0] <;> ring1
  · simp only [orbS5r15, orbS5r5, orbS2r1] <;> ring1
  · simp only [orbS5r15, orbS5r5, orbS2r1] <;> ring1
  · simp only [orbS5r15, orbS5r5, orbS2r1] <;> ring1
  · simp only [orbS5r15, orbS5r5, orbS2r1] <;> ring1
  · simp only [orbS5r15, orbS5r5, orbS2r1] <;> ring1
  · simp only [orbS5r15, orbS5r5, orbS2r1] <;> ring1
  · simp only [orbS5r15, orbS5r5, orbS2r1] <;> ring1
  · simp only [orbS5r15, orbS5r5, orbS2r1] <;> ring1
  · simp only [orbS5r15, orbS5r5, orbS2r1] <;> ring1
  · simp only [orbS5r15, orbS5r5, orbS2r1] <;> ring1
  · simp only [orbS5r15, orbS5r5, orbS2r1] <;> ring1
  · simp only [orbS5r15, orbS5r5, orbS2r1] <;> ring1
  · simp only [orbS5r15, orbS5r5, orbS2r1] <;> ring1
  · simp only [orbS5r15, orbS5r5, orbS2r1] <;> ring1
  · simp only [orbS5r15, orbS5r5, orbS2r1] <;> ring1
  · simp only [orbS5r15, orbS5r5, orbS2r1] <;> ring1
  · simp only [orbS5r0, orbS5r10, orbS2r2] <;> ring1
  · simp only [orbS5r0, orbS5r10, orbS2r2] <;> ring1
  · simp only [orbS5r0, orbS5r10, orbS2r2] <;> ring1
  · simp only [orbS5r0, orbS5r10, orbS2r2] <;> ring1
  · simp only [orbS5r0, orbS5r10, orbS2r2] <;> ring1
  · simp only [orbS5r0, orbS5r10, orbS2r2] <;> ring1
  · simp only [orbS5r0, orbS5r10, orbS2r2] <;> ring1
  · simp only [orbS5r0, orbS5r10, orbS2r2] <;> ring1
  · simp only [orbS5r0, orbS5r10, orbS2r2] <;> ring1
  · simp only [orbS5r0, orbS5r10, orbS2r2] <;> ring1
  · simp only [orbS5r0, orbS5r10, orbS2r2] <;> ring1
  · simp only [orbS5r0, orbS5r10, orbS2r2] <;> ring1
  · simp only [orbS5r0, orbS5r10, orbS2r2] <;> ring1
  · simp only [orbS5r0, orbS5r10, orbS2r2] <;> ring1
  · simp only [orbS5r0, orbS5r10, orbS2r2] <;> ring1
  · simp only [orbS5r0, orbS5r10, orbS2r2] <;> ring1
  · simp only [orbS5r15, orbS5r5, orbS2r3] <;> ring1
  · simp only [orbS5r15, orbS5r5, orbS2r3] <;> ring1
  · simp only [orbS5r15, orbS5r5, orbS2r3] <;> ring1
  · simp only [orbS5r15, orbS5r5, orbS2r3] <;> ring1
  · simp only [orbS5r15, orbS5r5, orbS2r3] <;> ring1
  · simp only [orbS5r15, orbS5r5, orbS2r3] <;> ring1
  · simp only [orbS5r15, orbS5r5, orbS2r3] <;> ring1
  · simp only [orbS5r15, orbS5r5, orbS2r3] <;> ring1
  · simp only [orbS5r15, orbS5r5, orbS2r3] <;> ring1
  · simp only [orbS5r15, orbS5r5, orbS2r3] <;> ring1
  · simp only [orbS5r15, orbS5r5, orbS2r3] <;> ring1
  · simp only [orbS5r15, orbS5r5, orbS2r3] <;> ring1
  · simp only [orbS5r15, orbS5r5, orbS2r3] <;> ring1
  · simp only [orbS5r15, orbS5r5, orbS2r3] <;> ring1
  · simp only [orbS5r15, orbS5r5, orbS2r3] <;> ring1
  · simp only [orbS5r15, orbS5r5, orbS2r3] <;> ring1
  · simp only [orbS5r14, orbS5r4, orbS2r4] <;> ring1
  · simp only [orbS5r14, orbS5r4, orbS2r4] <;> ring1
  · simp only [orbS5r14, orbS5r4, orbS2r4] <;> ring1
  · simp only [orbS5r14, orbS5r4, orbS2r4] <;> ring1
  · simp only [orbS5r14, orbS5r4, orbS2r4] <;> ring1
  · simp only [orbS5r14, orbS5r4, orbS2r4] <;> ring1
  · simp only [orbS5r14, orbS5r4, orbS2r4] <;> ring1
  · simp only [orbS5r14, orbS5r4, orbS2r4] <;> ring1
  · simp only [orbS5r14, orbS5r4, orbS2r4] <;> ring1
  · simp only [orbS5r14, orbS5r4, orbS2r4] <;> ring1
  · simp only [orbS5r14, orbS5r4, orbS2r4] <;> ring1
  · simp only [orbS5r14, orbS5r4, orbS2r4] <;> ring1
  · simp only [orbS5r14, orbS5r4, orbS2r4] <;> ring1
  · simp only [orbS5r14, orbS5r4, orbS2r4] <;> ring1
  · simp only [orbS5r14, orbS5r4, orbS2r4] <;> ring1
  · simp only [orbS5r14, orbS5r4, orbS2r4] <;> ring1
  · simp only [orbS5r1, orbS5r11, orbS2r5] <;> ring1
  · simp only [orbS5r1, orbS5r11, orbS2r5] <;> ring1
  · simp only [orbS5r1, orbS5r11, orbS2r5] <;> ring1
  · simp only [orbS5r1, orbS5r11, orbS2r5] <;> ring1
  · simp only [orbS5r1, orbS5r11, orbS2r5] <;> ring1
  · simp only [orbS5r1, orbS5r11, orbS2r5] <;> ring1
  · simp only [orbS5r1, orbS5r11, orbS2r5] <;> ring1
  · simp only [orbS5r1, orbS5r11, orbS2r5] <;> ring1
  · simp only [orbS5r1, orbS5r11, orbS2r5] <;> ring1
  · simp only [orbS5r1, orbS5r11, orbS2r5] <;> ring1
  · simp only [orbS5r1, orbS5r11, orbS2r5] <;> ring1
  · simp only [orbS5r1, orbS5r11, orbS2r5] <;> ring1
  · simp only [orbS5r1, orbS5r11, orbS2r5] <;> ring1
  · simp only [orbS5r1, orbS5r11, orbS2r5] <;> ring1
  · simp only [orbS5r1, orbS5r11, orbS2r5] <;> ring1
  · simp only [orbS5r1, orbS5r11, orbS2r5] <;> ring1
  · simp only [orbS5r14, orbS5r4, orbS2r6] <;> ring1
  · simp only [orbS5r14, orbS5r4, orbS2r6] <;> ring1
  · simp only [orbS5r14, orbS5r4, orbS2r6] <;> ring1
  · simp only [orbS5r14, orbS5r4, orbS2r6] <;> ring1
  · simp only [orbS5r14, orbS5r4, orbS2r6] <;> ring1
  · simp only [orbS5r14, orbS5r4, orbS2r6] <;> ring1
  · simp only [orbS5r14, orbS5r4, orbS2r6] <;> ring1
  · simp only [orbS5r14, orbS5r4, orbS2r6] <;> ring1
  · simp only [orbS5r14, orbS5r4, orbS2r6] <;> ring1
  · simp only [orbS5r14, orbS5r4, orbS2r6] <;> ring1
  · simp only [orbS5r14, orbS5r4, orbS2r6] <;> ring1
  · simp only [orbS5r14, orbS5r4, orbS2r6] <;> ring1
  · simp only [orbS5r14, orbS5r4, orbS2r6] <;> ring1
  · simp only [orbS5r14, orbS5r4, orbS2r6] <;> ring1
  · simp only [orbS5r14, orbS5r4, orbS2r6] <;> ring1
  · simp only [orbS5r14, orbS5r4, orbS2r6] <;> ring1
  · simp only [orbS5r1, orbS5r11, orbS2r7] <;> ring1
  · simp only [orbS5r1, orbS5r11, orbS2r7] <;> ring1
  · simp only [orbS5r1, orbS5r11, orbS2r7] <;> ring1
  · simp only [orbS5r1, orbS5r11, orbS2r7] <;> ring1
  · simp only [orbS5r1, orbS5r11, orbS2r7] <;> ring1
  · simp only [orbS5r1, orbS5r11, orbS2r7] <;> ring1
  · simp only [orbS5r1, orbS5r11, orbS2r7] <;> ring1
  · simp only [orbS5r1, orbS5r11, orbS2r7] <;> ring1
  · simp only [orbS5r1, orbS5r11, orbS2r7] <;> ring1
  · simp only [orbS5r1, orbS5r11, orbS2r7] <;> ring1
  · simp only [orbS5r1, orbS5r11, orbS2r7] <;> ring1
  · simp only [orbS5r1, orbS5r11, orbS2r7] <;> ring1
  · simp only [orbS5r1, orbS5r11, orbS2r7] <;> ring1
  · simp only [orbS5r1, orbS5r11, orbS2r7] <;> ring1
  · simp only [orbS5r1, orbS5r11, orbS2r7] <;> ring1
  · simp only [orbS5r1, orbS5r11, orbS2r7] <;> ring1
  · simp only [orbS5r2, orbS5r8, orbS2r8] <;> ring1
  · simp only [orbS5r2, orbS5r8, orbS2r8] <;> ring1
  · simp only [orbS5r2, orbS5r8, orbS2r8] <;> ring1
  · simp only [orbS5r2, orbS5r8, orbS2r8] <;> ring1
  · simp only [orbS5r2, orbS5r8, orbS2r8] <;> ring1
  · simp only [orbS5r2, orbS5r8, orbS2r8] <;> ring1
  · simp only [orbS5r2, orbS5r8, orbS2r8] <;> ring1
  · simp only [orbS5r2, orbS5r8, orbS2r8] <;> ring1
  · simp only [orbS5r2, orbS5r8, orbS2r8] <;> ring1
  · simp only [orbS5r2, orbS5r8, orbS2r8] <;> ring1
  · simp only [orbS5r2, orbS5r8, orbS2r8] <;> ring1
  · simp only [orbS5r2, orbS5r8, orbS2r8] <;> ring1
  · simp only [orbS5r2, orbS5r8, orbS2r8] <;> ring1
  · simp only [orbS5r2, orbS5r8, orbS2r8] <;> ring1
  · simp only [orbS5r2, orbS5r8, orbS2r8] <;> ring1
  · simp only [orbS5r2, orbS5r8, orbS2r8] <;> ring1
  · simp only [orbS5r13, orbS5r7, orbS2r9] <;> ring1
  · simp only [orbS5r13, orbS5r7, orbS2r9] <;> ring1
  · simp only [orbS5r13, orbS5r7, orbS2r9] <;> ring1
  · simp only [orbS5r13, orbS5r7, orbS2r9] <;> ring1
  · simp only [orbS5r13, orbS5r7, orbS2r9] <;> ring1
  · simp only [orbS5r13, orbS5r7, orbS2r9] <;> ring1
  · simp only [orbS5r13, orbS5r7, orbS2r9] <;> ring1
  · simp only [orbS5r13, orbS5r7, orbS2r9] <;> ring1
  · simp only [orbS5r13, orbS5r7, orbS2r9] <;> ring1
  · simp only [orbS5r13, orbS5r7, orbS2r9] <;> ring1
  · simp only [orbS5r13, orbS5r7, orbS2r9] <;> ring1
  · simp only [orbS5r13, orbS5r7, orbS2r9] <;> ring1
  · simp only [orbS5r13, orbS5r7, orbS2r9] <;> ring1
  · simp only [orbS5r13, orbS5r7, orbS2r9] <;> ring1
  · simp only [orbS5r13, orbS5r7, orbS2r9] <;> ring1
  · simp only [orbS5r13, orbS5r7, orbS2r9] <;> ring1
  · simp only [orbS5r2, orbS5r8, orbS2r10] <;> ring1
  · simp only [orbS5r2, orbS5r8, orbS2r10] <;> ring1
  · simp only [orbS5r2, orbS5r8, orbS2r10] <;> ring1
  · simp only [orbS5r2, orbS5r8, orbS2r10] <;> ring1
  · simp only [orbS5r2, orbS5r8, orbS2r10] <;> ring1
  · simp only [orbS5r2, orbS5r8, orbS2r10] <;> ring1
  · simp only [orbS5r2, orbS5r8, orbS2r10] <;> ring1
  · simp only [orbS5r2, orbS5r8, orbS2r10] <;> ring1
  · simp only [orbS5r2, orbS5r8, orbS2r10] <;> ring1
  · simp only [orbS5r2, orbS5r8, orbS2r10] <;> ring1
  · simp only [orbS5r2, orbS5r8, orbS2r10] <;> ring1
  · simp only [orbS5r2, orbS5r8, orbS2r10] <;> ring1
  · simp only [orbS5r2, orbS5r8, orbS2r10] <;> ring1
  · simp only [orbS5r2, orbS5r8, orbS2r10] <;> ring1
  · simp only [orbS5r2, orbS5r8, orbS2r10] <;> ring1
  · simp only [orbS5r2, orbS5r8, orbS2r10] <;> ring1
  · simp only [orbS5r13, orbS5r7, orbS2r11] <;> ring1
  · simp only [orbS5r13, orbS5r7, orbS2r11] <;> ring1
  · simp only [orbS5r13, orbS5r7, orbS2r11] <;> ring1
  · simp only [orbS5r13, orbS5r7, orbS2r11] <;> ring1
  · simp only [orbS5r13, orbS5r7, orbS2r11] <;> ring1
  · simp only [orbS5r13, orbS5r7, orbS2r11] <;> ring1
  · simp only [orbS5r13, orbS5r7, orbS2r11] <;> ring1
  · simp only [orbS5r13, orbS5r7, orbS2r11] <;> ring1
  · simp only [orbS5r13, orbS5r7, orbS2r11] <;> ring1
  · simp only [orbS5r13, orbS5r7, orbS2r11] <;> ring1
  · simp only [orbS5r13, orbS5r7, orbS2r11] <;> ring1
  · simp only [orbS5r13, orbS5r7, orbS2r11] <;> ring1
  · simp only [orbS5r13, orbS5r7, orbS2r11] <;> ring1
  · simp only [orbS5r13, orbS5r7, orbS2r11] <;> ring1
  · simp only [orbS5r13, orbS5r7, orbS2r11] <;> ring1
  · simp only [orbS5r13, orbS5r7, orbS2r11] <;> ring1
  · simp only [orbS5r12, orbS5r6, orbS2r12] <;> ring1
  · simp only [orbS5r12, orbS5r6, orbS2r12] <;> ring1
  · simp only [orbS5r12, orbS5r6, orbS2r12] <;> ring1
  · simp only [orbS5r12, orbS5r6, orbS2r12] <;> ring1
  · simp only [orbS5r12, orbS5r6, orbS2r12] <;> ring1
  · simp only [orbS5r12, orbS5r6, orbS2r12] <;> ring1
  · simp only [orbS5r12, orbS5r6, orbS2r12] <;> ring1
  · simp only [orbS5r12, orbS5r6, orbS2r12] <;> ring1
  · simp only [orbS5r12, orbS5r6, orbS2r12] <;> ring1
  · simp only [orbS5r12, orbS5r6, orbS2r12] <;> ring1
  · simp only [orbS5r12, orbS5r6, orbS2r12] <;> ring1
  · simp only [orbS5r12, orbS5r6, orbS2r12] <;> ring1
  · simp only [orbS5r12, orbS5r6, orbS2r12] <;> ring1
  · simp only [orbS5r12, orbS5r6, orbS2r12] <;> ring1
  · simp only [orbS5r12, orbS5r6, orbS2r12] <;> ring1
  · simp only [orbS5r12, orbS5r6, orbS2r12] <;> ring1
  · simp only [orbS5r3, orbS5r9, orbS2r13] <;> ring1
  · simp only [orbS5r3, orbS5r9, orbS2r13] <;> ring1
  · simp only [orbS5r3, orbS5r9, orbS2r13] <;> ring1
  · simp only [orbS5r3, orbS5r9, orbS2r13] <;> ring1
  · simp only [orbS5r3, orbS5r9, orbS2r13] <;> ring1
  · simp only [orbS5r3, orbS5r9, orbS2r13] <;> ring1
  · simp only [orbS5r3, orbS5r9, orbS2r13] <;> ring1
  · simp only [orbS5r3, orbS5r9, orbS2r13] <;> ring1
  · simp only [orbS5r3, orbS5r9, orbS2r13] <;> ring1
  · simp only [orbS5r3, orbS5r9, orbS2r13] <;> ring1
  · simp only [orbS5r3, orbS5r9, orbS2r13] <;> ring1
  · simp only [orbS5r3, orbS5r9, orbS2r13] <;> ring1
  · simp only [orbS5r3, orbS5r9, orbS2r13] <;> ring1
  · simp only [orbS5r3, orbS5r9, orbS2r13] <;> ring1
  · simp only [orbS5r3, orbS5r9, orbS2r13] <;> ring1
  · simp only [orbS5r3, orbS5r9, orbS2r13] <;> ring1
  · simp only [orbS5r12, orbS5r6, orbS2r14] <;> ring1
  · simp only [orbS5r12, orbS5r6, orbS2r14] <;> ring1
  · simp only [orbS5r12, orbS5r6, orbS2r14] <;> ring1
  · simp only [orbS5r12, orbS5r6, orbS2r14] <;> ring1
  · simp only [orbS5r12, orbS5r6, orbS2r14] <;> ring1
  · simp only [orbS5r12, orbS5r6, orbS2r14] <;> ring1
  · simp only [orbS5r12, orbS5r6, orbS2r14] <;> ring1
  · simp only [orbS5r12, orbS5r6, orbS2r14] <;> ring1
  · simp only [orbS5r12, orbS5r6, orbS2r14] <;> ring1
  · simp only [orbS5r12, orbS5r6, orbS2r14] <;> ring1
  · simp only [orbS5r12, orbS5r6, orbS2r14] <;> ring1
  · simp only [orbS5r12, orbS5r6, orbS2r14] <;> ring1
  · simp only [orbS5r12, orbS5r6, orbS2r14] <;> ring1
  · simp only [orbS5r12, orbS5r6, orbS2r14] <;> ring1
  · simp only [orbS5r12, orbS5r6, orbS2r14] <;> ring1
  · simp only [orbS5r12, orbS5r6, orbS2r14] <;> ring1
  · simp only [orbS5r3, orbS5r9, orbS2r15] <;> ring1
  · simp only [orbS5r3, orbS5r9, orbS2r15] <;> ring1
  · simp only [orbS5r3, orbS5r9, orbS2r15] <;> ring1
  · simp only [orbS5r3, orbS5r9, orbS2r15] <;> ring1
  · simp only [orbS5r3, orbS5r9, orbS2r15] <;> ring1
  · simp only [orbS5r3, orbS5r9, orbS2r15] <;> ring1
  · simp only [orbS5r3, orbS5r9, orbS2r15] <;> ring1
  · simp only [orbS5r3, orbS5r9, orbS2r15] <;> ring1
  · simp only [orbS5r3, orbS5r9, orbS2r15] <;> ring1
  · simp only [orbS5r3, orbS5r9, orbS2r15] <;> ring1
  · simp only [orbS5r3, orbS5r9, orbS2r15] <;> ring1
  · simp only [orbS5r3, orbS5r9, orbS2r15] <;> ring1
  · simp only [orbS5r3, orbS5r9, orbS2r15] <;> ring1
  · simp only [orbS5r3, orbS5r9, orbS2r15] <;> ring1
  · simp only [orbS5r3, orbS5r9, orbS2r15] <;> ring1
  · simp only [orbS5r3, orbS5r9, orbS2r15] <;> ring1

set_option maxHeartbeats 4000000 in
/-- Chain step 1 of `orb`. -/
theorem orbStep1 {α : Type} [ Field α] [ CharZero α] (c s h : α) (hs : s ^ 2 = 1 - c ^ 2) (hh : h ^ 2 = 1 / 2) :
    lift1 3 (hG h) * orbS2 c s h = orbS1 c s h := by
  rw [hRule_3]
  ext r k
  obtain ⟨x1, x2, x3, x4⟩ := r
  simp only [orbS2, orbS1, Matrix.of_apply]
  obtain ⟨y1, y2, y3, y4⟩ := k
  cases x1 <;> cases x2 <;> cases x3 <;> cases x4 <;>
    cases y1 <;> cases y2 <;> cases y3 <;> cases y4
  · simp only [orbS2r0, orbS2r1, orbS1r0] <;> linear_combination (2) * hh
  · simp only [orbS2r0, orbS2r1, orbS1r0] <;> ring1
  · simp only [orbS2r0, orbS2r1, orbS1r0] <;> ring1
  · simp only [orbS2r0, orbS2r1, orbS1r0] <;> ring1
  · simp only [orbS2r0, orbS2r1, orbS1r0] <;> ring1
  · simp only [orbS2r0, orbS2r1, orbS1r0] <;> ring1
  · simp only [orbS2r0, orbS2r1, orbS1r0] <;> ring1
  · simp only [orbS2r0, orbS2r1, orbS1r0] <;> ring1
  · simp only [orbS2r0, orbS2r1, orbS1r0] <;> ring1
  · simp only [orbS2r0, orbS2r1, orbS1r0] <;> ring1
  · simp only [orbS2r0, orbS2r1, orbS1r0] <;> ring1
  · simp only [orbS2r0, orbS2r1, orbS1r0] <;> ring1
  · simp only [orbS2r0, orbS2r1, orbS1r0] <;> ring1
  · simp only [orbS2r0, orbS2r1, orbS1r0] <;> ring1
  · simp only [orbS2r0, orbS2r1, orbS1r0] <;> ring1
  · simp only [orbS2r0, orbS2r1, orbS1r0] <;> ring1
  · simp only [orbS2r0, orbS2r1, orbS1r1] <;> ring1
  · simp only [orbS2r0, orbS2r1, orbS1r1] <;> linear_combination (4 * c^2 + -(2)) * hh
  · simp only [orbS2r0, orbS2r1, orbS1r1] <;> ring1
  · simp only [orbS2r0, orbS2r1, orbS1r1] <;> ring1
  · simp only [orbS2r0, orbS2r1, orbS1r1] <;> linear_combination (-(4) * c * s) * hh
  · simp only [orbS2r0, orbS2r1, orbS1r1] <;> ring1
  · simp only [orbS2r0, orbS2r1, orbS1r1] <;> ring1
  · simp only [orbS2r0, orbS2r1, orbS1r1] <;> ring1
  · simp only [orbS2r0, orbS2r1, orbS1r1] <;> ring1
  · simp only [orbS2r0, orbS2r1, orbS1r1] <;> ring1
  · simp only [orbS2r0, orbS2r1, orbS1r1] <;> ring1
  · simp only [orbS2r0, orbS2r1, orbS1r1] <;> ring1
  · simp only [orbS2r0, orbS2r1, orbS1r1] <;> ring1
  · simp only [orbS2r0, orbS2r1, orbS1r1] <;> ring1
  · simp only [orbS2r0, orbS2r1, orbS1r1] <;> ring1
  · simp only [orbS2r0, orbS2r1, orbS1r1] <;> ring1
  · simp only [orbS2r2, orbS2r3, orbS1r2] <;> ring1
  · simp only [orbS2r2, orbS2r3, orbS1r2] <;> ring1
  · simp only [orbS2r2, orbS2r3, orbS1r2] <;> linear_combination (4 * c^2 + -(2)) * hh
  · simp only [orbS2r2, orbS2r3, orbS1r2] <;> ring1
  · simp only [orbS2r2, orbS2r3, orbS1r2] <;> ring1
  · simp only [orbS2r2, orbS2r3, orbS1r2] <;> ring1
  · simp only [orbS2r2, orbS2r3, orbS1r2] <;> ring1
  · simp only [orbS2r2, orbS2r3, orbS1r2] <;> ring1
  · simp only [orbS2r2, orbS2r3, orbS1r2] <;> linear_combination (-(4) * c * s) * hh
  · simp only [orbS2r2, orbS2r3, orbS1r2] <;> ring1
  · simp only [orbS2r2, orbS2r3, orbS1r2] <;> ring1
  · simp only [orbS2r2, orbS2r3, orbS1r2] <;> ring1
  · simp only [orbS2r2, orbS2r3, orbS1r2] <;> ring1
  · simp only [orbS2r2, orbS2r3, orbS1r2] <;> ring1
  · simp only [orbS2r2, orbS2r3, orbS1r2] <;> ring1
  · simp only [orbS2r2, orbS2r3, orbS1r2] <;> ring1
  · simp only [orbS2r2, orbS2r3, orbS1r3] <;> ring1
  · simp only [orbS2r2, orbS2r3, orbS1r3] <;> ring1
  · simp only [orbS2r2, orbS2r3, orbS1r3] <;> ring1
  · simp only [orbS2r2, orbS2r3, orbS1r3] <;> linear_combination (8 * c^4 + -(8) * c^2 + 2) * hh
  · simp only [orbS2r2, orbS2r3, orbS1r3] <;> ring1
  · simp only [orbS2r2, orbS2r3, orbS1r3] <;> ring1
  · simp only [orbS2r2, orbS2r3, orbS1r3] <;> linear_combination (-(8) * c^3 * s + 4 * c * s) * hh
  · simp only [orbS2r2, orbS2r3, orbS1r3] <;> ring1
  · simp only [orbS2r2, orbS2r3, orbS1r3] <;> ring1
  · simp only [orbS2r2, orbS2r3, orbS1r3] <;> linear_combination (-(8) * c^3 * s + 4 * c * s) * hh
  · simp only [orbS2r2, orbS2r3, orbS1r3] <;> ring1
  · simp only [orbS2r2, orbS2r3, orbS1r3] <;> ring1
  · simp only [orbS2r2, orbS2r3, orbS1r3] <;> linear_combination (-(8) * c^4 + 8 * c^2) * hh
  · simp only [orbS2r2, orbS2r3, orbS1r3] <;> ring1
  · simp only [orbS2r2, orbS2r3, orbS1r3] <;> ring1
  · simp only [orbS2r2, orbS2r3, orbS1r3] <;> ring1
  · simp only [orbS2r4, orbS2r5, orbS1r4] <;> ring1
  · simp only [orbS2r4, orbS2r5, orbS1r4] <;> linear_combination (4 * c * s) * hh
  · simp only [orbS2r4, orbS2r5, orbS1r4] <;> ring1
  · simp only [orbS2r4, orbS2r5, orbS1r4] <;> ring1
  · simp only [orbS2r4, orbS2r5, orbS1r4] <;> linear_combination (4 * c^2 + -(2)) * hh
  · simp only [orbS2r4, orbS2r5, orbS1r4] <;> ring1
  · simp only [orbS2r4, orbS2r5, orbS1r4] <;> ring1
  · simp only [orbS2r4, orbS2r5, orbS1r4] <;> ring1
  · simp only [orbS2r4, orbS2r5, orbS1r4] <;> ring1
  · simp only [orbS2r4, orbS2r5, orbS1r4] <;> ring1
  · simp only [orbS2r4, orbS2r5, orbS1r4] <;> ring1
  · simp only [orbS2r4, orbS2r5, orbS1r4] <;> ring1
  · simp only [orbS2r4, orbS2r5, orbS1r4] <;> ring1
  · simp only [orbS2r4, orbS2r5, orbS1r4] <;> ring1
  · simp only [orbS2r4, orbS2r5, orbS1r4] <;> ring1
  · simp only [orbS2r4, orbS2r5, orbS1r4] <;> ring1
  · simp only [orbS2r4, orbS2r5, orbS1r5] <;> ring1
  · simp only [orbS2r4, orbS2r5, orbS1r5] <;> ring1
  · simp only [orbS2r4, orbS2r5, orbS1r5] <;> ring1
  · simp only [orbS2r4, orbS2r5, orbS1r5] <;> ring1
  · simp only [orbS2r4, orbS2r5, orbS1r5] <;> ring1
  · simp only [orbS2r4, orbS2r5, orbS1r5] <;> linear_combination (2) * hh
  · simp only [orbS2r4, orbS2r5, orbS1r5] <;> ring1
  · simp only [orbS2r4, orbS2r5, orbS1r5] <;> ring1
  · simp only [orbS2r4, orbS2r5, orbS1r5] <;> ring1
  · simp only [orbS2r4, orbS2r5, orbS1r5] <;> ring1
  · simp only [orbS2r4, orbS2r5, orbS1r5] <;> ring1
  · simp only [orbS2r4, orbS2r5, orbS1r5] <;> ring1
  · simp only [orbS2r4, orbS2r5, orbS1r5] <;> ring1
  · simp only [orbS2r4, orbS2r5, orbS1r5] <;> ring1
  · simp only [orbS2r4, orbS2r5, orbS1r5] <;> ring1
  · simp only [orbS2r4, orbS2r5, orbS1r5] <;> ring1
  · simp only [orbS2r6, orbS2r7, orbS1r6] <;> ring1
  · simp only [orbS2r6, orbS2r7, orbS1r6] <;> ring1
  · simp only [orbS2r6, orbS2r7, orbS1r6] <;> ring1
  · simp only [orbS2r6, orbS2r7, orbS1r6] <;> linear_combination (8 * c^3 * s + -(4) * c * s) * hh
  · simp only [orbS2r6, orbS2r7, orbS1r6] <;> ring1
  · simp only [orbS2r6, orbS2r7, orbS1r6] <;> ring1
  · simp only [orbS2r6, orbS2r7, orbS1r6] <;> linear_combination (8 * c^4 + -(8) * c^2 + 2) * hh
  · simp only [orbS2r6, orbS2r7, orbS1r6] <;> ring1
  · simp only [orbS2r6, orbS2r7, orbS1r6] <;> ring1
  · simp only [orbS2r6, orbS2r7, orbS1r6] <;> linear_combination (8 * c^4 + -(8) * c^2) * hh
  · simp only [orbS2r6, orbS2r7, orbS1r6] <;> ring1
  · simp only [orbS2r6, orbS2r7, orbS1r6] <;> ring1
  · simp only [orbS2r6, orbS2r7, orbS1r6] <;> linear_combination (-(8) * c^3 * s + 4 * c * s) * hh
  · simp only [orbS2r6, orbS2r7, orbS1r6] <;> ring1
  · simp only [orbS2r6, orbS2r7, orbS1r6] <;> ring1
  · simp only [orbS2r6, orbS2r7, orbS1r6] <;> ring1
  · simp only [orbS2r6, orbS2r7, orbS1r7] <;> ring1
  · simp only [orbS2r6, orbS2r7, orbS1r7] <;> ring1
  · simp only [orbS2r6, orbS2r7, orbS1r7] <;> ring1
  · simp only [orbS2r6, orbS2r7, orbS1r7] <;> ring1
  · simp only [orbS2r6, orbS2r7, orbS1r7] <;> ring1
  · simp only [orbS2r6, orbS2r7, orbS1r7] <;> ring1
  · simp only [orbS2r6, orbS2r7, orbS1r7] <;> ring1
  · simp only [orbS2r6, orbS2r7, orbS1r7] <;> linear_combination (4 * c^2 + -(2)) * hh
  · simp only [orbS2r6, orbS2r7, orbS1r7] <;> ring1
  · simp only [orbS2r6, orbS2r7, orbS1r7] <;> ring1
  · simp only [orbS2r6, orbS2r7, orbS1r7] <;> ring1
  · simp only [orbS2r6, orbS2r7, orbS1r7] <;> ring1
  · simp only [orbS2r6, orbS2r7, orbS1r7] <;> ring1
  · simp only [orbS2r6, orbS2r7, orbS1r7] <;> linear_combination (-(4) * c * s) * hh
  · simp only [orbS2r6, orbS2r7, orbS1r7] <;> ring1
  · simp only [orbS2r6, orbS2r7, orbS1r7] <;> ring1
  · simp only [orbS2r8, orbS2r9, orbS1r8] <;> ring1
  · simp only [orbS2r8, orbS2r9, orbS1r8] <;> ring1
  · simp only [orbS2r8, orbS2r9, orbS1r8] <;> linear_combination (4 * c * s) * hh
  · simp only [orbS2r8, orbS2r9, orbS1r8] <;> ring1
  · simp only [orbS2r8, orbS2r9, orbS1r8] <;> ring1
  · simp only [orbS2r8, orbS2r9, orbS1r8] <;> ring1
  · simp only [orbS2r8, orbS2r9, orbS1r8] <;> ring1
  · simp only [orbS2r8, orbS2r9, orbS1r8] <;> ring1
  · simp only [orbS2r8, orbS2r9, orbS1r8] <;> linear_combination (4 * c^2 + -(2)) * hh
  · simp only [orbS2r8, orbS2r9, orbS1r8] <;> ring1
  · simp only [orbS2r8, orbS2r9, orbS1r8] <;> ring1
  · simp only [orbS2r8, orbS2r9, orbS1r8] <;> ring1
  · simp only [orbS2r8, orbS2r9, orbS1r8] <;> ring1
  · simp only [orbS2r8, orbS2r9, orbS1r8] <;> ring1
  · simp only [orbS2r8, orbS2r9, orbS1r8] <;> ring1
  · simp only [orbS2r8, orbS2r9, orbS1r8] <;> ring1
  · simp only [orbS2r8, orbS2r9, orbS1r9] <;> ring1
  · simp only [orbS2r8, orbS2r9, orbS1r9] <;> ring1
  · simp only [orbS2r8, orbS2r9, orbS1r9] <;> ring1
  · simp only [orbS2r8, orbS2r9, orbS1r9] <;> linear_combination (8 * c^3 * s + -(4) * c * s) * hh
  · simp only [orbS2r8, orbS2r9, orbS1r9] <;> ring1
  · simp only [orbS2r8, orbS2r9, orbS1r9] <;> ring1
  · simp only [orbS2r8, orbS2r9, orbS1r9] <;> linear_combination (8 * c^4 + -(8) * c^2) * hh
  · simp only [orbS2r8, orbS2r9, orbS1r9] <;> ring1
  · simp only [orbS2r8, orbS2r9, orbS1r9] <;> ring1
  · simp only [orbS2r8, orbS2r9, orbS1r9] <;> linear_combination (8 * c^4 + -(8) * c^2 + 2) * hh
  · simp only [orbS2r8, orbS2r9, orbS1r9] <;> ring1
  · simp only [orbS2r8, orbS2r9, orbS1r9] <;> ring1
  · simp only [orbS2r8, orbS2r9, orbS1r9] <;> linear_combination (-(8) * c^3 * s + 4 * c * s) * hh
  · simp only [orbS2r8, orbS2r9, orbS1r9] <;> ring1
  · simp only [orbS2r8, orbS2r9, orbS1r9] <;> ring1
  · simp only [orbS2r8, orbS2r9, orbS1r9] <;> ring1
  · simp only [orbS2r10, orbS2r11, orbS1r10] <;> ring1
  · simp only [orbS2r10, orbS2r11, orbS1r10] <;> ring1
  · simp only [orbS2r10, orbS2r11, orbS1r10] <;> ring1
  · simp only [orbS2r10, orbS2r11, orbS1r10] <;> ring1
  · simp only [orbS2r10, orbS2r11, orbS1r10] <;> ring1
  · simp only [orbS2r10, orbS2r11, orbS1r10] <;> ring1
  · simp only [orbS2r10, orbS2r11, orbS1r10] <;> ring1
  · simp only [orbS2r10, orbS2r11, orbS1r10] <;> ring1
  · simp only [orbS2r10, orbS2r11, orbS1r10] <;> ring1
  · simp only [orbS2r10, orbS2r11, orbS1r10] <;> ring1
  · simp only [orbS2r10, orbS2r11, orbS1r10] <;> linear_combination (2) * hh
  · simp only [orbS2r10, orbS2r11, orbS1r10] <;> ring1
  · simp only [orbS2r10, orbS2r11, orbS1r10] <;> ring1
  · simp only [orbS2r10, orbS2r11, orbS1r10] <;> ring1
  · simp only [orbS2r10, orbS2r11, orbS1r10] <;> ring1
  · simp only [orbS2r10, orbS2r11, orbS1r10] <;> ring1
  · simp only [orbS2r10, orbS2r11, orbS1r11] <;> ring1
  · simp only [orbS2r10, orbS2r11, orbS1r11] <;> ring1
  · simp only [orbS2r10, orbS2r11, orbS1r11] <;> ring1
  · simp only [orbS2r10, orbS2r11, orbS1r11] <;> ring1
  · simp only [orbS2r10, orbS2r11, orbS1r11] <;> ring1
  · simp only [orbS2r10, orbS2r11, orbS1r11] <;> ring1
  · simp only [orbS2r10, orbS2r11, orbS1r11] <;> ring1
  · simp only [orbS2r10, orbS2r11, orbS1r11] <;> ring1
  · simp only [orbS2r10, orbS2r11, orbS1r11] <;> ring1
  · simp only [orbS2r10, orbS2r11, orbS1r11] <;> ring1
  · simp only [orbS2r10, orbS2r11, orbS1r11] <;> ring1
  · simp only [orbS2r10, orbS2r11, orbS1r11] <;> linear_combination (4 * c^2 + -(2)) * hh
  · simp only [orbS2r10, orbS2r11, orbS1r11] <;> ring1
  · simp only [orbS2r10, orbS2r11, orbS1r11] <;> ring1
  · simp only [orbS2r10, orbS2r11, orbS1r11] <;> linear_combination (-(4) * c * s) * hh
  · simp only [orbS2r10, orbS2r11, orbS1r11] <;> ring1
  · simp only [orbS2r12, orbS2r13, orbS1r12] <;> ring1
  · simp only [orbS2r12, orbS2r13, orbS1r12] <;> ring1
  · simp only [orbS2r12, orbS2r13, orbS1r12] <;> ring1
  · simp only [orbS2r12, orbS2r13, orbS1r12] <;> linear_combination (-(8) * c^4 + 8 * c^2) * hh
  · simp only [orbS2r12, orbS2r13, orbS1r12] <;> ring1
  · simp only [orbS2r12, orbS2r13, orbS1r12] <;> ring1
  · simp only [orbS2r12, orbS2r13, orbS1r12] <;> linear_combination (8 * c^3 * s + -(4) * c * s) * hh
  · simp only [orbS2r12, orbS2r13, orbS1r12] <;> ring1
  · simp only [orbS2r12, orbS2r13, orbS1r12] <;> ring1
  · simp only [orbS2r12, orbS2r13, orbS1r12] <;> linear_combination (8 * c^3 * s + -(4) * c * s) * hh
  · simp only [orbS2r12, orbS2r13, orbS1r12] <;> ring1
  · simp only [orbS2r12, orbS2r13, orbS1r12] <;> ring1
  · simp only [orbS2r12, orbS2r13, orbS1r12] <;> linear_combination (8 * c^4 + -(8) * c^2 + 2) * hh
  · simp only [orbS2r12, orbS2r13, orbS1r12] <;> ring1
  · simp only [orbS2r12, orbS2r13, orbS1r12] <;> ring1
  · simp only [orbS2r12, orbS2r13, orbS1r12] <;> ring1
  · simp only [orbS2r12, orbS2r13, orbS1r13] <;> ring1
  · simp only [orbS2r12, orbS2r13, orbS1r13] <;> ring1
  · simp only [orbS2r12, orbS2r13, orbS1r13] <;> ring1
  · simp only [orbS2r12, orbS2r13, orbS1r13] <;> ring1
  · simp only [orbS2r12, orbS2r13, orbS1r13] <;> ring1
  · simp only [orbS2r12, orbS2r13, orbS1r13] <;> ring1
  · simp only [orbS2r12, orbS2r13, orbS1r13] <;> ring1
  · simp only [orbS2r12, orbS2r13, orbS1r13] <;> linear_combination (4 * c * s) * hh
  · simp only [orbS2r12, orbS2r13, orbS1r13] <;> ring1
  · simp only [orbS2r12, orbS2r13, orbS1r13] <;> ring1
  · simp only [orbS2r12, orbS2r13, orbS1r13] <;> ring1
  · simp only [orbS2r12, orbS2r13, orbS1r13] <;> ring1
  · simp only [orbS2r12, orbS2r13, orbS1r13] <;> ring1
  · simp only [orbS2r12, orbS2r13, orbS1r13] <;> linear_combination (4 * c^2 + -(2)) * hh
  · simp only [orbS2r12, orbS2r13, orbS1r13] <;> ring1
  · simp only [orbS2r12, orbS2r13, orbS1r13] <;> ring1
  · simp only [orbS2r14, orbS2r15, orbS1r14] <;> ring1
  · simp only [orbS2r14, orbS2r15, orbS1r14] <;> ring1
  · simp only [orbS2r14, orbS2r15, orbS1r14] <;> ring1
  · simp only [orbS2r14, orbS2r15, orbS1r14] <;> ring1
  · simp only [orbS2r14, orbS2r15, orbS1r14] <;> ring1
  · simp only [orbS2r14, orbS2r15, orbS1r14] <;> ring1
  · simp only [orbS2r14, orbS2r15, orbS1r14] <;> ring1
  · simp only [orbS2r14, orbS2r15, orbS1r14] <;> ring1
  · simp only [orbS2r14, orbS2r15, orbS1r14] <;> ring1
  · simp only [orbS2r14, orbS2r15, orbS1r14] <;> ring1
  · simp only [orbS2r14, orbS2r15, orbS1r14] <;> ring1
  · simp only [orbS2r14, orbS2r15, orbS1r14] <;> linear_combination (4 * c * s) * hh
  · simp only [orbS2r14, orbS2r15, orbS1r14] <;> ring1
  · simp only [orbS2r14, orbS2r15, orbS1r14] <;> ring1
  · simp only [orbS2r14, orbS2r15, orbS1r14] <;> linear_combination (4 * c^2 + -(2)) * hh
  · simp only [orbS2r14, orbS2r15, orbS1r14] <;> ring1
  · simp only [orbS2r14, orbS2r15, orbS1r15] <;> ring1
  · simp only [orbS2r14, orbS2r15, orbS1r15] <;> ring1
  · simp only [orbS2r14, orbS2r15, orbS1r15] <;> ring1
  · simp only [orbS2r14, orbS2r15, orbS1r15] <;> ring1
  · simp only [orbS2r14, orbS2r15, orbS1r15] <;> ring1
  · simp only [orbS2r14, orbS2r15, orbS1r15] <;> ring1
  · simp only [orbS2r14, orbS2r15, orbS1r15] <;> ring1
  · simp only [orbS2r14, orbS2r15, orbS1r15] <;> ring1
  · simp only [orbS2r14, orbS2r15, orbS1r15] <;> ring1
  · simp only [orbS2r14, orbS2r15, orbS1r15] <;> ring1
  · simp only [orbS2r14, orbS2r15, orbS1r15] <;> ring1
  · simp only [orbS2r14, orbS2r15, orbS1r15] <;> ring1
  · simp only [orbS2r14, orbS2r15, orbS1r15] <;> ring1
  · simp only [orbS2r14, orbS2r15, orbS1r15] <;> ring1
  · simp only [orbS2r14, orbS2r15, orbS1r15] <;> ring1
  · simp only [orbS2r14, orbS2r15, orbS1r15] <;> linear_combination (2) * hh

set_option maxHeartbeats 4000000 in
/-- The chain output of `orbS1` equals the body of the source matrix. -/
theorem orbFinal {α : Type} [ Field α] [ CharZero α] (c s h C S : α) (hs : s ^ 2 = 1 - c ^ 2) (hh : h ^ 2 = 1 / 2)
    (hC : C = 2 * c^2 + -(1))
    (hS : S = 2 * c * s) :
    orbS1 c s h = orbMatCS C S := by
  ext r k
  obtain ⟨x1, x2, x3, x4⟩ := r
  obtain ⟨y1, y2, y3, y4⟩ := k
  simp only [orbS1, orbMatCS, Matrix.of_apply]
  cases x1 <;> cases x2 <;> cases x3 <;> cases x4 <;>
    cases y1 <;> cases y2 <;> cases y3 <;> cases y4
  · simp only [orbS1r0] <;> ring1
  · simp only [orbS1r0] <;> ring1
  · simp only [orbS1r0] <;> ring1
  · simp only [orbS1r0] <;> ring1
  · simp only [orbS1r0] <;> ring1
  · simp only [orbS1r0] <;> ring1
  · simp only [orbS1r0] <;> ring1
  · simp only [orbS1r0] <;> ring1
  · simp only [orbS1r0] <;> ring1
  · simp only [orbS1r0] <;> ring1
  · simp only [orbS1r0] <;> ring1
  · simp only [orbS1r0] <;> ring1
  · simp only [orbS1r0] <;> ring1
  · simp only [orbS1r0] <;> ring1
  · simp only [orbS1r0] <;> ring1
  · simp only [orbS1r0] <;> ring1
  · simp only [orbS1r1] <;> ring1
  · simp only [orbS1r1] <;> linear_combination (-(1)) * hC
  · simp only [orbS1r1] <;> ring1
  · simp only [orbS1r1] <;> ring1
  · simp only [orbS1r1] <;> linear_combination (1) * hS
  · simp only [orbS1r1] <;> ring1
  · simp only [orbS1r1] <;> ring1
  · simp only [orbS1r1] <;> ring1
  · simp only [orbS1r1] <;> ring1
  · simp only [orbS1r1] <;> ring1
  · simp only [orbS1r1] <;> ring1
  · simp only [orbS1r1] <;> ring1
  · simp only [orbS1r1] <;> ring1
  · simp only [orbS1r1] <;> ring1
  · simp only [orbS1r1] <;> ring1
  · simp only [orbS1r1] <;> ring1
  · simp only [orbS1r2] <;> ring1
  · simp only [orbS1r2] <;> ring1
  · simp only [orbS1r2] <;> linear_combination (-(1)) * hC
  · simp only [orbS1r2] <;> ring1
  · simp only [orbS1r2] <;> ring1
  · simp only [orbS1r2] <;> ring1
  · simp only [orbS1r2] <;> ring1
  · simp only [orbS1r2] <;> ring1
  · simp only [orbS1r2] <;> linear_combination (1) * hS
  · simp only [orbS1r2] <;> ring1
  · simp only [orbS1r2] <;> ring1
  · simp only [orbS1r2] <;> ring1
  · simp only [orbS1r2] <;> ring1
  · simp only [orbS1r2] <;> ring1
  · simp only [orbS1r2] <;> ring1
  · simp only [orbS1r2] <;> ring1
  · simp only [orbS1r3] <;> ring1
  · simp only [orbS1r3] <;> ring1
  · simp only [orbS1r3] <;> ring1
  · simp only [orbS1r3] <;> linear_combination (-(2) * c^2 + -C + 1) * hC
  · simp only [orbS1r3] <;> ring1
  · simp only [orbS1r3] <;> ring1
  · simp only [orbS1r3] <;> linear_combination (S) * hC + (2 * c^2 + -(1)) * hS
  · simp only [orbS1r3] <;> ring1
  · simp only [orbS1r3] <;> ring1
  · simp only [orbS1r3] <;> linear_combination (S) * hC + (2 * c^2 + -(1)) * hS
  · simp only [orbS1r3] <;> ring1
  · simp only [orbS1r3] <;> ring1
  · simp only [orbS1r3] <;> linear_combination (-(2) * c * s + -S) * hS + (-(4) * c^2) * hs
  · simp only [orbS1r3] <;> ring1
  · simp only [orbS1r3] <;> ring1
  · simp only [orbS1r3] <;> ring1
  · simp only [orbS1r4] <;> ring1
  · simp only [orbS1r4] <;> linear_combination (-(1)) * hS
  · simp only [orbS1r4] <;> ring1
  · simp only [orbS1r4] <;> ring1
  · simp only [orbS1r4] <;> linear_combination (-(1)) * hC
  · simp only [orbS1r4] <;> ring1
  · simp only [orbS1r4] <;> ring1
  · simp only [orbS1r4] <;> ring1
  · simp only [orbS1r4] <;> ring1
  · simp only [orbS1r4] <;> ring1
  · simp only [orbS1r4] <;> ring1
  · simp only [orbS1r4] <;> ring1
  · simp only [orbS1r4] <;> ring1
  · simp only [orbS1r4] <;> ring1
  · simp only [orbS1r4] <;> ring1
  · simp only [orbS1r4] <;> ring1
  · simp only [orbS1r5] <;> ring1
  · simp only [orbS1r5] <;> ring1
  · simp only [orbS1r5] <;> ring1
  · simp only [orbS1r5] <;> ring1
  · simp only [orbS1r5] <;> ring1
  · simp only [orbS1r5] <;> ring1
  · simp only [orbS1r5] <;> ring1
  · simp only [orbS1r5] <;> ring1
  · simp only [orbS1r5] <;> ring1
  · simp only [orbS1r5] <;> ring1
  · simp only [orbS1r5] <;> ring1
  · simp only [orbS1r5] <;> ring1
  · simp only [orbS1r5] <;> ring1
  · simp only [orbS1r5] <;> ring1
  · simp only [orbS1r5] <;> ring1
  · simp only [orbS1r5] <;> ring1
  · simp only [orbS1r6] <;> ring1
  · simp only [orbS1r6] <;> ring1
  · simp only [orbS1r6] <;> ring1
  · simp only [orbS1r6] <;> linear_combination (-S) * hC + (-(2) * c^2 + 1) * hS
  · simp only [orbS1r6] <;> ring1
  · simp only [orbS1r6] <;> ring1
  · simp only [orbS1r6] <;> linear_combination (-(2) * c^2 + -C + 1) * hC
  · simp only [orbS1r6] <;> ring1
  · simp only [orbS1r6] <;> ring1
  · simp only [orbS1r6] <;> linear_combination (2 * c * s + S) * hS + (4 * c^2) * hs
  · simp only [orbS1r6] <;> ring1
  · simp only [orbS1r6] <;> ring1
  · simp only [orbS1r6] <;> linear_combination (S) * hC + (2 * c^2 + -(1)) * hS
  · simp only [orbS1r6] <;> ring1
  · simp only [orbS1r6] <;> ring1
  · simp only [orbS1r6] <;> ring1
  · simp only [orbS1r7] <;> ring1
  · simp only [orbS1r7] <;> ring1
  · simp only [orbS1r7] <;> ring1
  · simp only [orbS1r7] <;> ring1
  · simp only [orbS1r7] <;> ring1
  · simp only [orbS1r7] <;> ring1
  · simp only [orbS1r7] <;> ring1
  · simp only [orbS1r7] <;> linear_combination (-(1)) * hC
  · simp only [orbS1r7] <;> ring1
  · simp only [orbS1r7] <;> ring1
  · simp only [orbS1r7] <;> ring1
  · simp only [orbS1r7] <;> ring1
  · simp only [orbS1r7] <;> ring1
  · simp only [orbS1r7] <;> linear_combination (1) * hS
  · simp only [orbS1r7] <;> ring1
  · simp only [orbS1r7] <;> ring1
  · simp only [orbS1r8] <;> ring1
  · simp only [orbS1r8] <;> ring1
  · simp only [orbS1r8] <;> linear_combination (-(1)) * hS
  · simp only [orbS1r8] <;> ring1
  · simp only [orbS1r8] <;> ring1
  · simp only [orbS1r8] <;> ring1
  · simp only [orbS1r8] <;> ring1
  · simp only [orbS1r8] <;> ring1
  · simp only [orbS1r8] <;> linear_combination (-(1)) * hC
  · simp only [orbS1r8] <;> ring1
  · simp only [orbS1r8] <;> ring1
  · simp only [orbS1r8] <;> ring1
  · simp only [orbS1r8] <;> ring1
  · simp only [orbS1r8] <;> ring1
  · simp only [orbS1r8] <;> ring1
  · simp only [orbS1r8] <;> ring1
  · simp only [orbS1r9] <;> ring1
  · simp only [orbS1r9] <;> ring1
  · simp only [orbS1r9] <;> ring1
  · simp only [orbS1r9] <;> linear_combination (-S) * hC + (-(2) * c^2 + 1) * hS
  · simp only [orbS1r9] <;> ring1
  · simp only [orbS1r9] <;> ring1
  · simp only [orbS1r9] <;> linear_combination (2 * c * s + S) * hS + (4 * c^2) * hs
  · simp only [orbS1r9] <;> ring1
  · simp only [orbS1r9] <;> ring1
  · simp only [orbS1r9] <;> linear_combination (-(2) * c^2 + -C + 1) * hC
  · simp only [orbS1r9] <;> ring1
  · simp only [orbS1r9] <;> ring1
  · simp only [orbS1r9] <;> linear_combination (S) * hC + (2 * c^2 + -(1)) * hS
  · simp only [orbS1r9] <;> ring1
  · simp only [orbS1r9] <;> ring1
  · simp only [orbS1r9] <;> ring1
  · simp only [orbS1r10] <;> ring1
  · simp only [orbS1r10] <;> ring1
  · simp only [orbS1r10] <;> ring1
  · simp only [orbS1r10] <;> ring1
  · simp only [orbS1r10] <;> ring1
  · simp only [orbS1r10] <;> ring1
  · simp only [orbS1r10] <;> ring1
  · simp only [orbS1r10] <;> ring1
  · simp only [orbS1r10] <;> ring1
  · simp only [orbS1r10] <;> ring1
  · simp only [orbS1r10] <;> ring1
  · simp only [orbS1r10] <;> ring1
  · simp only [orbS1r10] <;> ring1
  · simp only [orbS1r10] <;> ring1
  · simp only [orbS1r10] <;> ring1
  · simp only [orbS1r10] <;> ring1
  · simp only [orbS1r11] <;> ring1
  · simp only [orbS1r11] <;> ring1
  · simp only [orbS1r11] <;> ring1
  · simp only [orbS1r11] <;> ring1
  · simp only [orbS1r11] <;> ring1
  · simp only [orbS1r11] <;> ring1
  · simp only [orbS1r11] <;> ring1
  · simp only [orbS1r11] <;> ring1
  · simp only [orbS1r11] <;> ring1
  · simp only [orbS1r11] <;> ring1
  · simp only [orbS1r11] <;> ring1
  · simp only [orbS1r11] <;> linear_combination (-(1)) * hC
  · simp only [orbS1r11] <;> ring1
  · simp only [orbS1r11] <;> ring1
  · simp only [orbS1r11] <;> linear_combination (1) * hS
  · simp only [orbS1r11] <;> ring1
  · simp only [orbS1r12] <;> ring1
  · simp only [orbS1r12] <;> ring1
  · simp only [orbS1r12] <;> ring1
  · simp only [orbS1r12] <;> linear_combination (-(2) * c * s + -S) * hS + (-(4) * c^2) * hs
  · simp only [orbS1r12] <;> ring1
  · simp only [orbS1r12] <;> ring1
  · simp only [orbS1r12] <;> linear_combination (-S) * hC + (-(2) * c^2 + 1) * hS
  · simp only [orbS1r12] <;> ring1
  · simp only [orbS1r12] <;> ring1
  · simp only [orbS1r12] <;> linear_combination (-S) * hC + (-(2) * c^2 + 1) * hS
  · simp only [orbS1r12] <;> ring1
  · simp only [orbS1r12] <;> ring1
  · simp only [orbS1r12] <;> linear_combination (-(2) * c^2 + -C + 1) * hC
  · simp only [orbS1r12] <;> ring1
  · simp only [orbS1r12] <;> ring1
  · simp only [orbS1r12] <;> ring1
  · simp only [orbS1r13] <;> ring1
  · simp only [orbS1r13] <;> ring1
  · simp only [orbS1r13] <;> ring1
  · simp only [orbS1r13] <;> ring1
  · simp only [orbS1r13] <;> ring1
  · simp only [orbS1r13] <;> ring1
  · simp only [orbS1r13] <;> ring1
  · simp only [orbS1r13] <;> linear_combination (-(1)) * hS
  · simp only [orbS1r13] <;> ring1
  · simp only [orbS1r13] <;> ring1
  · simp only [orbS1r13] <;> ring1
  · simp only [orbS1r13] <;> ring1
  · simp only [orbS1r13] <;> ring1
  · simp only [orbS1r13] <;> linear_combination (-(1)) * hC
  · simp only [orbS1r13] <;> ring1
  · simp only [orbS1r13] <;> ring1
  · simp only [orbS1r14] <;> ring1
  · simp only [orbS1r14] <;> ring1
  · simp only [orbS1r14] <;> ring1
  · simp only [orbS1r14] <;> ring1
  · simp only [orbS1r14] <;> ring1
  · simp only [orbS1r14] <;> ring1
  · simp only [orbS1r14] <;> ring1
  · simp only [orbS1r14] <;> ring1
  · simp only [orbS1r14] <;> ring1
  · simp only [orbS1r14] <;> ring1
  · simp only [orbS1r14] <;> ring1
  · simp only [orbS1r14] <;> linear_combination (-(1)) * hS
  · simp only [orbS1r14] <;> ring1
  · simp only [orbS1r14] <;> ring1
  · simp only [orbS1r14] <;> linear_combination (-(1)) * hC
  · simp only [orbS1r14] <;> ring1
  · simp only [orbS1r15] <;> ring1
  · simp only [orbS1r15] <;> ring1
  · simp only [orbS1r15] <;> ring1
  · simp only [orbS1r15] <;> ring1
  · simp only [orbS1r15] <;> ring1
  · simp only [orbS1r15] <;> ring1
  · simp only [orbS1r15] <;> ring1
  · simp only [orbS1r15] <;> ring1
  · simp only [orbS1r15] <;> ring1
  · simp only [orbS1r15] <;> ring1
  · simp only [orbS1r15] <;> ring1
  · simp only [orbS1r15] <;> ring1
  · simp only [orbS1r15] <;> ring1
  · simp only [orbS1r15] <;> ring1
  · simp only [orbS1r15] <;> ring1
  · simp only [orbS1r15] <;> ring1

set_option maxHeartbeats 4000000 in
/-- The chain output of `seqS1` equals the body of the source matrix. -/
theorem seqFinal {α : Type} [ Field α] [ CharZero α] (c s : α) :
    seqS1 c s = seMatCS c s := by
  ext r k
  obtain ⟨x1, x2⟩ := r
  obtain ⟨y1, y2⟩ := k
  simp only [seqS1, seMatCS, Matrix.of_apply]
  cases x1 <;> cases x2 <;> cases y1 <;> cases y2
  · simp only [seqS3r0] <;> ring1
  · simp only [seqS3r0] <;> ring1
  · simp only [seqS3r0] <;> ring1
  · simp only [seqS3r0] <;> ring1
  · simp only [seqS2r1] <;> ring1
  · simp only [seqS2r1] <;> ring1
  · simp only [seqS2r1] <;> ring1
  · simp only [seqS2r1] <;> ring1
  · simp only [seqS2r3] <;> ring1
  · simp only [seqS2r3] <;> ring1
  · simp only [seqS2r3] <;> ring1
  · simp only [seqS2r3] <;> ring1
  · simp only [seqS3r2] <;> ring1
  · simp only [seqS3r2] <;> ring1
  · simp only [seqS3r2] <;> ring1
  · simp only [seqS3r2] <;> ring1

set_option maxHeartbeats 4000000 in
/-- The phase-decorated single-excitation chain output equals the body of the source matrix, shared by the minus and plus kinds. -/
theorem smFinal {α : Type} [ Field α] [ CharZero α] (c s e : α) :
    smS1 c s e = sePhaseMatCS c s e := by
  ext r k
  obtain ⟨x1, x2⟩ := r
  obtain ⟨y1, y2⟩ := k
  simp only [smS1, sePhaseMatCS, Matrix.of_apply]
  cases x1 <;> cases x2 <;> cases y1 <;> cases y2
  · simp only [smS3r3] <;> ring1
  · simp only [smS3r3] <;> ring1
  · simp only [smS3r3] <;> ring1
  · simp only [smS3r3] <;> ring1
  · simp only [smS8r1] <;> ring1
  · simp only [smS8r1] <;> ring1
  · simp only [smS8r1] <;> ring1
  · simp only [smS8r1] <;> ring1
  · simp only [smS8r3] <;> ring1
  · simp only [smS8r3] <;> ring1
  · simp only [smS8r3] <;> ring1
  · simp only [smS8r3] <;> ring1
  · simp only [smS6r3] <;> ring1
  · simp only [smS6r3] <;> ring1
  · simp only [smS6r3] <;> ring1
  · simp only [smS6r3] <;> ring1

/-- The decomposition list of `SingleExcitation` at wires `[0, 1]`. -/
theorem seqDecompOps (phi : ℝ) :
    SingleExcitation.compute_decomposition phi [0, 1] =
      ([.CNOT [0, 1], .CRY phi [1, 0], .CNOT [0, 1]] : List (Op ℝ)) := rfl

/-- The decomposition list of `SingleExcitationMinus` at wires `[0, 1]`. -/
theorem smDecompOps (phi : ℝ) :
    SingleExcitationMinus.compute_decomposition phi [0, 1] =
      ([.PauliX 0, .PauliX 1, .ControlledPhaseShift (-phi / 2) [1, 0],
        .PauliX 0, .PauliX 1, .ControlledPhaseShift (-phi / 2) [0, 1],
        .CNOT [0, 1], .CRY phi [1, 0], .CNOT [0, 1]] : List (Op ℝ)) := rfl

/-- The decomposition list of `SingleExcitationPlus` at wires `[0, 1]`. -/
theorem spDecompOps (phi : ℝ) :
    SingleExcitationPlus.compute_decomposition phi [0, 1] =
      ([.PauliX 0, .PauliX 1, .ControlledPhaseShift (phi / 2) [1, 0],
        .PauliX 0, .PauliX 1, .ControlledPhaseShift (phi / 2) [0, 1],
        .CNOT [0, 1], .CRY phi [1, 0], .CNOT [0, 1]] : List (Op ℝ)) := rfl

/-- The decomposition list of `DoubleExcitation` at wires `[0, 1, 2, 3]`. -/
theorem deDecompOps (phi : ℝ) :
    DoubleExcitation.compute_decomposition phi [0, 1, 2, 3] =
      ([.CNOT [2, 3], .CNOT [0, 2], .Hadamard 3, .Hadamard 0, .CNOT [2, 3],
        .CNOT [0, 1], .RY (phi / 8) 1, .RY (-phi / 8) 0, .CNOT [0, 3],
        .Hadamard 3, .CNOT [3, 1], .RY (phi / 8) 1, .RY (-phi / 8) 0,
        .CNOT [2, 1], .CNOT [2, 0], .RY (-phi / 8) 1, .RY (phi / 8) 0,
        .CNOT [3, 1], .Hadamard 3, .CNOT [0, 3], .RY (-phi / 8) 1,
        .RY (phi / 8) 0, .CNOT [0, 1], .CNOT [2, 0], .Hadamard 0,
        .Hadamard 3, .CNOT [0, 2], .CNOT [2, 3]] : List (Op ℝ)) := rfl

/-- The decomposition list of `OrbitalRotation` at wires `[0, 1, 2, 3]`. -/
theorem orbDecompOps (phi : ℝ) :
    OrbitalRotation.compute_decomposition phi [0, 1, 2, 3] =
      ([.Hadamard 3, .Hadamard 2, .CNOT [3, 1], .CNOT [2, 0],
        .RY (phi / 2) 3, .RY (phi / 2) 2, .RY (phi / 2) 1, .RY (phi / 2) 0,
        .CNOT [3, 1], .CNOT [2, 0], .Hadamard 3, .Hadamard 2] : List (Op ℝ)) := rfl

set_option maxHeartbeats 1000000 in
/-- Left-to-right matrix product of the `SingleExcitation` decomposition. -/
theorem singleExcitationDecompProd (phi : ℝ) :
    (List.map gateMatrix2R (SingleExcitation.compute_decomposition phi [0, 1])).prod =
      singleExcitationMatrix phi := by
  rw [seqDecompOps]
  simp only [List.map_cons, List.map_nil, List.prod_cons, List.prod_nil, gateMatrix2R]
  rw [seqBase (Real.cos (phi / 2)) (Real.sin (phi / 2))]
  rw [seqStep2 (Real.cos (phi / 2)) (Real.sin (phi / 2))]
  rw [seqStep1 (Real.cos (phi / 2)) (Real.sin (phi / 2))]
  simp only [singleExcitationMatrix]
  exact seqFinal (Real.cos (phi / 2)) (Real.sin (phi / 2))

set_option maxHeartbeats 1000000 in
/-- Left-to-right matrix product of the `SingleExcitationMinus`
decomposition. -/
theorem singleExcitationMinusDecompProd (phi : ℝ) :
    (List.map gateMatrix2C (SingleExcitationMinus.compute_decomposition phi [0, 1])).prod =
      singleExcitationMinusMatrix phi := by
  rw [smDecompOps]
  simp only [List.map_cons, List.map_nil, List.prod_cons, List.prod_nil, gateMatrix2C]
  rw [show Complex.I * ((-phi / 2 : ℝ) : ℂ) = -Complex.I * (phi : ℂ) / 2 from by
    push_cast
    ring]
  rw [smBase ((Real.cos (phi / 2) : ℝ) : ℂ) ((Real.sin (phi / 2) : ℝ) : ℂ)
    (Complex.exp (-Complex.I * (phi : ℂ) / 2))]
  rw [smStep8 _ _ _, smStep7 _ _ _, smStep6 _ _ _, smStep5 _ _ _, smStep4 _ _ _, smStep3 _ _ _, smStep2 _ _ _, smStep1 _ _ _]
  simp only [singleExcitationMinusMatrix]
  exact smFinal ((Real.cos (phi / 2) : ℝ) : ℂ) ((Real.sin (phi / 2) : ℝ) : ℂ)
    (Complex.exp (-Complex.I * (phi : ℂ) / 2))

set_option maxHeartbeats 1000000 in
/-- Left-to-right matrix product of the `SingleExcitationPlus`
decomposition. -/
theorem singleExcitationPlusDecompProd (phi : ℝ) :
    (List.map gateMatrix2C (SingleExcitationPlus.compute_decomposition phi [0, 1])).prod =
      singleExcitationPlusMatrix phi := by
  rw [spDecompOps]
  simp only [List.map_cons, List.map_nil, List.prod_cons, List.prod_nil, gateMatrix2C]
  rw [show Complex.I * ((phi / 2 : ℝ) : ℂ) = Complex.I * (phi : ℂ) / 2 from by
    push_cast
    ring]
  rw [smBase ((Real.cos (phi / 2) : ℝ) : ℂ) ((Real.sin (phi / 2) : ℝ) : ℂ)
    (Complex.exp (Complex.I * (phi : ℂ) / 2))]
  rw [smStep8 _ _ _, smStep7 _ _ _, smStep6 _ _ _, smStep5 _ _ _, smStep4 _ _ _, smStep3 _ _ _, smStep2 _ _ _, smStep1 _ _ _]
  simp only [singleExcitationPlusMatrix]
  exact smFinal ((Real.cos (phi / 2) : ℝ) : ℂ) ((Real.sin (phi / 2) : ℝ) : ℂ)
    (Complex.exp (Complex.I * (phi : ℂ) / 2))

set_option maxHeartbeats 2000000 in
/-- Left-to-right matrix product of the `DoubleExcitation` decomposition. -/
theorem doubleExcitationDecompProd (phi : ℝ) :
    (List.map gateMatrix4R (DoubleExcitation.compute_decomposition phi [0, 1, 2, 3])).prod =
      doubleExcitationMatrix phi := by
  have hs : Real.sin (phi / 8 / 2) ^ 2 = 1 - Real.cos (phi / 8 / 2) ^ 2 := Real.sin_sq _
  have hh : INV_SQRT2 ^ 2 = (1 : ℝ) / 2 := invSqrt2_sq
  have hc8 : Real.cos (phi / 8) = 2 * Real.cos (phi / 8 / 2) ^ 2 - 1 := by
    have t := Real.cos_two_mul (phi / 8 / 2)
    rw [show (2 : ℝ) * (phi / 8 / 2) = phi / 8 from by ring] at t
    exact t
  have hc4 : Real.cos (phi / 4) = 2 * Real.cos (phi / 8) ^ 2 - 1 := by
    have t := Real.cos_two_mul (phi / 8)
    rw [show (2 : ℝ) * (phi / 8) = phi / 4 from by ring] at t
    exact t
  have hc2 : Real.cos (phi / 2) = 2 * Real.cos (phi / 4) ^ 2 - 1 := by
    have t := Real.cos_two_mul (phi / 4)
    rw [show (2 : ℝ) * (phi / 4) = phi / 2 from by ring] at t
    exact t
  have hs8 : Real.sin (phi / 8) = 2 * Real.sin (phi / 8 / 2) * Real.cos (phi / 8 / 2) := by
    have t := Real.sin_two_mul (phi / 8 / 2)
    rw [show (2 : ℝ) * (phi / 8 / 2) = phi / 8 from by ring] at t
    exact t
  have hs4 : Real.sin (phi / 4) = 2 * Real.sin (phi / 8) * Real.cos (phi / 8) := by
    have t := Real.sin_two_mul (phi / 8)
    rw [show (2 : ℝ) * (phi / 8) = phi / 4 from by ring] at t
    exact t
  have hs2 : Real.sin (phi / 2) = 2 * Real.sin (phi / 4) * Real.cos (phi / 4) := by
    have t := Real.sin_two_mul (phi / 4)
    rw [show (2 : ℝ) * (phi / 4) = phi / 2 from by ring] at t
    exact t
  have hC : Real.cos (phi / 2) = 128 * Real.cos (phi / 8 / 2)^8 + -(256) * Real.cos (phi / 8 / 2)^6 + 160 * Real.cos (phi / 8 / 2)^4 + -(32) * Real.cos (phi / 8 / 2)^2 + 1 := by
    rw [hc2, hc4, hc8]
    ring
  have hS : Real.sin (phi / 2) = 128 * Real.cos (phi / 8 / 2)^7 * Real.sin (phi / 8 / 2) + -(192) * Real.cos (phi / 8 / 2)^5 * Real.sin (phi / 8 / 2) + 80 * Real.cos (phi / 8 / 2)^3 * Real.sin (phi / 8 / 2) + -(8) * Real.cos (phi / 8 / 2) * Real.sin (phi / 8 / 2) := by
    rw [hs2, hs4, hs8, hc4, hc8]
    ring
  rw [deDecompOps]
  simp only [List.map_cons, List.map_nil, List.prod_cons, List.prod_nil, gateMatrix4R]
  simp only [show (-phi / 8 / 2 : ℝ) = -(phi / 8 / 2) from by ring, Real.cos_neg,
    Real.sin_neg]
  rw [deBase (Real.cos (phi / 8 / 2)) (Real.sin (phi / 8 / 2)) INV_SQRT2]
  rw [deStep27 _ _ _ hs hh, deStep26 _ _ _ hs hh, deStep25 _ _ _ hs hh, deStep24 _ _ _ hs hh, deStep23 _ _ _ hs hh, deStep22 _ _ _ hs hh, deStep21 _ _ _ hs hh, deStep20 _ _ _ hs hh, deStep19 _ _ _ hs hh, deStep18 _ _ _ hs hh, deStep17 _ _ _ hs hh, deStep16 _ _ _ hs hh, deStep15 _ _ _ hs hh, deStep14 _ _ _ hs hh, deStep13 _ _ _ hs hh, deStep12 _ _ _ hs hh, deStep11 _ _ _ hs hh, deStep10 _ _ _ hs hh, deStep9 _ _ _ hs hh, deStep8 _ _ _ hs hh, deStep7 _ _ _ hs hh, deStep6 _ _ _ hs hh, deStep5 _ _ _ hs hh, deStep4 _ _ _ hs hh, deStep3 _ _ _ hs hh, deStep2 _ _ _ hs hh, deStep1 _ _ _ hs hh]
  simp only [doubleExcitationMatrix]
  exact deFinal _ _ _ _ _ hs hh hC hS

set_option maxHeartbeats 2000000 in
/-- Left-to-right matrix product of the `OrbitalRotation` decomposition. -/
theorem orbitalRotationDecompProd (phi : ℝ) :
    (List.map gateMatrix4R (OrbitalRotation.compute_decomposition phi [0, 1, 2, 3])).prod =
      orbitalRotationMatrix phi := by
  have hs : Real.sin (phi / 2 / 2) ^ 2 = 1 - Real.cos (phi / 2 / 2) ^ 2 := Real.sin_sq _
  have hh : INV_SQRT2 ^ 2 = (1 : ℝ) / 2 := invSqrt2_sq
  have hC : Real.cos (phi / 2) = 2 * Real.cos (phi / 2 / 2)^2 + -(1) := by
    have t := Real.cos_two_mul (phi / 2 / 2)
    rw [show (2 : ℝ) * (phi / 2 / 2) = phi / 2 from by ring] at t
    rw [t]
    ring
  have hS : Real.sin (phi / 2) = 2 * Real.cos (phi / 2 / 2) * Real.sin (phi / 2 / 2) := by
    have t := Real.sin_two_mul (phi / 2 / 2)
    rw [show (2 : ℝ) * (phi / 2 / 2) = phi / 2 from by ring] at t
    rw [t]
    ring
  rw [orbDecompOps]
  simp only [List.map_cons, List.map_nil, List.prod_cons, List.prod_nil, gateMatrix4R]
  rw [orbBase (Real.cos (phi / 2 / 2)) (Real.sin (phi / 2 / 2)) INV_SQRT2]
  rw [orbStep11 _ _ _ hs hh, orbStep10 _ _ _ hs hh, orbStep9 _ _ _ hs hh, orbStep8 _ _ _ hs hh, orbStep7 _ _ _ hs hh, orbStep6 _ _ _ hs hh, orbStep5 _ _ _ hs hh, orbStep4 _ _ _ hs hh, orbStep3 _ _ _ hs hh, orbStep2 _ _ _ hs hh, orbStep1 _ _ _ hs hh]
  simp only [orbitalRotationMatrix]
  exact orbFinal _ _ _ _ _ hs hh hC hS

/-!
Claim theorems.
-/

/-- C1: for every procedure that emits operators `[A, B, C]` in that order,
the adjoint transform emits `[adjoint C, adjoint B, adjoint A]` in that
order into the ambient context and returns them; in general the output is
arity-preserving (N captured operators produce N output operators, order
reversed), and a single produced operator is returned as a single operator
rather than a sequence. -/
theorem claim_C1_reversal_and_arity :
    (∀ (p : Procedure ℝ) (A B C : Op ℝ) (ambient : List (Op ℝ)),
        p.emitted = [A, B, C] →
          runWrapper p ambient =
            (.several [.Adjoint C, .Adjoint B, .Adjoint A],
              ambient ++ [.Adjoint C, .Adjoint B, .Adjoint A])) ∧
    (∀ p : Procedure ℝ, p.emitted ≠ [] →
        adjointOps p = p.emitted.reverse.map Op.Adjoint ∧
          (adjointOps p).length = p.emitted.length) ∧
    (∀ (p : Procedure ℝ) (A : Op ℝ), p.emitted = [A] →
        wrapperOutput p = .single (.Adjoint A)) := by
  refine ⟨?_, ?_, ?_⟩
  · intro p A B C ambient h
    simp [runWrapper, wrapperOutput, adjointOps, tapeOps, h]
  · intro p h
    cases hem : p.emitted with
    | nil => exact absurd hem h
    | cons a l =>
        constructor
        · simp [adjointOps, tapeOps, hem]
        · simp [adjointOps, tapeOps, hem]
  · intro p A h
    simp [wrapperOutput, adjointOps, tapeOps, h]

/-- Witness for C1 at a concrete three-operator procedure and a concrete
one-operator procedure. -/
theorem claim_C1_witness :
    runWrapper
        (⟨[Op.PauliX 0, Op.Hadamard 1, Op.CNOT [0, 1]], ⟨[]⟩⟩ : Procedure ℝ) [] =
      (.several [.Adjoint (.CNOT [0, 1]), .Adjoint (.Hadamard 1), .Adjoint (.PauliX 0)],
        [.Adjoint (.CNOT [0, 1]), .Adjoint (.Hadamard 1), .Adjoint (.PauliX 0)]) ∧
    wrapperOutput (⟨[Op.PauliX 0], ⟨[]⟩⟩ : Procedure ℝ) =
      .single (.Adjoint (.PauliX 0)) := by
  constructor
  · simpa using
      claim_C1_reversal_and_arity.1 ⟨[Op.PauliX 0, Op.Hadamard 1, Op.CNOT [0, 1]], ⟨[]⟩⟩
        (Op.PauliX 0) (Op.Hadamard 1) (Op.CNOT [0, 1]) [] rfl
  · exact claim_C1_reversal_and_arity.2.2 ⟨[Op.PauliX 0], ⟨[]⟩⟩ (Op.PauliX 0) rfl

/-- C2 counterexample: nesting the transform on a single-operator procedure
yields a double `Adjoint` wrapper, whose base is `Adjoint op`, not `op`
itself, contradicting the claim (the source's own test
`test_nested_adjoint` asserts exactly this double wrapper). -/
theorem claim_C2_counterexample :
    wrapperOutput (wrapperProc (opProc (Op.SingleExcitation (0.123 : ℝ) [0, 1]))) =
      .single (.Adjoint (.Adjoint (.SingleExcitation 0.123 [0, 1]))) ∧
    (Op.Adjoint (Op.Adjoint (Op.SingleExcitation (0.123 : ℝ) [0, 1]))).base ≠
      Op.SingleExcitation 0.123 [0, 1] := by
  refine ⟨rfl, ?_⟩
  intro h
  exact Op.noConfusion h

/-- C2 amended: applying the transform twice to a single-operator procedure
yields the operator wrapped in two `Adjoint` layers; unwrapping `base`
twice recovers the operator unchanged. -/
theorem claim_C2_amended (op : Op ℝ) :
    wrapperOutput (wrapperProc (opProc op)) = .single (.Adjoint (.Adjoint op)) ∧
    (Op.Adjoint (Op.Adjoint op)).base = Op.Adjoint op ∧
    (Op.Adjoint op).base = op :=
  ⟨rfl, rfl, rfl⟩

/-- C3 counterexample: `SingleExcitation` declares a closed-form adjoint
(negating the parameter), yet the transform wraps the captured operator in
the generic `Adjoint` wrapper instead of using it: the output on the
single operator `SingleExcitation 0.123 [0, 1]` is the wrapper, which is
not the same kind with parameter `-0.123`. -/
theorem claim_C3_counterexample :
    adjointShortcut (Op.SingleExcitation (0.123 : ℝ) [0, 1]) =
      some (Op.SingleExcitation (-0.123) [0, 1]) ∧
    wrapperOutput (opProc (Op.SingleExcitation (0.123 : ℝ) [0, 1])) =
      .single (.Adjoint (.SingleExcitation 0.123 [0, 1])) ∧
    Op.Adjoint (Op.SingleExcitation (0.123 : ℝ) [0, 1]) ≠
      Op.SingleExcitation (-0.123) [0, 1] := by
  refine ⟨rfl, rfl, ?_⟩
  intro h
  exact Op.noConfusion h

/-- C3 amended: each captured operator is mapped to the generic
`Adjoint` wrapper unconditionally, even for kinds that declare a
closed-form adjoint; the transform of a single `SingleExcitation phi`
yields `Adjoint (SingleExcitation phi)` with the parameter unchanged. -/
theorem claim_C3_amended (phi : ℝ) (ws : List ℕ) :
    adjointShortcut (Op.SingleExcitation phi ws) =
      some (Op.SingleExcitation (-phi) ws) ∧
    wrapperOutput (opProc (Op.SingleExcitation phi ws)) =
      .single (.Adjoint (.SingleExcitation phi ws)) :=
  ⟨rfl, rfl⟩

/-- C4: the transform applied to a non-callable fails with the invalid
argument error before any recording occurs (the recording state is
returned untouched), and the error message names the received value's
runtime type. -/
theorem claim_C4_invalid_argument (obj : PyObject ℝ) (st : List (Op ℝ))
    (h : obj.isCallable = false) :
    adjointTransform obj st = (.error (adjointErrorMsg obj), st) ∧
    adjointErrorMsg obj =
      "The object of type " ++ obj.typeName ++
        " is not callable. This error might occur if you apply adjoint to a list of operations instead of a function or template." := by
  constructor
  · cases obj <;> simp_all [adjointTransform, PyObject.isCallable]
  · rfl

/-- Witness for C4 at a concrete list of already-constructed operators,
whose runtime type name is rendered as `list`. -/
theorem claim_C4_witness :
    (PyObject.opList [Op.PauliX 0] : PyObject ℝ).isCallable = false ∧
    (PyObject.opList [Op.PauliX 0] : PyObject ℝ).typeName = "list" ∧
    adjointTransform (PyObject.opList [Op.PauliX 0] : PyObject ℝ) [Op.Hadamard 2] =
      (.error (adjointErrorMsg (PyObject.opList [Op.PauliX 0] : PyObject ℝ)),
        ([Op.Hadamard 2] : List (Op ℝ))) :=
  ⟨rfl, rfl,
    (claim_C4_invalid_argument (PyObject.opList [Op.PauliX 0] : PyObject ℝ)
      [Op.Hadamard 2] rfl).1⟩

/-- C5: for every gate kind in this core declaring an `adjoint()` (all
seven quantum-chemistry kinds), the shortcut negates the single real
parameter, and negating the parameter conjugate-transposes the matrix:
`matrix(-phi) = matrix(phi)ᴴ` for every real `phi` (hence in particular at
`0`, `π` and `-π`). -/
theorem claim_C5_adjoint_matrices :
    ∀ (phi : ℝ) (ws : List ℕ),
      adjointShortcut (Op.SingleExcitation phi ws) =
        some (Op.SingleExcitation (-phi) ws) ∧
      adjointShortcut (Op.SingleExcitationMinus phi ws) =
        some (Op.SingleExcitationMinus (-phi) ws) ∧
      adjointShortcut (Op.SingleExcitationPlus phi ws) =
        some (Op.SingleExcitationPlus (-phi) ws) ∧
      adjointShortcut (Op.DoubleExcitation phi ws) =
        some (Op.DoubleExcitation (-phi) ws) ∧
      adjointShortcut (Op.DoubleExcitationPlus phi ws) =
        some (Op.DoubleExcitationPlus (-phi) ws) ∧
      adjointShortcut (Op.DoubleExcitationMinus phi ws) =
        some (Op.DoubleExcitationMinus (-phi) ws) ∧
      adjointShortcut (Op.OrbitalRotation phi ws) =
        some (Op.OrbitalRotation (-phi) ws) ∧
      singleExcitationMatrix (-phi) = (singleExcitationMatrix phi)ᴴ ∧
      singleExcitationMinusMatrix (-phi) = (singleExcitationMinusMatrix phi)ᴴ ∧
      singleExcitationPlusMatrix (-phi) = (singleExcitationPlusMatrix phi)ᴴ ∧
      doubleExcitationMatrix (-phi) = (doubleExcitationMatrix phi)ᴴ ∧
      doubleExcitationPlusMatrix (-phi) = (doubleExcitationPlusMatrix phi)ᴴ ∧
      doubleExcitationMinusMatrix (-phi) = (doubleExcitationMinusMatrix phi)ᴴ ∧
      orbitalRotationMatrix (-phi) = (orbitalRotationMatrix phi)ᴴ :=
  fun phi ws =>
    ⟨rfl, rfl, rfl, rfl, rfl, rfl, rfl,
      singleExcitationMatrix_neg phi, singleExcitationMinusMatrix_neg phi,
      singleExcitationPlusMatrix_neg phi, doubleExcitationMatrix_neg phi,
      doubleExcitationPlusMatrix_neg phi, doubleExcitationMinusMatrix_neg phi,
      orbitalRotationMatrix_neg phi⟩

/-- C6: for every kind exposing `compute_decomposition` and for the
parameter values `1.23` and `0`, the left-to-right matrix product of the
decomposition sequence equals the kind's matrix (exactly, so in
particular up to a global phase). -/
theorem claim_C6_decomposition_products :
    ((List.map gateMatrix2R (SingleExcitation.compute_decomposition (1.23 : ℝ) [0, 1])).prod =
        singleExcitationMatrix 1.23) ∧
    ((List.map gateMatrix2R (SingleExcitation.compute_decomposition (0 : ℝ) [0, 1])).prod =
        singleExcitationMatrix 0) ∧
    ((List.map gateMatrix2C (SingleExcitationMinus.compute_decomposition (1.23 : ℝ) [0, 1])).prod =
        singleExcitationMinusMatrix 1.23) ∧
    ((List.map gateMatrix2C (SingleExcitationMinus.compute_decomposition (0 : ℝ) [0, 1])).prod =
        singleExcitationMinusMatrix 0) ∧
    ((List.map gateMatrix2C (SingleExcitationPlus.compute_decomposition (1.23 : ℝ) [0, 1])).prod =
        singleExcitationPlusMatrix 1.23) ∧
    ((List.map gateMatrix2C (SingleExcitationPlus.compute_decomposition (0 : ℝ) [0, 1])).prod =
        singleExcitationPlusMatrix 0) ∧
    ((List.map gateMatrix4R (DoubleExcitation.compute_decomposition (1.23 : ℝ) [0, 1, 2, 3])).prod =
        doubleExcitationMatrix 1.23) ∧
    ((List.map gateMatrix4R (DoubleExcitation.compute_decomposition (0 : ℝ) [0, 1, 2, 3])).prod =
        doubleExcitationMatrix 0) ∧
    ((List.map gateMatrix4R (OrbitalRotation.compute_decomposition (1.23 : ℝ) [0, 1, 2, 3])).prod =
        orbitalRotationMatrix 1.23) ∧
    ((List.map gateMatrix4R (OrbitalRotation.compute_decomposition (0 : ℝ) [0, 1, 2, 3])).prod =
        orbitalRotationMatrix 0) :=
  ⟨singleExcitationDecompProd 1.23, singleExcitationDecompProd 0,
    singleExcitationMinusDecompProd 1.23, singleExcitationMinusDecompProd 0,
    singleExcitationPlusDecompProd 1.23, singleExcitationPlusDecompProd 0,
    doubleExcitationDecompProd 1.23, doubleExcitationDecompProd 0,
    orbitalRotationDecompProd 1.23, orbitalRotationDecompProd 0⟩

/-- C7: `compute_decomposition 1.23 [0, 1]` of the single-excitation-minus
kind is exactly the nine-operator sequence of the claim, in order. -/
theorem claim_C7_minus_decomposition :
    SingleExcitationMinus.compute_decomposition (1.23 : ℝ) [0, 1] =
      ([.PauliX 0, .PauliX 1, .ControlledPhaseShift (-0.615) [1, 0],
        .PauliX 0, .PauliX 1, .ControlledPhaseShift (-0.615) [0, 1],
        .CNOT [0, 1], .CRY 1.23 [1, 0], .CNOT [0, 1]] : List (Op ℝ)) := by
  norm_num [SingleExcitationMinus.compute_decomposition]

/-- C8: asking `DoubleExcitationPlus` or `DoubleExcitationMinus` to
decompose surfaces the decomposition-undefined condition, propagated to
the caller; it never returns a sequence (empty or otherwise). -/
theorem claim_C8_decomposition_undefined :
    ∀ (phi : ℝ) (ws : List ℕ),
      Op.decompose (Op.DoubleExcitationPlus phi ws) = .error .decompositionUndefined ∧
      Op.decompose (Op.DoubleExcitationMinus phi ws) = .error .decompositionUndefined ∧
      (∀ l : List (Op ℝ), Op.decompose (Op.DoubleExcitationPlus phi ws) ≠ .ok l) ∧
      (∀ l : List (Op ℝ), Op.decompose (Op.DoubleExcitationMinus phi ws) ≠ .ok l) := by
  intro phi ws
  refine ⟨rfl, rfl, ?_, ?_⟩
  · intro l h
    simp [Op.decompose] at h
  · intro l h
    simp [Op.decompose] at h

/-- C9: if the procedure emits nothing onto the inner tape, its returned
tape is used as the operation sequence: the transform still produces the
reversed, elementwise-adjointed sequence of the returned operations, both
as its value and as what it emits into the ambient context. -/
theorem claim_C9_empty_tape_fallback (p : Procedure ℝ) (h : p.emitted = []) :
    adjointOps p = p.result.operations.reverse.map Op.Adjoint ∧
    (∀ ambient : List (Op ℝ),
      (runWrapper p ambient).2 = ambient ++ p.result.operations.reverse.map Op.Adjoint) := by
  constructor
  · simp [adjointOps, tapeOps, h]
  · intro ambient
    simp [runWrapper, adjointOps, tapeOps, h]

/-- Witness for C9 at a concrete procedure that emits nothing and returns
a two-operator tape. -/
theorem claim_C9_witness :
    adjointOps (⟨[], ⟨[Op.PauliX 0, Op.Hadamard 1]⟩⟩ : Procedure ℝ) =
      [.Adjoint (.Hadamard 1), .Adjoint (.PauliX 0)] := by
  have h := claim_C9_empty_tape_fallback (⟨[], ⟨[Op.PauliX 0, Op.Hadamard 1]⟩⟩ : Procedure ℝ) rfl
  simpa using h.1

/-- C10: calling the `adjoint()` method on any of the seven kinds leaves
the receiver unchanged (the post-call receiver state is the receiver
itself: the bodies only read `parameters` and `wires`) and returns a
freshly constructed operator of the same kind, negated parameter, same
wires. -/
theorem claim_C10_adjoint_frame :
    ∀ (phi : ℝ) (ws : List ℕ),
      adjointCall (Op.SingleExcitation phi ws) =
        some (Op.SingleExcitation phi ws, Op.SingleExcitation (-phi) ws) ∧
      adjointCall (Op.SingleExcitationMinus phi ws) =
        some (Op.SingleExcitationMinus phi ws, Op.SingleExcitationMinus (-phi) ws) ∧
      adjointCall (Op.SingleExcitationPlus phi ws) =
        some (Op.SingleExcitationPlus phi ws, Op.SingleExcitationPlus (-phi) ws) ∧
      adjointCall (Op.DoubleExcitation phi ws) =
        some (Op.DoubleExcitation phi ws, Op.DoubleExcitation (-phi) ws) ∧
      adjointCall (Op.DoubleExcitationPlus phi ws) =
        some (Op.DoubleExcitationPlus phi ws, Op.DoubleExcitationPlus (-phi) ws) ∧
      adjointCall (Op.DoubleExcitationMinus phi ws) =
        some (Op.DoubleExcitationMinus phi ws, Op.DoubleExcitationMinus (-phi) ws) ∧
      adjointCall (Op.OrbitalRotation phi ws) =
        some (Op.OrbitalRotation phi ws, Op.OrbitalRotation (-phi) ws) :=
  fun phi ws => ⟨rfl, rfl, rfl, rfl, rfl, rfl, rfl⟩
